import Mathlib

/-!
LIP (Latency Information Protocol) over CEC: a shallow embedding of libcec.

The definitions below follow `dlb_lip.c`, `dlb_lip_cache.c`, `dlb_lip_cmd_builder.c`,
`dlb_lip_osa.c` and the headers `dlb_lip.h`, `dlb_lip_types.h`, `dlb_lip_cec_bus.h`.

Conventions of the embedding:
* C enums and `uint8_t`/`uint32_t` values are `Nat`; a store into a `uint8_t` cell is
  taken modulo 256, 32-bit arithmetic modulo 2^32.  Logical addresses are `Int`
  because `DLB_LOGICAL_ADDR_UNKNOWN` is -1.
* C arrays indexed by a logical address are total functions on `Int`; the C array is
  the part with index 0..15 and every loop of the source scans exactly 0..15.
* The `data[64]` buffer of a CEC frame is a `List Nat`; `data[i]` is `getD i 0`.
* The core is a value of type `dlb_lip`; every function returns the new core.  The
  frames handed to the bus transmit callback are appended to the field `tx`.
* The monotonic clock is read once per step and passed as `now`.
* A failing `assert` stops the program unless the build defines `NDEBUG`.  The two
  inline functions of `dlb_lip_types.h` whose `default` branch is an assertion,
  `dlb_lip_get_hdr_mode_from_video_format` and `get_value_from_hdr_mode`, and the
  functions of the cache and of the command builder that call them on an argument of
  their caller, return an `Option`: `none` is the failed assertion.  Each of them has
  a second definition `*_ndebug` for the build with `NDEBUG`, and the two agree
  wherever no assertion fails.  The functions of `dlb_lip.c` are defined with the
  `*_ndebug` variants: they pass either a format that `lip_is_video_format_valid`
  has accepted or the remembered format `req_video_format`, which is valid in every
  reachable core, so that no call of the core reaches the assertion (theorems
  `valid_format_assertion_free`, `reachable_req_video_valid` and
  `reachable_assertion_free`).
-/

set_option autoImplicit false

namespace Lip

/-! ## dlb_lip_cec_bus.h -/

abbrev DLB_LOGICAL_ADDR_UNKNOWN : Int := -1
abbrev DLB_LOGICAL_ADDR_TV : Int := 0
abbrev DLB_LOGICAL_ADDR_AUDIOSYSTEM : Int := 5
abbrev DLB_LOGICAL_ADDR_BROADCAST : Int := 15

abbrev CEC_BUS_MAX_MSG_LENGTH : Nat := 64

abbrev DLB_CEC_OPCODE_FEATURE_ABORT : Nat := 0x00
abbrev DLB_CEC_OPCODE_VENDOR_COMMAND_WITH_ID : Nat := 0xA0
abbrev DLB_CEC_OPCODE_NONE : Nat := 0xFD

abbrev DLB_CEC_ABORT_REASON_UNRECOGNIZED_OPCODE : Nat := 0
abbrev DLB_CEC_ABORT_REASON_NOT_IN_CORRECT_MODE_TO_RESPOND : Nat := 1
abbrev DLB_CEC_ABORT_REASON_CANNOT_PROVIDE_SOURCE : Nat := 2
abbrev DLB_CEC_ABORT_REASON_INVALID_OPERAND : Nat := 3
abbrev DLB_CEC_ABORT_REASON_REFUSED : Nat := 4

/-- The struct `dlb_cec_message_t`. -/
structure dlb_cec_message where
  initiator : Int
  destination : Int
  opcode : Nat
  data : List Nat
  msg_length : Nat
deriving DecidableEq, Repr

/-- The zero-initialised frame `{ 0 }`. -/
def empty_msg : dlb_cec_message :=
  { initiator := 0, destination := 0, opcode := 0,
    data := List.replicate CEC_BUS_MAX_MSG_LENGTH 0, msg_length := 0 }

/-- The read `command->data[i]`. -/
def dlb_cec_message.byte (command : dlb_cec_message) (i : Nat) : Nat :=
  command.data.getD i 0

/-! ## dlb_lip.h -/

abbrev MAX_VICS : Nat := 219
abbrev MAX_AUDIO_FORMAT_EXTENSIONS : Nat := 32
abbrev MAX_UPSTREAM_DEVICES_COUNT : Nat := 16
abbrev LIP_INVALID_LATENCY : Nat := 255
abbrev LIP_PROTOCOL_VERSION : Nat := 0

abbrev LIP_COLOR_FORMAT_HDR_STATIC : Nat := 0
abbrev LIP_COLOR_FORMAT_HDR_DYNAMIC : Nat := 1
abbrev LIP_COLOR_FORMAT_DOLBY_VISION : Nat := 2
abbrev LIP_COLOR_FORMAT_COUNT : Nat := 3

abbrev LIP_HDR_STATIC_COUNT : Nat := 4
abbrev LIP_HDR_DYNAMIC_COUNT : Nat := 4
abbrev LIP_HDR_DOLBY_VISION_COUNT : Nat := 2
/-- The macro `HDR_MODES_COUNT`, the maximum of the three mode counts. -/
abbrev HDR_MODES_COUNT : Nat :=
  max LIP_HDR_STATIC_COUNT (max LIP_HDR_DYNAMIC_COUNT LIP_HDR_DOLBY_VISION_COUNT)

abbrev PCM : Nat := 0
abbrev IEC61937_AC3 : Nat := 1
abbrev IEC61937_EAC3 : Nat := 21
abbrev IEC61937_MAT : Nat := 22
abbrev IEC61937_AUDIO_CODECS : Nat := 32
abbrev IEC61937_SUBTYPE_0 : Nat := 0
abbrev IEC61937_SUBTYPES : Nat := 4

/-- The struct `dlb_lip_audio_format_t`. -/
structure dlb_lip_audio_format where
  codec : Nat
  subtype : Nat
  ext : Nat
deriving DecidableEq, Repr

/-- The struct `dlb_lip_video_format_t`; the union `hdr_mode` is one enum cell. -/
structure dlb_lip_video_format where
  vic : Nat
  color_format : Nat
  hdr_mode : Nat
deriving DecidableEq, Repr

abbrev LIP_VIDEO_RENDERER : Nat := 2
abbrev LIP_AUDIO_RENDERER : Nat := 4

/-- The struct `dlb_lip_config_params_t`. -/
structure dlb_lip_config_params where
  downstream_device_addr : Int
  uuid : Nat
  render_mode : Nat
  video_latencies : Nat → Nat → Nat → Nat
  audio_latencies : Nat → Nat → Nat → Nat
  audio_transcoding : Bool
  audio_transcoding_format : dlb_lip_audio_format

abbrev LIP_DOWNSTREAM_CONNECTED : Nat := 1
abbrev LIP_UPSTREAM_CONNECTED : Nat := 2

/-- The struct `dlb_lip_status_t`. -/
structure dlb_lip_status where
  status : Nat
  downstream_device_addr : Int
  downstream_device_uuid : Nat
  upstream_devices_addresses : List Int
deriving DecidableEq, Repr

/-! ## dlb_lip_types.h -/

abbrev DOLBY_VENDOR_ID : List Nat := [0x00, 0xD0, 0x46]

/-- The enum `lip_state_t`. -/
inductive lip_state where
  | LIP_INIT
  | LIP_WAIT_FOR_REPLY
  | LIP_SUPPORTED
  | LIP_UNSUPPORTED
deriving DecidableEq, Repr

abbrev LIP_OPCODE_REQUEST_LIP_SUPPORT : Nat := 0x10
abbrev LIP_OPCODE_REPORT_LIP_SUPPORT : Nat := 0x11
abbrev LIP_OPCODE_REQUEST_AV_LATENCY : Nat := 0x12
abbrev LIP_OPCODE_REPORT_AV_LATENCY : Nat := 0x13
abbrev LIP_OPCODE_REQUEST_AUDIO_LATENCY : Nat := 0x14
abbrev LIP_OPCODE_REPORT_AUDIO_LATENCY : Nat := 0x15
abbrev LIP_OPCODE_REQUEST_VIDEO_LATENCY : Nat := 0x16
abbrev LIP_OPCODE_REPORT_VIDEO_LATENCY : Nat := 0x17
abbrev LIP_OPCODE_UPDATE_UUID : Nat := 0x18
abbrev LIP_OPCODES : Nat := 0x19

/-- The enum `dlb_lip_latency_type_t`. -/
inductive dlb_lip_latency_type where
  | LIP_OWN_LATENCY
  | LIP_DOWNSTREAM_LATENCY
  | LIP_TOTAL_LATENCY
deriving DecidableEq, Repr

/-- The enum `dlb_lip_pending_message_state_t`. -/
inductive dlb_lip_pending_message_state where
  | LIP_MESSAGE_PENDING
  | LIP_MESSAGE_SENT
  | LIP_MESSAGE_ABORT_RECEIVED
  | LIP_MESSAGE_ANSWER_RECEIVED
  | LIP_MESSAGE_HANDLED
deriving DecidableEq, Repr

/-- The struct `dlb_lip_pending_message_t`. -/
structure dlb_lip_pending_message where
  msg : dlb_cec_message
  state : dlb_lip_pending_message_state
  expire_time_ms : Nat
deriving DecidableEq, Repr

/-- The inline function `dlb_lip_get_hdr_mode_from_video_format`.  The default branch of
its `switch` is `assert(!"Invalid color format")`: for a colour format other than the
three enumerators the call stops the program there and returns nothing, which is the
result `none`. -/
def dlb_lip_get_hdr_mode_from_video_format (video_format : dlb_lip_video_format) :
    Option Nat :=
  if video_format.color_format = LIP_COLOR_FORMAT_HDR_STATIC then
    some ((if video_format.hdr_mode ≥ LIP_HDR_STATIC_COUNT then HDR_MODES_COUNT
      else video_format.hdr_mode) % 256)
  else if video_format.color_format = LIP_COLOR_FORMAT_HDR_DYNAMIC then
    some ((if video_format.hdr_mode ≥ LIP_HDR_DYNAMIC_COUNT then HDR_MODES_COUNT
      else video_format.hdr_mode) % 256)
  else if video_format.color_format = LIP_COLOR_FORMAT_DOLBY_VISION then
    some ((if video_format.hdr_mode ≥ LIP_HDR_DOLBY_VISION_COUNT then HDR_MODES_COUNT
      else video_format.hdr_mode) % 256)
  else none

/-- The inline function `dlb_lip_get_hdr_mode_from_video_format` as compiled with
`NDEBUG`, where `assert` expands to nothing: the default branch falls through to
`return hdr_mode` with the initial value `HDR_MODES_COUNT`. -/
def dlb_lip_get_hdr_mode_from_video_format_ndebug (video_format : dlb_lip_video_format) :
    Nat :=
  if video_format.color_format = LIP_COLOR_FORMAT_HDR_STATIC then
    (if video_format.hdr_mode ≥ LIP_HDR_STATIC_COUNT then HDR_MODES_COUNT
      else video_format.hdr_mode) % 256
  else if video_format.color_format = LIP_COLOR_FORMAT_HDR_DYNAMIC then
    (if video_format.hdr_mode ≥ LIP_HDR_DYNAMIC_COUNT then HDR_MODES_COUNT
      else video_format.hdr_mode) % 256
  else if video_format.color_format = LIP_COLOR_FORMAT_DOLBY_VISION then
    (if video_format.hdr_mode ≥ LIP_HDR_DOLBY_VISION_COUNT then HDR_MODES_COUNT
      else video_format.hdr_mode) % 256
  else HDR_MODES_COUNT

abbrev HDR_STATIC_OFFSET : Nat := 0
abbrev HDR_DYNAMIC_OFFSET : Nat := 64
abbrev DOLBY_VISION_OFFSET : Nat := 128

/-- The inline function `get_hdr_mode_from_value_value`: the return code and the
video format after the write through the pointer (the `vic` is kept). -/
def get_hdr_mode_from_value_value (value : Nat) (video_format : dlb_lip_video_format) :
    Nat × dlb_lip_video_format :=
  if value = HDR_STATIC_OFFSET + 0 then
    (0, { video_format with color_format := LIP_COLOR_FORMAT_HDR_STATIC, hdr_mode := 0 })
  else if value = HDR_STATIC_OFFSET + 1 then
    (0, { video_format with color_format := LIP_COLOR_FORMAT_HDR_STATIC, hdr_mode := 1 })
  else if value = HDR_STATIC_OFFSET + 2 then
    (0, { video_format with color_format := LIP_COLOR_FORMAT_HDR_STATIC, hdr_mode := 2 })
  else if value = HDR_STATIC_OFFSET + 3 then
    (0, { video_format with color_format := LIP_COLOR_FORMAT_HDR_STATIC, hdr_mode := 3 })
  else if value = HDR_DYNAMIC_OFFSET + 0 then
    (0, { video_format with color_format := LIP_COLOR_FORMAT_HDR_DYNAMIC, hdr_mode := 0 })
  else if value = HDR_DYNAMIC_OFFSET + 1 then
    (0, { video_format with color_format := LIP_COLOR_FORMAT_HDR_DYNAMIC, hdr_mode := 1 })
  else if value = HDR_DYNAMIC_OFFSET + 2 then
    (0, { video_format with color_format := LIP_COLOR_FORMAT_HDR_DYNAMIC, hdr_mode := 2 })
  else if value = HDR_DYNAMIC_OFFSET + 3 then
    (0, { video_format with color_format := LIP_COLOR_FORMAT_HDR_DYNAMIC, hdr_mode := 3 })
  else if value = DOLBY_VISION_OFFSET + 0 then
    (0, { video_format with color_format := LIP_COLOR_FORMAT_DOLBY_VISION, hdr_mode := 0 })
  else if value = DOLBY_VISION_OFFSET + 1 then
    (0, { video_format with color_format := LIP_COLOR_FORMAT_DOLBY_VISION, hdr_mode := 1 })
  else
    (1, { video_format with color_format := LIP_COLOR_FORMAT_COUNT,
                            hdr_mode := LIP_HDR_STATIC_COUNT })

/-- The inline function `get_value_from_hdr_mode`.  The default branch of its `switch`
is `assert(!"Invalid color format")`: for a colour format other than the three
enumerators the call stops the program there, which is the result `none`. -/
def get_value_from_hdr_mode (video_format : dlb_lip_video_format) : Option Nat :=
  if video_format.color_format = LIP_COLOR_FORMAT_HDR_STATIC then
    some ((video_format.hdr_mode + HDR_STATIC_OFFSET) % 256)
  else if video_format.color_format = LIP_COLOR_FORMAT_HDR_DYNAMIC then
    some ((video_format.hdr_mode + HDR_DYNAMIC_OFFSET) % 256)
  else if video_format.color_format = LIP_COLOR_FORMAT_DOLBY_VISION then
    some ((video_format.hdr_mode + DOLBY_VISION_OFFSET) % 256)
  else none

/-- The inline function `get_value_from_hdr_mode` as compiled with `NDEBUG`: the default
branch falls through to `return value` with the initial value 0. -/
def get_value_from_hdr_mode_ndebug (video_format : dlb_lip_video_format) : Nat :=
  if video_format.color_format = LIP_COLOR_FORMAT_HDR_STATIC then
    (video_format.hdr_mode + HDR_STATIC_OFFSET) % 256
  else if video_format.color_format = LIP_COLOR_FORMAT_HDR_DYNAMIC then
    (video_format.hdr_mode + HDR_DYNAMIC_OFFSET) % 256
  else if video_format.color_format = LIP_COLOR_FORMAT_DOLBY_VISION then
    (video_format.hdr_mode + DOLBY_VISION_OFFSET) % 256
  else 0

/-! ## dlb_lip_cache.c -/

/-- The struct `dlb_latency_cache_t`. -/
structure dlb_latency_cache where
  cache_enabled : Bool
  video_latencies : Nat → Nat → Nat → Nat
  video_latencies_valid : Nat → Nat → Nat → Bool
  audio_latencies : Nat → Nat → Nat → Nat
  audio_latencies_valid : Nat → Nat → Nat → Bool

/-- The function `dlb_cache_clear`: the loops overwrite every cell of the arrays. -/
def dlb_cache_clear (c : dlb_latency_cache) (clear_audio clear_video : Bool) :
    dlb_latency_cache :=
  let c1 : dlb_latency_cache :=
    if clear_video then
      { c with
        video_latencies := fun vic cf hm =>
          if vic < MAX_VICS ∧ cf < LIP_COLOR_FORMAT_COUNT ∧ hm < HDR_MODES_COUNT
          then LIP_INVALID_LATENCY else c.video_latencies vic cf hm,
        video_latencies_valid := fun vic cf hm =>
          if vic < MAX_VICS ∧ cf < LIP_COLOR_FORMAT_COUNT ∧ hm < HDR_MODES_COUNT
          then false else c.video_latencies_valid vic cf hm }
    else c
  if clear_audio then
    { c1 with
      audio_latencies := fun codec st ext =>
        if codec < IEC61937_AUDIO_CODECS ∧ st < IEC61937_SUBTYPES
            ∧ ext < MAX_AUDIO_FORMAT_EXTENSIONS
        then LIP_INVALID_LATENCY else c1.audio_latencies codec st ext,
      audio_latencies_valid := fun codec st ext =>
        if codec < IEC61937_AUDIO_CODECS ∧ st < IEC61937_SUBTYPES
            ∧ ext < MAX_AUDIO_FORMAT_EXTENSIONS
        then false else c1.audio_latencies_valid codec st ext }
  else c1

/-- The function `dlb_cache_init`. -/
def dlb_cache_init (c : dlb_latency_cache) (enabled : Bool) : dlb_latency_cache :=
  dlb_cache_clear { c with cache_enabled := enabled } true true

/-- The function `dlb_cache_validate_audio_params`. -/
def dlb_cache_validate_audio_params (audio_format subtype extension : Nat) : Bool :=
  decide (audio_format < IEC61937_AUDIO_CODECS) && decide (subtype < IEC61937_SUBTYPES)
    && decide (extension < MAX_AUDIO_FORMAT_EXTENSIONS)

/-- The function `dlb_cache_get_audio_latency`: the return value and the cell behind
the `latency` pointer after the call. -/
def dlb_cache_get_audio_latency (c : dlb_latency_cache) (audio_format : dlb_lip_audio_format)
    (latency : Nat) : Bool × Nat :=
  if c.cache_enabled then
    if dlb_cache_validate_audio_params audio_format.codec audio_format.subtype audio_format.ext then
      if c.audio_latencies_valid audio_format.codec audio_format.subtype audio_format.ext then
        (true, c.audio_latencies audio_format.codec audio_format.subtype audio_format.ext)
      else (false, latency)
    else (false, latency)
  else (false, latency)

/-- The function `dlb_cache_set_audio_latency`. -/
def dlb_cache_set_audio_latency (c : dlb_latency_cache) (audio_format : dlb_lip_audio_format)
    (latency : Nat) : dlb_latency_cache :=
  if dlb_cache_validate_audio_params audio_format.codec audio_format.subtype audio_format.ext then
    { c with
      audio_latencies := fun codec st ext =>
        if codec = audio_format.codec ∧ st = audio_format.subtype ∧ ext = audio_format.ext
        then latency % 256 else c.audio_latencies codec st ext,
      audio_latencies_valid := fun codec st ext =>
        if codec = audio_format.codec ∧ st = audio_format.subtype ∧ ext = audio_format.ext
        then true else c.audio_latencies_valid codec st ext }
  else c

/-- The function `dlb_cache_validate_video_params`.  The operands of `&&` are evaluated
from the left, so `dlb_lip_get_hdr_mode_from_video_format` is called only when
`vic < MAX_VICS` and `color_format <= LIP_COLOR_FORMAT_COUNT` hold; `none` is the failed
assertion of that call. -/
def dlb_cache_validate_video_params (video_format : dlb_lip_video_format) : Option Bool :=
  if video_format.vic < MAX_VICS then
    if video_format.color_format ≤ LIP_COLOR_FORMAT_COUNT then
      match dlb_lip_get_hdr_mode_from_video_format video_format with
      | none => none
      | some hdr_mode => some (decide (hdr_mode ≠ HDR_MODES_COUNT))
    else some false
  else some false

/-- The function `dlb_cache_get_video_latency`: the return value and the cell behind the
`latency` pointer after the call, or `none` when the call stops at the assertion. -/
def dlb_cache_get_video_latency (c : dlb_latency_cache) (video_format : dlb_lip_video_format)
    (latency : Nat) : Option (Bool × Nat) :=
  if c.cache_enabled then
    match dlb_cache_validate_video_params video_format with
    | none => none
    | some false => some (false, latency)
    | some true =>
      match dlb_lip_get_hdr_mode_from_video_format video_format with
      | none => none
      | some hdr_mode =>
        if c.video_latencies_valid video_format.vic video_format.color_format hdr_mode then
          some (true, c.video_latencies video_format.vic video_format.color_format hdr_mode)
        else some (false, latency)
  else some (false, latency)

/-- The function `dlb_cache_set_video_latency`: the cache after the call, or `none` when
the call stops at the assertion. -/
def dlb_cache_set_video_latency (c : dlb_latency_cache) (video_format : dlb_lip_video_format)
    (latency : Nat) : Option dlb_latency_cache :=
  match dlb_cache_validate_video_params video_format with
  | none => none
  | some false => some c
  | some true =>
    match dlb_lip_get_hdr_mode_from_video_format video_format with
    | none => none
    | some hdr_mode =>
      some { c with
        video_latencies := fun vic cf hm =>
          if vic = video_format.vic ∧ cf = video_format.color_format ∧ hm = hdr_mode
          then latency % 256 else c.video_latencies vic cf hm,
        video_latencies_valid := fun vic cf hm =>
          if vic = video_format.vic ∧ cf = video_format.color_format ∧ hm = hdr_mode
          then true else c.video_latencies_valid vic cf hm }

/-- The function `dlb_cache_validate_video_params` as compiled with `NDEBUG`. -/
def dlb_cache_validate_video_params_ndebug (video_format : dlb_lip_video_format) : Bool :=
  decide (video_format.vic < MAX_VICS)
    && decide (video_format.color_format ≤ LIP_COLOR_FORMAT_COUNT)
    && decide (dlb_lip_get_hdr_mode_from_video_format_ndebug video_format ≠ HDR_MODES_COUNT)

/-- The function `dlb_cache_get_video_latency` as compiled with `NDEBUG`: the return
value and the cell behind the `latency` pointer after the call. -/
def dlb_cache_get_video_latency_ndebug (c : dlb_latency_cache)
    (video_format : dlb_lip_video_format) (latency : Nat) : Bool × Nat :=
  if c.cache_enabled then
    if dlb_cache_validate_video_params_ndebug video_format then
      if c.video_latencies_valid video_format.vic video_format.color_format
          (dlb_lip_get_hdr_mode_from_video_format_ndebug video_format) then
        (true, c.video_latencies video_format.vic video_format.color_format
          (dlb_lip_get_hdr_mode_from_video_format_ndebug video_format))
      else (false, latency)
    else (false, latency)
  else (false, latency)

/-- The function `dlb_cache_set_video_latency` as compiled with `NDEBUG`. -/
def dlb_cache_set_video_latency_ndebug (c : dlb_latency_cache)
    (video_format : dlb_lip_video_format) (latency : Nat) : dlb_latency_cache :=
  if dlb_cache_validate_video_params_ndebug video_format then
    { c with
      video_latencies := fun vic cf hm =>
        if vic = video_format.vic ∧ cf = video_format.color_format
            ∧ hm = dlb_lip_get_hdr_mode_from_video_format_ndebug video_format
        then latency % 256 else c.video_latencies vic cf hm,
      video_latencies_valid := fun vic cf hm =>
        if vic = video_format.vic ∧ cf = video_format.color_format
            ∧ hm = dlb_lip_get_hdr_mode_from_video_format_ndebug video_format
        then true else c.video_latencies_valid vic cf hm }
  else c

/-! ## dlb_lip_cmd_builder.c -/

/-- The statement `command->data[command->msg_length++] = b` on a `uint8_t` cell. -/
def put_byte (command : dlb_cec_message) (b : Nat) : dlb_cec_message :=
  { command with data := command.data.set command.msg_length (b % 256),
                 msg_length := (command.msg_length + 1) % 256 }

/-- The function `dlb_lip_set_dolby_vendor_id`. -/
def dlb_lip_set_dolby_vendor_id (command : dlb_cec_message) : dlb_cec_message :=
  put_byte (put_byte (put_byte command (DOLBY_VENDOR_ID.getD 0 0)) (DOLBY_VENDOR_ID.getD 1 0))
    (DOLBY_VENDOR_ID.getD 2 0)

/-- The function `lip_init_cec_command`. -/
def lip_init_cec_command (command : dlb_cec_message) (initiator destination : Int) :
    dlb_cec_message :=
  dlb_lip_set_dolby_vendor_id
    { command with initiator := initiator, destination := destination,
                   opcode := DLB_CEC_OPCODE_VENDOR_COMMAND_WITH_ID, msg_length := 0 }

/-- The function `lip_build_abort_cec_command`. -/
def lip_build_abort_cec_command (command : dlb_cec_message) (initiator destination : Int)
    (opcode reason : Nat) : dlb_cec_message :=
  put_byte (put_byte
    { command with initiator := initiator, destination := destination,
                   opcode := DLB_CEC_OPCODE_FEATURE_ABORT, msg_length := 0 } opcode) reason

/-- The function `dlb_lip_build_request_lip_support`. -/
def dlb_lip_build_request_lip_support (command : dlb_cec_message) (initiator destination : Int) :
    dlb_cec_message :=
  put_byte (lip_init_cec_command command initiator destination) LIP_OPCODE_REQUEST_LIP_SUPPORT

/-- The byte `(uint8_t)(audio_format.ext << 2 | audio_format.subtype)`. -/
def audio_ext_byte (audio_format : dlb_lip_audio_format) : Nat :=
  ((audio_format.ext % 256 * 4) ||| audio_format.subtype) % 256

/-- The function `dlb_lip_build_request_av_latency`: the frame behind `command` after
the call, or `none` when the call of `get_value_from_hdr_mode` stops at its assertion. -/
def dlb_lip_build_request_av_latency (command : dlb_cec_message) (initiator destination : Int)
    (video_format : dlb_lip_video_format) (audio_format : dlb_lip_audio_format) :
    Option dlb_cec_message :=
  let c := put_byte (lip_init_cec_command command initiator destination)
    LIP_OPCODE_REQUEST_AV_LATENCY
  let c := put_byte c video_format.vic
  match get_value_from_hdr_mode video_format with
  | none => none
  | some value =>
    let c := put_byte c value
    let c := put_byte c audio_format.codec
    if audio_format.ext ≠ 0 ∨ audio_format.subtype ≠ IEC61937_SUBTYPE_0 then
      some (put_byte c (audio_ext_byte audio_format))
    else some c

/-- The function `dlb_lip_build_request_av_latency` as compiled with `NDEBUG`. -/
def dlb_lip_build_request_av_latency_ndebug (command : dlb_cec_message)
    (initiator destination : Int) (video_format : dlb_lip_video_format)
    (audio_format : dlb_lip_audio_format) : dlb_cec_message :=
  let c := put_byte (lip_init_cec_command command initiator destination)
    LIP_OPCODE_REQUEST_AV_LATENCY
  let c := put_byte c video_format.vic
  let c := put_byte c (get_value_from_hdr_mode_ndebug video_format)
  let c := put_byte c audio_format.codec
  if audio_format.ext ≠ 0 ∨ audio_format.subtype ≠ IEC61937_SUBTYPE_0 then
    put_byte c (audio_ext_byte audio_format)
  else c

/-- The function `dlb_lip_build_request_audio_latency`. -/
def dlb_lip_build_request_audio_latency (command : dlb_cec_message)
    (initiator destination : Int) (audio_format : dlb_lip_audio_format) : dlb_cec_message :=
  let c := put_byte (lip_init_cec_command command initiator destination)
    LIP_OPCODE_REQUEST_AUDIO_LATENCY
  let c := put_byte c audio_format.codec
  if audio_format.ext ≠ 0 ∨ audio_format.subtype ≠ IEC61937_SUBTYPE_0 then
    put_byte c (audio_ext_byte audio_format)
  else c

/-- The function `dlb_lip_build_request_video_latency`: the frame behind `command` after
the call, or `none` when the call of `get_value_from_hdr_mode` stops at its assertion. -/
def dlb_lip_build_request_video_latency (command : dlb_cec_message)
    (initiator destination : Int) (video_format : dlb_lip_video_format) :
    Option dlb_cec_message :=
  let c := put_byte (lip_init_cec_command command initiator destination)
    LIP_OPCODE_REQUEST_VIDEO_LATENCY
  let c := put_byte c video_format.vic
  match get_value_from_hdr_mode video_format with
  | none => none
  | some value => some (put_byte c value)

/-- The function `dlb_lip_build_request_video_latency` as compiled with `NDEBUG`. -/
def dlb_lip_build_request_video_latency_ndebug (command : dlb_cec_message)
    (initiator destination : Int) (video_format : dlb_lip_video_format) : dlb_cec_message :=
  let c := put_byte (lip_init_cec_command command initiator destination)
    LIP_OPCODE_REQUEST_VIDEO_LATENCY
  let c := put_byte c video_format.vic
  put_byte c (get_value_from_hdr_mode_ndebug video_format)

/-- The function `dlb_lip_build_report_lip_support_cmd`. -/
def dlb_lip_build_report_lip_support_cmd (command : dlb_cec_message)
    (initiator destination : Int) (version uuid : Nat) (update_uuid : Bool) : dlb_cec_message :=
  let c := put_byte (lip_init_cec_command command initiator destination)
    (if update_uuid then LIP_OPCODE_UPDATE_UUID else LIP_OPCODE_REPORT_LIP_SUPPORT)
  let c := put_byte c version
  let c := put_byte c ((uuid / 2 ^ 24) % 256)
  let c := put_byte c ((uuid / 2 ^ 16) % 256)
  let c := put_byte c ((uuid / 2 ^ 8) % 256)
  put_byte c (uuid % 256)

/-- The function `dlb_lip_build_report_av_latency_cmd`. -/
def dlb_lip_build_report_av_latency_cmd (command : dlb_cec_message)
    (initiator destination : Int) (video_latency audio_latency : Nat) : dlb_cec_message :=
  let c := put_byte (lip_init_cec_command command initiator destination)
    LIP_OPCODE_REPORT_AV_LATENCY
  let c := put_byte c video_latency
  put_byte c audio_latency

/-- The function `dlb_lip_build_report_audio_latency_cmd`. -/
def dlb_lip_build_report_audio_latency_cmd (command : dlb_cec_message)
    (initiator destination : Int) (audio_latency : Nat) : dlb_cec_message :=
  let c := put_byte (lip_init_cec_command command initiator destination)
    LIP_OPCODE_REPORT_AUDIO_LATENCY
  put_byte c audio_latency

/-- The function `dlb_lip_build_report_video_latency_cmd`. -/
def dlb_lip_build_report_video_latency_cmd (command : dlb_cec_message)
    (initiator destination : Int) (video_latency : Nat) : dlb_cec_message :=
  let c := put_byte (lip_init_cec_command command initiator destination)
    LIP_OPCODE_REPORT_VIDEO_LATENCY
  put_byte c video_latency

/-! ## dlb_lip_osa.c: the one-shot timer as seen by the core -/

abbrev LIP_INVALID_CALLBACK_ID : Nat := 0xFFFFFFFF
abbrev LIP_OSA_INFINITE_TIMEOUT : Nat := 0xFFFFFFFF

/-- The fields of `dlb_lip_osa_timer_t` that `set_timer` and `cancel_timer` use. -/
structure dlb_lip_osa_timer where
  is_running : Bool
  timeout_ms : Nat
  callback_id : Nat
deriving DecidableEq, Repr

/-- The function `dlb_lip_osa_init_timer` (the timer thread is started). -/
def dlb_lip_osa_init_timer : dlb_lip_osa_timer :=
  { is_running := true, timeout_ms := LIP_OSA_INFINITE_TIMEOUT,
    callback_id := LIP_INVALID_CALLBACK_ID }

/-- The function `dlb_lip_osa_set_timer`: the timer and the returned callback id. -/
def dlb_lip_osa_set_timer (timer : dlb_lip_osa_timer) (timeout_ms : Nat) :
    dlb_lip_osa_timer × Nat :=
  if timer.is_running then
    let id := (timer.callback_id + 1) % 2 ^ 32
    let id := if id = LIP_INVALID_CALLBACK_ID then 0 else id
    ({ timer with timeout_ms := timeout_ms, callback_id := id }, id)
  else (timer, 0)

/-- The function `dlb_lip_osa_cancel_timer`. -/
def dlb_lip_osa_cancel_timer (timer : dlb_lip_osa_timer) : dlb_lip_osa_timer :=
  if timer.is_running then
    { timer with timeout_ms := LIP_OSA_INFINITE_TIMEOUT,
                 callback_id := (timer.callback_id + 1) % 2 ^ 32 }
  else timer

/-! ## dlb_lip.c: the core object -/

abbrev LIP_SOURCE_TIMEOUT_MS : Nat := 2000
abbrev LIP_HUB_TIMEOUT_MS : Nat := 1000
abbrev LIP_INVALID_UUID : Nat := 0xFFFFFFFF
abbrev LIP_UUID_MASK : Nat := 0xFFFF0000
abbrev LIP_UUID_VIDEO_MASK : Nat := 0x0000FF00
abbrev LIP_UUID_AUDIO_MASK : Nat := 0x000000FF

/-- The value `sizeof(dlb_latency_cache_t)`: one `bool` and four byte arrays. -/
abbrev sizeof_latency_cache : Nat :=
  1 + 2 * (MAX_VICS * LIP_COLOR_FORMAT_COUNT * HDR_MODES_COUNT)
    + 2 * (IEC61937_AUDIO_CODECS * IEC61937_SUBTYPES * MAX_AUDIO_FORMAT_EXTENSIONS)

/-- The struct `dlb_lip_callbacks_t`.  A null function pointer is `none` (or `false`
for the callbacks whose only effect is recorded in the core's event lists).  The read
callback maps the uuid and the buffer to the number of bytes read and the buffer
afterwards. -/
structure dlb_lip_callbacks where
  store_cache_callback : Bool
  read_cache_callback : Option (Nat → dlb_latency_cache → Nat × dlb_latency_cache)
  status_change_callback : Bool
  merge_uuid_callback : Option (Nat → Nat → Nat)

/-- The struct `dlb_cec_bus_t`: the transmit callback returns 0 on success. -/
structure dlb_cec_bus where
  transmit_callback : dlb_cec_message → Int
  logical_address : Int

/-- The struct `dlb_downstream_device_config_t`. -/
structure dlb_downstream_device_config where
  logical_addr : Int
  uuid : Nat
  latency_cache : dlb_latency_cache

/-- The struct `dlb_lip_s`.  The last block of fields records what the core hands to
its collaborators: frames given to the bus, blobs given to the store callback, status
callbacks, and the number of signals on each condition variable. -/
structure dlb_lip where
  cec_bus : dlb_cec_bus
  is_running : Bool
  thread_signaled : Bool
  state : lip_state
  pending_requests : Int → dlb_lip_pending_message
  opcode_of_last_cmd_sent : Int → Nat
  upstream_devices_addresses : List Int
  config_params : dlb_lip_config_params
  downstream_device_cfg : dlb_downstream_device_config
  callbacks : dlb_lip_callbacks
  timer : dlb_lip_osa_timer
  callback_id : Nat
  req_video_format : dlb_lip_video_format
  req_audio_format : dlb_lip_audio_format
  add_iec_decoding_latency : Bool
  start_time : Nat
  tx : List dlb_cec_message
  stored_caches : List (Nat × dlb_latency_cache)
  status_events : List dlb_lip_status
  condition_var_signals : Nat
  state_updated_signals : Nat
  pending_cv_broadcasts : Nat

/-- The indices 0..15 scanned by every loop over a per-address array. -/
def slot_indices : List Int :=
  (List.range MAX_UPSTREAM_DEVICES_COUNT).map Int.ofNat

/-- The table `IEC_DECODING_DELAY`. -/
def IEC_DECODING_DELAY (codec : Nat) : Nat :=
  if codec = IEC61937_AC3 then 7
  else if codec = IEC61937_EAC3 then 47
  else if codec = IEC61937_MAT then 6
  else 0

/-- The function `lip_get_command_min_length`. -/
def lip_get_command_min_length (opcode : Nat) : Nat :=
  if opcode = LIP_OPCODE_REQUEST_LIP_SUPPORT then 4
  else if opcode = LIP_OPCODE_UPDATE_UUID ∨ opcode = LIP_OPCODE_REPORT_LIP_SUPPORT then 9
  else if opcode = LIP_OPCODE_REQUEST_AV_LATENCY then 7
  else if opcode = LIP_OPCODE_REPORT_AV_LATENCY then 6
  else if opcode = LIP_OPCODE_REQUEST_AUDIO_LATENCY then 5
  else if opcode = LIP_OPCODE_REPORT_AUDIO_LATENCY then 5
  else if opcode = LIP_OPCODE_REQUEST_VIDEO_LATENCY then 6
  else if opcode = LIP_OPCODE_REPORT_VIDEO_LATENCY then 5
  else 0

/-- The function `lip_validate_cmd_vendor_id`. -/
def lip_validate_cmd_vendor_id (command : dlb_cec_message) : Bool :=
  decide (command.msg_length ≥ 3) && decide (DOLBY_VENDOR_ID.getD 0 0 = command.byte 0)
    && decide (DOLBY_VENDOR_ID.getD 1 0 = command.byte 1)
    && decide (DOLBY_VENDOR_ID.getD 2 0 = command.byte 2)

/-- The function `lip_get_command_opcode`. -/
def lip_get_command_opcode (command : dlb_cec_message) : Nat :=
  let lip_opcode :=
    if command.msg_length ≥ 4 ∧ DOLBY_VENDOR_ID.getD 0 0 = command.byte 0
        ∧ DOLBY_VENDOR_ID.getD 1 0 = command.byte 1
        ∧ DOLBY_VENDOR_ID.getD 2 0 = command.byte 2
    then command.byte 3 else LIP_OPCODES
  if lip_opcode = LIP_OPCODE_REQUEST_LIP_SUPPORT ∨ lip_opcode = LIP_OPCODE_UPDATE_UUID
      ∨ lip_opcode = LIP_OPCODE_REPORT_LIP_SUPPORT ∨ lip_opcode = LIP_OPCODE_REQUEST_AV_LATENCY
      ∨ lip_opcode = LIP_OPCODE_REPORT_AV_LATENCY ∨ lip_opcode = LIP_OPCODE_REQUEST_AUDIO_LATENCY
      ∨ lip_opcode = LIP_OPCODE_REPORT_AUDIO_LATENCY
      ∨ lip_opcode = LIP_OPCODE_REQUEST_VIDEO_LATENCY
      ∨ lip_opcode = LIP_OPCODE_REPORT_VIDEO_LATENCY
  then lip_opcode else LIP_OPCODES

/-- The function `lip_is_video_format_valid`. -/
def lip_is_video_format_valid (video_format : dlb_lip_video_format) : Bool :=
  if video_format.vic ≥ MAX_VICS then false
  else if video_format.color_format ≥ LIP_COLOR_FORMAT_COUNT then false
  else if dlb_lip_get_hdr_mode_from_video_format_ndebug video_format ≥ HDR_MODES_COUNT then false
  else true

/-- The function `lip_is_audio_format_valid`. -/
def lip_is_audio_format_valid (audio_format : dlb_lip_audio_format) : Bool :=
  if audio_format.codec ≥ IEC61937_AUDIO_CODECS then false
  else if audio_format.ext ≥ MAX_AUDIO_FORMAT_EXTENSIONS then false
  else if audio_format.subtype ≥ IEC61937_SUBTYPES then false
  else true

/-- The function `lip_transmit_wrapper`: the core afterwards and the bus result. -/
def lip_transmit_wrapper (s : dlb_lip) (command : dlb_cec_message) : dlb_lip × Int :=
  ({ s with
      opcode_of_last_cmd_sent :=
        Function.update s.opcode_of_last_cmd_sent command.destination
          (lip_get_command_opcode command),
      tx := s.tx ++ [command] },
   s.cec_bus.transmit_callback command)

/-- The function `lip_validate_latency`. -/
def lip_validate_latency (latency : Int) : Bool :=
  if latency ≥ LIP_INVALID_LATENCY then false
  else if latency < 0 then false
  else true

/-- The function `lip_get_status` without waiting for discovery. -/
def lip_get_status (s : dlb_lip) : dlb_lip_status :=
  let up := s.upstream_devices_addresses
  let st1 : Nat := if up.any (fun a => decide (a ≠ DLB_LOGICAL_ADDR_UNKNOWN))
    then LIP_UPSTREAM_CONNECTED else 0
  if s.downstream_device_cfg.logical_addr ≠ DLB_LOGICAL_ADDR_UNKNOWN then
    { status := st1 ||| LIP_DOWNSTREAM_CONNECTED,
      downstream_device_addr := s.downstream_device_cfg.logical_addr,
      downstream_device_uuid := s.downstream_device_cfg.uuid,
      upstream_devices_addresses := up }
  else
    { status := st1, downstream_device_addr := DLB_LOGICAL_ADDR_UNKNOWN,
      downstream_device_uuid := 0, upstream_devices_addresses := up }

/-- The function `lip_status_change_callback`. -/
def lip_status_change_callback (s : dlb_lip) : dlb_lip :=
  if s.callbacks.status_change_callback then
    { s with status_events := s.status_events ++ [lip_get_status s] }
  else s

/-- The function `lip_sum_latencies`; the result is the `uint8_t` cast of `latency`. -/
def lip_sum_latencies (own_latency downstream_latency : Int) : Nat :=
  let latency : Int := own_latency + downstream_latency
  let latency : Int :=
    if !lip_validate_latency own_latency then LIP_INVALID_LATENCY
    else if !lip_validate_latency downstream_latency then LIP_INVALID_LATENCY
    else if !lip_validate_latency latency then LIP_INVALID_LATENCY - 1
    else latency
  (latency % 256).toNat

open dlb_lip_latency_type dlb_lip_pending_message_state lip_state

/-- The function `lip_get_audio_latency_from_cache`: the return value and the cell
behind `audio_latency`. -/
def lip_get_audio_latency_from_cache (s : dlb_lip) (audio_format : dlb_lip_audio_format)
    (audio_format_downstream : dlb_lip_audio_format) (mode : dlb_lip_latency_type) :
    Bool × Nat :=
  let iec_additonal_latency : Nat :=
    if s.add_iec_decoding_latency then IEC_DECODING_DELAY audio_format.codec else 0
  let own_audio_latency : Nat :=
    lip_sum_latencies
      (s.config_params.audio_latencies audio_format.codec audio_format.subtype audio_format.ext)
      iec_additonal_latency
  let r := dlb_cache_get_audio_latency s.downstream_device_cfg.latency_cache
    audio_format_downstream LIP_INVALID_LATENCY
  let downstream_latency_valid := r.1
  let downstream_audio_latency := r.2
  match mode with
  | LIP_OWN_LATENCY => (true, lip_sum_latencies own_audio_latency 0)
  | LIP_DOWNSTREAM_LATENCY =>
    if downstream_latency_valid then (true, lip_sum_latencies 0 downstream_audio_latency)
    else (false, LIP_INVALID_LATENCY)
  | LIP_TOTAL_LATENCY =>
    if downstream_latency_valid then
      (true, lip_sum_latencies own_audio_latency downstream_audio_latency)
    else (false, LIP_INVALID_LATENCY)

/-- The function `lip_get_video_latency_from_cache`: the return value and the cell
behind `video_latency`. -/
def lip_get_video_latency_from_cache (s : dlb_lip) (video_format : dlb_lip_video_format)
    (mode : dlb_lip_latency_type) : Bool × Nat :=
  let own_video_latency : Nat :=
    s.config_params.video_latencies video_format.vic video_format.color_format
      (dlb_lip_get_hdr_mode_from_video_format_ndebug video_format)
  let r := dlb_cache_get_video_latency_ndebug s.downstream_device_cfg.latency_cache video_format
    LIP_INVALID_LATENCY
  let downstream_latency_valid := r.1
  let downstream_video_latency := r.2
  match mode with
  | LIP_OWN_LATENCY => (true, lip_sum_latencies own_video_latency 0)
  | LIP_DOWNSTREAM_LATENCY =>
    if downstream_latency_valid then (true, lip_sum_latencies 0 downstream_video_latency)
    else (false, LIP_INVALID_LATENCY)
  | LIP_TOTAL_LATENCY =>
    if downstream_latency_valid then
      (true, lip_sum_latencies own_video_latency downstream_video_latency)
    else (false, LIP_INVALID_LATENCY)

/-- The loop of `lip_is_upstream_device_present` over the upstream array. -/
def upstream_present (up : List Int) : Bool :=
  up.any (fun a => decide (a ≠ DLB_LOGICAL_ADDR_UNKNOWN))

/-- The function `lip_is_upstream_device_present`. -/
def lip_is_upstream_device_present (s : dlb_lip) : Bool :=
  upstream_present s.upstream_devices_addresses

/-- The loop of `lip_add_upstream_device`: the first free or equal entry is written. -/
def upstream_add : List Int → Int → List Int
  | [], _ => []
  | x :: xs, a =>
    if x = DLB_LOGICAL_ADDR_UNKNOWN ∨ x = a then a :: xs else x :: upstream_add xs a

/-- The function `lip_add_upstream_device`. -/
def lip_add_upstream_device (s : dlb_lip) (new_upstream_device : Int) : dlb_lip :=
  { s with upstream_devices_addresses :=
      upstream_add s.upstream_devices_addresses new_upstream_device }

/-- The loop of `lip_remove_upstream_device`: it stops after the first entry it clears. -/
def upstream_remove : List Int → Int → List Int
  | [], _ => []
  | x :: xs, a =>
    if a = x ∨ a = DLB_LOGICAL_ADDR_BROADCAST then DLB_LOGICAL_ADDR_UNKNOWN :: xs
    else x :: upstream_remove xs a

/-- The function `lip_remove_upstream_device`. -/
def lip_remove_upstream_device (s : dlb_lip) (upstream_device : Int) : dlb_lip :=
  { s with upstream_devices_addresses :=
      upstream_remove s.upstream_devices_addresses upstream_device }

/-- The function `lip_get_timeout_value_ms`. -/
def lip_get_timeout_value_ms (s : dlb_lip) : Nat :=
  if lip_is_upstream_device_present s then LIP_HUB_TIMEOUT_MS else LIP_SOURCE_TIMEOUT_MS

/-- The function `lip_get_uuid`. -/
def lip_get_uuid (s : dlb_lip) : Nat :=
  if s.downstream_device_cfg.uuid ≠ LIP_INVALID_UUID then
    match s.callbacks.merge_uuid_callback with
    | some merge => merge s.config_params.uuid s.downstream_device_cfg.uuid % 2 ^ 32
    | none => s.config_params.uuid
  else s.config_params.uuid

/-- The function `lip_is_request_answered`. -/
def lip_is_request_answered (s : dlb_lip) (source : Int) : Bool :=
  decide ((s.pending_requests source).state = LIP_MESSAGE_ABORT_RECEIVED)
    || decide ((s.pending_requests source).state = LIP_MESSAGE_ANSWER_RECEIVED)

/-- The function `lip_is_request_pending`. -/
def lip_is_request_pending (s : dlb_lip) (source : Int) : Bool :=
  decide ((s.pending_requests source).state ≠ LIP_MESSAGE_HANDLED)

/-- The function `lip_is_any_request_pending`. -/
def lip_is_any_request_pending (s : dlb_lip) : Bool :=
  slot_indices.any (fun i => decide ((s.pending_requests i).state ≠ LIP_MESSAGE_HANDLED))

/-- The function `lip_is_any_pending_request_sent`. -/
def lip_is_any_pending_request_sent (s : dlb_lip) : Bool :=
  slot_indices.any (fun i => decide ((s.pending_requests i).state = LIP_MESSAGE_SENT))

/-- The function `lip_get_addr_of_pending_request_sent`: the last SENT index wins. -/
def lip_get_addr_of_pending_request_sent (s : dlb_lip) : Int :=
  slot_indices.foldl
    (fun addr i => if (s.pending_requests i).state = LIP_MESSAGE_SENT then i else addr)
    DLB_LOGICAL_ADDR_UNKNOWN

/-- The assignment `pending_requests.messages[i].state = st`. -/
def set_slot_state (s : dlb_lip) (i : Int) (st : dlb_lip_pending_message_state) : dlb_lip :=
  { s with
    pending_requests :=
      Function.update s.pending_requests i { (s.pending_requests i) with state := st } }

/-- The three assignments that store `*command` in slot `i` as PENDING with its expiry. -/
def store_pending (s : dlb_lip) (i : Int) (command : dlb_cec_message) (now : Nat) : dlb_lip :=
  { s with
    pending_requests :=
      Function.update s.pending_requests i
        { msg := command, state := LIP_MESSAGE_PENDING,
          expire_time_ms := (now + lip_get_timeout_value_ms s) % 2 ^ 64 } }

/-- The function `lip_reschedule_timer` at clock value `now`. -/
def lip_reschedule_timer (s : dlb_lip) (now : Nat) : dlb_lip :=
  let timeout_ms : Nat :=
    slot_indices.foldl
      (fun timeout_ms i =>
        if (s.pending_requests i).state = LIP_MESSAGE_SENT then
          let msg_timeout_ms : Nat :=
            (if (s.pending_requests i).expire_time_ms > now
              then (s.pending_requests i).expire_time_ms - now else 0) % 2 ^ 32
          if timeout_ms > msg_timeout_ms then msg_timeout_ms else timeout_ms
        else timeout_ms)
      LIP_OSA_INFINITE_TIMEOUT
  if timeout_ms ≠ LIP_OSA_INFINITE_TIMEOUT then
    let r := dlb_lip_osa_set_timer s.timer timeout_ms
    { s with timer := r.1, callback_id := r.2 }
  else
    { s with timer := dlb_lip_osa_cancel_timer s.timer }

/-- The loop at the end of `lip_cec_cmd_received` that hands every response to
`lip_transmit_wrapper` (the bus result is only logged there). -/
def transmit_responses (s : dlb_lip) (responses : List dlb_cec_message) : dlb_lip :=
  responses.foldl (fun s m => (lip_transmit_wrapper s m).1) s

/-- The body of the loop of `lip_handle_pending_requests` over the slots `is`; `recv`
is the re-entrant call of `lip_cec_cmd_received`. -/
def pending_requests_loop (recv : dlb_lip → dlb_cec_message → Option (dlb_lip × Int)) :
    List Int → dlb_lip → Option dlb_lip
  | [], s => some s
  | i :: is, s =>
    if (s.pending_requests i).state = LIP_MESSAGE_PENDING then
      let expire_time_ms := (s.pending_requests i).expire_time_ms
      let s1 := set_slot_state s i LIP_MESSAGE_HANDLED
      match recv s1 (s1.pending_requests i).msg with
      | none => none
      | some r =>
        pending_requests_loop recv is
          { r.1 with
            pending_requests :=
              Function.update r.1.pending_requests i
                { (r.1.pending_requests i) with expire_time_ms := expire_time_ms } }
    else pending_requests_loop recv is s

/-- The function `lip_handle_pending_requests`. -/
def lip_handle_pending_requests (recv : dlb_lip → dlb_cec_message → Option (dlb_lip × Int))
    (s : dlb_lip) : Option dlb_lip :=
  if lip_is_any_request_pending s then pending_requests_loop recv slot_indices s
  else some s

/-- The function `lip_reply_for_pending_cmd_received`. -/
def lip_reply_for_pending_cmd_received
    (recv : dlb_lip → dlb_cec_message → Option (dlb_lip × Int)) (now : Nat) (s : dlb_lip)
    (source : Int) (new_state : dlb_lip_pending_message_state) : Option dlb_lip :=
  match lip_handle_pending_requests recv (set_slot_state s source new_state) with
  | none => none
  | some s2 =>
    let s3 := lip_reschedule_timer s2 now
    some { s3 with pending_cv_broadcasts := s3.pending_cv_broadcasts + 1 }

/-- The function `lip_transmit_request_lip_support`. -/
def lip_transmit_request_lip_support (s : dlb_lip) (parent_logical_address : Int) :
    dlb_lip × Int :=
  lip_transmit_wrapper s
    (dlb_lip_build_request_lip_support empty_msg s.cec_bus.logical_address
      parent_logical_address)

/-- The function `lip_transmit_report_lip_support`. -/
def lip_transmit_report_lip_support (s : dlb_lip) (destination : Int) (uuid : Nat)
    (update_uuid : Bool) : dlb_lip × Int :=
  lip_transmit_wrapper s
    (dlb_lip_build_report_lip_support_cmd empty_msg s.cec_bus.logical_address destination
      LIP_PROTOCOL_VERSION uuid update_uuid)

/-- The cache rotation of `lip_handle_report_lip_support` when the uuid changes: store
the old blob, try to read the new one, clear the parts whose uuid bits changed. -/
def rotate_cache (s : dlb_lip) (uuid : Nat) : dlb_lip :=
  let s1 : dlb_lip :=
    if s.downstream_device_cfg.logical_addr ≠ DLB_LOGICAL_ADDR_UNKNOWN
        ∧ s.callbacks.store_cache_callback = true then
      { s with stored_caches := s.stored_caches ++
          [(s.downstream_device_cfg.uuid, s.downstream_device_cfg.latency_cache)] }
    else s
  let rd : Nat × dlb_latency_cache :=
    match s1.callbacks.read_cache_callback with
    | some read => read uuid s1.downstream_device_cfg.latency_cache
    | none => (0, s1.downstream_device_cfg.latency_cache)
  let bytes_read := rd.1 % 2 ^ 32
  let cache := rd.2
  let old := s1.downstream_device_cfg.uuid
  let cache :=
    if bytes_read ≠ sizeof_latency_cache then
      let all := decide ((uuid &&& LIP_UUID_MASK) ≠ (old &&& LIP_UUID_MASK))
      let clear_video_cache :=
        all || decide ((uuid &&& LIP_UUID_VIDEO_MASK) ≠ (old &&& LIP_UUID_VIDEO_MASK))
      let clear_audio_cache :=
        all || decide ((uuid &&& LIP_UUID_AUDIO_MASK) ≠ (old &&& LIP_UUID_AUDIO_MASK))
      dlb_cache_clear cache clear_audio_cache clear_video_cache
    else cache
  { s1 with downstream_device_cfg := { s1.downstream_device_cfg with latency_cache := cache } }

/-- The loop of `lip_handle_report_lip_support` that completes the buffered
REQUEST_LIP_SUPPORT slots; `send_update_uuid` is the local flag array. -/
def answer_buffered_support : List Int → dlb_lip × (Int → Bool) → dlb_lip × (Int → Bool)
  | [], acc => acc
  | i :: is, (s, send_update_uuid) =>
    if lip_is_request_pending s i
        ∧ lip_get_command_opcode (s.pending_requests i).msg = LIP_OPCODE_REQUEST_LIP_SUPPORT then
      answer_buffered_support is
        (lip_add_upstream_device (set_slot_state s i LIP_MESSAGE_HANDLED)
            (s.pending_requests i).msg.initiator,
         Function.update send_update_uuid i false)
    else answer_buffered_support is (s, send_update_uuid)

/-- The loop of `lip_handle_report_lip_support` that builds one frame per upstream
entry; `i` is the array position of the head of the list. -/
def build_upstream_reports (own : Int) (merged_uuid : Nat) (send_update_uuid : Int → Bool) :
    Int → List Int → List dlb_cec_message
  | _, [] => []
  | i, a :: rest =>
    if a ≠ DLB_LOGICAL_ADDR_UNKNOWN then
      dlb_lip_build_report_lip_support_cmd empty_msg own a LIP_PROTOCOL_VERSION merged_uuid
          (send_update_uuid i)
        :: build_upstream_reports own merged_uuid send_update_uuid (i + 1) rest
    else build_upstream_reports own merged_uuid send_update_uuid (i + 1) rest

/-- The function `lip_handle_report_lip_support`: the core, the response list and the
`transmit` flag. -/
def lip_handle_report_lip_support (now : Nat) (s : dlb_lip) (command : dlb_cec_message)
    (responses : List dlb_cec_message) (update_uuid : Bool) :
    dlb_lip × List dlb_cec_message × Bool :=
  let uuid : Nat :=
    ((command.byte 5 * 2 ^ 24) % 2 ^ 32) ||| (command.byte 6 * 2 ^ 16)
      ||| (command.byte 7 * 2 ^ 8) ||| command.byte 8
  if s.config_params.downstream_device_addr ≠ command.initiator then (s, responses, false)
  else if !update_uuid ∧ s.state = LIP_SUPPORTED then (s, responses, false)
  else if update_uuid ∧ s.state ≠ LIP_SUPPORTED then (s, responses, false)
  else
    let s1 := if uuid ≠ s.downstream_device_cfg.uuid then rotate_cache s uuid else s
    let s2 : dlb_lip :=
      { s1 with
        downstream_device_cfg :=
          { s1.downstream_device_cfg with logical_addr := command.initiator, uuid := uuid },
        state := LIP_SUPPORTED }
    let r := answer_buffered_support slot_indices (s2, fun _ => update_uuid)
    let s3 := lip_status_change_callback (lip_reschedule_timer r.1 now)
    let out : List dlb_cec_message × Bool :=
      if lip_is_upstream_device_present s3 then
        (responses ++ build_upstream_reports s3.cec_bus.logical_address (lip_get_uuid s3) r.2 0
            s3.upstream_devices_addresses, true)
      else (responses, false)
    let s4 : dlb_lip :=
      if !update_uuid then
        { s3 with thread_signaled := true,
                  condition_var_signals := s3.condition_var_signals + 1 }
      else s3
    (s4, out.1, out.2)

/-- The function `lip_handle_request_lip_support`. -/
def lip_handle_request_lip_support (now : Nat) (s : dlb_lip) (command : dlb_cec_message)
    (responses : List dlb_cec_message) : dlb_lip × List dlb_cec_message × Bool :=
  if s.state = LIP_SUPPORTED then
    let uuid := lip_get_uuid s
    let s1 := lip_status_change_callback (lip_add_upstream_device s command.initiator)
    (s1,
     responses ++ [dlb_lip_build_report_lip_support_cmd empty_msg s1.cec_bus.logical_address
        command.initiator LIP_PROTOCOL_VERSION uuid false],
     true)
  else
    (store_pending s command.initiator command now, responses, false)

/-- The decoding of the video format at the head of `lip_handle_request_av_latency` and
`lip_handle_request_video_latency`. -/
def decode_video_format (command : dlb_cec_message) : dlb_lip_video_format :=
  (get_hdr_mode_from_value_value (command.byte 5)
    { vic := command.byte 4, color_format := 0, hdr_mode := 0 }).2

/-- The decoding of the audio format whose codec byte is `data[k]`. -/
def decode_audio_format (command : dlb_cec_message) (k : Nat) : dlb_lip_audio_format :=
  if command.msg_length ≥ k + 2 then
    { codec := command.byte k, subtype := command.byte (k + 1) % 4,
      ext := command.byte (k + 1) / 4 }
  else { codec := command.byte k, subtype := 0, ext := 0 }

/-- The function `lip_handle_request_av_latency`. -/
def lip_handle_request_av_latency (now : Nat) (s : dlb_lip) (command : dlb_cec_message)
    (responses : List dlb_cec_message) (force_ask_downstream : Bool) :
    dlb_lip × List dlb_cec_message × Bool :=
  let video_format := decode_video_format command
  let audio_format := decode_audio_format command 6
  if !lip_is_audio_format_valid audio_format then
    (s, responses ++ [lip_build_abort_cec_command empty_msg s.cec_bus.logical_address
        command.initiator DLB_CEC_OPCODE_VENDOR_COMMAND_WITH_ID
        DLB_CEC_ABORT_REASON_INVALID_OPERAND], true)
  else if !lip_is_video_format_valid video_format then
    (s, responses ++ [lip_build_abort_cec_command empty_msg s.cec_bus.logical_address
        command.initiator DLB_CEC_OPCODE_VENDOR_COMMAND_WITH_ID
        DLB_CEC_ABORT_REASON_INVALID_OPERAND], true)
  else
    let video_renderer :=
      decide ((s.config_params.render_mode &&& LIP_VIDEO_RENDERER) = LIP_VIDEO_RENDERER)
    let audio_renderer :=
      decide ((s.config_params.render_mode &&& LIP_AUDIO_RENDERER) = LIP_AUDIO_RENDERER)
    let downstream_device_present :=
      decide (s.downstream_device_cfg.logical_addr ≠ DLB_LOGICAL_ADDR_UNKNOWN)
    let ask_downstream_device_for_video :=
      (!video_renderer && downstream_device_present) || force_ask_downstream
    let ask_downstream_device_for_audio :=
      (!audio_renderer && downstream_device_present) || force_ask_downstream
    let video_latency_type :=
      if ask_downstream_device_for_video then LIP_TOTAL_LATENCY else LIP_OWN_LATENCY
    let audio_latency_type :=
      if ask_downstream_device_for_audio then LIP_TOTAL_LATENCY else LIP_OWN_LATENCY
    let audio_format_downstream :=
      if s.config_params.audio_transcoding && !force_ask_downstream
      then s.config_params.audio_transcoding_format else audio_format
    let v := lip_get_video_latency_from_cache s video_format video_latency_type
    let a := lip_get_audio_latency_from_cache s audio_format audio_format_downstream
      audio_latency_type
    let v_cache_hit := v.1
    let a_cache_hit := a.1
    if v_cache_hit ∧ a_cache_hit then
      (s, responses ++ [dlb_lip_build_report_av_latency_cmd empty_msg
          s.cec_bus.logical_address command.initiator v.2 a.2], true)
    else
      let s1 := store_pending s command.initiator command now
      if !lip_is_any_pending_request_sent s1 then
        let s2 : dlb_lip :=
          { (set_slot_state s1 command.initiator LIP_MESSAGE_SENT) with
            req_video_format := video_format, req_audio_format := audio_format }
        let s3 := lip_reschedule_timer s2 now
        if !v_cache_hit ∧ !a_cache_hit then
          (s3, responses ++ [dlb_lip_build_request_av_latency_ndebug empty_msg
              s3.cec_bus.logical_address s3.downstream_device_cfg.logical_addr
              s3.req_video_format audio_format_downstream], true)
        else if !v_cache_hit then
          (s3, responses ++ [dlb_lip_build_request_video_latency_ndebug empty_msg
              s3.cec_bus.logical_address s3.downstream_device_cfg.logical_addr
              s3.req_video_format], true)
        else if !a_cache_hit then
          (s3, responses ++ [dlb_lip_build_request_audio_latency empty_msg
              s3.cec_bus.logical_address s3.downstream_device_cfg.logical_addr
              audio_format_downstream], true)
        else (s3, responses, false)
      else (s1, responses, false)

/-- The enum-to-type choice `(render_mode & flag) ? LIP_OWN_LATENCY : LIP_TOTAL_LATENCY`
of the report handlers. -/
def report_latency_type (render_mode flag : Nat) : dlb_lip_latency_type :=
  if (render_mode &&& flag) ≠ 0 then LIP_OWN_LATENCY else LIP_TOTAL_LATENCY

/-- The downstream audio format used by the report handlers. -/
def report_audio_format_downstream (s : dlb_lip) : dlb_lip_audio_format :=
  if s.config_params.audio_transcoding then s.config_params.audio_transcoding_format
  else s.req_audio_format

/-- The frame `REPORT_AV_LATENCY` that the report handlers assemble from the cache and
the own latencies for the initiator of slot `src`. -/
def build_av_reply (s : dlb_lip) (src : Int) : dlb_cec_message :=
  let video_latency := (lip_get_video_latency_from_cache s s.req_video_format
    (report_latency_type s.config_params.render_mode LIP_VIDEO_RENDERER)).2
  let audio_latency := (lip_get_audio_latency_from_cache s s.req_audio_format
    (report_audio_format_downstream s)
    (report_latency_type s.config_params.render_mode LIP_AUDIO_RENDERER)).2
  dlb_lip_build_report_av_latency_cmd empty_msg s.cec_bus.logical_address
    (s.pending_requests src).msg.initiator video_latency audio_latency

/-- The tail shared by the branches of the report handlers: the slot is completed as
HANDLED with a reply when its request came from a peer, and as ANSWER_RECEIVED without
a reply when it was issued by the node itself. -/
def complete_with_reply (recv : dlb_lip → dlb_cec_message → Option (dlb_lip × Int))
    (now : Nat) (s : dlb_lip) (src : Int) (reply : dlb_cec_message)
    (responses : List dlb_cec_message) : Option (dlb_lip × List dlb_cec_message × Bool) :=
  if (s.pending_requests src).msg.initiator ≠ s.cec_bus.logical_address then
    (lip_reply_for_pending_cmd_received recv now s src LIP_MESSAGE_HANDLED).map
      (fun s1 => (s1, responses ++ [reply], true))
  else
    (lip_reply_for_pending_cmd_received recv now s src LIP_MESSAGE_ANSWER_RECEIVED).map
      (fun s1 => (s1, responses, false))

/-- The function `lip_handle_report_av_latency`. -/
def lip_handle_report_av_latency (recv : dlb_lip → dlb_cec_message → Option (dlb_lip × Int))
    (now : Nat) (s : dlb_lip) (command : dlb_cec_message) (responses : List dlb_cec_message) :
    Option (dlb_lip × List dlb_cec_message × Bool) :=
  let video_latency_in := command.byte 4
  let audio_latency_in := command.byte 5
  let pending_msg_src_addr := lip_get_addr_of_pending_request_sent s
  let s1 : dlb_lip :=
    { s with
      downstream_device_cfg :=
        { s.downstream_device_cfg with
          latency_cache :=
            dlb_cache_set_audio_latency
              (dlb_cache_set_video_latency_ndebug s.downstream_device_cfg.latency_cache
                s.req_video_format video_latency_in)
              s.req_audio_format audio_latency_in } }
  if pending_msg_src_addr ≠ DLB_LOGICAL_ADDR_UNKNOWN then
    let opcode := lip_get_command_opcode (s1.pending_requests pending_msg_src_addr).msg
    if opcode = LIP_OPCODE_REQUEST_VIDEO_LATENCY ∨ opcode = LIP_OPCODE_REQUEST_AUDIO_LATENCY
        ∨ opcode = LIP_OPCODE_REQUEST_AV_LATENCY then
      complete_with_reply recv now s1 pending_msg_src_addr
        (build_av_reply s1 pending_msg_src_addr) responses
    else
      (lip_reply_for_pending_cmd_received recv now s1 pending_msg_src_addr
        LIP_MESSAGE_ANSWER_RECEIVED).map (fun s2 => (s2, responses, false))
  else some (s1, responses, false)

/-- The function `lip_handle_request_audio_latency`. -/
def lip_handle_request_audio_latency (now : Nat) (s : dlb_lip) (command : dlb_cec_message)
    (responses : List dlb_cec_message) (force_ask_downstream : Bool) :
    dlb_lip × List dlb_cec_message × Bool :=
  let audio_format := decode_audio_format command 4
  if !lip_is_audio_format_valid audio_format then
    (s, responses ++ [lip_build_abort_cec_command empty_msg s.cec_bus.logical_address
        command.initiator DLB_CEC_OPCODE_VENDOR_COMMAND_WITH_ID
        DLB_CEC_ABORT_REASON_INVALID_OPERAND], true)
  else
    let audio_renderer :=
      decide ((s.config_params.render_mode &&& LIP_AUDIO_RENDERER) = LIP_AUDIO_RENDERER)
    let downstream_device_present :=
      decide (s.downstream_device_cfg.logical_addr ≠ DLB_LOGICAL_ADDR_UNKNOWN)
    let ask_downstream_device :=
      (!audio_renderer && downstream_device_present) || force_ask_downstream
    let audio_latency_type :=
      if ask_downstream_device then LIP_TOTAL_LATENCY else LIP_OWN_LATENCY
    let audio_format_downstream :=
      if s.config_params.audio_transcoding && !force_ask_downstream
      then s.config_params.audio_transcoding_format else audio_format
    let a := lip_get_audio_latency_from_cache s audio_format audio_format_downstream
      audio_latency_type
    if a.1 then
      (s, responses ++ [dlb_lip_build_report_audio_latency_cmd empty_msg
          s.cec_bus.logical_address command.initiator a.2], true)
    else
      let s0 : dlb_lip := { s with req_audio_format := audio_format }
      let s1 := store_pending s0 command.initiator command now
      if !lip_is_any_pending_request_sent s1 then
        let s3 := lip_reschedule_timer (set_slot_state s1 command.initiator LIP_MESSAGE_SENT) now
        (s3, responses ++ [dlb_lip_build_request_audio_latency empty_msg
            s3.cec_bus.logical_address s3.downstream_device_cfg.logical_addr
            audio_format_downstream], true)
      else (s1, responses, false)

/-- The frame `REPORT_AUDIO_LATENCY` assembled by `lip_handle_report_audio_latency`. -/
def build_audio_reply (s : dlb_lip) (src : Int) : dlb_cec_message :=
  let audio_latency := (lip_get_audio_latency_from_cache s s.req_audio_format
    (report_audio_format_downstream s)
    (report_latency_type s.config_params.render_mode LIP_AUDIO_RENDERER)).2
  dlb_lip_build_report_audio_latency_cmd empty_msg s.cec_bus.logical_address
    (s.pending_requests src).msg.initiator audio_latency

/-- The function `lip_handle_report_audio_latency`. -/
def lip_handle_report_audio_latency
    (recv : dlb_lip → dlb_cec_message → Option (dlb_lip × Int)) (now : Nat) (s : dlb_lip)
    (command : dlb_cec_message) (responses : List dlb_cec_message) :
    Option (dlb_lip × List dlb_cec_message × Bool) :=
  let pending_msg_src_addr := lip_get_addr_of_pending_request_sent s
  let s1 : dlb_lip :=
    { s with
      downstream_device_cfg :=
        { s.downstream_device_cfg with
          latency_cache :=
            dlb_cache_set_audio_latency s.downstream_device_cfg.latency_cache
              s.req_audio_format (command.byte 4) } }
  if pending_msg_src_addr ≠ DLB_LOGICAL_ADDR_UNKNOWN then
    let opcode := lip_get_command_opcode (s1.pending_requests pending_msg_src_addr).msg
    if opcode = LIP_OPCODE_REQUEST_VIDEO_LATENCY then
      (lip_reply_for_pending_cmd_received recv now s1 pending_msg_src_addr
        LIP_MESSAGE_HANDLED).map (fun s2 => (s2, responses, false))
    else if opcode = LIP_OPCODE_REQUEST_AUDIO_LATENCY then
      complete_with_reply recv now s1 pending_msg_src_addr
        (build_audio_reply s1 pending_msg_src_addr) responses
    else if opcode = LIP_OPCODE_REQUEST_AV_LATENCY then
      complete_with_reply recv now s1 pending_msg_src_addr
        (build_av_reply s1 pending_msg_src_addr) responses
    else some (s1, responses, false)
  else some (s1, responses, false)

/-- The function `lip_handle_request_video_latency`. -/
def lip_handle_request_video_latency (now : Nat) (s : dlb_lip) (command : dlb_cec_message)
    (responses : List dlb_cec_message) (force_ask_downstream : Bool) :
    dlb_lip × List dlb_cec_message × Bool :=
  let video_format := decode_video_format command
  if !lip_is_video_format_valid video_format then
    (s, responses ++ [lip_build_abort_cec_command empty_msg s.cec_bus.logical_address
        command.initiator DLB_CEC_OPCODE_VENDOR_COMMAND_WITH_ID
        DLB_CEC_ABORT_REASON_INVALID_OPERAND], true)
  else
    let video_renderer :=
      decide ((s.config_params.render_mode &&& LIP_VIDEO_RENDERER) = LIP_VIDEO_RENDERER)
    let downstream_device_present :=
      decide (s.downstream_device_cfg.logical_addr ≠ DLB_LOGICAL_ADDR_UNKNOWN)
    let ask_downstream_device :=
      (!video_renderer && downstream_device_present) || force_ask_downstream
    let video_latency_type :=
      if ask_downstream_device then LIP_TOTAL_LATENCY else LIP_OWN_LATENCY
    let s0 : dlb_lip := { s with req_video_format := video_format }
    let v := lip_get_video_latency_from_cache s0 s0.req_video_format video_latency_type
    if v.1 then
      (s0, responses ++ [dlb_lip_build_report_video_latency_cmd empty_msg
          s0.cec_bus.logical_address command.initiator v.2], true)
    else
      let s1 := store_pending s0 command.initiator command now
      if !lip_is_any_pending_request_sent s1 then
        let s3 := lip_reschedule_timer (set_slot_state s1 command.initiator LIP_MESSAGE_SENT) now
        (s3, responses ++ [dlb_lip_build_request_video_latency_ndebug empty_msg
            s3.cec_bus.logical_address s3.downstream_device_cfg.logical_addr
            s3.req_video_format], true)
      else (s1, responses, false)

/-- The frame `REPORT_VIDEO_LATENCY` assembled by `lip_handle_report_video_latency`. -/
def build_video_reply (s : dlb_lip) (src : Int) : dlb_cec_message :=
  let video_latency := (lip_get_video_latency_from_cache s s.req_video_format
    (report_latency_type s.config_params.render_mode LIP_VIDEO_RENDERER)).2
  dlb_lip_build_report_video_latency_cmd empty_msg s.cec_bus.logical_address
    (s.pending_requests src).msg.initiator video_latency

/-- The function `lip_handle_report_video_latency`. -/
def lip_handle_report_video_latency
    (recv : dlb_lip → dlb_cec_message → Option (dlb_lip × Int)) (now : Nat) (s : dlb_lip)
    (command : dlb_cec_message) (responses : List dlb_cec_message) :
    Option (dlb_lip × List dlb_cec_message × Bool) :=
  let pending_msg_src_addr := lip_get_addr_of_pending_request_sent s
  let video_latency_in := command.byte 4
  let s1 : dlb_lip :=
    { s with
      downstream_device_cfg :=
        { s.downstream_device_cfg with
          latency_cache :=
            dlb_cache_set_video_latency_ndebug s.downstream_device_cfg.latency_cache
              s.req_video_format video_latency_in } }
  if pending_msg_src_addr ≠ DLB_LOGICAL_ADDR_UNKNOWN then
    let opcode := lip_get_command_opcode (s1.pending_requests pending_msg_src_addr).msg
    if opcode = LIP_OPCODE_REQUEST_VIDEO_LATENCY then
      complete_with_reply recv now s1 pending_msg_src_addr
        (build_video_reply s1 pending_msg_src_addr) responses
    else if opcode = LIP_OPCODE_REQUEST_AUDIO_LATENCY then
      (lip_reply_for_pending_cmd_received recv now s1 pending_msg_src_addr
        LIP_MESSAGE_HANDLED).map (fun s2 => (s2, responses, false))
    else if opcode = LIP_OPCODE_REQUEST_AV_LATENCY then
      complete_with_reply recv now s1 pending_msg_src_addr
        (build_av_reply s1 pending_msg_src_addr) responses
    else some (s1, responses, false)
  else some (s1, responses, false)

/-- The function `lip_can_handle_opcode_in_current_state`. -/
def lip_can_handle_opcode_in_current_state (s : dlb_lip) (lip_opcode : Nat) : Bool :=
  if lip_opcode = LIP_OPCODE_REPORT_LIP_SUPPORT ∨ lip_opcode = LIP_OPCODE_REQUEST_LIP_SUPPORT then
    decide (s.state ≠ LIP_UNSUPPORTED)
  else if lip_opcode = LIP_OPCODE_UPDATE_UUID ∨ lip_opcode = LIP_OPCODE_REQUEST_AV_LATENCY
      ∨ lip_opcode = LIP_OPCODE_REPORT_AV_LATENCY ∨ lip_opcode = LIP_OPCODE_REQUEST_AUDIO_LATENCY
      ∨ lip_opcode = LIP_OPCODE_REPORT_AUDIO_LATENCY
      ∨ lip_opcode = LIP_OPCODE_REQUEST_VIDEO_LATENCY
      ∨ lip_opcode = LIP_OPCODE_REPORT_VIDEO_LATENCY then
    decide (s.state = LIP_SUPPORTED)
  else false

/-- The function `lip_handle_feature_abort`: the core, the responses, the `transmit`
flag and the cell behind `message_consumed`. -/
def lip_handle_feature_abort (recv : dlb_lip → dlb_cec_message → Option (dlb_lip × Int))
    (now : Nat) (s : dlb_lip) (command : dlb_cec_message) (responses : List dlb_cec_message)
    (message_consumed : Int) : Option (dlb_lip × List dlb_cec_message × Bool × Int) :=
  if command.msg_length ≥ 1 ∧ command.byte 0 = DLB_CEC_OPCODE_VENDOR_COMMAND_WITH_ID then
    let lip_opcode := s.opcode_of_last_cmd_sent command.initiator
    if lip_opcode = LIP_OPCODE_REQUEST_LIP_SUPPORT then
      if s.state = LIP_WAIT_FOR_REPLY then
        some ({ s with thread_signaled := true,
                       condition_var_signals := s.condition_var_signals + 1 },
              responses, false, 1)
      else some (s, responses, false, message_consumed)
    else if lip_opcode = LIP_OPCODE_REQUEST_VIDEO_LATENCY
        ∨ lip_opcode = LIP_OPCODE_REQUEST_AUDIO_LATENCY
        ∨ lip_opcode = LIP_OPCODE_REQUEST_AV_LATENCY then
      let pending_msg_src_addr := lip_get_addr_of_pending_request_sent s
      let lip_pending_opcode :=
        if pending_msg_src_addr ≠ DLB_LOGICAL_ADDR_UNKNOWN
        then lip_get_command_opcode (s.pending_requests pending_msg_src_addr).msg
        else LIP_OPCODES
      if lip_pending_opcode = LIP_OPCODE_REQUEST_AV_LATENCY
          ∨ lip_pending_opcode = LIP_OPCODE_REQUEST_AUDIO_LATENCY
          ∨ lip_pending_opcode = LIP_OPCODE_REQUEST_VIDEO_LATENCY then
        if (s.pending_requests pending_msg_src_addr).msg.initiator = s.cec_bus.logical_address then
          (lip_reply_for_pending_cmd_received recv now s pending_msg_src_addr
            LIP_MESSAGE_ABORT_RECEIVED).map (fun s1 => (s1, responses, false, 1))
        else
          (lip_reply_for_pending_cmd_received recv now s pending_msg_src_addr
            LIP_MESSAGE_HANDLED).map
            (fun s1 =>
              (s1,
               responses ++ [lip_build_abort_cec_command empty_msg s.cec_bus.logical_address
                  (s.pending_requests pending_msg_src_addr).msg.initiator
                  DLB_CEC_OPCODE_VENDOR_COMMAND_WITH_ID DLB_CEC_ABORT_REASON_REFUSED],
               true, 1))
      else some (s, responses, false, message_consumed)
    else some (s, responses, false, message_consumed)
  else some (s, responses, false, message_consumed)

/-- The statement `switch (lip_opcode)` of `lip_cec_cmd_received`, which calls the
handler of the opcode: the core, the responses, the `transmit` flag and
`message_consumed`. -/
def lip_opcode_switch (recv : dlb_lip → dlb_cec_message → Option (dlb_lip × Int))
    (now : Nat) (s : dlb_lip) (command : dlb_cec_message) (lip_opcode : Nat) :
    Option (dlb_lip × List dlb_cec_message × Bool × Int) :=
  if lip_opcode = LIP_OPCODE_REPORT_LIP_SUPPORT then
    let r := lip_handle_report_lip_support now s command [] false
    some (r.1, r.2.1, r.2.2, 1)
  else if lip_opcode = LIP_OPCODE_UPDATE_UUID then
    let r := lip_handle_report_lip_support now s command [] true
    some (r.1, r.2.1, r.2.2, 1)
  else if lip_opcode = LIP_OPCODE_REQUEST_LIP_SUPPORT then
    let r := lip_handle_request_lip_support now s command []
    some (r.1, r.2.1, r.2.2, 1)
  else if lip_opcode = LIP_OPCODE_REQUEST_AV_LATENCY then
    let r := lip_handle_request_av_latency now s command [] false
    some (r.1, r.2.1, r.2.2, 1)
  else if lip_opcode = LIP_OPCODE_REPORT_AV_LATENCY then
    (lip_handle_report_av_latency recv now s command []).map
      (fun r => (r.1, r.2.1, r.2.2, 1))
  else if lip_opcode = LIP_OPCODE_REQUEST_AUDIO_LATENCY then
    let r := lip_handle_request_audio_latency now s command [] false
    some (r.1, r.2.1, r.2.2, 1)
  else if lip_opcode = LIP_OPCODE_REPORT_AUDIO_LATENCY then
    (lip_handle_report_audio_latency recv now s command []).map
      (fun r => (r.1, r.2.1, r.2.2, 1))
  else if lip_opcode = LIP_OPCODE_REQUEST_VIDEO_LATENCY then
    let r := lip_handle_request_video_latency now s command [] false
    some (r.1, r.2.1, r.2.2, 1)
  else if lip_opcode = LIP_OPCODE_REPORT_VIDEO_LATENCY then
    (lip_handle_report_video_latency recv now s command []).map
      (fun r => (r.1, r.2.1, r.2.2, 1))
  else some (s, [], false, 1)

/-- The body of `lip_cec_cmd_received` up to the final transmit loop: the core, the
responses, the `transmit` flag and `message_consumed`. -/
def lip_cec_cmd_dispatch (recv : dlb_lip → dlb_cec_message → Option (dlb_lip × Int))
    (now : Nat) (s : dlb_lip) (command : dlb_cec_message) :
    Option (dlb_lip × List dlb_cec_message × Bool × Int) :=
  let own := s.cec_bus.logical_address
  if command.opcode = DLB_CEC_OPCODE_FEATURE_ABORT then
    lip_handle_feature_abort recv now s command [] 0
  else if command.opcode = DLB_CEC_OPCODE_VENDOR_COMMAND_WITH_ID then
    if lip_validate_cmd_vendor_id command then
      let lip_opcode := lip_get_command_opcode command
      if lip_opcode = LIP_OPCODES then
        some (s, [lip_build_abort_cec_command empty_msg own command.initiator
          DLB_CEC_OPCODE_VENDOR_COMMAND_WITH_ID DLB_CEC_ABORT_REASON_UNRECOGNIZED_OPCODE], true, 1)
      else if command.destination = DLB_LOGICAL_ADDR_BROADCAST
          ∨ command.initiator = DLB_LOGICAL_ADDR_BROADCAST then
        some (s, [], false, 1)
      else if command.destination ≠ own then
        some (s, [], false, 1)
      else if command.msg_length < lip_get_command_min_length lip_opcode then
        some (s, [lip_build_abort_cec_command empty_msg own command.initiator
          DLB_CEC_OPCODE_VENDOR_COMMAND_WITH_ID DLB_CEC_ABORT_REASON_INVALID_OPERAND], true, 1)
      else if !lip_can_handle_opcode_in_current_state s lip_opcode then
        some (s, [lip_build_abort_cec_command empty_msg own command.initiator
          DLB_CEC_OPCODE_VENDOR_COMMAND_WITH_ID
          DLB_CEC_ABORT_REASON_NOT_IN_CORRECT_MODE_TO_RESPOND], true, 1)
      else lip_opcode_switch recv now s command lip_opcode
    else some (s, [], false, 0)
  else some (s, [], false, 0)

/-- The function `lip_cec_cmd_received` with its re-entrant call given by `recv`: the
core afterwards and the return value `message_consumed`. -/
def lip_cec_cmd_received_body (recv : dlb_lip → dlb_cec_message → Option (dlb_lip × Int))
    (now : Nat) (s : dlb_lip) (command : dlb_cec_message) : Option (dlb_lip × Int) :=
  (lip_cec_cmd_dispatch recv now s command).map
    (fun r => (if r.2.2.1 then transmit_responses r.1 r.2.1 else r.1, r.2.2.2))

/-- The function `lip_cec_cmd_received`.  It calls itself through
`lip_handle_pending_requests`; `fuel` bounds the nesting depth of these calls and
`none` means that the bound was reached. -/
def lip_cec_cmd_received : Nat → Nat → dlb_lip → dlb_cec_message → Option (dlb_lip × Int)
  | 0 => fun _ _ _ => none
  | fuel + 1 => fun now s command =>
    lip_cec_cmd_received_body (lip_cec_cmd_received fuel now) now s command

/-- The function `dlb_lip_cec_cmd_received`, the receive callback registered on the bus
(the core mutex is held around the call). -/
def dlb_lip_cec_cmd_received (fuel now : Nat) (s : dlb_lip) (command : dlb_cec_message) :
    Option (dlb_lip × Int) :=
  lip_cec_cmd_received fuel now s command

/-- The local variables of `dlb_lip_request_thread` that live across loop rounds. -/
structure request_thread_locals where
  timeout_ms : Nat
  transmit_success : Bool
deriving DecidableEq, Repr

/-- The loop of the LIP_SUPPORTED case of `dlb_lip_request_thread`. -/
def thread_supported_loop (now : Nat) : List Int → dlb_lip → dlb_lip
  | [], s => s
  | i :: is, s =>
    if lip_get_command_opcode (s.pending_requests i).msg = LIP_OPCODE_REQUEST_LIP_SUPPORT then
      let s1 := set_slot_state s i LIP_MESSAGE_HANDLED
      let r := lip_handle_request_lip_support now s1 (s1.pending_requests i).msg []
      thread_supported_loop now is (if r.2.2 then transmit_responses r.1 r.2.1 else r.1)
    else thread_supported_loop now is s

/-- The loop of the LIP_UNSUPPORTED case of `dlb_lip_request_thread`. -/
def thread_unsupported_loop : List Int → dlb_lip → dlb_lip
  | [], s => s
  | i :: is, s =>
    if lip_get_command_opcode (s.pending_requests i).msg = LIP_OPCODE_REQUEST_LIP_SUPPORT then
      let s1 := set_slot_state s i LIP_MESSAGE_HANDLED
      thread_unsupported_loop is
        (lip_transmit_wrapper s1
          (lip_build_abort_cec_command empty_msg s1.cec_bus.logical_address
            (s1.pending_requests i).msg.initiator DLB_CEC_OPCODE_VENDOR_COMMAND_WITH_ID
            DLB_CEC_ABORT_REASON_REFUSED)).1
    else thread_unsupported_loop is s

/-- The `switch (p_dlb_lip->state)` of `dlb_lip_request_thread`. -/
def request_thread_switch (now : Nat) (s0 : dlb_lip) (l : request_thread_locals) :
    dlb_lip × request_thread_locals :=
  match s0.state with
  | LIP_INIT =>
    if s0.config_params.downstream_device_addr ≠ DLB_LOGICAL_ADDR_UNKNOWN then
      let s1 : dlb_lip := { s0 with state := LIP_WAIT_FOR_REPLY }
      let t := lip_transmit_request_lip_support s1
        s1.config_params.downstream_device_addr
      (t.1, { timeout_ms := lip_get_timeout_value_ms s1,
              transmit_success := decide (t.2 = 0) })
    else ({ s0 with state := LIP_SUPPORTED }, { l with timeout_ms := 0 })
  | LIP_WAIT_FOR_REPLY =>
    if l.transmit_success = true ∧ s0.cec_bus.logical_address = DLB_LOGICAL_ADDR_TV
        ∧ s0.config_params.downstream_device_addr = DLB_LOGICAL_ADDR_AUDIOSYSTEM then
      ({ s0 with state := LIP_SUPPORTED, add_iec_decoding_latency := true },
       { l with timeout_ms := 0 })
    else ({ s0 with state := LIP_UNSUPPORTED }, { l with timeout_ms := 0 })
  | LIP_SUPPORTED =>
    ((if lip_is_any_request_pending s0 then thread_supported_loop now slot_indices s0
      else s0),
     { l with timeout_ms := LIP_OSA_INFINITE_TIMEOUT })
  | LIP_UNSUPPORTED =>
    ((if lip_is_any_request_pending s0 then thread_unsupported_loop slot_indices s0
      else s0),
     { l with timeout_ms := LIP_OSA_INFINITE_TIMEOUT })

/-- One round of the loop of `dlb_lip_request_thread` after its wait has returned
(by a signal or by timeout), with the core mutex held. -/
def dlb_lip_request_thread_step (now : Nat) (s : dlb_lip) (l : request_thread_locals) :
    dlb_lip × request_thread_locals :=
  let s0 : dlb_lip := { s with thread_signaled := false }
  if !s0.is_running then (s0, l)
  else
    let r := request_thread_switch now s0 l
    if r.1.state = LIP_SUPPORTED ∨ r.1.state = LIP_UNSUPPORTED then
      ({ r.1 with state_updated_signals := r.1.state_updated_signals + 1 }, r.2)
    else r

/-- The function `dlb_lip_timer_callback`; `lock_acquired` is the result of the
try-lock on the core mutex.  The core afterwards and the return value. -/
def dlb_lip_timer_callback (recv : dlb_lip → dlb_cec_message → Option (dlb_lip × Int))
    (now : Nat) (s : dlb_lip) (callback_id : Nat) (lock_acquired : Bool) :
    Option (dlb_lip × Int) :=
  if lock_acquired then
    if s.callback_id = callback_id then
      let pending_msg_src_addr := lip_get_addr_of_pending_request_sent s
      if pending_msg_src_addr ≠ DLB_LOGICAL_ADDR_UNKNOWN then
        let opcode := lip_get_command_opcode (s.pending_requests pending_msg_src_addr).msg
        if (s.pending_requests pending_msg_src_addr).msg.initiator = s.cec_bus.logical_address then
          (lip_reply_for_pending_cmd_received recv now s pending_msg_src_addr
            LIP_MESSAGE_ABORT_RECEIVED).map (fun s1 => (s1, 0))
        else if opcode = LIP_OPCODE_REQUEST_LIP_SUPPORT
            ∨ opcode = LIP_OPCODE_REQUEST_VIDEO_LATENCY
            ∨ opcode = LIP_OPCODE_REQUEST_AUDIO_LATENCY
            ∨ opcode = LIP_OPCODE_REQUEST_AV_LATENCY then
          let response := lip_build_abort_cec_command empty_msg s.cec_bus.logical_address
            (s.pending_requests pending_msg_src_addr).msg.initiator
            DLB_CEC_OPCODE_VENDOR_COMMAND_WITH_ID DLB_CEC_ABORT_REASON_REFUSED
          (lip_reply_for_pending_cmd_received recv now s pending_msg_src_addr
            LIP_MESSAGE_HANDLED).map (fun s1 => ((lip_transmit_wrapper s1 response).1, 0))
        else
          (lip_reply_for_pending_cmd_received recv now s pending_msg_src_addr
            LIP_MESSAGE_ABORT_RECEIVED).map (fun s1 => (s1, 0))
      else some (s, 0)
    else some (s, 0)
  else some (s, 1)

/-- The function `lip_init_defaults`. -/
def lip_init_defaults (s : dlb_lip) : dlb_lip :=
  { s with
    state := LIP_INIT,
    is_running := true,
    thread_signaled := false,
    downstream_device_cfg :=
      { s.downstream_device_cfg with
        logical_addr := DLB_LOGICAL_ADDR_UNKNOWN, uuid := LIP_INVALID_UUID },
    callback_id := LIP_INVALID_CALLBACK_ID,
    add_iec_decoding_latency := false,
    upstream_devices_addresses :=
      s.upstream_devices_addresses.map (fun _ => DLB_LOGICAL_ADDR_UNKNOWN),
    opcode_of_last_cmd_sent := fun i =>
      if 0 ≤ i ∧ i < MAX_UPSTREAM_DEVICES_COUNT then LIP_OPCODES
      else s.opcode_of_last_cmd_sent i }

/-- The core of `dlb_lip_open` after the `memset` and the copies of the callbacks, the
configuration and the bus. -/
def zeroed_core (callbacks : dlb_lip_callbacks) (cec_bus : dlb_cec_bus)
    (init_params : dlb_lip_config_params) : dlb_lip :=
  { cec_bus := cec_bus,
    is_running := false,
    thread_signaled := false,
    state := LIP_INIT,
    pending_requests := fun _ =>
      { msg := empty_msg, state := LIP_MESSAGE_PENDING, expire_time_ms := 0 },
    opcode_of_last_cmd_sent := fun _ => 0,
    upstream_devices_addresses := List.replicate MAX_UPSTREAM_DEVICES_COUNT 0,
    config_params := init_params,
    downstream_device_cfg :=
      { logical_addr := 0, uuid := 0,
        latency_cache :=
          { cache_enabled := false,
            video_latencies := fun _ _ _ => 0, video_latencies_valid := fun _ _ _ => false,
            audio_latencies := fun _ _ _ => 0, audio_latencies_valid := fun _ _ _ => false } },
    callbacks := callbacks,
    timer := { is_running := false, timeout_ms := 0, callback_id := 0 },
    callback_id := 0,
    req_video_format := { vic := 0, color_format := 0, hdr_mode := 0 },
    req_audio_format := { codec := 0, subtype := 0, ext := 0 },
    add_iec_decoding_latency := false,
    start_time := 0,
    tx := [], stored_caches := [], status_events := [],
    condition_var_signals := 0, state_updated_signals := 0, pending_cv_broadcasts := 0 }

/-- The function `dlb_lip_open` for non-null `p_mem`, `init_params`, `cec_bus` and bus
callbacks, when the timer and the worker thread can be created; `none` is the NULL
handle. -/
def dlb_lip_open (init_params : dlb_lip_config_params) (callbacks : dlb_lip_callbacks)
    (cec_bus : dlb_cec_bus) (now : Nat) : Option dlb_lip :=
  if cec_bus.logical_address = DLB_LOGICAL_ADDR_BROADCAST
      ∨ cec_bus.logical_address = DLB_LOGICAL_ADDR_UNKNOWN then none
  else if init_params.audio_transcoding
      ∧ !lip_is_audio_format_valid init_params.audio_transcoding_format then none
  else if callbacks.merge_uuid_callback.isNone then none
  else
    let s0 := lip_init_defaults (zeroed_core callbacks cec_bus init_params)
    some
      { s0 with
        downstream_device_cfg :=
          { s0.downstream_device_cfg with
            latency_cache := dlb_cache_init s0.downstream_device_cfg.latency_cache true },
        pending_requests := fun i =>
          if 0 ≤ i ∧ i < MAX_UPSTREAM_DEVICES_COUNT then
            { msg := empty_msg, state := LIP_MESSAGE_HANDLED, expire_time_ms := 0 }
          else s0.pending_requests i,
        timer := dlb_lip_osa_init_timer,
        start_time := now }

/-- The comparison `memcmp(a, b, sizeof a) == 0` of two audio latency tables. -/
def audio_latencies_equal (a b : Nat → Nat → Nat → Nat) : Bool :=
  decide (∀ c, c < IEC61937_AUDIO_CODECS → ∀ st, st < IEC61937_SUBTYPES →
    ∀ e, e < MAX_AUDIO_FORMAT_EXTENSIONS → a c st e = b c st e)

/-- The comparison `memcmp(a, b, sizeof a) == 0` of two video latency tables. -/
def video_latencies_equal (a b : Nat → Nat → Nat → Nat) : Bool :=
  decide (∀ v, v < MAX_VICS → ∀ cf, cf < LIP_COLOR_FORMAT_COUNT →
    ∀ hm, hm < HDR_MODES_COUNT → a v cf hm = b v cf hm)

/-- The loop of `dlb_lip_set_config` that sends UPDATE_UUID to every upstream entry;
the result of the last transmit overwrites `ret`. -/
def set_config_update_loop : List Int → dlb_lip × Int → dlb_lip × Int
  | [], acc => acc
  | a :: rest, (s, ret) =>
    if a ≠ DLB_LOGICAL_ADDR_UNKNOWN then
      set_config_update_loop rest (lip_transmit_report_lip_support s a (lip_get_uuid s) true)
    else set_config_update_loop rest (s, ret)

/-- The block `if (init_params) { ... }` of `dlb_lip_set_config` on the core `s1` and
the new parameters `p`: the core, `discovery`, `update_uuid` and `parameters_valid`. -/
def set_config_check (s1 : dlb_lip) (force_discovery : Bool) (p : dlb_lip_config_params) :
    dlb_lip × Bool × Bool × Bool :=
  let update_uuid := decide (s1.config_params.uuid ≠ p.uuid)
  let latency_change :=
    !audio_latencies_equal p.audio_latencies s1.config_params.audio_latencies
      || !video_latencies_equal p.video_latencies s1.config_params.video_latencies
  let discovery := force_discovery
    || decide (s1.config_params.downstream_device_addr ≠ p.downstream_device_addr)
  let valid1 :=
    !(decide (s1.config_params.render_mode ≠ p.render_mode) && !update_uuid)
  let valid2 :=
    if s1.config_params.audio_transcoding ≠ p.audio_transcoding then !(!update_uuid)
    else if s1.config_params.audio_transcoding then
      !(decide (s1.config_params.audio_transcoding_format ≠ p.audio_transcoding_format)
        && !update_uuid)
    else true
  if latency_change && !update_uuid then (s1, discovery, update_uuid, false)
  else ({ s1 with config_params := p }, discovery, update_uuid, valid1 && valid2)

/-- The block `if (discovery) { ... }` of `dlb_lip_set_config`. -/
def set_config_rediscover (s3 : dlb_lip) (upstream_devices : List Int) : dlb_lip :=
  let d := lip_init_defaults s3
  let d1 : dlb_lip := { d with upstream_devices_addresses := upstream_devices }
  { d1 with
    downstream_device_cfg :=
      { d1.downstream_device_cfg with
        latency_cache := dlb_cache_clear d1.downstream_device_cfg.latency_cache true true },
    thread_signaled := true,
    condition_var_signals := d1.condition_var_signals + 1 }

/-- The block `if (parameters_valid) { ... }` of `dlb_lip_set_config`: the core and
`ret`. -/
def set_config_apply (s2 : dlb_lip) (upstream_devices : List Int)
    (discovery update_uuid : Bool) : dlb_lip × Int :=
  let s3 : dlb_lip := { s2 with upstream_devices_addresses := upstream_devices }
  let s4 : dlb_lip := if discovery then set_config_rediscover s3 upstream_devices else s3
  if lip_is_upstream_device_present s4 ∧ update_uuid = true then
    set_config_update_loop s4.upstream_devices_addresses (s4, 0)
  else (s4, 0)

/-- The function `dlb_lip_set_config`; `init_params = none` is the NULL pointer.  The
core afterwards and the return value. -/
def dlb_lip_set_config (s : dlb_lip) (init_params : Option dlb_lip_config_params)
    (force_discovery : Bool) (remove_upstream_device : Int) : dlb_lip × Int :=
  if init_params.isSome ∨ force_discovery = true
      ∨ remove_upstream_device ≠ DLB_LOGICAL_ADDR_UNKNOWN then
    let s1 := lip_remove_upstream_device s remove_upstream_device
    let upstream_devices := s1.upstream_devices_addresses
    let r : dlb_lip × Bool × Bool × Bool :=
      match init_params with
      | some p => set_config_check s1 force_discovery p
      | none => (s1, force_discovery, false, true)
    if r.2.2.2 then set_config_apply r.1 upstream_devices r.2.1 r.2.2.1
    else (r.1, 1)
  else (s, 1)

/-- Where a public latency query stands after one round of its `do ... while` loop:
it returns, it waits on the pending-requests condition because its own slot is busy
(and then starts another round), it waits in `lip_wait_for_pending_request` (and then
runs `dlb_lip_query_wait_done`), or it starts another round at once. -/
inductive query_next where
  | returned
  | wait_for_slot
  | wait_for_answer
  | again
deriving DecidableEq, Repr

/-- The result of one round of the loop of a public latency query: `ret`, the cells
behind the output pointers (the cell that the query does not have is 0), and what the
caller does next. -/
structure query_round where
  ret : Int
  video_latency : Nat
  audio_latency : Nat
  next : query_next
deriving DecidableEq, Repr

/-- The part of a round shared by the three public queries, after the handler has run on
the self-addressed request: transmit the first response unless it is the report with
opcode `report_opcode`. -/
def query_after_handler (r : dlb_lip × List dlb_cec_message × Bool) (report_opcode : Nat) :
    dlb_lip × query_next :=
  if r.2.2 then
    let first := r.2.1.headD empty_msg
    if lip_get_command_opcode first ≠ report_opcode then
      let t := lip_transmit_wrapper r.1 first
      if t.2 = 0 then (t.1, query_next.wait_for_answer) else (t.1, query_next.returned)
    else (r.1, query_next.again)
  else (r.1, query_next.wait_for_answer)

/-- The statements of `dlb_lip_get_av_latency` (non-null output pointers) before its
loop, on output cells holding `video_latency` and `audio_latency`: whether the loop is
entered, and the cells.  When the loop is not entered the call returns 1. -/
def dlb_lip_get_av_latency_entry (s : dlb_lip) (video_format : dlb_lip_video_format)
    (audio_format : dlb_lip_audio_format) (video_latency audio_latency : Nat) :
    Bool × Nat × Nat :=
  if lip_is_audio_format_valid audio_format ∧ lip_is_video_format_valid video_format then
    (decide (s.downstream_device_cfg.logical_addr ≠ DLB_LOGICAL_ADDR_UNKNOWN),
     LIP_INVALID_LATENCY, LIP_INVALID_LATENCY)
  else (false, video_latency, audio_latency)

/-- One round of the loop of `dlb_lip_get_av_latency`, up to the point where the caller
returns or blocks on the pending-requests condition. -/
def dlb_lip_get_av_latency_round (now : Nat) (s : dlb_lip)
    (video_format : dlb_lip_video_format) (audio_format : dlb_lip_audio_format) :
    dlb_lip × query_round :=
  let v := lip_get_video_latency_from_cache s video_format LIP_DOWNSTREAM_LATENCY
  let a := lip_get_audio_latency_from_cache s audio_format audio_format
    LIP_DOWNSTREAM_LATENCY
  if v.1 ∧ a.1 then
    (s, { ret := 0, video_latency := v.2, audio_latency := a.2,
          next := query_next.returned })
  else if lip_is_request_pending s s.cec_bus.logical_address then
    (s, { ret := 1, video_latency := v.2, audio_latency := a.2,
          next := query_next.wait_for_slot })
  else
    let command := dlb_lip_build_request_av_latency_ndebug empty_msg s.cec_bus.logical_address
      s.downstream_device_cfg.logical_addr video_format audio_format
    let r := query_after_handler (lip_handle_request_av_latency now s command [] true)
      LIP_OPCODE_REPORT_AV_LATENCY
    (r.1, { ret := 1, video_latency := v.2, audio_latency := a.2, next := r.2 })

/-- The statements of `dlb_lip_get_audio_latency` before its loop. -/
def dlb_lip_get_audio_latency_entry (s : dlb_lip) (audio_format : dlb_lip_audio_format)
    (audio_latency : Nat) : Bool × Nat :=
  if lip_is_audio_format_valid audio_format then
    (decide (s.downstream_device_cfg.logical_addr ≠ DLB_LOGICAL_ADDR_UNKNOWN),
     LIP_INVALID_LATENCY)
  else (false, audio_latency)

/-- One round of the loop of `dlb_lip_get_audio_latency`. -/
def dlb_lip_get_audio_latency_round (now : Nat) (s : dlb_lip)
    (audio_format : dlb_lip_audio_format) : dlb_lip × query_round :=
  let a := lip_get_audio_latency_from_cache s audio_format audio_format
    LIP_DOWNSTREAM_LATENCY
  if a.1 then
    (s, { ret := 0, video_latency := 0, audio_latency := a.2, next := query_next.returned })
  else if lip_is_request_pending s s.cec_bus.logical_address then
    (s, { ret := 1, video_latency := 0, audio_latency := a.2,
          next := query_next.wait_for_slot })
  else
    let command := dlb_lip_build_request_audio_latency empty_msg
      s.cec_bus.logical_address s.downstream_device_cfg.logical_addr audio_format
    let r := query_after_handler (lip_handle_request_audio_latency now s command [] true)
      LIP_OPCODE_REPORT_AUDIO_LATENCY
    (r.1, { ret := 1, video_latency := 0, audio_latency := a.2, next := r.2 })

/-- The statements of `dlb_lip_get_video_latency` before its loop. -/
def dlb_lip_get_video_latency_entry (s : dlb_lip) (video_format : dlb_lip_video_format)
    (video_latency : Nat) : Bool × Nat :=
  if lip_is_video_format_valid video_format then
    (decide (s.downstream_device_cfg.logical_addr ≠ DLB_LOGICAL_ADDR_UNKNOWN),
     LIP_INVALID_LATENCY)
  else (false, video_latency)

/-- One round of the loop of `dlb_lip_get_video_latency`. -/
def dlb_lip_get_video_latency_round (now : Nat) (s : dlb_lip)
    (video_format : dlb_lip_video_format) : dlb_lip × query_round :=
  let v := lip_get_video_latency_from_cache s video_format LIP_DOWNSTREAM_LATENCY
  if v.1 then
    (s, { ret := 0, video_latency := v.2, audio_latency := 0, next := query_next.returned })
  else if lip_is_request_pending s s.cec_bus.logical_address then
    (s, { ret := 1, video_latency := v.2, audio_latency := 0,
          next := query_next.wait_for_slot })
  else
    let command := dlb_lip_build_request_video_latency_ndebug empty_msg
      s.cec_bus.logical_address s.downstream_device_cfg.logical_addr video_format
    let r := query_after_handler (lip_handle_request_video_latency now s command [] true)
      LIP_OPCODE_REPORT_VIDEO_LATENCY
    (r.1, { ret := 1, video_latency := v.2, audio_latency := 0, next := r.2 })

/-- The statements of a public latency query after `lip_wait_for_pending_request` has
returned (the request was answered, or the wait timed out): the core afterwards and
`request_aborted`.  The query returns 1 when `request_aborted` is true and starts
another round otherwise. -/
def dlb_lip_query_wait_done (s : dlb_lip) : dlb_lip × Bool :=
  let own := s.cec_bus.logical_address
  (set_slot_state s own LIP_MESSAGE_HANDLED,
   decide ((s.pending_requests own).state ≠ LIP_MESSAGE_ANSWER_RECEIVED))


/-! ## Predicates used by the statements -/

/-- The LIP opcodes of the four request messages. -/
def is_request_opcode (op : Nat) : Prop :=
  op = LIP_OPCODE_REQUEST_LIP_SUPPORT ∨ op = LIP_OPCODE_REQUEST_AV_LATENCY
    ∨ op = LIP_OPCODE_REQUEST_AUDIO_LATENCY ∨ op = LIP_OPCODE_REQUEST_VIDEO_LATENCY

/-- The LIP opcodes of the three latency requests. -/
def is_latency_request_opcode (op : Nat) : Prop :=
  op = LIP_OPCODE_REQUEST_AV_LATENCY ∨ op = LIP_OPCODE_REQUEST_AUDIO_LATENCY
    ∨ op = LIP_OPCODE_REQUEST_VIDEO_LATENCY

/-- A slot that is PENDING holds a request frame of the peer it is indexed by, and a
slot that is SENT holds a latency request of that peer. -/
def slot_wf (p : dlb_lip_pending_message) (i : Int) : Prop :=
  (p.state = LIP_MESSAGE_PENDING →
      p.msg.opcode = DLB_CEC_OPCODE_VENDOR_COMMAND_WITH_ID ∧ p.msg.initiator = i
        ∧ is_request_opcode (lip_get_command_opcode p.msg))
  ∧ (p.state = LIP_MESSAGE_SENT →
      p.msg.opcode = DLB_CEC_OPCODE_VENDOR_COMMAND_WITH_ID ∧ p.msg.initiator = i
        ∧ is_latency_request_opcode (lip_get_command_opcode p.msg))

/-- The invariant of the pending-request table: at most one of the slots 0..15 is SENT
and every slot is well formed. -/
def pending_table_wf (T : Int → dlb_lip_pending_message) : Prop :=
  (∀ i ∈ slot_indices, ∀ j ∈ slot_indices,
      (T i).state = LIP_MESSAGE_SENT → (T j).state = LIP_MESSAGE_SENT → i = j)
  ∧ (∀ i ∈ slot_indices, slot_wf (T i) i)

/-- What a request handler may do to the pending table when it handles frame `m`:
nothing, queue `m` in the slot of its initiator, or put it in flight there when no other
slot is SENT (and then `P` holds). -/
def slot_effect (P : Prop) (T T' : Int → dlb_lip_pending_message) (m : dlb_cec_message) :
    Prop :=
  T' = T
  ∨ (∃ e, T' = Function.update T m.initiator
        { msg := m, state := LIP_MESSAGE_PENDING, expire_time_ms := e })
  ∨ (∃ e, T' = Function.update T m.initiator
        { msg := m, state := LIP_MESSAGE_SENT, expire_time_ms := e }
      ∧ (∀ j ∈ slot_indices, j ≠ m.initiator → (T j).state ≠ LIP_MESSAGE_SENT) ∧ P)

/-- The fields that no request handler changes. -/
def same_static (s s' : dlb_lip) : Prop :=
  s'.cec_bus = s.cec_bus ∧ s'.config_params = s.config_params
    ∧ s'.downstream_device_cfg = s.downstream_device_cfg ∧ s'.state = s.state
    ∧ s'.add_iec_decoding_latency = s.add_iec_decoding_latency ∧ s'.callbacks = s.callbacks
    ∧ s'.is_running = s.is_running

/-- A response to frame `m`: a Feature Abort goes to the initiator of `m`. -/
def response_ok (m f : dlb_cec_message) : Prop :=
  f.opcode = DLB_CEC_OPCODE_FEATURE_ABORT → f.destination = m.initiator

/-- What a request handler does with frame `m` on core `s` and response list `rs`: the
result `r` keeps the static fields and the transmit log, changes the pending table by
`slot_effect`, and appends responses that satisfy `response_ok`. -/
def request_effect (P : Prop) (s : dlb_lip) (m : dlb_cec_message)
    (rs : List dlb_cec_message) (r : dlb_lip × List dlb_cec_message × Bool) : Prop :=
  same_static s r.1 ∧ slot_effect P s.pending_requests r.1.pending_requests m
    ∧ r.1.tx = s.tx ∧ r.1.opcode_of_last_cmd_sent = s.opcode_of_last_cmd_sent
    ∧ ∃ fs, r.2.1 = rs ++ fs ∧ ∀ f ∈ fs, response_ok m f

/-- What the dispatch of a request frame `m` does to the core: the static fields stay,
the pending table changes by `slot_effect`, and the transmitted frames satisfy
`response_ok`. -/
def nested_effect (s : dlb_lip) (m : dlb_cec_message) (s' : dlb_lip) : Prop :=
  same_static s s'
    ∧ slot_effect (is_latency_request_opcode (lip_get_command_opcode m))
        s.pending_requests s'.pending_requests m
    ∧ ∃ fs, s'.tx = s.tx ++ fs ∧ ∀ f ∈ fs, response_ok m f

/-- One step of the core: a received frame handled by `lip_cec_cmd_received`, a timer
fire handled by `dlb_lip_timer_callback` (with or without the lock), a step of the
worker thread, a call of `dlb_lip_set_config`, one round of a public latency query, or
the step that completes a public query after its wait. -/
inductive Step : dlb_lip → dlb_lip → Prop
  | received (fuel now : Nat) (s : dlb_lip) (m : dlb_cec_message) (r : dlb_lip × Int) :
      lip_cec_cmd_received (fuel + 2) now s m = some r → Step s r.1
  | timer_fired (fuel now : Nat) (s : dlb_lip) (callback_id : Nat) (lock_acquired : Bool)
      (r : dlb_lip × Int) :
      dlb_lip_timer_callback (lip_cec_cmd_received (fuel + 1) now) now s callback_id
        lock_acquired = some r → Step s r.1
  | worker (now : Nat) (s : dlb_lip) (l : request_thread_locals) :
      Step s (dlb_lip_request_thread_step now s l).1
  | set_config (s : dlb_lip) (init_params : Option dlb_lip_config_params)
      (force_discovery : Bool) (remove_upstream_device : Int) :
      Step s (dlb_lip_set_config s init_params force_discovery remove_upstream_device).1
  | get_av_latency (now : Nat) (s : dlb_lip) (video_format : dlb_lip_video_format)
      (audio_format : dlb_lip_audio_format) :
      Step s (dlb_lip_get_av_latency_round now s video_format audio_format).1
  | get_audio_latency (now : Nat) (s : dlb_lip) (audio_format : dlb_lip_audio_format) :
      Step s (dlb_lip_get_audio_latency_round now s audio_format).1
  | get_video_latency (now : Nat) (s : dlb_lip) (video_format : dlb_lip_video_format) :
      Step s (dlb_lip_get_video_latency_round now s video_format).1
  | query_wait_done (s : dlb_lip) : Step s (dlb_lip_query_wait_done s).1

/-- The cores that can be observed: the one built by `dlb_lip_open`, and every core one
step after an observable one. -/
inductive Reachable : dlb_lip → Prop
  | opened (init_params : dlb_lip_config_params) (callbacks : dlb_lip_callbacks)
      (cec_bus : dlb_cec_bus) (now : Nat) (s : dlb_lip) :
      dlb_lip_open init_params callbacks cec_bus now = some s → Reachable s
  | step (s s' : dlb_lip) : Reachable s → Step s s' → Reachable s'

/-- The number of slots of the pending-request table that are in state SENT. -/
def sent_count (s : dlb_lip) : Nat :=
  (slot_indices.filter
    (fun i => decide ((s.pending_requests i).state = LIP_MESSAGE_SENT))).length

/-- The core of a run, or `d` when the run has no result. -/
def core_of (o : Option (dlb_lip × Int)) (d : dlb_lip) : dlb_lip :=
  match o with
  | some r => r.1
  | none => d

/-- A LIP frame from `i` to `d` with the given operand bytes. -/
def frame (i d : Int) (bytes : List Nat) : dlb_cec_message :=
  { initiator := i, destination := d, opcode := DLB_CEC_OPCODE_VENDOR_COMMAND_WITH_ID,
    data := bytes ++ List.replicate (64 - bytes.length) 0, msg_length := bytes.length }

/-- The operand bytes of a transmitted frame, up to its length. -/
def wire (m : dlb_cec_message) : Int × Int × Nat × List Nat :=
  (m.initiator, m.destination, m.opcode, m.data.take m.msg_length)

/-- The callbacks of the scenarios: no cache store, no cache read, no status callback,
and a UUID merge that returns the own UUID. -/
def scenario_callbacks : dlb_lip_callbacks :=
  { store_cache_callback := false, read_cache_callback := none,
    status_change_callback := false, merge_uuid_callback := some (fun a _ => a) }

/-- The bus of the scenarios: own logical address 5, every transmit succeeds. -/
def scenario_bus : dlb_cec_bus := { transmit_callback := fun _ => 0, logical_address := 5 }

/-- The configuration of scenario S2: downstream address 0, audio renderer, own audio
latency 15 for AC3, own video latency 0, no transcoding. -/
def S2_config : dlb_lip_config_params :=
  { downstream_device_addr := 0, uuid := 0x12340000, render_mode := LIP_AUDIO_RENDERER,
    video_latencies := fun _ _ _ => 0,
    audio_latencies := fun c st e => if c = 1 ∧ st = 0 ∧ e = 0 then 15 else 0,
    audio_transcoding := false, audio_transcoding_format := ⟨0, 0, 0⟩ }

/-- Scenario S2 after `dlb_lip_open`. -/
def S2_opened : dlb_lip :=
  (dlb_lip_open S2_config scenario_callbacks scenario_bus 0).getD
    (zeroed_core scenario_callbacks scenario_bus S2_config)

/-- Scenario S2 after the worker has sent REQUEST_LIP_SUPPORT downstream. -/
def S2_discovering : dlb_lip := (dlb_lip_request_thread_step 0 S2_opened ⟨0, false⟩).1

/-- Scenario S2 in state SUPPORTED: the downstream device has answered with
REPORT_LIP_SUPPORT. -/
def S2_supported : dlb_lip :=
  core_of (lip_cec_cmd_received 2 10 S2_discovering
    (frame 0 5 [0, 0xD0, 0x46, 0x11, 0, 0xAB, 0xCD, 0, 1])) S2_discovering

/-- The frame REQUEST_AV_LATENCY(vic=4, hdr=0, codec=1) from address 1. -/
def S2_request : dlb_cec_message := frame 1 5 [0, 0xD0, 0x46, 0x12, 4, 0, 1]

/-- Scenario S2 after the request of address 1 has been received. -/
def S2_in_flight : dlb_lip :=
  core_of (lip_cec_cmd_received 2 20 S2_supported S2_request) S2_supported

/-- The frame REPORT_AV_LATENCY(video=30, audio=5) from address 0. -/
def S2_report : dlb_cec_message := frame 0 5 [0, 0xD0, 0x46, 0x13, 30, 5]

/-- Scenario S2 after the report of the downstream device has been received. -/
def S2_answered : dlb_lip :=
  core_of (lip_cec_cmd_received 2 30 S2_in_flight S2_report) S2_in_flight

/-- The configuration of scenario S1: no downstream device, video and audio renderer,
own video latency 10 for vic 16 / SDR, own audio latency 20 for EAC3. -/
def S1_config : dlb_lip_config_params :=
  { downstream_device_addr := DLB_LOGICAL_ADDR_UNKNOWN, uuid := 0x12340000,
    render_mode := LIP_VIDEO_RENDERER ||| LIP_AUDIO_RENDERER,
    video_latencies := fun vic cf hm => if vic = 16 ∧ cf = 0 ∧ hm = 0 then 10 else 0,
    audio_latencies := fun c st e => if c = IEC61937_EAC3 ∧ st = 0 ∧ e = 0 then 20 else 0,
    audio_transcoding := false, audio_transcoding_format := ⟨0, 0, 0⟩ }

/-- Scenario S1 after `dlb_lip_open`. -/
def S1_opened : dlb_lip :=
  (dlb_lip_open S1_config scenario_callbacks scenario_bus 0).getD
    (zeroed_core scenario_callbacks scenario_bus S1_config)

/-- Scenario S1 in state SUPPORTED, after the first step of the worker. -/
def S1_supported : dlb_lip := (dlb_lip_request_thread_step 0 S1_opened ⟨0, false⟩).1

/-- The frame REQUEST_AV_LATENCY(vic=16, hdr=0, codec=21) from address 4. -/
def S1_request : dlb_cec_message := frame 4 5 [0, 0xD0, 0x46, 0x12, 16, 0, 21]

/-- The configuration of scenario S6: downstream address 0, no renderer, own audio
latency 15 for AC3, audio transcoding to MAT. -/
def S6_config : dlb_lip_config_params :=
  { downstream_device_addr := 0, uuid := 0x12340000, render_mode := 0,
    video_latencies := fun _ _ _ => 0,
    audio_latencies := fun c st e => if c = IEC61937_AC3 ∧ st = 0 ∧ e = 0 then 15 else 0,
    audio_transcoding := true, audio_transcoding_format := ⟨IEC61937_MAT, 0, 0⟩ }

/-- Scenario S6 after `dlb_lip_open`. -/
def S6_opened : dlb_lip :=
  (dlb_lip_open S6_config scenario_callbacks scenario_bus 0).getD
    (zeroed_core scenario_callbacks scenario_bus S6_config)

/-- Scenario S6 after the worker has sent REQUEST_LIP_SUPPORT downstream. -/
def S6_discovering : dlb_lip := (dlb_lip_request_thread_step 0 S6_opened ⟨0, false⟩).1

/-- Scenario S6 in state SUPPORTED: the downstream device has answered with
REPORT_LIP_SUPPORT. -/
def S6_supported : dlb_lip :=
  core_of (lip_cec_cmd_received 2 10 S6_discovering
    (frame 0 5 [0, 0xD0, 0x46, 0x11, 0, 0xAB, 0xCD, 0, 1])) S6_discovering

/-- The frame REQUEST_AUDIO_LATENCY(codec=AC3) from address 1. -/
def S6_request : dlb_cec_message := frame 1 5 [0, 0xD0, 0x46, 0x14, 1]

/-- Scenario S6 after the request of address 1 has been received. -/
def S6_in_flight : dlb_lip :=
  core_of (lip_cec_cmd_received 2 20 S6_supported S6_request) S6_supported

/-- The frame REPORT_AUDIO_LATENCY(5) from address 0. -/
def S6_report : dlb_cec_message := frame 0 5 [0, 0xD0, 0x46, 0x15, 5]

/-- The frames that a run appends to the transmit log of `s`, as they go on the wire. -/
def sent_by (s : dlb_lip) (o : Option (dlb_lip × Int)) : Option (List (Int × Int × Nat × List Nat)) :=
  o.map (fun r => (r.1.tx.drop s.tx.length).map wire)

/-- Scenario S2 after a round of the public query `dlb_lip_get_video_latency` for
vic 4 / SDR: the request of the node itself is in flight. -/
def S2_own_query : dlb_lip := (dlb_lip_get_video_latency_round 15 S2_supported ⟨4, 0, 0⟩).1

/-- Scenario S2 with the own request in flight and the request of address 1 queued
behind it. -/
def S2_queued : dlb_lip :=
  core_of (lip_cec_cmd_received 2 20 S2_own_query S2_request) S2_own_query

/-- A well-formed LIP frame addressed to this node: a vendor command that carries the
known LIP opcode `lip_opcode`, is at least as long as the minimum of that opcode, is not
a broadcast, and has the own logical address as destination. -/
def addressed_to (s : dlb_lip) (m : dlb_cec_message) (lip_opcode : Nat) : Prop :=
  m.opcode = DLB_CEC_OPCODE_VENDOR_COMMAND_WITH_ID
    ∧ lip_get_command_opcode m = lip_opcode ∧ lip_opcode ≠ LIP_OPCODES
    ∧ m.destination = s.cec_bus.logical_address
    ∧ m.destination ≠ DLB_LOGICAL_ADDR_BROADCAST ∧ m.initiator ≠ DLB_LOGICAL_ADDR_BROADCAST
    ∧ lip_get_command_min_length lip_opcode ≤ m.msg_length

instance (s : dlb_lip) (m : dlb_cec_message) (lip_opcode : Nat) :
    Decidable (addressed_to s m lip_opcode) := by
  unfold addressed_to
  exact inferInstance

/-- The frame Feature Abort(VENDOR_COMMAND_WITH_ID, `reason`) from this node to the
initiator of `m`. -/
def abort_frame (s : dlb_lip) (m : dlb_cec_message) (reason : Nat) : dlb_cec_message :=
  lip_build_abort_cec_command empty_msg s.cec_bus.logical_address m.initiator
    DLB_CEC_OPCODE_VENDOR_COMMAND_WITH_ID reason

/-- What `lip_cec_cmd_received` does with the result of a handler: it transmits the
responses when the `transmit` flag is set, and returns `message_consumed`. -/
def finish_received (r : dlb_lip × List dlb_cec_message × Bool) : dlb_lip × Int :=
  (if r.2.2 then transmit_responses r.1 r.2.1 else r.1, 1)

/-- The local `video_latency_type` / `audio_latency_type` of the request handlers for the
dimension with renderer bit `flag`: the downstream device is asked (TOTAL) when the node
does not render the dimension and a downstream device is known, or when
`force_ask_downstream` is set; otherwise the node answers with its own latency (OWN). -/
def request_latency_type (s : dlb_lip) (flag : Nat) (force_ask_downstream : Bool) :
    dlb_lip_latency_type :=
  if (!decide ((s.config_params.render_mode &&& flag) = flag)
        && decide (s.downstream_device_cfg.logical_addr ≠ DLB_LOGICAL_ADDR_UNKNOWN))
      || force_ask_downstream
  then LIP_TOTAL_LATENCY else LIP_OWN_LATENCY

/-- The local `audio_format_downstream` of the request handlers. -/
def request_audio_format_downstream (s : dlb_lip) (audio_format : dlb_lip_audio_format)
    (force_ask_downstream : Bool) : dlb_lip_audio_format :=
  if s.config_params.audio_transcoding && !force_ask_downstream
  then s.config_params.audio_transcoding_format else audio_format

/-- The assignments of a request handler that store `command` in the slot of its
initiator, put it in flight (SENT) and re-arm the timer. -/
def put_in_flight (s : dlb_lip) (command : dlb_cec_message) (now : Nat) : dlb_lip :=
  lip_reschedule_timer
    (set_slot_state (store_pending s command.initiator command now) command.initiator
      LIP_MESSAGE_SENT) now

/-- The two lookups of `lip_handle_request_av_latency` for the frame `m`: video, then
audio. -/
def request_av_lookups (s : dlb_lip) (m : dlb_cec_message) (force_ask_downstream : Bool) :
    (Bool × Nat) × (Bool × Nat) :=
  (lip_get_video_latency_from_cache s (decode_video_format m)
     (request_latency_type s LIP_VIDEO_RENDERER force_ask_downstream),
   lip_get_audio_latency_from_cache s (decode_audio_format m 6)
     (request_audio_format_downstream s (decode_audio_format m 6) force_ask_downstream)
     (request_latency_type s LIP_AUDIO_RENDERER force_ask_downstream))

/-- The lookup of `lip_handle_request_audio_latency` for the frame `m`. -/
def request_audio_lookup (s : dlb_lip) (m : dlb_cec_message) (force_ask_downstream : Bool) :
    Bool × Nat :=
  lip_get_audio_latency_from_cache s (decode_audio_format m 4)
    (request_audio_format_downstream s (decode_audio_format m 4) force_ask_downstream)
    (request_latency_type s LIP_AUDIO_RENDERER force_ask_downstream)

/-- The lookup of `lip_handle_request_video_latency` for the frame `m`. -/
def request_video_lookup (s : dlb_lip) (m : dlb_cec_message) (force_ask_downstream : Bool) :
    Bool × Nat :=
  lip_get_video_latency_from_cache s (decode_video_format m)
    (request_latency_type s LIP_VIDEO_RENDERER force_ask_downstream)

/-- The frame that `lip_handle_request_av_latency` builds for the downstream device when
the request is put in flight: the three-way branch on `v_cache_hit` and `a_cache_hit`. -/
def downstream_av_query (s : dlb_lip) (m : dlb_cec_message) (force_ask_downstream : Bool) :
    dlb_cec_message :=
  if (request_av_lookups s m force_ask_downstream).1.1 = false
      ∧ (request_av_lookups s m force_ask_downstream).2.1 = false then
    dlb_lip_build_request_av_latency_ndebug empty_msg s.cec_bus.logical_address
      s.downstream_device_cfg.logical_addr (decode_video_format m)
      (request_audio_format_downstream s (decode_audio_format m 6) force_ask_downstream)
  else if (request_av_lookups s m force_ask_downstream).1.1 = false then
    dlb_lip_build_request_video_latency_ndebug empty_msg s.cec_bus.logical_address
      s.downstream_device_cfg.logical_addr (decode_video_format m)
  else
    dlb_lip_build_request_audio_latency empty_msg s.cec_bus.logical_address
      s.downstream_device_cfg.logical_addr
      (request_audio_format_downstream s (decode_audio_format m 6) force_ask_downstream)

/-- The core after a report handler has stored `latency` for `req_video_format` in the
cache. -/
def cache_store_video (s : dlb_lip) (latency : Nat) : dlb_lip :=
  { s with
    downstream_device_cfg :=
      { s.downstream_device_cfg with
        latency_cache :=
          dlb_cache_set_video_latency_ndebug s.downstream_device_cfg.latency_cache
            s.req_video_format latency } }

/-- The core after a report handler has stored `latency` for `req_audio_format` in the
cache. -/
def cache_store_audio (s : dlb_lip) (latency : Nat) : dlb_lip :=
  { s with
    downstream_device_cfg :=
      { s.downstream_device_cfg with
        latency_cache :=
          dlb_cache_set_audio_latency s.downstream_device_cfg.latency_cache
            s.req_audio_format latency } }

/-- The frame `f` is a Feature Abort with reason NOT_IN_CORRECT_MODE_TO_RESPOND. -/
def is_mode_abort (f : dlb_cec_message) : Prop :=
  f.opcode = DLB_CEC_OPCODE_FEATURE_ABORT
    ∧ f.byte 1 = DLB_CEC_ABORT_REASON_NOT_IN_CORRECT_MODE_TO_RESPOND

/-- The table of the specification: REQUEST_LIP_SUPPORT and REPORT_LIP_SUPPORT are
allowed in every state except UNSUPPORTED, every other LIP opcode only in SUPPORTED. -/
def spec_opcode_allowed (lip_opcode : Nat) (state : lip_state) : Prop :=
  if lip_opcode = LIP_OPCODE_REQUEST_LIP_SUPPORT ∨ lip_opcode = LIP_OPCODE_REPORT_LIP_SUPPORT
  then state ≠ LIP_UNSUPPORTED else state = LIP_SUPPORTED

instance (lip_opcode : Nat) (state : lip_state) :
    Decidable (spec_opcode_allowed lip_opcode state) := by
  unfold spec_opcode_allowed
  exact inferInstance

/-- The frame REQUEST_LIP_SUPPORT from address `u` to address `d`. -/
def request_lip_support_frame (u d : Int) : dlb_cec_message := frame u d [0, 0xD0, 0x46, 0x10]

/-- The core after REQUEST_LIP_SUPPORT from address `u` has been received at time 40. -/
def after_request_lip_support (u : Int) (s : dlb_lip) : dlb_lip :=
  core_of (lip_cec_cmd_received 2 40 s (request_lip_support_frame u s.cec_bus.logical_address)) s

/-- The core after the call `dlb_lip_set_config(p_dlb_lip, NULL, false, u)`. -/
def after_remove_upstream (u : Int) (s : dlb_lip) : dlb_lip :=
  (dlb_lip_set_config s none false u).1

/-- Scenario S2 in state SUPPORTED after the peers 4 and 1 have sent REQUEST_LIP_SUPPORT:
both are upstream devices. -/
def S2_two_peers : dlb_lip :=
  after_request_lip_support 1 (after_request_lip_support 4 S2_supported)

/-- Scenario S2 after peer 4 has been removed and peer 1 has sent REQUEST_LIP_SUPPORT
again: the upstream array holds peer 1 twice. -/
def S2_peer_twice : dlb_lip :=
  after_request_lip_support 1 (after_remove_upstream 4 S2_two_peers)

/-! ## Statement helpers for the identity messages -/

/-- The local `uuid` of `lip_handle_report_lip_support`, read from the operand bytes
5..8 of the frame. -/
def report_uuid (command : dlb_cec_message) : Nat :=
  ((command.byte 5 * 2 ^ 24) % 2 ^ 32) ||| (command.byte 6 * 2 ^ 16)
    ||| (command.byte 7 * 2 ^ 8) ||| command.byte 8

/-- The operand bytes of a frame are `uint8_t` values. -/
def bytes_ok (command : dlb_cec_message) : Prop := ∀ b ∈ command.data, b < 256

instance (command : dlb_cec_message) : Decidable (bytes_ok command) := by
  unfold bytes_ok
  exact inferInstance

/-- The acceptance rule in the words of the specification: a REPORT_LIP_SUPPORT or an
UPDATE_UUID (`update_uuid`) must come from the configured downstream address; the
first requires a state other than SUPPORTED, the second the state SUPPORTED. -/
def spec_identity_accepted (s : dlb_lip) (command : dlb_cec_message) (update_uuid : Bool) :
    Prop :=
  command.initiator = s.config_params.downstream_device_addr
    ∧ (if update_uuid then s.state = LIP_SUPPORTED else s.state ≠ LIP_SUPPORTED)

instance (s : dlb_lip) (command : dlb_cec_message) (update_uuid : Bool) :
    Decidable (spec_identity_accepted s command update_uuid) := by
  unfold spec_identity_accepted
  exact inferInstance

/-- The core of `lip_handle_report_lip_support` for an accepted frame when the status
callback has run, before the upstream frames are built, and the local array
`send_update_uuid`. -/
def identity_accepted_core (now : Nat) (s : dlb_lip) (command : dlb_cec_message)
    (update_uuid : Bool) : dlb_lip × (Int → Bool) :=
  let s1 := if report_uuid command ≠ s.downstream_device_cfg.uuid
    then rotate_cache s (report_uuid command) else s
  let s2 : dlb_lip :=
    { s1 with
      downstream_device_cfg :=
        { s1.downstream_device_cfg with
          logical_addr := command.initiator, uuid := report_uuid command },
      state := LIP_SUPPORTED }
  let r := answer_buffered_support slot_indices (s2, fun _ => update_uuid)
  (lip_status_change_callback (lip_reschedule_timer r.1 now), r.2)

/-- What the read callback leaves of the cache `c` when `lip_handle_report_lip_support`
asks it for the blob of `uuid`: the number of bytes read and the buffer afterwards (no
callback: nothing read). -/
def read_blob (s : dlb_lip) (uuid : Nat) : Nat × dlb_latency_cache :=
  match s.callbacks.read_cache_callback with
  | some read => read uuid s.downstream_device_cfg.latency_cache
  | none => (0, s.downstream_device_cfg.latency_cache)

/-- The flag `clear_audio_cache` of `lip_handle_report_lip_support` for the new uuid
`uuid` and the stored uuid `old`. -/
def clear_audio_flag (uuid old : Nat) : Bool :=
  decide ((uuid &&& LIP_UUID_MASK) ≠ (old &&& LIP_UUID_MASK))
    || decide ((uuid &&& LIP_UUID_AUDIO_MASK) ≠ (old &&& LIP_UUID_AUDIO_MASK))

/-- The flag `clear_video_cache` of `lip_handle_report_lip_support` for the new uuid
`uuid` and the stored uuid `old`. -/
def clear_video_flag (uuid old : Nat) : Bool :=
  decide ((uuid &&& LIP_UUID_MASK) ≠ (old &&& LIP_UUID_MASK))
    || decide ((uuid &&& LIP_UUID_VIDEO_MASK) ≠ (old &&& LIP_UUID_VIDEO_MASK))

/-- The cache of the core after an accepted identity message. -/
def cache_after_identity (s : dlb_lip) (uuid : Nat) : dlb_latency_cache :=
  if uuid ≠ s.downstream_device_cfg.uuid then
    (if (read_blob s uuid).1 % 2 ^ 32 ≠ sizeof_latency_cache then
      dlb_cache_clear (read_blob s uuid).2
        (clear_audio_flag uuid s.downstream_device_cfg.uuid)
        (clear_video_flag uuid s.downstream_device_cfg.uuid)
    else (read_blob s uuid).2)
  else s.downstream_device_cfg.latency_cache

/-- The LIP opcode of an identity message: UPDATE_UUID (`update_uuid`) or
REPORT_LIP_SUPPORT. -/
def identity_opcode (update_uuid : Bool) : Nat :=
  if update_uuid then LIP_OPCODE_UPDATE_UUID else LIP_OPCODE_REPORT_LIP_SUPPORT

/-- The three tests at the head of `lip_handle_report_lip_support`; the frame is ignored
when one of them holds. -/
def identity_ignored (s : dlb_lip) (command : dlb_cec_message) (update_uuid : Bool) : Bool :=
  decide (s.config_params.downstream_device_addr ≠ command.initiator)
    || (!update_uuid && decide (s.state = LIP_SUPPORTED))
    || (update_uuid && decide (s.state ≠ LIP_SUPPORTED))

/-- The frame REPORT_LIP_SUPPORT(version 0, uuid 0xABCD0002) from address 0 of scenario
S4: the uuid differs from 0xABCD0001 in the low octet only. -/
def S4_report : dlb_cec_message := frame 0 5 [0, 0xD0, 0x46, 0x11, 0, 0xAB, 0xCD, 0, 2]

/-- The frame UPDATE_UUID(version 0, uuid 0xABCD0002) from address 0. -/
def S4_update : dlb_cec_message := frame 0 5 [0, 0xD0, 0x46, 0x18, 0, 0xAB, 0xCD, 0, 2]

/-- The frame UPDATE_UUID(version 0, uuid 0xABCD0101) from address 0: the uuid differs
from 0xABCD0001 in bits 8..15 only. -/
def video_mode_update : dlb_cec_message := frame 0 5 [0, 0xD0, 0x46, 0x18, 0, 0xAB, 0xCD, 1, 1]

/-- The frame Feature Abort(VENDOR_COMMAND_WITH_ID, REFUSED) from address 0 to
address 5. -/
def downstream_abort : dlb_cec_message :=
  lip_build_abort_cec_command empty_msg 0 5 DLB_CEC_OPCODE_VENDOR_COMMAND_WITH_ID
    DLB_CEC_ABORT_REASON_REFUSED

/-- The core after the peers `us` have sent REQUEST_LIP_SUPPORT one after the other. -/
def register_peers (us : List Int) (s : dlb_lip) : dlb_lip :=
  us.foldl (fun s u => after_request_lip_support u s) s

/-- Scenario S1 (a sink in state SUPPORTED, own address 5) after the peers 2, 3, 4 and 1
have registered, the peers 4, 3 and 2 have been removed one by one, each removal
followed by a new REQUEST_LIP_SUPPORT of peer 1, and the peers 2, 3, 4, 6, ..., 14 have
registered: the upstream array holds peer 1 four times and has no free entry. -/
def S1_full : dlb_lip :=
  register_peers [2, 3, 4, 6, 7, 8, 9, 10, 11, 12, 13, 14]
    (after_request_lip_support 1 (after_remove_upstream 2
      (after_request_lip_support 1 (after_remove_upstream 3
        (after_request_lip_support 1 (after_remove_upstream 4
          (register_peers [2, 3, 4, 1] S1_supported)))))))

/-- The locals `discovery`, `update_uuid` and `parameters_valid` of `dlb_lip_set_config`
when the block `if (init_params)` has run, with the core at that point. -/
def set_config_flags (s : dlb_lip) (init_params : Option dlb_lip_config_params)
    (force_discovery : Bool) (remove_upstream_device : Int) : dlb_lip × Bool × Bool × Bool :=
  match init_params with
  | some p => set_config_check (lip_remove_upstream_device s remove_upstream_device)
      force_discovery p
  | none => (lip_remove_upstream_device s remove_upstream_device, force_discovery, false, true)

/-- The callbacks of the scenarios with a UUID merge that takes the device part (top
16 bits) of the own uuid and the rendering modes (low 16 bits) of the downstream uuid. -/
def S7_callbacks : dlb_lip_callbacks :=
  { store_cache_callback := false, read_cache_callback := none,
    status_change_callback := false,
    merge_uuid_callback := some (fun a b => (a &&& 0xFFFF0000) ||| (b &&& 0xFFFF)) }

/-- Scenario S7 (UUID propagation) after `dlb_lip_open`: the configuration of scenario
S2 with the merge callback of `S7_callbacks`. -/
def S7_opened : dlb_lip :=
  (dlb_lip_open S2_config S7_callbacks scenario_bus 0).getD
    (zeroed_core S7_callbacks scenario_bus S2_config)

/-- Scenario S7 in state SUPPORTED with downstream uuid 0xABCD0001. -/
def S7_supported : dlb_lip :=
  core_of (lip_cec_cmd_received 2 10 (dlb_lip_request_thread_step 0 S7_opened ⟨0, false⟩).1
    (frame 0 5 [0, 0xD0, 0x46, 0x11, 0, 0xAB, 0xCD, 0, 1]))
    (dlb_lip_request_thread_step 0 S7_opened ⟨0, false⟩).1

/-- Scenario S7 with upstream peer 1 attached. -/
def S7_hub : dlb_lip := after_request_lip_support 1 S7_supported

/-- The frame UPDATE_UUID(version 0, uuid 0xFFFFFFFF) from address 0. -/
def invalid_uuid_update : dlb_cec_message :=
  frame 0 5 [0, 0xD0, 0x46, 0x18, 0, 0xFF, 0xFF, 0xFF, 0xFF]

/-- The bus of a TV: own logical address 0, every transmit succeeds. -/
def TV_bus : dlb_cec_bus := { transmit_callback := fun _ => 0, logical_address := 0 }

/-- The configuration of a TV whose downstream device is the audio system (address 5). -/
def TV_config : dlb_lip_config_params :=
  { downstream_device_addr := 5, uuid := 0x12340000, render_mode := LIP_VIDEO_RENDERER,
    video_latencies := fun _ _ _ => 0, audio_latencies := fun _ _ _ => 0,
    audio_transcoding := false, audio_transcoding_format := ⟨0, 0, 0⟩ }

/-- The TV after `dlb_lip_open`. -/
def TV_opened : dlb_lip :=
  (dlb_lip_open TV_config S7_callbacks TV_bus 0).getD (zeroed_core S7_callbacks TV_bus TV_config)

/-- The TV in state SUPPORTED after the audio system has answered with
REPORT_LIP_SUPPORT(uuid 0xABCD0001), with the upstream peers 2 and 4 attached. -/
def TV_hub : dlb_lip :=
  after_request_lip_support 4 (after_request_lip_support 2
    (core_of (lip_cec_cmd_received 2 10 (dlb_lip_request_thread_step 0 TV_opened ⟨0, false⟩).1
      (frame 5 0 [0, 0xD0, 0x46, 0x11, 0, 0xAB, 0xCD, 0, 1]))
      (dlb_lip_request_thread_step 0 TV_opened ⟨0, false⟩).1))

/-- The TV after a forced rediscovery in which the audio system does not answer: the
worker has sent REQUEST_LIP_SUPPORT, peer 1 has sent REQUEST_LIP_SUPPORT, which is
buffered in slot 1, and the wait of the worker has timed out, so that the state is
SUPPORTED again (a TV counts a transmitted request to the audio system as support). -/
def TV_rediscovered : dlb_lip :=
  (dlb_lip_request_thread_step 1100
    (after_request_lip_support 1
      (dlb_lip_request_thread_step 100
        (dlb_lip_set_config TV_hub none true DLB_LOGICAL_ADDR_UNKNOWN).1 ⟨0, false⟩).1)
    (dlb_lip_request_thread_step 100
      (dlb_lip_set_config TV_hub none true DLB_LOGICAL_ADDR_UNKNOWN).1 ⟨0, false⟩).2).1

/-- The frame UPDATE_UUID(version 0, uuid 0xABCD0002) from address 5 to address 0. -/
def TV_update : dlb_cec_message := frame 5 0 [0, 0xD0, 0x46, 0x18, 0, 0xAB, 0xCD, 0, 2]

/-! ## Array accesses of the cache -/

/-- The indices of the access `video_latencies[vic][color_format][hdr_mode]` (and of the
same access to `video_latencies_valid`) that `dlb_cache_set_video_latency`, and
`dlb_cache_get_video_latency` on an enabled cache, make for `video_format`: `some none`
when they make no access, `none` when the call stops at the assertion before any access.
Both functions index the arrays only behind `dlb_cache_validate_video_params`. -/
def dlb_cache_video_access (video_format : dlb_lip_video_format) :
    Option (Option (Nat × Nat × Nat)) :=
  match dlb_cache_validate_video_params video_format with
  | none => none
  | some false => some none
  | some true =>
    match dlb_lip_get_hdr_mode_from_video_format video_format with
    | none => none
    | some hdr_mode => some (some (video_format.vic, video_format.color_format, hdr_mode))

/-- The indices of the access `audio_latencies[codec][subtype][ext]` (and of the same
access to `audio_latencies_valid`) that `dlb_cache_get_audio_latency` and
`dlb_cache_set_audio_latency` make for `audio_format`, or `none` when they make no
access: both functions index the arrays only behind `dlb_cache_validate_audio_params`. -/
def dlb_cache_audio_access (audio_format : dlb_lip_audio_format) : Option (Nat × Nat × Nat) :=
  if dlb_cache_validate_audio_params audio_format.codec audio_format.subtype audio_format.ext
  then some (audio_format.codec, audio_format.subtype, audio_format.ext)
  else none

/-! ## Predicates of the format validation -/

/-- The words of the specification for a latency request `m` with LIP opcode `op` that
carries an invalid format: a request with a video format (REQUEST_AV_LATENCY or
REQUEST_VIDEO_LATENCY, vic in byte 4 and hdr byte in byte 5) has `vic >= 219` or an hdr
byte outside 0..3, 64..67, 128..129; or a request with an audio format (codec byte 6 of
REQUEST_AV_LATENCY, codec byte 4 of REQUEST_AUDIO_LATENCY) has a decoded codec `>= 32`
or a decoded ext `>= 32`. -/
def spec_request_format_invalid (op : Nat) (m : dlb_cec_message) : Prop :=
  ((op = LIP_OPCODE_REQUEST_AV_LATENCY ∨ op = LIP_OPCODE_REQUEST_VIDEO_LATENCY)
      ∧ (m.byte 4 ≥ 219 ∨ m.byte 5 ∉ [0, 1, 2, 3, 64, 65, 66, 67, 128, 129]))
    ∨ (op = LIP_OPCODE_REQUEST_AV_LATENCY
      ∧ ((decode_audio_format m 6).codec ≥ 32 ∨ (decode_audio_format m 6).ext ≥ 32))
    ∨ (op = LIP_OPCODE_REQUEST_AUDIO_LATENCY
      ∧ ((decode_audio_format m 4).codec ≥ 32 ∨ (decode_audio_format m 4).ext ≥ 32))

instance (op : Nat) (m : dlb_cec_message) : Decidable (spec_request_format_invalid op m) := by
  unfold spec_request_format_invalid
  exact inferInstance

/-! ## The public latency queries as whole calls -/

/-- The loop `do ... while (ret == 1 && request_aborted == false)` of the three public
latency queries.  `round k` is the body of the loop at its `k`-th execution, up to the
point where the caller returns or blocks; `env k` is what the other threads (the receive
callback, the timer, the worker) have made of the core when the caller wakes up from the
wait of that execution, in which it has released the core mutex; `fuel` bounds the number
of executions and `none` means that the bound was reached.  The loop ends when a round
hits the cache (`ret = 0`), when the transmit of a round fails, or when the wait for the
answer ends with the own slot in a state other than ANSWER_RECEIVED; the result is the
core and the last round. -/
def query_loop (round : Nat → dlb_lip → dlb_lip × query_round)
    (env : Nat → dlb_lip → dlb_lip) : Nat → Nat → dlb_lip → Option (dlb_lip × query_round)
  | 0, _, _ => none
  | fuel + 1, k, s =>
    let r := round k s
    match r.2.next with
    | query_next.returned => some r
    | query_next.wait_for_slot => query_loop round env fuel (k + 1) (env k r.1)
    | query_next.wait_for_answer =>
      let d := dlb_lip_query_wait_done (env k r.1)
      if d.2 then some (d.1, r.2) else query_loop round env fuel (k + 1) d.1
    | query_next.again => query_loop round env fuel (k + 1) r.1

/-- The function `dlb_lip_get_av_latency` with non-null output pointers whose cells hold
`video_latency` and `audio_latency` before the call: the core afterwards, the return
value and the two cells.  The statements before the loop are
`dlb_lip_get_av_latency_entry`: with an invalid format, or with the downstream address
unknown, the loop is not entered and the call returns 1.  `now k` is the clock at the
`k`-th round of the loop. -/
def dlb_lip_get_av_latency (fuel : Nat) (now : Nat → Nat) (env : Nat → dlb_lip → dlb_lip)
    (s : dlb_lip) (video_format : dlb_lip_video_format) (audio_format : dlb_lip_audio_format)
    (video_latency audio_latency : Nat) : Option (dlb_lip × Int × Nat × Nat) :=
  let e := dlb_lip_get_av_latency_entry s video_format audio_format video_latency audio_latency
  if e.1 then
    (query_loop (fun k s => dlb_lip_get_av_latency_round (now k) s video_format audio_format)
      env fuel 0 s).map (fun r => (r.1, r.2.ret, r.2.video_latency, r.2.audio_latency))
  else some (s, 1, e.2.1, e.2.2)

/-- The function `dlb_lip_get_audio_latency` with a non-null output pointer: the core
afterwards, the return value and the output cell. -/
def dlb_lip_get_audio_latency (fuel : Nat) (now : Nat → Nat) (env : Nat → dlb_lip → dlb_lip)
    (s : dlb_lip) (audio_format : dlb_lip_audio_format) (audio_latency : Nat) :
    Option (dlb_lip × Int × Nat) :=
  let e := dlb_lip_get_audio_latency_entry s audio_format audio_latency
  if e.1 then
    (query_loop (fun k s => dlb_lip_get_audio_latency_round (now k) s audio_format)
      env fuel 0 s).map (fun r => (r.1, r.2.ret, r.2.audio_latency))
  else some (s, 1, e.2)

/-- The function `dlb_lip_get_video_latency` with a non-null output pointer: the core
afterwards, the return value and the output cell. -/
def dlb_lip_get_video_latency (fuel : Nat) (now : Nat → Nat) (env : Nat → dlb_lip → dlb_lip)
    (s : dlb_lip) (video_format : dlb_lip_video_format) (video_latency : Nat) :
    Option (dlb_lip × Int × Nat) :=
  let e := dlb_lip_get_video_latency_entry s video_format video_latency
  if e.1 then
    (query_loop (fun k s => dlb_lip_get_video_latency_round (now k) s video_format)
      env fuel 0 s).map (fun r => (r.1, r.2.ret, r.2.video_latency))
  else some (s, 1, e.2)

/-- The environment of the counterexample to the failure result of
`dlb_lip_get_av_latency`: while the caller waits for the answer, the receive callback
handles a Feature Abort(VENDOR_COMMAND_WITH_ID) from the downstream device at time 50. -/
def abort_while_waiting (_k : Nat) (s : dlb_lip) : dlb_lip :=
  core_of (lip_cec_cmd_received 2 50 s downstream_abort) s

/-! ## Definitions for the statements about the builders, the worker, the timer and the
upstream array -/

/-- The checks of the receive path on a frame that is meant to carry the LIP opcode
`op`: the CEC opcode is `VENDOR_COMMAND_WITH_ID`, `lip_validate_cmd_vendor_id` accepts
it, `lip_get_command_opcode` reads `op`, and the length lies between
`lip_get_command_min_length op` and 9. -/
def passes_decoder_checks (f : dlb_cec_message) (op : Nat) : Prop :=
  f.opcode = DLB_CEC_OPCODE_VENDOR_COMMAND_WITH_ID
    ∧ lip_validate_cmd_vendor_id f = true
    ∧ lip_get_command_opcode f = op
    ∧ lip_get_command_min_length op ≤ f.msg_length
    ∧ f.msg_length ≤ 9

/-- No logical address other than UNKNOWN occurs in more than one entry of the upstream
array. -/
def upstream_no_duplicates (up : List Int) : Prop :=
  ∀ a, a ≠ DLB_LOGICAL_ADDR_UNKNOWN → up.count a ≤ 1

/-- The shape of the upstream array while only `lip_add_upstream_device` has written to
it: distinct known addresses in front, UNKNOWN in every entry behind them. -/
def upstream_packed : List Int → Prop
  | [] => True
  | x :: xs =>
    if x = DLB_LOGICAL_ADDR_UNKNOWN then ∀ y ∈ xs, y = DLB_LOGICAL_ADDR_UNKNOWN
    else x ∉ xs ∧ upstream_packed xs

/-- The upstream array after `dlb_lip_open`: sixteen entries UNKNOWN. -/
def upstream_empty : List Int := List.replicate 16 DLB_LOGICAL_ADDR_UNKNOWN

/-- The local `msg_timeout_ms` of `lip_reschedule_timer` for slot `i` at clock value
`now`. -/
def msg_timeout_ms (s : dlb_lip) (now : Nat) (i : Int) : Nat :=
  (if (s.pending_requests i).expire_time_ms > now
    then (s.pending_requests i).expire_time_ms - now else 0) % 2 ^ 32

/-- The timer deadline invariant in the words of the specification, at clock value `now`:
the core timer is armed (its timeout is not the infinite one) if and only if some slot is
SENT, and when armed its timeout is the minimum over the SENT slots of
`max(expire_time_ms - now, 0)`. -/
def spec_timer_invariant (s : dlb_lip) (now : Nat) : Prop :=
  (s.timer.timeout_ms ≠ LIP_OSA_INFINITE_TIMEOUT ↔
      ∃ i ∈ slot_indices, (s.pending_requests i).state = LIP_MESSAGE_SENT)
    ∧ (∀ i ∈ slot_indices, (s.pending_requests i).state = LIP_MESSAGE_SENT →
        s.timer.timeout_ms ≤ (s.pending_requests i).expire_time_ms - now)
    ∧ ((∃ i ∈ slot_indices, (s.pending_requests i).state = LIP_MESSAGE_SENT) →
        ∃ i ∈ slot_indices, (s.pending_requests i).state = LIP_MESSAGE_SENT
          ∧ s.timer.timeout_ms = (s.pending_requests i).expire_time_ms - now)

instance (s : dlb_lip) (now : Nat) : Decidable (spec_timer_invariant s now) := by
  unfold spec_timer_invariant
  exact inferInstance

/-- The test of the loops of `dlb_lip_request_thread` on slot `i`: the frame stored in the
slot is a REQUEST_LIP_SUPPORT (the state of the slot is not looked at). -/
def holds_request_lip_support (s : dlb_lip) (i : Int) : Bool :=
  decide (lip_get_command_opcode (s.pending_requests i).msg = LIP_OPCODE_REQUEST_LIP_SUPPORT)

/-- The REPORT_LIP_SUPPORT that the worker transmits for slot `i` in state SUPPORTED: to
the initiator of the stored frame, with the merged UUID. -/
def worker_report_frame (s : dlb_lip) (i : Int) : dlb_cec_message :=
  dlb_lip_build_report_lip_support_cmd empty_msg s.cec_bus.logical_address
    (s.pending_requests i).msg.initiator LIP_PROTOCOL_VERSION (lip_get_uuid s) false

/-- The Feature Abort(REFUSED) that the worker transmits for slot `i` in state
UNSUPPORTED. -/
def worker_abort_frame (s : dlb_lip) (i : Int) : dlb_cec_message :=
  lip_build_abort_cec_command empty_msg s.cec_bus.logical_address
    (s.pending_requests i).msg.initiator DLB_CEC_OPCODE_VENDOR_COMMAND_WITH_ID
    DLB_CEC_ABORT_REASON_REFUSED

/-- The core `s` agrees with `s0` on what the frames of the worker are built from: the
static fields and the frame stored in every slot. -/
def worker_same (s0 s : dlb_lip) : Prop :=
  same_static s0 s ∧ ∀ k, (s.pending_requests k).msg = (s0.pending_requests k).msg

/-- The last frame handed to the bus was refused: the transmit callback returned a
non-zero value for it. -/
def last_transmit_refused (s : dlb_lip) : Prop :=
  ∃ f, s.tx.getLast? = some f ∧ s.cec_bus.transmit_callback f ≠ 0

/-- The own slot after a public latency query that ended with the round `r`: it is
HANDLED, or the query ended because the bus refused its frame (return value 1). -/
def query_released (own : Int) (r : dlb_lip × query_round) : Prop :=
  (r.1.pending_requests own).state = LIP_MESSAGE_HANDLED
    ∨ (r.2.ret = 1 ∧ last_transmit_refused r.1)

/-- What a request handler does with frame `m` on core `s` (with an empty response list)
beyond `request_effect`: the slot of the initiator of `m` becomes PENDING only when a slot
of another peer is SENT, and every response goes to the initiator of `m` or to the
downstream device. -/
def request_effect_more (s : dlb_lip) (m : dlb_cec_message)
    (r : dlb_lip × List dlb_cec_message × Bool) : Prop :=
  ((r.1.pending_requests m.initiator).state = LIP_MESSAGE_PENDING →
      (s.pending_requests m.initiator).state ≠ LIP_MESSAGE_PENDING →
      ∃ j ∈ slot_indices, j ≠ m.initiator
        ∧ (s.pending_requests j).state = LIP_MESSAGE_SENT)
    ∧ r.1.tx = s.tx
    ∧ ∀ f ∈ r.2.1, f.destination = m.initiator
        ∨ f.destination = s.downstream_device_cfg.logical_addr

/-- What the dispatch of a request frame `m` in state SUPPORTED does to the core beyond
`nested_effect`: the slot of the initiator of `m` becomes PENDING only when a slot of
another peer is SENT, and every transmitted frame goes to the initiator of `m` or to the
downstream device. -/
def nested_effect_more (s : dlb_lip) (m : dlb_cec_message) (s' : dlb_lip) : Prop :=
  ((s'.pending_requests m.initiator).state = LIP_MESSAGE_PENDING →
      (s.pending_requests m.initiator).state ≠ LIP_MESSAGE_PENDING →
      ∃ j ∈ slot_indices, j ≠ m.initiator
        ∧ (s.pending_requests j).state = LIP_MESSAGE_SENT)
    ∧ ∃ fs, s'.tx = s.tx ++ fs
        ∧ ∀ f ∈ fs, f.destination = m.initiator
            ∨ f.destination = s.downstream_device_cfg.logical_addr

/-- No queued request is stranded, in the words of the specification: if some slot is
PENDING holding a latency request, then some slot is SENT. -/
def no_request_stranded (s : dlb_lip) : Prop :=
  (∃ i ∈ slot_indices, (s.pending_requests i).state = LIP_MESSAGE_PENDING
      ∧ (lip_get_command_opcode (s.pending_requests i).msg = LIP_OPCODE_REQUEST_AV_LATENCY
        ∨ lip_get_command_opcode (s.pending_requests i).msg
            = LIP_OPCODE_REQUEST_AUDIO_LATENCY
        ∨ lip_get_command_opcode (s.pending_requests i).msg
            = LIP_OPCODE_REQUEST_VIDEO_LATENCY))
    → ∃ j ∈ slot_indices, (s.pending_requests j).state = LIP_MESSAGE_SENT

instance (s : dlb_lip) : Decidable (no_request_stranded s) := by
  unfold no_request_stranded
  exact inferInstance

/-! ## Scenario cores with queued requests -/

/-- The frame REQUEST_VIDEO_LATENCY(vic, SDR) from address `u` to address 5. -/
def request_video_frame (u : Int) (vic : Nat) : dlb_cec_message :=
  frame u 5 [0, 0xD0, 0x46, 0x16, vic, 0]

/-- The frame REPORT_VIDEO_LATENCY(latency) from address 0 to address 5. -/
def report_video_frame (latency : Nat) : dlb_cec_message :=
  frame 0 5 [0, 0xD0, 0x46, 0x17, latency]

/-- The frame REPORT_AUDIO_LATENCY(latency) from address 0 to address 5. -/
def report_audio_frame (latency : Nat) : dlb_cec_message :=
  frame 0 5 [0, 0xD0, 0x46, 0x15, latency]

/-- Scenario S2 after REQUEST_VIDEO_LATENCY(vic 4) from peer 1 at time 20: the request is
in flight (slot 1 SENT) and the remembered video format is vic 4. -/
def S2_video_in_flight : dlb_lip :=
  core_of (lip_cec_cmd_received 2 20 S2_supported (request_video_frame 1 4)) S2_supported

/-- Scenario S2 after REQUEST_VIDEO_LATENCY(vic 16) from peer 2 at time 25, while the
request of peer 1 is in flight: the request of peer 2 is queued (slot 2 PENDING). -/
def S2_video_queued : dlb_lip :=
  core_of (lip_cec_cmd_received 2 25 S2_video_in_flight (request_video_frame 2 16))
    S2_video_in_flight

/-- Scenario S2 after the downstream device has answered the request in flight with
REPORT_VIDEO_LATENCY(30) at time 30. -/
def S2_video_answered : dlb_lip :=
  core_of (lip_cec_cmd_received 2 30 S2_video_queued (report_video_frame 30)) S2_video_queued

/-! ## Scenario cores with a buffered discovery request -/

/-- Scenario S2 while the worker waits for the downstream reply, after peer 1 has sent
REQUEST_LIP_SUPPORT at time 40: the request is buffered (slot 1 PENDING). -/
def S2_support_buffered : dlb_lip := after_request_lip_support 1 S2_discovering

/-- Scenario S2 after the downstream device has answered with REPORT_LIP_SUPPORT at time
50: the state is SUPPORTED, the buffered request of peer 1 has been answered (slot 1
HANDLED) and the worker has been signalled. -/
def S2_support_answered : dlb_lip :=
  core_of (lip_cec_cmd_received 2 50 S2_support_buffered
    (frame 0 5 [0, 0xD0, 0x46, 0x11, 0, 0xAB, 0xCD, 0, 1])) S2_support_buffered

/-- Scenario S2 after peer 2 has sent REQUEST_VIDEO_LATENCY(vic 4) at time 60, before the
signalled worker has run: slot 2 is SENT, slot 1 is HANDLED and still holds the
REQUEST_LIP_SUPPORT of peer 1. -/
def S2_support_stale : dlb_lip :=
  core_of (lip_cec_cmd_received 2 60 S2_support_answered (request_video_frame 2 4))
    S2_support_answered

/-- Scenario S2 after the wait of the worker for the downstream reply has timed out with
the request of peer 1 buffered: the state is UNSUPPORTED and slot 1 is PENDING. -/
def S2_unsupported_buffered : dlb_lip :=
  (dlb_lip_request_thread_step 2000 S2_support_buffered ⟨0, true⟩).1

/-- Scenario S2 after the downstream device has answered the REQUEST_VIDEO_LATENCY in
flight for peer 1 with REPORT_AV_LATENCY(video 30, audio 5) at time 30. -/
def S2_video_answered_av : dlb_lip :=
  core_of (lip_cec_cmd_received 2 30 S2_video_in_flight S2_report) S2_video_in_flight

/-! ## Scenario cores on a bus that refuses the video query -/

/-- A bus with own logical address 5 whose transmit callback fails for every
REQUEST_VIDEO_LATENCY and succeeds for every other frame. -/
def refusing_bus : dlb_cec_bus :=
  { transmit_callback := fun f =>
      if lip_get_command_opcode f = LIP_OPCODE_REQUEST_VIDEO_LATENCY then 1 else 0,
    logical_address := 5 }

/-- Scenario S2 on the refusing bus after `dlb_lip_open`. -/
def S2_refused_opened : dlb_lip :=
  (dlb_lip_open S2_config scenario_callbacks refusing_bus 0).getD
    (zeroed_core scenario_callbacks refusing_bus S2_config)

/-- Scenario S2 on the refusing bus in state SUPPORTED: the worker has sent
REQUEST_LIP_SUPPORT, and the downstream device has answered with REPORT_LIP_SUPPORT at
time 10. -/
def S2_refused_supported : dlb_lip :=
  core_of (lip_cec_cmd_received 2 10
    (dlb_lip_request_thread_step 0 S2_refused_opened ⟨0, false⟩).1
    (frame 0 5 [0, 0xD0, 0x46, 0x11, 0, 0xAB, 0xCD, 0, 1]))
    (dlb_lip_request_thread_step 0 S2_refused_opened ⟨0, false⟩).1

/-- Scenario S2 on the refusing bus after the one round of `dlb_lip_get_video_latency`
for vic 4 at time 40, in which the bus refuses the request frame and the call returns. -/
def S2_refused_after_query : dlb_lip :=
  (dlb_lip_get_video_latency_round 40 S2_refused_supported ⟨4, 0, 0⟩).1

/-- Scenario S2 on the refusing bus after the timer armed by that query has fired at time
2040. -/
def S2_refused_timed_out : dlb_lip :=
  core_of (dlb_lip_timer_callback (lip_cec_cmd_received 1 2040) 2040 S2_refused_after_query
    S2_refused_after_query.callback_id true) S2_refused_after_query

/-! ## Scenario cores with a mismatched report -/

/-- Scenario S2 after REQUEST_VIDEO_LATENCY(vic 4) from peer 6 at time 20: the request is
in flight (slot 6 SENT). -/
def S2_mismatch_in_flight : dlb_lip :=
  core_of (lip_cec_cmd_received 2 20 S2_supported (request_video_frame 6 4)) S2_supported

/-- Scenario S2 after a round of the public query `dlb_lip_get_video_latency` for vic 7 at
time 22, while the request of peer 6 is in flight: the own request is queued (slot 5
PENDING) and the caller waits. -/
def S2_mismatch_own_queued : dlb_lip :=
  (dlb_lip_get_video_latency_round 22 S2_mismatch_in_flight ⟨7, 0, 0⟩).1

/-- Scenario S2 after REQUEST_VIDEO_LATENCY(vic 9) from peer 7 at time 24: the request is
queued as well (slot 7 PENDING). -/
def S2_mismatch_queued : dlb_lip :=
  core_of (lip_cec_cmd_received 2 24 S2_mismatch_own_queued (request_video_frame 7 9))
    S2_mismatch_own_queued

/-- Scenario S2 after the downstream device has sent REPORT_AUDIO_LATENCY(9) at time 30,
while the REQUEST_VIDEO_LATENCY of peer 6 is in flight. -/
def S2_mismatch_answered : dlb_lip :=
  core_of (lip_cec_cmd_received 2 30 S2_mismatch_queued (report_audio_frame 9))
    S2_mismatch_queued

/-! ## A concrete cache -/

/-- The cache after `dlb_cache_init(&cache, true)` on zeroed memory. -/
def fresh_cache : dlb_latency_cache :=
  dlb_cache_init
    ⟨false, fun _ _ _ => 0, fun _ _ _ => false, fun _ _ _ => 0, fun _ _ _ => false⟩ true

/-! ## Lemmas -/

/-! ## Which fields the helper functions leave alone -/

@[simp] theorem lip_reschedule_timer_cec_bus (s : dlb_lip) (now : Nat) :
    (lip_reschedule_timer s now).cec_bus = s.cec_bus := by unfold lip_reschedule_timer; simp only []; split_ifs <;> rfl

@[simp] theorem lip_reschedule_timer_config_params (s : dlb_lip) (now : Nat) :
    (lip_reschedule_timer s now).config_params = s.config_params := by unfold lip_reschedule_timer; simp only []; split_ifs <;> rfl

@[simp] theorem lip_reschedule_timer_downstream_device_cfg (s : dlb_lip) (now : Nat) :
    (lip_reschedule_timer s now).downstream_device_cfg = s.downstream_device_cfg := by unfold lip_reschedule_timer; simp only []; split_ifs <;> rfl

@[simp] theorem lip_reschedule_timer_state (s : dlb_lip) (now : Nat) :
    (lip_reschedule_timer s now).state = s.state := by unfold lip_reschedule_timer; simp only []; split_ifs <;> rfl

@[simp] theorem lip_reschedule_timer_add_iec_decoding_latency (s : dlb_lip) (now : Nat) :
    (lip_reschedule_timer s now).add_iec_decoding_latency = s.add_iec_decoding_latency := by unfold lip_reschedule_timer; simp only []; split_ifs <;> rfl

@[simp] theorem lip_reschedule_timer_callbacks (s : dlb_lip) (now : Nat) :
    (lip_reschedule_timer s now).callbacks = s.callbacks := by unfold lip_reschedule_timer; simp only []; split_ifs <;> rfl

@[simp] theorem lip_reschedule_timer_tx (s : dlb_lip) (now : Nat) :
    (lip_reschedule_timer s now).tx = s.tx := by unfold lip_reschedule_timer; simp only []; split_ifs <;> rfl

@[simp] theorem lip_reschedule_timer_pending_requests (s : dlb_lip) (now : Nat) :
    (lip_reschedule_timer s now).pending_requests = s.pending_requests := by unfold lip_reschedule_timer; simp only []; split_ifs <;> rfl

@[simp] theorem lip_reschedule_timer_req_video_format (s : dlb_lip) (now : Nat) :
    (lip_reschedule_timer s now).req_video_format = s.req_video_format := by unfold lip_reschedule_timer; simp only []; split_ifs <;> rfl

@[simp] theorem lip_reschedule_timer_req_audio_format (s : dlb_lip) (now : Nat) :
    (lip_reschedule_timer s now).req_audio_format = s.req_audio_format := by unfold lip_reschedule_timer; simp only []; split_ifs <;> rfl

@[simp] theorem lip_reschedule_timer_upstream_devices_addresses (s : dlb_lip) (now : Nat) :
    (lip_reschedule_timer s now).upstream_devices_addresses = s.upstream_devices_addresses := by unfold lip_reschedule_timer; simp only []; split_ifs <;> rfl

@[simp] theorem lip_reschedule_timer_is_running (s : dlb_lip) (now : Nat) :
    (lip_reschedule_timer s now).is_running = s.is_running := by unfold lip_reschedule_timer; simp only []; split_ifs <;> rfl

@[simp] theorem lip_reschedule_timer_thread_signaled (s : dlb_lip) (now : Nat) :
    (lip_reschedule_timer s now).thread_signaled = s.thread_signaled := by unfold lip_reschedule_timer; simp only []; split_ifs <;> rfl

@[simp] theorem lip_reschedule_timer_opcode_of_last_cmd_sent (s : dlb_lip) (now : Nat) :
    (lip_reschedule_timer s now).opcode_of_last_cmd_sent = s.opcode_of_last_cmd_sent := by unfold lip_reschedule_timer; simp only []; split_ifs <;> rfl

@[simp] theorem lip_reschedule_timer_stored_caches (s : dlb_lip) (now : Nat) :
    (lip_reschedule_timer s now).stored_caches = s.stored_caches := by unfold lip_reschedule_timer; simp only []; split_ifs <;> rfl

@[simp] theorem lip_reschedule_timer_status_events (s : dlb_lip) (now : Nat) :
    (lip_reschedule_timer s now).status_events = s.status_events := by unfold lip_reschedule_timer; simp only []; split_ifs <;> rfl

@[simp] theorem lip_reschedule_timer_condition_var_signals (s : dlb_lip) (now : Nat) :
    (lip_reschedule_timer s now).condition_var_signals = s.condition_var_signals := by unfold lip_reschedule_timer; simp only []; split_ifs <;> rfl

@[simp] theorem lip_reschedule_timer_state_updated_signals (s : dlb_lip) (now : Nat) :
    (lip_reschedule_timer s now).state_updated_signals = s.state_updated_signals := by unfold lip_reschedule_timer; simp only []; split_ifs <;> rfl

@[simp] theorem lip_reschedule_timer_pending_cv_broadcasts (s : dlb_lip) (now : Nat) :
    (lip_reschedule_timer s now).pending_cv_broadcasts = s.pending_cv_broadcasts := by unfold lip_reschedule_timer; simp only []; split_ifs <;> rfl

@[simp] theorem lip_reschedule_timer_start_time (s : dlb_lip) (now : Nat) :
    (lip_reschedule_timer s now).start_time = s.start_time := by unfold lip_reschedule_timer; simp only []; split_ifs <;> rfl

@[simp] theorem lip_transmit_wrapper_cec_bus (s : dlb_lip) (m : dlb_cec_message) :
    ((lip_transmit_wrapper s m).1).cec_bus = s.cec_bus := rfl

@[simp] theorem lip_transmit_wrapper_config_params (s : dlb_lip) (m : dlb_cec_message) :
    ((lip_transmit_wrapper s m).1).config_params = s.config_params := rfl

@[simp] theorem lip_transmit_wrapper_downstream_device_cfg (s : dlb_lip) (m : dlb_cec_message) :
    ((lip_transmit_wrapper s m).1).downstream_device_cfg = s.downstream_device_cfg := rfl

@[simp] theorem lip_transmit_wrapper_state (s : dlb_lip) (m : dlb_cec_message) :
    ((lip_transmit_wrapper s m).1).state = s.state := rfl

@[simp] theorem lip_transmit_wrapper_add_iec_decoding_latency (s : dlb_lip) (m : dlb_cec_message) :
    ((lip_transmit_wrapper s m).1).add_iec_decoding_latency = s.add_iec_decoding_latency := rfl

@[simp] theorem lip_transmit_wrapper_callbacks (s : dlb_lip) (m : dlb_cec_message) :
    ((lip_transmit_wrapper s m).1).callbacks = s.callbacks := rfl

@[simp] theorem lip_transmit_wrapper_pending_requests (s : dlb_lip) (m : dlb_cec_message) :
    ((lip_transmit_wrapper s m).1).pending_requests = s.pending_requests := rfl

@[simp] theorem lip_transmit_wrapper_req_video_format (s : dlb_lip) (m : dlb_cec_message) :
    ((lip_transmit_wrapper s m).1).req_video_format = s.req_video_format := rfl

@[simp] theorem lip_transmit_wrapper_req_audio_format (s : dlb_lip) (m : dlb_cec_message) :
    ((lip_transmit_wrapper s m).1).req_audio_format = s.req_audio_format := rfl

@[simp] theorem lip_transmit_wrapper_upstream_devices_addresses (s : dlb_lip) (m : dlb_cec_message) :
    ((lip_transmit_wrapper s m).1).upstream_devices_addresses = s.upstream_devices_addresses := rfl

@[simp] theorem lip_transmit_wrapper_is_running (s : dlb_lip) (m : dlb_cec_message) :
    ((lip_transmit_wrapper s m).1).is_running = s.is_running := rfl

@[simp] theorem lip_transmit_wrapper_thread_signaled (s : dlb_lip) (m : dlb_cec_message) :
    ((lip_transmit_wrapper s m).1).thread_signaled = s.thread_signaled := rfl

@[simp] theorem lip_transmit_wrapper_timer (s : dlb_lip) (m : dlb_cec_message) :
    ((lip_transmit_wrapper s m).1).timer = s.timer := rfl

@[simp] theorem lip_transmit_wrapper_callback_id (s : dlb_lip) (m : dlb_cec_message) :
    ((lip_transmit_wrapper s m).1).callback_id = s.callback_id := rfl

@[simp] theorem lip_transmit_wrapper_stored_caches (s : dlb_lip) (m : dlb_cec_message) :
    ((lip_transmit_wrapper s m).1).stored_caches = s.stored_caches := rfl

@[simp] theorem lip_transmit_wrapper_status_events (s : dlb_lip) (m : dlb_cec_message) :
    ((lip_transmit_wrapper s m).1).status_events = s.status_events := rfl

@[simp] theorem lip_transmit_wrapper_condition_var_signals (s : dlb_lip) (m : dlb_cec_message) :
    ((lip_transmit_wrapper s m).1).condition_var_signals = s.condition_var_signals := rfl

@[simp] theorem lip_transmit_wrapper_state_updated_signals (s : dlb_lip) (m : dlb_cec_message) :
    ((lip_transmit_wrapper s m).1).state_updated_signals = s.state_updated_signals := rfl

@[simp] theorem lip_transmit_wrapper_pending_cv_broadcasts (s : dlb_lip) (m : dlb_cec_message) :
    ((lip_transmit_wrapper s m).1).pending_cv_broadcasts = s.pending_cv_broadcasts := rfl

@[simp] theorem lip_transmit_wrapper_start_time (s : dlb_lip) (m : dlb_cec_message) :
    ((lip_transmit_wrapper s m).1).start_time = s.start_time := rfl

@[simp] theorem lip_status_change_callback_cec_bus (s : dlb_lip) :
    (lip_status_change_callback s).cec_bus = s.cec_bus := by unfold lip_status_change_callback; split_ifs <;> rfl

@[simp] theorem lip_status_change_callback_config_params (s : dlb_lip) :
    (lip_status_change_callback s).config_params = s.config_params := by unfold lip_status_change_callback; split_ifs <;> rfl

@[simp] theorem lip_status_change_callback_downstream_device_cfg (s : dlb_lip) :
    (lip_status_change_callback s).downstream_device_cfg = s.downstream_device_cfg := by unfold lip_status_change_callback; split_ifs <;> rfl

@[simp] theorem lip_status_change_callback_state (s : dlb_lip) :
    (lip_status_change_callback s).state = s.state := by unfold lip_status_change_callback; split_ifs <;> rfl

@[simp] theorem lip_status_change_callback_add_iec_decoding_latency (s : dlb_lip) :
    (lip_status_change_callback s).add_iec_decoding_latency = s.add_iec_decoding_latency := by unfold lip_status_change_callback; split_ifs <;> rfl

@[simp] theorem lip_status_change_callback_callbacks (s : dlb_lip) :
    (lip_status_change_callback s).callbacks = s.callbacks := by unfold lip_status_change_callback; split_ifs <;> rfl

@[simp] theorem lip_status_change_callback_tx (s : dlb_lip) :
    (lip_status_change_callback s).tx = s.tx := by unfold lip_status_change_callback; split_ifs <;> rfl

@[simp] theorem lip_status_change_callback_pending_requests (s : dlb_lip) :
    (lip_status_change_callback s).pending_requests = s.pending_requests := by unfold lip_status_change_callback; split_ifs <;> rfl

@[simp] theorem lip_status_change_callback_req_video_format (s : dlb_lip) :
    (lip_status_change_callback s).req_video_format = s.req_video_format := by unfold lip_status_change_callback; split_ifs <;> rfl

@[simp] theorem lip_status_change_callback_req_audio_format (s : dlb_lip) :
    (lip_status_change_callback s).req_audio_format = s.req_audio_format := by unfold lip_status_change_callback; split_ifs <;> rfl

@[simp] theorem lip_status_change_callback_upstream_devices_addresses (s : dlb_lip) :
    (lip_status_change_callback s).upstream_devices_addresses = s.upstream_devices_addresses := by unfold lip_status_change_callback; split_ifs <;> rfl

@[simp] theorem lip_status_change_callback_is_running (s : dlb_lip) :
    (lip_status_change_callback s).is_running = s.is_running := by unfold lip_status_change_callback; split_ifs <;> rfl

@[simp] theorem lip_status_change_callback_thread_signaled (s : dlb_lip) :
    (lip_status_change_callback s).thread_signaled = s.thread_signaled := by unfold lip_status_change_callback; split_ifs <;> rfl

@[simp] theorem lip_status_change_callback_timer (s : dlb_lip) :
    (lip_status_change_callback s).timer = s.timer := by unfold lip_status_change_callback; split_ifs <;> rfl

@[simp] theorem lip_status_change_callback_callback_id (s : dlb_lip) :
    (lip_status_change_callback s).callback_id = s.callback_id := by unfold lip_status_change_callback; split_ifs <;> rfl

@[simp] theorem lip_status_change_callback_opcode_of_last_cmd_sent (s : dlb_lip) :
    (lip_status_change_callback s).opcode_of_last_cmd_sent = s.opcode_of_last_cmd_sent := by unfold lip_status_change_callback; split_ifs <;> rfl

@[simp] theorem lip_status_change_callback_stored_caches (s : dlb_lip) :
    (lip_status_change_callback s).stored_caches = s.stored_caches := by unfold lip_status_change_callback; split_ifs <;> rfl

@[simp] theorem lip_status_change_callback_condition_var_signals (s : dlb_lip) :
    (lip_status_change_callback s).condition_var_signals = s.condition_var_signals := by unfold lip_status_change_callback; split_ifs <;> rfl

@[simp] theorem lip_status_change_callback_state_updated_signals (s : dlb_lip) :
    (lip_status_change_callback s).state_updated_signals = s.state_updated_signals := by unfold lip_status_change_callback; split_ifs <;> rfl

@[simp] theorem lip_status_change_callback_pending_cv_broadcasts (s : dlb_lip) :
    (lip_status_change_callback s).pending_cv_broadcasts = s.pending_cv_broadcasts := by unfold lip_status_change_callback; split_ifs <;> rfl

@[simp] theorem lip_status_change_callback_start_time (s : dlb_lip) :
    (lip_status_change_callback s).start_time = s.start_time := by unfold lip_status_change_callback; split_ifs <;> rfl

@[simp] theorem lip_add_upstream_device_cec_bus (s : dlb_lip) (a : Int) :
    (lip_add_upstream_device s a).cec_bus = s.cec_bus := rfl

@[simp] theorem lip_add_upstream_device_config_params (s : dlb_lip) (a : Int) :
    (lip_add_upstream_device s a).config_params = s.config_params := rfl

@[simp] theorem lip_add_upstream_device_downstream_device_cfg (s : dlb_lip) (a : Int) :
    (lip_add_upstream_device s a).downstream_device_cfg = s.downstream_device_cfg := rfl

@[simp] theorem lip_add_upstream_device_state (s : dlb_lip) (a : Int) :
    (lip_add_upstream_device s a).state = s.state := rfl

@[simp] theorem lip_add_upstream_device_add_iec_decoding_latency (s : dlb_lip) (a : Int) :
    (lip_add_upstream_device s a).add_iec_decoding_latency = s.add_iec_decoding_latency := rfl

@[simp] theorem lip_add_upstream_device_callbacks (s : dlb_lip) (a : Int) :
    (lip_add_upstream_device s a).callbacks = s.callbacks := rfl

@[simp] theorem lip_add_upstream_device_tx (s : dlb_lip) (a : Int) :
    (lip_add_upstream_device s a).tx = s.tx := rfl

@[simp] theorem lip_add_upstream_device_pending_requests (s : dlb_lip) (a : Int) :
    (lip_add_upstream_device s a).pending_requests = s.pending_requests := rfl

@[simp] theorem lip_add_upstream_device_req_video_format (s : dlb_lip) (a : Int) :
    (lip_add_upstream_device s a).req_video_format = s.req_video_format := rfl

@[simp] theorem lip_add_upstream_device_req_audio_format (s : dlb_lip) (a : Int) :
    (lip_add_upstream_device s a).req_audio_format = s.req_audio_format := rfl

@[simp] theorem lip_add_upstream_device_is_running (s : dlb_lip) (a : Int) :
    (lip_add_upstream_device s a).is_running = s.is_running := rfl

@[simp] theorem lip_add_upstream_device_thread_signaled (s : dlb_lip) (a : Int) :
    (lip_add_upstream_device s a).thread_signaled = s.thread_signaled := rfl

@[simp] theorem lip_add_upstream_device_timer (s : dlb_lip) (a : Int) :
    (lip_add_upstream_device s a).timer = s.timer := rfl

@[simp] theorem lip_add_upstream_device_callback_id (s : dlb_lip) (a : Int) :
    (lip_add_upstream_device s a).callback_id = s.callback_id := rfl

@[simp] theorem lip_add_upstream_device_opcode_of_last_cmd_sent (s : dlb_lip) (a : Int) :
    (lip_add_upstream_device s a).opcode_of_last_cmd_sent = s.opcode_of_last_cmd_sent := rfl

@[simp] theorem lip_add_upstream_device_stored_caches (s : dlb_lip) (a : Int) :
    (lip_add_upstream_device s a).stored_caches = s.stored_caches := rfl

@[simp] theorem lip_add_upstream_device_status_events (s : dlb_lip) (a : Int) :
    (lip_add_upstream_device s a).status_events = s.status_events := rfl

@[simp] theorem lip_add_upstream_device_condition_var_signals (s : dlb_lip) (a : Int) :
    (lip_add_upstream_device s a).condition_var_signals = s.condition_var_signals := rfl

@[simp] theorem lip_add_upstream_device_state_updated_signals (s : dlb_lip) (a : Int) :
    (lip_add_upstream_device s a).state_updated_signals = s.state_updated_signals := rfl

@[simp] theorem lip_add_upstream_device_pending_cv_broadcasts (s : dlb_lip) (a : Int) :
    (lip_add_upstream_device s a).pending_cv_broadcasts = s.pending_cv_broadcasts := rfl

@[simp] theorem lip_add_upstream_device_start_time (s : dlb_lip) (a : Int) :
    (lip_add_upstream_device s a).start_time = s.start_time := rfl

@[simp] theorem set_slot_state_cec_bus (s : dlb_lip) (i : Int) (st : dlb_lip_pending_message_state) :
    (set_slot_state s i st).cec_bus = s.cec_bus := rfl

@[simp] theorem set_slot_state_config_params (s : dlb_lip) (i : Int) (st : dlb_lip_pending_message_state) :
    (set_slot_state s i st).config_params = s.config_params := rfl

@[simp] theorem set_slot_state_downstream_device_cfg (s : dlb_lip) (i : Int) (st : dlb_lip_pending_message_state) :
    (set_slot_state s i st).downstream_device_cfg = s.downstream_device_cfg := rfl

@[simp] theorem set_slot_state_state (s : dlb_lip) (i : Int) (st : dlb_lip_pending_message_state) :
    (set_slot_state s i st).state = s.state := rfl

@[simp] theorem set_slot_state_add_iec_decoding_latency (s : dlb_lip) (i : Int) (st : dlb_lip_pending_message_state) :
    (set_slot_state s i st).add_iec_decoding_latency = s.add_iec_decoding_latency := rfl

@[simp] theorem set_slot_state_callbacks (s : dlb_lip) (i : Int) (st : dlb_lip_pending_message_state) :
    (set_slot_state s i st).callbacks = s.callbacks := rfl

@[simp] theorem set_slot_state_tx (s : dlb_lip) (i : Int) (st : dlb_lip_pending_message_state) :
    (set_slot_state s i st).tx = s.tx := rfl

@[simp] theorem set_slot_state_req_video_format (s : dlb_lip) (i : Int) (st : dlb_lip_pending_message_state) :
    (set_slot_state s i st).req_video_format = s.req_video_format := rfl

@[simp] theorem set_slot_state_req_audio_format (s : dlb_lip) (i : Int) (st : dlb_lip_pending_message_state) :
    (set_slot_state s i st).req_audio_format = s.req_audio_format := rfl

@[simp] theorem set_slot_state_upstream_devices_addresses (s : dlb_lip) (i : Int) (st : dlb_lip_pending_message_state) :
    (set_slot_state s i st).upstream_devices_addresses = s.upstream_devices_addresses := rfl

@[simp] theorem set_slot_state_is_running (s : dlb_lip) (i : Int) (st : dlb_lip_pending_message_state) :
    (set_slot_state s i st).is_running = s.is_running := rfl

@[simp] theorem set_slot_state_thread_signaled (s : dlb_lip) (i : Int) (st : dlb_lip_pending_message_state) :
    (set_slot_state s i st).thread_signaled = s.thread_signaled := rfl

@[simp] theorem set_slot_state_timer (s : dlb_lip) (i : Int) (st : dlb_lip_pending_message_state) :
    (set_slot_state s i st).timer = s.timer := rfl

@[simp] theorem set_slot_state_callback_id (s : dlb_lip) (i : Int) (st : dlb_lip_pending_message_state) :
    (set_slot_state s i st).callback_id = s.callback_id := rfl

@[simp] theorem set_slot_state_opcode_of_last_cmd_sent (s : dlb_lip) (i : Int) (st : dlb_lip_pending_message_state) :
    (set_slot_state s i st).opcode_of_last_cmd_sent = s.opcode_of_last_cmd_sent := rfl

@[simp] theorem set_slot_state_stored_caches (s : dlb_lip) (i : Int) (st : dlb_lip_pending_message_state) :
    (set_slot_state s i st).stored_caches = s.stored_caches := rfl

@[simp] theorem set_slot_state_status_events (s : dlb_lip) (i : Int) (st : dlb_lip_pending_message_state) :
    (set_slot_state s i st).status_events = s.status_events := rfl

@[simp] theorem set_slot_state_condition_var_signals (s : dlb_lip) (i : Int) (st : dlb_lip_pending_message_state) :
    (set_slot_state s i st).condition_var_signals = s.condition_var_signals := rfl

@[simp] theorem set_slot_state_state_updated_signals (s : dlb_lip) (i : Int) (st : dlb_lip_pending_message_state) :
    (set_slot_state s i st).state_updated_signals = s.state_updated_signals := rfl

@[simp] theorem set_slot_state_pending_cv_broadcasts (s : dlb_lip) (i : Int) (st : dlb_lip_pending_message_state) :
    (set_slot_state s i st).pending_cv_broadcasts = s.pending_cv_broadcasts := rfl

@[simp] theorem set_slot_state_start_time (s : dlb_lip) (i : Int) (st : dlb_lip_pending_message_state) :
    (set_slot_state s i st).start_time = s.start_time := rfl

@[simp] theorem store_pending_cec_bus (s : dlb_lip) (i : Int) (m : dlb_cec_message) (now : Nat) :
    (store_pending s i m now).cec_bus = s.cec_bus := rfl

@[simp] theorem store_pending_config_params (s : dlb_lip) (i : Int) (m : dlb_cec_message) (now : Nat) :
    (store_pending s i m now).config_params = s.config_params := rfl

@[simp] theorem store_pending_downstream_device_cfg (s : dlb_lip) (i : Int) (m : dlb_cec_message) (now : Nat) :
    (store_pending s i m now).downstream_device_cfg = s.downstream_device_cfg := rfl

@[simp] theorem store_pending_state (s : dlb_lip) (i : Int) (m : dlb_cec_message) (now : Nat) :
    (store_pending s i m now).state = s.state := rfl

@[simp] theorem store_pending_add_iec_decoding_latency (s : dlb_lip) (i : Int) (m : dlb_cec_message) (now : Nat) :
    (store_pending s i m now).add_iec_decoding_latency = s.add_iec_decoding_latency := rfl

@[simp] theorem store_pending_callbacks (s : dlb_lip) (i : Int) (m : dlb_cec_message) (now : Nat) :
    (store_pending s i m now).callbacks = s.callbacks := rfl

@[simp] theorem store_pending_tx (s : dlb_lip) (i : Int) (m : dlb_cec_message) (now : Nat) :
    (store_pending s i m now).tx = s.tx := rfl

@[simp] theorem store_pending_req_video_format (s : dlb_lip) (i : Int) (m : dlb_cec_message) (now : Nat) :
    (store_pending s i m now).req_video_format = s.req_video_format := rfl

@[simp] theorem store_pending_req_audio_format (s : dlb_lip) (i : Int) (m : dlb_cec_message) (now : Nat) :
    (store_pending s i m now).req_audio_format = s.req_audio_format := rfl

@[simp] theorem store_pending_upstream_devices_addresses (s : dlb_lip) (i : Int) (m : dlb_cec_message) (now : Nat) :
    (store_pending s i m now).upstream_devices_addresses = s.upstream_devices_addresses := rfl

@[simp] theorem store_pending_is_running (s : dlb_lip) (i : Int) (m : dlb_cec_message) (now : Nat) :
    (store_pending s i m now).is_running = s.is_running := rfl

@[simp] theorem store_pending_thread_signaled (s : dlb_lip) (i : Int) (m : dlb_cec_message) (now : Nat) :
    (store_pending s i m now).thread_signaled = s.thread_signaled := rfl

@[simp] theorem store_pending_timer (s : dlb_lip) (i : Int) (m : dlb_cec_message) (now : Nat) :
    (store_pending s i m now).timer = s.timer := rfl

@[simp] theorem store_pending_callback_id (s : dlb_lip) (i : Int) (m : dlb_cec_message) (now : Nat) :
    (store_pending s i m now).callback_id = s.callback_id := rfl

@[simp] theorem store_pending_opcode_of_last_cmd_sent (s : dlb_lip) (i : Int) (m : dlb_cec_message) (now : Nat) :
    (store_pending s i m now).opcode_of_last_cmd_sent = s.opcode_of_last_cmd_sent := rfl

@[simp] theorem store_pending_stored_caches (s : dlb_lip) (i : Int) (m : dlb_cec_message) (now : Nat) :
    (store_pending s i m now).stored_caches = s.stored_caches := rfl

@[simp] theorem store_pending_status_events (s : dlb_lip) (i : Int) (m : dlb_cec_message) (now : Nat) :
    (store_pending s i m now).status_events = s.status_events := rfl

@[simp] theorem store_pending_condition_var_signals (s : dlb_lip) (i : Int) (m : dlb_cec_message) (now : Nat) :
    (store_pending s i m now).condition_var_signals = s.condition_var_signals := rfl

@[simp] theorem store_pending_state_updated_signals (s : dlb_lip) (i : Int) (m : dlb_cec_message) (now : Nat) :
    (store_pending s i m now).state_updated_signals = s.state_updated_signals := rfl

@[simp] theorem store_pending_pending_cv_broadcasts (s : dlb_lip) (i : Int) (m : dlb_cec_message) (now : Nat) :
    (store_pending s i m now).pending_cv_broadcasts = s.pending_cv_broadcasts := rfl

@[simp] theorem store_pending_start_time (s : dlb_lip) (i : Int) (m : dlb_cec_message) (now : Nat) :
    (store_pending s i m now).start_time = s.start_time := rfl

@[simp] theorem transmit_responses_cec_bus (s : dlb_lip) (rs : List dlb_cec_message) :
    (transmit_responses s rs).cec_bus = s.cec_bus := by
  induction rs generalizing s with
  | nil => rfl
  | cons m rs ih =>
    have h := ih (lip_transmit_wrapper s m).1
    simp only [transmit_responses, List.foldl_cons] at h ⊢
    rw [h]; rfl

@[simp] theorem transmit_responses_config_params (s : dlb_lip) (rs : List dlb_cec_message) :
    (transmit_responses s rs).config_params = s.config_params := by
  induction rs generalizing s with
  | nil => rfl
  | cons m rs ih =>
    have h := ih (lip_transmit_wrapper s m).1
    simp only [transmit_responses, List.foldl_cons] at h ⊢
    rw [h]; rfl

@[simp] theorem transmit_responses_downstream_device_cfg (s : dlb_lip) (rs : List dlb_cec_message) :
    (transmit_responses s rs).downstream_device_cfg = s.downstream_device_cfg := by
  induction rs generalizing s with
  | nil => rfl
  | cons m rs ih =>
    have h := ih (lip_transmit_wrapper s m).1
    simp only [transmit_responses, List.foldl_cons] at h ⊢
    rw [h]; rfl

@[simp] theorem transmit_responses_state (s : dlb_lip) (rs : List dlb_cec_message) :
    (transmit_responses s rs).state = s.state := by
  induction rs generalizing s with
  | nil => rfl
  | cons m rs ih =>
    have h := ih (lip_transmit_wrapper s m).1
    simp only [transmit_responses, List.foldl_cons] at h ⊢
    rw [h]; rfl

@[simp] theorem transmit_responses_add_iec_decoding_latency (s : dlb_lip) (rs : List dlb_cec_message) :
    (transmit_responses s rs).add_iec_decoding_latency = s.add_iec_decoding_latency := by
  induction rs generalizing s with
  | nil => rfl
  | cons m rs ih =>
    have h := ih (lip_transmit_wrapper s m).1
    simp only [transmit_responses, List.foldl_cons] at h ⊢
    rw [h]; rfl

@[simp] theorem transmit_responses_callbacks (s : dlb_lip) (rs : List dlb_cec_message) :
    (transmit_responses s rs).callbacks = s.callbacks := by
  induction rs generalizing s with
  | nil => rfl
  | cons m rs ih =>
    have h := ih (lip_transmit_wrapper s m).1
    simp only [transmit_responses, List.foldl_cons] at h ⊢
    rw [h]; rfl

@[simp] theorem transmit_responses_pending_requests (s : dlb_lip) (rs : List dlb_cec_message) :
    (transmit_responses s rs).pending_requests = s.pending_requests := by
  induction rs generalizing s with
  | nil => rfl
  | cons m rs ih =>
    have h := ih (lip_transmit_wrapper s m).1
    simp only [transmit_responses, List.foldl_cons] at h ⊢
    rw [h]; rfl

@[simp] theorem transmit_responses_req_video_format (s : dlb_lip) (rs : List dlb_cec_message) :
    (transmit_responses s rs).req_video_format = s.req_video_format := by
  induction rs generalizing s with
  | nil => rfl
  | cons m rs ih =>
    have h := ih (lip_transmit_wrapper s m).1
    simp only [transmit_responses, List.foldl_cons] at h ⊢
    rw [h]; rfl

@[simp] theorem transmit_responses_req_audio_format (s : dlb_lip) (rs : List dlb_cec_message) :
    (transmit_responses s rs).req_audio_format = s.req_audio_format := by
  induction rs generalizing s with
  | nil => rfl
  | cons m rs ih =>
    have h := ih (lip_transmit_wrapper s m).1
    simp only [transmit_responses, List.foldl_cons] at h ⊢
    rw [h]; rfl

@[simp] theorem transmit_responses_upstream_devices_addresses (s : dlb_lip) (rs : List dlb_cec_message) :
    (transmit_responses s rs).upstream_devices_addresses = s.upstream_devices_addresses := by
  induction rs generalizing s with
  | nil => rfl
  | cons m rs ih =>
    have h := ih (lip_transmit_wrapper s m).1
    simp only [transmit_responses, List.foldl_cons] at h ⊢
    rw [h]; rfl

@[simp] theorem transmit_responses_is_running (s : dlb_lip) (rs : List dlb_cec_message) :
    (transmit_responses s rs).is_running = s.is_running := by
  induction rs generalizing s with
  | nil => rfl
  | cons m rs ih =>
    have h := ih (lip_transmit_wrapper s m).1
    simp only [transmit_responses, List.foldl_cons] at h ⊢
    rw [h]; rfl

@[simp] theorem transmit_responses_thread_signaled (s : dlb_lip) (rs : List dlb_cec_message) :
    (transmit_responses s rs).thread_signaled = s.thread_signaled := by
  induction rs generalizing s with
  | nil => rfl
  | cons m rs ih =>
    have h := ih (lip_transmit_wrapper s m).1
    simp only [transmit_responses, List.foldl_cons] at h ⊢
    rw [h]; rfl

@[simp] theorem transmit_responses_timer (s : dlb_lip) (rs : List dlb_cec_message) :
    (transmit_responses s rs).timer = s.timer := by
  induction rs generalizing s with
  | nil => rfl
  | cons m rs ih =>
    have h := ih (lip_transmit_wrapper s m).1
    simp only [transmit_responses, List.foldl_cons] at h ⊢
    rw [h]; rfl

@[simp] theorem transmit_responses_callback_id (s : dlb_lip) (rs : List dlb_cec_message) :
    (transmit_responses s rs).callback_id = s.callback_id := by
  induction rs generalizing s with
  | nil => rfl
  | cons m rs ih =>
    have h := ih (lip_transmit_wrapper s m).1
    simp only [transmit_responses, List.foldl_cons] at h ⊢
    rw [h]; rfl

@[simp] theorem transmit_responses_stored_caches (s : dlb_lip) (rs : List dlb_cec_message) :
    (transmit_responses s rs).stored_caches = s.stored_caches := by
  induction rs generalizing s with
  | nil => rfl
  | cons m rs ih =>
    have h := ih (lip_transmit_wrapper s m).1
    simp only [transmit_responses, List.foldl_cons] at h ⊢
    rw [h]; rfl

@[simp] theorem transmit_responses_status_events (s : dlb_lip) (rs : List dlb_cec_message) :
    (transmit_responses s rs).status_events = s.status_events := by
  induction rs generalizing s with
  | nil => rfl
  | cons m rs ih =>
    have h := ih (lip_transmit_wrapper s m).1
    simp only [transmit_responses, List.foldl_cons] at h ⊢
    rw [h]; rfl

@[simp] theorem transmit_responses_condition_var_signals (s : dlb_lip) (rs : List dlb_cec_message) :
    (transmit_responses s rs).condition_var_signals = s.condition_var_signals := by
  induction rs generalizing s with
  | nil => rfl
  | cons m rs ih =>
    have h := ih (lip_transmit_wrapper s m).1
    simp only [transmit_responses, List.foldl_cons] at h ⊢
    rw [h]; rfl

@[simp] theorem transmit_responses_state_updated_signals (s : dlb_lip) (rs : List dlb_cec_message) :
    (transmit_responses s rs).state_updated_signals = s.state_updated_signals := by
  induction rs generalizing s with
  | nil => rfl
  | cons m rs ih =>
    have h := ih (lip_transmit_wrapper s m).1
    simp only [transmit_responses, List.foldl_cons] at h ⊢
    rw [h]; rfl

@[simp] theorem transmit_responses_pending_cv_broadcasts (s : dlb_lip) (rs : List dlb_cec_message) :
    (transmit_responses s rs).pending_cv_broadcasts = s.pending_cv_broadcasts := by
  induction rs generalizing s with
  | nil => rfl
  | cons m rs ih =>
    have h := ih (lip_transmit_wrapper s m).1
    simp only [transmit_responses, List.foldl_cons] at h ⊢
    rw [h]; rfl

@[simp] theorem transmit_responses_start_time (s : dlb_lip) (rs : List dlb_cec_message) :
    (transmit_responses s rs).start_time = s.start_time := by
  induction rs generalizing s with
  | nil => rfl
  | cons m rs ih =>
    have h := ih (lip_transmit_wrapper s m).1
    simp only [transmit_responses, List.foldl_cons] at h ⊢
    rw [h]; rfl

@[simp] theorem lip_transmit_wrapper_tx (s : dlb_lip) (m : dlb_cec_message) :
    (lip_transmit_wrapper s m).1.tx = s.tx ++ [m] := rfl

@[simp] theorem transmit_responses_tx (s : dlb_lip) (rs : List dlb_cec_message) :
    (transmit_responses s rs).tx = s.tx ++ rs := by
  induction rs generalizing s with
  | nil => simp [transmit_responses]
  | cons m rs ih =>
    have h := ih (lip_transmit_wrapper s m).1
    simp only [transmit_responses, List.foldl_cons] at h ⊢
    rw [h]; simp

@[simp] theorem set_slot_state_pending_requests (s : dlb_lip) (i : Int)
    (st : dlb_lip_pending_message_state) :
    (set_slot_state s i st).pending_requests =
      Function.update s.pending_requests i { (s.pending_requests i) with state := st } := rfl

@[simp] theorem store_pending_pending_requests (s : dlb_lip) (i : Int) (m : dlb_cec_message)
    (now : Nat) :
    (store_pending s i m now).pending_requests =
      Function.update s.pending_requests i
        { msg := m, state := dlb_lip_pending_message_state.LIP_MESSAGE_PENDING,
          expire_time_ms := (now + lip_get_timeout_value_ms s) % 2 ^ 64 } := rfl

/-! ## Header fields of the frames the builders produce -/

@[simp] theorem lip_build_abort_cec_command_opcode (b : dlb_cec_message) (i d : Int) (op reason : Nat) :
    (lip_build_abort_cec_command b i d op reason).opcode = DLB_CEC_OPCODE_FEATURE_ABORT := by
  first
    | rfl
    | (unfold lip_build_abort_cec_command; simp only []; split_ifs <;> rfl)

@[simp] theorem lip_build_abort_cec_command_initiator (b : dlb_cec_message) (i d : Int) (op reason : Nat) :
    (lip_build_abort_cec_command b i d op reason).initiator = i := by
  first
    | rfl
    | (unfold lip_build_abort_cec_command; simp only []; split_ifs <;> rfl)

@[simp] theorem lip_build_abort_cec_command_destination (b : dlb_cec_message) (i d : Int) (op reason : Nat) :
    (lip_build_abort_cec_command b i d op reason).destination = d := by
  first
    | rfl
    | (unfold lip_build_abort_cec_command; simp only []; split_ifs <;> rfl)

@[simp] theorem dlb_lip_build_request_lip_support_opcode (b : dlb_cec_message) (i d : Int)  :
    (dlb_lip_build_request_lip_support b i d ).opcode = DLB_CEC_OPCODE_VENDOR_COMMAND_WITH_ID := by
  first
    | rfl
    | (unfold dlb_lip_build_request_lip_support; simp only []; split_ifs <;> rfl)

@[simp] theorem dlb_lip_build_request_lip_support_initiator (b : dlb_cec_message) (i d : Int)  :
    (dlb_lip_build_request_lip_support b i d ).initiator = i := by
  first
    | rfl
    | (unfold dlb_lip_build_request_lip_support; simp only []; split_ifs <;> rfl)

@[simp] theorem dlb_lip_build_request_lip_support_destination (b : dlb_cec_message) (i d : Int)  :
    (dlb_lip_build_request_lip_support b i d ).destination = d := by
  first
    | rfl
    | (unfold dlb_lip_build_request_lip_support; simp only []; split_ifs <;> rfl)

@[simp] theorem dlb_lip_build_request_av_latency_opcode (b : dlb_cec_message) (i d : Int) (v : dlb_lip_video_format) (a : dlb_lip_audio_format) :
    (dlb_lip_build_request_av_latency_ndebug b i d v a).opcode = DLB_CEC_OPCODE_VENDOR_COMMAND_WITH_ID := by
  first
    | rfl
    | (unfold dlb_lip_build_request_av_latency_ndebug; simp only []; split_ifs <;> rfl)

@[simp] theorem dlb_lip_build_request_av_latency_initiator (b : dlb_cec_message) (i d : Int) (v : dlb_lip_video_format) (a : dlb_lip_audio_format) :
    (dlb_lip_build_request_av_latency_ndebug b i d v a).initiator = i := by
  first
    | rfl
    | (unfold dlb_lip_build_request_av_latency_ndebug; simp only []; split_ifs <;> rfl)

@[simp] theorem dlb_lip_build_request_av_latency_destination (b : dlb_cec_message) (i d : Int) (v : dlb_lip_video_format) (a : dlb_lip_audio_format) :
    (dlb_lip_build_request_av_latency_ndebug b i d v a).destination = d := by
  first
    | rfl
    | (unfold dlb_lip_build_request_av_latency_ndebug; simp only []; split_ifs <;> rfl)

@[simp] theorem dlb_lip_build_request_audio_latency_opcode (b : dlb_cec_message) (i d : Int) (a : dlb_lip_audio_format) :
    (dlb_lip_build_request_audio_latency b i d a).opcode = DLB_CEC_OPCODE_VENDOR_COMMAND_WITH_ID := by
  first
    | rfl
    | (unfold dlb_lip_build_request_audio_latency; simp only []; split_ifs <;> rfl)

@[simp] theorem dlb_lip_build_request_audio_latency_initiator (b : dlb_cec_message) (i d : Int) (a : dlb_lip_audio_format) :
    (dlb_lip_build_request_audio_latency b i d a).initiator = i := by
  first
    | rfl
    | (unfold dlb_lip_build_request_audio_latency; simp only []; split_ifs <;> rfl)

@[simp] theorem dlb_lip_build_request_audio_latency_destination (b : dlb_cec_message) (i d : Int) (a : dlb_lip_audio_format) :
    (dlb_lip_build_request_audio_latency b i d a).destination = d := by
  first
    | rfl
    | (unfold dlb_lip_build_request_audio_latency; simp only []; split_ifs <;> rfl)

@[simp] theorem dlb_lip_build_request_video_latency_opcode (b : dlb_cec_message) (i d : Int) (v : dlb_lip_video_format) :
    (dlb_lip_build_request_video_latency_ndebug b i d v).opcode = DLB_CEC_OPCODE_VENDOR_COMMAND_WITH_ID := by
  first
    | rfl
    | (unfold dlb_lip_build_request_video_latency_ndebug; simp only []; split_ifs <;> rfl)

@[simp] theorem dlb_lip_build_request_video_latency_initiator (b : dlb_cec_message) (i d : Int) (v : dlb_lip_video_format) :
    (dlb_lip_build_request_video_latency_ndebug b i d v).initiator = i := by
  first
    | rfl
    | (unfold dlb_lip_build_request_video_latency_ndebug; simp only []; split_ifs <;> rfl)

@[simp] theorem dlb_lip_build_request_video_latency_destination (b : dlb_cec_message) (i d : Int) (v : dlb_lip_video_format) :
    (dlb_lip_build_request_video_latency_ndebug b i d v).destination = d := by
  first
    | rfl
    | (unfold dlb_lip_build_request_video_latency_ndebug; simp only []; split_ifs <;> rfl)

@[simp] theorem dlb_lip_build_report_lip_support_cmd_opcode (b : dlb_cec_message) (i d : Int) (ver uuid : Nat) (upd : Bool) :
    (dlb_lip_build_report_lip_support_cmd b i d ver uuid upd).opcode = DLB_CEC_OPCODE_VENDOR_COMMAND_WITH_ID := by
  first
    | rfl
    | (unfold dlb_lip_build_report_lip_support_cmd; simp only []; split_ifs <;> rfl)

@[simp] theorem dlb_lip_build_report_lip_support_cmd_initiator (b : dlb_cec_message) (i d : Int) (ver uuid : Nat) (upd : Bool) :
    (dlb_lip_build_report_lip_support_cmd b i d ver uuid upd).initiator = i := by
  first
    | rfl
    | (unfold dlb_lip_build_report_lip_support_cmd; simp only []; split_ifs <;> rfl)

@[simp] theorem dlb_lip_build_report_lip_support_cmd_destination (b : dlb_cec_message) (i d : Int) (ver uuid : Nat) (upd : Bool) :
    (dlb_lip_build_report_lip_support_cmd b i d ver uuid upd).destination = d := by
  first
    | rfl
    | (unfold dlb_lip_build_report_lip_support_cmd; simp only []; split_ifs <;> rfl)

@[simp] theorem dlb_lip_build_report_av_latency_cmd_opcode (b : dlb_cec_message) (i d : Int) (v a : Nat) :
    (dlb_lip_build_report_av_latency_cmd b i d v a).opcode = DLB_CEC_OPCODE_VENDOR_COMMAND_WITH_ID := by
  first
    | rfl
    | (unfold dlb_lip_build_report_av_latency_cmd; simp only []; split_ifs <;> rfl)

@[simp] theorem dlb_lip_build_report_av_latency_cmd_initiator (b : dlb_cec_message) (i d : Int) (v a : Nat) :
    (dlb_lip_build_report_av_latency_cmd b i d v a).initiator = i := by
  first
    | rfl
    | (unfold dlb_lip_build_report_av_latency_cmd; simp only []; split_ifs <;> rfl)

@[simp] theorem dlb_lip_build_report_av_latency_cmd_destination (b : dlb_cec_message) (i d : Int) (v a : Nat) :
    (dlb_lip_build_report_av_latency_cmd b i d v a).destination = d := by
  first
    | rfl
    | (unfold dlb_lip_build_report_av_latency_cmd; simp only []; split_ifs <;> rfl)

@[simp] theorem dlb_lip_build_report_audio_latency_cmd_opcode (b : dlb_cec_message) (i d : Int) (a : Nat) :
    (dlb_lip_build_report_audio_latency_cmd b i d a).opcode = DLB_CEC_OPCODE_VENDOR_COMMAND_WITH_ID := by
  first
    | rfl
    | (unfold dlb_lip_build_report_audio_latency_cmd; simp only []; split_ifs <;> rfl)

@[simp] theorem dlb_lip_build_report_audio_latency_cmd_initiator (b : dlb_cec_message) (i d : Int) (a : Nat) :
    (dlb_lip_build_report_audio_latency_cmd b i d a).initiator = i := by
  first
    | rfl
    | (unfold dlb_lip_build_report_audio_latency_cmd; simp only []; split_ifs <;> rfl)

@[simp] theorem dlb_lip_build_report_audio_latency_cmd_destination (b : dlb_cec_message) (i d : Int) (a : Nat) :
    (dlb_lip_build_report_audio_latency_cmd b i d a).destination = d := by
  first
    | rfl
    | (unfold dlb_lip_build_report_audio_latency_cmd; simp only []; split_ifs <;> rfl)

@[simp] theorem dlb_lip_build_report_video_latency_cmd_opcode (b : dlb_cec_message) (i d : Int) (v : Nat) :
    (dlb_lip_build_report_video_latency_cmd b i d v).opcode = DLB_CEC_OPCODE_VENDOR_COMMAND_WITH_ID := by
  first
    | rfl
    | (unfold dlb_lip_build_report_video_latency_cmd; simp only []; split_ifs <;> rfl)

@[simp] theorem dlb_lip_build_report_video_latency_cmd_initiator (b : dlb_cec_message) (i d : Int) (v : Nat) :
    (dlb_lip_build_report_video_latency_cmd b i d v).initiator = i := by
  first
    | rfl
    | (unfold dlb_lip_build_report_video_latency_cmd; simp only []; split_ifs <;> rfl)

@[simp] theorem dlb_lip_build_report_video_latency_cmd_destination (b : dlb_cec_message) (i d : Int) (v : Nat) :
    (dlb_lip_build_report_video_latency_cmd b i d v).destination = d := by
  first
    | rfl
    | (unfold dlb_lip_build_report_video_latency_cmd; simp only []; split_ifs <;> rfl)

theorem mem_slot_indices (i : Int) : i ∈ slot_indices ↔ 0 ≤ i ∧ i < 16 := by
  unfold slot_indices
  simp only [List.mem_map, List.mem_range, MAX_UPSTREAM_DEVICES_COUNT]
  constructor
  · rintro ⟨n, hn, rfl⟩
    simp only [Int.ofNat_eq_coe]; omega
  · rintro ⟨h0, h1⟩
    exact ⟨i.toNat, by omega, by simp only [Int.ofNat_eq_coe]; omega⟩

theorem slot_indices_eq : slot_indices = [0,1,2,3,4,5,6,7,8,9,10,11,12,13,14,15] := by
  decide

theorem same_static_refl (s : dlb_lip) : same_static s s :=
  ⟨rfl, rfl, rfl, rfl, rfl, rfl, rfl⟩

theorem same_static_trans {a b c : dlb_lip} (h1 : same_static a b) (h2 : same_static b c) :
    same_static a c := by
  obtain ⟨a1, a2, a3, a4, a5, a6, a7⟩ := h1
  obtain ⟨b1, b2, b3, b4, b5, b6, b7⟩ := h2
  exact ⟨b1.trans a1, b2.trans a2, b3.trans a3, b4.trans a4, b5.trans a5, b6.trans a6,
    b7.trans a7⟩

theorem any_sent_false (s : dlb_lip) :
    lip_is_any_pending_request_sent s = false ↔
      ∀ j ∈ slot_indices, (s.pending_requests j).state ≠ LIP_MESSAGE_SENT := by
  unfold lip_is_any_pending_request_sent
  rw [List.any_eq_false]
  simp only [decide_eq_true_eq]

theorem no_other_sent_of_store (s : dlb_lip) (i : Int) (m : dlb_cec_message) (now : Nat)
    (h : lip_is_any_pending_request_sent (store_pending s i m now) = false) :
    ∀ j ∈ slot_indices, j ≠ i → (s.pending_requests j).state ≠ LIP_MESSAGE_SENT := by
  intro j hj hji
  have := (any_sent_false _).1 h j hj
  simpa [Function.update_noteq hji] using this


theorem response_ok_abort (m b : dlb_cec_message) (own : Int) (op reason : Nat) :
    response_ok m (lip_build_abort_cec_command b own m.initiator op reason) := by
  intro _; simp

theorem request_effect_same (P : Prop) (s : dlb_lip) (m : dlb_cec_message) (rs : List dlb_cec_message)
    (f : dlb_cec_message) (b : Bool) (hf : response_ok m f) :
    request_effect P s m rs (s, rs ++ [f], b) :=
  ⟨same_static_refl s, Or.inl rfl, rfl, rfl, [f], rfl, by
    intro g hg; rw [List.mem_singleton] at hg; rw [hg]; exact hf⟩

theorem response_ok_of_vendor (m f : dlb_cec_message)
    (h : f.opcode = DLB_CEC_OPCODE_VENDOR_COMMAND_WITH_ID) : response_ok m f := by
  intro h2; rw [h] at h2; exact absurd h2 (by decide)

/-- The shape of the result when the request is queued behind a slot that is SENT. -/
theorem request_effect_queued (P : Prop) (s s' : dlb_lip) (m : dlb_cec_message)
    (rs : List dlb_cec_message) (now : Nat) (b : Bool)
    (hs : same_static s s') (htx : s'.tx = s.tx)
    (hop : s'.opcode_of_last_cmd_sent = s.opcode_of_last_cmd_sent)
    (hp : s'.pending_requests = s.pending_requests) :
    request_effect P s m rs (store_pending s' m.initiator m now, rs, b) := by
  refine ⟨?_, Or.inr (Or.inl ⟨(now + lip_get_timeout_value_ms s') % 2 ^ 64, ?_⟩), ?_, ?_,
    [], by simp, by simp⟩
  · exact hs
  · simp only [store_pending_pending_requests, hp]
  · simpa using htx
  · simpa using hop

/-- The shape of the result when the request is put in flight. -/
theorem request_effect_promoted (P : Prop) (hP : P) (s s' s'' : dlb_lip) (m f : dlb_cec_message)
    (rs : List dlb_cec_message) (now : Nat) (b : Bool)
    (hs : same_static s s') (htx : s'.tx = s.tx)
    (hop : s'.opcode_of_last_cmd_sent = s.opcode_of_last_cmd_sent)
    (hp : s'.pending_requests = s.pending_requests)
    (hs2 : same_static (store_pending s' m.initiator m now) s'')
    (htx2 : s''.tx = s'.tx) (hop2 : s''.opcode_of_last_cmd_sent = s'.opcode_of_last_cmd_sent)
    (hp2 : s''.pending_requests =
      (set_slot_state (store_pending s' m.initiator m now) m.initiator
        LIP_MESSAGE_SENT).pending_requests)
    (hno : (!lip_is_any_pending_request_sent (store_pending s' m.initiator m now)) = true)
    (hf : f.opcode = DLB_CEC_OPCODE_VENDOR_COMMAND_WITH_ID) :
    request_effect P s m rs (s'', rs ++ [f], b) := by
  refine ⟨?_, Or.inr (Or.inr ⟨(now + lip_get_timeout_value_ms s') % 2 ^ 64, ?_, ?_, ?_⟩), ?_, ?_,
    [f], rfl, ?_⟩
  · exact same_static_trans hs hs2
  · simp only [hp2, set_slot_state_pending_requests, store_pending_pending_requests, hp,
      Function.update_same, Function.update_idem]
  · intro j hj hji
    have h := no_other_sent_of_store s' m.initiator m now (by simpa using hno) j hj hji
    rwa [hp] at h
  · exact hP
  · rw [htx2, htx]
  · rw [hop2, hop]
  · intro g hg; rw [List.mem_singleton] at hg; rw [hg]; exact response_ok_of_vendor _ _ hf

theorem request_av_effect (now : Nat) (s : dlb_lip) (m : dlb_cec_message)
    (rs : List dlb_cec_message) (force : Bool) :
    request_effect True s m rs (lip_handle_request_av_latency now s m rs force) := by
  unfold lip_handle_request_av_latency
  lift_lets
  intro vf af vr ar dp askv aska vt at_ afd v a vh ah s1 s2 s3
  split_ifs with h1 h2 h3 h4 h5 h6 h7
  · exact request_effect_same _ _ _ _ _ _ (response_ok_abort _ _ _ _ _)
  · exact request_effect_same _ _ _ _ _ _ (response_ok_abort _ _ _ _ _)
  · apply request_effect_same
    apply response_ok_of_vendor
    simp
  · intro s4
    exact request_effect_promoted True trivial s s s4 m _ rs now _ (same_static_refl s) rfl rfl rfl
      (by simp [same_static, s4, s3, s2, s1]) (by simp [s4, s3, s2, s1])
      (by simp [s4, s3, s2, s1]) (by simp [s4, s3, s2, s1]) h4 (by simp)
  · intro s4
    exact request_effect_promoted True trivial s s s4 m _ rs now _ (same_static_refl s) rfl rfl rfl
      (by simp [same_static, s4, s3, s2, s1]) (by simp [s4, s3, s2, s1])
      (by simp [s4, s3, s2, s1]) (by simp [s4, s3, s2, s1]) h4 (by simp)
  · intro s4
    exact request_effect_promoted True trivial s s s4 m _ rs now _ (same_static_refl s) rfl rfl rfl
      (by simp [same_static, s4, s3, s2, s1]) (by simp [s4, s3, s2, s1])
      (by simp [s4, s3, s2, s1]) (by simp [s4, s3, s2, s1]) h4 (by simp)
  · intro s4
    exfalso
    simp only [Bool.not_eq_true', Bool.not_eq_false, not_and, Bool.not_eq_true] at h3 h5 h6 h7
    simp_all
  · exact request_effect_queued True s s m rs now _ (same_static_refl s) rfl rfl rfl

theorem request_audio_effect (now : Nat) (s : dlb_lip) (m : dlb_cec_message)
    (rs : List dlb_cec_message) (force : Bool) :
    request_effect True s m rs (lip_handle_request_audio_latency now s m rs force) := by
  unfold lip_handle_request_audio_latency
  lift_lets
  intro af ar dp ask at_ afd a s0 s1
  split_ifs with h1 h2 h3
  · exact request_effect_same _ _ _ _ _ _ (response_ok_abort _ _ _ _ _)
  · apply request_effect_same
    apply response_ok_of_vendor
    simp
  · intro s3
    exact request_effect_promoted True trivial s s0 s3 m _ rs now _ ⟨rfl, rfl, rfl, rfl, rfl, rfl, rfl⟩
      rfl rfl rfl
      (by simp [same_static, s3, s1]) (by simp [s3, s1])
      (by simp [s3, s1]) (by simp [s3, s1]) h3 (by simp)
  · exact request_effect_queued True s s0 m rs now _ ⟨rfl, rfl, rfl, rfl, rfl, rfl, rfl⟩ rfl rfl rfl

theorem request_video_effect (now : Nat) (s : dlb_lip) (m : dlb_cec_message)
    (rs : List dlb_cec_message) (force : Bool) :
    request_effect True s m rs (lip_handle_request_video_latency now s m rs force) := by
  unfold lip_handle_request_video_latency
  lift_lets
  intro vf vr dp ask vt s0 v s1
  split_ifs with h1 h2 h3
  · exact request_effect_same _ _ _ _ _ _ (response_ok_abort _ _ _ _ _)
  · refine ⟨⟨rfl, rfl, rfl, rfl, rfl, rfl, rfl⟩, Or.inl rfl, rfl, rfl, [_], rfl, ?_⟩
    intro g hg; rw [List.mem_singleton] at hg; rw [hg]
    apply response_ok_of_vendor
    simp
  · intro s3
    exact request_effect_promoted True trivial s s0 s3 m _ rs now _ ⟨rfl, rfl, rfl, rfl, rfl, rfl, rfl⟩
      rfl rfl rfl
      (by simp [same_static, s3, s1]) (by simp [s3, s1])
      (by simp [s3, s1]) (by simp [s3, s1]) h3 (by simp)
  · exact request_effect_queued True s s0 m rs now _ ⟨rfl, rfl, rfl, rfl, rfl, rfl, rfl⟩ rfl rfl rfl

theorem slot_effect_mono {P Q : Prop} (h : P → Q) {T T' : Int → dlb_lip_pending_message}
    {m : dlb_cec_message} (he : slot_effect P T T' m) : slot_effect Q T T' m := by
  rcases he with h1 | h1 | ⟨e, h1, h2, h3⟩
  · exact Or.inl h1
  · exact Or.inr (Or.inl h1)
  · exact Or.inr (Or.inr ⟨e, h1, h2, h h3⟩)

theorem request_effect_mono {P Q : Prop} (h : P → Q) {s : dlb_lip} {m : dlb_cec_message}
    {rs : List dlb_cec_message} {r : dlb_lip × List dlb_cec_message × Bool}
    (he : request_effect P s m rs r) : request_effect Q s m rs r :=
  ⟨he.1, slot_effect_mono h he.2.1, he.2.2⟩

theorem request_lip_support_effect (now : Nat) (s : dlb_lip) (m : dlb_cec_message)
    (rs : List dlb_cec_message) :
    request_effect False s m rs (lip_handle_request_lip_support now s m rs) := by
  unfold lip_handle_request_lip_support
  split_ifs with h1
  · lift_lets
    intro uuid s1
    refine ⟨?_, Or.inl ?_, ?_, ?_, [_], rfl, ?_⟩
    · simp [same_static, s1]
    · simp [s1]
    · simp [s1]
    · simp [s1]
    · intro g hg; rw [List.mem_singleton] at hg; rw [hg]
      apply response_ok_of_vendor
      simp
  · exact request_effect_queued False s s m rs now _ (same_static_refl s) rfl rfl rfl

theorem vendor_id_of_known_opcode (m : dlb_cec_message)
    (h : lip_get_command_opcode m ≠ LIP_OPCODES) : lip_validate_cmd_vendor_id m = true := by
  unfold lip_get_command_opcode at h
  unfold lip_validate_cmd_vendor_id
  by_cases hc : m.msg_length ≥ 4 ∧ DOLBY_VENDOR_ID.getD 0 0 = m.byte 0
        ∧ DOLBY_VENDOR_ID.getD 1 0 = m.byte 1 ∧ DOLBY_VENDOR_ID.getD 2 0 = m.byte 2
  · obtain ⟨h1, h2, h3, h4⟩ := hc
    simp only [Bool.and_eq_true, decide_eq_true_eq]
    exact ⟨⟨⟨by omega, h2⟩, h3⟩, h4⟩
  · simp only [hc, if_false] at h
    simp at h

theorem request_opcode_known {op : Nat} (h : is_request_opcode op) : op ≠ LIP_OPCODES := by
  rcases h with h | h | h | h <;> rw [h] <;> decide

/-- The effect of the transmit loop at the end of `lip_cec_cmd_received` on a handler
result that satisfies `request_effect`. -/
theorem nested_effect_of_request_effect (s : dlb_lip) (m : dlb_cec_message)
    (r : dlb_lip × List dlb_cec_message × Bool)
    (h : request_effect (is_latency_request_opcode (lip_get_command_opcode m)) s m [] r) :
    nested_effect s m (if r.2.2 then transmit_responses r.1 r.2.1 else r.1) := by
  obtain ⟨h1, h2, h3, _, fs, h5, h6⟩ := h
  split_ifs
  · refine ⟨?_, ?_, fs, ?_, h6⟩
    · simpa [same_static] using h1
    · simpa using h2
    · simp [h3, h5]
  · exact ⟨h1, h2, [], by simp [h3], by simp⟩

theorem nested_effect_refl (s : dlb_lip) (m : dlb_cec_message) : nested_effect s m s :=
  ⟨same_static_refl s, Or.inl rfl, [], by simp, by simp⟩

theorem nested_effect_abort (s : dlb_lip) (m : dlb_cec_message) (reason : Nat) :
    nested_effect s m
      (transmit_responses s [lip_build_abort_cec_command empty_msg s.cec_bus.logical_address
        m.initiator DLB_CEC_OPCODE_VENDOR_COMMAND_WITH_ID reason]) := by
  refine ⟨?_, Or.inl ?_, [lip_build_abort_cec_command empty_msg s.cec_bus.logical_address
        m.initiator DLB_CEC_OPCODE_VENDOR_COMMAND_WITH_ID reason], ?_, ?_⟩
  · simp [same_static]
  · simp
  · simp
  · intro g hg; rw [List.mem_singleton] at hg; rw [hg]; exact response_ok_abort _ _ _ _ _

/-- The dispatch of a request frame never re-enters `lip_cec_cmd_received`: it returns a
result for every `recv`, and the result satisfies `nested_effect`. -/
theorem body_request (recv : dlb_lip → dlb_cec_message → Option (dlb_lip × Int)) (now : Nat)
    (s : dlb_lip) (m : dlb_cec_message)
    (hop : m.opcode = DLB_CEC_OPCODE_VENDOR_COMMAND_WITH_ID)
    (hreq : is_request_opcode (lip_get_command_opcode m)) :
    ∃ s', lip_cec_cmd_received_body recv now s m = some (s', 1) ∧ nested_effect s m s' := by
  have hv := vendor_id_of_known_opcode m (request_opcode_known hreq)
  unfold lip_cec_cmd_received_body lip_cec_cmd_dispatch
  lift_lets
  intro own lip_opcode
  have hl : lip_opcode = lip_get_command_opcode m := rfl
  clear_value lip_opcode
  unfold is_request_opcode at hreq
  rw [← hl] at hreq
  have hlat : lip_opcode ≠ LIP_OPCODE_REQUEST_LIP_SUPPORT →
      is_latency_request_opcode (lip_get_command_opcode m) := by
    intro h; rw [← hl]; unfold is_latency_request_opcode
    rcases hreq with h1 | h1 | h1 | h1
    · exact absurd h1 h
    · exact Or.inl h1
    · exact Or.inr (Or.inl h1)
    · exact Or.inr (Or.inr h1)
  rw [if_neg (by rw [hop]; decide), if_pos hop, if_pos hv]
  have c1 : ¬ lip_opcode = LIP_OPCODES := by
    rcases hreq with h | h | h | h <;> rw [h] <;> decide
  rw [if_neg c1]
  by_cases c2 : m.destination = DLB_LOGICAL_ADDR_BROADCAST ∨ m.initiator = DLB_LOGICAL_ADDR_BROADCAST
  · rw [if_pos c2]; exact ⟨_, rfl, nested_effect_refl s m⟩
  rw [if_neg c2]
  by_cases c3 : m.destination ≠ own
  · rw [if_pos c3]; exact ⟨_, rfl, nested_effect_refl s m⟩
  rw [if_neg c3]
  by_cases c4 : m.msg_length < lip_get_command_min_length lip_opcode
  · rw [if_pos c4]; exact ⟨_, rfl, nested_effect_abort s m _⟩
  rw [if_neg c4]
  by_cases c5 : (!lip_can_handle_opcode_in_current_state s lip_opcode) = true
  · rw [if_pos c5]; exact ⟨_, rfl, nested_effect_abort s m _⟩
  rw [if_neg c5]
  unfold lip_opcode_switch
  lift_lets
  intro r1 r2 r3 r4 r5 r6
  rcases hreq with h | h | h | h
  · rw [if_neg (by rw [h]; decide), if_neg (by rw [h]; decide), if_pos h]
    exact ⟨_, rfl, nested_effect_of_request_effect s m _
      (request_effect_mono (fun h => h.elim) (request_lip_support_effect now s m []))⟩
  · rw [if_neg (by rw [h]; decide), if_neg (by rw [h]; decide), if_neg (by rw [h]; decide),
      if_pos h]
    exact ⟨_, rfl, nested_effect_of_request_effect s m _
      (request_effect_mono (fun _ => hlat (by rw [h]; decide))
        (request_av_effect now s m [] false))⟩
  · rw [if_neg (by rw [h]; decide), if_neg (by rw [h]; decide), if_neg (by rw [h]; decide),
      if_neg (by rw [h]; decide), if_neg (by rw [h]; decide), if_pos h]
    exact ⟨_, rfl, nested_effect_of_request_effect s m _
      (request_effect_mono (fun _ => hlat (by rw [h]; decide))
        (request_audio_effect now s m [] false))⟩
  · rw [if_neg (by rw [h]; decide), if_neg (by rw [h]; decide), if_neg (by rw [h]; decide),
      if_neg (by rw [h]; decide), if_neg (by rw [h]; decide), if_neg (by rw [h]; decide),
      if_neg (by rw [h]; decide), if_pos h]
    exact ⟨_, rfl, nested_effect_of_request_effect s m _
      (request_effect_mono (fun _ => hlat (by rw [h]; decide))
        (request_video_effect now s m [] false))⟩

/-- The invariant only looks at the slots that are PENDING or SENT: a table whose such
slots agree with those of a well-formed table is well formed. -/
theorem pending_table_wf_of_le {T T' : Int → dlb_lip_pending_message}
    (hwf : pending_table_wf T)
    (h : ∀ a ∈ slot_indices,
      ((T' a).state = LIP_MESSAGE_SENT ∨ (T' a).state = LIP_MESSAGE_PENDING) →
        (T' a).state = (T a).state ∧ (T' a).msg = (T a).msg) :
    pending_table_wf T' := by
  obtain ⟨h1, h2⟩ := hwf
  refine ⟨?_, ?_⟩
  · intro i hi j hj hsi hsj
    have a1 := h i hi (Or.inl hsi)
    have a2 := h j hj (Or.inl hsj)
    exact h1 i hi j hj (a1.1 ▸ hsi) (a2.1 ▸ hsj)
  · intro i hi
    refine ⟨?_, ?_⟩
    · intro hp
      have a1 := h i hi (Or.inr hp)
      rw [a1.2]
      exact (h2 i hi).1 (a1.1 ▸ hp)
    · intro hp
      have a1 := h i hi (Or.inl hp)
      rw [a1.2]
      exact (h2 i hi).2 (a1.1 ▸ hp)

theorem pending_table_wf_set_state {T : Int → dlb_lip_pending_message} (i : Int)
    (st : dlb_lip_pending_message_state) (hwf : pending_table_wf T)
    (h1 : st ≠ LIP_MESSAGE_SENT) (h2 : st ≠ LIP_MESSAGE_PENDING) :
    pending_table_wf (Function.update T i { (T i) with state := st }) := by
  apply pending_table_wf_of_le hwf
  intro a _ ha
  by_cases hai : a = i
  · subst hai
    simp only [Function.update_same] at ha
    rcases ha with ha | ha
    · exact absurd ha h1
    · exact absurd ha h2
  · simp only [Function.update_noteq hai, and_self]

theorem pending_table_wf_set_expire {T : Int → dlb_lip_pending_message} (i : Int) (e : Nat)
    (hwf : pending_table_wf T) :
    pending_table_wf (Function.update T i { (T i) with expire_time_ms := e }) := by
  apply pending_table_wf_of_le hwf
  intro a _ _
  by_cases hai : a = i
  · subst hai; simp only [Function.update_same, and_self]
  · simp only [Function.update_noteq hai, and_self]

/-- A request handler keeps the pending table well formed. -/
theorem pending_table_wf_slot_effect {P : Prop} {T T' : Int → dlb_lip_pending_message}
    {m : dlb_cec_message} (hwf : pending_table_wf T) (he : slot_effect P T T' m)
    (hop : m.opcode = DLB_CEC_OPCODE_VENDOR_COMMAND_WITH_ID)
    (hreq : is_request_opcode (lip_get_command_opcode m))
    (hP : P → is_latency_request_opcode (lip_get_command_opcode m)) :
    pending_table_wf T' := by
  rcases he with h | ⟨e, h⟩ | ⟨e, h, hno, hp⟩
  · rw [h]; exact hwf
  · subst h
    obtain ⟨h1, h2⟩ := hwf
    refine ⟨?_, ?_⟩
    · intro i hi j hj hsi hsj
      have hi' : i ≠ m.initiator := by
        intro hh; rw [hh, Function.update_same] at hsi; simp at hsi
      have hj' : j ≠ m.initiator := by
        intro hh; rw [hh, Function.update_same] at hsj; simp at hsj
      rw [Function.update_noteq hi'] at hsi
      rw [Function.update_noteq hj'] at hsj
      exact h1 i hi j hj hsi hsj
    · intro i hi
      by_cases hh : i = m.initiator
      · rw [hh, Function.update_same]
        exact ⟨fun _ => ⟨hop, rfl, hreq⟩, fun hs => by simp at hs⟩
      · rw [Function.update_noteq hh]; exact h2 i hi
  · subst h
    obtain ⟨h1, h2⟩ := hwf
    have key : ∀ i ∈ slot_indices,
        (Function.update T m.initiator
          { msg := m, state := LIP_MESSAGE_SENT, expire_time_ms := e } i).state
            = LIP_MESSAGE_SENT → i = m.initiator := by
      intro i hi hs
      by_contra hh
      rw [Function.update_noteq hh] at hs
      exact hno i hi hh hs
    refine ⟨?_, ?_⟩
    · intro i hi j hj hsi hsj
      rw [key i hi hsi, key j hj hsj]
    · intro i hi
      by_cases hh : i = m.initiator
      · rw [hh, Function.update_same]
        exact ⟨fun hs => by simp at hs, fun _ => ⟨hop, rfl, hP hp⟩⟩
      · rw [Function.update_noteq hh]; exact h2 i hi

/-- A slot other than that of the initiator of `m` is not touched by `slot_effect`. -/
theorem slot_effect_other {P : Prop} {T T' : Int → dlb_lip_pending_message}
    {m : dlb_cec_message} (he : slot_effect P T T' m) (u : Int) (hu : u ≠ m.initiator) :
    T' u = T u := by
  rcases he with h | ⟨e, h⟩ | ⟨e, h, _⟩
  · rw [h]
  · rw [h, Function.update_noteq hu]
  · rw [h, Function.update_noteq hu]

/-- The loop of `lip_handle_pending_requests` on a well-formed table: it returns with
one level of re-entrance, keeps the table well formed and the static fields unchanged,
leaves every slot alone that was not PENDING, and sends no Feature Abort to the peer of
such a slot. -/
theorem pending_requests_loop_spec (fuel now : Nat) (L : List Int)
    (hL : ∀ i ∈ L, i ∈ slot_indices) (s : dlb_lip)
    (hwf : pending_table_wf s.pending_requests) :
    ∃ s', pending_requests_loop (lip_cec_cmd_received (fuel + 1) now) L s = some s'
      ∧ pending_table_wf s'.pending_requests ∧ same_static s s'
      ∧ (∀ u, (s.pending_requests u).state ≠ LIP_MESSAGE_PENDING →
          s'.pending_requests u = s.pending_requests u)
      ∧ ∃ fs, s'.tx = s.tx ++ fs
          ∧ ∀ u, (s.pending_requests u).state ≠ LIP_MESSAGE_PENDING →
              ∀ f ∈ fs, f.opcode = DLB_CEC_OPCODE_FEATURE_ABORT → f.destination ≠ u := by
  induction L generalizing s with
  | nil =>
    exact ⟨s, rfl, hwf, same_static_refl s, fun _ _ => rfl, [], by simp, by simp⟩
  | cons i L ih =>
    have hi : i ∈ slot_indices := hL i (List.mem_cons_self _ _)
    have hL' : ∀ j ∈ L, j ∈ slot_indices := fun j hj => hL j (List.mem_cons_of_mem _ hj)
    unfold pending_requests_loop
    by_cases hp : (s.pending_requests i).state = LIP_MESSAGE_PENDING
    · rw [if_pos hp]
      obtain ⟨hmop, hmi, hmreq⟩ := (hwf.2 i hi).1 hp
      have hwf1 : pending_table_wf (set_slot_state s i LIP_MESSAGE_HANDLED).pending_requests :=
        pending_table_wf_set_state i _ hwf (by decide) (by decide)
      have hmsg : ((set_slot_state s i LIP_MESSAGE_HANDLED).pending_requests i).msg
          = (s.pending_requests i).msg := by simp
      obtain ⟨s2, hs2, hn1, hn2, fs1, hn3, hn4⟩ :=
        body_request (lip_cec_cmd_received fuel now) now (set_slot_state s i LIP_MESSAGE_HANDLED)
          (s.pending_requests i).msg hmop hmreq
      have hrecv : lip_cec_cmd_received (fuel + 1) now (set_slot_state s i LIP_MESSAGE_HANDLED)
          ((set_slot_state s i LIP_MESSAGE_HANDLED).pending_requests i).msg = some (s2, 1) := by
        rw [hmsg]; exact hs2
      simp only [hrecv]
      have hwf2 : pending_table_wf s2.pending_requests :=
        pending_table_wf_slot_effect hwf1 hn2 hmop hmreq (fun h => h)
      obtain ⟨s', e1, e2, e3, e4, fs2, e5, e6⟩ := ih hL'
        { s2 with
          pending_requests :=
            Function.update s2.pending_requests i
              { (s2.pending_requests i) with
                expire_time_ms := (s.pending_requests i).expire_time_ms } }
        (pending_table_wf_set_expire i _ hwf2)
      have hother : ∀ u, (s.pending_requests u).state ≠ LIP_MESSAGE_PENDING →
          u ≠ i ∧ Function.update s2.pending_requests i
              { (s2.pending_requests i) with
                expire_time_ms := (s.pending_requests i).expire_time_ms } u
            = s.pending_requests u := by
        intro u hu
        have hui : u ≠ i := by intro hh; rw [hh] at hu; exact hu hp
        refine ⟨hui, ?_⟩
        rw [Function.update_noteq hui, slot_effect_other hn2 u (by rw [hmi]; exact hui)]
        simp [Function.update_noteq hui]
      refine ⟨s', e1, e2, ?_, ?_, fs1 ++ fs2, ?_, ?_⟩
      · refine same_static_trans ?_ e3
        simpa [same_static] using hn1
      · intro u hu
        obtain ⟨_, h2⟩ := hother u hu
        rw [e4 u (by simp only []; rw [h2]; exact hu)]
        exact h2
      · rw [e5]; simp only []; rw [hn3]; simp
      · intro u hu f hf hfa
        obtain ⟨hui, h2⟩ := hother u hu
        rcases List.mem_append.1 hf with h | h
        · rw [hn4 f h hfa, hmi]; exact fun hh => hui hh.symm
        · exact e6 u (by simp only []; rw [h2]; exact hu) f h hfa
    · rw [if_neg hp]
      exact ih hL' s hwf

/-- The loop of `lip_handle_pending_requests` does nothing when no visited slot is
PENDING. -/
theorem pending_requests_loop_nop
    (recv : dlb_lip → dlb_cec_message → Option (dlb_lip × Int)) (L : List Int) (s : dlb_lip)
    (h : ∀ i ∈ L, (s.pending_requests i).state ≠ LIP_MESSAGE_PENDING) :
    pending_requests_loop recv L s = some s := by
  induction L with
  | nil => rfl
  | cons i L ih =>
    unfold pending_requests_loop
    rw [if_neg (h i (List.mem_cons_self _ _))]
    exact ih (fun j hj => h j (List.mem_cons_of_mem _ hj))

/-- The function `lip_handle_pending_requests` on a well-formed table. -/
theorem lip_handle_pending_requests_spec (fuel now : Nat) (s : dlb_lip)
    (hwf : pending_table_wf s.pending_requests) :
    ∃ s', lip_handle_pending_requests (lip_cec_cmd_received (fuel + 1) now) s = some s'
      ∧ pending_table_wf s'.pending_requests ∧ same_static s s'
      ∧ (∀ u, (s.pending_requests u).state ≠ LIP_MESSAGE_PENDING →
          s'.pending_requests u = s.pending_requests u)
      ∧ (∃ fs, s'.tx = s.tx ++ fs
          ∧ ∀ u, (s.pending_requests u).state ≠ LIP_MESSAGE_PENDING →
              ∀ f ∈ fs, f.opcode = DLB_CEC_OPCODE_FEATURE_ABORT → f.destination ≠ u)
      ∧ ((∀ i ∈ slot_indices, (s.pending_requests i).state ≠ LIP_MESSAGE_PENDING) → s' = s) := by
  unfold lip_handle_pending_requests
  split_ifs with h
  · obtain ⟨s', e1, e2, e3, e4, e5⟩ :=
      pending_requests_loop_spec fuel now slot_indices (fun i hi => hi) s hwf
    refine ⟨s', e1, e2, e3, e4, e5, ?_⟩
    intro hno
    have := pending_requests_loop_nop (lip_cec_cmd_received (fuel + 1) now) slot_indices s hno
    rw [this] at e1
    exact (Option.some.inj e1).symm
  · exact ⟨s, rfl, hwf, same_static_refl s, fun _ _ => rfl, ⟨[], by simp, by simp⟩,
      fun _ => rfl⟩

/-- The function `lip_reply_for_pending_cmd_received` on a well-formed table, for a new
state other than PENDING and SENT. -/
theorem lip_reply_for_pending_cmd_received_spec (fuel now : Nat) (s : dlb_lip) (source : Int)
    (new_state : dlb_lip_pending_message_state)
    (hwf : pending_table_wf s.pending_requests)
    (h1 : new_state ≠ LIP_MESSAGE_SENT) (h2 : new_state ≠ LIP_MESSAGE_PENDING) :
    ∃ s', lip_reply_for_pending_cmd_received (lip_cec_cmd_received (fuel + 1) now) now s
          source new_state = some s'
      ∧ pending_table_wf s'.pending_requests ∧ same_static s s'
      ∧ s'.pending_requests source = { (s.pending_requests source) with state := new_state }
      ∧ (∀ u, u ≠ source → (s.pending_requests u).state ≠ LIP_MESSAGE_PENDING →
          s'.pending_requests u = s.pending_requests u)
      ∧ (∃ fs, s'.tx = s.tx ++ fs
          ∧ (∀ f ∈ fs, f.opcode = DLB_CEC_OPCODE_FEATURE_ABORT → f.destination ≠ source)
          ∧ ((∀ i ∈ slot_indices, i ≠ source →
                (s.pending_requests i).state ≠ LIP_MESSAGE_PENDING) → fs = []))
      ∧ ((∀ i ∈ slot_indices, i ≠ source →
            (s.pending_requests i).state ≠ LIP_MESSAGE_PENDING) →
          s'.pending_requests = (set_slot_state s source new_state).pending_requests) := by
  have hwf1 : pending_table_wf (set_slot_state s source new_state).pending_requests :=
    pending_table_wf_set_state source _ hwf h1 h2
  obtain ⟨s2, e1, e2, e3, e4, ⟨fs, e5, e6⟩, e7⟩ :=
    lip_handle_pending_requests_spec fuel now (set_slot_state s source new_state) hwf1
  have hsrc : ((set_slot_state s source new_state).pending_requests source).state
      ≠ LIP_MESSAGE_PENDING := by simpa using h2
  have hnop : (∀ i ∈ slot_indices, i ≠ source →
      (s.pending_requests i).state ≠ LIP_MESSAGE_PENDING) → s2 = set_slot_state s source new_state := by
    intro hno
    apply e7
    intro i hi
    by_cases hh : i = source
    · rw [hh]; exact hsrc
    · simpa [Function.update_noteq hh] using hno i hi hh
  unfold lip_reply_for_pending_cmd_received
  rw [e1]
  refine ⟨_, rfl, ?_, ?_, ?_, ?_, ⟨fs, ?_, ?_, ?_⟩, ?_⟩
  · simpa using e2
  · have : same_static s (set_slot_state s source new_state) := ⟨rfl, rfl, rfl, rfl, rfl, rfl, rfl⟩
    have h3 := same_static_trans this e3
    simpa [same_static] using h3
  · simp only [lip_reschedule_timer_pending_requests]
    rw [e4 source hsrc]; simp
  · intro u hu hup
    simp only [lip_reschedule_timer_pending_requests]
    rw [e4 u (by simpa [Function.update_noteq hu] using hup)]
    simp [Function.update_noteq hu]
  · simp only [lip_reschedule_timer_tx]; rw [e5]; rfl
  · intro f hf hfa
    exact e6 source hsrc f hf hfa
  · intro hno
    have := hnop hno
    rw [this] at e5
    simpa using e5
  · intro hno
    simp only [lip_reschedule_timer_pending_requests]
    rw [hnop hno]

/-- The scan of `lip_get_addr_of_pending_request_sent` over a list on which every SENT
slot is `a`. -/
theorem sent_scan (T : Int → dlb_lip_pending_message) (a : Int) (L : List Int)
    (h : ∀ i ∈ L, (T i).state = LIP_MESSAGE_SENT → i = a) (init : Int) :
    L.foldl (fun addr i => if (T i).state = LIP_MESSAGE_SENT then i else addr) init
      = if ∃ i ∈ L, (T i).state = LIP_MESSAGE_SENT then a else init := by
  induction L generalizing init with
  | nil => simp
  | cons i L ih =>
    rw [List.foldl_cons, ih (fun j hj => h j (List.mem_cons_of_mem _ hj))]
    by_cases hi : (T i).state = LIP_MESSAGE_SENT
    · have := h i (List.mem_cons_self _ _) hi
      subst this
      simp [hi]
    · simp [hi]

/-- On a well-formed table the scan returns the SENT slot. -/
theorem addr_of_sent (s : dlb_lip) (hwf : pending_table_wf s.pending_requests) (a : Int)
    (ha : a ∈ slot_indices) (hs : (s.pending_requests a).state = LIP_MESSAGE_SENT) :
    lip_get_addr_of_pending_request_sent s = a := by
  unfold lip_get_addr_of_pending_request_sent
  rw [sent_scan s.pending_requests a slot_indices (fun i hi h => hwf.1 i hi a ha h hs)]
  rw [if_pos ⟨a, ha, hs⟩]

/-- Without a SENT slot the scan returns `DLB_LOGICAL_ADDR_UNKNOWN`. -/
theorem addr_of_sent_none (s : dlb_lip)
    (h : ∀ i ∈ slot_indices, (s.pending_requests i).state ≠ LIP_MESSAGE_SENT) :
    lip_get_addr_of_pending_request_sent s = DLB_LOGICAL_ADDR_UNKNOWN := by
  unfold lip_get_addr_of_pending_request_sent
  rw [sent_scan s.pending_requests 0 slot_indices (fun i hi hh => absurd hh (h i hi))]
  rw [if_neg (fun ⟨i, hi, hh⟩ => h i hi hh)]

/-- The scan returns `DLB_LOGICAL_ADDR_UNKNOWN` or a slot that is SENT. -/
theorem addr_of_sent_cases (s : dlb_lip) (hwf : pending_table_wf s.pending_requests) :
    lip_get_addr_of_pending_request_sent s = DLB_LOGICAL_ADDR_UNKNOWN
      ∨ (lip_get_addr_of_pending_request_sent s ∈ slot_indices
          ∧ (s.pending_requests (lip_get_addr_of_pending_request_sent s)).state
              = LIP_MESSAGE_SENT) := by
  by_cases h : ∃ a ∈ slot_indices, (s.pending_requests a).state = LIP_MESSAGE_SENT
  · obtain ⟨a, ha, hs⟩ := h
    right
    rw [addr_of_sent s hwf a ha hs]
    exact ⟨ha, hs⟩
  · left
    apply addr_of_sent_none
    intro i hi hh
    exact h ⟨i, hi, hh⟩


/-- The function `lip_reply_for_pending_cmd_received` returns and keeps the table well
formed. -/
theorem reply_wf (fuel now : Nat) (s : dlb_lip) (source : Int)
    (new_state : dlb_lip_pending_message_state)
    (hwf : pending_table_wf s.pending_requests)
    (h1 : new_state ≠ LIP_MESSAGE_SENT) (h2 : new_state ≠ LIP_MESSAGE_PENDING) :
    ∃ s', lip_reply_for_pending_cmd_received (lip_cec_cmd_received (fuel + 1) now) now s
          source new_state = some s'
      ∧ pending_table_wf s'.pending_requests := by
  obtain ⟨s', e1, e2, _⟩ :=
    lip_reply_for_pending_cmd_received_spec fuel now s source new_state hwf h1 h2
  exact ⟨s', e1, e2⟩

theorem complete_with_reply_wf (fuel now : Nat) (s : dlb_lip) (src : Int)
    (reply : dlb_cec_message) (rs : List dlb_cec_message)
    (hwf : pending_table_wf s.pending_requests) :
    ∃ r, complete_with_reply (lip_cec_cmd_received (fuel + 1) now) now s src reply rs = some r
      ∧ pending_table_wf r.1.pending_requests := by
  unfold complete_with_reply
  split_ifs
  · obtain ⟨s', e1, e2⟩ := reply_wf fuel now s src LIP_MESSAGE_HANDLED hwf (by decide) (by decide)
    exact ⟨_, by rw [e1]; rfl, e2⟩
  · obtain ⟨s', e1, e2⟩ :=
      reply_wf fuel now s src LIP_MESSAGE_ANSWER_RECEIVED hwf (by decide) (by decide)
    exact ⟨_, by rw [e1]; rfl, e2⟩

theorem report_av_wf (fuel now : Nat) (s : dlb_lip) (m : dlb_cec_message)
    (rs : List dlb_cec_message) (hwf : pending_table_wf s.pending_requests) :
    ∃ r, lip_handle_report_av_latency (lip_cec_cmd_received (fuel + 1) now) now s m rs = some r
      ∧ pending_table_wf r.1.pending_requests := by
  unfold lip_handle_report_av_latency
  lift_lets
  intro vin ain src dc s1 opcode
  have hwf1 : pending_table_wf s1.pending_requests := hwf
  split_ifs
  · exact complete_with_reply_wf fuel now s1 src _ rs hwf1
  · obtain ⟨s', e1, e2⟩ :=
      reply_wf fuel now s1 src LIP_MESSAGE_ANSWER_RECEIVED hwf1 (by decide) (by decide)
    exact ⟨_, by rw [e1]; rfl, e2⟩
  · exact ⟨_, rfl, hwf1⟩

theorem report_audio_wf (fuel now : Nat) (s : dlb_lip) (m : dlb_cec_message)
    (rs : List dlb_cec_message) (hwf : pending_table_wf s.pending_requests) :
    ∃ r, lip_handle_report_audio_latency (lip_cec_cmd_received (fuel + 1) now) now s m rs
          = some r
      ∧ pending_table_wf r.1.pending_requests := by
  unfold lip_handle_report_audio_latency
  lift_lets
  intro src dc s1 opcode
  have hwf1 : pending_table_wf s1.pending_requests := hwf
  split_ifs
  · obtain ⟨s', e1, e2⟩ :=
      reply_wf fuel now s1 src LIP_MESSAGE_HANDLED hwf1 (by decide) (by decide)
    exact ⟨_, by rw [e1]; rfl, e2⟩
  · exact complete_with_reply_wf fuel now s1 src _ rs hwf1
  · exact complete_with_reply_wf fuel now s1 src _ rs hwf1
  · exact ⟨_, rfl, hwf1⟩
  · exact ⟨_, rfl, hwf1⟩

theorem report_video_wf (fuel now : Nat) (s : dlb_lip) (m : dlb_cec_message)
    (rs : List dlb_cec_message) (hwf : pending_table_wf s.pending_requests) :
    ∃ r, lip_handle_report_video_latency (lip_cec_cmd_received (fuel + 1) now) now s m rs
          = some r
      ∧ pending_table_wf r.1.pending_requests := by
  unfold lip_handle_report_video_latency
  lift_lets
  intro src vin dc s1 opcode
  have hwf1 : pending_table_wf s1.pending_requests := hwf
  split_ifs
  · exact complete_with_reply_wf fuel now s1 src _ rs hwf1
  · obtain ⟨s', e1, e2⟩ :=
      reply_wf fuel now s1 src LIP_MESSAGE_HANDLED hwf1 (by decide) (by decide)
    exact ⟨_, by rw [e1]; rfl, e2⟩
  · exact complete_with_reply_wf fuel now s1 src _ rs hwf1
  · exact ⟨_, rfl, hwf1⟩
  · exact ⟨_, rfl, hwf1⟩

theorem feature_abort_wf (fuel now : Nat) (s : dlb_lip) (m : dlb_cec_message)
    (rs : List dlb_cec_message) (c : Int) (hwf : pending_table_wf s.pending_requests) :
    ∃ r, lip_handle_feature_abort (lip_cec_cmd_received (fuel + 1) now) now s m rs c = some r
      ∧ pending_table_wf r.1.pending_requests := by
  unfold lip_handle_feature_abort
  lift_lets
  intro op src pop
  split_ifs
  · exact ⟨_, rfl, hwf⟩
  · exact ⟨_, rfl, hwf⟩
  · obtain ⟨s', e1, e2⟩ :=
      reply_wf fuel now s src LIP_MESSAGE_ABORT_RECEIVED hwf (by decide) (by decide)
    exact ⟨_, by rw [e1]; rfl, e2⟩
  · obtain ⟨s', e1, e2⟩ :=
      reply_wf fuel now s src LIP_MESSAGE_HANDLED hwf (by decide) (by decide)
    exact ⟨_, by rw [e1]; rfl, e2⟩
  · exact ⟨_, rfl, hwf⟩
  · exact ⟨_, rfl, hwf⟩
  · exact ⟨_, rfl, hwf⟩

/-- The loop of `lip_handle_report_lip_support` over the buffered requests only moves
slots to HANDLED. -/
theorem answer_buffered_support_le (L : List Int) (s : dlb_lip) (f : Int → Bool) (a : Int)
    (h : ((answer_buffered_support L (s, f)).1.pending_requests a).state
        ≠ LIP_MESSAGE_HANDLED) :
    (answer_buffered_support L (s, f)).1.pending_requests a = s.pending_requests a := by
  induction L generalizing s f with
  | nil => rfl
  | cons i L ih =>
    unfold answer_buffered_support at h ⊢
    split_ifs at h ⊢ with hc
    · rw [ih _ _ h]
      have := ih _ _ h
      rw [this] at h
      by_cases hai : a = i
      · subst hai
        simp at h
      · simp [Function.update_noteq hai]
    · exact ih _ _ h

theorem report_lip_support_wf (now : Nat) (s : dlb_lip) (m : dlb_cec_message)
    (rs : List dlb_cec_message) (upd : Bool) (hwf : pending_table_wf s.pending_requests) :
    pending_table_wf (lip_handle_report_lip_support now s m rs upd).1.pending_requests := by
  unfold lip_handle_report_lip_support
  lift_lets
  intro uuid s1 dc s2 r s3 out s4
  split_ifs
  · exact hwf
  · exact hwf
  · exact hwf
  · have h2 : s2.pending_requests = s.pending_requests := by
      simp only [s2, s1]
      split_ifs
      · unfold rotate_cache
        lift_lets
        intro a1 a2 a3 a4 a5 a6
        simp only [a1]
        split_ifs <;> rfl
      · rfl
    have h4 : s4.pending_requests = r.1.pending_requests := by
      simp only [s4, s3]
      split_ifs <;> simp
    show pending_table_wf s4.pending_requests
    rw [h4]
    apply pending_table_wf_of_le hwf
    intro a _ ha
    have hne : (r.1.pending_requests a).state ≠ LIP_MESSAGE_HANDLED := by
      rcases ha with ha | ha <;> rw [ha] <;> decide
    have := answer_buffered_support_le slot_indices s2 (fun _ => upd) a hne
    simp only [r]
    rw [this, h2]
    exact ⟨rfl, rfl⟩

theorem build_request_av_latency_lip_opcode (i d : Int) (v : dlb_lip_video_format)
    (a : dlb_lip_audio_format) :
    lip_get_command_opcode (dlb_lip_build_request_av_latency_ndebug empty_msg i d v a)
      = LIP_OPCODE_REQUEST_AV_LATENCY := by
  unfold dlb_lip_build_request_av_latency_ndebug
  lift_lets
  intro c1 c2 c3 c4
  split_ifs <;>
    (simp [c4, c3, c2, c1, lip_get_command_opcode, put_byte, lip_init_cec_command,
      dlb_lip_set_dolby_vendor_id, empty_msg, dlb_cec_message.byte, List.replicate]; decide)

theorem build_request_audio_latency_lip_opcode (i d : Int) (a : dlb_lip_audio_format) :
    lip_get_command_opcode (dlb_lip_build_request_audio_latency empty_msg i d a)
      = LIP_OPCODE_REQUEST_AUDIO_LATENCY := by
  unfold dlb_lip_build_request_audio_latency
  lift_lets
  intro c1 c2
  split_ifs <;>
    (simp [c2, c1, lip_get_command_opcode, put_byte, lip_init_cec_command,
      dlb_lip_set_dolby_vendor_id, empty_msg, dlb_cec_message.byte, List.replicate]; decide)

theorem build_request_video_latency_lip_opcode (i d : Int) (v : dlb_lip_video_format) :
    lip_get_command_opcode (dlb_lip_build_request_video_latency_ndebug empty_msg i d v)
      = LIP_OPCODE_REQUEST_VIDEO_LATENCY := by
  unfold dlb_lip_build_request_video_latency_ndebug
  simp [lip_get_command_opcode, put_byte, lip_init_cec_command,
      dlb_lip_set_dolby_vendor_id, empty_msg, dlb_cec_message.byte, List.replicate]
  decide

theorem request_effect_wf {P : Prop} {s : dlb_lip} {m : dlb_cec_message}
    {rs : List dlb_cec_message} {r : dlb_lip × List dlb_cec_message × Bool}
    (h : request_effect P s m rs r) (hwf : pending_table_wf s.pending_requests)
    (hop : m.opcode = DLB_CEC_OPCODE_VENDOR_COMMAND_WITH_ID)
    (hreq : is_request_opcode (lip_get_command_opcode m))
    (hP : P → is_latency_request_opcode (lip_get_command_opcode m)) :
    pending_table_wf r.1.pending_requests :=
  pending_table_wf_slot_effect hwf h.2.1 hop hreq hP

/-- The dispatcher returns with one level of re-entrance and keeps the pending table
well formed. -/
theorem dispatch_wf (fuel now : Nat) (s : dlb_lip) (m : dlb_cec_message)
    (hwf : pending_table_wf s.pending_requests) :
    ∃ r, lip_cec_cmd_dispatch (lip_cec_cmd_received (fuel + 1) now) now s m = some r
      ∧ pending_table_wf r.1.pending_requests := by
  unfold lip_cec_cmd_dispatch
  lift_lets
  intro own lip_opcode
  have hl : lip_opcode = lip_get_command_opcode m := rfl
  clear_value lip_opcode
  by_cases c0 : m.opcode = DLB_CEC_OPCODE_FEATURE_ABORT
  · rw [if_pos c0]
    exact feature_abort_wf fuel now s m [] 0 hwf
  rw [if_neg c0]
  by_cases c0' : m.opcode = DLB_CEC_OPCODE_VENDOR_COMMAND_WITH_ID
  swap
  · rw [if_neg c0']; exact ⟨_, rfl, hwf⟩
  rw [if_pos c0']
  by_cases cv : lip_validate_cmd_vendor_id m = true
  swap
  · rw [if_neg cv]; exact ⟨_, rfl, hwf⟩
  rw [if_pos cv]
  by_cases c1 : lip_opcode = LIP_OPCODES
  · rw [if_pos c1]; exact ⟨_, rfl, hwf⟩
  rw [if_neg c1]
  by_cases c2 : m.destination = DLB_LOGICAL_ADDR_BROADCAST ∨ m.initiator = DLB_LOGICAL_ADDR_BROADCAST
  · rw [if_pos c2]; exact ⟨_, rfl, hwf⟩
  rw [if_neg c2]
  by_cases c3 : m.destination ≠ own
  · rw [if_pos c3]; exact ⟨_, rfl, hwf⟩
  rw [if_neg c3]
  by_cases c4 : m.msg_length < lip_get_command_min_length lip_opcode
  · rw [if_pos c4]; exact ⟨_, rfl, hwf⟩
  rw [if_neg c4]
  by_cases c5 : (!lip_can_handle_opcode_in_current_state s lip_opcode) = true
  · rw [if_pos c5]; exact ⟨_, rfl, hwf⟩
  rw [if_neg c5]
  unfold lip_opcode_switch
  lift_lets
  intro r1 r2 r3 r4 r5 r6
  by_cases d1 : lip_opcode = LIP_OPCODE_REPORT_LIP_SUPPORT
  · rw [if_pos d1]; exact ⟨_, rfl, report_lip_support_wf now s m [] false hwf⟩
  rw [if_neg d1]
  by_cases d2 : lip_opcode = LIP_OPCODE_UPDATE_UUID
  · rw [if_pos d2]; exact ⟨_, rfl, report_lip_support_wf now s m [] true hwf⟩
  rw [if_neg d2]
  by_cases d3 : lip_opcode = LIP_OPCODE_REQUEST_LIP_SUPPORT
  · rw [if_pos d3]
    exact ⟨_, rfl, request_effect_wf (request_lip_support_effect now s m []) hwf c0'
      (by rw [← hl, d3]; exact Or.inl rfl) (fun h => h.elim)⟩
  rw [if_neg d3]
  by_cases d4 : lip_opcode = LIP_OPCODE_REQUEST_AV_LATENCY
  · rw [if_pos d4]
    exact ⟨_, rfl, request_effect_wf (request_av_effect now s m [] false) hwf c0'
      (by rw [← hl, d4]; exact Or.inr (Or.inl rfl))
      (fun _ => by rw [← hl, d4]; exact Or.inl rfl)⟩
  rw [if_neg d4]
  by_cases d5 : lip_opcode = LIP_OPCODE_REPORT_AV_LATENCY
  · rw [if_pos d5]
    obtain ⟨r, e1, e2⟩ := report_av_wf fuel now s m [] hwf
    exact ⟨_, by rw [e1]; rfl, e2⟩
  rw [if_neg d5]
  by_cases d6 : lip_opcode = LIP_OPCODE_REQUEST_AUDIO_LATENCY
  · rw [if_pos d6]
    exact ⟨_, rfl, request_effect_wf (request_audio_effect now s m [] false) hwf c0'
      (by rw [← hl, d6]; exact Or.inr (Or.inr (Or.inl rfl)))
      (fun _ => by rw [← hl, d6]; exact Or.inr (Or.inl rfl))⟩
  rw [if_neg d6]
  by_cases d7 : lip_opcode = LIP_OPCODE_REPORT_AUDIO_LATENCY
  · rw [if_pos d7]
    obtain ⟨r, e1, e2⟩ := report_audio_wf fuel now s m [] hwf
    exact ⟨_, by rw [e1]; rfl, e2⟩
  rw [if_neg d7]
  by_cases d8 : lip_opcode = LIP_OPCODE_REQUEST_VIDEO_LATENCY
  · rw [if_pos d8]
    exact ⟨_, rfl, request_effect_wf (request_video_effect now s m [] false) hwf c0'
      (by rw [← hl, d8]; exact Or.inr (Or.inr (Or.inr rfl)))
      (fun _ => by rw [← hl, d8]; exact Or.inr (Or.inr rfl))⟩
  rw [if_neg d8]
  by_cases d9 : lip_opcode = LIP_OPCODE_REPORT_VIDEO_LATENCY
  · rw [if_pos d9]
    obtain ⟨r, e1, e2⟩ := report_video_wf fuel now s m [] hwf
    exact ⟨_, by rw [e1]; rfl, e2⟩
  rw [if_neg d9]
  exact ⟨_, rfl, hwf⟩

/-- The function `lip_cec_cmd_received` returns with fuel 2 or more and keeps the pending
table well formed. -/
theorem recv_wf (fuel now : Nat) (s : dlb_lip) (m : dlb_cec_message)
    (hwf : pending_table_wf s.pending_requests) :
    ∃ r, lip_cec_cmd_received (fuel + 2) now s m = some r
      ∧ pending_table_wf r.1.pending_requests := by
  obtain ⟨r, e1, e2⟩ := dispatch_wf fuel now s m hwf
  show ∃ r, lip_cec_cmd_received_body (lip_cec_cmd_received (fuel + 1) now) now s m = some r
      ∧ pending_table_wf r.1.pending_requests
  unfold lip_cec_cmd_received_body
  rw [e1]
  refine ⟨_, rfl, ?_⟩
  simp only []
  split_ifs
  · simpa using e2
  · exact e2

theorem timer_wf (fuel now : Nat) (s : dlb_lip) (id : Nat) (lock : Bool)
    (hwf : pending_table_wf s.pending_requests) :
    ∃ r, dlb_lip_timer_callback (lip_cec_cmd_received (fuel + 1) now) now s id lock = some r
      ∧ pending_table_wf r.1.pending_requests := by
  unfold dlb_lip_timer_callback
  lift_lets
  intro src opcode response
  split_ifs
  · obtain ⟨s', e1, e2⟩ :=
      reply_wf fuel now s src LIP_MESSAGE_ABORT_RECEIVED hwf (by decide) (by decide)
    exact ⟨_, by rw [e1]; rfl, e2⟩
  · obtain ⟨s', e1, e2⟩ :=
      reply_wf fuel now s src LIP_MESSAGE_HANDLED hwf (by decide) (by decide)
    exact ⟨_, by rw [e1]; rfl, by simpa using e2⟩
  · obtain ⟨s', e1, e2⟩ :=
      reply_wf fuel now s src LIP_MESSAGE_ABORT_RECEIVED hwf (by decide) (by decide)
    exact ⟨_, by rw [e1]; rfl, e2⟩
  · exact ⟨_, rfl, hwf⟩
  · exact ⟨_, rfl, hwf⟩
  · exact ⟨_, rfl, hwf⟩

theorem thread_supported_loop_wf (now : Nat) (L : List Int) (s : dlb_lip)
    (hst : s.state = LIP_SUPPORTED) (hwf : pending_table_wf s.pending_requests) :
    pending_table_wf (thread_supported_loop now L s).pending_requests := by
  induction L generalizing s with
  | nil => exact hwf
  | cons i L ih =>
    unfold thread_supported_loop
    lift_lets
    intro s1 r
    split_ifs with h1 h2
    · have hr : r = (lip_status_change_callback (lip_add_upstream_device s1
          (s1.pending_requests i).msg.initiator),
          [] ++ [dlb_lip_build_report_lip_support_cmd empty_msg
            (lip_status_change_callback (lip_add_upstream_device s1
              (s1.pending_requests i).msg.initiator)).cec_bus.logical_address
            (s1.pending_requests i).msg.initiator LIP_PROTOCOL_VERSION (lip_get_uuid s1) false],
          true) := by
        simp only [r, lip_handle_request_lip_support]
        rw [if_pos (show s1.state = LIP_SUPPORTED from hst)]
      apply ih
      · rw [hr]; simpa [s1] using hst
      · rw [hr]
        simp only [transmit_responses_pending_requests,
          lip_status_change_callback_pending_requests, lip_add_upstream_device_pending_requests]
        exact pending_table_wf_set_state i _ hwf (by decide) (by decide)
    · exfalso
      apply h2
      simp only [r, lip_handle_request_lip_support]
      rw [if_pos (show s1.state = LIP_SUPPORTED from hst)]
    · exact ih s hst hwf

theorem thread_unsupported_loop_wf (L : List Int) (s : dlb_lip)
    (hwf : pending_table_wf s.pending_requests) :
    pending_table_wf (thread_unsupported_loop L s).pending_requests := by
  induction L generalizing s with
  | nil => exact hwf
  | cons i L ih =>
    unfold thread_unsupported_loop
    lift_lets
    intro s1
    split_ifs
    · apply ih
      simp only [lip_transmit_wrapper_pending_requests]
      exact pending_table_wf_set_state i _ hwf (by decide) (by decide)
    · exact ih s hwf

theorem request_thread_switch_wf (now : Nat) (s0 : dlb_lip) (l : request_thread_locals)
    (hwf0 : pending_table_wf s0.pending_requests) :
    pending_table_wf (request_thread_switch now s0 l).1.pending_requests := by
  unfold request_thread_switch
  split
  · split_ifs
    · simpa [lip_transmit_request_lip_support] using hwf0
    · exact hwf0
  · split_ifs <;> exact hwf0
  · rename_i hst
    split_ifs
    · exact thread_supported_loop_wf now _ s0 hst hwf0
    · exact hwf0
  · split_ifs
    · exact thread_unsupported_loop_wf _ s0 hwf0
    · exact hwf0

theorem request_thread_step_wf (now : Nat) (s : dlb_lip) (l : request_thread_locals)
    (hwf : pending_table_wf s.pending_requests) :
    pending_table_wf (dlb_lip_request_thread_step now s l).1.pending_requests := by
  unfold dlb_lip_request_thread_step
  lift_lets
  intro s0 r
  have hwf0 : pending_table_wf s0.pending_requests := hwf
  have hr : pending_table_wf r.1.pending_requests := request_thread_switch_wf now s0 l hwf0
  split_ifs
  · exact hwf0
  · exact hr
  · exact hr

theorem set_config_update_loop_pending (L : List Int) (s : dlb_lip) (ret : Int) :
    (set_config_update_loop L (s, ret)).1.pending_requests = s.pending_requests := by
  induction L generalizing s ret with
  | nil => rfl
  | cons a L ih =>
    unfold set_config_update_loop
    split_ifs
    · have := ih (lip_transmit_report_lip_support s a (lip_get_uuid s) true).1
        (lip_transmit_report_lip_support s a (lip_get_uuid s) true).2
      rw [this]; rfl
    · exact ih s ret

theorem set_config_check_pending (s1 : dlb_lip) (f : Bool) (p : dlb_lip_config_params) :
    (set_config_check s1 f p).1.pending_requests = s1.pending_requests := by
  unfold set_config_check
  lift_lets
  intros
  split_ifs <;> rfl

theorem set_config_apply_pending (s2 : dlb_lip) (up : List Int) (d u : Bool) :
    (set_config_apply s2 up d u).1.pending_requests = s2.pending_requests := by
  unfold set_config_apply
  lift_lets
  intro s3 s4
  have h4 : s4.pending_requests = s2.pending_requests := by
    simp only [s4]
    split_ifs <;> rfl
  split_ifs
  · rw [set_config_update_loop_pending]; exact h4
  · exact h4

theorem set_config_pending (s : dlb_lip) (p : Option dlb_lip_config_params) (f : Bool)
    (rm : Int) : (dlb_lip_set_config s p f rm).1.pending_requests = s.pending_requests := by
  unfold dlb_lip_set_config
  split_ifs with h0
  swap
  · rfl
  lift_lets
  intro s1 up r
  have h2 : r.1.pending_requests = s.pending_requests := by
    simp only [r]
    cases p with
    | none => rfl
    | some p => exact set_config_check_pending s1 f p
  split_ifs
  · rw [set_config_apply_pending]; exact h2
  · exact h2

theorem query_after_handler_pending (r : dlb_lip × List dlb_cec_message × Bool) (op : Nat) :
    (query_after_handler r op).1.pending_requests = r.1.pending_requests := by
  unfold query_after_handler
  lift_lets
  intro first t
  split_ifs <;> rfl

theorem get_av_latency_round_wf (now : Nat) (s : dlb_lip) (vf : dlb_lip_video_format)
    (af : dlb_lip_audio_format) (hwf : pending_table_wf s.pending_requests) :
    pending_table_wf (dlb_lip_get_av_latency_round now s vf af).1.pending_requests := by
  unfold dlb_lip_get_av_latency_round
  lift_lets
  intro v a command r
  split_ifs
  · exact hwf
  · exact hwf
  · show pending_table_wf r.1.pending_requests
    simp only [r]
    rw [query_after_handler_pending]
    exact request_effect_wf (request_av_effect now s command [] true) hwf (by simp [command])
      (by rw [show lip_get_command_opcode command = LIP_OPCODE_REQUEST_AV_LATENCY from
            build_request_av_latency_lip_opcode _ _ _ _]; exact Or.inr (Or.inl rfl))
      (fun _ => by
        rw [show lip_get_command_opcode command = LIP_OPCODE_REQUEST_AV_LATENCY from
            build_request_av_latency_lip_opcode _ _ _ _]; exact Or.inl rfl)

theorem get_audio_latency_round_wf (now : Nat) (s : dlb_lip) (af : dlb_lip_audio_format)
    (hwf : pending_table_wf s.pending_requests) :
    pending_table_wf (dlb_lip_get_audio_latency_round now s af).1.pending_requests := by
  unfold dlb_lip_get_audio_latency_round
  lift_lets
  intro a command r
  split_ifs
  · exact hwf
  · exact hwf
  · show pending_table_wf r.1.pending_requests
    simp only [r]
    rw [query_after_handler_pending]
    exact request_effect_wf (request_audio_effect now s command [] true) hwf (by simp [command])
      (by rw [show lip_get_command_opcode command = LIP_OPCODE_REQUEST_AUDIO_LATENCY from
            build_request_audio_latency_lip_opcode _ _ _]; exact Or.inr (Or.inr (Or.inl rfl)))
      (fun _ => by
        rw [show lip_get_command_opcode command = LIP_OPCODE_REQUEST_AUDIO_LATENCY from
            build_request_audio_latency_lip_opcode _ _ _]; exact Or.inr (Or.inl rfl))

theorem get_video_latency_round_wf (now : Nat) (s : dlb_lip) (vf : dlb_lip_video_format)
    (hwf : pending_table_wf s.pending_requests) :
    pending_table_wf (dlb_lip_get_video_latency_round now s vf).1.pending_requests := by
  unfold dlb_lip_get_video_latency_round
  lift_lets
  intro v command r
  split_ifs
  · exact hwf
  · exact hwf
  · show pending_table_wf r.1.pending_requests
    simp only [r]
    rw [query_after_handler_pending]
    exact request_effect_wf (request_video_effect now s command [] true) hwf (by simp [command])
      (by rw [show lip_get_command_opcode command = LIP_OPCODE_REQUEST_VIDEO_LATENCY from
            build_request_video_latency_lip_opcode _ _ _]; exact Or.inr (Or.inr (Or.inr rfl)))
      (fun _ => by
        rw [show lip_get_command_opcode command = LIP_OPCODE_REQUEST_VIDEO_LATENCY from
            build_request_video_latency_lip_opcode _ _ _]; exact Or.inr (Or.inr rfl))

theorem query_wait_done_wf (s : dlb_lip) (hwf : pending_table_wf s.pending_requests) :
    pending_table_wf (dlb_lip_query_wait_done s).1.pending_requests :=
  pending_table_wf_set_state _ _ hwf (by decide) (by decide)

theorem pending_table_wf_of_handled (T : Int → dlb_lip_pending_message)
    (h : ∀ i ∈ slot_indices, (T i).state = LIP_MESSAGE_HANDLED) : pending_table_wf T := by
  refine ⟨?_, ?_⟩
  · intro i hi j _ hs _
    rw [h i hi] at hs
    exact absurd hs (by decide)
  · intro i hi
    refine ⟨?_, ?_⟩
    · intro hs
      rw [h i hi] at hs
      exact absurd hs (by decide)
    · intro hs
      rw [h i hi] at hs
      exact absurd hs (by decide)

theorem open_wf (p : dlb_lip_config_params) (cb : dlb_lip_callbacks) (bus : dlb_cec_bus)
    (now : Nat) (s : dlb_lip) (h : dlb_lip_open p cb bus now = some s) :
    pending_table_wf s.pending_requests := by
  unfold dlb_lip_open at h
  split_ifs at h
  simp only [Option.some.injEq] at h
  subst h
  apply pending_table_wf_of_handled
  intro i hi
  have := (mem_slot_indices i).1 hi
  simp only [MAX_UPSTREAM_DEVICES_COUNT]
  rw [if_pos (by constructor <;> omega)]

/-! ## The invariant holds on every observable core -/

theorem step_wf (s s' : dlb_lip) (h : Step s s')
    (hwf : pending_table_wf s.pending_requests) : pending_table_wf s'.pending_requests := by
  cases h with
  | received fuel now _ m r hr =>
    obtain ⟨r', hr', hwf'⟩ := recv_wf fuel now s m hwf
    rw [hr] at hr'
    cases hr'
    exact hwf'
  | timer_fired fuel now _ id lock r hr =>
    obtain ⟨r', hr', hwf'⟩ := timer_wf fuel now s id lock hwf
    rw [hr] at hr'
    cases hr'
    exact hwf'
  | worker now _ l => exact request_thread_step_wf now s l hwf
  | set_config _ p f rm => rw [set_config_pending]; exact hwf
  | get_av_latency now _ vf af => exact get_av_latency_round_wf now s vf af hwf
  | get_audio_latency now _ af => exact get_audio_latency_round_wf now s af hwf
  | get_video_latency now _ vf => exact get_video_latency_round_wf now s vf hwf
  | query_wait_done => exact query_wait_done_wf s hwf

theorem reachable_wf (s : dlb_lip) (h : Reachable s) : pending_table_wf s.pending_requests := by
  induction h with
  | opened p cb bus now s hs => exact open_wf p cb bus now s hs
  | step s s' _ hstep ih => exact step_wf s s' hstep ih

theorem filter_length_le_one {α : Type} (p : α → Bool) (l : List α) (hnd : l.Nodup)
    (h : ∀ i ∈ l, ∀ j ∈ l, p i = true → p j = true → i = j) : (l.filter p).length ≤ 1 := by
  have hnd' : (l.filter p).Nodup := hnd.filter p
  match hf : l.filter p with
  | [] => simp
  | [_] => simp
  | a :: b :: rest =>
    exfalso
    rw [hf] at hnd'
    have ha : a ∈ l.filter p := by rw [hf]; simp
    have hb : b ∈ l.filter p := by rw [hf]; simp
    rw [List.mem_filter] at ha hb
    have := h a ha.1 b hb.1 ha.2 hb.2
    rw [List.nodup_cons] at hnd'
    exact hnd'.1 (by rw [this]; simp)

theorem sent_count_le_one (s : dlb_lip) (hwf : pending_table_wf s.pending_requests) :
    sent_count s ≤ 1 := by
  unfold sent_count
  apply filter_length_le_one
  · rw [slot_indices_eq]; decide
  · intro i hi j hj h1 h2
    exact hwf.1 i hi j hj (of_decide_eq_true h1) (of_decide_eq_true h2)

theorem reachable_core_of (fuel now : Nat) (s : dlb_lip) (m : dlb_cec_message)
    (h : Reachable s) : Reachable (core_of (lip_cec_cmd_received (fuel + 2) now s m) s) := by
  cases hr : lip_cec_cmd_received (fuel + 2) now s m with
  | none => exact h
  | some r => exact Reachable.step s r.1 h (Step.received fuel now s m r hr)

theorem S2_opened_reachable : Reachable S2_opened :=
  Reachable.opened S2_config scenario_callbacks scenario_bus 0 S2_opened rfl

theorem S2_in_flight_reachable : Reachable S2_in_flight :=
  reachable_core_of 0 20 _ _ (reachable_core_of 0 10 _ _
    (Reachable.step _ _ S2_opened_reachable (Step.worker 0 S2_opened ⟨0, false⟩)))


/-! ## The dispatcher on a frame addressed to the node -/

theorem dispatch_addressed (recv : dlb_lip → dlb_cec_message → Option (dlb_lip × Int))
    (now : Nat) (s : dlb_lip) (m : dlb_cec_message) (op : Nat) (h : addressed_to s m op) :
    lip_cec_cmd_dispatch recv now s m =
      if lip_can_handle_opcode_in_current_state s op = true then
        lip_opcode_switch recv now s m op
      else some (s, [abort_frame s m DLB_CEC_ABORT_REASON_NOT_IN_CORRECT_MODE_TO_RESPOND],
        true, 1) := by
  obtain ⟨hop, hl, hk, hd, hb, hi, hlen⟩ := h
  have hv := vendor_id_of_known_opcode m (by rw [hl]; exact hk)
  unfold lip_cec_cmd_dispatch
  lift_lets
  intro own lip_opcode
  have hl' : lip_opcode = op := hl
  clear_value lip_opcode
  subst hl'
  rw [if_neg (by rw [hop]; decide), if_pos hop, if_pos hv, if_neg hk,
    if_neg (by intro h; rcases h with h | h; exact hb h; exact hi h),
    if_neg (by intro h; exact h hd), if_neg (by omega)]
  by_cases c : lip_can_handle_opcode_in_current_state s lip_opcode = true
  · rw [if_neg (by simp [c]), if_pos c]
  · rw [if_pos (by simpa using c), if_neg c]
    rfl

theorem received_addressed (fuel now : Nat) (s : dlb_lip) (m : dlb_cec_message) (op : Nat)
    (h : addressed_to s m op) :
    lip_cec_cmd_received (fuel + 1) now s m =
      if lip_can_handle_opcode_in_current_state s op = true then
        (lip_opcode_switch (lip_cec_cmd_received fuel now) now s m op).map
          (fun r => (if r.2.2.1 then transmit_responses r.1 r.2.1 else r.1, r.2.2.2))
      else some (transmit_responses s
        [abort_frame s m DLB_CEC_ABORT_REASON_NOT_IN_CORRECT_MODE_TO_RESPOND], 1) := by
  show lip_cec_cmd_received_body (lip_cec_cmd_received fuel now) now s m = _
  unfold lip_cec_cmd_received_body
  rw [dispatch_addressed _ now s m op h]
  split_ifs <;> rfl

theorem can_handle_supported (s : dlb_lip) (op : Nat) (hst : s.state = LIP_SUPPORTED)
    (hk : op = LIP_OPCODE_REQUEST_LIP_SUPPORT ∨ op = LIP_OPCODE_UPDATE_UUID
      ∨ op = LIP_OPCODE_REPORT_LIP_SUPPORT ∨ op = LIP_OPCODE_REQUEST_AV_LATENCY
      ∨ op = LIP_OPCODE_REPORT_AV_LATENCY ∨ op = LIP_OPCODE_REQUEST_AUDIO_LATENCY
      ∨ op = LIP_OPCODE_REPORT_AUDIO_LATENCY ∨ op = LIP_OPCODE_REQUEST_VIDEO_LATENCY
      ∨ op = LIP_OPCODE_REPORT_VIDEO_LATENCY) :
    lip_can_handle_opcode_in_current_state s op = true := by
  unfold lip_can_handle_opcode_in_current_state
  rw [hst]
  rcases hk with h | h | h | h | h | h | h | h | h <;> subst h <;> decide

theorem received_request_av (fuel now : Nat) (s : dlb_lip) (m : dlb_cec_message)
    (h : addressed_to s m LIP_OPCODE_REQUEST_AV_LATENCY) (hst : s.state = LIP_SUPPORTED) :
    lip_cec_cmd_received (fuel + 1) now s m =
      some (finish_received (lip_handle_request_av_latency now s m [] false)) := by
  rw [received_addressed fuel now s m _ h, if_pos (can_handle_supported s _ hst (by decide))]
  rfl

theorem received_request_audio (fuel now : Nat) (s : dlb_lip) (m : dlb_cec_message)
    (h : addressed_to s m LIP_OPCODE_REQUEST_AUDIO_LATENCY) (hst : s.state = LIP_SUPPORTED) :
    lip_cec_cmd_received (fuel + 1) now s m =
      some (finish_received (lip_handle_request_audio_latency now s m [] false)) := by
  rw [received_addressed fuel now s m _ h, if_pos (can_handle_supported s _ hst (by decide))]
  rfl

theorem received_request_video (fuel now : Nat) (s : dlb_lip) (m : dlb_cec_message)
    (h : addressed_to s m LIP_OPCODE_REQUEST_VIDEO_LATENCY) (hst : s.state = LIP_SUPPORTED) :
    lip_cec_cmd_received (fuel + 1) now s m =
      some (finish_received (lip_handle_request_video_latency now s m [] false)) := by
  rw [received_addressed fuel now s m _ h, if_pos (can_handle_supported s _ hst (by decide))]
  rfl

theorem received_report_av (fuel now : Nat) (s : dlb_lip) (m : dlb_cec_message)
    (h : addressed_to s m LIP_OPCODE_REPORT_AV_LATENCY) (hst : s.state = LIP_SUPPORTED) :
    lip_cec_cmd_received (fuel + 1) now s m =
      (lip_handle_report_av_latency (lip_cec_cmd_received fuel now) now s m []).map
        finish_received := by
  rw [received_addressed fuel now s m _ h, if_pos (can_handle_supported s _ hst (by decide))]
  show Option.map _ (Option.map _ _) = _
  rw [Option.map_map]
  rfl

theorem received_report_audio (fuel now : Nat) (s : dlb_lip) (m : dlb_cec_message)
    (h : addressed_to s m LIP_OPCODE_REPORT_AUDIO_LATENCY) (hst : s.state = LIP_SUPPORTED) :
    lip_cec_cmd_received (fuel + 1) now s m =
      (lip_handle_report_audio_latency (lip_cec_cmd_received fuel now) now s m []).map
        finish_received := by
  rw [received_addressed fuel now s m _ h, if_pos (can_handle_supported s _ hst (by decide))]
  show Option.map _ (Option.map _ _) = _
  rw [Option.map_map]
  rfl

theorem received_report_video (fuel now : Nat) (s : dlb_lip) (m : dlb_cec_message)
    (h : addressed_to s m LIP_OPCODE_REPORT_VIDEO_LATENCY) (hst : s.state = LIP_SUPPORTED) :
    lip_cec_cmd_received (fuel + 1) now s m =
      (lip_handle_report_video_latency (lip_cec_cmd_received fuel now) now s m []).map
        finish_received := by
  rw [received_addressed fuel now s m _ h, if_pos (can_handle_supported s _ hst (by decide))]
  show Option.map _ (Option.map _ _) = _
  rw [Option.map_map]
  rfl

/-! ## The request handlers, branch by branch -/

theorem request_av_hit (now : Nat) (s : dlb_lip) (m : dlb_cec_message)
    (rs : List dlb_cec_message) (force : Bool)
    (ha : lip_is_audio_format_valid (decode_audio_format m 6) = true)
    (hv : lip_is_video_format_valid (decode_video_format m) = true)
    (hvh : (request_av_lookups s m force).1.1 = true)
    (hah : (request_av_lookups s m force).2.1 = true) :
    lip_handle_request_av_latency now s m rs force =
      (s, rs ++ [dlb_lip_build_report_av_latency_cmd empty_msg s.cec_bus.logical_address
        m.initiator (request_av_lookups s m force).1.2 (request_av_lookups s m force).2.2],
        true) := by
  unfold lip_handle_request_av_latency
  lift_lets
  intro vf af vr ar dp askv aska vt at_ afd v a vh ah s1 s2 s2' s3
  have ev : v = (request_av_lookups s m force).1 := rfl
  have ea : a = (request_av_lookups s m force).2 := rfl
  clear_value v a
  subst ev ea
  rw [if_neg (by simp [af, ha]), if_neg (by simp [vf, hv]), if_pos ⟨hvh, hah⟩]

theorem put_in_flight_av (s : dlb_lip) (m : dlb_cec_message) (now : Nat)
    (vf : dlb_lip_video_format) (af : dlb_lip_audio_format) :
    lip_reschedule_timer
      { (set_slot_state (store_pending s m.initiator m now) m.initiator LIP_MESSAGE_SENT) with
        req_video_format := vf, req_audio_format := af } now
    = put_in_flight { s with req_video_format := vf, req_audio_format := af } m now := rfl

/-- The downstream query of `lip_handle_request_av_latency`: AV if both lookups miss,
else the dimension that misses. -/
theorem request_av_sent (now : Nat) (s : dlb_lip) (m : dlb_cec_message)
    (rs : List dlb_cec_message) (force : Bool)
    (ha : lip_is_audio_format_valid (decode_audio_format m 6) = true)
    (hv : lip_is_video_format_valid (decode_video_format m) = true)
    (hmiss : ¬ ((request_av_lookups s m force).1.1 = true
      ∧ (request_av_lookups s m force).2.1 = true))
    (hno : ∀ j ∈ slot_indices, j ≠ m.initiator →
      (s.pending_requests j).state ≠ LIP_MESSAGE_SENT) (hu : m.initiator ∈ slot_indices) :
    lip_handle_request_av_latency now s m rs force =
      (put_in_flight { s with req_video_format := decode_video_format m,
                              req_audio_format := decode_audio_format m 6 } m now,
       rs ++ [if (request_av_lookups s m force).1.1 = false
                ∧ (request_av_lookups s m force).2.1 = false then
              dlb_lip_build_request_av_latency_ndebug empty_msg s.cec_bus.logical_address
                s.downstream_device_cfg.logical_addr (decode_video_format m)
                (request_audio_format_downstream s (decode_audio_format m 6) force)
            else if (request_av_lookups s m force).1.1 = false then
              dlb_lip_build_request_video_latency_ndebug empty_msg s.cec_bus.logical_address
                s.downstream_device_cfg.logical_addr (decode_video_format m)
            else
              dlb_lip_build_request_audio_latency empty_msg s.cec_bus.logical_address
                s.downstream_device_cfg.logical_addr
                (request_audio_format_downstream s (decode_audio_format m 6) force)],
       true) := by
  have hany : lip_is_any_pending_request_sent (store_pending s m.initiator m now) = false := by
    unfold lip_is_any_pending_request_sent
    rw [List.any_eq_false]
    intro j hj
    simp only [store_pending_pending_requests, decide_eq_true_eq]
    by_cases hju : j = m.initiator
    · subst hju; simp
    · rw [Function.update_noteq hju]; exact hno j hj hju
  unfold lip_handle_request_av_latency
  lift_lets
  intro vf af vr ar dp askv aska vt at_ afd v a vh ah s1 s2 s2' s3
  have ev : v = (request_av_lookups s m force).1 := rfl
  have ea : a = (request_av_lookups s m force).2 := rfl
  have e3 : s3 = put_in_flight
      { s with req_video_format := decode_video_format m,
               req_audio_format := decode_audio_format m 6 } m now := rfl
  have eafd : afd = request_audio_format_downstream s (decode_audio_format m 6) force := rfl
  clear_value v a s3 afd
  subst ev ea e3 eafd
  rw [if_neg (by simp [af, ha]), if_neg (by simp [vf, hv]), if_neg hmiss,
    if_pos (by simp [s1, hany])]
  cases h1 : (request_av_lookups s m force).1.1 <;> cases h2 : (request_av_lookups s m force).2.1
  · simp [vh, ah, h1, h2, put_in_flight, vf]
  · simp [vh, ah, h1, h2, put_in_flight, vf]
  · simp [vh, ah, h1, h2, put_in_flight]
  · exact absurd ⟨h1, h2⟩ hmiss

theorem request_av_queued (now : Nat) (s : dlb_lip) (m : dlb_cec_message)
    (rs : List dlb_cec_message) (force : Bool)
    (ha : lip_is_audio_format_valid (decode_audio_format m 6) = true)
    (hv : lip_is_video_format_valid (decode_video_format m) = true)
    (hmiss : ¬ ((request_av_lookups s m force).1.1 = true
      ∧ (request_av_lookups s m force).2.1 = true))
    (j : Int) (hj : j ∈ slot_indices) (hju : j ≠ m.initiator)
    (hsent : (s.pending_requests j).state = LIP_MESSAGE_SENT) :
    lip_handle_request_av_latency now s m rs force =
      (store_pending s m.initiator m now, rs, false) := by
  have hany : lip_is_any_pending_request_sent (store_pending s m.initiator m now) = true := by
    unfold lip_is_any_pending_request_sent
    rw [List.any_eq_true]
    refine ⟨j, hj, ?_⟩
    simp only [store_pending_pending_requests, decide_eq_true_eq]
    rw [Function.update_noteq hju]; exact hsent
  unfold lip_handle_request_av_latency
  lift_lets
  intro vf af vr ar dp askv aska vt at_ afd v a vh ah s1 s2 s2' s3
  have ev : v = (request_av_lookups s m force).1 := rfl
  have ea : a = (request_av_lookups s m force).2 := rfl
  clear_value v a s3 afd
  subst ev ea
  rw [if_neg (by simp [af, ha]), if_neg (by simp [vf, hv]), if_neg hmiss,
    if_neg (by simp [s1, hany])]

theorem any_sent_store_true (s : dlb_lip) (m : dlb_cec_message) (now : Nat)
    (j : Int) (hj : j ∈ slot_indices) (hju : j ≠ m.initiator)
    (hsent : (s.pending_requests j).state = LIP_MESSAGE_SENT) :
    lip_is_any_pending_request_sent (store_pending s m.initiator m now) = true := by
  unfold lip_is_any_pending_request_sent
  rw [List.any_eq_true]
  refine ⟨j, hj, ?_⟩
  simp only [store_pending_pending_requests, decide_eq_true_eq]
  rw [Function.update_noteq hju]; exact hsent

theorem request_audio_hit (now : Nat) (s : dlb_lip) (m : dlb_cec_message)
    (rs : List dlb_cec_message) (force : Bool)
    (ha : lip_is_audio_format_valid (decode_audio_format m 4) = true)
    (hah : (request_audio_lookup s m force).1 = true) :
    lip_handle_request_audio_latency now s m rs force =
      (s, rs ++ [dlb_lip_build_report_audio_latency_cmd empty_msg s.cec_bus.logical_address
        m.initiator (request_audio_lookup s m force).2], true) := by
  unfold lip_handle_request_audio_latency
  lift_lets
  intro af ar dp ask at_ afd a s0 s1 s3
  have ea : a = request_audio_lookup s m force := rfl
  clear_value a
  subst ea
  rw [if_neg (by simp [af, ha]), if_pos hah]

theorem request_audio_queued (now : Nat) (s : dlb_lip) (m : dlb_cec_message)
    (rs : List dlb_cec_message) (force : Bool)
    (ha : lip_is_audio_format_valid (decode_audio_format m 4) = true)
    (hmiss : (request_audio_lookup s m force).1 = false)
    (j : Int) (hj : j ∈ slot_indices) (hju : j ≠ m.initiator)
    (hsent : (s.pending_requests j).state = LIP_MESSAGE_SENT) :
    lip_handle_request_audio_latency now s m rs force =
      (store_pending { s with req_audio_format := decode_audio_format m 4 } m.initiator m now,
       rs, false) := by
  have hany := any_sent_store_true { s with req_audio_format := decode_audio_format m 4 } m now
    j hj hju hsent
  unfold lip_handle_request_audio_latency
  lift_lets
  intro af ar dp ask at_ afd a s0 s1 s3
  have ea : a = request_audio_lookup s m force := rfl
  clear_value a afd
  subst ea
  rw [if_neg (by simp [af, ha]), if_neg (by simp [hmiss]), if_neg (by simp [s1, s0, af, hany])]

theorem request_video_hit (now : Nat) (s : dlb_lip) (m : dlb_cec_message)
    (rs : List dlb_cec_message) (force : Bool)
    (hv : lip_is_video_format_valid (decode_video_format m) = true)
    (hvh : (request_video_lookup s m force).1 = true) :
    lip_handle_request_video_latency now s m rs force =
      ({ s with req_video_format := decode_video_format m },
       rs ++ [dlb_lip_build_report_video_latency_cmd empty_msg s.cec_bus.logical_address
        m.initiator (request_video_lookup s m force).2], true) := by
  unfold lip_handle_request_video_latency
  lift_lets
  intro vf vr dp ask vt s0 v s1 s3
  have ev : v = request_video_lookup s m force := rfl
  clear_value v
  subst ev
  rw [if_neg (by simp [vf, hv]), if_pos hvh]

theorem request_video_queued (now : Nat) (s : dlb_lip) (m : dlb_cec_message)
    (rs : List dlb_cec_message) (force : Bool)
    (hv : lip_is_video_format_valid (decode_video_format m) = true)
    (hmiss : (request_video_lookup s m force).1 = false)
    (j : Int) (hj : j ∈ slot_indices) (hju : j ≠ m.initiator)
    (hsent : (s.pending_requests j).state = LIP_MESSAGE_SENT) :
    lip_handle_request_video_latency now s m rs force =
      (store_pending { s with req_video_format := decode_video_format m } m.initiator m now,
       rs, false) := by
  have hany := any_sent_store_true { s with req_video_format := decode_video_format m } m now
    j hj hju hsent
  unfold lip_handle_request_video_latency
  lift_lets
  intro vf vr dp ask vt s0 v s1 s3
  have ev : v = request_video_lookup s m force := rfl
  clear_value v
  subst ev
  rw [if_neg (by simp [vf, hv]), if_neg (by simp [hmiss]), if_neg (by simp [s1, s0, vf, hany])]

@[simp] theorem put_in_flight_tx (s : dlb_lip) (m : dlb_cec_message) (now : Nat) :
    (put_in_flight s m now).tx = s.tx := by
  simp [put_in_flight]

@[simp] theorem put_in_flight_pending_requests (s : dlb_lip) (m : dlb_cec_message) (now : Nat) :
    (put_in_flight s m now).pending_requests =
      Function.update s.pending_requests m.initiator
        { msg := m, state := LIP_MESSAGE_SENT,
          expire_time_ms := (now + lip_get_timeout_value_ms s) % 2 ^ 64 } := by
  simp [put_in_flight]

@[simp] theorem put_in_flight_cec_bus (s : dlb_lip) (m : dlb_cec_message) (now : Nat) :
    (put_in_flight s m now).cec_bus = s.cec_bus := by
  simp [put_in_flight]

@[simp] theorem put_in_flight_config_params (s : dlb_lip) (m : dlb_cec_message) (now : Nat) :
    (put_in_flight s m now).config_params = s.config_params := by
  simp [put_in_flight]

@[simp] theorem put_in_flight_downstream_device_cfg (s : dlb_lip) (m : dlb_cec_message)
    (now : Nat) : (put_in_flight s m now).downstream_device_cfg = s.downstream_device_cfg := by
  simp [put_in_flight]

@[simp] theorem put_in_flight_state (s : dlb_lip) (m : dlb_cec_message) (now : Nat) :
    (put_in_flight s m now).state = s.state := by
  simp [put_in_flight]

@[simp] theorem put_in_flight_add_iec (s : dlb_lip) (m : dlb_cec_message) (now : Nat) :
    (put_in_flight s m now).add_iec_decoding_latency = s.add_iec_decoding_latency := by
  simp [put_in_flight]

@[simp] theorem put_in_flight_req_video_format (s : dlb_lip) (m : dlb_cec_message) (now : Nat) :
    (put_in_flight s m now).req_video_format = s.req_video_format := by
  simp [put_in_flight]

@[simp] theorem put_in_flight_req_audio_format (s : dlb_lip) (m : dlb_cec_message) (now : Nat) :
    (put_in_flight s m now).req_audio_format = s.req_audio_format := by
  simp [put_in_flight]

@[simp] theorem put_in_flight_callbacks (s : dlb_lip) (m : dlb_cec_message) (now : Nat) :
    (put_in_flight s m now).callbacks = s.callbacks := by
  simp [put_in_flight]

@[simp] theorem put_in_flight_is_running (s : dlb_lip) (m : dlb_cec_message) (now : Nat) :
    (put_in_flight s m now).is_running = s.is_running := by
  simp [put_in_flight]

@[simp] theorem put_in_flight_opcode_of_last_cmd_sent (s : dlb_lip) (m : dlb_cec_message)
    (now : Nat) :
    (put_in_flight s m now).opcode_of_last_cmd_sent = s.opcode_of_last_cmd_sent := by
  simp [put_in_flight]

theorem request_av_sent_query (now : Nat) (s : dlb_lip) (m : dlb_cec_message)
    (rs : List dlb_cec_message) (force : Bool)
    (ha : lip_is_audio_format_valid (decode_audio_format m 6) = true)
    (hv : lip_is_video_format_valid (decode_video_format m) = true)
    (hmiss : ¬ ((request_av_lookups s m force).1.1 = true
      ∧ (request_av_lookups s m force).2.1 = true))
    (hno : ∀ j ∈ slot_indices, j ≠ m.initiator →
      (s.pending_requests j).state ≠ LIP_MESSAGE_SENT) (hu : m.initiator ∈ slot_indices) :
    lip_handle_request_av_latency now s m rs force =
      (put_in_flight { s with req_video_format := decode_video_format m,
                              req_audio_format := decode_audio_format m 6 } m now,
       rs ++ [downstream_av_query s m force], true) :=
  request_av_sent now s m rs force ha hv hmiss hno hu

theorem downstream_av_query_header (s : dlb_lip) (m : dlb_cec_message) (force : Bool) :
    (downstream_av_query s m force).opcode = DLB_CEC_OPCODE_VENDOR_COMMAND_WITH_ID
      ∧ (downstream_av_query s m force).initiator = s.cec_bus.logical_address
      ∧ (downstream_av_query s m force).destination = s.downstream_device_cfg.logical_addr := by
  unfold downstream_av_query
  split_ifs <;> simp

/-! ## Latency sums and lookups -/

theorem lip_sum_latencies_eq (a b : Nat) (ha : a ≤ 255) (hb : b ≤ 255) :
    lip_sum_latencies a b =
      (if a = 255 ∨ b = 255 then 255 else if a + b ≥ 255 then 254 else a + b) := by
  unfold lip_sum_latencies lip_validate_latency
  simp only [LIP_INVALID_LATENCY]
  split_ifs <;> simp_all <;> omega

theorem lip_sum_latencies_le (a b : Int) : lip_sum_latencies a b ≤ 255 := by
  unfold lip_sum_latencies
  have h : ∀ z : Int, (z % 256).toNat ≤ 255 := by intro z; omega
  exact h _

theorem lip_sum_latencies_zero (x : Nat) (hx : x ≤ 255) : lip_sum_latencies x 0 = x := by
  have h := lip_sum_latencies_eq x 0 hx (by omega)
  simp only [Nat.cast_zero] at h
  rw [h]
  by_cases hx255 : x = 255
  · simp [hx255]
  · have : ¬ x ≥ 255 := by omega
    simp [hx255, this]

theorem lip_sum_latencies_idem (x y : Int) :
    lip_sum_latencies (lip_sum_latencies x y) 0 = lip_sum_latencies x y :=
  lip_sum_latencies_zero _ (lip_sum_latencies_le x y)

theorem request_latency_type_sink (s : dlb_lip) (flag : Nat)
    (hd : s.downstream_device_cfg.logical_addr = DLB_LOGICAL_ADDR_UNKNOWN) :
    request_latency_type s flag false = LIP_OWN_LATENCY := by
  unfold request_latency_type
  rw [hd]
  simp

/-! ## Lookups, the cache and the latency types -/

theorem audio_lookup_own (s : dlb_lip) (af afd : dlb_lip_audio_format) :
    (lip_get_audio_latency_from_cache s af afd LIP_OWN_LATENCY).1 = true := rfl

theorem valid_video_cache_params (vf : dlb_lip_video_format)
    (h : lip_is_video_format_valid vf = true) : dlb_cache_validate_video_params_ndebug vf = true := by
  unfold lip_is_video_format_valid at h
  split_ifs at h with h1 h2 h3
  unfold dlb_cache_validate_video_params_ndebug
  simp only [Bool.and_eq_true, decide_eq_true_eq]
  refine ⟨⟨by omega, by omega⟩, by omega⟩

theorem valid_audio_cache_params (af : dlb_lip_audio_format)
    (h : lip_is_audio_format_valid af = true) :
    dlb_cache_validate_audio_params af.codec af.subtype af.ext = true := by
  unfold lip_is_audio_format_valid at h
  split_ifs at h with h1 h2 h3
  unfold dlb_cache_validate_audio_params
  simp only [Bool.and_eq_true, decide_eq_true_eq]
  refine ⟨⟨by omega, by omega⟩, by omega⟩

/-- After a store for a valid video format, the cache holds the stored byte for it. -/
theorem cache_get_set_video (c : dlb_latency_cache) (vf : dlb_lip_video_format) (l d : Nat)
    (he : c.cache_enabled = true) (hv : dlb_cache_validate_video_params_ndebug vf = true) :
    dlb_cache_get_video_latency_ndebug (dlb_cache_set_video_latency_ndebug c vf l) vf d = (true, l % 256) := by
  unfold dlb_cache_set_video_latency_ndebug
  rw [if_pos hv]
  unfold dlb_cache_get_video_latency_ndebug
  simp [he, hv]

theorem cache_get_set_audio (c : dlb_latency_cache) (af : dlb_lip_audio_format) (l d : Nat)
    (he : c.cache_enabled = true)
    (hv : dlb_cache_validate_audio_params af.codec af.subtype af.ext = true) :
    dlb_cache_get_audio_latency (dlb_cache_set_audio_latency c af l) af d = (true, l % 256) := by
  unfold dlb_cache_set_audio_latency
  rw [if_pos hv]
  unfold dlb_cache_get_audio_latency
  simp [he, hv]

/-- A store of a video latency does not change the audio part of the cache. -/
theorem cache_get_audio_set_video (c : dlb_latency_cache) (vf : dlb_lip_video_format)
    (af : dlb_lip_audio_format) (l d : Nat) :
    dlb_cache_get_audio_latency (dlb_cache_set_video_latency_ndebug c vf l) af d
      = dlb_cache_get_audio_latency c af d := by
  unfold dlb_cache_set_video_latency_ndebug
  split_ifs <;> rfl

theorem cache_get_video_set_audio (c : dlb_latency_cache) (vf : dlb_lip_video_format)
    (af : dlb_lip_audio_format) (l d : Nat) :
    dlb_cache_get_video_latency_ndebug (dlb_cache_set_audio_latency c af l) vf d
      = dlb_cache_get_video_latency_ndebug c vf d := by
  unfold dlb_cache_set_audio_latency
  split_ifs <;> rfl

theorem cache_enabled_set_video (c : dlb_latency_cache) (vf : dlb_lip_video_format) (l : Nat) :
    (dlb_cache_set_video_latency_ndebug c vf l).cache_enabled = c.cache_enabled := by
  unfold dlb_cache_set_video_latency_ndebug
  split_ifs <;> rfl

theorem cache_enabled_set_audio (c : dlb_latency_cache) (af : dlb_lip_audio_format) (l : Nat) :
    (dlb_cache_set_audio_latency c af l).cache_enabled = c.cache_enabled := by
  unfold dlb_cache_set_audio_latency
  split_ifs <;> rfl

/-! ## The report handlers on a request in flight -/

theorem sent_slot_initiator (s : dlb_lip) (hwf : pending_table_wf s.pending_requests)
    (u : Int) (hu : u ∈ slot_indices) (hs : (s.pending_requests u).state = LIP_MESSAGE_SENT) :
    (s.pending_requests u).msg.initiator = u :=
  ((hwf.2 u hu).2 hs).2.1

theorem complete_with_reply_peer (recv : dlb_lip → dlb_cec_message → Option (dlb_lip × Int))
    (now : Nat) (s : dlb_lip) (u : Int) (reply : dlb_cec_message)
    (rs : List dlb_cec_message)
    (h : (s.pending_requests u).msg.initiator ≠ s.cec_bus.logical_address) :
    complete_with_reply recv now s u reply rs =
      (lip_reply_for_pending_cmd_received recv now s u LIP_MESSAGE_HANDLED).map
        (fun s2 => (s2, rs ++ [reply], true)) := by
  unfold complete_with_reply
  rw [if_pos h]

theorem report_av_on_request (recv : dlb_lip → dlb_cec_message → Option (dlb_lip × Int))
    (now : Nat) (s : dlb_lip) (R : dlb_cec_message) (rs : List dlb_cec_message) (u : Int)
    (hwf : pending_table_wf s.pending_requests) (hu : u ∈ slot_indices)
    (hs : (s.pending_requests u).state = LIP_MESSAGE_SENT)
    (hown : u ≠ s.cec_bus.logical_address) :
    lip_handle_report_av_latency recv now s R rs =
      (lip_reply_for_pending_cmd_received recv now
          (cache_store_audio (cache_store_video s (R.byte 4)) (R.byte 5)) u
          LIP_MESSAGE_HANDLED).map
        (fun s2 => (s2, rs ++ [build_av_reply
          (cache_store_audio (cache_store_video s (R.byte 4)) (R.byte 5)) u], true)) := by
  have hsrc := addr_of_sent s hwf u hu hs
  have hini := sent_slot_initiator s hwf u hu hs
  have hlat := ((hwf.2 u hu).2 hs).2.2
  unfold lip_handle_report_av_latency
  lift_lets
  intro vin ain src dc s1 opcode
  have e1 : s1 = cache_store_audio (cache_store_video s (R.byte 4)) (R.byte 5) := rfl
  have e2 : src = u := hsrc
  have e3 : opcode = lip_get_command_opcode (s.pending_requests u).msg := by
    simp only [opcode, e2, s1]
  clear_value s1 src opcode
  subst e1 e2 e3
  have hu1 : src ≠ DLB_LOGICAL_ADDR_UNKNOWN := by
    have := (mem_slot_indices src).1 hu
    simp only [DLB_LOGICAL_ADDR_UNKNOWN]
    omega
  rw [if_pos hu1, if_pos (by
    unfold is_latency_request_opcode at hlat
    rcases hlat with h | h | h
    · exact Or.inr (Or.inr h)
    · exact Or.inr (Or.inl h)
    · exact Or.inl h)]
  exact complete_with_reply_peer recv now _ src _ rs (by
    show (s.pending_requests src).msg.initiator ≠ s.cec_bus.logical_address
    rw [hini]; exact hown)

theorem report_audio_on_request (recv : dlb_lip → dlb_cec_message → Option (dlb_lip × Int))
    (now : Nat) (s : dlb_lip) (R : dlb_cec_message) (rs : List dlb_cec_message) (u : Int)
    (hwf : pending_table_wf s.pending_requests) (hu : u ∈ slot_indices)
    (hs : (s.pending_requests u).state = LIP_MESSAGE_SENT)
    (hown : u ≠ s.cec_bus.logical_address)
    (hop : lip_get_command_opcode (s.pending_requests u).msg ≠ LIP_OPCODE_REQUEST_VIDEO_LATENCY) :
    lip_handle_report_audio_latency recv now s R rs =
      (lip_reply_for_pending_cmd_received recv now (cache_store_audio s (R.byte 4)) u
          LIP_MESSAGE_HANDLED).map
        (fun s2 => (s2, rs ++ [
          if lip_get_command_opcode (s.pending_requests u).msg
              = LIP_OPCODE_REQUEST_AUDIO_LATENCY
          then build_audio_reply (cache_store_audio s (R.byte 4)) u
          else build_av_reply (cache_store_audio s (R.byte 4)) u], true)) := by
  have hsrc := addr_of_sent s hwf u hu hs
  have hini := sent_slot_initiator s hwf u hu hs
  have hlat := ((hwf.2 u hu).2 hs).2.2
  unfold lip_handle_report_audio_latency
  lift_lets
  intro src dc s1 opcode
  have e1 : s1 = cache_store_audio s (R.byte 4) := rfl
  have e2 : src = u := hsrc
  have e3 : opcode = lip_get_command_opcode (s.pending_requests u).msg := by
    simp only [opcode, e2, s1]
  clear_value s1 src opcode
  subst e1 e2 e3
  have hu1 : src ≠ DLB_LOGICAL_ADDR_UNKNOWN := by
    have := (mem_slot_indices src).1 hu
    simp only [DLB_LOGICAL_ADDR_UNKNOWN]
    omega
  have hini' : ((cache_store_audio s (R.byte 4)).pending_requests src).msg.initiator
      ≠ (cache_store_audio s (R.byte 4)).cec_bus.logical_address := by
    show (s.pending_requests src).msg.initiator ≠ s.cec_bus.logical_address
    rw [hini]; exact hown
  rw [if_pos hu1, if_neg hop]
  by_cases ha : lip_get_command_opcode (s.pending_requests src).msg
      = LIP_OPCODE_REQUEST_AUDIO_LATENCY
  · rw [if_pos ha, if_pos ha]
    exact complete_with_reply_peer recv now _ src _ rs hini'
  · rw [if_neg ha, if_neg ha]
    unfold is_latency_request_opcode at hlat
    rcases hlat with h | h | h
    · rw [if_pos h]
      exact complete_with_reply_peer recv now _ src _ rs hini'
    · exact absurd h ha
    · exact absurd h hop

theorem report_video_on_request (recv : dlb_lip → dlb_cec_message → Option (dlb_lip × Int))
    (now : Nat) (s : dlb_lip) (R : dlb_cec_message) (rs : List dlb_cec_message) (u : Int)
    (hwf : pending_table_wf s.pending_requests) (hu : u ∈ slot_indices)
    (hs : (s.pending_requests u).state = LIP_MESSAGE_SENT)
    (hown : u ≠ s.cec_bus.logical_address)
    (hop : lip_get_command_opcode (s.pending_requests u).msg ≠ LIP_OPCODE_REQUEST_AUDIO_LATENCY) :
    lip_handle_report_video_latency recv now s R rs =
      (lip_reply_for_pending_cmd_received recv now (cache_store_video s (R.byte 4)) u
          LIP_MESSAGE_HANDLED).map
        (fun s2 => (s2, rs ++ [
          if lip_get_command_opcode (s.pending_requests u).msg
              = LIP_OPCODE_REQUEST_VIDEO_LATENCY
          then build_video_reply (cache_store_video s (R.byte 4)) u
          else build_av_reply (cache_store_video s (R.byte 4)) u], true)) := by
  have hsrc := addr_of_sent s hwf u hu hs
  have hini := sent_slot_initiator s hwf u hu hs
  have hlat := ((hwf.2 u hu).2 hs).2.2
  unfold lip_handle_report_video_latency
  lift_lets
  intro src vin dc s1 opcode
  have e1 : s1 = cache_store_video s (R.byte 4) := rfl
  have e2 : src = u := hsrc
  have e3 : opcode = lip_get_command_opcode (s.pending_requests u).msg := by
    simp only [opcode, e2, s1]
  clear_value s1 src opcode
  subst e1 e2 e3
  have hu1 : src ≠ DLB_LOGICAL_ADDR_UNKNOWN := by
    have := (mem_slot_indices src).1 hu
    simp only [DLB_LOGICAL_ADDR_UNKNOWN]
    omega
  have hini' : ((cache_store_video s (R.byte 4)).pending_requests src).msg.initiator
      ≠ (cache_store_video s (R.byte 4)).cec_bus.logical_address := by
    show (s.pending_requests src).msg.initiator ≠ s.cec_bus.logical_address
    rw [hini]; exact hown
  rw [if_pos hu1]
  by_cases hv : lip_get_command_opcode (s.pending_requests src).msg
      = LIP_OPCODE_REQUEST_VIDEO_LATENCY
  · rw [if_pos hv, if_pos hv]
    exact complete_with_reply_peer recv now _ src _ rs hini'
  · rw [if_neg hv, if_neg hv, if_neg hop]
    unfold is_latency_request_opcode at hlat
    rcases hlat with h | h | h
    · rw [if_pos h]
      exact complete_with_reply_peer recv now _ src _ rs hini'
    · exact absurd h hop
    · exact absurd h hv

/-! ## A report received for a request in flight -/

/-- The completion of the slot of peer `u` followed by the transmission of the reply. -/
theorem finish_completed (fuel now : Nat) (s1 : dlb_lip) (u : Int) (reply : dlb_cec_message)
    (hwf : pending_table_wf s1.pending_requests) :
    ∃ s2 fs,
      (lip_reply_for_pending_cmd_received (lip_cec_cmd_received (fuel + 1) now) now s1 u
          LIP_MESSAGE_HANDLED).map (fun s2 => finish_received (s2, [] ++ [reply], true))
        = some (s2, 1)
      ∧ s2.tx = s1.tx ++ fs ++ [reply]
      ∧ same_static s1 s2
      ∧ pending_table_wf s2.pending_requests
      ∧ s2.pending_requests u = { (s1.pending_requests u) with state := LIP_MESSAGE_HANDLED }
      ∧ (∀ j, j ≠ u → (s1.pending_requests j).state ≠ LIP_MESSAGE_PENDING →
          s2.pending_requests j = s1.pending_requests j)
      ∧ (∀ f ∈ fs, f.opcode = DLB_CEC_OPCODE_FEATURE_ABORT → f.destination ≠ u)
      ∧ ((∀ i ∈ slot_indices, i ≠ u →
            (s1.pending_requests i).state ≠ LIP_MESSAGE_PENDING) → fs = []) := by
  obtain ⟨s', h1, h2, h3, h4, h5, ⟨fs, h6, h7, h8⟩, _⟩ :=
    lip_reply_for_pending_cmd_received_spec fuel now s1 u LIP_MESSAGE_HANDLED hwf
      (by decide) (by decide)
  refine ⟨transmit_responses s' [reply], fs, ?_, ?_, ?_, ?_, ?_, ?_, h7, h8⟩
  · rw [h1]; rfl
  · simp [h6]
  · obtain ⟨a, b, c, d, e, f, g⟩ := h3
    exact ⟨by simpa using a, by simpa using b, by simpa using c, by simpa using d,
      by simpa using e, by simpa using f, by simpa using g⟩
  · simpa using h2
  · simpa using h4
  · intro j hj hp
    simpa using h5 j hj hp

theorem received_report_av_in_flight (fuel now : Nat) (s : dlb_lip) (R : dlb_cec_message)
    (u : Int) (hR : addressed_to s R LIP_OPCODE_REPORT_AV_LATENCY)
    (hst : s.state = LIP_SUPPORTED)
    (hwf : pending_table_wf s.pending_requests) (hu : u ∈ slot_indices)
    (hs : (s.pending_requests u).state = LIP_MESSAGE_SENT)
    (hown : u ≠ s.cec_bus.logical_address) :
    ∃ s2 fs, lip_cec_cmd_received (fuel + 2) now s R = some (s2, 1)
      ∧ s2.tx = s.tx ++ fs
          ++ [build_av_reply (cache_store_audio (cache_store_video s (R.byte 4)) (R.byte 5)) u]
      ∧ same_static (cache_store_audio (cache_store_video s (R.byte 4)) (R.byte 5)) s2
      ∧ pending_table_wf s2.pending_requests
      ∧ s2.pending_requests u = { (s.pending_requests u) with state := LIP_MESSAGE_HANDLED }
      ∧ (∀ j, j ≠ u → (s.pending_requests j).state ≠ LIP_MESSAGE_PENDING →
          s2.pending_requests j = s.pending_requests j)
      ∧ (∀ f ∈ fs, f.opcode = DLB_CEC_OPCODE_FEATURE_ABORT → f.destination ≠ u)
      ∧ ((∀ i ∈ slot_indices, i ≠ u →
            (s.pending_requests i).state ≠ LIP_MESSAGE_PENDING) → fs = []) := by
  rw [received_report_av (fuel + 1) now s R hR hst,
    report_av_on_request _ now s R [] u hwf hu hs hown, Option.map_map]
  exact finish_completed fuel now _ u _ hwf

theorem received_report_audio_in_flight (fuel now : Nat) (s : dlb_lip) (R : dlb_cec_message)
    (u : Int) (hR : addressed_to s R LIP_OPCODE_REPORT_AUDIO_LATENCY)
    (hst : s.state = LIP_SUPPORTED)
    (hwf : pending_table_wf s.pending_requests) (hu : u ∈ slot_indices)
    (hs : (s.pending_requests u).state = LIP_MESSAGE_SENT)
    (hown : u ≠ s.cec_bus.logical_address)
    (hop : lip_get_command_opcode (s.pending_requests u).msg
      ≠ LIP_OPCODE_REQUEST_VIDEO_LATENCY) :
    ∃ s2 fs, lip_cec_cmd_received (fuel + 2) now s R = some (s2, 1)
      ∧ s2.tx = s.tx ++ fs
          ++ [if lip_get_command_opcode (s.pending_requests u).msg
                = LIP_OPCODE_REQUEST_AUDIO_LATENCY
              then build_audio_reply (cache_store_audio s (R.byte 4)) u
              else build_av_reply (cache_store_audio s (R.byte 4)) u]
      ∧ same_static (cache_store_audio s (R.byte 4)) s2
      ∧ pending_table_wf s2.pending_requests
      ∧ s2.pending_requests u = { (s.pending_requests u) with state := LIP_MESSAGE_HANDLED }
      ∧ (∀ j, j ≠ u → (s.pending_requests j).state ≠ LIP_MESSAGE_PENDING →
          s2.pending_requests j = s.pending_requests j)
      ∧ (∀ f ∈ fs, f.opcode = DLB_CEC_OPCODE_FEATURE_ABORT → f.destination ≠ u)
      ∧ ((∀ i ∈ slot_indices, i ≠ u →
            (s.pending_requests i).state ≠ LIP_MESSAGE_PENDING) → fs = []) := by
  rw [received_report_audio (fuel + 1) now s R hR hst,
    report_audio_on_request _ now s R [] u hwf hu hs hown hop, Option.map_map]
  exact finish_completed fuel now _ u _ hwf

theorem received_report_video_in_flight (fuel now : Nat) (s : dlb_lip) (R : dlb_cec_message)
    (u : Int) (hR : addressed_to s R LIP_OPCODE_REPORT_VIDEO_LATENCY)
    (hst : s.state = LIP_SUPPORTED)
    (hwf : pending_table_wf s.pending_requests) (hu : u ∈ slot_indices)
    (hs : (s.pending_requests u).state = LIP_MESSAGE_SENT)
    (hown : u ≠ s.cec_bus.logical_address)
    (hop : lip_get_command_opcode (s.pending_requests u).msg
      ≠ LIP_OPCODE_REQUEST_AUDIO_LATENCY) :
    ∃ s2 fs, lip_cec_cmd_received (fuel + 2) now s R = some (s2, 1)
      ∧ s2.tx = s.tx ++ fs
          ++ [if lip_get_command_opcode (s.pending_requests u).msg
                = LIP_OPCODE_REQUEST_VIDEO_LATENCY
              then build_video_reply (cache_store_video s (R.byte 4)) u
              else build_av_reply (cache_store_video s (R.byte 4)) u]
      ∧ same_static (cache_store_video s (R.byte 4)) s2
      ∧ pending_table_wf s2.pending_requests
      ∧ s2.pending_requests u = { (s.pending_requests u) with state := LIP_MESSAGE_HANDLED }
      ∧ (∀ j, j ≠ u → (s.pending_requests j).state ≠ LIP_MESSAGE_PENDING →
          s2.pending_requests j = s.pending_requests j)
      ∧ (∀ f ∈ fs, f.opcode = DLB_CEC_OPCODE_FEATURE_ABORT → f.destination ≠ u)
      ∧ ((∀ i ∈ slot_indices, i ≠ u →
            (s.pending_requests i).state ≠ LIP_MESSAGE_PENDING) → fs = []) := by
  rw [received_report_video (fuel + 1) now s R hR hst,
    report_video_on_request _ now s R [] u hwf hu hs hown hop, Option.map_map]
  exact finish_completed fuel now _ u _ hwf

/-! ## The values of the lookups -/

theorem video_lookup_total (s : dlb_lip) (vf : dlb_lip_video_format) (x : Nat)
    (h : dlb_cache_get_video_latency_ndebug s.downstream_device_cfg.latency_cache vf
      LIP_INVALID_LATENCY = (true, x)) :
    lip_get_video_latency_from_cache s vf LIP_TOTAL_LATENCY =
      (true, lip_sum_latencies
        (s.config_params.video_latencies vf.vic vf.color_format
          (dlb_lip_get_hdr_mode_from_video_format_ndebug vf)) x) := by
  unfold lip_get_video_latency_from_cache
  simp only [h, if_true]

theorem video_lookup_total_hit (s : dlb_lip) (vf : dlb_lip_video_format) :
    (lip_get_video_latency_from_cache s vf LIP_TOTAL_LATENCY).1 =
      (dlb_cache_get_video_latency_ndebug s.downstream_device_cfg.latency_cache vf
        LIP_INVALID_LATENCY).1 := by
  unfold lip_get_video_latency_from_cache
  simp only []
  cases hc : (dlb_cache_get_video_latency_ndebug s.downstream_device_cfg.latency_cache vf
    LIP_INVALID_LATENCY).1 <;> simp

theorem video_lookup_own_value (s : dlb_lip) (vf : dlb_lip_video_format) :
    lip_get_video_latency_from_cache s vf LIP_OWN_LATENCY =
      (true, lip_sum_latencies
        (lip_sum_latencies
          (s.config_params.video_latencies vf.vic vf.color_format
            (dlb_lip_get_hdr_mode_from_video_format_ndebug vf)) 0) 0) := by
  unfold lip_get_video_latency_from_cache
  simp only [lip_sum_latencies_idem]

theorem audio_lookup_total_hit (s : dlb_lip) (af afd : dlb_lip_audio_format) :
    (lip_get_audio_latency_from_cache s af afd LIP_TOTAL_LATENCY).1 =
      (dlb_cache_get_audio_latency s.downstream_device_cfg.latency_cache afd
        LIP_INVALID_LATENCY).1 := by
  unfold lip_get_audio_latency_from_cache
  simp only []
  cases hc : (dlb_cache_get_audio_latency s.downstream_device_cfg.latency_cache afd
    LIP_INVALID_LATENCY).1 <;> simp

theorem audio_lookup_own_value (s : dlb_lip) (af afd : dlb_lip_audio_format) :
    lip_get_audio_latency_from_cache s af afd LIP_OWN_LATENCY =
      (true, lip_sum_latencies (s.config_params.audio_latencies af.codec af.subtype af.ext)
          ((if s.add_iec_decoding_latency then IEC_DECODING_DELAY af.codec else 0 : Nat) : Int))
      := by
  unfold lip_get_audio_latency_from_cache
  simp only [lip_sum_latencies_idem]

/-! ## No handler answers with NOT_IN_CORRECT_MODE_TO_RESPOND -/

theorem abort_byte_one (own i : Int) (reason : Nat) :
    (lip_build_abort_cec_command empty_msg own i DLB_CEC_OPCODE_VENDOR_COMMAND_WITH_ID
      reason).byte 1 = reason % 256 := rfl

theorem not_mode_abort_of_vendor (f : dlb_cec_message)
    (h : f.opcode = DLB_CEC_OPCODE_VENDOR_COMMAND_WITH_ID) : ¬ is_mode_abort f := by
  intro hm
  rw [hm.1] at h
  exact absurd h (by decide)

theorem not_mode_abort_invalid_operand (own i : Int) :
    ¬ is_mode_abort (lip_build_abort_cec_command empty_msg own i
      DLB_CEC_OPCODE_VENDOR_COMMAND_WITH_ID DLB_CEC_ABORT_REASON_INVALID_OPERAND) := by
  intro hm
  have := hm.2
  rw [abort_byte_one] at this
  exact absurd this (by decide)

theorem no_mode_abort_snoc (rs : List dlb_cec_message) (x : dlb_cec_message)
    (h : ∀ f ∈ rs, ¬ is_mode_abort f) (hx : ¬ is_mode_abort x) :
    ∀ f ∈ rs ++ [x], ¬ is_mode_abort f := by
  intro f hf
  rw [List.mem_append, List.mem_singleton] at hf
  rcases hf with hf | hf
  · exact h f hf
  · rw [hf]; exact hx

theorem request_av_no_mode_abort (now : Nat) (s : dlb_lip) (m : dlb_cec_message)
    (rs : List dlb_cec_message) (force : Bool) (h : ∀ f ∈ rs, ¬ is_mode_abort f) :
    ∀ f ∈ (lip_handle_request_av_latency now s m rs force).2.1, ¬ is_mode_abort f := by
  unfold lip_handle_request_av_latency
  lift_lets
  intro vf af vr ar dp askv aska vt at_ afd v a vh ah s1 s2 s2' s3
  split_ifs
  · exact no_mode_abort_snoc rs _ h (not_mode_abort_invalid_operand _ _)
  · exact no_mode_abort_snoc rs _ h (not_mode_abort_invalid_operand _ _)
  · exact no_mode_abort_snoc rs _ h (not_mode_abort_of_vendor _ (by simp))
  · exact no_mode_abort_snoc rs _ h (not_mode_abort_of_vendor _ (by simp))
  · exact no_mode_abort_snoc rs _ h (not_mode_abort_of_vendor _ (by simp))
  · exact no_mode_abort_snoc rs _ h (not_mode_abort_of_vendor _ (by simp))
  · exact h
  · exact h

theorem request_audio_no_mode_abort (now : Nat) (s : dlb_lip) (m : dlb_cec_message)
    (rs : List dlb_cec_message) (force : Bool) (h : ∀ f ∈ rs, ¬ is_mode_abort f) :
    ∀ f ∈ (lip_handle_request_audio_latency now s m rs force).2.1, ¬ is_mode_abort f := by
  unfold lip_handle_request_audio_latency
  lift_lets
  intro af ar dp ask at_ afd a s0 s1 s3
  split_ifs
  · exact no_mode_abort_snoc rs _ h (not_mode_abort_invalid_operand _ _)
  · exact no_mode_abort_snoc rs _ h (not_mode_abort_of_vendor _ (by simp))
  · exact no_mode_abort_snoc rs _ h (not_mode_abort_of_vendor _ (by simp))
  · exact h

theorem request_video_no_mode_abort (now : Nat) (s : dlb_lip) (m : dlb_cec_message)
    (rs : List dlb_cec_message) (force : Bool) (h : ∀ f ∈ rs, ¬ is_mode_abort f) :
    ∀ f ∈ (lip_handle_request_video_latency now s m rs force).2.1, ¬ is_mode_abort f := by
  unfold lip_handle_request_video_latency
  lift_lets
  intro vf vr dp ask vt s0 v s1 s3
  split_ifs
  · exact no_mode_abort_snoc rs _ h (not_mode_abort_invalid_operand _ _)
  · exact no_mode_abort_snoc rs _ h (not_mode_abort_of_vendor _ (by simp))
  · exact no_mode_abort_snoc rs _ h (not_mode_abort_of_vendor _ (by simp))
  · exact h

theorem request_lip_support_no_mode_abort (now : Nat) (s : dlb_lip) (m : dlb_cec_message)
    (rs : List dlb_cec_message) (h : ∀ f ∈ rs, ¬ is_mode_abort f) :
    ∀ f ∈ (lip_handle_request_lip_support now s m rs).2.1, ¬ is_mode_abort f := by
  unfold lip_handle_request_lip_support
  lift_lets
  intro uuid s1
  split_ifs
  · exact no_mode_abort_snoc rs _ h (not_mode_abort_of_vendor _ (by simp))
  · exact h

theorem build_upstream_reports_vendor (own : Int) (uuid : Nat) (fl : Int → Bool)
    (L : List Int) (i : Int) :
    ∀ f ∈ build_upstream_reports own uuid fl i L,
      f.opcode = DLB_CEC_OPCODE_VENDOR_COMMAND_WITH_ID := by
  induction L generalizing i with
  | nil => intro f hf; simp [build_upstream_reports] at hf
  | cons a L ih =>
    intro f hf
    unfold build_upstream_reports at hf
    split_ifs at hf
    · rw [List.mem_cons] at hf
      rcases hf with hf | hf
      · rw [hf]; simp
      · exact ih _ f hf
    · exact ih _ f hf

theorem report_lip_support_no_mode_abort (now : Nat) (s : dlb_lip) (m : dlb_cec_message)
    (rs : List dlb_cec_message) (upd : Bool) (h : ∀ f ∈ rs, ¬ is_mode_abort f) :
    ∀ f ∈ (lip_handle_report_lip_support now s m rs upd).2.1, ¬ is_mode_abort f := by
  unfold lip_handle_report_lip_support
  lift_lets
  intro uuid s1 dc s2 r s3 out s4
  split_ifs
  · exact h
  · exact h
  · exact h
  · show ∀ f ∈ out.1, ¬ is_mode_abort f
    simp only [out]
    split_ifs
    · intro f hf
      rw [List.mem_append] at hf
      rcases hf with hf | hf
      · exact h f hf
      · exact not_mode_abort_of_vendor _ (build_upstream_reports_vendor _ _ _ _ _ f hf)
    · exact h

theorem complete_with_reply_no_mode_abort
    (recv : dlb_lip → dlb_cec_message → Option (dlb_lip × Int)) (now : Nat) (s : dlb_lip)
    (src : Int) (reply : dlb_cec_message) (rs : List dlb_cec_message)
    (h : ∀ f ∈ rs, ¬ is_mode_abort f)
    (hr : reply.opcode = DLB_CEC_OPCODE_VENDOR_COMMAND_WITH_ID) :
    ∀ r, complete_with_reply recv now s src reply rs = some r →
      ∀ f ∈ r.2.1, ¬ is_mode_abort f := by
  intro r hr'
  unfold complete_with_reply at hr'
  split_ifs at hr'
  · rw [Option.map_eq_some'] at hr'
    obtain ⟨a, -, rfl⟩ := hr'
    exact no_mode_abort_snoc rs _ h (not_mode_abort_of_vendor _ hr)
  · rw [Option.map_eq_some'] at hr'
    obtain ⟨a, -, rfl⟩ := hr'
    exact h

theorem build_av_reply_opcode (s : dlb_lip) (src : Int) :
    (build_av_reply s src).opcode = DLB_CEC_OPCODE_VENDOR_COMMAND_WITH_ID := by
  unfold build_av_reply
  simp

theorem build_audio_reply_opcode (s : dlb_lip) (src : Int) :
    (build_audio_reply s src).opcode = DLB_CEC_OPCODE_VENDOR_COMMAND_WITH_ID := by
  unfold build_audio_reply
  simp

theorem build_video_reply_opcode (s : dlb_lip) (src : Int) :
    (build_video_reply s src).opcode = DLB_CEC_OPCODE_VENDOR_COMMAND_WITH_ID := by
  unfold build_video_reply
  simp

theorem map_keeps_responses (o : Option dlb_lip) (rs : List dlb_cec_message) (b : Bool)
    (h : ∀ f ∈ rs, ¬ is_mode_abort f) :
    ∀ r, o.map (fun s2 => (s2, rs, b)) = some r → ∀ f ∈ r.2.1, ¬ is_mode_abort f := by
  intro r hr
  rw [Option.map_eq_some'] at hr
  obtain ⟨a, -, rfl⟩ := hr
  exact h

theorem report_av_no_mode_abort (recv : dlb_lip → dlb_cec_message → Option (dlb_lip × Int))
    (now : Nat) (s : dlb_lip) (m : dlb_cec_message) (rs : List dlb_cec_message)
    (h : ∀ f ∈ rs, ¬ is_mode_abort f) :
    ∀ r, lip_handle_report_av_latency recv now s m rs = some r →
      ∀ f ∈ r.2.1, ¬ is_mode_abort f := by
  unfold lip_handle_report_av_latency
  lift_lets
  intro vin ain src dc s1 opcode
  split_ifs
  · exact complete_with_reply_no_mode_abort recv now s1 src _ rs h (build_av_reply_opcode _ _)
  · exact map_keeps_responses _ rs false h
  · intro r hr
    cases hr
    exact h

theorem report_audio_no_mode_abort
    (recv : dlb_lip → dlb_cec_message → Option (dlb_lip × Int))
    (now : Nat) (s : dlb_lip) (m : dlb_cec_message) (rs : List dlb_cec_message)
    (h : ∀ f ∈ rs, ¬ is_mode_abort f) :
    ∀ r, lip_handle_report_audio_latency recv now s m rs = some r →
      ∀ f ∈ r.2.1, ¬ is_mode_abort f := by
  unfold lip_handle_report_audio_latency
  lift_lets
  intro src dc s1 opcode
  split_ifs
  · exact map_keeps_responses _ rs false h
  · exact complete_with_reply_no_mode_abort recv now s1 src _ rs h (build_audio_reply_opcode _ _)
  · exact complete_with_reply_no_mode_abort recv now s1 src _ rs h (build_av_reply_opcode _ _)
  · intro r hr
    cases hr
    exact h
  · intro r hr
    cases hr
    exact h

theorem report_video_no_mode_abort
    (recv : dlb_lip → dlb_cec_message → Option (dlb_lip × Int))
    (now : Nat) (s : dlb_lip) (m : dlb_cec_message) (rs : List dlb_cec_message)
    (h : ∀ f ∈ rs, ¬ is_mode_abort f) :
    ∀ r, lip_handle_report_video_latency recv now s m rs = some r →
      ∀ f ∈ r.2.1, ¬ is_mode_abort f := by
  unfold lip_handle_report_video_latency
  lift_lets
  intro src vin dc s1 opcode
  split_ifs
  · exact complete_with_reply_no_mode_abort recv now s1 src _ rs h (build_video_reply_opcode _ _)
  · exact map_keeps_responses _ rs false h
  · exact complete_with_reply_no_mode_abort recv now s1 src _ rs h (build_av_reply_opcode _ _)
  · intro r hr
    cases hr
    exact h
  · intro r hr
    cases hr
    exact h

theorem switch_no_mode_abort (recv : dlb_lip → dlb_cec_message → Option (dlb_lip × Int))
    (now : Nat) (s : dlb_lip) (m : dlb_cec_message) (op : Nat) :
    ∀ r, lip_opcode_switch recv now s m op = some r → ∀ f ∈ r.2.1, ¬ is_mode_abort f := by
  have h0 : ∀ f ∈ ([] : List dlb_cec_message), ¬ is_mode_abort f := by
    intro f hf; simp at hf
  have hmap : ∀ (o : Option (dlb_lip × List dlb_cec_message × Bool)),
      (∀ r, o = some r → ∀ f ∈ r.2.1, ¬ is_mode_abort f) →
      ∀ r, o.map (fun r => (r.1, r.2.1, r.2.2, (1 : Int))) = some r →
        ∀ f ∈ r.2.1, ¬ is_mode_abort f := by
    intro o ho r hr
    rw [Option.map_eq_some'] at hr
    obtain ⟨a, ha, rfl⟩ := hr
    exact ho a ha
  unfold lip_opcode_switch
  lift_lets
  intro r1 r2 r3 r4 r5 r6
  split_ifs
  · intro r hr; cases hr; exact report_lip_support_no_mode_abort now s m [] false h0
  · intro r hr; cases hr; exact report_lip_support_no_mode_abort now s m [] true h0
  · intro r hr; cases hr; exact request_lip_support_no_mode_abort now s m [] h0
  · intro r hr; cases hr; exact request_av_no_mode_abort now s m [] false h0
  · exact hmap _ (report_av_no_mode_abort recv now s m [] h0)
  · intro r hr; cases hr; exact request_audio_no_mode_abort now s m [] false h0
  · exact hmap _ (report_audio_no_mode_abort recv now s m [] h0)
  · intro r hr; cases hr; exact request_video_no_mode_abort now s m [] false h0
  · exact hmap _ (report_video_no_mode_abort recv now s m [] h0)
  · intro r hr; cases hr; exact h0

/-! ## Cache miss, report, then cache hit -/

theorem after_request_lip_support_reachable (u : Int) (s : dlb_lip) (h : Reachable s) :
    Reachable (after_request_lip_support u s) :=
  reachable_core_of 0 40 _ _ h

theorem after_remove_upstream_reachable (u : Int) (s : dlb_lip) (h : Reachable s) :
    Reachable (after_remove_upstream u s) :=
  Reachable.step _ _ h (Step.set_config s none false u)

theorem upstream_remove_broadcast_drop (up : List Int) :
    (upstream_remove up DLB_LOGICAL_ADDR_BROADCAST).drop 1 = up.drop 1 := by
  cases up with
  | nil => rfl
  | cons x xs => simp [upstream_remove]

theorem upstream_remove_unknown (up : List Int) :
    upstream_remove up DLB_LOGICAL_ADDR_UNKNOWN = up := by
  induction up with
  | nil => rfl
  | cons x xs ih =>
    unfold upstream_remove
    by_cases h : DLB_LOGICAL_ADDR_UNKNOWN = x
    · rw [if_pos (Or.inl h), h]
    · rw [if_neg (by intro c; rcases c with c | c; exact h c; exact absurd c (by decide)), ih]

theorem set_config_none_core (s : dlb_lip) (force_discovery : Bool) (rm : Int)
    (h : force_discovery = true ∨ rm ≠ DLB_LOGICAL_ADDR_UNKNOWN) :
    dlb_lip_set_config s none force_discovery rm
      = set_config_apply (lip_remove_upstream_device s rm)
          (upstream_remove s.upstream_devices_addresses rm) force_discovery false := by
  unfold dlb_lip_set_config
  rw [if_pos (Or.inr h)]
  rfl

theorem S2_two_peers_reachable : Reachable S2_two_peers :=
  after_request_lip_support_reachable 1 _
    (after_request_lip_support_reachable 4 _
      (reachable_core_of 0 10 _ _
        (Reachable.step _ _ S2_opened_reachable (Step.worker 0 S2_opened ⟨0, false⟩))))

theorem S2_peer_twice_reachable : Reachable S2_peer_twice :=
  after_request_lip_support_reachable 1 _
    (after_remove_upstream_reachable 4 _ S2_two_peers_reachable)

/-! ## `dlb_lip_set_config` when only the render mode differs -/

theorem audio_latencies_equal_refl (a : Nat → Nat → Nat → Nat) :
    audio_latencies_equal a a = true := by
  simp [audio_latencies_equal]

theorem video_latencies_equal_refl (a : Nat → Nat → Nat → Nat) :
    video_latencies_equal a a = true := by
  simp [video_latencies_equal]

theorem lip_remove_upstream_device_unknown (s : dlb_lip) :
    lip_remove_upstream_device s DLB_LOGICAL_ADDR_UNKNOWN = s := by
  unfold lip_remove_upstream_device
  rw [upstream_remove_unknown]

theorem set_config_check_only_render (s : dlb_lip) (p : dlb_lip_config_params)
    (hu : p.uuid = s.config_params.uuid)
    (ha : p.audio_latencies = s.config_params.audio_latencies)
    (hv : p.video_latencies = s.config_params.video_latencies)
    (hd : p.downstream_device_addr = s.config_params.downstream_device_addr)
    (ht : p.audio_transcoding = s.config_params.audio_transcoding)
    (hf : p.audio_transcoding_format = s.config_params.audio_transcoding_format) :
    set_config_check s false p
      = ({ s with config_params := p }, false, false,
          decide (s.config_params.render_mode = p.render_mode)) := by
  unfold set_config_check
  simp [hu, ha, hv, hd, ht, hf, audio_latencies_equal_refl, video_latencies_equal_refl]

theorem set_config_only_render (s : dlb_lip) (p : dlb_lip_config_params) (rm : Int)
    (hu : p.uuid = s.config_params.uuid)
    (ha : p.audio_latencies = s.config_params.audio_latencies)
    (hv : p.video_latencies = s.config_params.video_latencies)
    (hd : p.downstream_device_addr = s.config_params.downstream_device_addr)
    (ht : p.audio_transcoding = s.config_params.audio_transcoding)
    (hf : p.audio_transcoding_format = s.config_params.audio_transcoding_format) :
    dlb_lip_set_config s (some p) false rm
      = ({ lip_remove_upstream_device s rm with config_params := p },
          if s.config_params.render_mode = p.render_mode then 0 else 1) := by
  unfold dlb_lip_set_config
  simp only [Option.isSome_some, true_or, if_true,
    set_config_check_only_render (lip_remove_upstream_device s rm) p hu ha hv hd ht hf]
  by_cases h : s.config_params.render_mode = p.render_mode
  · have h' : (lip_remove_upstream_device s rm).config_params.render_mode = p.render_mode := h
    simp [h, h', set_config_apply]
  · have h' : ¬ (lip_remove_upstream_device s rm).config_params.render_mode = p.render_mode := h
    simp [h, h']

/-! ## `dlb_cache_clear` and the lookups -/

theorem cache_clear_audio_miss (c : dlb_latency_cache) (cv : Bool)
    (af : dlb_lip_audio_format) (l : Nat) :
    dlb_cache_get_audio_latency (dlb_cache_clear c true cv) af l = (false, l) := by
  unfold dlb_cache_get_audio_latency
  by_cases he : (dlb_cache_clear c true cv).cache_enabled = true
  · rw [if_pos he]
    by_cases hv : dlb_cache_validate_audio_params af.codec af.subtype af.ext = true
    · rw [if_pos hv]
      have hb : af.codec < IEC61937_AUDIO_CODECS ∧ af.subtype < IEC61937_SUBTYPES
          ∧ af.ext < MAX_AUDIO_FORMAT_EXTENSIONS := by
        simpa [dlb_cache_validate_audio_params, and_assoc] using hv
      have : (dlb_cache_clear c true cv).audio_latencies_valid af.codec af.subtype af.ext
          = false := by
        unfold dlb_cache_clear
        simp only [if_true]
        rw [if_pos hb]
      rw [this]
      rfl
    · rw [if_neg hv]
  · rw [if_neg he]

theorem cache_clear_video_miss (c : dlb_latency_cache) (ca : Bool)
    (vf : dlb_lip_video_format) (l : Nat) :
    dlb_cache_get_video_latency_ndebug (dlb_cache_clear c ca true) vf l = (false, l) := by
  unfold dlb_cache_get_video_latency_ndebug
  by_cases he : (dlb_cache_clear c ca true).cache_enabled = true
  · rw [if_pos he]
    by_cases hv : dlb_cache_validate_video_params_ndebug vf = true
    · rw [if_pos hv]
      have hb : vf.vic < MAX_VICS ∧ vf.color_format < LIP_COLOR_FORMAT_COUNT
          ∧ dlb_lip_get_hdr_mode_from_video_format_ndebug vf < HDR_MODES_COUNT := by
        have h3 : vf.vic < MAX_VICS ∧ vf.color_format ≤ LIP_COLOR_FORMAT_COUNT
            ∧ dlb_lip_get_hdr_mode_from_video_format_ndebug vf ≠ HDR_MODES_COUNT := by
          simpa [dlb_cache_validate_video_params_ndebug, and_assoc] using hv
        obtain ⟨h1, -, h3⟩ := h3
        unfold dlb_lip_get_hdr_mode_from_video_format_ndebug at h3 ⊢
        simp only [LIP_COLOR_FORMAT_HDR_STATIC, LIP_COLOR_FORMAT_HDR_DYNAMIC,
          LIP_COLOR_FORMAT_DOLBY_VISION, LIP_HDR_STATIC_COUNT, LIP_HDR_DYNAMIC_COUNT,
          LIP_HDR_DOLBY_VISION_COUNT, HDR_MODES_COUNT, LIP_COLOR_FORMAT_COUNT] at h3 ⊢
        refine ⟨h1, ?_, ?_⟩
        · split_ifs at h3 <;> omega
        · split_ifs at h3 ⊢ <;> omega
      have : (dlb_cache_clear c ca true).video_latencies_valid vf.vic vf.color_format
          (dlb_lip_get_hdr_mode_from_video_format_ndebug vf) = false := by
        cases ca
        · show (if _ ∧ _ ∧ _ then false else _) = false
          rw [if_pos hb]
        · show (if _ ∧ _ ∧ _ then false else _) = false
          rw [if_pos hb]
      rw [this]
      rfl
    · rw [if_neg hv]
  · rw [if_neg he]

theorem cache_clear_keep_audio (c : dlb_latency_cache) (cv : Bool) :
    (dlb_cache_clear c false cv).audio_latencies = c.audio_latencies
      ∧ (dlb_cache_clear c false cv).audio_latencies_valid = c.audio_latencies_valid := by
  unfold dlb_cache_clear
  cases cv <;> exact ⟨rfl, rfl⟩

theorem cache_clear_keep_video (c : dlb_latency_cache) (ca : Bool) :
    (dlb_cache_clear c ca false).video_latencies = c.video_latencies
      ∧ (dlb_cache_clear c ca false).video_latencies_valid = c.video_latencies_valid := by
  unfold dlb_cache_clear
  cases ca <;> exact ⟨rfl, rfl⟩

theorem cache_clear_enabled (c : dlb_latency_cache) (ca cv : Bool) :
    (dlb_cache_clear c ca cv).cache_enabled = c.cache_enabled := by
  unfold dlb_cache_clear
  cases ca <;> cases cv <;> rfl

theorem cache_clear_none (c : dlb_latency_cache) : dlb_cache_clear c false false = c := rfl

theorem cache_get_audio_congr (c c' : dlb_latency_cache)
    (he : c'.cache_enabled = c.cache_enabled) (h1 : c'.audio_latencies = c.audio_latencies)
    (h2 : c'.audio_latencies_valid = c.audio_latencies_valid)
    (af : dlb_lip_audio_format) (l : Nat) :
    dlb_cache_get_audio_latency c' af l = dlb_cache_get_audio_latency c af l := by
  unfold dlb_cache_get_audio_latency
  rw [he, h1, h2]

theorem cache_get_video_congr (c c' : dlb_latency_cache)
    (he : c'.cache_enabled = c.cache_enabled) (h1 : c'.video_latencies = c.video_latencies)
    (h2 : c'.video_latencies_valid = c.video_latencies_valid)
    (vf : dlb_lip_video_format) (l : Nat) :
    dlb_cache_get_video_latency_ndebug c' vf l = dlb_cache_get_video_latency_ndebug c vf l := by
  unfold dlb_cache_get_video_latency_ndebug
  rw [he, h1, h2]

/-! ## `lip_handle_report_lip_support` -/

theorem answer_buffered_support_fields (L : List Int) (s : dlb_lip) (f : Int → Bool) :
    (answer_buffered_support L (s, f)).1.state = s.state
      ∧ (answer_buffered_support L (s, f)).1.downstream_device_cfg = s.downstream_device_cfg
      ∧ (answer_buffered_support L (s, f)).1.config_params = s.config_params
      ∧ (answer_buffered_support L (s, f)).1.cec_bus = s.cec_bus
      ∧ (answer_buffered_support L (s, f)).1.callbacks = s.callbacks
      ∧ (answer_buffered_support L (s, f)).1.tx = s.tx
      ∧ (answer_buffered_support L (s, f)).1.thread_signaled = s.thread_signaled
      ∧ (answer_buffered_support L (s, f)).1.condition_var_signals = s.condition_var_signals
      ∧ (answer_buffered_support L (s, f)).1.opcode_of_last_cmd_sent
          = s.opcode_of_last_cmd_sent := by
  induction L generalizing s f with
  | nil => exact ⟨rfl, rfl, rfl, rfl, rfl, rfl, rfl, rfl, rfl⟩
  | cons i is ih =>
    unfold answer_buffered_support
    split_ifs
    · exact ih _ _
    · exact ih _ _

theorem report_lip_support_ignored (now : Nat) (s : dlb_lip) (m : dlb_cec_message)
    (rs : List dlb_cec_message) (upd : Bool) (h : ¬ spec_identity_accepted s m upd) :
    lip_handle_report_lip_support now s m rs upd = (s, rs, false) := by
  unfold lip_handle_report_lip_support
  lift_lets
  intro uuid s1 src s2 r s3 out s4
  unfold spec_identity_accepted at h
  by_cases h1 : s.config_params.downstream_device_addr ≠ m.initiator
  · rw [if_pos h1]
  · rw [if_neg h1]
    have h1' : m.initiator = s.config_params.downstream_device_addr := (not_not.1 h1).symm
    have h2 : ¬ (if upd = true then s.state = LIP_SUPPORTED else s.state ≠ LIP_SUPPORTED) :=
      fun c => h ⟨h1', c⟩
    cases upd
    · simp only [Bool.false_eq_true, if_false, not_not] at h2
      rw [if_pos (by simp [h2])]
    · simp only [if_true] at h2
      rw [if_neg (by simp), if_pos (by simp [h2])]

theorem report_lip_support_taken (now : Nat) (s : dlb_lip) (m : dlb_cec_message)
    (rs : List dlb_cec_message) (upd : Bool) (h : spec_identity_accepted s m upd) :
    lip_handle_report_lip_support now s m rs upd
      = (if !upd then
            { (identity_accepted_core now s m upd).1 with
              thread_signaled := true,
              condition_var_signals :=
                (identity_accepted_core now s m upd).1.condition_var_signals + 1 }
          else (identity_accepted_core now s m upd).1,
         if lip_is_upstream_device_present (identity_accepted_core now s m upd).1 then
            rs ++ build_upstream_reports
              (identity_accepted_core now s m upd).1.cec_bus.logical_address
              (lip_get_uuid (identity_accepted_core now s m upd).1)
              (identity_accepted_core now s m upd).2 0
              (identity_accepted_core now s m upd).1.upstream_devices_addresses
          else rs,
         lip_is_upstream_device_present (identity_accepted_core now s m upd).1) := by
  obtain ⟨h1, h2⟩ := h
  generalize hc : identity_accepted_core now s m upd = c
  unfold lip_handle_report_lip_support
  lift_lets
  intro uuid s1 src s2 r s3 out s4
  have ec : c = (s3, r.2) := hc.symm
  rw [if_neg (show ¬ s.config_params.downstream_device_addr ≠ m.initiator by simp [h1])]
  have e4 : s4 = if !upd then
      { s3 with thread_signaled := true,
                condition_var_signals := s3.condition_var_signals + 1 } else s3 := rfl
  have eo : out = if lip_is_upstream_device_present s3 then
      (rs ++ build_upstream_reports s3.cec_bus.logical_address (lip_get_uuid s3) r.2 0
          s3.upstream_devices_addresses, true) else (rs, false) := rfl
  clear_value s4 out s3
  subst ec e4 eo
  have hrej1 : ¬ ((!upd) = true ∧ s.state = LIP_SUPPORTED) := by
    cases upd
    · simp only [Bool.false_eq_true, if_false] at h2
      simp [h2]
    · simp
  have hrej2 : ¬ (upd = true ∧ s.state ≠ LIP_SUPPORTED) := by
    cases upd
    · simp
    · simp only [if_true] at h2
      simp [h2]
  rw [if_neg hrej1, if_neg hrej2]
  by_cases hp : lip_is_upstream_device_present s3 = true
  · simp only [hp, if_true]
  · simp only [Bool.not_eq_true] at hp
    simp only [hp, Bool.false_eq_true, if_false]

/-! ## The uuid carried by an identity message -/

theorem byte_lt (m : dlb_cec_message) (h : bytes_ok m) (i : Nat) : m.byte i < 256 := by
  unfold dlb_cec_message.byte
  by_cases hi : i < m.data.length
  · rw [List.getD_eq_getElem _ _ hi]
    exact h _ (List.getElem_mem _)
  · rw [List.getD_eq_default _ _ (by omega)]
    decide

theorem be32_eq (a b c d : Nat) (ha : a < 256) (hb : b < 256) (hc : c < 256) (hd : d < 256) :
    ((a * 2 ^ 24) % 2 ^ 32) ||| (b * 2 ^ 16) ||| (c * 2 ^ 8) ||| d
      = a * 2 ^ 24 + b * 2 ^ 16 + c * 2 ^ 8 + d := by
  have e1 : (a * 2 ^ 24) % 2 ^ 32 = 2 ^ 24 * a := by
    rw [Nat.mod_eq_of_lt (by omega)]
    ring
  have e2 : 2 ^ 24 * a ||| b * 2 ^ 16 = 2 ^ 16 * (a * 2 ^ 8 + b) := by
    rw [← Nat.mul_add_lt_is_or (by omega) a]
    ring
  have e3 : 2 ^ 16 * (a * 2 ^ 8 + b) ||| c * 2 ^ 8 = 2 ^ 8 * (a * 2 ^ 16 + b * 2 ^ 8 + c) := by
    rw [← Nat.mul_add_lt_is_or (by omega) (a * 2 ^ 8 + b)]
    ring
  rw [e1, e2, e3, ← Nat.mul_add_lt_is_or (by omega) _]
  ring

theorem report_uuid_eq (m : dlb_cec_message) (h : bytes_ok m) :
    report_uuid m = m.byte 5 * 2 ^ 24 + m.byte 6 * 2 ^ 16 + m.byte 7 * 2 ^ 8 + m.byte 8 :=
  be32_eq _ _ _ _ (byte_lt m h 5) (byte_lt m h 6) (byte_lt m h 7) (byte_lt m h 8)

theorem report_uuid_lt (m : dlb_cec_message) (h : bytes_ok m) : report_uuid m < 2 ^ 32 := by
  rw [report_uuid_eq m h]
  have := byte_lt m h 5
  have := byte_lt m h 6
  have := byte_lt m h 7
  have := byte_lt m h 8
  omega

/-! ## The cache rotation and the accepted core -/

theorem rotate_cache_cache (s : dlb_lip) (uuid : Nat) :
    (rotate_cache s uuid).downstream_device_cfg.latency_cache
      = if (read_blob s uuid).1 % 2 ^ 32 ≠ sizeof_latency_cache then
          dlb_cache_clear (read_blob s uuid).2
            (clear_audio_flag uuid s.downstream_device_cfg.uuid)
            (clear_video_flag uuid s.downstream_device_cfg.uuid)
        else (read_blob s uuid).2 := by
  have key : ∀ s1 : dlb_lip, s1.callbacks = s.callbacks →
      s1.downstream_device_cfg = s.downstream_device_cfg →
      (match s1.callbacks.read_cache_callback with
        | some read => read uuid s1.downstream_device_cfg.latency_cache
        | none => (0, s1.downstream_device_cfg.latency_cache)) = read_blob s uuid := by
    intro s1 e1 e2
    rw [e1, e2]
    unfold read_blob
    cases s.callbacks.read_cache_callback <;> rfl
  unfold rotate_cache clear_audio_flag clear_video_flag
  lift_lets
  intro s1 rd
  have e1 : s1.callbacks = s.callbacks := by
    simp only [s1]; split_ifs <;> rfl
  have e2 : s1.downstream_device_cfg = s.downstream_device_cfg := by
    simp only [s1]; split_ifs <;> rfl
  have e3 : rd = read_blob s uuid := key s1 e1 e2
  clear_value rd
  subst e3
  intro bytes_read cache old
  have e4 : old = s.downstream_device_cfg.uuid := by simp only [old, e2]
  clear_value old
  subst e4
  intro all cv ca cache2
  show cache2 = _
  simp only [cache2, ca, cv, all, cache, bytes_read]

theorem rotate_cache_fields (s : dlb_lip) (uuid : Nat) :
    (rotate_cache s uuid).state = s.state
      ∧ (rotate_cache s uuid).config_params = s.config_params
      ∧ (rotate_cache s uuid).cec_bus = s.cec_bus
      ∧ (rotate_cache s uuid).callbacks = s.callbacks
      ∧ (rotate_cache s uuid).tx = s.tx
      ∧ (rotate_cache s uuid).pending_requests = s.pending_requests
      ∧ (rotate_cache s uuid).upstream_devices_addresses = s.upstream_devices_addresses
      ∧ (rotate_cache s uuid).thread_signaled = s.thread_signaled
      ∧ (rotate_cache s uuid).condition_var_signals = s.condition_var_signals
      ∧ (rotate_cache s uuid).opcode_of_last_cmd_sent = s.opcode_of_last_cmd_sent
      ∧ (rotate_cache s uuid).downstream_device_cfg.uuid = s.downstream_device_cfg.uuid
      ∧ (rotate_cache s uuid).downstream_device_cfg.logical_addr
          = s.downstream_device_cfg.logical_addr := by
  unfold rotate_cache
  lift_lets
  intro s1 rd bytes_read cache old cache'
  simp only [s1]
  split_ifs <;> exact ⟨rfl, rfl, rfl, rfl, rfl, rfl, rfl, rfl, rfl, rfl, rfl, rfl⟩

theorem identity_accepted_core_fields (now : Nat) (s : dlb_lip) (m : dlb_cec_message)
    (upd : Bool) :
    (identity_accepted_core now s m upd).1.state = LIP_SUPPORTED
      ∧ (identity_accepted_core now s m upd).1.downstream_device_cfg
          = { logical_addr := m.initiator, uuid := report_uuid m,
              latency_cache := cache_after_identity s (report_uuid m) }
      ∧ (identity_accepted_core now s m upd).1.config_params = s.config_params
      ∧ (identity_accepted_core now s m upd).1.cec_bus = s.cec_bus
      ∧ (identity_accepted_core now s m upd).1.callbacks = s.callbacks
      ∧ (identity_accepted_core now s m upd).1.tx = s.tx
      ∧ (identity_accepted_core now s m upd).1.thread_signaled = s.thread_signaled
      ∧ (identity_accepted_core now s m upd).1.condition_var_signals = s.condition_var_signals
      ∧ (identity_accepted_core now s m upd).1.opcode_of_last_cmd_sent
          = s.opcode_of_last_cmd_sent := by
  unfold identity_accepted_core
  lift_lets
  intro s1 src s2 r
  obtain ⟨a1, a2, a3, a4, a5, a6, a7, a8, a9⟩ :=
    answer_buffered_support_fields slot_indices s2 (fun _ => upd)
  have hs1 : s1.config_params = s.config_params ∧ s1.cec_bus = s.cec_bus
      ∧ s1.callbacks = s.callbacks ∧ s1.tx = s.tx ∧ s1.thread_signaled = s.thread_signaled
      ∧ s1.condition_var_signals = s.condition_var_signals
      ∧ s1.opcode_of_last_cmd_sent = s.opcode_of_last_cmd_sent
      ∧ s1.downstream_device_cfg.latency_cache = cache_after_identity s (report_uuid m) := by
    obtain ⟨-, b2, b3, b4, b5, -, -, b8, b9, b10, -, -⟩ := rotate_cache_fields s (report_uuid m)
    simp only [s1, cache_after_identity]
    split_ifs
    · exact ⟨b2, b3, b4, b5, b8, b9, b10, by rw [rotate_cache_cache, if_pos ‹_›]⟩
    · exact ⟨b2, b3, b4, b5, b8, b9, b10, by rw [rotate_cache_cache, if_neg ‹_›]⟩
    · exact ⟨rfl, rfl, rfl, rfl, rfl, rfl, rfl, rfl⟩
  obtain ⟨c1, c2, c3, c4, c5, c6, c7, c8⟩ := hs1
  simp only [lip_status_change_callback_state, lip_reschedule_timer_state,
    lip_status_change_callback_downstream_device_cfg, lip_reschedule_timer_downstream_device_cfg,
    lip_status_change_callback_config_params, lip_reschedule_timer_config_params,
    lip_status_change_callback_cec_bus, lip_reschedule_timer_cec_bus,
    lip_status_change_callback_callbacks, lip_reschedule_timer_callbacks,
    lip_status_change_callback_tx, lip_reschedule_timer_tx,
    lip_status_change_callback_thread_signaled, lip_reschedule_timer_thread_signaled,
    lip_status_change_callback_condition_var_signals, lip_reschedule_timer_condition_var_signals,
    lip_status_change_callback_opcode_of_last_cmd_sent,
    lip_reschedule_timer_opcode_of_last_cmd_sent]
  refine ⟨a1, ?_, a3.trans c1, a4.trans c2, a5.trans c3, a6.trans c4, a7.trans c5,
    a8.trans c6, a9.trans c7⟩
  rw [a2]
  simp only [s2, src, c8]

/-! ## The dispatcher on the discovery messages -/

theorem received_report_lip_support (fuel now : Nat) (s : dlb_lip) (m : dlb_cec_message)
    (h : addressed_to s m LIP_OPCODE_REPORT_LIP_SUPPORT)
    (hg : lip_can_handle_opcode_in_current_state s LIP_OPCODE_REPORT_LIP_SUPPORT = true) :
    lip_cec_cmd_received (fuel + 1) now s m =
      some (finish_received (lip_handle_report_lip_support now s m [] false)) := by
  rw [received_addressed fuel now s m _ h, if_pos hg]
  rfl

theorem received_update_uuid (fuel now : Nat) (s : dlb_lip) (m : dlb_cec_message)
    (h : addressed_to s m LIP_OPCODE_UPDATE_UUID)
    (hg : lip_can_handle_opcode_in_current_state s LIP_OPCODE_UPDATE_UUID = true) :
    lip_cec_cmd_received (fuel + 1) now s m =
      some (finish_received (lip_handle_report_lip_support now s m [] true)) := by
  rw [received_addressed fuel now s m _ h, if_pos hg]
  rfl

theorem received_identity (fuel now : Nat) (s : dlb_lip) (m : dlb_cec_message) (upd : Bool)
    (h : addressed_to s m (identity_opcode upd))
    (hg : lip_can_handle_opcode_in_current_state s (identity_opcode upd) = true) :
    lip_cec_cmd_received (fuel + 1) now s m =
      some (finish_received (lip_handle_report_lip_support now s m [] upd)) := by
  cases upd
  · exact received_report_lip_support fuel now s m h hg
  · exact received_update_uuid fuel now s m h hg

theorem received_request_lip_support (fuel now : Nat) (s : dlb_lip) (m : dlb_cec_message)
    (h : addressed_to s m LIP_OPCODE_REQUEST_LIP_SUPPORT)
    (hg : lip_can_handle_opcode_in_current_state s LIP_OPCODE_REQUEST_LIP_SUPPORT = true) :
    lip_cec_cmd_received (fuel + 1) now s m =
      some (finish_received (lip_handle_request_lip_support now s m [])) := by
  rw [received_addressed fuel now s m _ h, if_pos hg]
  rfl

theorem received_identity_ignored (fuel now : Nat) (s : dlb_lip) (m : dlb_cec_message)
    (upd : Bool) (h : addressed_to s m (identity_opcode upd))
    (hg : lip_can_handle_opcode_in_current_state s (identity_opcode upd) = true)
    (hn : ¬ spec_identity_accepted s m upd) :
    lip_cec_cmd_received (fuel + 1) now s m = some (s, 1) := by
  rw [received_identity fuel now s m upd h hg, report_lip_support_ignored now s m [] upd hn]
  rfl

theorem received_identity_taken (fuel now : Nat) (s : dlb_lip) (m : dlb_cec_message)
    (upd : Bool) (h : addressed_to s m (identity_opcode upd))
    (hg : lip_can_handle_opcode_in_current_state s (identity_opcode upd) = true)
    (ha : spec_identity_accepted s m upd) :
    ∃ s', lip_cec_cmd_received (fuel + 1) now s m = some (s', 1)
      ∧ s'.state = LIP_SUPPORTED
      ∧ s'.downstream_device_cfg
          = { logical_addr := m.initiator, uuid := report_uuid m,
              latency_cache := cache_after_identity s (report_uuid m) }
      ∧ s'.config_params = s.config_params ∧ s'.cec_bus = s.cec_bus
      ∧ s'.callbacks = s.callbacks
      ∧ s'.upstream_devices_addresses
          = (identity_accepted_core now s m upd).1.upstream_devices_addresses
      ∧ s'.pending_requests = (identity_accepted_core now s m upd).1.pending_requests
      ∧ s'.thread_signaled = (!upd || s.thread_signaled)
      ∧ s'.tx = s.tx ++
          (if lip_is_upstream_device_present (identity_accepted_core now s m upd).1 then
            build_upstream_reports s.cec_bus.logical_address
              (lip_get_uuid (identity_accepted_core now s m upd).1)
              (identity_accepted_core now s m upd).2 0
              (identity_accepted_core now s m upd).1.upstream_devices_addresses
          else []) := by
  obtain ⟨f1, f2, f3, f4, f5, f6, f7, f8, f9⟩ := identity_accepted_core_fields now s m upd
  refine ⟨_, by rw [received_identity fuel now s m upd h hg,
    report_lip_support_taken now s m [] upd ha]; rfl, ?_⟩
  generalize identity_accepted_core now s m upd = c at f1 f2 f3 f4 f5 f6 f7 f8 f9 ⊢
  cases upd <;> by_cases hp : lip_is_upstream_device_present c.1 = true
  all_goals
    simp only [finish_received, hp, Bool.not_false, Bool.not_true, if_true,
      Bool.false_eq_true, if_false, transmit_responses_state,
      transmit_responses_downstream_device_cfg, transmit_responses_config_params,
      transmit_responses_cec_bus, transmit_responses_callbacks,
      transmit_responses_upstream_devices_addresses, transmit_responses_pending_requests,
      transmit_responses_thread_signaled, transmit_responses_tx, List.nil_append,
      Bool.true_or, Bool.false_or, List.append_nil, f1, f2, f3, f4, f5, f6, f7]
    exact ⟨trivial, trivial, trivial, trivial, trivial, trivial, trivial, trivial, trivial⟩

/-! ## The cache after an accepted identity message -/

theorem cache_after_identity_same (s : dlb_lip) (uuid : Nat)
    (h : uuid = s.downstream_device_cfg.uuid) :
    cache_after_identity s uuid = s.downstream_device_cfg.latency_cache := by
  unfold cache_after_identity
  rw [if_neg (by simp [h])]

theorem cache_after_identity_full (s : dlb_lip) (uuid : Nat)
    (h : uuid ≠ s.downstream_device_cfg.uuid)
    (hr : (read_blob s uuid).1 % 2 ^ 32 = sizeof_latency_cache) :
    cache_after_identity s uuid = (read_blob s uuid).2 := by
  unfold cache_after_identity
  rw [if_pos h, if_neg (not_not.2 hr)]

theorem cache_after_identity_cleared (s : dlb_lip) (uuid : Nat)
    (h : uuid ≠ s.downstream_device_cfg.uuid)
    (hr : (read_blob s uuid).1 % 2 ^ 32 ≠ sizeof_latency_cache)
    (hb : (read_blob s uuid).2 = s.downstream_device_cfg.latency_cache) :
    cache_after_identity s uuid
      = dlb_cache_clear s.downstream_device_cfg.latency_cache
          (clear_audio_flag uuid s.downstream_device_cfg.uuid)
          (clear_video_flag uuid s.downstream_device_cfg.uuid) := by
  unfold cache_after_identity
  rw [if_pos h, if_pos hr, hb]

theorem read_blob_none (s : dlb_lip) (uuid : Nat)
    (h : s.callbacks.read_cache_callback.isNone = true) :
    read_blob s uuid = (0, s.downstream_device_cfg.latency_cache) := by
  unfold read_blob
  cases hc : s.callbacks.read_cache_callback with
  | none => rfl
  | some f => rw [hc] at h; exact absurd h (by simp)

theorem clear_audio_flag_iff (uuid old : Nat) :
    clear_audio_flag uuid old = true ↔
      (uuid &&& LIP_UUID_MASK) ≠ (old &&& LIP_UUID_MASK)
        ∨ (uuid &&& LIP_UUID_AUDIO_MASK) ≠ (old &&& LIP_UUID_AUDIO_MASK) := by
  unfold clear_audio_flag
  simp only [Bool.or_eq_true, decide_eq_true_eq]

theorem clear_video_flag_iff (uuid old : Nat) :
    clear_video_flag uuid old = true ↔
      (uuid &&& LIP_UUID_MASK) ≠ (old &&& LIP_UUID_MASK)
        ∨ (uuid &&& LIP_UUID_VIDEO_MASK) ≠ (old &&& LIP_UUID_VIDEO_MASK) := by
  unfold clear_video_flag
  simp only [Bool.or_eq_true, decide_eq_true_eq]

/-! ## The upstream array and the frames built from it -/

theorem build_upstream_reports_const (own : Int) (uuid : Nat) (fl : Int → Bool) (b : Bool)
    (hfl : ∀ i, fl i = b) (i : Int) (L : List Int) :
    build_upstream_reports own uuid fl i L
      = (L.filter (fun a => decide (a ≠ DLB_LOGICAL_ADDR_UNKNOWN))).map
          (fun a => dlb_lip_build_report_lip_support_cmd empty_msg own a LIP_PROTOCOL_VERSION
            uuid b) := by
  induction L generalizing i with
  | nil => rfl
  | cons a L ih =>
    unfold build_upstream_reports
    by_cases h : a ≠ DLB_LOGICAL_ADDR_UNKNOWN
    · rw [if_pos h, List.filter_cons_of_pos (by simpa using h), List.map_cons, ih, hfl]
    · rw [if_neg h, List.filter_cons_of_neg (by simpa using h), ih]

theorem answer_buffered_support_flags (L : List Int) (s : dlb_lip) (fl : Int → Bool)
    (hfl : ∀ i, fl i = false) : ∀ i, (answer_buffered_support L (s, fl)).2 i = false := by
  induction L generalizing s fl with
  | nil => exact hfl
  | cons a L ih =>
    unfold answer_buffered_support
    split_ifs
    · refine ih _ _ (fun i => ?_)
      by_cases e : i = a
      · rw [e, Function.update_same]
      · rw [Function.update_noteq e, hfl]
    · exact ih _ _ hfl

theorem answer_buffered_support_none (L : List Int) (s : dlb_lip) (fl : Int → Bool)
    (h : ∀ i ∈ L, ¬ ((s.pending_requests i).state ≠ LIP_MESSAGE_HANDLED
      ∧ lip_get_command_opcode (s.pending_requests i).msg = LIP_OPCODE_REQUEST_LIP_SUPPORT)) :
    answer_buffered_support L (s, fl) = (s, fl) := by
  induction L with
  | nil => rfl
  | cons a L ih =>
    unfold answer_buffered_support
    have ha := h a (List.mem_cons_self _ _)
    rw [if_neg (by
      intro c
      apply ha
      refine ⟨?_, c.2⟩
      have := c.1
      simpa [lip_is_request_pending] using this)]
    exact ih (fun i hi => h i (List.mem_cons_of_mem _ hi))

theorem upstream_add_mem (up : List Int) (a : Int)
    (h : ∃ x ∈ up, x = DLB_LOGICAL_ADDR_UNKNOWN ∨ x = a) : a ∈ upstream_add up a := by
  induction up with
  | nil => obtain ⟨x, hx, -⟩ := h; cases hx
  | cons x xs ih =>
    unfold upstream_add
    by_cases c : x = DLB_LOGICAL_ADDR_UNKNOWN ∨ x = a
    · rw [if_pos c]; exact List.mem_cons_self _ _
    · rw [if_neg c]
      obtain ⟨y, hy, hy'⟩ := h
      rcases List.mem_cons.1 hy with e | e
      · subst e; exact absurd hy' c
      · exact List.mem_cons_of_mem _ (ih ⟨y, e, hy'⟩)

theorem upstream_add_full (up : List Int) (a : Int)
    (h : ∀ x ∈ up, x ≠ DLB_LOGICAL_ADDR_UNKNOWN ∧ x ≠ a) : upstream_add up a = up := by
  induction up with
  | nil => rfl
  | cons x xs ih =>
    unfold upstream_add
    have hx := h x (List.mem_cons_self _ _)
    rw [if_neg (by intro c; rcases c with c | c; exact hx.1 c; exact hx.2 c),
      ih (fun y hy => h y (List.mem_cons_of_mem _ hy))]

theorem upstream_add_keeps (up : List Int) (a b : Int) (hb : b ≠ DLB_LOGICAL_ADDR_UNKNOWN)
    (h : b ∈ up) : b ∈ upstream_add up a := by
  induction up with
  | nil => cases h
  | cons x xs ih =>
    unfold upstream_add
    by_cases c : x = DLB_LOGICAL_ADDR_UNKNOWN ∨ x = a
    · rw [if_pos c]
      rcases List.mem_cons.1 h with e | e
      · rcases c with c | c
        · exact absurd (e.trans c) hb
        · rw [e, c]; exact List.mem_cons_self _ _
      · exact List.mem_cons_of_mem _ e
    · rw [if_neg c]
      rcases List.mem_cons.1 h with e | e
      · rw [e]; exact List.mem_cons_self _ _
      · exact List.mem_cons_of_mem _ (ih e)

theorem upstream_remove_other (up : List Int) (rm a : Int)
    (hrm : rm ≠ DLB_LOGICAL_ADDR_BROADCAST) (ha : a ≠ DLB_LOGICAL_ADDR_UNKNOWN) (hne : a ≠ rm) :
    a ∈ upstream_remove up rm ↔ a ∈ up := by
  induction up with
  | nil => rfl
  | cons x xs ih =>
    unfold upstream_remove
    by_cases c : rm = x ∨ rm = DLB_LOGICAL_ADDR_BROADCAST
    · rw [if_pos c]
      have hx : rm = x := by
        rcases c with c | c
        · exact c
        · exact absurd c hrm
      simp only [List.mem_cons]
      constructor
      · rintro (e | e)
        · exact absurd e ha
        · exact Or.inr e
      · rintro (e | e)
        · exact absurd (e.trans hx.symm) hne
        · exact Or.inr e
    · rw [if_neg c]
      simp only [List.mem_cons, ih]

theorem upstream_remove_gone (up : List Int) (rm : Int)
    (hu : rm ≠ DLB_LOGICAL_ADDR_UNKNOWN) (hrm : rm ≠ DLB_LOGICAL_ADDR_BROADCAST)
    (hc : up.count rm ≤ 1) : rm ∉ upstream_remove up rm := by
  induction up with
  | nil => simp [upstream_remove]
  | cons x xs ih =>
    unfold upstream_remove
    by_cases c : rm = x ∨ rm = DLB_LOGICAL_ADDR_BROADCAST
    · rw [if_pos c]
      simp only [List.mem_cons, not_or]
      refine ⟨hu, ?_⟩
      rcases c with c | c
      · subst c
        rw [List.count_cons_self] at hc
        exact List.count_eq_zero.1 (by omega)
      · exact absurd c hrm
    · rw [if_neg c]
      have hx : rm ≠ x := fun e => c (Or.inl e)
      rw [List.count_cons_of_ne hx] at hc
      simp only [List.mem_cons, not_or]
      exact ⟨hx, ih hc⟩

/-! ## REQUEST_LIP_SUPPORT in state SUPPORTED -/

theorem wire_report_lip_support (i d : Int) (ver uuid : Nat) (upd : Bool) :
    wire (dlb_lip_build_report_lip_support_cmd empty_msg i d ver uuid upd)
      = (i, d, DLB_CEC_OPCODE_VENDOR_COMMAND_WITH_ID,
          [0x00, 0xD0, 0x46,
            if upd then LIP_OPCODE_UPDATE_UUID else LIP_OPCODE_REPORT_LIP_SUPPORT,
            ver % 256, (uuid / 2 ^ 24) % 256 % 256, (uuid / 2 ^ 16) % 256 % 256,
            (uuid / 2 ^ 8) % 256 % 256, uuid % 256 % 256]) := by
  cases upd <;> rfl

theorem lip_get_uuid_eq (s : dlb_lip) (merge : Nat → Nat → Nat)
    (h : s.callbacks.merge_uuid_callback = some merge) :
    lip_get_uuid s
      = if s.downstream_device_cfg.uuid ≠ LIP_INVALID_UUID then
          merge s.config_params.uuid s.downstream_device_cfg.uuid % 2 ^ 32
        else s.config_params.uuid := by
  unfold lip_get_uuid
  rw [h]

theorem received_request_lip_support_supported (fuel now : Nat) (s : dlb_lip)
    (m : dlb_cec_message) (h : addressed_to s m LIP_OPCODE_REQUEST_LIP_SUPPORT)
    (hst : s.state = LIP_SUPPORTED) :
    lip_cec_cmd_received (fuel + 1) now s m
      = some (transmit_responses
          (lip_status_change_callback (lip_add_upstream_device s m.initiator))
          [dlb_lip_build_report_lip_support_cmd empty_msg s.cec_bus.logical_address
            m.initiator LIP_PROTOCOL_VERSION (lip_get_uuid s) false], 1) := by
  rw [received_request_lip_support fuel now s m h (can_handle_supported s _ hst (by decide))]
  unfold lip_handle_request_lip_support
  rw [if_pos hst]
  simp only [finish_received, if_true, List.nil_append, lip_status_change_callback_cec_bus,
    lip_add_upstream_device_cec_bus]

theorem register_peers_reachable (us : List Int) (s : dlb_lip) (h : Reachable s) :
    Reachable (register_peers us s) := by
  induction us generalizing s with
  | nil => exact h
  | cons u us ih => exact ih _ (after_request_lip_support_reachable u s h)

theorem S1_supported_reachable : Reachable S1_supported :=
  Reachable.step _ _
    (Reachable.opened S1_config scenario_callbacks scenario_bus 0 S1_opened rfl)
    (Step.worker 0 S1_opened ⟨0, false⟩)

theorem S1_full_reachable : Reachable S1_full :=
  register_peers_reachable _ _
    (after_request_lip_support_reachable 1 _ (after_remove_upstream_reachable 2 _
      (after_request_lip_support_reachable 1 _ (after_remove_upstream_reachable 3 _
        (after_request_lip_support_reachable 1 _ (after_remove_upstream_reachable 4 _
          (register_peers_reachable _ _ S1_supported_reachable)))))))

/-! ## Rediscovery through `dlb_lip_set_config` -/

theorem set_config_update_loop_fields (L : List Int) (s : dlb_lip) (ret : Int) :
    (set_config_update_loop L (s, ret)).1.state = s.state
      ∧ (set_config_update_loop L (s, ret)).1.downstream_device_cfg = s.downstream_device_cfg
      ∧ (set_config_update_loop L (s, ret)).1.thread_signaled = s.thread_signaled
      ∧ (set_config_update_loop L (s, ret)).1.condition_var_signals = s.condition_var_signals
      ∧ (set_config_update_loop L (s, ret)).1.upstream_devices_addresses
          = s.upstream_devices_addresses
      ∧ (set_config_update_loop L (s, ret)).1.config_params = s.config_params := by
  induction L generalizing s ret with
  | nil => exact ⟨rfl, rfl, rfl, rfl, rfl, rfl⟩
  | cons a L ih =>
    unfold set_config_update_loop
    split_ifs
    · exact ih (lip_transmit_report_lip_support s a (lip_get_uuid s) true).1
        (lip_transmit_report_lip_support s a (lip_get_uuid s) true).2
    · exact ih s ret

theorem set_config_eq_flags (s : dlb_lip) (p : Option dlb_lip_config_params) (f : Bool)
    (rm : Int) (h : p.isSome ∨ f = true ∨ rm ≠ DLB_LOGICAL_ADDR_UNKNOWN) :
    dlb_lip_set_config s p f rm
      = if (set_config_flags s p f rm).2.2.2 then
          set_config_apply (set_config_flags s p f rm).1
            (upstream_remove s.upstream_devices_addresses rm)
            (set_config_flags s p f rm).2.1 (set_config_flags s p f rm).2.2.1
        else ((set_config_flags s p f rm).1, 1) := by
  unfold dlb_lip_set_config set_config_flags
  rw [if_pos h]
  cases p <;> rfl

theorem set_config_flags_discovery (s : dlb_lip) (p : Option dlb_lip_config_params)
    (f : Bool) (rm : Int) :
    (set_config_flags s p f rm).2.1
      = (f || match p with
          | some q => decide (s.config_params.downstream_device_addr
              ≠ q.downstream_device_addr)
          | none => false) := by
  unfold set_config_flags
  cases p with
  | none => simp
  | some q =>
    show (set_config_check (lip_remove_upstream_device s rm) f q).2.1 = _
    unfold set_config_check
    lift_lets
    intros
    split_ifs <;> rfl

theorem set_config_flags_core (s : dlb_lip) (p : Option dlb_lip_config_params)
    (f : Bool) (rm : Int) :
    (set_config_flags s p f rm).1.condition_var_signals = s.condition_var_signals
      ∧ (set_config_flags s p f rm).1.upstream_devices_addresses
          = upstream_remove s.upstream_devices_addresses rm := by
  unfold set_config_flags
  cases p with
  | none => exact ⟨rfl, rfl⟩
  | some q =>
    show (set_config_check (lip_remove_upstream_device s rm) f q).1.condition_var_signals = _
      ∧ (set_config_check (lip_remove_upstream_device s rm) f q).1.upstream_devices_addresses
          = _
    unfold set_config_check
    lift_lets
    intros
    split_ifs <;> exact ⟨rfl, rfl⟩

theorem set_config_apply_rediscover (s2 : dlb_lip) (up : List Int) (u : Bool) :
    (set_config_apply s2 up true u).1.state = LIP_INIT
      ∧ (set_config_apply s2 up true u).1.downstream_device_cfg
          = { logical_addr := DLB_LOGICAL_ADDR_UNKNOWN, uuid := LIP_INVALID_UUID,
              latency_cache := dlb_cache_clear s2.downstream_device_cfg.latency_cache true true }
      ∧ (set_config_apply s2 up true u).1.thread_signaled = true
      ∧ (set_config_apply s2 up true u).1.condition_var_signals = s2.condition_var_signals + 1
      ∧ (set_config_apply s2 up true u).1.upstream_devices_addresses = up := by
  unfold set_config_apply
  lift_lets
  intro s3 s4
  have e4 : s4 = set_config_rediscover s3 up := rfl
  have h4 : s4.state = LIP_INIT
      ∧ s4.downstream_device_cfg
          = { logical_addr := DLB_LOGICAL_ADDR_UNKNOWN, uuid := LIP_INVALID_UUID,
              latency_cache := dlb_cache_clear s2.downstream_device_cfg.latency_cache true true }
      ∧ s4.thread_signaled = true
      ∧ s4.condition_var_signals = s2.condition_var_signals + 1
      ∧ s4.upstream_devices_addresses = up := by
    rw [e4]
    exact ⟨rfl, rfl, rfl, rfl, rfl⟩
  clear_value s4
  split_ifs
  · obtain ⟨a1, a2, a3, a4, a5, -⟩ :=
      set_config_update_loop_fields s4.upstream_devices_addresses s4 0
    rw [a1, a2, a3, a4, a5]
    exact h4
  · exact h4

theorem set_config_ret_zero_valid (s : dlb_lip) (p : Option dlb_lip_config_params) (f : Bool)
    (rm : Int) (h : (dlb_lip_set_config s p f rm).2 = 0) :
    (set_config_flags s p f rm).2.2.2 = true := by
  by_cases h0 : p.isSome ∨ f = true ∨ rm ≠ DLB_LOGICAL_ADDR_UNKNOWN
  · rw [set_config_eq_flags s p f rm h0] at h
    by_cases c : (set_config_flags s p f rm).2.2.2 = true
    · exact c
    · rw [if_neg c] at h
      exact absurd (show (1 : Int) = 0 from h) (by decide)
  · unfold dlb_lip_set_config at h
    rw [if_neg h0] at h
    exact absurd (show (1 : Int) = 0 from h) (by decide)

/-! ## The frames of the UUID propagation -/

theorem answer_buffered_support_upstream_keeps (L : List Int) (s : dlb_lip) (fl : Int → Bool)
    (a : Int) (ha : a ≠ DLB_LOGICAL_ADDR_UNKNOWN) (h : a ∈ s.upstream_devices_addresses) :
    a ∈ (answer_buffered_support L (s, fl)).1.upstream_devices_addresses := by
  induction L generalizing s fl with
  | nil => exact h
  | cons i L ih =>
    unfold answer_buffered_support
    split_ifs
    · exact ih _ _ (upstream_add_keeps _ _ a ha h)
    · exact ih _ _ h

theorem identity_accepted_core_flags (now : Nat) (s : dlb_lip) (m : dlb_cec_message)
    (upd : Bool)
    (hnb : upd = true → ∀ i ∈ slot_indices,
      ¬ ((s.pending_requests i).state ≠ LIP_MESSAGE_HANDLED
        ∧ lip_get_command_opcode (s.pending_requests i).msg = LIP_OPCODE_REQUEST_LIP_SUPPORT)) :
    ∀ i, (identity_accepted_core now s m upd).2 i = upd := by
  unfold identity_accepted_core
  lift_lets
  intro s1 src s2 r
  have hp : s2.pending_requests = s.pending_requests := by
    show s1.pending_requests = s.pending_requests
    simp only [s1]
    split_ifs
    · exact (rotate_cache_fields s _).2.2.2.2.2.1
    · rfl
  cases upd
  · exact answer_buffered_support_flags slot_indices s2 _ (fun _ => rfl)
  · intro i
    show r.2 i = true
    simp only [r]
    rw [answer_buffered_support_none slot_indices s2 _ (by rw [hp]; exact hnb rfl)]

theorem identity_accepted_core_upstream (now : Nat) (s : dlb_lip) (m : dlb_cec_message)
    (upd : Bool) :
    (∀ a ∈ s.upstream_devices_addresses, a ≠ DLB_LOGICAL_ADDR_UNKNOWN →
        a ∈ (identity_accepted_core now s m upd).1.upstream_devices_addresses)
      ∧ ((∀ i ∈ slot_indices,
          ¬ ((s.pending_requests i).state ≠ LIP_MESSAGE_HANDLED
            ∧ lip_get_command_opcode (s.pending_requests i).msg
              = LIP_OPCODE_REQUEST_LIP_SUPPORT)) →
        (identity_accepted_core now s m upd).1.upstream_devices_addresses
          = s.upstream_devices_addresses) := by
  unfold identity_accepted_core
  lift_lets
  intro s1 src s2 r
  have hp : s2.pending_requests = s.pending_requests := by
    show s1.pending_requests = s.pending_requests
    simp only [s1]
    split_ifs
    · exact (rotate_cache_fields s _).2.2.2.2.2.1
    · rfl
  have hu : s2.upstream_devices_addresses = s.upstream_devices_addresses := by
    show s1.upstream_devices_addresses = s.upstream_devices_addresses
    simp only [s1]
    split_ifs
    · exact (rotate_cache_fields s _).2.2.2.2.2.2.1
    · rfl
  simp only [lip_status_change_callback_upstream_devices_addresses,
    lip_reschedule_timer_upstream_devices_addresses]
  refine ⟨fun a ha hne => ?_, fun hnb => ?_⟩
  · exact answer_buffered_support_upstream_keeps slot_indices s2 _ a hne (by rw [hu]; exact ha)
  · simp only [r]
    rw [answer_buffered_support_none slot_indices s2 _ (by rw [hp]; exact hnb)]
    exact hu

theorem identity_accepted_core_uuid (now : Nat) (s : dlb_lip) (m : dlb_cec_message)
    (upd : Bool) (merge : Nat → Nat → Nat)
    (hm : s.callbacks.merge_uuid_callback = some merge) :
    lip_get_uuid (identity_accepted_core now s m upd).1
      = if report_uuid m ≠ LIP_INVALID_UUID then
          merge s.config_params.uuid (report_uuid m) % 2 ^ 32
        else s.config_params.uuid := by
  obtain ⟨-, f2, f3, -, f5, -⟩ := identity_accepted_core_fields now s m upd
  rw [lip_get_uuid_eq _ merge (by rw [f5]; exact hm), f2, f3]

theorem frames_to_peer (g : Int → dlb_cec_message) (hg : ∀ a, (g a).destination = a)
    (L : List Int) (U : Int) (hU : U ≠ DLB_LOGICAL_ADDR_UNKNOWN) :
    (((L.filter (fun a => decide (a ≠ DLB_LOGICAL_ADDR_UNKNOWN))).map g).filter
        (fun f => decide (f.destination = U)))
      = List.replicate (L.count U) (g U) := by
  induction L with
  | nil => rfl
  | cons a L ih =>
    by_cases ha : a = U
    · subst ha
      rw [List.filter_cons_of_pos (by simpa using hU), List.map_cons,
        List.filter_cons_of_pos (by simp [hg]), ih, List.count_cons_self,
        List.replicate_succ]
    · rw [List.count_cons_of_ne (fun e => ha e.symm)]
      by_cases hk : a = DLB_LOGICAL_ADDR_UNKNOWN
      · rw [List.filter_cons_of_neg (by simp [hk]), ih]
      · rw [List.filter_cons_of_pos (by simpa using hk), List.map_cons,
          List.filter_cons_of_neg (by simp [hg, ha]), ih]

theorem filter_of_not_present (up : List Int) (h : upstream_present up = false) :
    up.filter (fun a => decide (a ≠ DLB_LOGICAL_ADDR_UNKNOWN)) = [] := by
  unfold upstream_present at h
  rw [List.filter_eq_nil_iff]
  intro a ha
  have := List.any_eq_false.1 h a ha
  simpa using this

theorem received_identity_frames (fuel now : Nat) (s : dlb_lip) (m : dlb_cec_message)
    (upd : Bool) (merge : Nat → Nat → Nat)
    (h : addressed_to s m (identity_opcode upd))
    (hg : lip_can_handle_opcode_in_current_state s (identity_opcode upd) = true)
    (ha : spec_identity_accepted s m upd)
    (hm : s.callbacks.merge_uuid_callback = some merge)
    (hnb : upd = true → ∀ i ∈ slot_indices,
      ¬ ((s.pending_requests i).state ≠ LIP_MESSAGE_HANDLED
        ∧ lip_get_command_opcode (s.pending_requests i).msg = LIP_OPCODE_REQUEST_LIP_SUPPORT)) :
    ∃ s', lip_cec_cmd_received (fuel + 1) now s m = some (s', 1)
      ∧ s'.tx = s.tx ++
          (s'.upstream_devices_addresses.filter
            (fun a => decide (a ≠ DLB_LOGICAL_ADDR_UNKNOWN))).map
            (fun a => dlb_lip_build_report_lip_support_cmd empty_msg s.cec_bus.logical_address
              a LIP_PROTOCOL_VERSION
              (if report_uuid m ≠ LIP_INVALID_UUID then
                merge s.config_params.uuid (report_uuid m) % 2 ^ 32
              else s.config_params.uuid) upd)
      ∧ (upd = true → s'.upstream_devices_addresses = s.upstream_devices_addresses)
      ∧ (∀ a ∈ s.upstream_devices_addresses, a ≠ DLB_LOGICAL_ADDR_UNKNOWN →
          a ∈ s'.upstream_devices_addresses) := by
  obtain ⟨s', h1, -, -, -, -, -, h7, -, -, h10⟩ :=
    received_identity_taken fuel now s m upd h hg ha
  obtain ⟨k1, k2⟩ := identity_accepted_core_upstream now s m upd
  refine ⟨s', h1, ?_, ?_, ?_⟩
  · rw [h10, h7, identity_accepted_core_uuid now s m upd merge hm]
    by_cases hp : lip_is_upstream_device_present (identity_accepted_core now s m upd).1 = true
    · rw [if_pos hp, build_upstream_reports_const _ _ _ upd
        (identity_accepted_core_flags now s m upd hnb)]
    · rw [if_neg hp, filter_of_not_present _ (by simpa [lip_is_upstream_device_present] using hp)]
      rfl
  · intro hu
    rw [h7]
    exact k2 (hnb hu)
  · intro a ha' hne
    rw [h7]
    exact k1 a ha' hne

theorem S7_hub_reachable : Reachable S7_hub :=
  after_request_lip_support_reachable 1 _
    (reachable_core_of 0 10 _ _
      (Reachable.step _ _
        (Reachable.opened S2_config S7_callbacks scenario_bus 0 S7_opened rfl)
        (Step.worker 0 S7_opened ⟨0, false⟩)))

theorem TV_hub_reachable : Reachable TV_hub :=
  after_request_lip_support_reachable 4 _
    (after_request_lip_support_reachable 2 _
      (reachable_core_of 0 10 _ _
        (Reachable.step _ _
          (Reachable.opened TV_config S7_callbacks TV_bus 0 TV_opened rfl)
          (Step.worker 0 TV_opened ⟨0, false⟩))))

theorem TV_rediscovered_reachable : Reachable TV_rediscovered :=
  Reachable.step _ _
    (after_request_lip_support_reachable 1 _
      (Reachable.step _ _
        (Reachable.step _ _ TV_hub_reachable
          (Step.set_config TV_hub none true DLB_LOGICAL_ADDR_UNKNOWN))
        (Step.worker 100 _ ⟨0, false⟩)))
    (Step.worker 1100 _ _)

/-! ## The HDR byte -/

theorem hdr_decode_unknown (value : Nat) (base : dlb_lip_video_format)
    (hm : value ∉ [0, 1, 2, 3, 64, 65, 66, 67, 128, 129]) :
    get_hdr_mode_from_value_value value base =
      (1, { base with color_format := LIP_COLOR_FORMAT_COUNT,
                      hdr_mode := LIP_HDR_STATIC_COUNT }) := by
  simp only [List.mem_cons, List.mem_singleton, List.not_mem_nil, or_false, not_or] at hm
  obtain ⟨h0, h1, h2, h3, h4, h5, h6, h7, h8, h9⟩ := hm
  unfold get_hdr_mode_from_value_value
  rw [if_neg h0, if_neg h1, if_neg h2, if_neg h3, if_neg h4, if_neg h5, if_neg h6, if_neg h7,
    if_neg h8, if_neg h9]

theorem hdr_decode_known (value : Nat) (base : dlb_lip_video_format)
    (hm : value ∈ [0, 1, 2, 3, 64, 65, 66, 67, 128, 129]) :
    (get_hdr_mode_from_value_value value base).1 = 0
      ∧ get_value_from_hdr_mode_ndebug (get_hdr_mode_from_value_value value base).2 = value
      ∧ (get_hdr_mode_from_value_value value base).2.vic = base.vic
      ∧ (get_hdr_mode_from_value_value value base).2.color_format = value / 64
      ∧ (get_hdr_mode_from_value_value value base).2.hdr_mode = value % 64 := by
  simp only [List.mem_cons, List.mem_singleton, List.not_mem_nil, or_false] at hm
  rcases hm with h | h | h | h | h | h | h | h | h | h <;> subst h <;>
    exact ⟨rfl, rfl, rfl, rfl, rfl⟩

theorem hdr_encode (vic c m : Nat)
    (hv : (c = LIP_COLOR_FORMAT_HDR_STATIC ∧ m < 4) ∨ (c = LIP_COLOR_FORMAT_HDR_DYNAMIC ∧ m < 4)
      ∨ (c = LIP_COLOR_FORMAT_DOLBY_VISION ∧ m < 2)) :
    get_value_from_hdr_mode_ndebug ⟨vic, c, m⟩ = m + 64 * c
      ∧ m + 64 * c ∈ [0, 1, 2, 3, 64, 65, 66, 67, 128, 129] := by
  obtain ⟨cf, hm⟩ | ⟨cf, hm⟩ | ⟨cf, hm⟩ := hv
  · have h4 : m = 0 ∨ m = 1 ∨ m = 2 ∨ m = 3 := by omega
    subst cf
    rcases h4 with h | h | h | h <;> subst h <;> exact ⟨rfl, by decide⟩
  · have h4 : m = 0 ∨ m = 1 ∨ m = 2 ∨ m = 3 := by omega
    subst cf
    rcases h4 with h | h | h | h <;> subst h <;> exact ⟨rfl, by decide⟩
  · have h4 : m = 0 ∨ m = 1 := by omega
    subst cf
    rcases h4 with h | h <;> subst h <;> exact ⟨rfl, by decide⟩

theorem hdr_decode_encode (vic c m : Nat) (base : dlb_lip_video_format)
    (hv : (c = LIP_COLOR_FORMAT_HDR_STATIC ∧ m < 4) ∨ (c = LIP_COLOR_FORMAT_HDR_DYNAMIC ∧ m < 4)
      ∨ (c = LIP_COLOR_FORMAT_DOLBY_VISION ∧ m < 2)) :
    get_hdr_mode_from_value_value (get_value_from_hdr_mode_ndebug ⟨vic, c, m⟩) base
      = (0, { base with color_format := c, hdr_mode := m }) := by
  obtain ⟨cf, hm⟩ | ⟨cf, hm⟩ | ⟨cf, hm⟩ := hv
  · have h4 : m = 0 ∨ m = 1 ∨ m = 2 ∨ m = 3 := by omega
    subst cf
    rcases h4 with h | h | h | h <;> subst h <;> rfl
  · have h4 : m = 0 ∨ m = 1 ∨ m = 2 ∨ m = 3 := by omega
    subst cf
    rcases h4 with h | h | h | h <;> subst h <;> rfl
  · have h4 : m = 0 ∨ m = 1 := by omega
    subst cf
    rcases h4 with h | h <;> subst h <;> rfl

/-! ## The audio format on the wire -/

theorem ext_byte_arith : ∀ e < 32, ∀ st < 4,
    ((e % 256 * 4) ||| st) % 256 = (e <<< 2 ||| st)
      ∧ (e <<< 2 ||| st) % 4 = st ∧ (e <<< 2 ||| st) / 4 = e
      ∧ ((e <<< 2 ||| st) = 0 ↔ e = 0 ∧ st = 0) := by
  decide

theorem audio_format_valid_iff (af : dlb_lip_audio_format) :
    lip_is_audio_format_valid af = true ↔ af.codec < 32 ∧ af.subtype < 4 ∧ af.ext < 32 := by
  unfold lip_is_audio_format_valid
  simp only [IEC61937_AUDIO_CODECS, MAX_AUDIO_FORMAT_EXTENSIONS, IEC61937_SUBTYPES]
  split_ifs with h1 h2 h3 <;> simp <;> omega

theorem audio_ext_byte_eq (af : dlb_lip_audio_format) (hs : af.subtype < 4) (he : af.ext < 32) :
    audio_ext_byte af = (af.ext <<< 2 ||| af.subtype) :=
  (ext_byte_arith af.ext he af.subtype hs).1

theorem put_byte_byte (c : dlb_cec_message) (b i : Nat) :
    (put_byte c b).byte i =
      if i = c.msg_length ∧ i < c.data.length then b % 256 else c.byte i := by
  unfold put_byte dlb_cec_message.byte
  simp only [List.getD_eq_getElem?_getD, List.getElem?_set]
  by_cases h : c.msg_length = i
  · subst h
    by_cases h2 : c.msg_length < c.data.length
    · simp [h2]
    · simp [h2]
      rw [List.getElem?_eq_none (by omega)]
      rfl
  · have h3 : ¬ i = c.msg_length := fun e => h e.symm
    simp [h, h3]

theorem put_byte_msg_length (c : dlb_cec_message) (b : Nat) :
    (put_byte c b).msg_length = (c.msg_length + 1) % 256 := rfl

theorem put_byte_data_length (c : dlb_cec_message) (b : Nat) :
    (put_byte c b).data.length = c.data.length := by
  simp [put_byte]

theorem build_request_audio_latency_bytes (c : dlb_cec_message) (i d : Int)
    (af : dlb_lip_audio_format) (hl : c.data.length = CEC_BUS_MAX_MSG_LENGTH) :
    (dlb_lip_build_request_audio_latency c i d af).byte 4 = af.codec % 256
      ∧ (if af.ext ≠ 0 ∨ af.subtype ≠ IEC61937_SUBTYPE_0 then
          (dlb_lip_build_request_audio_latency c i d af).msg_length = 6
            ∧ (dlb_lip_build_request_audio_latency c i d af).byte 5
              = audio_ext_byte af % 256
        else (dlb_lip_build_request_audio_latency c i d af).msg_length = 5) := by
  unfold dlb_lip_build_request_audio_latency
  lift_lets
  intro c1 c2
  have hl64 : c.data.length = 64 := hl
  split_ifs <;>
    simp [c2, c1, put_byte_byte, put_byte_msg_length, put_byte_data_length,
      lip_init_cec_command, dlb_lip_set_dolby_vendor_id, hl64]

theorem build_request_av_latency_bytes (c : dlb_cec_message) (i d : Int)
    (vf : dlb_lip_video_format) (af : dlb_lip_audio_format)
    (hl : c.data.length = CEC_BUS_MAX_MSG_LENGTH) :
    (dlb_lip_build_request_av_latency_ndebug c i d vf af).byte 4 = vf.vic % 256
      ∧ (dlb_lip_build_request_av_latency_ndebug c i d vf af).byte 5
        = get_value_from_hdr_mode_ndebug vf % 256
      ∧ (dlb_lip_build_request_av_latency_ndebug c i d vf af).byte 6 = af.codec % 256
      ∧ (if af.ext ≠ 0 ∨ af.subtype ≠ IEC61937_SUBTYPE_0 then
          (dlb_lip_build_request_av_latency_ndebug c i d vf af).msg_length = 8
            ∧ (dlb_lip_build_request_av_latency_ndebug c i d vf af).byte 7
              = audio_ext_byte af % 256
        else (dlb_lip_build_request_av_latency_ndebug c i d vf af).msg_length = 7) := by
  unfold dlb_lip_build_request_av_latency_ndebug
  lift_lets
  intro c1 c2 c3 c4
  have hl64 : c.data.length = 64 := hl
  split_ifs <;>
    simp [c4, c3, c2, c1, put_byte_byte, put_byte_msg_length, put_byte_data_length,
      lip_init_cec_command, dlb_lip_set_dolby_vendor_id, hl64]

/-! ## The cache as a map -/

theorem cache_validate_video_iff (vf : dlb_lip_video_format) :
    dlb_cache_validate_video_params_ndebug vf = true ↔
      vf.vic < 219 ∧ ((vf.color_format = 0 ∧ vf.hdr_mode < 4)
        ∨ (vf.color_format = 1 ∧ vf.hdr_mode < 4) ∨ (vf.color_format = 2 ∧ vf.hdr_mode < 2)) := by
  unfold dlb_cache_validate_video_params_ndebug dlb_lip_get_hdr_mode_from_video_format_ndebug
  simp only [Bool.and_eq_true, decide_eq_true_eq, MAX_VICS, LIP_COLOR_FORMAT_COUNT,
    LIP_COLOR_FORMAT_HDR_STATIC, LIP_COLOR_FORMAT_HDR_DYNAMIC, LIP_COLOR_FORMAT_DOLBY_VISION,
    LIP_HDR_STATIC_COUNT, LIP_HDR_DYNAMIC_COUNT, LIP_HDR_DOLBY_VISION_COUNT,
    show HDR_MODES_COUNT = 4 from rfl]
  split_ifs <;> omega

theorem video_format_valid_iff (vf : dlb_lip_video_format) :
    lip_is_video_format_valid vf = true ↔
      vf.vic < 219 ∧ ((vf.color_format = 0 ∧ vf.hdr_mode < 4)
        ∨ (vf.color_format = 1 ∧ vf.hdr_mode < 4) ∨ (vf.color_format = 2 ∧ vf.hdr_mode < 2)) := by
  unfold lip_is_video_format_valid dlb_lip_get_hdr_mode_from_video_format_ndebug
  simp only [MAX_VICS, LIP_COLOR_FORMAT_COUNT,
    LIP_COLOR_FORMAT_HDR_STATIC, LIP_COLOR_FORMAT_HDR_DYNAMIC, LIP_COLOR_FORMAT_DOLBY_VISION,
    LIP_HDR_STATIC_COUNT, LIP_HDR_DYNAMIC_COUNT, LIP_HDR_DOLBY_VISION_COUNT,
    show HDR_MODES_COUNT = 4 from rfl]
  split_ifs <;> simp <;> omega

theorem hdr_mode_of_valid (vf : dlb_lip_video_format)
    (h : dlb_cache_validate_video_params_ndebug vf = true) :
    dlb_lip_get_hdr_mode_from_video_format_ndebug vf = vf.hdr_mode := by
  obtain ⟨-, h2⟩ := (cache_validate_video_iff vf).1 h
  unfold dlb_lip_get_hdr_mode_from_video_format_ndebug
  simp only [LIP_COLOR_FORMAT_HDR_STATIC, LIP_COLOR_FORMAT_HDR_DYNAMIC,
    LIP_COLOR_FORMAT_DOLBY_VISION, LIP_HDR_STATIC_COUNT, LIP_HDR_DYNAMIC_COUNT,
    LIP_HDR_DOLBY_VISION_COUNT, show HDR_MODES_COUNT = 4 from rfl]
  split_ifs <;> omega

theorem cache_validate_audio_iff (af : dlb_lip_audio_format) :
    dlb_cache_validate_audio_params af.codec af.subtype af.ext = true ↔
      af.codec < 32 ∧ af.subtype < 4 ∧ af.ext < 32 := by
  unfold dlb_cache_validate_audio_params
  simp only [Bool.and_eq_true, decide_eq_true_eq, IEC61937_AUDIO_CODECS, IEC61937_SUBTYPES,
    MAX_AUDIO_FORMAT_EXTENSIONS, and_assoc]

theorem cache_get_set_video_other (c : dlb_latency_cache) (f g : dlb_lip_video_format)
    (l d : Nat) (hne : g ≠ f) :
    dlb_cache_get_video_latency_ndebug (dlb_cache_set_video_latency_ndebug c f l) g d
      = dlb_cache_get_video_latency_ndebug c g d := by
  unfold dlb_cache_set_video_latency_ndebug
  by_cases hf : dlb_cache_validate_video_params_ndebug f = true
  swap
  · rw [if_neg hf]
  rw [if_pos hf]
  unfold dlb_cache_get_video_latency_ndebug
  by_cases hg : dlb_cache_validate_video_params_ndebug g = true
  swap
  · simp [hg]
  have hcell : ¬ (g.vic = f.vic ∧ g.color_format = f.color_format
      ∧ dlb_lip_get_hdr_mode_from_video_format_ndebug g = dlb_lip_get_hdr_mode_from_video_format_ndebug f) := by
    rw [hdr_mode_of_valid g hg, hdr_mode_of_valid f hf]
    rintro ⟨h1, h2, h3⟩
    apply hne
    rcases g with ⟨a, b, c⟩
    rcases f with ⟨a', b', c'⟩
    simp only at h1 h2 h3
    rw [h1, h2, h3]
  simp only [if_neg hcell]

theorem cache_get_set_audio_other (c : dlb_latency_cache) (f g : dlb_lip_audio_format)
    (l d : Nat) (hne : g ≠ f) :
    dlb_cache_get_audio_latency (dlb_cache_set_audio_latency c f l) g d
      = dlb_cache_get_audio_latency c g d := by
  unfold dlb_cache_set_audio_latency
  by_cases hf : dlb_cache_validate_audio_params f.codec f.subtype f.ext = true
  swap
  · rw [if_neg hf]
  rw [if_pos hf]
  unfold dlb_cache_get_audio_latency
  have hcell : ¬ (g.codec = f.codec ∧ g.subtype = f.subtype ∧ g.ext = f.ext) := by
    rintro ⟨h1, h2, h3⟩
    apply hne
    rcases g with ⟨a, b, c⟩
    rcases f with ⟨a', b', c'⟩
    simp only at h1 h2 h3
    rw [h1, h2, h3]
  simp only [if_neg hcell]

theorem cache_video_noop (c : dlb_latency_cache) (vf : dlb_lip_video_format) (l d : Nat)
    (h : dlb_cache_validate_video_params_ndebug vf = false) :
    dlb_cache_set_video_latency_ndebug c vf l = c
      ∧ dlb_cache_get_video_latency_ndebug c vf d = (false, d) := by
  unfold dlb_cache_set_video_latency_ndebug dlb_cache_get_video_latency_ndebug
  simp [h]

theorem cache_audio_noop (c : dlb_latency_cache) (af : dlb_lip_audio_format) (l d : Nat)
    (h : dlb_cache_validate_audio_params af.codec af.subtype af.ext = false) :
    dlb_cache_set_audio_latency c af l = c
      ∧ dlb_cache_get_audio_latency c af d = (false, d) := by
  unfold dlb_cache_set_audio_latency dlb_cache_get_audio_latency
  simp [h]

/-! ## The head of the dispatcher -/

theorem vendor_id_iff (m : dlb_cec_message) :
    lip_validate_cmd_vendor_id m = true ↔
      3 ≤ m.msg_length ∧ m.byte 0 = 0x00 ∧ m.byte 1 = 0xD0 ∧ m.byte 2 = 0x46 := by
  unfold lip_validate_cmd_vendor_id
  simp only [Bool.and_eq_true, decide_eq_true_eq, DOLBY_VENDOR_ID, List.getD_cons_zero,
    List.getD_cons_succ, and_assoc, ge_iff_le]
  constructor
  · rintro ⟨h0, h1, h2, h3⟩
    exact ⟨h0, h1.symm, h2.symm, h3.symm⟩
  · rintro ⟨h0, h1, h2, h3⟩
    exact ⟨h0, h1.symm, h2.symm, h3.symm⟩

theorem opcode_unknown_of_byte (m : dlb_cec_message)
    (h : m.msg_length < 4 ∨ ¬ (0x10 ≤ m.byte 3 ∧ m.byte 3 ≤ 0x18)) :
    lip_get_command_opcode m = LIP_OPCODES := by
  unfold lip_get_command_opcode
  lift_lets
  intro lip_opcode
  by_cases hk : lip_opcode = LIP_OPCODE_REQUEST_LIP_SUPPORT ∨ lip_opcode = LIP_OPCODE_UPDATE_UUID
      ∨ lip_opcode = LIP_OPCODE_REPORT_LIP_SUPPORT ∨ lip_opcode = LIP_OPCODE_REQUEST_AV_LATENCY
      ∨ lip_opcode = LIP_OPCODE_REPORT_AV_LATENCY ∨ lip_opcode = LIP_OPCODE_REQUEST_AUDIO_LATENCY
      ∨ lip_opcode = LIP_OPCODE_REPORT_AUDIO_LATENCY
      ∨ lip_opcode = LIP_OPCODE_REQUEST_VIDEO_LATENCY
      ∨ lip_opcode = LIP_OPCODE_REPORT_VIDEO_LATENCY
  swap
  · rw [if_neg hk]
  exfalso
  have hr : 0x10 ≤ lip_opcode ∧ lip_opcode ≤ 0x18 := by
    simp only [LIP_OPCODE_REQUEST_LIP_SUPPORT, LIP_OPCODE_UPDATE_UUID,
      LIP_OPCODE_REPORT_LIP_SUPPORT, LIP_OPCODE_REQUEST_AV_LATENCY,
      LIP_OPCODE_REPORT_AV_LATENCY, LIP_OPCODE_REQUEST_AUDIO_LATENCY,
      LIP_OPCODE_REPORT_AUDIO_LATENCY, LIP_OPCODE_REQUEST_VIDEO_LATENCY,
      LIP_OPCODE_REPORT_VIDEO_LATENCY] at hk
    omega
  by_cases hc : m.msg_length ≥ 4 ∧ DOLBY_VENDOR_ID.getD 0 0 = m.byte 0
      ∧ DOLBY_VENDOR_ID.getD 1 0 = m.byte 1 ∧ DOLBY_VENDOR_ID.getD 2 0 = m.byte 2
  · have e : lip_opcode = m.byte 3 := if_pos hc
    rw [e] at hr
    rcases h with h | h
    · omega
    · exact h hr
  · have e : lip_opcode = LIP_OPCODES := if_neg hc
    rw [e] at hr
    simp only [LIP_OPCODES] at hr
    omega

theorem opcode_known_iff (m : dlb_cec_message) :
    lip_get_command_opcode m ≠ LIP_OPCODES ↔
      4 ≤ m.msg_length ∧ m.byte 0 = 0x00 ∧ m.byte 1 = 0xD0 ∧ m.byte 2 = 0x46
        ∧ 0x10 ≤ m.byte 3 ∧ m.byte 3 ≤ 0x18 := by
  constructor
  · intro h
    have hv := (vendor_id_iff m).1 (vendor_id_of_known_opcode m h)
    have h4 : ¬ (m.msg_length < 4 ∨ ¬ (0x10 ≤ m.byte 3 ∧ m.byte 3 ≤ 0x18)) :=
      fun hc => h (opcode_unknown_of_byte m hc)
    rw [not_or, not_not] at h4
    exact ⟨by omega, hv.2.1, hv.2.2.1, hv.2.2.2, h4.2.1, h4.2.2⟩
  · rintro ⟨h0, h1, h2, h3, h4, h5⟩
    unfold lip_get_command_opcode
    lift_lets
    intro lip_opcode
    have e : lip_opcode = m.byte 3 :=
      if_pos ⟨h0, by rw [h1]; rfl, by rw [h2]; rfl, by rw [h3]; rfl⟩
    clear_value lip_opcode
    subst e
    have hk : m.byte 3 = LIP_OPCODE_REQUEST_LIP_SUPPORT ∨ m.byte 3 = LIP_OPCODE_UPDATE_UUID
        ∨ m.byte 3 = LIP_OPCODE_REPORT_LIP_SUPPORT ∨ m.byte 3 = LIP_OPCODE_REQUEST_AV_LATENCY
        ∨ m.byte 3 = LIP_OPCODE_REPORT_AV_LATENCY ∨ m.byte 3 = LIP_OPCODE_REQUEST_AUDIO_LATENCY
        ∨ m.byte 3 = LIP_OPCODE_REPORT_AUDIO_LATENCY
        ∨ m.byte 3 = LIP_OPCODE_REQUEST_VIDEO_LATENCY
        ∨ m.byte 3 = LIP_OPCODE_REPORT_VIDEO_LATENCY := by
      simp only [LIP_OPCODE_REQUEST_LIP_SUPPORT, LIP_OPCODE_UPDATE_UUID,
        LIP_OPCODE_REPORT_LIP_SUPPORT, LIP_OPCODE_REQUEST_AV_LATENCY,
        LIP_OPCODE_REPORT_AV_LATENCY, LIP_OPCODE_REQUEST_AUDIO_LATENCY,
        LIP_OPCODE_REPORT_AUDIO_LATENCY, LIP_OPCODE_REQUEST_VIDEO_LATENCY,
        LIP_OPCODE_REPORT_VIDEO_LATENCY]
      omega
    rw [if_pos hk]
    simp only [LIP_OPCODES]
    omega

theorem received_unknown_opcode (fuel now : Nat) (s : dlb_lip) (m : dlb_cec_message)
    (hop : m.opcode = DLB_CEC_OPCODE_VENDOR_COMMAND_WITH_ID)
    (hv : lip_validate_cmd_vendor_id m = true)
    (hu : lip_get_command_opcode m = LIP_OPCODES) :
    lip_cec_cmd_received (fuel + 1) now s m
      = some ((lip_transmit_wrapper s
          (abort_frame s m DLB_CEC_ABORT_REASON_UNRECOGNIZED_OPCODE)).1, 1) := by
  show lip_cec_cmd_received_body (lip_cec_cmd_received fuel now) now s m = _
  unfold lip_cec_cmd_received_body lip_cec_cmd_dispatch
  lift_lets
  intro own lip_opcode
  have hl : lip_opcode = LIP_OPCODES := hu
  rw [if_neg (by rw [hop]; decide), if_pos hop, if_pos hv, if_pos hl]
  rfl

theorem received_dropped (fuel now : Nat) (s : dlb_lip) (m : dlb_cec_message)
    (hop : m.opcode = DLB_CEC_OPCODE_VENDOR_COMMAND_WITH_ID)
    (hk : lip_get_command_opcode m ≠ LIP_OPCODES)
    (hd : m.destination = DLB_LOGICAL_ADDR_BROADCAST ∨ m.initiator = DLB_LOGICAL_ADDR_BROADCAST
      ∨ m.destination ≠ s.cec_bus.logical_address) :
    lip_cec_cmd_received (fuel + 1) now s m = some (s, 1) := by
  have hv := vendor_id_of_known_opcode m hk
  show lip_cec_cmd_received_body (lip_cec_cmd_received fuel now) now s m = _
  unfold lip_cec_cmd_received_body lip_cec_cmd_dispatch
  lift_lets
  intro own lip_opcode
  have hl : lip_opcode ≠ LIP_OPCODES := hk
  rw [if_neg (by rw [hop]; decide), if_pos hop, if_pos hv, if_neg hl]
  by_cases hb : m.destination = DLB_LOGICAL_ADDR_BROADCAST
      ∨ m.initiator = DLB_LOGICAL_ADDR_BROADCAST
  · rw [if_pos hb]
    rfl
  · rw [if_neg hb]
    have hne : m.destination ≠ own := by
      rcases hd with h | h | h
      · exact absurd (Or.inl h) hb
      · exact absurd (Or.inr h) hb
      · exact h
    rw [if_pos hne]
    rfl

theorem received_not_lip (fuel now : Nat) (s : dlb_lip) (m : dlb_cec_message)
    (h : (m.opcode ≠ DLB_CEC_OPCODE_FEATURE_ABORT
        ∧ m.opcode ≠ DLB_CEC_OPCODE_VENDOR_COMMAND_WITH_ID)
      ∨ (m.opcode = DLB_CEC_OPCODE_VENDOR_COMMAND_WITH_ID
        ∧ lip_validate_cmd_vendor_id m = false)) :
    lip_cec_cmd_received (fuel + 1) now s m = some (s, 0) := by
  show lip_cec_cmd_received_body (lip_cec_cmd_received fuel now) now s m = _
  unfold lip_cec_cmd_received_body lip_cec_cmd_dispatch
  lift_lets
  intro own lip_opcode
  rcases h with ⟨h1, h2⟩ | ⟨h1, h2⟩
  · rw [if_neg h1, if_neg h2]
    rfl
  · rw [if_neg (by rw [h1]; decide), if_pos h1, if_neg (by rw [h2]; decide)]
    rfl

/-! ## Format validation of the latency requests -/

theorem decode_video_valid_iff (m : dlb_cec_message) :
    lip_is_video_format_valid (decode_video_format m) = true ↔
      m.byte 4 < 219 ∧ m.byte 5 ∈ [0, 1, 2, 3, 64, 65, 66, 67, 128, 129] := by
  unfold decode_video_format
  by_cases hm : m.byte 5 ∈ [0, 1, 2, 3, 64, 65, 66, 67, 128, 129]
  · obtain ⟨-, -, h3, h4, h5⟩ :=
      hdr_decode_known (m.byte 5) { vic := m.byte 4, color_format := 0, hdr_mode := 0 } hm
    rw [video_format_valid_iff, h3, h4, h5]
    have hm2 := hm
    simp only [List.mem_cons, List.mem_singleton, List.not_mem_nil, or_false] at hm2
    constructor
    · intro h
      exact ⟨h.1, hm⟩
    · intro h
      refine ⟨h.1, ?_⟩
      omega
  · rw [hdr_decode_unknown _ _ hm]
    constructor
    · intro h
      rw [video_format_valid_iff] at h
      simp only [LIP_COLOR_FORMAT_COUNT] at h
      omega
    · intro h
      exact absurd h.2 hm

theorem decode_audio_valid_iff (m : dlb_cec_message) (k : Nat) :
    lip_is_audio_format_valid (decode_audio_format m k) = true ↔
      (decode_audio_format m k).codec < 32 ∧ (decode_audio_format m k).ext < 32 := by
  rw [audio_format_valid_iff]
  have hs : (decode_audio_format m k).subtype < 4 := by
    unfold decode_audio_format
    split_ifs
    · exact Nat.mod_lt _ (by decide)
    · show 0 < 4
      decide
  constructor
  · intro h
    exact ⟨h.1, h.2.2⟩
  · intro h
    exact ⟨h.1, hs, h.2⟩

theorem request_av_invalid (now : Nat) (s : dlb_lip) (m : dlb_cec_message)
    (rs : List dlb_cec_message) (force : Bool)
    (h : lip_is_audio_format_valid (decode_audio_format m 6) = false
      ∨ lip_is_video_format_valid (decode_video_format m) = false) :
    lip_handle_request_av_latency now s m rs force
      = (s, rs ++ [abort_frame s m DLB_CEC_ABORT_REASON_INVALID_OPERAND], true) := by
  unfold lip_handle_request_av_latency
  lift_lets
  intro vf af vr ar dp askv aska vt at_ afd v a vh ah s1 s2 s2' s3
  by_cases ha : lip_is_audio_format_valid af = true
  · have hv : lip_is_video_format_valid vf = false := by
      rcases h with h | h
      · exact absurd ha (by rw [h]; decide)
      · exact h
    rw [if_neg (by rw [ha]; decide), if_pos (by rw [hv]; rfl)]
    rfl
  · rw [if_pos (by rw [Bool.not_eq_true] at ha; rw [ha]; rfl)]
    rfl

theorem request_audio_invalid (now : Nat) (s : dlb_lip) (m : dlb_cec_message)
    (rs : List dlb_cec_message) (force : Bool)
    (h : lip_is_audio_format_valid (decode_audio_format m 4) = false) :
    lip_handle_request_audio_latency now s m rs force
      = (s, rs ++ [abort_frame s m DLB_CEC_ABORT_REASON_INVALID_OPERAND], true) := by
  unfold lip_handle_request_audio_latency
  lift_lets
  intro af ar dp ask at_ afd a s0 s1 s3
  rw [if_pos (by rw [show lip_is_audio_format_valid af = false from h]; rfl)]
  rfl

theorem request_video_invalid (now : Nat) (s : dlb_lip) (m : dlb_cec_message)
    (rs : List dlb_cec_message) (force : Bool)
    (h : lip_is_video_format_valid (decode_video_format m) = false) :
    lip_handle_request_video_latency now s m rs force
      = (s, rs ++ [abort_frame s m DLB_CEC_ABORT_REASON_INVALID_OPERAND], true) := by
  unfold lip_handle_request_video_latency
  lift_lets
  intro vf vr dp ask vt s0 v s1 s3
  rw [if_pos (by rw [show lip_is_video_format_valid vf = false from h]; rfl)]
  rfl

theorem request_av_valid_frames (now : Nat) (s : dlb_lip) (m : dlb_cec_message)
    (force : Bool)
    (ha : lip_is_audio_format_valid (decode_audio_format m 6) = true)
    (hv : lip_is_video_format_valid (decode_video_format m) = true) :
    ∀ f ∈ (lip_handle_request_av_latency now s m [] force).2.1,
      f.opcode = DLB_CEC_OPCODE_VENDOR_COMMAND_WITH_ID := by
  unfold lip_handle_request_av_latency
  lift_lets
  intro vf af vr ar dp askv aska vt at_ afd v a vh ah s1 s2 s2' s3
  rw [if_neg (by rw [show lip_is_audio_format_valid af = true from ha]; decide),
    if_neg (by rw [show lip_is_video_format_valid vf = true from hv]; decide)]
  split_ifs <;> simp

theorem request_audio_valid_frames (now : Nat) (s : dlb_lip) (m : dlb_cec_message)
    (force : Bool)
    (ha : lip_is_audio_format_valid (decode_audio_format m 4) = true) :
    ∀ f ∈ (lip_handle_request_audio_latency now s m [] force).2.1,
      f.opcode = DLB_CEC_OPCODE_VENDOR_COMMAND_WITH_ID := by
  unfold lip_handle_request_audio_latency
  lift_lets
  intro af ar dp ask at_ afd a s0 s1 s3
  rw [if_neg (by rw [show lip_is_audio_format_valid af = true from ha]; decide)]
  split_ifs <;> simp

theorem request_video_valid_frames (now : Nat) (s : dlb_lip) (m : dlb_cec_message)
    (force : Bool)
    (hv : lip_is_video_format_valid (decode_video_format m) = true) :
    ∀ f ∈ (lip_handle_request_video_latency now s m [] force).2.1,
      f.opcode = DLB_CEC_OPCODE_VENDOR_COMMAND_WITH_ID := by
  unfold lip_handle_request_video_latency
  lift_lets
  intro vf vr dp ask vt s0 v s1 s3
  rw [if_neg (by rw [show lip_is_video_format_valid vf = true from hv]; decide)]
  split_ifs <;> simp

theorem finish_received_frames (s : dlb_lip) (r : dlb_lip × List dlb_cec_message × Bool)
    (htx : r.1.tx = s.tx)
    (hf : ∀ f ∈ r.2.1, f.opcode = DLB_CEC_OPCODE_VENDOR_COMMAND_WITH_ID) :
    ∃ fs, (finish_received r).1.tx = s.tx ++ fs
      ∧ ∀ f ∈ fs, f.opcode ≠ DLB_CEC_OPCODE_FEATURE_ABORT := by
  unfold finish_received
  by_cases ht : r.2.2 = true
  · refine ⟨r.2.1, ?_, ?_⟩
    · simp only [ht, if_true, transmit_responses_tx, htx]
    · intro f hfm h
      rw [hf f hfm] at h
      exact absurd h (by decide)
  · refine ⟨[], ?_, by simp⟩
    simp only [ht, if_false, htx, List.append_nil]
    simp [htx]

/-! ## The public latency queries -/

theorem video_lookup_downstream (s : dlb_lip) (vf : dlb_lip_video_format) :
    lip_get_video_latency_from_cache s vf LIP_DOWNSTREAM_LATENCY =
      if (dlb_cache_get_video_latency_ndebug s.downstream_device_cfg.latency_cache vf
          LIP_INVALID_LATENCY).1 = true then
        (true, lip_sum_latencies 0
          (dlb_cache_get_video_latency_ndebug s.downstream_device_cfg.latency_cache vf
            LIP_INVALID_LATENCY).2)
      else (false, LIP_INVALID_LATENCY) := rfl

theorem audio_lookup_downstream (s : dlb_lip) (af afd : dlb_lip_audio_format) :
    lip_get_audio_latency_from_cache s af afd LIP_DOWNSTREAM_LATENCY =
      if (dlb_cache_get_audio_latency s.downstream_device_cfg.latency_cache afd
          LIP_INVALID_LATENCY).1 = true then
        (true, lip_sum_latencies 0
          (dlb_cache_get_audio_latency s.downstream_device_cfg.latency_cache afd
            LIP_INVALID_LATENCY).2)
      else (false, LIP_INVALID_LATENCY) := rfl

theorem video_lookup_downstream_miss (s : dlb_lip) (vf : dlb_lip_video_format)
    (h : (lip_get_video_latency_from_cache s vf LIP_DOWNSTREAM_LATENCY).1 ≠ true) :
    (lip_get_video_latency_from_cache s vf LIP_DOWNSTREAM_LATENCY).2 = LIP_INVALID_LATENCY := by
  rw [video_lookup_downstream] at h ⊢
  split_ifs at h ⊢ with hc
  · exact absurd rfl h
  · rfl

theorem audio_lookup_downstream_miss (s : dlb_lip) (af afd : dlb_lip_audio_format)
    (h : (lip_get_audio_latency_from_cache s af afd LIP_DOWNSTREAM_LATENCY).1 ≠ true) :
    (lip_get_audio_latency_from_cache s af afd LIP_DOWNSTREAM_LATENCY).2
      = LIP_INVALID_LATENCY := by
  rw [audio_lookup_downstream] at h ⊢
  split_ifs at h ⊢ with hc
  · exact absurd rfl h
  · rfl

theorem query_loop_last (round : Nat → dlb_lip → dlb_lip × query_round)
    (env : Nat → dlb_lip → dlb_lip) (P : query_round → Prop)
    (hP : ∀ k s, P (round k s).2) :
    ∀ (fuel k : Nat) (s : dlb_lip) (r : dlb_lip × query_round),
      query_loop round env fuel k s = some r → P r.2 := by
  intro fuel
  induction fuel with
  | zero =>
    intro k s r h
    simp [query_loop] at h
  | succ n ih =>
    intro k s r h
    unfold query_loop at h
    simp only at h
    cases hn : (round k s).2.next with
    | returned =>
      rw [hn] at h
      simp only [Option.some.injEq] at h
      rw [← h]
      exact hP k s
    | wait_for_slot =>
      rw [hn] at h
      exact ih _ _ _ h
    | wait_for_answer =>
      rw [hn] at h
      simp only at h
      split_ifs at h with hd
      · simp only [Option.some.injEq] at h
        rw [← h]
        exact hP k s
      · exact ih _ _ _ h
    | again =>
      rw [hn] at h
      exact ih _ _ _ h

theorem get_video_latency_round_fail (now : Nat) (s : dlb_lip) (vf : dlb_lip_video_format) :
    (dlb_lip_get_video_latency_round now s vf).2.ret ≠ 0 →
      (dlb_lip_get_video_latency_round now s vf).2.video_latency = LIP_INVALID_LATENCY := by
  unfold dlb_lip_get_video_latency_round
  lift_lets
  intro v command r
  by_cases hv : v.1 = true
  · rw [if_pos hv]
    intro h
    exact absurd rfl h
  · have h255 : v.2 = LIP_INVALID_LATENCY := video_lookup_downstream_miss s vf hv
    rw [if_neg hv]
    split_ifs <;> exact fun _ => h255

theorem get_audio_latency_round_fail (now : Nat) (s : dlb_lip) (af : dlb_lip_audio_format) :
    (dlb_lip_get_audio_latency_round now s af).2.ret ≠ 0 →
      (dlb_lip_get_audio_latency_round now s af).2.audio_latency = LIP_INVALID_LATENCY := by
  unfold dlb_lip_get_audio_latency_round
  lift_lets
  intro a command r
  by_cases ha : a.1 = true
  · rw [if_pos ha]
    intro h
    exact absurd rfl h
  · have h255 : a.2 = LIP_INVALID_LATENCY := audio_lookup_downstream_miss s af af ha
    rw [if_neg ha]
    split_ifs <;> exact fun _ => h255

theorem get_av_latency_round_fail (now : Nat) (s : dlb_lip) (vf : dlb_lip_video_format)
    (af : dlb_lip_audio_format) :
    (dlb_lip_get_av_latency_round now s vf af).2.ret ≠ 0 →
      (dlb_lip_get_av_latency_round now s vf af).2.video_latency = LIP_INVALID_LATENCY
        ∨ (dlb_lip_get_av_latency_round now s vf af).2.audio_latency = LIP_INVALID_LATENCY := by
  unfold dlb_lip_get_av_latency_round
  lift_lets
  intro v a command r
  by_cases hva : v.1 = true ∧ a.1 = true
  · rw [if_pos hva]
    intro h
    exact absurd rfl h
  · have h255 : v.2 = LIP_INVALID_LATENCY ∨ a.2 = LIP_INVALID_LATENCY := by
      by_cases hv : v.1 = true
      · have ha : ¬ a.1 = true := fun h => hva ⟨hv, h⟩
        exact Or.inr (audio_lookup_downstream_miss s af af ha)
      · exact Or.inl (video_lookup_downstream_miss s vf hv)
    rw [if_neg hva]
    split_ifs <;> exact fun _ => h255

theorem passes_decoder_checks_of_bytes (f : dlb_cec_message) (op : Nat)
    (ho : f.opcode = DLB_CEC_OPCODE_VENDOR_COMMAND_WITH_ID)
    (h0 : f.byte 0 = 0x00) (h1 : f.byte 1 = 0xD0) (h2 : f.byte 2 = 0x46) (h3 : f.byte 3 = op)
    (hop : 0x10 ≤ op ∧ op ≤ 0x18)
    (hmin : lip_get_command_min_length op ≤ f.msg_length) (h4 : 4 ≤ f.msg_length)
    (hmax : f.msg_length ≤ 9) : passes_decoder_checks f op := by
  refine ⟨ho, ?_, ?_, hmin, hmax⟩
  · unfold lip_validate_cmd_vendor_id
    rw [h0, h1, h2]
    have : f.msg_length ≥ 3 := by omega
    simp [DOLBY_VENDOR_ID, this]
  · unfold lip_get_command_opcode
    rw [h0, h1, h2, h3]
    have h4' : f.msg_length ≥ 4 := h4
    simp only [DOLBY_VENDOR_ID, List.getD_cons_zero, List.getD_cons_succ, h4', true_and,
      and_self, if_true]
    rw [if_pos]
    simp only [LIP_OPCODE_REQUEST_LIP_SUPPORT, LIP_OPCODE_UPDATE_UUID,
      LIP_OPCODE_REPORT_LIP_SUPPORT, LIP_OPCODE_REQUEST_AV_LATENCY,
      LIP_OPCODE_REPORT_AV_LATENCY, LIP_OPCODE_REQUEST_AUDIO_LATENCY,
      LIP_OPCODE_REPORT_AUDIO_LATENCY, LIP_OPCODE_REQUEST_VIDEO_LATENCY,
      LIP_OPCODE_REPORT_VIDEO_LATENCY]
    omega

theorem put_byte_opcode (c : dlb_cec_message) (b : Nat) :
    (put_byte c b).opcode = c.opcode := rfl

theorem put_byte_initiator (c : dlb_cec_message) (b : Nat) :
    (put_byte c b).initiator = c.initiator := rfl

theorem put_byte_destination (c : dlb_cec_message) (b : Nat) :
    (put_byte c b).destination = c.destination := rfl

theorem build_request_lip_support_checks (c : dlb_cec_message) (i d : Int)
    (hl : c.data.length = CEC_BUS_MAX_MSG_LENGTH) :
    passes_decoder_checks (dlb_lip_build_request_lip_support c i d)
        LIP_OPCODE_REQUEST_LIP_SUPPORT
      ∧ (dlb_lip_build_request_lip_support c i d).msg_length = 4 := by
  have hl64 : c.data.length = 64 := hl
  refine ⟨passes_decoder_checks_of_bytes _ _ ?_ ?_ ?_ ?_ ?_ (by decide) ?_ ?_ ?_, ?_⟩ <;>
    simp [dlb_lip_build_request_lip_support, put_byte_byte, put_byte_msg_length,
      put_byte_data_length, lip_init_cec_command, dlb_lip_set_dolby_vendor_id, hl64,
      lip_get_command_min_length, put_byte_opcode, LIP_OPCODE_REQUEST_LIP_SUPPORT,
      LIP_OPCODE_UPDATE_UUID, LIP_OPCODE_REPORT_LIP_SUPPORT, LIP_OPCODE_REQUEST_AV_LATENCY,
      LIP_OPCODE_REPORT_AV_LATENCY, LIP_OPCODE_REQUEST_AUDIO_LATENCY,
      LIP_OPCODE_REPORT_AUDIO_LATENCY, LIP_OPCODE_REQUEST_VIDEO_LATENCY,
      LIP_OPCODE_REPORT_VIDEO_LATENCY]

theorem build_request_av_latency_checks (c : dlb_cec_message) (i d : Int)
    (vf : dlb_lip_video_format) (af : dlb_lip_audio_format)
    (hl : c.data.length = CEC_BUS_MAX_MSG_LENGTH) :
    passes_decoder_checks (dlb_lip_build_request_av_latency_ndebug c i d vf af)
        LIP_OPCODE_REQUEST_AV_LATENCY
      ∧ (dlb_lip_build_request_av_latency_ndebug c i d vf af).msg_length
          = if af.ext ≠ 0 ∨ af.subtype ≠ IEC61937_SUBTYPE_0 then 8 else 7 := by
  have hl64 : c.data.length = 64 := hl
  unfold dlb_lip_build_request_av_latency_ndebug
  lift_lets
  intro c1 c2 c3 c4
  split_ifs <;>
  refine ⟨passes_decoder_checks_of_bytes _ _ ?_ ?_ ?_ ?_ ?_ (by decide) ?_ ?_ ?_, ?_⟩ <;>
    simp [c4, c3, c2, c1, put_byte_byte, put_byte_msg_length,
      put_byte_data_length, lip_init_cec_command, dlb_lip_set_dolby_vendor_id, hl64,
      lip_get_command_min_length, put_byte_opcode, LIP_OPCODE_REQUEST_LIP_SUPPORT,
      LIP_OPCODE_UPDATE_UUID, LIP_OPCODE_REPORT_LIP_SUPPORT, LIP_OPCODE_REQUEST_AV_LATENCY,
      LIP_OPCODE_REPORT_AV_LATENCY, LIP_OPCODE_REQUEST_AUDIO_LATENCY,
      LIP_OPCODE_REPORT_AUDIO_LATENCY, LIP_OPCODE_REQUEST_VIDEO_LATENCY,
      LIP_OPCODE_REPORT_VIDEO_LATENCY]

theorem build_request_audio_latency_checks (c : dlb_cec_message) (i d : Int)
    (af : dlb_lip_audio_format) (hl : c.data.length = CEC_BUS_MAX_MSG_LENGTH) :
    passes_decoder_checks (dlb_lip_build_request_audio_latency c i d af)
        LIP_OPCODE_REQUEST_AUDIO_LATENCY
      ∧ (dlb_lip_build_request_audio_latency c i d af).msg_length
          = if af.ext ≠ 0 ∨ af.subtype ≠ IEC61937_SUBTYPE_0 then 6 else 5 := by
  have hl64 : c.data.length = 64 := hl
  unfold dlb_lip_build_request_audio_latency
  lift_lets
  intro c1 c2
  split_ifs <;>
  refine ⟨passes_decoder_checks_of_bytes _ _ ?_ ?_ ?_ ?_ ?_ (by decide) ?_ ?_ ?_, ?_⟩ <;>
    simp [c2, c1, put_byte_byte, put_byte_msg_length,
      put_byte_data_length, lip_init_cec_command, dlb_lip_set_dolby_vendor_id, hl64,
      lip_get_command_min_length, put_byte_opcode, LIP_OPCODE_REQUEST_LIP_SUPPORT,
      LIP_OPCODE_UPDATE_UUID, LIP_OPCODE_REPORT_LIP_SUPPORT, LIP_OPCODE_REQUEST_AV_LATENCY,
      LIP_OPCODE_REPORT_AV_LATENCY, LIP_OPCODE_REQUEST_AUDIO_LATENCY,
      LIP_OPCODE_REPORT_AUDIO_LATENCY, LIP_OPCODE_REQUEST_VIDEO_LATENCY,
      LIP_OPCODE_REPORT_VIDEO_LATENCY]

theorem build_request_video_latency_checks (c : dlb_cec_message) (i d : Int)
    (vf : dlb_lip_video_format) (hl : c.data.length = CEC_BUS_MAX_MSG_LENGTH) :
    passes_decoder_checks (dlb_lip_build_request_video_latency_ndebug c i d vf)
        LIP_OPCODE_REQUEST_VIDEO_LATENCY
      ∧ (dlb_lip_build_request_video_latency_ndebug c i d vf).msg_length = 6 := by
  have hl64 : c.data.length = 64 := hl
  refine ⟨passes_decoder_checks_of_bytes _ _ ?_ ?_ ?_ ?_ ?_ (by decide) ?_ ?_ ?_, ?_⟩ <;>
    simp [dlb_lip_build_request_video_latency_ndebug, put_byte_byte, put_byte_msg_length,
      put_byte_data_length, lip_init_cec_command, dlb_lip_set_dolby_vendor_id, hl64,
      lip_get_command_min_length, put_byte_opcode, LIP_OPCODE_REQUEST_LIP_SUPPORT,
      LIP_OPCODE_UPDATE_UUID, LIP_OPCODE_REPORT_LIP_SUPPORT, LIP_OPCODE_REQUEST_AV_LATENCY,
      LIP_OPCODE_REPORT_AV_LATENCY, LIP_OPCODE_REQUEST_AUDIO_LATENCY,
      LIP_OPCODE_REPORT_AUDIO_LATENCY, LIP_OPCODE_REQUEST_VIDEO_LATENCY,
      LIP_OPCODE_REPORT_VIDEO_LATENCY]

theorem build_report_lip_support_checks (c : dlb_cec_message) (i d : Int)
    (version uuid : Nat) (update_uuid : Bool) (hl : c.data.length = CEC_BUS_MAX_MSG_LENGTH) :
    passes_decoder_checks (dlb_lip_build_report_lip_support_cmd c i d version uuid update_uuid)
        (if update_uuid then LIP_OPCODE_UPDATE_UUID else LIP_OPCODE_REPORT_LIP_SUPPORT)
      ∧ (dlb_lip_build_report_lip_support_cmd c i d version uuid update_uuid).msg_length
          = 9 := by
  have hl64 : c.data.length = 64 := hl
  cases update_uuid <;>
  refine ⟨passes_decoder_checks_of_bytes _ _ ?_ ?_ ?_ ?_ ?_ (by decide) ?_ ?_ ?_, ?_⟩ <;>
    simp [dlb_lip_build_report_lip_support_cmd, put_byte_byte, put_byte_msg_length,
      put_byte_data_length, lip_init_cec_command, dlb_lip_set_dolby_vendor_id, hl64,
      lip_get_command_min_length, put_byte_opcode, LIP_OPCODE_REQUEST_LIP_SUPPORT,
      LIP_OPCODE_UPDATE_UUID, LIP_OPCODE_REPORT_LIP_SUPPORT, LIP_OPCODE_REQUEST_AV_LATENCY,
      LIP_OPCODE_REPORT_AV_LATENCY, LIP_OPCODE_REQUEST_AUDIO_LATENCY,
      LIP_OPCODE_REPORT_AUDIO_LATENCY, LIP_OPCODE_REQUEST_VIDEO_LATENCY,
      LIP_OPCODE_REPORT_VIDEO_LATENCY]

theorem build_report_av_latency_checks (c : dlb_cec_message) (i d : Int)
    (v a : Nat) (hl : c.data.length = CEC_BUS_MAX_MSG_LENGTH) :
    passes_decoder_checks (dlb_lip_build_report_av_latency_cmd c i d v a)
        LIP_OPCODE_REPORT_AV_LATENCY
      ∧ (dlb_lip_build_report_av_latency_cmd c i d v a).msg_length = 6 := by
  have hl64 : c.data.length = 64 := hl
  refine ⟨passes_decoder_checks_of_bytes _ _ ?_ ?_ ?_ ?_ ?_ (by decide) ?_ ?_ ?_, ?_⟩ <;>
    simp [dlb_lip_build_report_av_latency_cmd, put_byte_byte, put_byte_msg_length,
      put_byte_data_length, lip_init_cec_command, dlb_lip_set_dolby_vendor_id, hl64,
      lip_get_command_min_length, put_byte_opcode, LIP_OPCODE_REQUEST_LIP_SUPPORT,
      LIP_OPCODE_UPDATE_UUID, LIP_OPCODE_REPORT_LIP_SUPPORT, LIP_OPCODE_REQUEST_AV_LATENCY,
      LIP_OPCODE_REPORT_AV_LATENCY, LIP_OPCODE_REQUEST_AUDIO_LATENCY,
      LIP_OPCODE_REPORT_AUDIO_LATENCY, LIP_OPCODE_REQUEST_VIDEO_LATENCY,
      LIP_OPCODE_REPORT_VIDEO_LATENCY]

theorem build_report_audio_latency_checks (c : dlb_cec_message) (i d : Int)
    (a : Nat) (hl : c.data.length = CEC_BUS_MAX_MSG_LENGTH) :
    passes_decoder_checks (dlb_lip_build_report_audio_latency_cmd c i d a)
        LIP_OPCODE_REPORT_AUDIO_LATENCY
      ∧ (dlb_lip_build_report_audio_latency_cmd c i d a).msg_length = 5 := by
  have hl64 : c.data.length = 64 := hl
  refine ⟨passes_decoder_checks_of_bytes _ _ ?_ ?_ ?_ ?_ ?_ (by decide) ?_ ?_ ?_, ?_⟩ <;>
    simp [dlb_lip_build_report_audio_latency_cmd, put_byte_byte, put_byte_msg_length,
      put_byte_data_length, lip_init_cec_command, dlb_lip_set_dolby_vendor_id, hl64,
      lip_get_command_min_length, put_byte_opcode, LIP_OPCODE_REQUEST_LIP_SUPPORT,
      LIP_OPCODE_UPDATE_UUID, LIP_OPCODE_REPORT_LIP_SUPPORT, LIP_OPCODE_REQUEST_AV_LATENCY,
      LIP_OPCODE_REPORT_AV_LATENCY, LIP_OPCODE_REQUEST_AUDIO_LATENCY,
      LIP_OPCODE_REPORT_AUDIO_LATENCY, LIP_OPCODE_REQUEST_VIDEO_LATENCY,
      LIP_OPCODE_REPORT_VIDEO_LATENCY]

theorem build_report_video_latency_checks (c : dlb_cec_message) (i d : Int)
    (v : Nat) (hl : c.data.length = CEC_BUS_MAX_MSG_LENGTH) :
    passes_decoder_checks (dlb_lip_build_report_video_latency_cmd c i d v)
        LIP_OPCODE_REPORT_VIDEO_LATENCY
      ∧ (dlb_lip_build_report_video_latency_cmd c i d v).msg_length = 5 := by
  have hl64 : c.data.length = 64 := hl
  refine ⟨passes_decoder_checks_of_bytes _ _ ?_ ?_ ?_ ?_ ?_ (by decide) ?_ ?_ ?_, ?_⟩ <;>
    simp [dlb_lip_build_report_video_latency_cmd, put_byte_byte, put_byte_msg_length,
      put_byte_data_length, lip_init_cec_command, dlb_lip_set_dolby_vendor_id, hl64,
      lip_get_command_min_length, put_byte_opcode, LIP_OPCODE_REQUEST_LIP_SUPPORT,
      LIP_OPCODE_UPDATE_UUID, LIP_OPCODE_REPORT_LIP_SUPPORT, LIP_OPCODE_REQUEST_AV_LATENCY,
      LIP_OPCODE_REPORT_AV_LATENCY, LIP_OPCODE_REQUEST_AUDIO_LATENCY,
      LIP_OPCODE_REPORT_AUDIO_LATENCY, LIP_OPCODE_REQUEST_VIDEO_LATENCY,
      LIP_OPCODE_REPORT_VIDEO_LATENCY]

theorem build_abort_frame (c : dlb_cec_message) (i d : Int) (opcode reason : Nat)
    (hl : c.data.length = CEC_BUS_MAX_MSG_LENGTH) :
    (lip_build_abort_cec_command c i d opcode reason).opcode = DLB_CEC_OPCODE_FEATURE_ABORT
      ∧ (lip_build_abort_cec_command c i d opcode reason).msg_length = 2
      ∧ (lip_build_abort_cec_command c i d opcode reason).byte 0 = opcode % 256
      ∧ (lip_build_abort_cec_command c i d opcode reason).byte 1 = reason % 256
      ∧ (lip_build_abort_cec_command c i d opcode reason).initiator = i
      ∧ (lip_build_abort_cec_command c i d opcode reason).destination = d := by
  have hl64 : c.data.length = 64 := hl
  refine ⟨?_, ?_, ?_, ?_, ?_, ?_⟩ <;>
    simp [lip_build_abort_cec_command, put_byte_byte, put_byte_msg_length,
      put_byte_data_length, hl64, put_byte_opcode, put_byte_initiator,
      put_byte_destination]

/-! ## The upstream array under add and remove -/

theorem upstream_packed_of_unknown (up : List Int)
    (h : ∀ y ∈ up, y = DLB_LOGICAL_ADDR_UNKNOWN) : upstream_packed up := by
  cases up with
  | nil => trivial
  | cons x xs =>
    unfold upstream_packed
    rw [if_pos (h x (List.mem_cons_self _ _))]
    exact fun y hy => h y (List.mem_cons_of_mem _ hy)

theorem upstream_add_subset (up : List Int) (a y : Int) (h : y ∈ upstream_add up a) :
    y = a ∨ y ∈ up := by
  induction up with
  | nil => cases h
  | cons x xs ih =>
    unfold upstream_add at h
    by_cases c : x = DLB_LOGICAL_ADDR_UNKNOWN ∨ x = a
    · rw [if_pos c] at h
      rcases List.mem_cons.1 h with e | e
      · exact Or.inl e
      · exact Or.inr (List.mem_cons_of_mem _ e)
    · rw [if_neg c] at h
      rcases List.mem_cons.1 h with e | e
      · exact Or.inr (e ▸ List.mem_cons_self _ _)
      · rcases ih e with e' | e'
        · exact Or.inl e'
        · exact Or.inr (List.mem_cons_of_mem _ e')

theorem upstream_add_packed (up : List Int) (a : Int) (ha : a ≠ DLB_LOGICAL_ADDR_UNKNOWN)
    (h : upstream_packed up) : upstream_packed (upstream_add up a) := by
  induction up with
  | nil => trivial
  | cons x xs ih =>
    unfold upstream_packed at h
    unfold upstream_add
    by_cases cx : x = DLB_LOGICAL_ADDR_UNKNOWN
    · rw [if_pos cx] at h
      rw [if_pos (Or.inl cx)]
      unfold upstream_packed
      rw [if_neg ha]
      exact ⟨fun m => ha (h a m), upstream_packed_of_unknown xs h⟩
    · rw [if_neg cx] at h
      by_cases ca : x = a
      · rw [if_pos (Or.inr ca)]
        unfold upstream_packed
        rw [if_neg ha]
        exact ⟨ca ▸ h.1, h.2⟩
      · rw [if_neg (by intro c; rcases c with c | c; exact cx c; exact ca c)]
        unfold upstream_packed
        rw [if_neg cx]
        refine ⟨fun m => ?_, ih h.2⟩
        rcases upstream_add_subset xs a x m with e | e
        · exact ca e
        · exact h.1 e

theorem upstream_packed_no_duplicates (up : List Int) (h : upstream_packed up) :
    upstream_no_duplicates up := by
  induction up with
  | nil => intro a _; simp
  | cons x xs ih =>
    unfold upstream_packed at h
    intro a ha
    by_cases cx : x = DLB_LOGICAL_ADDR_UNKNOWN
    · rw [if_pos cx] at h
      have hx : a ≠ x := fun e => ha (e.trans cx)
      rw [List.count_cons_of_ne hx]
      have : xs.count a = 0 := List.count_eq_zero.2 (fun m => ha (h a m))
      omega
    · rw [if_neg cx] at h
      by_cases e : a = x
      · subst e
        rw [List.count_cons_self]
        have : xs.count a = 0 := List.count_eq_zero.2 h.1
        omega
      · rw [List.count_cons_of_ne e]
        exact ih h.2 a ha

theorem upstream_remove_count_le (up : List Int) (rm a : Int)
    (ha : a ≠ DLB_LOGICAL_ADDR_UNKNOWN) :
    (upstream_remove up rm).count a ≤ up.count a := by
  induction up with
  | nil => simp [upstream_remove]
  | cons x xs ih =>
    unfold upstream_remove
    by_cases c : rm = x ∨ rm = DLB_LOGICAL_ADDR_BROADCAST
    · rw [if_pos c, List.count_cons_of_ne ha]
      exact List.count_le_count_cons _ _ _
    · rw [if_neg c]
      by_cases e : a = x
      · subst e
        rw [List.count_cons_self, List.count_cons_self]
        omega
      · rw [List.count_cons_of_ne e, List.count_cons_of_ne e]
        exact ih

theorem upstream_adds_packed (adds : List Int)
    (h : ∀ a ∈ adds, a ≠ DLB_LOGICAL_ADDR_UNKNOWN) (up : List Int)
    (hp : upstream_packed up) : upstream_packed (adds.foldl upstream_add up) := by
  induction adds generalizing up with
  | nil => exact hp
  | cons a as ih =>
    exact ih (fun b hb => h b (List.mem_cons_of_mem _ hb)) _
      (upstream_add_packed up a (h a (List.mem_cons_self _ _)) hp)

theorem upstream_removes_no_duplicates (removes : List Int) (up : List Int)
    (hp : upstream_no_duplicates up) :
    upstream_no_duplicates (removes.foldl upstream_remove up) := by
  induction removes generalizing up with
  | nil => exact hp
  | cons r rs ih =>
    exact ih _ (fun a ha => le_trans (upstream_remove_count_le up r a ha) (hp a ha))

/-! ## The timeout computed by `lip_reschedule_timer` -/

theorem reschedule_fold (s : dlb_lip) (now : Nat) (L : List Int) (acc : Nat) :
    L.foldl
        (fun timeout_ms i =>
          if (s.pending_requests i).state = LIP_MESSAGE_SENT then
            if timeout_ms > msg_timeout_ms s now i then msg_timeout_ms s now i else timeout_ms
          else timeout_ms) acc ≤ acc
      ∧ (∀ i ∈ L, (s.pending_requests i).state = LIP_MESSAGE_SENT →
          L.foldl
            (fun timeout_ms i =>
              if (s.pending_requests i).state = LIP_MESSAGE_SENT then
                if timeout_ms > msg_timeout_ms s now i then msg_timeout_ms s now i
                else timeout_ms
              else timeout_ms) acc ≤ msg_timeout_ms s now i)
      ∧ (L.foldl
            (fun timeout_ms i =>
              if (s.pending_requests i).state = LIP_MESSAGE_SENT then
                if timeout_ms > msg_timeout_ms s now i then msg_timeout_ms s now i
                else timeout_ms
              else timeout_ms) acc = acc
          ∨ ∃ i ∈ L, (s.pending_requests i).state = LIP_MESSAGE_SENT
              ∧ L.foldl
                (fun timeout_ms i =>
                  if (s.pending_requests i).state = LIP_MESSAGE_SENT then
                    if timeout_ms > msg_timeout_ms s now i then msg_timeout_ms s now i
                    else timeout_ms
                  else timeout_ms) acc = msg_timeout_ms s now i) := by
  induction L generalizing acc with
  | nil => exact ⟨le_refl _, fun i hi _ => absurd hi (List.not_mem_nil i), Or.inl rfl⟩
  | cons x xs ih =>
    simp only [List.foldl_cons]
    by_cases hx : (s.pending_requests x).state = LIP_MESSAGE_SENT
    · rw [if_pos hx]
      by_cases hg : acc > msg_timeout_ms s now x
      · rw [if_pos hg]
        obtain ⟨a1, a2, a3⟩ := ih (msg_timeout_ms s now x)
        refine ⟨by omega, fun i hi hs => ?_, ?_⟩
        · rcases List.mem_cons.1 hi with e | e
          · rw [e]; exact a1
          · exact a2 i e hs
        · rcases a3 with e | ⟨i, hi, hs, e⟩
          · exact Or.inr ⟨x, List.mem_cons_self _ _, hx, e⟩
          · exact Or.inr ⟨i, List.mem_cons_of_mem _ hi, hs, e⟩
      · rw [if_neg hg]
        obtain ⟨a1, a2, a3⟩ := ih acc
        refine ⟨a1, fun i hi hs => ?_, ?_⟩
        · rcases List.mem_cons.1 hi with e | e
          · rw [e]; omega
          · exact a2 i e hs
        · rcases a3 with e | ⟨i, hi, hs, e⟩
          · exact Or.inl e
          · exact Or.inr ⟨i, List.mem_cons_of_mem _ hi, hs, e⟩
    · rw [if_neg hx]
      obtain ⟨a1, a2, a3⟩ := ih acc
      refine ⟨a1, fun i hi hs => ?_, ?_⟩
      · rcases List.mem_cons.1 hi with e | e
        · rw [e] at hs; exact absurd hs hx
        · exact a2 i e hs
      · rcases a3 with e | ⟨i, hi, hs, e⟩
        · exact Or.inl e
        · exact Or.inr ⟨i, List.mem_cons_of_mem _ hi, hs, e⟩

theorem reschedule_fold_none (s : dlb_lip) (now : Nat) (L : List Int) (acc : Nat)
    (h : ∀ i ∈ L, (s.pending_requests i).state ≠ LIP_MESSAGE_SENT) :
    L.foldl
        (fun timeout_ms i =>
          if (s.pending_requests i).state = LIP_MESSAGE_SENT then
            if timeout_ms > msg_timeout_ms s now i then msg_timeout_ms s now i else timeout_ms
          else timeout_ms) acc = acc := by
  induction L generalizing acc with
  | nil => rfl
  | cons x xs ih =>
    simp only [List.foldl_cons]
    rw [if_neg (h x (List.mem_cons_self _ _))]
    exact ih acc (fun i hi => h i (List.mem_cons_of_mem _ hi))

/-- The function `lip_reschedule_timer` on a running timer, when the remaining time of
every SENT slot is below the infinite timeout: afterwards the timer satisfies the
deadline invariant for the (unchanged) pending table, and the core holds the callback id
of the armed timer. -/
theorem lip_reschedule_timer_spec (s : dlb_lip) (now : Nat)
    (hrun : s.timer.is_running = true)
    (hexp : ∀ i ∈ slot_indices, (s.pending_requests i).state = LIP_MESSAGE_SENT →
      (s.pending_requests i).expire_time_ms < now + LIP_OSA_INFINITE_TIMEOUT) :
    spec_timer_invariant (lip_reschedule_timer s now) now
      ∧ (lip_reschedule_timer s now).pending_requests = s.pending_requests
      ∧ ((∃ i ∈ slot_indices, (s.pending_requests i).state = LIP_MESSAGE_SENT) →
          (lip_reschedule_timer s now).callback_id
            = (lip_reschedule_timer s now).timer.callback_id) := by
  have hrem : ∀ i ∈ slot_indices, (s.pending_requests i).state = LIP_MESSAGE_SENT →
      msg_timeout_ms s now i = (s.pending_requests i).expire_time_ms - now
        ∧ msg_timeout_ms s now i < LIP_OSA_INFINITE_TIMEOUT := by
    intro i hi hs
    have := hexp i hi hs
    unfold msg_timeout_ms
    simp only [LIP_OSA_INFINITE_TIMEOUT] at *
    split_ifs <;> omega
  obtain ⟨f1, f2, f3⟩ := reschedule_fold s now slot_indices LIP_OSA_INFINITE_TIMEOUT
  have hdef : lip_reschedule_timer s now =
      if slot_indices.foldl
          (fun timeout_ms i =>
            if (s.pending_requests i).state = LIP_MESSAGE_SENT then
              if timeout_ms > msg_timeout_ms s now i then msg_timeout_ms s now i
              else timeout_ms
            else timeout_ms) LIP_OSA_INFINITE_TIMEOUT ≠ LIP_OSA_INFINITE_TIMEOUT then
        { s with
          timer := (dlb_lip_osa_set_timer s.timer (slot_indices.foldl
            (fun timeout_ms i =>
              if (s.pending_requests i).state = LIP_MESSAGE_SENT then
                if timeout_ms > msg_timeout_ms s now i then msg_timeout_ms s now i
                else timeout_ms
              else timeout_ms) LIP_OSA_INFINITE_TIMEOUT)).1,
          callback_id := (dlb_lip_osa_set_timer s.timer (slot_indices.foldl
            (fun timeout_ms i =>
              if (s.pending_requests i).state = LIP_MESSAGE_SENT then
                if timeout_ms > msg_timeout_ms s now i then msg_timeout_ms s now i
                else timeout_ms
              else timeout_ms) LIP_OSA_INFINITE_TIMEOUT)).2 }
      else { s with timer := dlb_lip_osa_cancel_timer s.timer } := rfl
  rw [hdef]
  generalize slot_indices.foldl
          (fun timeout_ms i =>
            if (s.pending_requests i).state = LIP_MESSAGE_SENT then
              if timeout_ms > msg_timeout_ms s now i then msg_timeout_ms s now i
              else timeout_ms
            else timeout_ms) LIP_OSA_INFINITE_TIMEOUT = t at f1 f2 f3 ⊢
  by_cases hany : ∃ i ∈ slot_indices, (s.pending_requests i).state = LIP_MESSAGE_SENT
  · obtain ⟨j, hj, hjs⟩ := hany
    have htj := f2 j hj hjs
    have hlt : t ≠ LIP_OSA_INFINITE_TIMEOUT := by
      have := (hrem j hj hjs).2
      omega
    rw [if_pos hlt]
    have hatt : ∃ i ∈ slot_indices, (s.pending_requests i).state = LIP_MESSAGE_SENT
        ∧ t = msg_timeout_ms s now i := by
      rcases f3 with e | e
      · exact absurd e hlt
      · exact e
    refine ⟨⟨?_, ?_, ?_⟩, rfl, fun _ => ?_⟩
    · simp only [dlb_lip_osa_set_timer, hrun, if_true]
      exact ⟨fun _ => ⟨j, hj, hjs⟩, fun _ => hlt⟩
    · intro i hi hs
      simp only [dlb_lip_osa_set_timer, hrun, if_true]
      rw [← (hrem i hi hs).1]
      exact f2 i hi hs
    · intro _
      obtain ⟨i, hi, hs, e⟩ := hatt
      refine ⟨i, hi, hs, ?_⟩
      simp only [dlb_lip_osa_set_timer, hrun, if_true]
      rw [← (hrem i hi hs).1]
      exact e
    · simp only [dlb_lip_osa_set_timer, hrun, if_true]
  · have hnone : ∀ i ∈ slot_indices, (s.pending_requests i).state ≠ LIP_MESSAGE_SENT :=
      fun i hi hs => hany ⟨i, hi, hs⟩
    have ht : t = LIP_OSA_INFINITE_TIMEOUT := by
      rcases f3 with e | ⟨i, hi, hs, -⟩
      · exact e
      · exact absurd hs (hnone i hi)
    rw [if_neg (by rw [ht]; exact fun h => h rfl)]
    refine ⟨⟨?_, ?_, ?_⟩, rfl, fun h => absurd h hany⟩
    · simp only [dlb_lip_osa_cancel_timer, hrun, if_true]
      exact ⟨fun h => absurd rfl h, fun h => absurd h hany⟩
    · intro i hi hs
      exact absurd hs (hnone i hi)
    · intro h
      exact absurd h hany

/-! ## The remembered formats under a request that finds another slot SENT -/

theorem request_av_formats_kept (now : Nat) (s : dlb_lip) (m : dlb_cec_message)
    (rs : List dlb_cec_message) (force : Bool)
    (j : Int) (hj : j ∈ slot_indices) (hju : j ≠ m.initiator)
    (hsent : (s.pending_requests j).state = LIP_MESSAGE_SENT) :
    (lip_handle_request_av_latency now s m rs force).1.req_video_format = s.req_video_format
      ∧ (lip_handle_request_av_latency now s m rs force).1.req_audio_format
          = s.req_audio_format
      ∧ (lip_handle_request_av_latency now s m rs force).1.pending_requests j
          = s.pending_requests j := by
  by_cases ha : lip_is_audio_format_valid (decode_audio_format m 6) = true
  · by_cases hv : lip_is_video_format_valid (decode_video_format m) = true
    · by_cases hh : (request_av_lookups s m force).1.1 = true
          ∧ (request_av_lookups s m force).2.1 = true
      · rw [request_av_hit now s m rs force ha hv hh.1 hh.2]
        exact ⟨rfl, rfl, rfl⟩
      · rw [request_av_queued now s m rs force ha hv hh j hj hju hsent]
        refine ⟨rfl, rfl, ?_⟩
        simp only [store_pending_pending_requests]
        rw [Function.update_noteq hju]
    · rw [request_av_invalid now s m rs force (Or.inr (by simpa using hv))]
      exact ⟨rfl, rfl, rfl⟩
  · rw [request_av_invalid now s m rs force (Or.inl (by simpa using ha))]
    exact ⟨rfl, rfl, rfl⟩

theorem request_audio_formats_kept (now : Nat) (s : dlb_lip) (m : dlb_cec_message)
    (rs : List dlb_cec_message) (force : Bool)
    (j : Int) (hj : j ∈ slot_indices) (hju : j ≠ m.initiator)
    (hsent : (s.pending_requests j).state = LIP_MESSAGE_SENT) :
    (lip_handle_request_audio_latency now s m rs force).1.req_video_format
        = s.req_video_format
      ∧ (lip_handle_request_audio_latency now s m rs force).1.req_audio_format
          = (if lip_is_audio_format_valid (decode_audio_format m 4) = true
                ∧ (request_audio_lookup s m force).1 = false
             then decode_audio_format m 4 else s.req_audio_format)
      ∧ (lip_handle_request_audio_latency now s m rs force).1.pending_requests j
          = s.pending_requests j := by
  by_cases ha : lip_is_audio_format_valid (decode_audio_format m 4) = true
  · by_cases hh : (request_audio_lookup s m force).1 = true
    · rw [request_audio_hit now s m rs force ha hh, if_neg (by simp [hh])]
      exact ⟨rfl, rfl, rfl⟩
    · have hh' : (request_audio_lookup s m force).1 = false := by simpa using hh
      rw [request_audio_queued now s m rs force ha hh' j hj hju hsent, if_pos ⟨ha, hh'⟩]
      refine ⟨rfl, rfl, ?_⟩
      simp only [store_pending_pending_requests]
      rw [Function.update_noteq hju]
  · rw [request_audio_invalid now s m rs force (by simpa using ha), if_neg (fun c => ha c.1)]
    exact ⟨rfl, rfl, rfl⟩

theorem request_video_formats_kept (now : Nat) (s : dlb_lip) (m : dlb_cec_message)
    (rs : List dlb_cec_message) (force : Bool)
    (j : Int) (hj : j ∈ slot_indices) (hju : j ≠ m.initiator)
    (hsent : (s.pending_requests j).state = LIP_MESSAGE_SENT) :
    (lip_handle_request_video_latency now s m rs force).1.req_audio_format
        = s.req_audio_format
      ∧ (lip_handle_request_video_latency now s m rs force).1.req_video_format
          = (if lip_is_video_format_valid (decode_video_format m) = true
             then decode_video_format m else s.req_video_format)
      ∧ (lip_handle_request_video_latency now s m rs force).1.pending_requests j
          = s.pending_requests j := by
  by_cases hv : lip_is_video_format_valid (decode_video_format m) = true
  · by_cases hh : (request_video_lookup s m force).1 = true
    · rw [request_video_hit now s m rs force hv hh, if_pos hv]
      exact ⟨rfl, rfl, rfl⟩
    · have hh' : (request_video_lookup s m force).1 = false := by simpa using hh
      rw [request_video_queued now s m rs force hv hh' j hj hju hsent, if_pos hv]
      refine ⟨rfl, rfl, ?_⟩
      simp only [store_pending_pending_requests]
      rw [Function.update_noteq hju]
  · rw [request_video_invalid now s m rs force (by simpa using hv), if_neg hv]
    exact ⟨rfl, rfl, rfl⟩

theorem finish_received_formats (r : dlb_lip × List dlb_cec_message × Bool) :
    (finish_received r).1.req_video_format = r.1.req_video_format
      ∧ (finish_received r).1.req_audio_format = r.1.req_audio_format
      ∧ (finish_received r).1.pending_requests = r.1.pending_requests := by
  unfold finish_received
  by_cases ht : r.2.2 = true
  · simp [ht]
  · simp [ht]

/-! ## The loops of the worker thread -/

theorem worker_same_refl (s : dlb_lip) : worker_same s s :=
  ⟨⟨rfl, rfl, rfl, rfl, rfl, rfl, rfl⟩, fun _ => rfl⟩

theorem worker_same_frames (s0 s : dlb_lip) (h : worker_same s0 s) (i : Int) :
    holds_request_lip_support s i = holds_request_lip_support s0 i
      ∧ worker_report_frame s i = worker_report_frame s0 i
      ∧ worker_abort_frame s i = worker_abort_frame s0 i := by
  obtain ⟨⟨a, b, c, d, e, f, g⟩, hm⟩ := h
  have hu : lip_get_uuid s = lip_get_uuid s0 := by
    unfold lip_get_uuid
    rw [b, c, f]
  refine ⟨?_, ?_, ?_⟩
  · unfold holds_request_lip_support
    rw [hm i]
  · unfold worker_report_frame
    rw [a, hm i, hu]
  · unfold worker_abort_frame
    rw [a, hm i]

theorem thread_supported_loop_spec (now : Nat) (L : List Int) (s0 s : dlb_lip)
    (hst : s.state = LIP_SUPPORTED) (hsame : worker_same s0 s) :
    (thread_supported_loop now L s).tx
        = s.tx ++ (L.filter (holds_request_lip_support s0)).map (worker_report_frame s0)
      ∧ worker_same s0 (thread_supported_loop now L s)
      ∧ ∀ k, (thread_supported_loop now L s).pending_requests k
          = if k ∈ L ∧ holds_request_lip_support s0 k = true
            then { (s.pending_requests k) with state := LIP_MESSAGE_HANDLED }
            else s.pending_requests k := by
  induction L generalizing s with
  | nil => exact ⟨by simp [thread_supported_loop], hsame, fun k => by simp [thread_supported_loop]⟩
  | cons i L ih =>
    obtain ⟨hh, hf, -⟩ := worker_same_frames s0 s hsame i
    unfold thread_supported_loop
    lift_lets
    intro s1 r
    have hr : r = (lip_status_change_callback (lip_add_upstream_device s1
        (s1.pending_requests i).msg.initiator), [worker_report_frame s i], true) := by
      simp only [r, lip_handle_request_lip_support]
      rw [if_pos (show s1.state = LIP_SUPPORTED from hst)]
      simp [worker_report_frame, s1, lip_get_uuid]
    by_cases hc : lip_get_command_opcode (s.pending_requests i).msg
        = LIP_OPCODE_REQUEST_LIP_SUPPORT
    · have hh0 : holds_request_lip_support s0 i = true := by
        rw [← hh]
        simpa [holds_request_lip_support] using hc
      rw [if_pos hc, hr]
      simp only [if_true]
      obtain ⟨⟨a, b, c, d, e, f, g⟩, hm⟩ := hsame
      have hsame2 : worker_same s0 (transmit_responses (lip_status_change_callback
          (lip_add_upstream_device s1 (s1.pending_requests i).msg.initiator))
          [worker_report_frame s i]) := by
        refine ⟨⟨by simpa [s1] using a, by simpa [s1] using b, by simpa [s1] using c,
          by simpa [s1] using d, by simpa [s1] using e, by simpa [s1] using f,
          by simpa [s1] using g⟩, fun k => ?_⟩
        simp only [transmit_responses_pending_requests,
          lip_status_change_callback_pending_requests,
          lip_add_upstream_device_pending_requests, s1, set_slot_state_pending_requests]
        by_cases hk : k = i
        · subst hk; simp [hm]
        · rw [Function.update_noteq hk]; exact hm k
      obtain ⟨i1, i2, i3⟩ := ih _ (by simpa [s1] using hst) hsame2
      refine ⟨?_, i2, fun k => ?_⟩
      · rw [i1]
        simp only [transmit_responses_tx, lip_status_change_callback_tx,
          lip_add_upstream_device_tx, s1, set_slot_state_tx, List.filter_cons, hh0, if_true,
          List.map_cons, hf, List.append_assoc, List.singleton_append]
      · rw [i3 k]
        simp only [transmit_responses_pending_requests,
          lip_status_change_callback_pending_requests,
          lip_add_upstream_device_pending_requests, s1, set_slot_state_pending_requests,
          List.mem_cons]
        by_cases hk : k = i
        · subst hk
          simp [hh0]
        · rw [Function.update_noteq hk]
          simp [hk]
    · have hh0 : holds_request_lip_support s0 i = false := by
        rw [← hh]
        simpa [holds_request_lip_support] using hc
      rw [if_neg hc]
      obtain ⟨i1, i2, i3⟩ := ih s hst hsame
      refine ⟨?_, i2, fun k => ?_⟩
      · rw [i1]
        simp [List.filter_cons, hh0]
      · rw [i3 k]
        by_cases hk : k = i
        · subst hk
          simp [hh0]
        · simp [hk]

theorem thread_unsupported_loop_spec (L : List Int) (s0 s : dlb_lip)
    (hsame : worker_same s0 s) :
    (thread_unsupported_loop L s).tx
        = s.tx ++ (L.filter (holds_request_lip_support s0)).map (worker_abort_frame s0)
      ∧ worker_same s0 (thread_unsupported_loop L s)
      ∧ ∀ k, (thread_unsupported_loop L s).pending_requests k
          = if k ∈ L ∧ holds_request_lip_support s0 k = true
            then { (s.pending_requests k) with state := LIP_MESSAGE_HANDLED }
            else s.pending_requests k := by
  induction L generalizing s with
  | nil =>
    exact ⟨by simp [thread_unsupported_loop], hsame, fun k => by simp [thread_unsupported_loop]⟩
  | cons i L ih =>
    obtain ⟨hh, -, hf⟩ := worker_same_frames s0 s hsame i
    unfold thread_unsupported_loop
    lift_lets
    intro s1
    by_cases hc : lip_get_command_opcode (s.pending_requests i).msg
        = LIP_OPCODE_REQUEST_LIP_SUPPORT
    · have hh0 : holds_request_lip_support s0 i = true := by
        rw [← hh]
        simpa [holds_request_lip_support] using hc
      rw [if_pos hc]
      obtain ⟨⟨a, b, c, d, e, f, g⟩, hm⟩ := hsame
      have hfr : lip_build_abort_cec_command empty_msg s1.cec_bus.logical_address
          (s1.pending_requests i).msg.initiator DLB_CEC_OPCODE_VENDOR_COMMAND_WITH_ID
          DLB_CEC_ABORT_REASON_REFUSED = worker_abort_frame s i := by
        simp [worker_abort_frame, s1]
      rw [hfr]
      have hsame2 : worker_same s0 (lip_transmit_wrapper s1 (worker_abort_frame s i)).1 := by
        refine ⟨⟨by simpa [s1] using a, by simpa [s1] using b, by simpa [s1] using c,
          by simpa [s1] using d, by simpa [s1] using e, by simpa [s1] using f,
          by simpa [s1] using g⟩, fun k => ?_⟩
        simp only [lip_transmit_wrapper_pending_requests, s1, set_slot_state_pending_requests]
        by_cases hk : k = i
        · subst hk; simp [hm]
        · rw [Function.update_noteq hk]; exact hm k
      obtain ⟨i1, i2, i3⟩ := ih _ hsame2
      refine ⟨?_, i2, fun k => ?_⟩
      · rw [i1]
        simp only [lip_transmit_wrapper_tx, s1, set_slot_state_tx, List.filter_cons, hh0,
          if_true, List.map_cons, hf, List.append_assoc, List.singleton_append]
      · rw [i3 k]
        simp only [lip_transmit_wrapper_pending_requests, s1, set_slot_state_pending_requests,
          List.mem_cons]
        by_cases hk : k = i
        · subst hk
          simp [hh0]
        · rw [Function.update_noteq hk]
          simp [hk]
    · have hh0 : holds_request_lip_support s0 i = false := by
        rw [← hh]
        simpa [holds_request_lip_support] using hc
      rw [if_neg hc]
      obtain ⟨i1, i2, i3⟩ := ih s hsame
      refine ⟨?_, i2, fun k => ?_⟩
      · rw [i1]
        simp [List.filter_cons, hh0]
      · rw [i3 k]
        by_cases hk : k = i
        · subst hk
          simp [hh0]
        · simp [hk]

theorem request_thread_step_running (now : Nat) (s : dlb_lip) (l : request_thread_locals)
    (hrun : s.is_running = true) :
    dlb_lip_request_thread_step now s l =
      if (request_thread_switch now { s with thread_signaled := false } l).1.state
            = LIP_SUPPORTED
          ∨ (request_thread_switch now { s with thread_signaled := false } l).1.state
            = LIP_UNSUPPORTED then
        ({ (request_thread_switch now { s with thread_signaled := false } l).1 with
            state_updated_signals :=
              (request_thread_switch now { s with thread_signaled := false }
                l).1.state_updated_signals + 1 },
         (request_thread_switch now { s with thread_signaled := false } l).2)
      else request_thread_switch now { s with thread_signaled := false } l := by
  unfold dlb_lip_request_thread_step
  exact if_neg (by show ¬ ((!s.is_running) = true); rw [hrun]; decide)

theorem request_thread_switch_supported (now : Nat) (s0 : dlb_lip) (l : request_thread_locals)
    (hst : s0.state = LIP_SUPPORTED) :
    request_thread_switch now s0 l =
      ((if lip_is_any_request_pending s0 then thread_supported_loop now slot_indices s0
        else s0), { l with timeout_ms := LIP_OSA_INFINITE_TIMEOUT }) := by
  unfold request_thread_switch
  rw [hst]

theorem request_thread_switch_unsupported (now : Nat) (s0 : dlb_lip)
    (l : request_thread_locals) (hst : s0.state = LIP_UNSUPPORTED) :
    request_thread_switch now s0 l =
      ((if lip_is_any_request_pending s0 then thread_unsupported_loop slot_indices s0
        else s0), { l with timeout_ms := LIP_OSA_INFINITE_TIMEOUT }) := by
  unfold request_thread_switch
  rw [hst]

theorem request_thread_step_supported (now : Nat) (s : dlb_lip) (l : request_thread_locals)
    (hrun : s.is_running = true) (hst : s.state = LIP_SUPPORTED) :
    (dlb_lip_request_thread_step now s l).1.tx
        = s.tx ++ (if lip_is_any_request_pending s = true then
            (slot_indices.filter (holds_request_lip_support s)).map (worker_report_frame s)
          else [])
      ∧ ∀ k, (dlb_lip_request_thread_step now s l).1.pending_requests k
          = if lip_is_any_request_pending s = true
                ∧ k ∈ slot_indices ∧ holds_request_lip_support s k = true
            then { (s.pending_requests k) with state := LIP_MESSAGE_HANDLED }
            else s.pending_requests k := by
  have hsame : worker_same s { s with thread_signaled := false } :=
    ⟨⟨rfl, rfl, rfl, rfl, rfl, rfl, rfl⟩, fun _ => rfl⟩
  have hst0 : ({ s with thread_signaled := false } : dlb_lip).state = LIP_SUPPORTED := hst
  obtain ⟨a1, a2, a3⟩ := thread_supported_loop_spec now slot_indices s
    { s with thread_signaled := false } hst0 hsame
  have hst2 : (thread_supported_loop now slot_indices
      { s with thread_signaled := false }).state = LIP_SUPPORTED := by
    rw [a2.1.2.2.2.1]; exact hst
  have hp : lip_is_any_request_pending { s with thread_signaled := false }
      = lip_is_any_request_pending s := rfl
  rw [request_thread_step_running now s l hrun,
    request_thread_switch_supported now _ l hst0, hp]
  by_cases hany : lip_is_any_request_pending s = true
  · simp only [hany, if_true, true_and]
    rw [if_pos (Or.inl hst2)]
    exact ⟨a1, a3⟩
  · have hany' : lip_is_any_request_pending s = false := by simpa using hany
    simp only [hany', Bool.false_eq_true, if_false, false_and, List.append_nil]
    rw [if_pos (Or.inl hst0)]
    exact ⟨rfl, fun _ => rfl⟩

theorem request_thread_step_unsupported (now : Nat) (s : dlb_lip) (l : request_thread_locals)
    (hrun : s.is_running = true) (hst : s.state = LIP_UNSUPPORTED) :
    (dlb_lip_request_thread_step now s l).1.tx
        = s.tx ++ (if lip_is_any_request_pending s = true then
            (slot_indices.filter (holds_request_lip_support s)).map (worker_abort_frame s)
          else [])
      ∧ ∀ k, (dlb_lip_request_thread_step now s l).1.pending_requests k
          = if lip_is_any_request_pending s = true
                ∧ k ∈ slot_indices ∧ holds_request_lip_support s k = true
            then { (s.pending_requests k) with state := LIP_MESSAGE_HANDLED }
            else s.pending_requests k := by
  have hsame : worker_same s { s with thread_signaled := false } :=
    ⟨⟨rfl, rfl, rfl, rfl, rfl, rfl, rfl⟩, fun _ => rfl⟩
  have hst0 : ({ s with thread_signaled := false } : dlb_lip).state = LIP_UNSUPPORTED := hst
  obtain ⟨a1, a2, a3⟩ := thread_unsupported_loop_spec slot_indices s
    { s with thread_signaled := false } hsame
  have hst2 : (thread_unsupported_loop slot_indices
      { s with thread_signaled := false }).state = LIP_UNSUPPORTED := by
    rw [a2.1.2.2.2.1]; exact hst
  have hp : lip_is_any_request_pending { s with thread_signaled := false }
      = lip_is_any_request_pending s := rfl
  rw [request_thread_step_running now s l hrun,
    request_thread_switch_unsupported now _ l hst0, hp]
  by_cases hany : lip_is_any_request_pending s = true
  · simp only [hany, if_true, true_and]
    rw [if_pos (Or.inr hst2)]
    exact ⟨a1, a3⟩
  · have hany' : lip_is_any_request_pending s = false := by simpa using hany
    simp only [hany', Bool.false_eq_true, if_false, false_and, List.append_nil]
    rw [if_pos (Or.inr hst0)]
    exact ⟨rfl, fun _ => rfl⟩

/-- When every slot that holds a REQUEST_LIP_SUPPORT is PENDING, the slots that the worker
answers are the PENDING slots that hold a REQUEST_LIP_SUPPORT. -/
theorem worker_filter_pending (s : dlb_lip)
    (h : ∀ i ∈ slot_indices, holds_request_lip_support s i = true →
      (s.pending_requests i).state = LIP_MESSAGE_PENDING) :
    (if lip_is_any_request_pending s = true then
        slot_indices.filter (holds_request_lip_support s) else [])
      = slot_indices.filter (fun i =>
          decide ((s.pending_requests i).state = LIP_MESSAGE_PENDING)
            && holds_request_lip_support s i) := by
  have hf : slot_indices.filter (fun i =>
      decide ((s.pending_requests i).state = LIP_MESSAGE_PENDING)
        && holds_request_lip_support s i)
      = slot_indices.filter (holds_request_lip_support s) := by
    apply List.filter_congr
    intro i hi
    by_cases hh : holds_request_lip_support s i = true
    · simp [hh, h i hi hh]
    · simp [hh]
  rw [hf]
  by_cases hany : lip_is_any_request_pending s = true
  · rw [if_pos hany]
  · rw [if_neg hany]
    symm
    rw [List.filter_eq_nil_iff]
    intro i hi hh
    apply hany
    unfold lip_is_any_request_pending
    rw [List.any_eq_true]
    exact ⟨i, hi, by simp [h i hi hh]⟩

/-! ## The opcode of the reply to an upstream peer -/

theorem build_av_reply_frame (s : dlb_lip) (u : Int) :
    lip_get_command_opcode (build_av_reply s u) = LIP_OPCODE_REPORT_AV_LATENCY
      ∧ (build_av_reply s u).destination = (s.pending_requests u).msg.initiator :=
  ⟨(build_report_av_latency_checks empty_msg _ _ _ _ rfl).1.2.2.1, by simp [build_av_reply]⟩

theorem build_audio_reply_frame (s : dlb_lip) (u : Int) :
    lip_get_command_opcode (build_audio_reply s u) = LIP_OPCODE_REPORT_AUDIO_LATENCY
      ∧ (build_audio_reply s u).destination = (s.pending_requests u).msg.initiator :=
  ⟨(build_report_audio_latency_checks empty_msg _ _ _ rfl).1.2.2.1, by simp [build_audio_reply]⟩

theorem build_video_reply_frame (s : dlb_lip) (u : Int) :
    lip_get_command_opcode (build_video_reply s u) = LIP_OPCODE_REPORT_VIDEO_LATENCY
      ∧ (build_video_reply s u).destination = (s.pending_requests u).msg.initiator :=
  ⟨(build_report_video_latency_checks empty_msg _ _ _ rfl).1.2.2.1, by simp [build_video_reply]⟩

/-! ## The own slot across a public latency query -/

theorem query_after_handler_cases (r : dlb_lip × List dlb_cec_message × Bool)
    (report_opcode : Nat) :
    (query_after_handler r report_opcode).1.cec_bus = r.1.cec_bus
      ∧ (query_after_handler r report_opcode).1.pending_requests = r.1.pending_requests
      ∧ (query_after_handler r report_opcode).2 ≠ query_next.wait_for_slot
      ∧ ((query_after_handler r report_opcode).2 = query_next.again →
          r.2.2 = true ∧ lip_get_command_opcode (r.2.1.headD empty_msg) = report_opcode)
      ∧ ((query_after_handler r report_opcode).2 = query_next.returned →
          last_transmit_refused (query_after_handler r report_opcode).1) := by
  unfold query_after_handler
  lift_lets
  intro first t
  by_cases h1 : r.2.2 = true
  · rw [if_pos h1]
    by_cases h2 : lip_get_command_opcode first ≠ report_opcode
    · rw [if_pos h2]
      by_cases h3 : t.2 = 0
      · rw [if_pos h3]
        refine ⟨by simp [t], by simp [t], by simp, by simp, by simp⟩
      · rw [if_neg h3]
        refine ⟨by simp [t], by simp [t], by simp, by simp, fun _ => ⟨first, ?_, ?_⟩⟩
        · simp [t]
        · simpa [t, lip_transmit_wrapper] using h3
    · rw [if_neg h2]
      refine ⟨rfl, rfl, by simp, fun _ => ⟨h1, not_not.1 h2⟩, by simp⟩
  · rw [if_neg h1]
    refine ⟨rfl, rfl, by simp, by simp, by simp⟩

theorem request_video_report_head (now : Nat) (s : dlb_lip) (m : dlb_cec_message)
    (force : Bool) :
    (lip_handle_request_video_latency now s m [] force).2.2 = true →
    lip_get_command_opcode
        ((lip_handle_request_video_latency now s m [] force).2.1.headD empty_msg)
      = LIP_OPCODE_REPORT_VIDEO_LATENCY →
    (lip_handle_request_video_latency now s m [] force).1.pending_requests
      = s.pending_requests := by
  unfold lip_handle_request_video_latency
  lift_lets
  intro vf vr dp ask vt s0 v s1 s3
  split_ifs
  · intro _ _; rfl
  · intro _ _; rfl
  · intro _ hop
    exfalso
    simp only [List.nil_append, List.headD_cons] at hop
    rw [(build_request_video_latency_checks empty_msg _ _ _ rfl).1.2.2.1] at hop
    exact absurd hop (by decide)
  · intro h2
    exact absurd h2 (by decide)

theorem request_audio_report_head (now : Nat) (s : dlb_lip) (m : dlb_cec_message)
    (force : Bool) :
    (lip_handle_request_audio_latency now s m [] force).2.2 = true →
    lip_get_command_opcode
        ((lip_handle_request_audio_latency now s m [] force).2.1.headD empty_msg)
      = LIP_OPCODE_REPORT_AUDIO_LATENCY →
    (lip_handle_request_audio_latency now s m [] force).1.pending_requests
      = s.pending_requests := by
  unfold lip_handle_request_audio_latency
  lift_lets
  intro af ar dp ask at_ afd a s0 s1 s3
  split_ifs
  · intro _ _; rfl
  · intro _ _; rfl
  · intro _ hop
    exfalso
    simp only [List.nil_append, List.headD_cons] at hop
    rw [(build_request_audio_latency_checks empty_msg _ _ _ rfl).1.2.2.1] at hop
    exact absurd hop (by decide)
  · intro h2
    exact absurd h2 (by decide)

theorem request_av_report_head (now : Nat) (s : dlb_lip) (m : dlb_cec_message)
    (force : Bool) :
    (lip_handle_request_av_latency now s m [] force).2.2 = true →
    lip_get_command_opcode
        ((lip_handle_request_av_latency now s m [] force).2.1.headD empty_msg)
      = LIP_OPCODE_REPORT_AV_LATENCY →
    (lip_handle_request_av_latency now s m [] force).1.pending_requests
      = s.pending_requests := by
  unfold lip_handle_request_av_latency
  lift_lets
  intro vf af vr ar dp askv aska vt at_ afd v a vh ah s1 s2 s2' s3
  split_ifs
  · intro _ _; rfl
  · intro _ _; rfl
  · intro _ _; rfl
  · intro _ hop
    exfalso
    simp only [List.nil_append, List.headD_cons] at hop
    rw [(build_request_av_latency_checks empty_msg _ _ _ _ rfl).1.2.2.1] at hop
    exact absurd hop (by decide)
  · intro _ hop
    exfalso
    simp only [List.nil_append, List.headD_cons] at hop
    rw [(build_request_video_latency_checks empty_msg _ _ _ rfl).1.2.2.1] at hop
    exact absurd hop (by decide)
  · intro _ hop
    exfalso
    simp only [List.nil_append, List.headD_cons] at hop
    rw [(build_request_audio_latency_checks empty_msg _ _ _ rfl).1.2.2.1] at hop
    exact absurd hop (by decide)
  · intro h2
    exact absurd h2 (by decide)
  · intro h2
    exact absurd h2 (by decide)

/-- What one round of a public query does when the own slot is HANDLED at its start;
`h` is the result of the request handler on the self-addressed frame. -/
theorem query_round_released (s : dlb_lip) (h : dlb_lip × List dlb_cec_message × Bool)
    (report_opcode : Nat) (q : query_round)
    (hq : q.next = (query_after_handler h report_opcode).2) (hret : q.ret = 1)
    (hbus : h.1.cec_bus = s.cec_bus)
    (hhead : h.2.2 = true → lip_get_command_opcode (h.2.1.headD empty_msg) = report_opcode →
      h.1.pending_requests = s.pending_requests)
    (hown : (s.pending_requests s.cec_bus.logical_address).state = LIP_MESSAGE_HANDLED) :
    (query_after_handler h report_opcode).1.cec_bus = s.cec_bus
      ∧ q.next ≠ query_next.wait_for_slot
      ∧ (q.next = query_next.returned →
          query_released s.cec_bus.logical_address
            ((query_after_handler h report_opcode).1, q))
      ∧ (q.next = query_next.again →
          ((query_after_handler h report_opcode).1.pending_requests
            s.cec_bus.logical_address).state = LIP_MESSAGE_HANDLED) := by
  obtain ⟨c1, c2, c3, c4, c5⟩ := query_after_handler_cases h report_opcode
  refine ⟨c1.trans hbus, by rw [hq]; exact c3, fun hn => Or.inr ⟨hret, c5 (hq ▸ hn)⟩,
    fun hn => ?_⟩
  obtain ⟨d1, d2⟩ := c4 (hq ▸ hn)
  rw [c2, hhead d1 d2]
  exact hown

theorem get_video_latency_round_released (now : Nat) (s : dlb_lip)
    (vf : dlb_lip_video_format)
    (hown : (s.pending_requests s.cec_bus.logical_address).state = LIP_MESSAGE_HANDLED) :
    (dlb_lip_get_video_latency_round now s vf).1.cec_bus = s.cec_bus
      ∧ (dlb_lip_get_video_latency_round now s vf).2.next ≠ query_next.wait_for_slot
      ∧ ((dlb_lip_get_video_latency_round now s vf).2.next = query_next.returned →
          query_released s.cec_bus.logical_address (dlb_lip_get_video_latency_round now s vf))
      ∧ ((dlb_lip_get_video_latency_round now s vf).2.next = query_next.again →
          ((dlb_lip_get_video_latency_round now s vf).1.pending_requests
            s.cec_bus.logical_address).state = LIP_MESSAGE_HANDLED) := by
  have hnp : lip_is_request_pending s s.cec_bus.logical_address = false := by
    simp [lip_is_request_pending, hown]
  unfold dlb_lip_get_video_latency_round
  lift_lets
  intro v command r
  split_ifs with h1 h2
  · exact ⟨rfl, by simp, fun _ => Or.inl hown, fun h => by simp at h⟩
  · rw [hnp] at h2
    exact absurd h2 (by decide)
  · have er : r = query_after_handler (lip_handle_request_video_latency now s command [] true)
        LIP_OPCODE_REPORT_VIDEO_LATENCY := rfl
    clear_value r command v
    subst er
    exact query_round_released s (lip_handle_request_video_latency now s command [] true)
      LIP_OPCODE_REPORT_VIDEO_LATENCY
      { ret := 1, video_latency := v.2, audio_latency := 0, next := (query_after_handler (lip_handle_request_video_latency now s command [] true) LIP_OPCODE_REPORT_VIDEO_LATENCY).2 }
      rfl rfl (request_video_effect now s command [] true).1.1
      (request_video_report_head now s command true) hown

theorem get_audio_latency_round_released (now : Nat) (s : dlb_lip)
    (af : dlb_lip_audio_format)
    (hown : (s.pending_requests s.cec_bus.logical_address).state = LIP_MESSAGE_HANDLED) :
    (dlb_lip_get_audio_latency_round now s af).1.cec_bus = s.cec_bus
      ∧ (dlb_lip_get_audio_latency_round now s af).2.next ≠ query_next.wait_for_slot
      ∧ ((dlb_lip_get_audio_latency_round now s af).2.next = query_next.returned →
          query_released s.cec_bus.logical_address (dlb_lip_get_audio_latency_round now s af))
      ∧ ((dlb_lip_get_audio_latency_round now s af).2.next = query_next.again →
          ((dlb_lip_get_audio_latency_round now s af).1.pending_requests
            s.cec_bus.logical_address).state = LIP_MESSAGE_HANDLED) := by
  have hnp : lip_is_request_pending s s.cec_bus.logical_address = false := by
    simp [lip_is_request_pending, hown]
  unfold dlb_lip_get_audio_latency_round
  lift_lets
  intro a command r
  split_ifs with h1 h2
  · exact ⟨rfl, by simp, fun _ => Or.inl hown, fun h => by simp at h⟩
  · rw [hnp] at h2
    exact absurd h2 (by decide)
  · have er : r = query_after_handler (lip_handle_request_audio_latency now s command [] true)
        LIP_OPCODE_REPORT_AUDIO_LATENCY := rfl
    clear_value r command a
    subst er
    exact query_round_released s (lip_handle_request_audio_latency now s command [] true)
      LIP_OPCODE_REPORT_AUDIO_LATENCY
      { ret := 1, video_latency := 0, audio_latency := a.2, next := (query_after_handler (lip_handle_request_audio_latency now s command [] true) LIP_OPCODE_REPORT_AUDIO_LATENCY).2 }
      rfl rfl (request_audio_effect now s command [] true).1.1
      (request_audio_report_head now s command true) hown

theorem get_av_latency_round_released (now : Nat) (s : dlb_lip)
    (vf : dlb_lip_video_format) (af : dlb_lip_audio_format)
    (hown : (s.pending_requests s.cec_bus.logical_address).state = LIP_MESSAGE_HANDLED) :
    (dlb_lip_get_av_latency_round now s vf af).1.cec_bus = s.cec_bus
      ∧ (dlb_lip_get_av_latency_round now s vf af).2.next ≠ query_next.wait_for_slot
      ∧ ((dlb_lip_get_av_latency_round now s vf af).2.next = query_next.returned →
          query_released s.cec_bus.logical_address (dlb_lip_get_av_latency_round now s vf af))
      ∧ ((dlb_lip_get_av_latency_round now s vf af).2.next = query_next.again →
          ((dlb_lip_get_av_latency_round now s vf af).1.pending_requests
            s.cec_bus.logical_address).state = LIP_MESSAGE_HANDLED) := by
  have hnp : lip_is_request_pending s s.cec_bus.logical_address = false := by
    simp [lip_is_request_pending, hown]
  unfold dlb_lip_get_av_latency_round
  lift_lets
  intro v a command r
  split_ifs with h1 h2
  · exact ⟨rfl, by simp, fun _ => Or.inl hown, fun h => by simp at h⟩
  · rw [hnp] at h2
    exact absurd h2 (by decide)
  · have er : r = query_after_handler (lip_handle_request_av_latency now s command [] true)
        LIP_OPCODE_REPORT_AV_LATENCY := rfl
    clear_value r command v a
    subst er
    exact query_round_released s (lip_handle_request_av_latency now s command [] true)
      LIP_OPCODE_REPORT_AV_LATENCY
      { ret := 1, video_latency := v.2, audio_latency := a.2, next := (query_after_handler (lip_handle_request_av_latency now s command [] true) LIP_OPCODE_REPORT_AV_LATENCY).2 }
      rfl rfl (request_av_effect now s command [] true).1.1
      (request_av_report_head now s command true) hown

/-- The loop of a public query started with the own slot HANDLED, in an environment that
leaves the bus of the core alone: if it ends, the own slot is released unless the bus
refused the frame of the last round. -/
theorem query_loop_released (round : Nat → dlb_lip → dlb_lip × query_round)
    (env : Nat → dlb_lip → dlb_lip) (bus : dlb_cec_bus)
    (hround : ∀ k s, s.cec_bus = bus →
      (s.pending_requests bus.logical_address).state = LIP_MESSAGE_HANDLED →
      (round k s).1.cec_bus = bus
        ∧ (round k s).2.next ≠ query_next.wait_for_slot
        ∧ ((round k s).2.next = query_next.returned →
            query_released bus.logical_address (round k s))
        ∧ ((round k s).2.next = query_next.again →
            ((round k s).1.pending_requests bus.logical_address).state
              = LIP_MESSAGE_HANDLED))
    (henv : ∀ k c, (env k c).cec_bus = c.cec_bus) :
    ∀ (fuel k : Nat) (s : dlb_lip) (r : dlb_lip × query_round),
      s.cec_bus = bus →
      (s.pending_requests bus.logical_address).state = LIP_MESSAGE_HANDLED →
      query_loop round env fuel k s = some r →
        r.1.cec_bus = bus ∧ query_released bus.logical_address r := by
  intro fuel
  induction fuel with
  | zero =>
    intro k s r _ _ h
    simp [query_loop] at h
  | succ n ih =>
    intro k s r hb ho h
    obtain ⟨r1, r2, r3, r4⟩ := hround k s hb ho
    unfold query_loop at h
    simp only at h
    cases hn : (round k s).2.next with
    | returned =>
      rw [hn] at h
      simp only [Option.some.injEq] at h
      rw [← h]
      exact ⟨r1, r3 hn⟩
    | wait_for_slot => exact absurd hn r2
    | wait_for_answer =>
      rw [hn] at h
      simp only at h
      have hbe : (env k (round k s).1).cec_bus = bus := (henv k _).trans r1
      have hd : ((dlb_lip_query_wait_done (env k (round k s).1)).1.pending_requests
          bus.logical_address).state = LIP_MESSAGE_HANDLED := by
        simp [dlb_lip_query_wait_done, hbe]
      have hdb : (dlb_lip_query_wait_done (env k (round k s).1)).1.cec_bus = bus := by
        simp [dlb_lip_query_wait_done, hbe]
      split_ifs at h with hdd
      · simp only [Option.some.injEq] at h
        rw [← h]
        exact ⟨hdb, Or.inl hd⟩
      · exact ih _ _ _ hdb hd h
    | again =>
      rw [hn] at h
      exact ih _ _ _ r1 (r4 hn) h

/-- A query loop whose round finds the own slot busy and leaves the core alone never
ends while the environment leaves the core alone. -/
theorem query_loop_blocked (round : Nat → dlb_lip → dlb_lip × query_round)
    (env : Nat → dlb_lip → dlb_lip) (s : dlb_lip)
    (hround : ∀ k, (round k s).1 = s ∧ (round k s).2.next = query_next.wait_for_slot)
    (henv : ∀ k, env k s = s) :
    ∀ fuel k, query_loop round env fuel k s = none := by
  intro fuel
  induction fuel with
  | zero => intro k; rfl
  | succ n ih =>
    intro k
    unfold query_loop
    simp only [(hround k).2, (hround k).1, henv k]
    exact ih (k + 1)

theorem get_audio_latency_round_blocked (now : Nat) (s : dlb_lip)
    (af : dlb_lip_audio_format)
    (hmiss : (lip_get_audio_latency_from_cache s af af LIP_DOWNSTREAM_LATENCY).1 = false)
    (hp : lip_is_request_pending s s.cec_bus.logical_address = true) :
    (dlb_lip_get_audio_latency_round now s af).1 = s
      ∧ (dlb_lip_get_audio_latency_round now s af).2.next = query_next.wait_for_slot := by
  unfold dlb_lip_get_audio_latency_round
  lift_lets
  intro a command r
  rw [if_neg (by rw [show a.1 = false from hmiss]; decide), if_pos hp]
  exact ⟨rfl, rfl⟩

theorem reachable_timer_fired (now : Nat) (s : dlb_lip) (id : Nat) (h : Reachable s) :
    Reachable (core_of (dlb_lip_timer_callback (lip_cec_cmd_received 1 now) now s id true) s) := by
  cases hr : dlb_lip_timer_callback (lip_cec_cmd_received 1 now) now s id true with
  | none => exact h
  | some r => exact Reachable.step s r.1 h (Step.timer_fired 0 now s id true r hr)

/-! ## A queued request waits behind a request in flight -/

theorem any_sent_store_elim (s : dlb_lip) (m : dlb_cec_message) (now : Nat)
    (h : lip_is_any_pending_request_sent (store_pending s m.initiator m now) = true) :
    ∃ j ∈ slot_indices, j ≠ m.initiator
      ∧ (s.pending_requests j).state = LIP_MESSAGE_SENT := by
  unfold lip_is_any_pending_request_sent at h
  rw [List.any_eq_true] at h
  obtain ⟨j, hj, hs⟩ := h
  simp only [store_pending_pending_requests, decide_eq_true_eq] at hs
  by_cases hju : j = m.initiator
  · subst hju
    simp at hs
  · rw [Function.update_noteq hju] at hs
    exact ⟨j, hj, hju, hs⟩

theorem request_video_effect_more (now : Nat) (s : dlb_lip) (m : dlb_cec_message)
    (force : Bool) :
    request_effect_more s m (lip_handle_request_video_latency now s m [] force) := by
  unfold lip_handle_request_video_latency
  lift_lets
  intro vf vr dp ask vt s0 v s1 s3
  split_ifs with h1 h2 h3
  · exact ⟨fun a b => absurd a b, rfl, by simp⟩
  · exact ⟨fun a b => absurd a b, rfl, by simp⟩
  · refine ⟨fun a _ => ?_, by simp [s3, s1, s0], by simp [s3, s1, s0]⟩
    simp [s3, s1, s0] at a
  · refine ⟨fun _ _ => ?_, rfl, by simp⟩
    have := any_sent_store_elim s0 m now (by simpa [s1] using h3)
    exact this

theorem request_audio_effect_more (now : Nat) (s : dlb_lip) (m : dlb_cec_message)
    (force : Bool) :
    request_effect_more s m (lip_handle_request_audio_latency now s m [] force) := by
  unfold lip_handle_request_audio_latency
  lift_lets
  intro af ar dp ask at_ afd a s0 s1 s3
  split_ifs with h1 h2 h3
  · exact ⟨fun a b => absurd a b, rfl, by simp⟩
  · exact ⟨fun a b => absurd a b, rfl, by simp⟩
  · refine ⟨fun a _ => ?_, by simp [s3, s1, s0], by simp [s3, s1, s0]⟩
    simp [s3, s1, s0] at a
  · refine ⟨fun _ _ => ?_, rfl, by simp⟩
    have := any_sent_store_elim s0 m now (by simpa [s1] using h3)
    exact this

theorem request_av_effect_more (now : Nat) (s : dlb_lip) (m : dlb_cec_message)
    (force : Bool) :
    request_effect_more s m (lip_handle_request_av_latency now s m [] force) := by
  unfold lip_handle_request_av_latency
  lift_lets
  intro vf af vr ar dp askv aska vt at_ afd v a vh ah s1 s2 s2' s3
  split_ifs with h1 h2 h3 h4 h5 h6 h7
  · exact ⟨fun a b => absurd a b, rfl, by simp⟩
  · exact ⟨fun a b => absurd a b, rfl, by simp⟩
  · exact ⟨fun a b => absurd a b, rfl, by simp⟩
  · refine ⟨fun a _ => ?_, by simp [s3, s2', s2, s1], by simp [s3, s2', s2, s1]⟩
    simp [s3, s2', s2, s1] at a
  · refine ⟨fun a _ => ?_, by simp [s3, s2', s2, s1], by simp [s3, s2', s2, s1]⟩
    simp [s3, s2', s2, s1] at a
  · refine ⟨fun a _ => ?_, by simp [s3, s2', s2, s1], by simp [s3, s2', s2, s1]⟩
    simp [s3, s2', s2, s1] at a
  · refine ⟨fun a _ => ?_, by simp [s3, s2', s2, s1], by simp⟩
    simp [s3, s2', s2, s1] at a
  · refine ⟨fun _ _ => ?_, rfl, by simp⟩
    have := any_sent_store_elim s m now (by simpa [s1] using h4)
    exact this

theorem request_lip_support_effect_more (now : Nat) (s : dlb_lip) (m : dlb_cec_message)
    (hst : s.state = LIP_SUPPORTED) :
    request_effect_more s m (lip_handle_request_lip_support now s m []) := by
  unfold lip_handle_request_lip_support
  rw [if_pos hst]
  lift_lets
  intro uuid s1
  exact ⟨fun a b => absurd (by simpa [s1] using a) b, by simp [s1], by simp⟩

theorem nested_effect_more_refl (s : dlb_lip) (m : dlb_cec_message) :
    nested_effect_more s m s :=
  ⟨fun a b => absurd a b, [], by simp, by simp⟩

theorem nested_effect_more_abort (s : dlb_lip) (m : dlb_cec_message) (reason : Nat) :
    nested_effect_more s m
      (transmit_responses s [lip_build_abort_cec_command empty_msg s.cec_bus.logical_address
        m.initiator DLB_CEC_OPCODE_VENDOR_COMMAND_WITH_ID reason]) := by
  refine ⟨fun a b => absurd (by simpa using a) b,
    [lip_build_abort_cec_command empty_msg s.cec_bus.logical_address
        m.initiator DLB_CEC_OPCODE_VENDOR_COMMAND_WITH_ID reason], by simp, ?_⟩
  intro g hg
  rw [List.mem_singleton] at hg
  rw [hg]
  exact Or.inl (by simp)

theorem nested_effect_more_of_request (s : dlb_lip) (m : dlb_cec_message)
    (r : dlb_lip × List dlb_cec_message × Bool) (h : request_effect_more s m r) :
    nested_effect_more s m (if r.2.2 then transmit_responses r.1 r.2.1 else r.1) := by
  obtain ⟨h1, h2, h3⟩ := h
  split_ifs
  · exact ⟨fun a b => h1 (by simpa using a) b, r.2.1, by simp [h2], h3⟩
  · exact ⟨h1, [], by simp [h2], by simp⟩

/-- The dispatch of a request frame in state SUPPORTED: it returns for every `recv`, and
the result satisfies `nested_effect` and `nested_effect_more`. -/
theorem body_request_more (recv : dlb_lip → dlb_cec_message → Option (dlb_lip × Int))
    (now : Nat) (s : dlb_lip) (m : dlb_cec_message)
    (hop : m.opcode = DLB_CEC_OPCODE_VENDOR_COMMAND_WITH_ID)
    (hreq : is_request_opcode (lip_get_command_opcode m)) (hst : s.state = LIP_SUPPORTED) :
    ∃ s', lip_cec_cmd_received_body recv now s m = some (s', 1) ∧ nested_effect s m s'
      ∧ nested_effect_more s m s' := by
  have hv := vendor_id_of_known_opcode m (request_opcode_known hreq)
  unfold lip_cec_cmd_received_body lip_cec_cmd_dispatch
  lift_lets
  intro own lip_opcode
  have hl : lip_opcode = lip_get_command_opcode m := rfl
  clear_value lip_opcode
  unfold is_request_opcode at hreq
  rw [← hl] at hreq
  have hlat : lip_opcode ≠ LIP_OPCODE_REQUEST_LIP_SUPPORT →
      is_latency_request_opcode (lip_get_command_opcode m) := by
    intro h; rw [← hl]; unfold is_latency_request_opcode
    rcases hreq with h1 | h1 | h1 | h1
    · exact absurd h1 h
    · exact Or.inl h1
    · exact Or.inr (Or.inl h1)
    · exact Or.inr (Or.inr h1)
  rw [if_neg (by rw [hop]; decide), if_pos hop, if_pos hv]
  have c1 : ¬ lip_opcode = LIP_OPCODES := by
    rcases hreq with h | h | h | h <;> rw [h] <;> decide
  rw [if_neg c1]
  by_cases c2 : m.destination = DLB_LOGICAL_ADDR_BROADCAST ∨ m.initiator = DLB_LOGICAL_ADDR_BROADCAST
  · rw [if_pos c2]; exact ⟨_, rfl, nested_effect_refl s m, nested_effect_more_refl s m⟩
  rw [if_neg c2]
  by_cases c3 : m.destination ≠ own
  · rw [if_pos c3]; exact ⟨_, rfl, nested_effect_refl s m, nested_effect_more_refl s m⟩
  rw [if_neg c3]
  by_cases c4 : m.msg_length < lip_get_command_min_length lip_opcode
  · rw [if_pos c4]
    exact ⟨_, rfl, nested_effect_abort s m _, nested_effect_more_abort s m _⟩
  rw [if_neg c4]
  by_cases c5 : (!lip_can_handle_opcode_in_current_state s lip_opcode) = true
  · rw [if_pos c5]
    exact ⟨_, rfl, nested_effect_abort s m _, nested_effect_more_abort s m _⟩
  rw [if_neg c5]
  unfold lip_opcode_switch
  lift_lets
  intro r1 r2 r3 r4 r5 r6
  rcases hreq with h | h | h | h
  · rw [if_neg (by rw [h]; decide), if_neg (by rw [h]; decide), if_pos h]
    exact ⟨_, rfl, nested_effect_of_request_effect s m _
      (request_effect_mono (fun h => h.elim) (request_lip_support_effect now s m [])),
      nested_effect_more_of_request s m _ (request_lip_support_effect_more now s m hst)⟩
  · rw [if_neg (by rw [h]; decide), if_neg (by rw [h]; decide), if_neg (by rw [h]; decide),
      if_pos h]
    exact ⟨_, rfl, nested_effect_of_request_effect s m _
      (request_effect_mono (fun _ => hlat (by rw [h]; decide))
        (request_av_effect now s m [] false)),
      nested_effect_more_of_request s m _ (request_av_effect_more now s m false)⟩
  · rw [if_neg (by rw [h]; decide), if_neg (by rw [h]; decide), if_neg (by rw [h]; decide),
      if_neg (by rw [h]; decide), if_neg (by rw [h]; decide), if_pos h]
    exact ⟨_, rfl, nested_effect_of_request_effect s m _
      (request_effect_mono (fun _ => hlat (by rw [h]; decide))
        (request_audio_effect now s m [] false)),
      nested_effect_more_of_request s m _ (request_audio_effect_more now s m false)⟩
  · rw [if_neg (by rw [h]; decide), if_neg (by rw [h]; decide), if_neg (by rw [h]; decide),
      if_neg (by rw [h]; decide), if_neg (by rw [h]; decide), if_neg (by rw [h]; decide),
      if_neg (by rw [h]; decide), if_pos h]
    exact ⟨_, rfl, nested_effect_of_request_effect s m _
      (request_effect_mono (fun _ => hlat (by rw [h]; decide))
        (request_video_effect now s m [] false)),
      nested_effect_more_of_request s m _ (request_video_effect_more now s m false)⟩

/-! ## The drain of the pending requests in state SUPPORTED -/

/-- The loop of `lip_handle_pending_requests` on a well-formed table in state SUPPORTED:
besides what `pending_requests_loop_spec` says, every visited slot that is PENDING
afterwards waits behind a slot that is SENT, and every frame transmitted goes to a peer
whose slot was PENDING or to the downstream device. -/
theorem pending_requests_loop_more (fuel now : Nat) (L : List Int)
    (hL : ∀ i ∈ L, i ∈ slot_indices) (s : dlb_lip)
    (hwf : pending_table_wf s.pending_requests) (hst : s.state = LIP_SUPPORTED) :
    ∃ s', pending_requests_loop (lip_cec_cmd_received (fuel + 1) now) L s = some s'
      ∧ pending_table_wf s'.pending_requests ∧ same_static s s'
      ∧ (∀ u, (s.pending_requests u).state ≠ LIP_MESSAGE_PENDING →
          s'.pending_requests u = s.pending_requests u)
      ∧ (∀ i ∈ L, (s'.pending_requests i).state = LIP_MESSAGE_PENDING →
          ∃ j ∈ slot_indices, (s'.pending_requests j).state = LIP_MESSAGE_SENT)
      ∧ ∃ fs, s'.tx = s.tx ++ fs
          ∧ ∀ f ∈ fs,
              (f.destination ∈ L
                ∧ (s.pending_requests f.destination).state = LIP_MESSAGE_PENDING)
              ∨ f.destination = s.downstream_device_cfg.logical_addr := by
  induction L generalizing s with
  | nil =>
    exact ⟨s, rfl, hwf, same_static_refl s, fun _ _ => rfl,
      fun i hi => absurd hi (List.not_mem_nil i), [], by simp, by simp⟩
  | cons i L ih =>
    have hi : i ∈ slot_indices := hL i (List.mem_cons_self _ _)
    have hL' : ∀ j ∈ L, j ∈ slot_indices := fun j hj => hL j (List.mem_cons_of_mem _ hj)
    unfold pending_requests_loop
    by_cases hp : (s.pending_requests i).state = LIP_MESSAGE_PENDING
    · rw [if_pos hp]
      obtain ⟨hmop, hmi, hmreq⟩ := (hwf.2 i hi).1 hp
      have hwf1 : pending_table_wf (set_slot_state s i LIP_MESSAGE_HANDLED).pending_requests :=
        pending_table_wf_set_state i _ hwf (by decide) (by decide)
      have hmsg : ((set_slot_state s i LIP_MESSAGE_HANDLED).pending_requests i).msg
          = (s.pending_requests i).msg := by simp
      obtain ⟨s2, hs2, ⟨hn1, hn2, -⟩, hq, fs1, hd1, hd2⟩ :=
        body_request_more (lip_cec_cmd_received fuel now) now
          (set_slot_state s i LIP_MESSAGE_HANDLED) (s.pending_requests i).msg hmop hmreq
          (by simpa using hst)
      have hrecv : lip_cec_cmd_received (fuel + 1) now (set_slot_state s i LIP_MESSAGE_HANDLED)
          ((set_slot_state s i LIP_MESSAGE_HANDLED).pending_requests i).msg = some (s2, 1) := by
        rw [hmsg]; exact hs2
      simp only [hrecv]
      have hwf2 : pending_table_wf s2.pending_requests :=
        pending_table_wf_slot_effect hwf1 hn2 hmop hmreq (fun h => h)
      have hst2 : s2.state = LIP_SUPPORTED := by
        rw [hn1.2.2.2.1]; simpa using hst
      obtain ⟨s', e1, e2, e3, e4, e5, fs2, e6, e7⟩ := ih hL'
        { s2 with
          pending_requests :=
            Function.update s2.pending_requests i
              { (s2.pending_requests i) with
                expire_time_ms := (s.pending_requests i).expire_time_ms } }
        (pending_table_wf_set_expire i _ hwf2) hst2
      have hoth : ∀ u, u ≠ i →
          Function.update s2.pending_requests i
              { (s2.pending_requests i) with
                expire_time_ms := (s.pending_requests i).expire_time_ms } u
            = s.pending_requests u := by
        intro u hui
        rw [Function.update_noteq hui, slot_effect_other hn2 u (by rw [hmi]; exact hui)]
        simp [Function.update_noteq hui]
      have hother : ∀ u, (s.pending_requests u).state ≠ LIP_MESSAGE_PENDING →
          u ≠ i ∧ Function.update s2.pending_requests i
              { (s2.pending_requests i) with
                expire_time_ms := (s.pending_requests i).expire_time_ms } u
            = s.pending_requests u := by
        intro u hu
        have hui : u ≠ i := by intro hh; rw [hh] at hu; exact hu hp
        exact ⟨hui, hoth u hui⟩
      have hdown : s2.downstream_device_cfg = s.downstream_device_cfg := by
        rw [hn1.2.2.1]; simp
      refine ⟨s', e1, e2, ?_, ?_, ?_, fs1 ++ fs2, ?_, ?_⟩
      · refine same_static_trans ?_ e3
        simpa [same_static] using hn1
      · intro u hu
        obtain ⟨_, h2⟩ := hother u hu
        rw [e4 u (by simp only []; rw [h2]; exact hu)]
        exact h2
      · intro k hk hkp
        rcases List.mem_cons.1 hk with hki | hkL
        · subst hki
          by_cases hp2 : (s2.pending_requests k).state = LIP_MESSAGE_PENDING
          · obtain ⟨j, hj, hjk, hjs⟩ := hq (by rw [hmi]; exact hp2) (by rw [hmi]; simp)
            rw [hmi] at hjk
            refine ⟨j, hj, ?_⟩
            have hjs' : (s.pending_requests j).state = LIP_MESSAGE_SENT := by
              simpa [Function.update_noteq hjk] using hjs
            rw [e4 j (by simp only []; rw [hoth j hjk, hjs']; decide)]
            simp only []
            rw [hoth j hjk]
            exact hjs'
          · exfalso
            have := e4 k (by simpa using hp2)
            rw [this] at hkp
            simp at hkp
            exact hp2 hkp
        · exact e5 k hkL hkp
      · rw [e6]; simp only []; rw [hd1]; simp
      · intro f hf
        rcases List.mem_append.1 hf with h | h
        · rcases hd2 f h with hh | hh
          · left
            rw [hh, hmi]
            exact ⟨List.mem_cons_self _ _, hp⟩
          · right
            rw [hh]; simp
        · rcases e7 f h with ⟨hh1, hh2⟩ | hh
          · left
            refine ⟨List.mem_cons_of_mem _ hh1, ?_⟩
            by_cases hfi : f.destination = i
            · rw [hfi]; exact hp
            · simp only [] at hh2
              rw [hoth _ hfi] at hh2
              exact hh2
          · right
            rw [hh]
            simp only []
            rw [hdown]
    · rw [if_neg hp]
      obtain ⟨s', e1, e2, e3, e4, e5, fs2, e6, e7⟩ := ih hL' s hwf hst
      refine ⟨s', e1, e2, e3, e4, ?_, fs2, e6, ?_⟩
      · intro k hk hkp
        rcases List.mem_cons.1 hk with hki | hkL
        · subst hki
          rw [e4 k hp] at hkp
          exact absurd hkp hp
        · exact e5 k hkL hkp
      · intro f hf
        rcases e7 f hf with ⟨hh1, hh2⟩ | hh
        · exact Or.inl ⟨List.mem_cons_of_mem _ hh1, hh2⟩
        · exact Or.inr hh

/-- The function `lip_reply_for_pending_cmd_received` on a well-formed table in state
SUPPORTED, for a new state other than PENDING and SENT: besides what
`lip_reply_for_pending_cmd_received_spec` says, every slot that is PENDING afterwards
waits behind a slot that is SENT, and every frame transmitted goes to a peer other than
`source` whose slot was PENDING, or to the downstream device. -/
theorem lip_reply_for_pending_cmd_received_more (fuel now : Nat) (s : dlb_lip) (source : Int)
    (new_state : dlb_lip_pending_message_state)
    (hwf : pending_table_wf s.pending_requests) (hst : s.state = LIP_SUPPORTED)
    (h1 : new_state ≠ LIP_MESSAGE_SENT) (h2 : new_state ≠ LIP_MESSAGE_PENDING) :
    ∃ s', lip_reply_for_pending_cmd_received (lip_cec_cmd_received (fuel + 1) now) now s
          source new_state = some s'
      ∧ s'.pending_requests source = { (s.pending_requests source) with state := new_state }
      ∧ (∀ i ∈ slot_indices, (s'.pending_requests i).state = LIP_MESSAGE_PENDING →
          ∃ j ∈ slot_indices, (s'.pending_requests j).state = LIP_MESSAGE_SENT)
      ∧ ∃ fs, s'.tx = s.tx ++ fs
          ∧ (∀ f ∈ fs,
              (f.destination ∈ slot_indices ∧ f.destination ≠ source
                ∧ (s.pending_requests f.destination).state = LIP_MESSAGE_PENDING)
              ∨ f.destination = s.downstream_device_cfg.logical_addr)
          ∧ ((∀ i ∈ slot_indices, i ≠ source →
                (s.pending_requests i).state ≠ LIP_MESSAGE_PENDING) → fs = []) := by
  obtain ⟨s0, g1, -, -, g4, -, ⟨gs, g6, -, g8⟩, -⟩ :=
    lip_reply_for_pending_cmd_received_spec fuel now s source new_state hwf h1 h2
  have hwf1 : pending_table_wf (set_slot_state s source new_state).pending_requests :=
    pending_table_wf_set_state source _ hwf h1 h2
  have hpend : ∀ u, ((set_slot_state s source new_state).pending_requests u).state
      = LIP_MESSAGE_PENDING → u ≠ source ∧ (s.pending_requests u).state = LIP_MESSAGE_PENDING := by
    intro u hu
    by_cases hus : u = source
    · subst hus
      simp at hu
      exact absurd hu h2
    · simp only [set_slot_state_pending_requests, Function.update_noteq hus] at hu
      exact ⟨hus, hu⟩
  have key : ∃ s2, lip_handle_pending_requests (lip_cec_cmd_received (fuel + 1) now)
        (set_slot_state s source new_state) = some s2
      ∧ (∀ i ∈ slot_indices, (s2.pending_requests i).state = LIP_MESSAGE_PENDING →
          ∃ j ∈ slot_indices, (s2.pending_requests j).state = LIP_MESSAGE_SENT)
      ∧ ∃ fs, s2.tx = s.tx ++ fs
          ∧ ∀ f ∈ fs,
              (f.destination ∈ slot_indices ∧ f.destination ≠ source
                ∧ (s.pending_requests f.destination).state = LIP_MESSAGE_PENDING)
              ∨ f.destination = s.downstream_device_cfg.logical_addr := by
    unfold lip_handle_pending_requests
    split_ifs with hany
    · obtain ⟨s2, e1, -, -, -, e5, fs, e6, e7⟩ :=
        pending_requests_loop_more fuel now slot_indices (fun i hi => hi)
          (set_slot_state s source new_state) hwf1 (by simpa using hst)
      refine ⟨s2, e1, e5, fs, by simpa using e6, fun f hf => ?_⟩
      rcases e7 f hf with ⟨a, b⟩ | c
      · exact Or.inl ⟨a, (hpend _ b).1, (hpend _ b).2⟩
      · exact Or.inr (by simpa using c)
    · refine ⟨_, rfl, fun i hi hp => ?_, [], by simp, by simp⟩
      exfalso
      apply hany
      unfold lip_is_any_request_pending
      rw [List.any_eq_true]
      exact ⟨i, hi, by simp only [decide_eq_true_eq]; rw [hp]; decide⟩
  obtain ⟨s2, k1, k2, fs, k3, k4⟩ := key
  have hs0 : s0 = { (lip_reschedule_timer s2 now) with
      pending_cv_broadcasts := (lip_reschedule_timer s2 now).pending_cv_broadcasts + 1 } := by
    unfold lip_reply_for_pending_cmd_received at g1
    rw [k1] at g1
    exact (Option.some.inj g1).symm
  have hfs : gs = fs := by
    have : s0.tx = s.tx ++ fs := by rw [hs0]; simpa using k3
    rw [g6] at this
    exact List.append_cancel_left this
  refine ⟨s0, g1, g4, ?_, fs, ?_, k4, ?_⟩
  · intro i hi hp
    rw [hs0] at hp ⊢
    simp only [lip_reschedule_timer_pending_requests] at hp ⊢
    exact k2 i hi hp
  · rw [← hfs]; exact g6
  · rw [← hfs]; exact g8

/-! ## A report that does not match the request in flight -/

theorem report_audio_mismatch (recv : dlb_lip → dlb_cec_message → Option (dlb_lip × Int))
    (now : Nat) (s : dlb_lip) (R : dlb_cec_message) (rs : List dlb_cec_message) (u : Int)
    (hwf : pending_table_wf s.pending_requests) (hu : u ∈ slot_indices)
    (hs : (s.pending_requests u).state = LIP_MESSAGE_SENT)
    (hop : lip_get_command_opcode (s.pending_requests u).msg = LIP_OPCODE_REQUEST_VIDEO_LATENCY) :
    lip_handle_report_audio_latency recv now s R rs =
      (lip_reply_for_pending_cmd_received recv now (cache_store_audio s (R.byte 4)) u
          LIP_MESSAGE_HANDLED).map (fun s2 => (s2, rs, false)) := by
  have hsrc := addr_of_sent s hwf u hu hs
  unfold lip_handle_report_audio_latency
  lift_lets
  intro src dc s1 opcode
  have e1 : s1 = cache_store_audio s (R.byte 4) := rfl
  have e2 : src = u := hsrc
  have e3 : opcode = lip_get_command_opcode (s.pending_requests u).msg := by
    simp only [opcode, e2, s1]
  clear_value s1 src opcode
  subst e1 e2 e3
  have hu1 : src ≠ DLB_LOGICAL_ADDR_UNKNOWN := by
    have := (mem_slot_indices src).1 hu
    simp only [DLB_LOGICAL_ADDR_UNKNOWN]
    omega
  rw [if_pos hu1, if_pos hop]

theorem report_video_mismatch (recv : dlb_lip → dlb_cec_message → Option (dlb_lip × Int))
    (now : Nat) (s : dlb_lip) (R : dlb_cec_message) (rs : List dlb_cec_message) (u : Int)
    (hwf : pending_table_wf s.pending_requests) (hu : u ∈ slot_indices)
    (hs : (s.pending_requests u).state = LIP_MESSAGE_SENT)
    (hop : lip_get_command_opcode (s.pending_requests u).msg = LIP_OPCODE_REQUEST_AUDIO_LATENCY) :
    lip_handle_report_video_latency recv now s R rs =
      (lip_reply_for_pending_cmd_received recv now (cache_store_video s (R.byte 4)) u
          LIP_MESSAGE_HANDLED).map (fun s2 => (s2, rs, false)) := by
  have hsrc := addr_of_sent s hwf u hu hs
  unfold lip_handle_report_video_latency
  lift_lets
  intro src vin dc s1 opcode
  have e1 : s1 = cache_store_video s (R.byte 4) := rfl
  have e2 : src = u := hsrc
  have e3 : opcode = lip_get_command_opcode (s.pending_requests u).msg := by
    simp only [opcode, e2, s1]
  clear_value s1 src opcode
  subst e1 e2 e3
  have hu1 : src ≠ DLB_LOGICAL_ADDR_UNKNOWN := by
    have := (mem_slot_indices src).1 hu
    simp only [DLB_LOGICAL_ADDR_UNKNOWN]
    omega
  rw [if_pos hu1, if_neg (by rw [hop]; decide), if_pos hop]

/-- The completion of slot `u` without a reply, followed by the end of
`lip_cec_cmd_received`. -/
theorem finish_completed_silently (fuel now : Nat) (s1 : dlb_lip) (u : Int)
    (hwf : pending_table_wf s1.pending_requests) (hst : s1.state = LIP_SUPPORTED) :
    ∃ s2 fs,
      (lip_reply_for_pending_cmd_received (lip_cec_cmd_received (fuel + 1) now) now s1 u
          LIP_MESSAGE_HANDLED).map (fun s2 => finish_received (s2, [], false))
        = some (s2, 1)
      ∧ s2.tx = s1.tx ++ fs
      ∧ s2.pending_requests u = { (s1.pending_requests u) with state := LIP_MESSAGE_HANDLED }
      ∧ (∀ i ∈ slot_indices, (s2.pending_requests i).state = LIP_MESSAGE_PENDING →
          ∃ j ∈ slot_indices, (s2.pending_requests j).state = LIP_MESSAGE_SENT)
      ∧ (∀ f ∈ fs,
          (f.destination ∈ slot_indices ∧ f.destination ≠ u
            ∧ (s1.pending_requests f.destination).state = LIP_MESSAGE_PENDING)
          ∨ f.destination = s1.downstream_device_cfg.logical_addr)
      ∧ ((∀ i ∈ slot_indices, i ≠ u →
            (s1.pending_requests i).state ≠ LIP_MESSAGE_PENDING) → fs = []) := by
  obtain ⟨s', e1, e2, e3, fs, e4, e5, e6⟩ :=
    lip_reply_for_pending_cmd_received_more fuel now s1 u LIP_MESSAGE_HANDLED hwf hst
      (by decide) (by decide)
  refine ⟨s', fs, ?_, e4, e2, e3, e5, e6⟩
  rw [e1]
  rfl

/-! ## Assertions: the two builds agree wherever no assertion fails -/

theorem hdr_mode_none_iff (v : dlb_lip_video_format) :
    dlb_lip_get_hdr_mode_from_video_format v = none
      ↔ v.color_format ≥ LIP_COLOR_FORMAT_COUNT := by
  unfold dlb_lip_get_hdr_mode_from_video_format
  simp only [LIP_COLOR_FORMAT_HDR_STATIC, LIP_COLOR_FORMAT_HDR_DYNAMIC,
    LIP_COLOR_FORMAT_DOLBY_VISION, LIP_COLOR_FORMAT_COUNT]
  split_ifs <;> simp <;> omega

theorem hdr_mode_some (v : dlb_lip_video_format)
    (h : v.color_format < LIP_COLOR_FORMAT_COUNT) :
    dlb_lip_get_hdr_mode_from_video_format v
      = some (dlb_lip_get_hdr_mode_from_video_format_ndebug v) := by
  unfold dlb_lip_get_hdr_mode_from_video_format dlb_lip_get_hdr_mode_from_video_format_ndebug
  simp only [LIP_COLOR_FORMAT_HDR_STATIC, LIP_COLOR_FORMAT_HDR_DYNAMIC,
    LIP_COLOR_FORMAT_DOLBY_VISION, LIP_COLOR_FORMAT_COUNT] at h ⊢
  split_ifs <;> first | rfl | omega

theorem hdr_mode_cases (v : dlb_lip_video_format) :
    dlb_lip_get_hdr_mode_from_video_format v = none
      ∨ dlb_lip_get_hdr_mode_from_video_format v
        = some (dlb_lip_get_hdr_mode_from_video_format_ndebug v) := by
  by_cases h : v.color_format < LIP_COLOR_FORMAT_COUNT
  · exact Or.inr (hdr_mode_some v h)
  · exact Or.inl ((hdr_mode_none_iff v).2 (Nat.le_of_not_lt h))

theorem hdr_value_none_iff (v : dlb_lip_video_format) :
    get_value_from_hdr_mode v = none ↔ v.color_format ≥ LIP_COLOR_FORMAT_COUNT := by
  unfold get_value_from_hdr_mode
  simp only [LIP_COLOR_FORMAT_HDR_STATIC, LIP_COLOR_FORMAT_HDR_DYNAMIC,
    LIP_COLOR_FORMAT_DOLBY_VISION, LIP_COLOR_FORMAT_COUNT]
  split_ifs <;> simp <;> omega

theorem hdr_value_some (v : dlb_lip_video_format)
    (h : v.color_format < LIP_COLOR_FORMAT_COUNT) :
    get_value_from_hdr_mode v = some (get_value_from_hdr_mode_ndebug v) := by
  unfold get_value_from_hdr_mode get_value_from_hdr_mode_ndebug
  simp only [LIP_COLOR_FORMAT_HDR_STATIC, LIP_COLOR_FORMAT_HDR_DYNAMIC,
    LIP_COLOR_FORMAT_DOLBY_VISION, LIP_COLOR_FORMAT_COUNT] at h ⊢
  split_ifs <;> first | rfl | omega

theorem hdr_mode_ndebug_count (v : dlb_lip_video_format)
    (h : v.color_format ≥ LIP_COLOR_FORMAT_COUNT) :
    dlb_lip_get_hdr_mode_from_video_format_ndebug v = HDR_MODES_COUNT := by
  unfold dlb_lip_get_hdr_mode_from_video_format_ndebug
  simp only [LIP_COLOR_FORMAT_HDR_STATIC, LIP_COLOR_FORMAT_HDR_DYNAMIC,
    LIP_COLOR_FORMAT_DOLBY_VISION, LIP_COLOR_FORMAT_COUNT] at h ⊢
  split_ifs <;> first | rfl | omega

theorem cache_validate_video_none_iff (v : dlb_lip_video_format) :
    dlb_cache_validate_video_params v = none
      ↔ v.vic < MAX_VICS ∧ v.color_format = LIP_COLOR_FORMAT_COUNT := by
  unfold dlb_cache_validate_video_params
  by_cases h1 : v.vic < MAX_VICS
  · rw [if_pos h1]
    by_cases h2 : v.color_format ≤ LIP_COLOR_FORMAT_COUNT
    · rw [if_pos h2]
      by_cases h3 : v.color_format < LIP_COLOR_FORMAT_COUNT
      · rw [hdr_mode_some v h3]
        constructor
        · intro k
          exact absurd k (by simp)
        · intro k
          exact absurd k.2 (Nat.ne_of_lt h3)
      · rw [(hdr_mode_none_iff v).2 (Nat.le_of_not_lt h3)]
        exact ⟨fun _ => ⟨h1, Nat.le_antisymm h2 (Nat.le_of_not_lt h3)⟩, fun _ => rfl⟩
    · rw [if_neg h2]
      constructor
      · intro k
        exact absurd k (by simp)
      · intro k
        exact absurd (Nat.le_of_eq k.2) h2
  · rw [if_neg h1]
    constructor
    · intro k
      exact absurd k (by simp)
    · intro k
      exact absurd k.1 h1

theorem cache_validate_video_some (v : dlb_lip_video_format)
    (h : ¬ (v.vic < MAX_VICS ∧ v.color_format = LIP_COLOR_FORMAT_COUNT)) :
    dlb_cache_validate_video_params v = some (dlb_cache_validate_video_params_ndebug v) := by
  unfold dlb_cache_validate_video_params dlb_cache_validate_video_params_ndebug
  by_cases h1 : v.vic < MAX_VICS
  · rw [if_pos h1]
    by_cases h2 : v.color_format ≤ LIP_COLOR_FORMAT_COUNT
    · rw [if_pos h2]
      have h3 : v.color_format < LIP_COLOR_FORMAT_COUNT := by
        rcases Nat.lt_or_ge v.color_format LIP_COLOR_FORMAT_COUNT with h3 | h3
        · exact h3
        · exact absurd ⟨h1, Nat.le_antisymm h2 h3⟩ h
      rw [hdr_mode_some v h3]
      simp [h1, h2]
    · rw [if_neg h2]
      simp [h2]
  · rw [if_neg h1]
    simp [h1]

theorem cache_get_video_none_iff (c : dlb_latency_cache) (v : dlb_lip_video_format) (d : Nat) :
    dlb_cache_get_video_latency c v d = none
      ↔ c.cache_enabled = true ∧ v.vic < MAX_VICS
        ∧ v.color_format = LIP_COLOR_FORMAT_COUNT := by
  unfold dlb_cache_get_video_latency
  by_cases he : c.cache_enabled = true
  · rw [if_pos he]
    by_cases h : v.vic < MAX_VICS ∧ v.color_format = LIP_COLOR_FORMAT_COUNT
    · rw [(cache_validate_video_none_iff v).2 h]
      simp only [true_iff]
      exact ⟨he, h⟩
    · rw [cache_validate_video_some v h]
      have hn : ¬ (c.cache_enabled = true ∧ v.vic < MAX_VICS
          ∧ v.color_format = LIP_COLOR_FORMAT_COUNT) := fun k => h k.2
      simp only [hn, iff_false]
      cases hv : dlb_cache_validate_video_params_ndebug v
      · simp
      · have h3 : v.color_format < LIP_COLOR_FORMAT_COUNT := by
          unfold dlb_cache_validate_video_params_ndebug at hv
          simp only [Bool.and_eq_true, decide_eq_true_eq] at hv
          rcases Nat.lt_or_ge v.color_format LIP_COLOR_FORMAT_COUNT with h3 | h3
          · exact h3
          · exact absurd (hdr_mode_ndebug_count v h3) hv.2
        rw [hdr_mode_some v h3]
        simp only
        split_ifs <;> simp
  · rw [if_neg he]
    constructor
    · intro k
      exact absurd k (by simp)
    · intro k
      exact absurd k.1 he

theorem cache_get_video_some (c : dlb_latency_cache) (v : dlb_lip_video_format) (d : Nat)
    (h : ¬ (c.cache_enabled = true ∧ v.vic < MAX_VICS
      ∧ v.color_format = LIP_COLOR_FORMAT_COUNT)) :
    dlb_cache_get_video_latency c v d = some (dlb_cache_get_video_latency_ndebug c v d) := by
  unfold dlb_cache_get_video_latency dlb_cache_get_video_latency_ndebug
  by_cases he : c.cache_enabled = true
  · rw [if_pos he, if_pos he]
    have h' : ¬ (v.vic < MAX_VICS ∧ v.color_format = LIP_COLOR_FORMAT_COUNT) :=
      fun k => h ⟨he, k⟩
    rw [cache_validate_video_some v h']
    cases hv : dlb_cache_validate_video_params_ndebug v
    · simp
    · have h3 : v.color_format < LIP_COLOR_FORMAT_COUNT := by
        unfold dlb_cache_validate_video_params_ndebug at hv
        simp only [Bool.and_eq_true, decide_eq_true_eq] at hv
        rcases Nat.lt_or_ge v.color_format LIP_COLOR_FORMAT_COUNT with h3 | h3
        · exact h3
        · exact absurd (hdr_mode_ndebug_count v h3) hv.2
      rw [hdr_mode_some v h3]
      simp only [if_true]
      split_ifs <;> rfl
  · rw [if_neg he, if_neg he]

theorem cache_set_video_none_iff (c : dlb_latency_cache) (v : dlb_lip_video_format) (l : Nat) :
    dlb_cache_set_video_latency c v l = none
      ↔ v.vic < MAX_VICS ∧ v.color_format = LIP_COLOR_FORMAT_COUNT := by
  unfold dlb_cache_set_video_latency
  by_cases h : v.vic < MAX_VICS ∧ v.color_format = LIP_COLOR_FORMAT_COUNT
  · rw [(cache_validate_video_none_iff v).2 h]
    simp only [true_iff]
    exact h
  · rw [cache_validate_video_some v h]
    simp only [h, iff_false]
    cases hv : dlb_cache_validate_video_params_ndebug v
    · simp
    · have h3 : v.color_format < LIP_COLOR_FORMAT_COUNT := by
        unfold dlb_cache_validate_video_params_ndebug at hv
        simp only [Bool.and_eq_true, decide_eq_true_eq] at hv
        rcases Nat.lt_or_ge v.color_format LIP_COLOR_FORMAT_COUNT with h3 | h3
        · exact h3
        · exact absurd (hdr_mode_ndebug_count v h3) hv.2
      rw [hdr_mode_some v h3]
      simp

theorem cache_set_video_some (c : dlb_latency_cache) (v : dlb_lip_video_format) (l : Nat)
    (h : ¬ (v.vic < MAX_VICS ∧ v.color_format = LIP_COLOR_FORMAT_COUNT)) :
    dlb_cache_set_video_latency c v l = some (dlb_cache_set_video_latency_ndebug c v l) := by
  unfold dlb_cache_set_video_latency dlb_cache_set_video_latency_ndebug
  rw [cache_validate_video_some v h]
  cases hv : dlb_cache_validate_video_params_ndebug v
  · simp
  · have h3 : v.color_format < LIP_COLOR_FORMAT_COUNT := by
      unfold dlb_cache_validate_video_params_ndebug at hv
      simp only [Bool.and_eq_true, decide_eq_true_eq] at hv
      rcases Nat.lt_or_ge v.color_format LIP_COLOR_FORMAT_COUNT with h3 | h3
      · exact h3
      · exact absurd (hdr_mode_ndebug_count v h3) hv.2
    rw [hdr_mode_some v h3]
    simp

theorem video_format_valid_color (v : dlb_lip_video_format)
    (h : lip_is_video_format_valid v = true) : v.color_format < LIP_COLOR_FORMAT_COUNT := by
  unfold lip_is_video_format_valid at h
  by_contra hc
  rw [if_pos (Nat.le_of_not_lt hc)] at h
  split_ifs at h

theorem build_request_av_latency_none_iff (c : dlb_cec_message) (i d : Int)
    (v : dlb_lip_video_format) (a : dlb_lip_audio_format) :
    dlb_lip_build_request_av_latency c i d v a = none
      ↔ v.color_format ≥ LIP_COLOR_FORMAT_COUNT := by
  unfold dlb_lip_build_request_av_latency
  by_cases h : v.color_format < LIP_COLOR_FORMAT_COUNT
  · rw [hdr_value_some v h]
    simp only
    split_ifs <;> simp <;> omega
  · rw [(hdr_value_none_iff v).2 (Nat.le_of_not_lt h)]
    simp only [true_iff]
    exact Nat.le_of_not_lt h

theorem build_request_av_latency_some (c : dlb_cec_message) (i d : Int)
    (v : dlb_lip_video_format) (a : dlb_lip_audio_format)
    (h : v.color_format < LIP_COLOR_FORMAT_COUNT) :
    dlb_lip_build_request_av_latency c i d v a
      = some (dlb_lip_build_request_av_latency_ndebug c i d v a) := by
  unfold dlb_lip_build_request_av_latency dlb_lip_build_request_av_latency_ndebug
  rw [hdr_value_some v h]
  simp only
  split_ifs <;> rfl

theorem build_request_video_latency_none_iff (c : dlb_cec_message) (i d : Int)
    (v : dlb_lip_video_format) :
    dlb_lip_build_request_video_latency c i d v = none
      ↔ v.color_format ≥ LIP_COLOR_FORMAT_COUNT := by
  unfold dlb_lip_build_request_video_latency
  by_cases h : v.color_format < LIP_COLOR_FORMAT_COUNT
  · rw [hdr_value_some v h]
    constructor
    · intro k
      exact absurd k (by simp)
    · intro k
      exact absurd h (Nat.not_lt.2 k)
  · rw [(hdr_value_none_iff v).2 (Nat.le_of_not_lt h)]
    simp only [true_iff]
    exact Nat.le_of_not_lt h

theorem build_request_video_latency_some (c : dlb_cec_message) (i d : Int)
    (v : dlb_lip_video_format) (h : v.color_format < LIP_COLOR_FORMAT_COUNT) :
    dlb_lip_build_request_video_latency c i d v
      = some (dlb_lip_build_request_video_latency_ndebug c i d v) := by
  unfold dlb_lip_build_request_video_latency dlb_lip_build_request_video_latency_ndebug
  rw [hdr_value_some v h]

theorem cache_video_access_cases (v : dlb_lip_video_format) :
    (dlb_cache_video_access v = none
      ∧ v.vic < MAX_VICS ∧ v.color_format = LIP_COLOR_FORMAT_COUNT)
    ∨ (dlb_cache_video_access v = some none
      ∧ dlb_cache_validate_video_params_ndebug v = false)
    ∨ (dlb_cache_video_access v = some (some (v.vic, v.color_format, v.hdr_mode))
      ∧ dlb_cache_validate_video_params_ndebug v = true) := by
  unfold dlb_cache_video_access
  by_cases h : v.vic < MAX_VICS ∧ v.color_format = LIP_COLOR_FORMAT_COUNT
  · rw [(cache_validate_video_none_iff v).2 h]
    exact Or.inl ⟨rfl, h⟩
  · rw [cache_validate_video_some v h]
    cases hv : dlb_cache_validate_video_params_ndebug v
    · exact Or.inr (Or.inl ⟨rfl, rfl⟩)
    · have h3 : v.color_format < LIP_COLOR_FORMAT_COUNT := by
        have h4 := (cache_validate_video_iff v).1 hv
        simp only [LIP_COLOR_FORMAT_COUNT]
        omega
      refine Or.inr (Or.inr ⟨?_, rfl⟩)
      show (match dlb_lip_get_hdr_mode_from_video_format v with
        | none => none
        | some hdr_mode => some (some (v.vic, v.color_format, hdr_mode)))
          = some (some (v.vic, v.color_format, v.hdr_mode))
      rw [hdr_mode_some v h3, hdr_mode_of_valid v hv]

theorem cache_get_video_congr_ndebug (c c1 : dlb_latency_cache) (g : dlb_lip_video_format)
    (d : Nat) (he : c1.cache_enabled = c.cache_enabled)
    (h : dlb_cache_get_video_latency_ndebug c1 g d = dlb_cache_get_video_latency_ndebug c g d) :
    dlb_cache_get_video_latency c1 g d = dlb_cache_get_video_latency c g d := by
  by_cases ha : c.cache_enabled = true ∧ g.vic < MAX_VICS
      ∧ g.color_format = LIP_COLOR_FORMAT_COUNT
  · rw [(cache_get_video_none_iff c g d).2 ha,
      (cache_get_video_none_iff c1 g d).2 ⟨he.trans ha.1, ha.2⟩]
  · rw [cache_get_video_some c g d ha,
      cache_get_video_some c1 g d (fun k => ha ⟨he.symm.trans k.1, k.2⟩), h]

theorem cache_get_video_valid (c : dlb_latency_cache) (v : dlb_lip_video_format) (d : Nat)
    (h : lip_is_video_format_valid v = true) :
    dlb_cache_get_video_latency c v d = some (dlb_cache_get_video_latency_ndebug c v d) :=
  cache_get_video_some c v d
    (fun k => absurd k.2.2 (Nat.ne_of_lt (video_format_valid_color v h)))

theorem cache_set_video_valid (c : dlb_latency_cache) (v : dlb_lip_video_format) (l : Nat)
    (h : lip_is_video_format_valid v = true) :
    dlb_cache_set_video_latency c v l = some (dlb_cache_set_video_latency_ndebug c v l) :=
  cache_set_video_some c v l
    (fun k => absurd k.2 (Nat.ne_of_lt (video_format_valid_color v h)))

/-! ## The remembered video format is valid in every reachable core -/

theorem request_av_req_video_valid (now : Nat) (s : dlb_lip) (m : dlb_cec_message)
    (rs : List dlb_cec_message) (force : Bool)
    (h : lip_is_video_format_valid s.req_video_format = true) :
    lip_is_video_format_valid
      (lip_handle_request_av_latency now s m rs force).1.req_video_format = true := by
  by_cases ha : lip_is_audio_format_valid (decode_audio_format m 6) = true
  swap
  · rw [request_av_invalid now s m rs force (Or.inl (by simpa using ha))]
    exact h
  by_cases hv : lip_is_video_format_valid (decode_video_format m) = true
  swap
  · rw [request_av_invalid now s m rs force (Or.inr (by simpa using hv))]
    exact h
  unfold lip_handle_request_av_latency
  lift_lets
  intro vf af vr ar dp askv aska vt at_ afd v a vh ah s1 s2 s2' s3
  have e1 : s1.req_video_format = s.req_video_format := rfl
  have e3 : s3.req_video_format = vf := lip_reschedule_timer_req_video_format s2' now
  have ev : lip_is_video_format_valid vf = true := hv
  split_ifs
  all_goals first
    | exact h
    | exact (congrArg lip_is_video_format_valid e1).trans h
    | exact (congrArg lip_is_video_format_valid e3).trans ev

theorem request_video_req_video_valid (now : Nat) (s : dlb_lip) (m : dlb_cec_message)
    (rs : List dlb_cec_message) (force : Bool)
    (h : lip_is_video_format_valid s.req_video_format = true) :
    lip_is_video_format_valid
      (lip_handle_request_video_latency now s m rs force).1.req_video_format = true := by
  by_cases hv : lip_is_video_format_valid (decode_video_format m) = true
  swap
  · rw [request_video_invalid now s m rs force (by simpa using hv)]
    exact h
  unfold lip_handle_request_video_latency
  lift_lets
  intro vf vr dp ask vt s0 v s1 s3
  have e0 : s0.req_video_format = vf := rfl
  have e1 : s1.req_video_format = vf := rfl
  have e3 : s3.req_video_format = vf :=
    lip_reschedule_timer_req_video_format (set_slot_state s1 m.initiator LIP_MESSAGE_SENT) now
  have ev : lip_is_video_format_valid vf = true := hv
  split_ifs
  all_goals first
    | exact h
    | exact (congrArg lip_is_video_format_valid e0).trans ev
    | exact (congrArg lip_is_video_format_valid e1).trans ev
    | exact (congrArg lip_is_video_format_valid e3).trans ev

theorem request_audio_req_video_format (now : Nat) (s : dlb_lip) (m : dlb_cec_message)
    (rs : List dlb_cec_message) (force : Bool) :
    (lip_handle_request_audio_latency now s m rs force).1.req_video_format
      = s.req_video_format := by
  unfold lip_handle_request_audio_latency
  lift_lets
  intro af ar dp ask at_ afd a s0 s1 s3
  have e3 : s3.req_video_format = s.req_video_format :=
    lip_reschedule_timer_req_video_format (set_slot_state s1 m.initiator LIP_MESSAGE_SENT) now
  split_ifs
  all_goals first
    | rfl
    | exact e3

theorem request_lip_support_req_video_format (now : Nat) (s : dlb_lip) (m : dlb_cec_message)
    (rs : List dlb_cec_message) :
    (lip_handle_request_lip_support now s m rs).1.req_video_format = s.req_video_format := by
  unfold lip_handle_request_lip_support
  split_ifs
  · exact lip_status_change_callback_req_video_format _
  · rfl

theorem answer_buffered_support_req_video_format (L : List Int) (s : dlb_lip)
    (f : Int → Bool) :
    (answer_buffered_support L (s, f)).1.req_video_format = s.req_video_format := by
  induction L generalizing s f with
  | nil => rfl
  | cons i is ih =>
    unfold answer_buffered_support
    split_ifs
    · rw [ih]
      rfl
    · exact ih s f

theorem rotate_cache_req_video_format (s : dlb_lip) (uuid : Nat) :
    (rotate_cache s uuid).req_video_format = s.req_video_format := by
  unfold rotate_cache
  lift_lets
  intro s1 rd bytes_read cache old cache2
  show s1.req_video_format = s.req_video_format
  have e : s1 = (if s.downstream_device_cfg.logical_addr ≠ DLB_LOGICAL_ADDR_UNKNOWN
        ∧ s.callbacks.store_cache_callback = true then
      { s with stored_caches := s.stored_caches ++
          [(s.downstream_device_cfg.uuid, s.downstream_device_cfg.latency_cache)] }
    else s) := rfl
  rw [e]
  split_ifs <;> rfl

theorem report_lip_support_req_video_format (now : Nat) (s : dlb_lip) (m : dlb_cec_message)
    (rs : List dlb_cec_message) (upd : Bool) :
    (lip_handle_report_lip_support now s m rs upd).1.req_video_format
      = s.req_video_format := by
  unfold lip_handle_report_lip_support
  lift_lets
  intro uuid s1 cfg s2 r s3 out s4
  have e1 : s1.req_video_format = s.req_video_format := by
    have e : s1 = (if uuid ≠ s.downstream_device_cfg.uuid then rotate_cache s uuid else s) :=
      rfl
    rw [e]
    split_ifs
    · exact rotate_cache_req_video_format s uuid
    · rfl
  have e2 : s2.req_video_format = s.req_video_format := e1
  have er : r.1.req_video_format = s.req_video_format :=
    (answer_buffered_support_req_video_format slot_indices s2 _).trans e2
  have e3 : s3.req_video_format = s.req_video_format := by
    show (lip_status_change_callback (lip_reschedule_timer r.1 now)).req_video_format = _
    rw [lip_status_change_callback_req_video_format, lip_reschedule_timer_req_video_format]
    exact er
  have e4 : s4.req_video_format = s.req_video_format := by
    have e : s4 = (if (!upd) = true then
        { s3 with thread_signaled := true,
                  condition_var_signals := s3.condition_var_signals + 1 }
      else s3) := rfl
    rw [e]
    split_ifs
    · exact e3
    · exact e3
  split_ifs
  all_goals first
    | rfl
    | exact e4

theorem pending_requests_loop_req_video_valid
    (recv : dlb_lip → dlb_cec_message → Option (dlb_lip × Int))
    (hr : ∀ s m r, recv s m = some r → lip_is_video_format_valid s.req_video_format = true →
      lip_is_video_format_valid r.1.req_video_format = true)
    (L : List Int) (s s' : dlb_lip) (h : pending_requests_loop recv L s = some s')
    (hv : lip_is_video_format_valid s.req_video_format = true) :
    lip_is_video_format_valid s'.req_video_format = true := by
  induction L generalizing s with
  | nil =>
    unfold pending_requests_loop at h
    rw [← Option.some.inj h]
    exact hv
  | cons i L ih =>
    unfold pending_requests_loop at h
    by_cases hp : (s.pending_requests i).state = LIP_MESSAGE_PENDING
    · rw [if_pos hp] at h
      simp only [] at h
      cases hrr : recv (set_slot_state s i LIP_MESSAGE_HANDLED)
          ((set_slot_state s i LIP_MESSAGE_HANDLED).pending_requests i).msg with
      | none =>
        rw [hrr] at h
        exact absurd h (by simp)
      | some r =>
        rw [hrr] at h
        exact ih _ h (hr _ _ r hrr hv)
    · rw [if_neg hp] at h
      exact ih s h hv

theorem reply_req_video_valid
    (recv : dlb_lip → dlb_cec_message → Option (dlb_lip × Int))
    (hr : ∀ s m r, recv s m = some r → lip_is_video_format_valid s.req_video_format = true →
      lip_is_video_format_valid r.1.req_video_format = true)
    (now : Nat) (s s' : dlb_lip) (source : Int) (st : dlb_lip_pending_message_state)
    (h : lip_reply_for_pending_cmd_received recv now s source st = some s')
    (hv : lip_is_video_format_valid s.req_video_format = true) :
    lip_is_video_format_valid s'.req_video_format = true := by
  unfold lip_reply_for_pending_cmd_received at h
  cases hh : lip_handle_pending_requests recv (set_slot_state s source st) with
  | none =>
    rw [hh] at h
    exact absurd h (by simp)
  | some s2 =>
    rw [hh] at h
    have h2 : lip_is_video_format_valid s2.req_video_format = true := by
      unfold lip_handle_pending_requests at hh
      split_ifs at hh
      · exact pending_requests_loop_req_video_valid recv hr _ _ _ hh hv
      · rw [← Option.some.inj hh]
        exact hv
    rw [← Option.some.inj h]
    show lip_is_video_format_valid (lip_reschedule_timer s2 now).req_video_format = true
    rw [lip_reschedule_timer_req_video_format]
    exact h2

theorem complete_with_reply_req_video_valid
    (recv : dlb_lip → dlb_cec_message → Option (dlb_lip × Int))
    (hr : ∀ s m r, recv s m = some r → lip_is_video_format_valid s.req_video_format = true →
      lip_is_video_format_valid r.1.req_video_format = true)
    (now : Nat) (s : dlb_lip) (src : Int) (reply : dlb_cec_message)
    (rs : List dlb_cec_message) (r : dlb_lip × List dlb_cec_message × Bool)
    (h : complete_with_reply recv now s src reply rs = some r)
    (hv : lip_is_video_format_valid s.req_video_format = true) :
    lip_is_video_format_valid r.1.req_video_format = true := by
  unfold complete_with_reply at h
  split_ifs at h
  all_goals
    obtain ⟨s1, e1, e2⟩ := Option.map_eq_some'.1 h
    rw [← e2]
    exact reply_req_video_valid recv hr now s s1 src _ e1 hv

theorem report_av_req_video_valid
    (recv : dlb_lip → dlb_cec_message → Option (dlb_lip × Int))
    (hr : ∀ s m r, recv s m = some r → lip_is_video_format_valid s.req_video_format = true →
      lip_is_video_format_valid r.1.req_video_format = true)
    (now : Nat) (s : dlb_lip) (m : dlb_cec_message) (rs : List dlb_cec_message)
    (r : dlb_lip × List dlb_cec_message × Bool)
    (h : lip_handle_report_av_latency recv now s m rs = some r)
    (hv : lip_is_video_format_valid s.req_video_format = true) :
    lip_is_video_format_valid r.1.req_video_format = true := by
  revert h
  unfold lip_handle_report_av_latency
  lift_lets
  intro vin ain src dc s1 opcode h
  have hv1 : lip_is_video_format_valid s1.req_video_format = true := hv
  split_ifs at h
  · exact complete_with_reply_req_video_valid recv hr now s1 src _ rs r h hv1
  · obtain ⟨s2, e1, e2⟩ := Option.map_eq_some'.1 h
    rw [← e2]
    exact reply_req_video_valid recv hr now s1 s2 src _ e1 hv1
  · rw [← Option.some.inj h]
    exact hv1

theorem report_audio_req_video_valid
    (recv : dlb_lip → dlb_cec_message → Option (dlb_lip × Int))
    (hr : ∀ s m r, recv s m = some r → lip_is_video_format_valid s.req_video_format = true →
      lip_is_video_format_valid r.1.req_video_format = true)
    (now : Nat) (s : dlb_lip) (m : dlb_cec_message) (rs : List dlb_cec_message)
    (r : dlb_lip × List dlb_cec_message × Bool)
    (h : lip_handle_report_audio_latency recv now s m rs = some r)
    (hv : lip_is_video_format_valid s.req_video_format = true) :
    lip_is_video_format_valid r.1.req_video_format = true := by
  revert h
  unfold lip_handle_report_audio_latency
  lift_lets
  intro src dc s1 opcode h
  have hv1 : lip_is_video_format_valid s1.req_video_format = true := hv
  split_ifs at h
  · obtain ⟨s2, e1, e2⟩ := Option.map_eq_some'.1 h
    rw [← e2]
    exact reply_req_video_valid recv hr now s1 s2 src _ e1 hv1
  · exact complete_with_reply_req_video_valid recv hr now s1 src _ rs r h hv1
  · exact complete_with_reply_req_video_valid recv hr now s1 src _ rs r h hv1
  · rw [← Option.some.inj h]
    exact hv1
  · rw [← Option.some.inj h]
    exact hv1

theorem report_video_req_video_valid
    (recv : dlb_lip → dlb_cec_message → Option (dlb_lip × Int))
    (hr : ∀ s m r, recv s m = some r → lip_is_video_format_valid s.req_video_format = true →
      lip_is_video_format_valid r.1.req_video_format = true)
    (now : Nat) (s : dlb_lip) (m : dlb_cec_message) (rs : List dlb_cec_message)
    (r : dlb_lip × List dlb_cec_message × Bool)
    (h : lip_handle_report_video_latency recv now s m rs = some r)
    (hv : lip_is_video_format_valid s.req_video_format = true) :
    lip_is_video_format_valid r.1.req_video_format = true := by
  revert h
  unfold lip_handle_report_video_latency
  lift_lets
  intro src vin dc s1 opcode h
  have hv1 : lip_is_video_format_valid s1.req_video_format = true := hv
  split_ifs at h
  · exact complete_with_reply_req_video_valid recv hr now s1 src _ rs r h hv1
  · obtain ⟨s2, e1, e2⟩ := Option.map_eq_some'.1 h
    rw [← e2]
    exact reply_req_video_valid recv hr now s1 s2 src _ e1 hv1
  · exact complete_with_reply_req_video_valid recv hr now s1 src _ rs r h hv1
  · rw [← Option.some.inj h]
    exact hv1
  · rw [← Option.some.inj h]
    exact hv1

theorem feature_abort_req_video_valid
    (recv : dlb_lip → dlb_cec_message → Option (dlb_lip × Int))
    (hr : ∀ s m r, recv s m = some r → lip_is_video_format_valid s.req_video_format = true →
      lip_is_video_format_valid r.1.req_video_format = true)
    (now : Nat) (s : dlb_lip) (m : dlb_cec_message) (rs : List dlb_cec_message) (c : Int)
    (r : dlb_lip × List dlb_cec_message × Bool × Int)
    (h : lip_handle_feature_abort recv now s m rs c = some r)
    (hv : lip_is_video_format_valid s.req_video_format = true) :
    lip_is_video_format_valid r.1.req_video_format = true := by
  revert h
  unfold lip_handle_feature_abort
  lift_lets
  intro op src pop h
  split_ifs at h
  all_goals first
    | (rw [← Option.some.inj h]; exact hv)
    | (obtain ⟨s1, e1, e2⟩ := Option.map_eq_some'.1 h
       rw [← e2]
       exact reply_req_video_valid recv hr now s s1 src _ e1 hv)

theorem opcode_switch_req_video_valid
    (recv : dlb_lip → dlb_cec_message → Option (dlb_lip × Int))
    (hr : ∀ s m r, recv s m = some r → lip_is_video_format_valid s.req_video_format = true →
      lip_is_video_format_valid r.1.req_video_format = true)
    (now : Nat) (s : dlb_lip) (m : dlb_cec_message) (op : Nat)
    (r : dlb_lip × List dlb_cec_message × Bool × Int)
    (h : lip_opcode_switch recv now s m op = some r)
    (hv : lip_is_video_format_valid s.req_video_format = true) :
    lip_is_video_format_valid r.1.req_video_format = true := by
  revert h
  unfold lip_opcode_switch
  lift_lets
  intro r1 r2 r3 r4 r5 r6 h
  split_ifs at h
  · rw [← Option.some.inj h]
    exact (congrArg lip_is_video_format_valid
      (report_lip_support_req_video_format now s m [] false)).trans hv
  · rw [← Option.some.inj h]
    exact (congrArg lip_is_video_format_valid
      (report_lip_support_req_video_format now s m [] true)).trans hv
  · rw [← Option.some.inj h]
    exact (congrArg lip_is_video_format_valid
      (request_lip_support_req_video_format now s m [])).trans hv
  · rw [← Option.some.inj h]
    exact request_av_req_video_valid now s m [] false hv
  · obtain ⟨q, e1, e2⟩ := Option.map_eq_some'.1 h
    rw [← e2]
    exact report_av_req_video_valid recv hr now s m [] q e1 hv
  · rw [← Option.some.inj h]
    exact (congrArg lip_is_video_format_valid
      (request_audio_req_video_format now s m [] false)).trans hv
  · obtain ⟨q, e1, e2⟩ := Option.map_eq_some'.1 h
    rw [← e2]
    exact report_audio_req_video_valid recv hr now s m [] q e1 hv
  · rw [← Option.some.inj h]
    exact request_video_req_video_valid now s m [] false hv
  · obtain ⟨q, e1, e2⟩ := Option.map_eq_some'.1 h
    rw [← e2]
    exact report_video_req_video_valid recv hr now s m [] q e1 hv
  · rw [← Option.some.inj h]
    exact hv

theorem dispatch_req_video_valid
    (recv : dlb_lip → dlb_cec_message → Option (dlb_lip × Int))
    (hr : ∀ s m r, recv s m = some r → lip_is_video_format_valid s.req_video_format = true →
      lip_is_video_format_valid r.1.req_video_format = true)
    (now : Nat) (s : dlb_lip) (m : dlb_cec_message)
    (r : dlb_lip × List dlb_cec_message × Bool × Int)
    (h : lip_cec_cmd_dispatch recv now s m = some r)
    (hv : lip_is_video_format_valid s.req_video_format = true) :
    lip_is_video_format_valid r.1.req_video_format = true := by
  revert h
  unfold lip_cec_cmd_dispatch
  lift_lets
  intro own op h
  split_ifs at h
  all_goals first
    | (rw [← Option.some.inj h]; exact hv)
    | exact feature_abort_req_video_valid recv hr now s m [] 0 r h hv
    | exact opcode_switch_req_video_valid recv hr now s m op r h hv

theorem body_req_video_valid
    (recv : dlb_lip → dlb_cec_message → Option (dlb_lip × Int))
    (hr : ∀ s m r, recv s m = some r → lip_is_video_format_valid s.req_video_format = true →
      lip_is_video_format_valid r.1.req_video_format = true)
    (now : Nat) (s : dlb_lip) (m : dlb_cec_message) (r : dlb_lip × Int)
    (h : lip_cec_cmd_received_body recv now s m = some r)
    (hv : lip_is_video_format_valid s.req_video_format = true) :
    lip_is_video_format_valid r.1.req_video_format = true := by
  unfold lip_cec_cmd_received_body at h
  obtain ⟨q, e1, e2⟩ := Option.map_eq_some'.1 h
  have hq := dispatch_req_video_valid recv hr now s m q e1 hv
  rw [← e2]
  show lip_is_video_format_valid
    (if q.2.2.1 = true then transmit_responses q.1 q.2.1 else q.1).req_video_format = true
  split_ifs
  · rw [transmit_responses_req_video_format]
    exact hq
  · exact hq

/-- Every run of `lip_cec_cmd_received`, at any nesting depth, leaves a valid remembered
video format valid. -/
theorem recv_req_video_valid (fuel now : Nat) (s : dlb_lip) (m : dlb_cec_message)
    (r : dlb_lip × Int) (h : lip_cec_cmd_received fuel now s m = some r)
    (hv : lip_is_video_format_valid s.req_video_format = true) :
    lip_is_video_format_valid r.1.req_video_format = true := by
  induction fuel generalizing s m r with
  | zero => exact absurd h (by simp [lip_cec_cmd_received])
  | succ n ih =>
    exact body_req_video_valid (lip_cec_cmd_received n now)
      (fun s1 m1 r1 h1 hv1 => ih s1 m1 r1 h1 hv1) now s m r h hv

theorem timer_req_video_valid (fuel now : Nat) (s : dlb_lip) (id : Nat) (lock : Bool)
    (r : dlb_lip × Int)
    (h : dlb_lip_timer_callback (lip_cec_cmd_received fuel now) now s id lock = some r)
    (hv : lip_is_video_format_valid s.req_video_format = true) :
    lip_is_video_format_valid r.1.req_video_format = true := by
  have hr : ∀ s m r, lip_cec_cmd_received fuel now s m = some r →
      lip_is_video_format_valid s.req_video_format = true →
      lip_is_video_format_valid r.1.req_video_format = true :=
    fun s1 m1 r1 h1 hv1 => recv_req_video_valid fuel now s1 m1 r1 h1 hv1
  revert h
  unfold dlb_lip_timer_callback
  lift_lets
  intro src opcode response h
  split_ifs at h
  all_goals first
    | (rw [← Option.some.inj h]; exact hv)
    | (obtain ⟨s1, e1, e2⟩ := Option.map_eq_some'.1 h
       rw [← e2]
       exact reply_req_video_valid _ hr now s s1 src _ e1 hv)

theorem thread_supported_loop_req_video_format (now : Nat) (L : List Int) (s : dlb_lip) :
    (thread_supported_loop now L s).req_video_format = s.req_video_format := by
  induction L generalizing s with
  | nil => rfl
  | cons i L ih =>
    unfold thread_supported_loop
    lift_lets
    intro s1 r
    split_ifs
    · rw [ih, transmit_responses_req_video_format]
      exact request_lip_support_req_video_format now s1 _ []
    · rw [ih]
      exact request_lip_support_req_video_format now s1 _ []
    · exact ih s

theorem thread_unsupported_loop_req_video_format (L : List Int) (s : dlb_lip) :
    (thread_unsupported_loop L s).req_video_format = s.req_video_format := by
  induction L generalizing s with
  | nil => rfl
  | cons i L ih =>
    unfold thread_unsupported_loop
    lift_lets
    intro s1
    split_ifs
    · rw [ih]
      rfl
    · exact ih s

theorem request_thread_switch_req_video_format (now : Nat) (s : dlb_lip)
    (l : request_thread_locals) :
    (request_thread_switch now s l).1.req_video_format = s.req_video_format := by
  unfold request_thread_switch
  cases hst : s.state
  · simp only []
    split_ifs <;> rfl
  · simp only []
    split_ifs <;> rfl
  · simp only []
    split_ifs
    · exact thread_supported_loop_req_video_format now slot_indices s
    · rfl
  · simp only []
    split_ifs
    · exact thread_unsupported_loop_req_video_format slot_indices s
    · rfl

theorem request_thread_step_req_video_format (now : Nat) (s : dlb_lip)
    (l : request_thread_locals) :
    (dlb_lip_request_thread_step now s l).1.req_video_format = s.req_video_format := by
  unfold dlb_lip_request_thread_step
  lift_lets
  intro s0 r
  have e : r.1.req_video_format = s.req_video_format :=
    request_thread_switch_req_video_format now s0 l
  split_ifs
  · rfl
  · exact e
  · exact e

theorem set_config_update_loop_req_video_format (L : List Int) (a : dlb_lip × Int) :
    (set_config_update_loop L a).1.req_video_format = a.1.req_video_format := by
  induction L generalizing a with
  | nil => rfl
  | cons x L ih =>
    obtain ⟨s, ret⟩ := a
    unfold set_config_update_loop
    split_ifs
    · rw [ih]
      rfl
    · exact ih (s, ret)

theorem set_config_req_video_format (s : dlb_lip) (p : Option dlb_lip_config_params)
    (f : Bool) (rm : Int) :
    (dlb_lip_set_config s p f rm).1.req_video_format = s.req_video_format := by
  unfold dlb_lip_set_config
  lift_lets
  intro s1 up r
  have er : r.1.req_video_format = s.req_video_format := by
    cases p with
    | none => rfl
    | some q =>
      show (set_config_check s1 f q).1.req_video_format = s.req_video_format
      unfold set_config_check
      lift_lets
      intro uu lc d v1 v2
      split_ifs <;> rfl
  split_ifs
  · unfold set_config_apply
    lift_lets
    intro s3 s4
    have e4 : s4.req_video_format = s.req_video_format := by
      have e : s4 = (if r.2.1 = true then set_config_rediscover s3 up else s3) := rfl
      rw [e]
      split_ifs
      · exact er
      · exact er
    split_ifs
    · rw [set_config_update_loop_req_video_format]
      exact e4
    · exact e4
  · exact er
  · rfl

theorem query_after_handler_req_video_format (r : dlb_lip × List dlb_cec_message × Bool)
    (op : Nat) : (query_after_handler r op).1.req_video_format = r.1.req_video_format := by
  unfold query_after_handler
  lift_lets
  intro first t
  split_ifs <;> rfl

theorem open_req_video_valid (p : dlb_lip_config_params) (cb : dlb_lip_callbacks)
    (bus : dlb_cec_bus) (now : Nat) (s : dlb_lip) (h : dlb_lip_open p cb bus now = some s) :
    lip_is_video_format_valid s.req_video_format = true := by
  unfold dlb_lip_open at h
  split_ifs at h
  rw [← Option.some.inj h]
  rfl

theorem step_req_video_valid (s s' : dlb_lip) (h : Step s s')
    (hv : lip_is_video_format_valid s.req_video_format = true) :
    lip_is_video_format_valid s'.req_video_format = true := by
  cases h with
  | received fuel now _ m r h => exact recv_req_video_valid _ now s m r h hv
  | timer_fired fuel now _ id lock r h => exact timer_req_video_valid _ now s id lock r h hv
  | worker now _ l =>
    rw [request_thread_step_req_video_format]
    exact hv
  | set_config _ p f rm =>
    rw [set_config_req_video_format]
    exact hv
  | get_av_latency now _ vf af =>
    unfold dlb_lip_get_av_latency_round
    lift_lets
    intro v a command r
    split_ifs
    · exact hv
    · exact hv
    · show lip_is_video_format_valid r.1.req_video_format = true
      rw [query_after_handler_req_video_format]
      exact request_av_req_video_valid now s command [] true hv
  | get_audio_latency now _ af =>
    unfold dlb_lip_get_audio_latency_round
    lift_lets
    intro a command r
    split_ifs
    · exact hv
    · exact hv
    · show lip_is_video_format_valid r.1.req_video_format = true
      rw [query_after_handler_req_video_format, request_audio_req_video_format]
      exact hv
  | get_video_latency now _ vf =>
    unfold dlb_lip_get_video_latency_round
    lift_lets
    intro v command r
    split_ifs
    · exact hv
    · exact hv
    · show lip_is_video_format_valid r.1.req_video_format = true
      rw [query_after_handler_req_video_format]
      exact request_video_req_video_valid now s command [] true hv
  | query_wait_done => exact hv

/-- In every reachable core the remembered video format is valid: its colour format is
one of the three enumerators, so the functions of `dlb_lip.c` that pass it to the cache
or to `dlb_lip_get_hdr_mode_from_video_format` do not reach the assertion. -/
theorem reachable_req_video_valid (s : dlb_lip) (h : Reachable s) :
    lip_is_video_format_valid s.req_video_format = true := by
  induction h with
  | opened p cb bus now s h => exact open_req_video_valid p cb bus now s h
  | step s s' _ hs ih => exact step_req_video_valid s s' hs ih

/-- On a format that `lip_is_video_format_valid` accepts no function reaches the
assertion: each returns what its `NDEBUG` variant returns. -/
theorem valid_format_assertion_free (v : dlb_lip_video_format)
    (hv : lip_is_video_format_valid v = true) (c : dlb_latency_cache) (l d : Nat)
    (f : dlb_cec_message) (i j : Int) (a : dlb_lip_audio_format) :
    dlb_lip_get_hdr_mode_from_video_format v
        = some (dlb_lip_get_hdr_mode_from_video_format_ndebug v)
      ∧ get_value_from_hdr_mode v = some (get_value_from_hdr_mode_ndebug v)
      ∧ dlb_cache_validate_video_params v = some (dlb_cache_validate_video_params_ndebug v)
      ∧ dlb_cache_get_video_latency c v d = some (dlb_cache_get_video_latency_ndebug c v d)
      ∧ dlb_cache_set_video_latency c v l = some (dlb_cache_set_video_latency_ndebug c v l)
      ∧ dlb_lip_build_request_av_latency f i j v a
          = some (dlb_lip_build_request_av_latency_ndebug f i j v a)
      ∧ dlb_lip_build_request_video_latency f i j v
          = some (dlb_lip_build_request_video_latency_ndebug f i j v) := by
  have hc := video_format_valid_color v hv
  exact ⟨hdr_mode_some v hc, hdr_value_some v hc,
    cache_validate_video_some v (fun k => absurd k.2 (Nat.ne_of_lt hc)),
    cache_get_video_valid c v d hv, cache_set_video_valid c v l hv,
    build_request_av_latency_some f i j v a hc, build_request_video_latency_some f i j v hc⟩

/-- In every reachable core the calls that the report handlers make with the remembered
video format return: the store into the cache, the lookup and the hdr mode index. -/
theorem reachable_assertion_free (s : dlb_lip) (h : Reachable s) (l d : Nat) :
    dlb_cache_set_video_latency s.downstream_device_cfg.latency_cache s.req_video_format l
        = some (dlb_cache_set_video_latency_ndebug s.downstream_device_cfg.latency_cache
            s.req_video_format l)
      ∧ dlb_cache_get_video_latency s.downstream_device_cfg.latency_cache
          s.req_video_format d
        = some (dlb_cache_get_video_latency_ndebug s.downstream_device_cfg.latency_cache
            s.req_video_format d)
      ∧ dlb_lip_get_hdr_mode_from_video_format s.req_video_format
        = some (dlb_lip_get_hdr_mode_from_video_format_ndebug s.req_video_format) := by
  have hv := reachable_req_video_valid s h
  exact ⟨cache_set_video_valid _ _ l hv, cache_get_video_valid _ _ d hv,
    hdr_mode_some _ (video_format_valid_color _ hv)⟩

/-! ## C1 -/

/-- C1: single outstanding downstream query.  On every core reachable from the one built
by `dlb_lip_open` by steps of the core (a received frame, a timer fire, a worker step,
a `dlb_lip_set_config` call, a round or the completion of a public latency query) at
most one slot of the pending-request table is SENT; and on such a core a received frame
and a timer fire return (nesting depth 2 suffices) and lead to such a core again. -/
theorem single_outstanding_downstream_query (s : dlb_lip) (h : Reachable s) :
    sent_count s ≤ 1
      ∧ (∀ i ∈ slot_indices, ∀ j ∈ slot_indices,
          (s.pending_requests i).state = LIP_MESSAGE_SENT →
          (s.pending_requests j).state = LIP_MESSAGE_SENT → i = j)
      ∧ (∀ fuel now m, ∃ r, lip_cec_cmd_received (fuel + 2) now s m = some r
          ∧ Reachable r.1 ∧ sent_count r.1 ≤ 1)
      ∧ (∀ fuel now callback_id lock_acquired,
          ∃ r, dlb_lip_timer_callback (lip_cec_cmd_received (fuel + 1) now) now s
              callback_id lock_acquired = some r
            ∧ Reachable r.1 ∧ sent_count r.1 ≤ 1) := by
  have hwf := reachable_wf s h
  refine ⟨sent_count_le_one s hwf, hwf.1, ?_, ?_⟩
  · intro fuel now m
    obtain ⟨r, hr, hwf'⟩ := recv_wf fuel now s m hwf
    exact ⟨r, hr, Reachable.step s r.1 h (Step.received fuel now s m r hr),
      sent_count_le_one r.1 hwf'⟩
  · intro fuel now id lock
    obtain ⟨r, hr, hwf'⟩ := timer_wf fuel now s id lock hwf
    exact ⟨r, hr, Reachable.step s r.1 h (Step.timer_fired fuel now s id lock r hr),
      sent_count_le_one r.1 hwf'⟩

theorem single_outstanding_downstream_query_witness :
    Reachable S2_in_flight ∧ sent_count S2_in_flight = 1
      ∧ (S2_in_flight.pending_requests 1).state = LIP_MESSAGE_SENT
      ∧ sent_count S2_in_flight ≤ 1 :=
  ⟨S2_in_flight_reachable, by decide, by decide,
    (single_outstanding_downstream_query S2_in_flight S2_in_flight_reachable).1⟩

/-! ## C2 -/

/-- C2: latency arithmetic.  For all a, b in 0..255, `lip_sum_latencies a b` is 255 if
a = 255 or b = 255, is 254 if neither is 255 and a + b ≥ 255, and is a + b otherwise;
sum(254,1) = 254, sum(255,0) = 255, sum(1,255) = 255, sum(200,60) = 254; the result is
at most 255 and, when both operands are valid, it is min (a + b) 254, so it never wraps
around modulo 256. -/
theorem lip_sum_latencies_arith (a b : Nat) (ha : a ≤ 255) (hb : b ≤ 255) :
    lip_sum_latencies a b =
        (if a = 255 ∨ b = 255 then 255 else if a + b ≥ 255 then 254 else a + b)
      ∧ lip_sum_latencies a b ≤ 255
      ∧ (a ≠ 255 → b ≠ 255 → lip_sum_latencies a b = min (a + b) 254)
      ∧ lip_sum_latencies 254 1 = 254 ∧ lip_sum_latencies 255 0 = 255
      ∧ lip_sum_latencies 1 255 = 255 ∧ lip_sum_latencies 200 60 = 254 := by
  have key : lip_sum_latencies a b =
      (if a = 255 ∨ b = 255 then 255 else if a + b ≥ 255 then 254 else a + b) := by
    unfold lip_sum_latencies lip_validate_latency
    simp only [LIP_INVALID_LATENCY]
    split_ifs <;> simp_all <;> omega
  refine ⟨key, ?_, ?_, by decide, by decide, by decide, by decide⟩
  · rw [key]; split_ifs <;> omega
  · intro h1 h2; rw [key]; split_ifs <;> omega

theorem lip_sum_latencies_arith_witness :
    (200 : Nat) ≤ 255 ∧ (60 : Nat) ≤ 255 ∧ lip_sum_latencies (200 : Nat) (60 : Nat) = 254 :=
  ⟨by decide, by decide, (lip_sum_latencies_arith 200 60 (by decide) (by decide)).2.2.2.2.2.2⟩

/-! ## C3 -/

theorem known_opcode_cases (m : dlb_cec_message) (h : lip_get_command_opcode m ≠ LIP_OPCODES) :
    lip_get_command_opcode m = LIP_OPCODE_REQUEST_LIP_SUPPORT
      ∨ lip_get_command_opcode m = LIP_OPCODE_UPDATE_UUID
      ∨ lip_get_command_opcode m = LIP_OPCODE_REPORT_LIP_SUPPORT
      ∨ lip_get_command_opcode m = LIP_OPCODE_REQUEST_AV_LATENCY
      ∨ lip_get_command_opcode m = LIP_OPCODE_REPORT_AV_LATENCY
      ∨ lip_get_command_opcode m = LIP_OPCODE_REQUEST_AUDIO_LATENCY
      ∨ lip_get_command_opcode m = LIP_OPCODE_REPORT_AUDIO_LATENCY
      ∨ lip_get_command_opcode m = LIP_OPCODE_REQUEST_VIDEO_LATENCY
      ∨ lip_get_command_opcode m = LIP_OPCODE_REPORT_VIDEO_LATENCY := by
  have key : ∀ op : Nat,
      (if op = LIP_OPCODE_REQUEST_LIP_SUPPORT ∨ op = LIP_OPCODE_UPDATE_UUID
          ∨ op = LIP_OPCODE_REPORT_LIP_SUPPORT ∨ op = LIP_OPCODE_REQUEST_AV_LATENCY
          ∨ op = LIP_OPCODE_REPORT_AV_LATENCY ∨ op = LIP_OPCODE_REQUEST_AUDIO_LATENCY
          ∨ op = LIP_OPCODE_REPORT_AUDIO_LATENCY
          ∨ op = LIP_OPCODE_REQUEST_VIDEO_LATENCY
          ∨ op = LIP_OPCODE_REPORT_VIDEO_LATENCY
        then op else LIP_OPCODES) ≠ LIP_OPCODES →
      op = LIP_OPCODE_REQUEST_LIP_SUPPORT ∨ op = LIP_OPCODE_UPDATE_UUID
          ∨ op = LIP_OPCODE_REPORT_LIP_SUPPORT ∨ op = LIP_OPCODE_REQUEST_AV_LATENCY
          ∨ op = LIP_OPCODE_REPORT_AV_LATENCY ∨ op = LIP_OPCODE_REQUEST_AUDIO_LATENCY
          ∨ op = LIP_OPCODE_REPORT_AUDIO_LATENCY
          ∨ op = LIP_OPCODE_REQUEST_VIDEO_LATENCY
          ∨ op = LIP_OPCODE_REPORT_VIDEO_LATENCY := by
    intro op h
    split_ifs at h with hc
    · exact hc
    · exact absurd rfl h
  have h2 := key _ h
  have e : lip_get_command_opcode m =
      (if m.msg_length ≥ 4 ∧ DOLBY_VENDOR_ID.getD 0 0 = m.byte 0
          ∧ DOLBY_VENDOR_ID.getD 1 0 = m.byte 1 ∧ DOLBY_VENDOR_ID.getD 2 0 = m.byte 2
        then m.byte 3 else LIP_OPCODES) := by
    unfold lip_get_command_opcode
    simp only []
    rw [if_pos h2]
  rw [e]
  exact h2

theorem can_handle_iff_spec (s : dlb_lip) (op : Nat)
    (hk : op = LIP_OPCODE_REQUEST_LIP_SUPPORT ∨ op = LIP_OPCODE_UPDATE_UUID
      ∨ op = LIP_OPCODE_REPORT_LIP_SUPPORT ∨ op = LIP_OPCODE_REQUEST_AV_LATENCY
      ∨ op = LIP_OPCODE_REPORT_AV_LATENCY ∨ op = LIP_OPCODE_REQUEST_AUDIO_LATENCY
      ∨ op = LIP_OPCODE_REPORT_AUDIO_LATENCY ∨ op = LIP_OPCODE_REQUEST_VIDEO_LATENCY
      ∨ op = LIP_OPCODE_REPORT_VIDEO_LATENCY) :
    lip_can_handle_opcode_in_current_state s op = true ↔ spec_opcode_allowed op s.state := by
  unfold lip_can_handle_opcode_in_current_state spec_opcode_allowed
  generalize s.state = st
  rcases hk with h | h | h | h | h | h | h | h | h <;> subst h <;> cases st <;> decide

/-- C3: state gating.  For a well-formed LIP frame addressed to the node (known opcode
`op`, length at least the minimum of the opcode, not a broadcast): the test of the code
agrees with the table of the specification (REQUEST_LIP_SUPPORT and REPORT_LIP_SUPPORT
allowed in every state except UNSUPPORTED, every other opcode only in SUPPORTED); when
the pair (opcode, state) is not allowed the dispatcher leaves the core as it is, calls
no handler, and answers with exactly Feature Abort(VENDOR_COMMAND_WITH_ID,
NOT_IN_CORRECT_MODE_TO_RESPOND) to the initiator, which `lip_cec_cmd_received` transmits;
when the pair is allowed the dispatcher runs the handler of the opcode and no response
is such a Feature Abort.  So that Feature Abort is among the responses if and only if
the pair is not allowed; e.g. REQUEST_AUDIO_LATENCY in UNSUPPORTED yields it. -/
theorem state_gating (fuel now : Nat) (s : dlb_lip) (m : dlb_cec_message) (op : Nat)
    (h : addressed_to s m op) :
    (lip_can_handle_opcode_in_current_state s op = true ↔ spec_opcode_allowed op s.state)
      ∧ (¬ spec_opcode_allowed op s.state →
          (∀ recv, lip_cec_cmd_dispatch recv now s m = some (s,
              [abort_frame s m DLB_CEC_ABORT_REASON_NOT_IN_CORRECT_MODE_TO_RESPOND], true, 1))
          ∧ ∃ s', lip_cec_cmd_received (fuel + 1) now s m = some (s', 1)
              ∧ s'.tx = s.tx
                  ++ [abort_frame s m DLB_CEC_ABORT_REASON_NOT_IN_CORRECT_MODE_TO_RESPOND]
              ∧ s'.pending_requests = s.pending_requests ∧ s'.state = s.state
              ∧ s'.downstream_device_cfg = s.downstream_device_cfg)
      ∧ (spec_opcode_allowed op s.state →
          ∀ recv, lip_cec_cmd_dispatch recv now s m = lip_opcode_switch recv now s m op
            ∧ ∀ r, lip_cec_cmd_dispatch recv now s m = some r →
                ∀ f ∈ r.2.1, ¬ is_mode_abort f)
      ∧ (∀ recv, (∃ r, lip_cec_cmd_dispatch recv now s m = some r
            ∧ ∃ f ∈ r.2.1, is_mode_abort f) ↔ ¬ spec_opcode_allowed op s.state)
      ∧ (is_mode_abort (abort_frame s m DLB_CEC_ABORT_REASON_NOT_IN_CORRECT_MODE_TO_RESPOND)
          ∧ (abort_frame s m
              DLB_CEC_ABORT_REASON_NOT_IN_CORRECT_MODE_TO_RESPOND).destination = m.initiator
          ∧ (abort_frame s m DLB_CEC_ABORT_REASON_NOT_IN_CORRECT_MODE_TO_RESPOND).byte 0
              = DLB_CEC_OPCODE_VENDOR_COMMAND_WITH_ID)
      ∧ (op = LIP_OPCODE_REQUEST_AUDIO_LATENCY → s.state = LIP_UNSUPPORTED →
          ∃ s', lip_cec_cmd_received (fuel + 1) now s m = some (s', 1)
            ∧ s'.tx = s.tx
                ++ [abort_frame s m DLB_CEC_ABORT_REASON_NOT_IN_CORRECT_MODE_TO_RESPOND]) := by
  have hk := known_opcode_cases m (by rw [h.2.1]; exact h.2.2.1)
  rw [h.2.1] at hk
  have hiff := can_handle_iff_spec s op hk
  have hdis := fun recv => dispatch_addressed recv now s m op h
  have hrecv := received_addressed fuel now s m op h
  have hab : is_mode_abort
      (abort_frame s m DLB_CEC_ABORT_REASON_NOT_IN_CORRECT_MODE_TO_RESPOND) := ⟨rfl, rfl⟩
  have hno : ¬ spec_opcode_allowed op s.state →
      ∃ s', lip_cec_cmd_received (fuel + 1) now s m = some (s', 1)
        ∧ s'.tx = s.tx
            ++ [abort_frame s m DLB_CEC_ABORT_REASON_NOT_IN_CORRECT_MODE_TO_RESPOND]
        ∧ s'.pending_requests = s.pending_requests ∧ s'.state = s.state
        ∧ s'.downstream_device_cfg = s.downstream_device_cfg := by
    intro hna
    rw [hrecv, if_neg (fun hc => hna (hiff.1 hc))]
    exact ⟨_, rfl, by simp, by simp, by simp, by simp⟩
  refine ⟨hiff, ?_, ?_, ?_, ⟨hab, rfl, rfl⟩, ?_⟩
  · intro hna
    refine ⟨?_, hno hna⟩
    intro recv
    rw [hdis recv, if_neg (fun hc => hna (hiff.1 hc))]
  · intro hal recv
    have e : lip_cec_cmd_dispatch recv now s m = lip_opcode_switch recv now s m op := by
      rw [hdis recv, if_pos (hiff.2 hal)]
    refine ⟨e, ?_⟩
    rw [e]
    exact switch_no_mode_abort recv now s m op
  · intro recv
    constructor
    · rintro ⟨r, hr, f, hf, hm⟩ hal
      rw [hdis recv, if_pos (hiff.2 hal)] at hr
      exact switch_no_mode_abort recv now s m op r hr f hf hm
    · intro hna
      refine ⟨_, by rw [hdis recv, if_neg (fun hc => hna (hiff.1 hc))], _, ?_, hab⟩
      simp
  · intro hop hst
    obtain ⟨s', h1, h2, -⟩ := hno (by
      rw [hop, hst]
      decide)
    exact ⟨s', h1, h2⟩

theorem state_gating_witness :
    addressed_to S2_opened S6_request LIP_OPCODE_REQUEST_AUDIO_LATENCY
      ∧ S2_opened.state = LIP_INIT
      ∧ ¬ spec_opcode_allowed LIP_OPCODE_REQUEST_AUDIO_LATENCY S2_opened.state
      ∧ lip_can_handle_opcode_in_current_state S2_opened LIP_OPCODE_REQUEST_AUDIO_LATENCY
          = false
      ∧ sent_by S2_opened (lip_cec_cmd_received 1 3 S2_opened S6_request)
          = some [(5, 1, DLB_CEC_OPCODE_FEATURE_ABORT,
              [DLB_CEC_OPCODE_VENDOR_COMMAND_WITH_ID,
               DLB_CEC_ABORT_REASON_NOT_IN_CORRECT_MODE_TO_RESPOND])]
      ∧ ∃ s', lip_cec_cmd_received 1 3 S2_opened S6_request = some (s', 1)
          ∧ s'.tx = S2_opened.tx
              ++ [abort_frame S2_opened S6_request
                    DLB_CEC_ABORT_REASON_NOT_IN_CORRECT_MODE_TO_RESPOND] :=
  ⟨by decide, by decide, by decide, by decide, by decide,
    ((state_gating 0 3 S2_opened S6_request LIP_OPCODE_REQUEST_AUDIO_LATENCY
      (by decide)).2.1 (by decide)).2.imp (fun _ h => ⟨h.1, h.2.1⟩)⟩

/-! ## C4 -/

/-- C4, counterexample: in scenario S2 (state SUPPORTED, downstream address 0,
render_mode AUDIO, own audio latency 15 for AC3, own video latency 0, no transcoding, no
cache entry for the requested formats), with the request of peer 1 in flight, the frame
REPORT_AV_LATENCY(video=30, audio=5) from address 0 makes the node transmit
REPORT_AV_LATENCY(video=30, audio=15) to address 1, not audio = 20. -/
theorem S2_reply_composition_counterexample :
    S2_supported.state = LIP_SUPPORTED
      ∧ S2_supported.downstream_device_cfg.logical_addr = 0
      ∧ S2_supported.config_params.render_mode = LIP_AUDIO_RENDERER
      ∧ S2_supported.config_params.audio_latencies IEC61937_AC3 0 0 = 15
      ∧ S2_supported.config_params.video_latencies 4 0 0 = 0
      ∧ S2_supported.config_params.audio_transcoding = false
      ∧ dlb_cache_get_video_latency S2_supported.downstream_device_cfg.latency_cache
          ⟨4, 0, 0⟩ LIP_INVALID_LATENCY = some (false, LIP_INVALID_LATENCY)
      ∧ (dlb_cache_get_audio_latency S2_supported.downstream_device_cfg.latency_cache
          ⟨IEC61937_AC3, 0, 0⟩ LIP_INVALID_LATENCY).1 = false
      ∧ (S2_in_flight.pending_requests 1).state = LIP_MESSAGE_SENT
      ∧ (S2_in_flight.pending_requests 1).msg = S2_request
      ∧ sent_by S2_in_flight (lip_cec_cmd_received 2 30 S2_in_flight S2_report)
          = some [(5, 1, 0xA0, [0, 0xD0, 0x46, LIP_OPCODE_REPORT_AV_LATENCY, 30, 15])]
      ∧ sent_by S2_in_flight (lip_cec_cmd_received 2 30 S2_in_flight S2_report)
          ≠ some [(5, 1, 0xA0, [0, 0xD0, 0x46, LIP_OPCODE_REPORT_AV_LATENCY, 30, 20])]
      ∧ lip_sum_latencies 15 5 = 20 :=
  ⟨by decide, by decide, by decide, by decide, by decide, by decide, by decide, by decide,
    by decide, by decide, by decide, by decide, by decide⟩

/-- C4, amended: for a hub in state SUPPORTED with render_mode AUDIO, own audio latency
15 for AC3, own video latency 0 for vic 4 / SDR and an enabled cache, with the request
REQUEST_AV_LATENCY(vic=4, hdr=0, codec=1) of address 1 in flight (slot 1 SENT, the
requested formats remembered), the frame REPORT_AV_LATENCY(video=30, audio=5) makes the
node transmit REPORT_AV_LATENCY to address 1 with video = 30 and audio = 15, the own
audio latency: an audio renderer does not add the downstream audio latency.  The reply
is the last frame transmitted, slot 1 ends HANDLED, and it is the only frame when no
other request waits in state PENDING. -/
theorem S2_reply_composition (fuel now : Nat) (s : dlb_lip) (R : dlb_cec_message)
    (hR : addressed_to s R LIP_OPCODE_REPORT_AV_LATENCY) (hst : s.state = LIP_SUPPORTED)
    (hwf : pending_table_wf s.pending_requests)
    (hs : (s.pending_requests 1).state = LIP_MESSAGE_SENT)
    (hown : s.cec_bus.logical_address ≠ 1)
    (hrm : s.config_params.render_mode = LIP_AUDIO_RENDERER)
    (hvf : s.req_video_format = ⟨4, 0, 0⟩) (haf : s.req_audio_format = ⟨IEC61937_AC3, 0, 0⟩)
    (hoa : s.config_params.audio_latencies IEC61937_AC3 0 0 = 15)
    (hov : s.config_params.video_latencies 4 0 0 = 0)
    (hce : s.downstream_device_cfg.latency_cache.cache_enabled = true)
    (hiec : s.add_iec_decoding_latency = false)
    (hb4 : R.byte 4 = 30) (hb5 : R.byte 5 = 5) :
    ∃ s2 fs, lip_cec_cmd_received (fuel + 2) now s R = some (s2, 1)
      ∧ s2.tx = s.tx ++ fs
          ++ [dlb_lip_build_report_av_latency_cmd empty_msg s.cec_bus.logical_address 1 30 15]
      ∧ (s2.pending_requests 1).state = LIP_MESSAGE_HANDLED
      ∧ ((∀ i ∈ slot_indices, i ≠ 1 →
            (s.pending_requests i).state ≠ LIP_MESSAGE_PENDING) → fs = []) := by
  have hu : (1 : Int) ∈ slot_indices := by decide
  obtain ⟨s2, fs, h1, h2, -, -, h5, -, -, h8⟩ :=
    received_report_av_in_flight fuel now s R 1 hR hst hwf hu hs (fun h => hown h.symm)
  refine ⟨s2, fs, h1, ?_, by rw [h5], h8⟩
  rw [h2]
  congr 2
  unfold build_av_reply
  have hini : ((cache_store_audio (cache_store_video s (R.byte 4)) (R.byte 5)).pending_requests
      1).msg.initiator = 1 := sent_slot_initiator s hwf 1 hu hs
  have hv : (lip_get_video_latency_from_cache
      (cache_store_audio (cache_store_video s (R.byte 4)) (R.byte 5))
      (cache_store_audio (cache_store_video s (R.byte 4)) (R.byte 5)).req_video_format
      (report_latency_type
        (cache_store_audio (cache_store_video s (R.byte 4)) (R.byte 5)).config_params.render_mode
        LIP_VIDEO_RENDERER)).2 = 30 := by
    have hc : dlb_cache_get_video_latency_ndebug
        (cache_store_audio (cache_store_video s (R.byte 4))
          (R.byte 5)).downstream_device_cfg.latency_cache ⟨4, 0, 0⟩ LIP_INVALID_LATENCY
        = (true, 30) := by
      show dlb_cache_get_video_latency_ndebug
        (dlb_cache_set_audio_latency
          (dlb_cache_set_video_latency_ndebug s.downstream_device_cfg.latency_cache
            s.req_video_format (R.byte 4)) s.req_audio_format (R.byte 5))
        ⟨4, 0, 0⟩ LIP_INVALID_LATENCY = (true, 30)
      rw [cache_get_video_set_audio, hvf, cache_get_set_video _ _ _ _ hce (by decide), hb4]
    show (lip_get_video_latency_from_cache
      (cache_store_audio (cache_store_video s (R.byte 4)) (R.byte 5)) s.req_video_format
      (report_latency_type s.config_params.render_mode LIP_VIDEO_RENDERER)).2 = 30
    rw [hrm, hvf, show report_latency_type LIP_AUDIO_RENDERER LIP_VIDEO_RENDERER
      = LIP_TOTAL_LATENCY from by decide, video_lookup_total _ _ _ hc]
    show lip_sum_latencies (s.config_params.video_latencies 4 0 0 : Nat) (30 : Nat) = 30
    rw [hov]
    decide
  have ha : (lip_get_audio_latency_from_cache
      (cache_store_audio (cache_store_video s (R.byte 4)) (R.byte 5))
      (cache_store_audio (cache_store_video s (R.byte 4)) (R.byte 5)).req_audio_format
      (report_audio_format_downstream
        (cache_store_audio (cache_store_video s (R.byte 4)) (R.byte 5)))
      (report_latency_type
        (cache_store_audio (cache_store_video s (R.byte 4)) (R.byte 5)).config_params.render_mode
        LIP_AUDIO_RENDERER)).2 = 15 := by
    show (lip_get_audio_latency_from_cache
      (cache_store_audio (cache_store_video s (R.byte 4)) (R.byte 5)) s.req_audio_format _
      (report_latency_type s.config_params.render_mode LIP_AUDIO_RENDERER)).2 = 15
    rw [hrm, haf, show report_latency_type LIP_AUDIO_RENDERER LIP_AUDIO_RENDERER
      = LIP_OWN_LATENCY from by decide, audio_lookup_own_value]
    show lip_sum_latencies (s.config_params.audio_latencies IEC61937_AC3 0 0 : Nat)
      ((if s.add_iec_decoding_latency = true then IEC_DECODING_DELAY IEC61937_AC3 else 0 : Nat)
        : Int) = 15
    rw [hoa, hiec]
    decide
  rw [hini, hv, ha]
  rfl

theorem S2_reply_composition_witness :
    addressed_to S2_in_flight S2_report LIP_OPCODE_REPORT_AV_LATENCY
      ∧ S2_in_flight.state = LIP_SUPPORTED
      ∧ (S2_in_flight.pending_requests 1).state = LIP_MESSAGE_SENT
      ∧ (S2_in_flight.pending_requests 1).msg = S2_request
      ∧ S2_in_flight.config_params.render_mode = LIP_AUDIO_RENDERER
      ∧ S2_report.byte 4 = 30 ∧ S2_report.byte 5 = 5
      ∧ ∃ s2, lip_cec_cmd_received 2 30 S2_in_flight S2_report = some (s2, 1)
          ∧ s2.tx = S2_in_flight.tx
              ++ [dlb_lip_build_report_av_latency_cmd empty_msg 5 1 30 15] := by
  refine ⟨by decide, by decide, by decide, by decide, by decide, by decide, by decide, ?_⟩
  obtain ⟨s2, fs, h1, h2, -, h4⟩ :=
    S2_reply_composition 0 30 S2_in_flight S2_report (by decide) (by decide)
      (reachable_wf _ S2_in_flight_reachable) (by decide) (by decide) (by decide) (by decide)
      (by decide) (by decide) (by decide) (by decide) (by decide) (by decide) (by decide)
  have hfs := h4 (by decide)
  subst hfs
  exact ⟨s2, h1, by simpa using h2⟩

/-! ## C5 -/

/-- C5, counterexample: in scenario S2 (state SUPPORTED, downstream address 0,
render_mode AUDIO, own audio latency 15 for AC3, no cache entry for the requested
formats, no slot SENT), the frame REQUEST_AV_LATENCY(vic=4, hdr=0, codec=1) from
address 1 makes the node transmit exactly one frame, REQUEST_VIDEO_LATENCY (LIP opcode
0x16) to address 0; no REQUEST_AV_LATENCY frame (0x12) is transmitted. -/
theorem S2_outbound_query_counterexample :
    S2_supported.state = LIP_SUPPORTED
      ∧ S2_supported.downstream_device_cfg.logical_addr = 0
      ∧ S2_supported.config_params.render_mode = LIP_AUDIO_RENDERER
      ∧ S2_supported.config_params.audio_latencies IEC61937_AC3 0 0 = 15
      ∧ dlb_cache_get_video_latency S2_supported.downstream_device_cfg.latency_cache
          ⟨4, 0, 0⟩ LIP_INVALID_LATENCY = some (false, LIP_INVALID_LATENCY)
      ∧ (dlb_cache_get_audio_latency S2_supported.downstream_device_cfg.latency_cache
          ⟨IEC61937_AC3, 0, 0⟩ LIP_INVALID_LATENCY).1 = false
      ∧ (∀ j ∈ slot_indices, (S2_supported.pending_requests j).state ≠ LIP_MESSAGE_SENT)
      ∧ S2_request = frame 1 5 [0, 0xD0, 0x46, LIP_OPCODE_REQUEST_AV_LATENCY, 4, 0, 1]
      ∧ sent_by S2_supported (lip_cec_cmd_received 2 20 S2_supported S2_request)
          = some [(5, 0, 0xA0, [0, 0xD0, 0x46, LIP_OPCODE_REQUEST_VIDEO_LATENCY, 4, 0])]
      ∧ (core_of (lip_cec_cmd_received 2 20 S2_supported S2_request) S2_supported).tx.all
          (fun f => decide (lip_get_command_opcode f ≠ LIP_OPCODE_REQUEST_AV_LATENCY))
          = true := by
  decide

/-- C5, amended: for a hub in state SUPPORTED with downstream address 0, render_mode
AUDIO, no cache entry for the requested video format and no slot SENT, receiving
REQUEST_AV_LATENCY(vic=4, hdr=0, codec=1) from address 1 makes the node transmit exactly
one frame, a REQUEST_VIDEO_LATENCY frame (LIP opcode 0x16) for vic 4 / SDR to address 0,
and puts the request of address 1 in flight: the audio renderer answers the audio part
with its own latency and asks downstream for the video part only. -/
theorem S2_outbound_query (fuel now : Nat) (s : dlb_lip) (m : dlb_cec_message)
    (h : addressed_to s m LIP_OPCODE_REQUEST_AV_LATENCY) (hst : s.state = LIP_SUPPORTED)
    (hd : s.downstream_device_cfg.logical_addr = 0)
    (hrm : s.config_params.render_mode = LIP_AUDIO_RENDERER)
    (hu : m.initiator = 1)
    (hvf : decode_video_format m = ⟨4, 0, 0⟩)
    (haf : decode_audio_format m 6 = ⟨IEC61937_AC3, 0, 0⟩)
    (hmiss : dlb_cache_get_video_latency s.downstream_device_cfg.latency_cache ⟨4, 0, 0⟩
      LIP_INVALID_LATENCY = some (false, LIP_INVALID_LATENCY))
    (hno : ∀ j ∈ slot_indices, (s.pending_requests j).state ≠ LIP_MESSAGE_SENT) :
    ∃ s' q, lip_cec_cmd_received (fuel + 1) now s m = some (s', 1)
      ∧ dlb_lip_build_request_video_latency empty_msg s.cec_bus.logical_address 0 ⟨4, 0, 0⟩
          = some q
      ∧ s'.tx = s.tx ++ [q]
      ∧ lip_get_command_opcode q = LIP_OPCODE_REQUEST_VIDEO_LATENCY
      ∧ q.destination = 0
      ∧ (s'.pending_requests 1).state = LIP_MESSAGE_SENT
      ∧ (s'.pending_requests 1).msg = m := by
  have hmiss' : (dlb_cache_get_video_latency_ndebug s.downstream_device_cfg.latency_cache
      ⟨4, 0, 0⟩ LIP_INVALID_LATENCY).1 = false := by
    have e := cache_get_video_valid s.downstream_device_cfg.latency_cache ⟨4, 0, 0⟩
      LIP_INVALID_LATENCY (by decide)
    rw [hmiss] at e
    rw [← Option.some.inj e]
  have htv : request_latency_type s LIP_VIDEO_RENDERER false = LIP_TOTAL_LATENCY := by
    unfold request_latency_type
    rw [hrm, hd]
    decide
  have hta : request_latency_type s LIP_AUDIO_RENDERER false = LIP_OWN_LATENCY := by
    unfold request_latency_type
    rw [hrm, hd]
    decide
  have hv1 : (request_av_lookups s m false).1.1 = false := by
    unfold request_av_lookups
    simp only [htv, hvf]
    rw [video_lookup_total_hit, hmiss']
  have ha1 : (request_av_lookups s m false).2.1 = true := by
    unfold request_av_lookups
    simp only [hta]
    exact audio_lookup_own _ _ _
  have hq : downstream_av_query s m false = dlb_lip_build_request_video_latency_ndebug empty_msg
      s.cec_bus.logical_address 0 ⟨4, 0, 0⟩ := by
    unfold downstream_av_query
    rw [if_neg (by simp [ha1]), if_pos hv1, hd, hvf]
  rw [received_request_av fuel now s m h hst,
    request_av_sent_query now s m [] false (by rw [haf]; decide) (by rw [hvf]; decide)
      (by simp [hv1]) (fun j hj _ => hno j hj) (by rw [hu]; decide), hq]
  refine ⟨_, _, rfl, build_request_video_latency_some _ _ _ _ (by decide), ?_,
    build_request_video_latency_lip_opcode _ _ _, by simp, ?_, ?_⟩
  · simp [finish_received]
  · simp [finish_received, ← hu]
  · simp [finish_received, ← hu]

theorem S2_outbound_query_witness :
    addressed_to S2_supported S2_request LIP_OPCODE_REQUEST_AV_LATENCY
      ∧ S2_supported.state = LIP_SUPPORTED
      ∧ S2_supported.downstream_device_cfg.logical_addr = 0
      ∧ S2_supported.config_params.render_mode = LIP_AUDIO_RENDERER
      ∧ ∃ s' q, lip_cec_cmd_received 1 20 S2_supported S2_request = some (s', 1)
          ∧ dlb_lip_build_request_video_latency empty_msg 5 0 ⟨4, 0, 0⟩ = some q
          ∧ s'.tx = S2_supported.tx ++ [q] := by
  obtain ⟨s', q, h1, h2, h3, -⟩ :=
    S2_outbound_query 0 20 S2_supported S2_request (by decide) (by decide) (by decide)
      (by decide) (by decide) (by decide) (by decide) (by decide) (by decide)
  exact ⟨by decide, by decide, by decide, by decide, s', q, h1, h2, h3⟩

/-! ## C6 -/

/-- C6: narrowest downstream query.  Let a REQUEST_AV_LATENCY frame with valid formats,
addressed to the node, arrive in state SUPPORTED from peer `u`, and let it not be
answerable from the own latencies and the cache (one of the two lookups misses).
If no slot is SENT, the slot of `u` becomes SENT with the frame stored in it, the
requested formats are remembered, the other slots keep their content, and exactly one
frame is transmitted, to the downstream address: REQUEST_AV_LATENCY if both lookups
miss, REQUEST_VIDEO_LATENCY if only video misses, REQUEST_AUDIO_LATENCY if only audio
misses; the audio format carried downstream is the transcoding format when
`audio_transcoding` is set and the requester's audio format otherwise.  If a slot of
another peer is SENT, the request is stored as PENDING and nothing is transmitted. -/
theorem narrowest_downstream_query (fuel now : Nat) (s : dlb_lip) (m : dlb_cec_message)
    (h : addressed_to s m LIP_OPCODE_REQUEST_AV_LATENCY) (hst : s.state = LIP_SUPPORTED)
    (ha : lip_is_audio_format_valid (decode_audio_format m 6) = true)
    (hv : lip_is_video_format_valid (decode_video_format m) = true)
    (hmiss : ¬ ((request_av_lookups s m false).1.1 = true
      ∧ (request_av_lookups s m false).2.1 = true))
    (hu : m.initiator ∈ slot_indices) :
    ((∀ j ∈ slot_indices, (s.pending_requests j).state ≠ LIP_MESSAGE_SENT) →
      ∃ s' q, lip_cec_cmd_received (fuel + 1) now s m = some (s', 1)
        ∧ s'.tx = s.tx ++ [q]
        ∧ q.initiator = s.cec_bus.logical_address
        ∧ q.destination = s.downstream_device_cfg.logical_addr
        ∧ (s'.pending_requests m.initiator).state = LIP_MESSAGE_SENT
        ∧ (s'.pending_requests m.initiator).msg = m
        ∧ (∀ j, j ≠ m.initiator → s'.pending_requests j = s.pending_requests j)
        ∧ s'.req_video_format = decode_video_format m
        ∧ s'.req_audio_format = decode_audio_format m 6
        ∧ ((request_av_lookups s m false).1.1 = false →
            (request_av_lookups s m false).2.1 = false →
            dlb_lip_build_request_av_latency empty_msg s.cec_bus.logical_address
                  s.downstream_device_cfg.logical_addr (decode_video_format m)
                  (if s.config_params.audio_transcoding
                    then s.config_params.audio_transcoding_format
                    else decode_audio_format m 6) = some q
              ∧ lip_get_command_opcode q = LIP_OPCODE_REQUEST_AV_LATENCY)
        ∧ ((request_av_lookups s m false).1.1 = false →
            (request_av_lookups s m false).2.1 = true →
            dlb_lip_build_request_video_latency empty_msg s.cec_bus.logical_address
                  s.downstream_device_cfg.logical_addr (decode_video_format m) = some q
              ∧ lip_get_command_opcode q = LIP_OPCODE_REQUEST_VIDEO_LATENCY)
        ∧ ((request_av_lookups s m false).1.1 = true →
            (request_av_lookups s m false).2.1 = false →
            q = dlb_lip_build_request_audio_latency empty_msg s.cec_bus.logical_address
                  s.downstream_device_cfg.logical_addr
                  (if s.config_params.audio_transcoding
                    then s.config_params.audio_transcoding_format
                    else decode_audio_format m 6)
              ∧ lip_get_command_opcode q = LIP_OPCODE_REQUEST_AUDIO_LATENCY))
    ∧ (∀ j ∈ slot_indices, j ≠ m.initiator →
        (s.pending_requests j).state = LIP_MESSAGE_SENT →
        ∃ s', lip_cec_cmd_received (fuel + 1) now s m = some (s', 1)
          ∧ s'.tx = s.tx
          ∧ (s'.pending_requests m.initiator).state = LIP_MESSAGE_PENDING
          ∧ (s'.pending_requests m.initiator).msg = m
          ∧ (∀ k, k ≠ m.initiator → s'.pending_requests k = s.pending_requests k)) := by
  have hafd : request_audio_format_downstream s (decode_audio_format m 6) false =
      (if s.config_params.audio_transcoding then s.config_params.audio_transcoding_format
        else decode_audio_format m 6) := by
    unfold request_audio_format_downstream
    simp
  refine ⟨?_, ?_⟩
  · intro hno
    rw [received_request_av fuel now s m h hst,
      request_av_sent_query now s m [] false ha hv hmiss (fun j hj _ => hno j hj) hu]
    refine ⟨_, downstream_av_query s m false, rfl, ?_, (downstream_av_query_header s m false).2.1,
      (downstream_av_query_header s m false).2.2, ?_, ?_, ?_, ?_, ?_, ?_, ?_, ?_⟩
    · simp [finish_received]
    · simp [finish_received]
    · simp [finish_received]
    · intro j hj
      simp [finish_received, Function.update_noteq hj]
    · simp [finish_received]
    · simp [finish_received]
    · intro h1 h2
      refine ⟨?_, ?_⟩
      · have hq : downstream_av_query s m false
            = dlb_lip_build_request_av_latency_ndebug empty_msg s.cec_bus.logical_address
                s.downstream_device_cfg.logical_addr (decode_video_format m)
                (if s.config_params.audio_transcoding
                  then s.config_params.audio_transcoding_format
                  else decode_audio_format m 6) := by
          unfold downstream_av_query
          rw [if_pos ⟨h1, h2⟩, hafd]
        rw [build_request_av_latency_some _ _ _ _ _ (video_format_valid_color _ hv), hq]
      · unfold downstream_av_query
        rw [if_pos ⟨h1, h2⟩]
        exact build_request_av_latency_lip_opcode _ _ _ _
    · intro h1 h2
      refine ⟨?_, ?_⟩
      · have hq : downstream_av_query s m false
            = dlb_lip_build_request_video_latency_ndebug empty_msg s.cec_bus.logical_address
                s.downstream_device_cfg.logical_addr (decode_video_format m) := by
          unfold downstream_av_query
          rw [if_neg (by simp [h2]), if_pos h1]
        rw [build_request_video_latency_some _ _ _ _ (video_format_valid_color _ hv), hq]
      · unfold downstream_av_query
        rw [if_neg (by simp [h2]), if_pos h1]
        exact build_request_video_latency_lip_opcode _ _ _
    · intro h1 h2
      refine ⟨?_, ?_⟩
      · unfold downstream_av_query
        rw [if_neg (by simp [h1]), if_neg (by simp [h1]), hafd]
      · unfold downstream_av_query
        rw [if_neg (by simp [h1]), if_neg (by simp [h1])]
        exact build_request_audio_latency_lip_opcode _ _ _
  · intro j hj hju hsent
    rw [received_request_av fuel now s m h hst,
      request_av_queued now s m [] false ha hv hmiss j hj hju hsent]
    refine ⟨_, rfl, ?_, ?_, ?_, ?_⟩
    · simp [finish_received]
    · simp [finish_received]
    · simp [finish_received]
    · intro k hk
      simp [finish_received, Function.update_noteq hk]

theorem narrowest_downstream_query_witness :
    addressed_to S2_supported S2_request LIP_OPCODE_REQUEST_AV_LATENCY
      ∧ S2_supported.state = LIP_SUPPORTED
      ∧ (request_av_lookups S2_supported S2_request false).1.1 = false
      ∧ (request_av_lookups S2_supported S2_request false).2.1 = true
      ∧ (∀ j ∈ slot_indices, (S2_supported.pending_requests j).state ≠ LIP_MESSAGE_SENT)
      ∧ ∃ s' q, lip_cec_cmd_received 1 20 S2_supported S2_request = some (s', 1)
          ∧ s'.tx = S2_supported.tx ++ [q]
          ∧ lip_get_command_opcode q = LIP_OPCODE_REQUEST_VIDEO_LATENCY
          ∧ q.destination = 0
          ∧ (s'.pending_requests 1).state = LIP_MESSAGE_SENT := by
  refine ⟨by decide, by decide, by decide, by decide, by decide, ?_⟩
  obtain ⟨s', q, h1, h2, -, h4, h5, -, -, -, -, -, h11, -⟩ :=
    (narrowest_downstream_query 0 20 S2_supported S2_request (by decide) (by decide)
      (by decide) (by decide) (by decide) (by decide)).1 (by decide)
  exact ⟨s', q, h1, h2, (h11 (by decide) (by decide)).2, h4, h5⟩

/-! ## C7 -/

theorem S2_supported_reachable : Reachable S2_supported :=
  reachable_core_of 0 10 _ _
    (Reachable.step _ _ S2_opened_reachable (Step.worker 0 S2_opened ⟨0, false⟩))

/-- C8: a sink answers with its own latencies.  In state SUPPORTED with no downstream
device (`downstream_device_cfg.logical_addr` unknown), a REQUEST_AV_LATENCY frame
addressed to the node with valid formats from peer `u` is answered at once: the call
returns 1, exactly one frame is transmitted, REPORT_AV_LATENCY to `u`, carrying the own
video latency (the configured table entry for the video format) and the own audio latency
(the configured table entry for the audio format, plus the IEC decoding delay when
`add_iec_decoding_latency` is set); the pending-request table and the cache are
unchanged.  The table entries are `uint8_t` values. -/
theorem sink_answers_with_own_latencies (fuel now : Nat) (s : dlb_lip) (m : dlb_cec_message)
    (h : addressed_to s m LIP_OPCODE_REQUEST_AV_LATENCY) (hst : s.state = LIP_SUPPORTED)
    (hd : s.downstream_device_cfg.logical_addr = DLB_LOGICAL_ADDR_UNKNOWN)
    (ha : lip_is_audio_format_valid (decode_audio_format m 6) = true)
    (hv : lip_is_video_format_valid (decode_video_format m) = true)
    (hvt : s.config_params.video_latencies (decode_video_format m).vic
      (decode_video_format m).color_format
      (decode_video_format m).hdr_mode ≤ 255)
    (hat : s.config_params.audio_latencies (decode_audio_format m 6).codec
      (decode_audio_format m 6).subtype (decode_audio_format m 6).ext ≤ 255) :
    ∃ s', lip_cec_cmd_received (fuel + 1) now s m = some (s', 1)
      ∧ s'.tx = s.tx ++ [dlb_lip_build_report_av_latency_cmd empty_msg
          s.cec_bus.logical_address m.initiator
          (s.config_params.video_latencies (decode_video_format m).vic
            (decode_video_format m).color_format
            (decode_video_format m).hdr_mode)
          (lip_sum_latencies
            (s.config_params.audio_latencies (decode_audio_format m 6).codec
              (decode_audio_format m 6).subtype (decode_audio_format m 6).ext)
            ((if s.add_iec_decoding_latency then
              IEC_DECODING_DELAY (decode_audio_format m 6).codec else 0 : Nat) : Int))]
      ∧ (s.add_iec_decoding_latency = false →
          s'.tx = s.tx ++ [dlb_lip_build_report_av_latency_cmd empty_msg
            s.cec_bus.logical_address m.initiator
            (s.config_params.video_latencies (decode_video_format m).vic
              (decode_video_format m).color_format
              (decode_video_format m).hdr_mode)
            (s.config_params.audio_latencies (decode_audio_format m 6).codec
              (decode_audio_format m 6).subtype (decode_audio_format m 6).ext)])
      ∧ s'.pending_requests = s.pending_requests
      ∧ s'.downstream_device_cfg = s.downstream_device_cfg
      ∧ s'.state = s.state := by
  have hh : dlb_lip_get_hdr_mode_from_video_format_ndebug (decode_video_format m)
      = (decode_video_format m).hdr_mode :=
    hdr_mode_of_valid _ (valid_video_cache_params _ hv)
  rw [← hh] at hvt ⊢
  have hv1 : (request_av_lookups s m false).1 = (true,
      s.config_params.video_latencies (decode_video_format m).vic
        (decode_video_format m).color_format
        (dlb_lip_get_hdr_mode_from_video_format_ndebug (decode_video_format m))) := by
    unfold request_av_lookups
    simp only [request_latency_type_sink s _ hd]
    unfold lip_get_video_latency_from_cache
    simp only [lip_sum_latencies_zero _ hvt]
  have ha1 : (request_av_lookups s m false).2 = (true,
      lip_sum_latencies
        (s.config_params.audio_latencies (decode_audio_format m 6).codec
          (decode_audio_format m 6).subtype (decode_audio_format m 6).ext)
        ((if s.add_iec_decoding_latency then
          IEC_DECODING_DELAY (decode_audio_format m 6).codec else 0 : Nat) : Int)) := by
    unfold request_av_lookups
    simp only [request_latency_type_sink s _ hd]
    unfold lip_get_audio_latency_from_cache
    simp only [lip_sum_latencies_idem]
  rw [received_request_av fuel now s m h hst,
    request_av_hit now s m [] false ha hv (by rw [hv1]) (by rw [ha1]), hv1, ha1]
  refine ⟨_, rfl, ?_, ?_, ?_, ?_, ?_⟩
  · simp [finish_received]
  · intro hiec
    simp [finish_received, hiec, lip_sum_latencies_zero _ hat]
  · simp [finish_received]
  · simp [finish_received]
  · simp [finish_received]

theorem sink_answers_with_own_latencies_witness :
    addressed_to S1_supported S1_request LIP_OPCODE_REQUEST_AV_LATENCY
      ∧ S1_supported.state = LIP_SUPPORTED
      ∧ S1_supported.downstream_device_cfg.logical_addr = DLB_LOGICAL_ADDR_UNKNOWN
      ∧ decode_video_format S1_request = ⟨16, 0, 0⟩
      ∧ decode_audio_format S1_request 6 = ⟨IEC61937_EAC3, 0, 0⟩
      ∧ (lip_cec_cmd_received 1 7 S1_supported S1_request).map
          (fun r => (r.1.tx.drop S1_supported.tx.length).map wire)
        = some [(5, 4, 0xA0, [0, 0xD0, 0x46, 0x13, 10, 20])]
      ∧ ∃ s', lip_cec_cmd_received 1 7 S1_supported S1_request = some (s', 1)
          ∧ s'.pending_requests = S1_supported.pending_requests :=
  ⟨by decide, by decide, by decide, by decide, by decide, by decide,
    (sink_answers_with_own_latencies 0 7 S1_supported S1_request (by decide) (by decide)
      (by decide) (by decide) (by decide) (by decide) (by decide)).imp
      (fun _ h => ⟨h.1, h.2.2.2.1⟩)⟩

/-! ## C9 -/

/-- C9: the code on scenario S6.  The node is SUPPORTED, not an audio renderer, has the
downstream device 0, transcodes audio to MAT, has own audio latency 15 for AC3 and no
cache entry for AC3 or MAT.  REQUEST_AUDIO_LATENCY(AC3) from peer 1 is put in flight,
the query sent to address 0 carries codec MAT, and when the downstream device answers
REPORT_AUDIO_LATENCY(5) the node replies to peer 1 with REPORT_AUDIO_LATENCY(255), the
invalid latency, and not with sum(15, 5) = 20: the handler has stored the reported latency
under the requester's format AC3 and looks it up under the transcoding format MAT. -/
theorem S6_transcoding_reply_is_invalid :
    S6_supported.state = LIP_SUPPORTED
      ∧ S6_supported.config_params.render_mode &&& LIP_AUDIO_RENDERER = 0
      ∧ S6_supported.downstream_device_cfg.logical_addr = 0
      ∧ S6_supported.config_params.audio_transcoding = true
      ∧ S6_supported.config_params.audio_transcoding_format = ⟨IEC61937_MAT, 0, 0⟩
      ∧ S6_supported.config_params.audio_latencies IEC61937_AC3 0 0 = 15
      ∧ (dlb_cache_get_audio_latency S6_supported.downstream_device_cfg.latency_cache
          ⟨IEC61937_AC3, 0, 0⟩ LIP_INVALID_LATENCY).1 = false
      ∧ (dlb_cache_get_audio_latency S6_supported.downstream_device_cfg.latency_cache
          ⟨IEC61937_MAT, 0, 0⟩ LIP_INVALID_LATENCY).1 = false
      ∧ decode_audio_format S6_request 4 = ⟨IEC61937_AC3, 0, 0⟩
      ∧ sent_by S6_supported (lip_cec_cmd_received 2 20 S6_supported S6_request)
          = some [(5, 0, 0xA0, [0, 0xD0, 0x46, LIP_OPCODE_REQUEST_AUDIO_LATENCY, IEC61937_MAT])]
      ∧ (S6_in_flight.pending_requests 1).state = LIP_MESSAGE_SENT
      ∧ sent_by S6_in_flight (lip_cec_cmd_received 2 30 S6_in_flight S6_report)
          = some [(5, 1, 0xA0, [0, 0xD0, 0x46, LIP_OPCODE_REPORT_AUDIO_LATENCY,
              LIP_INVALID_LATENCY])]
      ∧ lip_sum_latencies 15 5 = 20
      ∧ (dlb_cache_get_audio_latency
          (core_of (lip_cec_cmd_received 2 30 S6_in_flight S6_report)
            S6_in_flight).downstream_device_cfg.latency_cache
          ⟨IEC61937_AC3, 0, 0⟩ LIP_INVALID_LATENCY) = (true, 5)
      ∧ (dlb_cache_get_audio_latency
          (core_of (lip_cec_cmd_received 2 30 S6_in_flight S6_report)
            S6_in_flight).downstream_device_cfg.latency_cache
          ⟨IEC61937_MAT, 0, 0⟩ LIP_INVALID_LATENCY).1 = false :=
  ⟨by decide, by decide, by decide, by decide, by decide, by decide, by decide, by decide,
    by decide, by decide, by decide, by decide, by decide, by decide, by decide⟩

/-! ## C10 -/

theorem S2_queued_reachable : Reachable S2_queued :=
  reachable_core_of 0 20 _ _
    (Reachable.step _ _
      (reachable_core_of 0 10 _ _
        (Reachable.step _ _ S2_opened_reachable (Step.worker 0 S2_opened ⟨0, false⟩)))
      (Step.get_video_latency 15 S2_supported ⟨4, 0, 0⟩))

/-- C10, counterexample: in the reachable core `S2_queued` the SENT slot belongs to the
node itself (address 5) and the request of address 1 waits in state PENDING.  The timer
fires with the current callback id: slot 5 becomes ABORT_RECEIVED, but a frame is
transmitted, the REQUEST_VIDEO_LATENCY query for the request of address 1, which is put
in flight. -/
theorem timer_own_slot_counterexample :
    (S2_queued.pending_requests 5).state = LIP_MESSAGE_SENT
      ∧ (S2_queued.pending_requests 5).msg.initiator = S2_queued.cec_bus.logical_address
      ∧ S2_queued.cec_bus.logical_address = 5
      ∧ (S2_queued.pending_requests 1).state = LIP_MESSAGE_PENDING
      ∧ sent_by S2_queued
          (dlb_lip_timer_callback (lip_cec_cmd_received 1 1100) 1100 S2_queued
            S2_queued.callback_id true)
          = some [(5, 0, 0xA0, [0, 0xD0, 0x46, LIP_OPCODE_REQUEST_VIDEO_LATENCY, 4, 0])]
      ∧ sent_by S2_queued
          (dlb_lip_timer_callback (lip_cec_cmd_received 1 1100) 1100 S2_queued
            S2_queued.callback_id true) ≠ some []
      ∧ ((core_of (dlb_lip_timer_callback (lip_cec_cmd_received 1 1100) 1100 S2_queued
            S2_queued.callback_id true) S2_queued).pending_requests 5).state
          = LIP_MESSAGE_ABORT_RECEIVED
      ∧ ((core_of (dlb_lip_timer_callback (lip_cec_cmd_received 1 1100) 1100 S2_queued
            S2_queued.callback_id true) S2_queued).pending_requests 1).state
          = LIP_MESSAGE_SENT :=
  ⟨by decide, by decide, by decide, by decide, by decide, by decide, by decide, by decide⟩

/-- C10, amended: timeout.  On a well-formed pending table, when the timer fires, gets
the lock, and its callback id equals the current callback id of the core: if the SENT
slot belongs to an upstream peer `u` other than the node, the call transmits Feature
Abort(VENDOR_COMMAND_WITH_ID, REFUSED) to `u` as its last frame, no other Feature Abort
goes to `u`, and slot `u` ends HANDLED; if the SENT slot belongs to the node itself, no
Feature Abort is transmitted for it and the slot becomes ABORT_RECEIVED.  In both cases
the frames transmitted before belong to the requests that waited in state PENDING, and
there are none when no other slot is PENDING.  If the callback id does not match, or the
lock is busy, the core is unchanged: nothing is transmitted and no slot changes. -/
theorem timeout_aborts_upstream (fuel now : Nat) (s : dlb_lip) (callback_id : Nat)
    (hwf : pending_table_wf s.pending_requests) :
    (callback_id = s.callback_id →
      ∀ u ∈ slot_indices, (s.pending_requests u).state = LIP_MESSAGE_SENT →
        u ≠ s.cec_bus.logical_address →
        ∃ s' fs, dlb_lip_timer_callback (lip_cec_cmd_received (fuel + 1) now) now s
              callback_id true = some (s', 0)
          ∧ s'.tx = s.tx ++ fs
              ++ [lip_build_abort_cec_command empty_msg s.cec_bus.logical_address u
                    DLB_CEC_OPCODE_VENDOR_COMMAND_WITH_ID DLB_CEC_ABORT_REASON_REFUSED]
          ∧ (∀ f ∈ fs, f.opcode = DLB_CEC_OPCODE_FEATURE_ABORT → f.destination ≠ u)
          ∧ ((∀ i ∈ slot_indices, i ≠ u →
                (s.pending_requests i).state ≠ LIP_MESSAGE_PENDING) → fs = [])
          ∧ (s'.pending_requests u).state = LIP_MESSAGE_HANDLED)
    ∧ (callback_id = s.callback_id →
        s.cec_bus.logical_address ∈ slot_indices →
        (s.pending_requests s.cec_bus.logical_address).state = LIP_MESSAGE_SENT →
        ∃ s' fs, dlb_lip_timer_callback (lip_cec_cmd_received (fuel + 1) now) now s
              callback_id true = some (s', 0)
          ∧ s'.tx = s.tx ++ fs
          ∧ (∀ f ∈ fs, f.opcode = DLB_CEC_OPCODE_FEATURE_ABORT →
              f.destination ≠ s.cec_bus.logical_address)
          ∧ ((∀ i ∈ slot_indices, i ≠ s.cec_bus.logical_address →
                (s.pending_requests i).state ≠ LIP_MESSAGE_PENDING) → fs = [])
          ∧ (s'.pending_requests s.cec_bus.logical_address).state
              = LIP_MESSAGE_ABORT_RECEIVED)
    ∧ (callback_id ≠ s.callback_id →
        ∀ recv, dlb_lip_timer_callback recv now s callback_id true = some (s, 0))
    ∧ (∀ recv, dlb_lip_timer_callback recv now s callback_id false = some (s, 1)) := by
  refine ⟨?_, ?_, ?_, ?_⟩
  · intro hid u hu hs hown
    have hsrc := addr_of_sent s hwf u hu hs
    have hini := sent_slot_initiator s hwf u hu hs
    have hlat := ((hwf.2 u hu).2 hs).2.2
    obtain ⟨s', h1, -, -, h4, -, ⟨fs, h6, h7, h8⟩, -⟩ :=
      lip_reply_for_pending_cmd_received_spec fuel now s u LIP_MESSAGE_HANDLED hwf
        (by decide) (by decide)
    unfold dlb_lip_timer_callback
    lift_lets
    intro src opcode response
    have e2 : src = u := hsrc
    have e3 : opcode = lip_get_command_opcode (s.pending_requests u).msg := by
      simp only [opcode, e2]
    have e4 : response = lip_build_abort_cec_command empty_msg s.cec_bus.logical_address u
        DLB_CEC_OPCODE_VENDOR_COMMAND_WITH_ID DLB_CEC_ABORT_REASON_REFUSED := by
      simp only [response, e2, hini]
    clear_value src opcode response
    subst e2 e3 e4
    have hu1 : src ≠ DLB_LOGICAL_ADDR_UNKNOWN := by
      have := (mem_slot_indices src).1 hu
      simp only [DLB_LOGICAL_ADDR_UNKNOWN]
      omega
    rw [if_pos rfl, if_pos hid.symm, if_pos hu1, if_neg (by rw [hini]; exact hown),
      if_pos (by
        unfold is_latency_request_opcode at hlat
        rcases hlat with h | h | h
        · exact Or.inr (Or.inr (Or.inr h))
        · exact Or.inr (Or.inr (Or.inl h))
        · exact Or.inr (Or.inl h)), h1]
    refine ⟨_, fs, rfl, ?_, h7, h8, ?_⟩
    · simp [h6]
    · simp [h4]
  · intro hid hu hs
    have hsrc := addr_of_sent s hwf _ hu hs
    have hini := sent_slot_initiator s hwf _ hu hs
    obtain ⟨s', h1, -, -, h4, -, ⟨fs, h6, h7, h8⟩, -⟩ :=
      lip_reply_for_pending_cmd_received_spec fuel now s s.cec_bus.logical_address
        LIP_MESSAGE_ABORT_RECEIVED hwf (by decide) (by decide)
    unfold dlb_lip_timer_callback
    lift_lets
    intro src opcode response
    have e2 : src = s.cec_bus.logical_address := hsrc
    clear_value src opcode response
    subst e2
    have hu1 : s.cec_bus.logical_address ≠ DLB_LOGICAL_ADDR_UNKNOWN := by
      have := (mem_slot_indices _).1 hu
      simp only [DLB_LOGICAL_ADDR_UNKNOWN]
      omega
    rw [if_pos rfl, if_pos hid.symm, if_pos hu1, if_pos hini, h1]
    exact ⟨_, fs, rfl, h6, h7, h8, by rw [h4]⟩
  · intro hid recv
    unfold dlb_lip_timer_callback
    rw [if_pos rfl, if_neg (fun h => hid h.symm)]
  · intro recv
    unfold dlb_lip_timer_callback
    rw [if_neg (by decide)]

theorem timeout_aborts_upstream_witness :
    (S2_in_flight.pending_requests 1).state = LIP_MESSAGE_SENT
      ∧ S2_in_flight.cec_bus.logical_address = 5
      ∧ ∃ s', dlb_lip_timer_callback (lip_cec_cmd_received 1 1100) 1100 S2_in_flight
            S2_in_flight.callback_id true = some (s', 0)
          ∧ s'.tx = S2_in_flight.tx
              ++ [lip_build_abort_cec_command empty_msg 5 1
                    DLB_CEC_OPCODE_VENDOR_COMMAND_WITH_ID DLB_CEC_ABORT_REASON_REFUSED]
          ∧ (s'.pending_requests 1).state = LIP_MESSAGE_HANDLED := by
  refine ⟨by decide, by decide, ?_⟩
  obtain ⟨s', fs, h1, h2, -, h4, h5⟩ :=
    (timeout_aborts_upstream 0 1100 S2_in_flight S2_in_flight.callback_id
      (reachable_wf _ S2_in_flight_reachable)).1 rfl 1 (by decide) (by decide) (by decide)
  have hfs := h4 (by decide)
  subst hfs
  exact ⟨s', h1, by simpa using h2, h5⟩

/-! ## C11 -/

/-- C11, counterexample: in the reachable core `S2_queued` the SENT slot belongs to the
node itself (address 5), the last frame sent to address 0 is a REQUEST_VIDEO_LATENCY and
the request of address 1 waits in state PENDING.  Feature Abort(VENDOR_COMMAND_WITH_ID)
from address 0 is consumed and slot 5 becomes ABORT_RECEIVED, but a frame is
transmitted: the REQUEST_VIDEO_LATENCY query for the request of address 1, which is put
in flight. -/
theorem abort_own_slot_counterexample :
    (S2_queued.pending_requests 5).state = LIP_MESSAGE_SENT
      ∧ (S2_queued.pending_requests 5).msg.initiator = S2_queued.cec_bus.logical_address
      ∧ S2_queued.cec_bus.logical_address = 5
      ∧ S2_queued.opcode_of_last_cmd_sent 0 = LIP_OPCODE_REQUEST_VIDEO_LATENCY
      ∧ (S2_queued.pending_requests 1).state = LIP_MESSAGE_PENDING
      ∧ wire downstream_abort = (0, 5, DLB_CEC_OPCODE_FEATURE_ABORT, [0xA0, 4])
      ∧ (lip_cec_cmd_received 2 50 S2_queued downstream_abort).map (fun r => r.2) = some 1
      ∧ sent_by S2_queued (lip_cec_cmd_received 2 50 S2_queued downstream_abort)
          = some [(5, 0, 0xA0, [0, 0xD0, 0x46, LIP_OPCODE_REQUEST_VIDEO_LATENCY, 4, 0])]
      ∧ ((core_of (lip_cec_cmd_received 2 50 S2_queued downstream_abort)
            S2_queued).pending_requests 5).state = LIP_MESSAGE_ABORT_RECEIVED
      ∧ ((core_of (lip_cec_cmd_received 2 50 S2_queued downstream_abort)
            S2_queued).pending_requests 1).state = LIP_MESSAGE_SENT :=
  ⟨by decide, by decide, by decide, by decide, by decide, by decide, by decide, by decide,
    by decide, by decide⟩

/-- C11, amended: downstream abort propagation.  On a well-formed pending table, let a
Feature Abort whose first operand is VENDOR_COMMAND_WITH_ID arrive from a peer to which
the last frame transmitted was a REQUEST_AV/AUDIO/VIDEO_LATENCY.  If the SENT slot
belongs to an upstream peer `u` other than the node, the call returns 1 (consumed),
transmits Feature Abort(VENDOR_COMMAND_WITH_ID, REFUSED) to `u` as its last frame, no
other Feature Abort goes to `u`, and slot `u` ends HANDLED.  If the SENT slot belongs to
the node itself, the call returns 1, no Feature Abort is transmitted for it and the slot
becomes ABORT_RECEIVED.  In both cases the frames transmitted before belong to the
requests that waited in state PENDING, and there are none when no other slot is
PENDING. -/
theorem downstream_abort_propagation (fuel now : Nat) (s : dlb_lip) (m : dlb_cec_message)
    (hwf : pending_table_wf s.pending_requests)
    (hop : m.opcode = DLB_CEC_OPCODE_FEATURE_ABORT) (hlen : m.msg_length ≥ 1)
    (hb0 : m.byte 0 = DLB_CEC_OPCODE_VENDOR_COMMAND_WITH_ID)
    (hlast : is_latency_request_opcode (s.opcode_of_last_cmd_sent m.initiator)) :
    (∀ u ∈ slot_indices, (s.pending_requests u).state = LIP_MESSAGE_SENT →
        u ≠ s.cec_bus.logical_address →
        ∃ s' fs, lip_cec_cmd_received (fuel + 2) now s m = some (s', 1)
          ∧ s'.tx = s.tx ++ fs
              ++ [lip_build_abort_cec_command empty_msg s.cec_bus.logical_address u
                    DLB_CEC_OPCODE_VENDOR_COMMAND_WITH_ID DLB_CEC_ABORT_REASON_REFUSED]
          ∧ (∀ f ∈ fs, f.opcode = DLB_CEC_OPCODE_FEATURE_ABORT → f.destination ≠ u)
          ∧ ((∀ i ∈ slot_indices, i ≠ u →
                (s.pending_requests i).state ≠ LIP_MESSAGE_PENDING) → fs = [])
          ∧ (s'.pending_requests u).state = LIP_MESSAGE_HANDLED)
    ∧ (s.cec_bus.logical_address ∈ slot_indices →
        (s.pending_requests s.cec_bus.logical_address).state = LIP_MESSAGE_SENT →
        ∃ s' fs, lip_cec_cmd_received (fuel + 2) now s m = some (s', 1)
          ∧ s'.tx = s.tx ++ fs
          ∧ (∀ f ∈ fs, f.opcode = DLB_CEC_OPCODE_FEATURE_ABORT →
              f.destination ≠ s.cec_bus.logical_address)
          ∧ ((∀ i ∈ slot_indices, i ≠ s.cec_bus.logical_address →
                (s.pending_requests i).state ≠ LIP_MESSAGE_PENDING) → fs = [])
          ∧ (s'.pending_requests s.cec_bus.logical_address).state
              = LIP_MESSAGE_ABORT_RECEIVED) := by
  have hnl : s.opcode_of_last_cmd_sent m.initiator ≠ LIP_OPCODE_REQUEST_LIP_SUPPORT := by
    unfold is_latency_request_opcode at hlast
    rcases hlast with h | h | h <;> rw [h] <;> decide
  have hl : s.opcode_of_last_cmd_sent m.initiator = LIP_OPCODE_REQUEST_VIDEO_LATENCY
      ∨ s.opcode_of_last_cmd_sent m.initiator = LIP_OPCODE_REQUEST_AUDIO_LATENCY
      ∨ s.opcode_of_last_cmd_sent m.initiator = LIP_OPCODE_REQUEST_AV_LATENCY := by
    unfold is_latency_request_opcode at hlast
    rcases hlast with h | h | h
    · exact Or.inr (Or.inr h)
    · exact Or.inr (Or.inl h)
    · exact Or.inl h
  have hbody : lip_cec_cmd_received (fuel + 2) now s m
      = (lip_handle_feature_abort (lip_cec_cmd_received (fuel + 1) now) now s m [] 0).map
          (fun r => (if r.2.2.1 then transmit_responses r.1 r.2.1 else r.1, r.2.2.2)) := by
    show lip_cec_cmd_received_body (lip_cec_cmd_received (fuel + 1) now) now s m = _
    unfold lip_cec_cmd_received_body lip_cec_cmd_dispatch
    simp only []
    rw [if_pos hop]
  refine ⟨?_, ?_⟩
  · intro u hu hs hown
    have hsrc := addr_of_sent s hwf u hu hs
    have hini := sent_slot_initiator s hwf u hu hs
    have hlat := ((hwf.2 u hu).2 hs).2.2
    obtain ⟨s', h1, -, -, h4, -, ⟨fs, h6, h7, h8⟩, -⟩ :=
      lip_reply_for_pending_cmd_received_spec fuel now s u LIP_MESSAGE_HANDLED hwf
        (by decide) (by decide)
    rw [hbody]
    unfold lip_handle_feature_abort
    lift_lets
    intro lip_opcode src pending_opcode
    have e1 : lip_opcode = s.opcode_of_last_cmd_sent m.initiator := rfl
    have e2 : src = u := hsrc
    clear_value lip_opcode src
    subst e1 e2
    have hu1 : src ≠ DLB_LOGICAL_ADDR_UNKNOWN := by
      have := (mem_slot_indices src).1 hu
      simp only [DLB_LOGICAL_ADDR_UNKNOWN]
      omega
    have e3 : pending_opcode = lip_get_command_opcode (s.pending_requests src).msg :=
      if_pos hu1
    clear_value pending_opcode
    subst e3
    have hlat' : lip_get_command_opcode (s.pending_requests src).msg
          = LIP_OPCODE_REQUEST_AV_LATENCY
        ∨ lip_get_command_opcode (s.pending_requests src).msg
          = LIP_OPCODE_REQUEST_AUDIO_LATENCY
        ∨ lip_get_command_opcode (s.pending_requests src).msg
          = LIP_OPCODE_REQUEST_VIDEO_LATENCY := hlat
    rw [if_pos ⟨hlen, hb0⟩, if_neg hnl, if_pos hl, if_pos hlat',
      if_neg (by rw [hini]; exact hown), h1, hini]
    refine ⟨_, fs, rfl, ?_, h7, h8, ?_⟩
    · simp [h6]
    · simp [h4]
  · intro hu hs
    have hsrc := addr_of_sent s hwf _ hu hs
    have hini := sent_slot_initiator s hwf _ hu hs
    have hlat := ((hwf.2 _ hu).2 hs).2.2
    obtain ⟨s', h1, -, -, h4, -, ⟨fs, h6, h7, h8⟩, -⟩ :=
      lip_reply_for_pending_cmd_received_spec fuel now s s.cec_bus.logical_address
        LIP_MESSAGE_ABORT_RECEIVED hwf (by decide) (by decide)
    rw [hbody]
    unfold lip_handle_feature_abort
    lift_lets
    intro lip_opcode src pending_opcode
    have e1 : lip_opcode = s.opcode_of_last_cmd_sent m.initiator := rfl
    have e2 : src = s.cec_bus.logical_address := hsrc
    clear_value lip_opcode src
    subst e1
    have hu1 : src ≠ DLB_LOGICAL_ADDR_UNKNOWN := by
      rw [e2]
      have := (mem_slot_indices _).1 hu
      simp only [DLB_LOGICAL_ADDR_UNKNOWN]
      omega
    have e3 : pending_opcode = lip_get_command_opcode (s.pending_requests src).msg :=
      if_pos hu1
    clear_value pending_opcode
    subst e3
    have hlat' : lip_get_command_opcode (s.pending_requests src).msg
          = LIP_OPCODE_REQUEST_AV_LATENCY
        ∨ lip_get_command_opcode (s.pending_requests src).msg
          = LIP_OPCODE_REQUEST_AUDIO_LATENCY
        ∨ lip_get_command_opcode (s.pending_requests src).msg
          = LIP_OPCODE_REQUEST_VIDEO_LATENCY := by rw [e2]; exact hlat
    rw [if_pos ⟨hlen, hb0⟩, if_neg hnl, if_pos hl, if_pos hlat',
      if_pos (by rw [e2]; exact hini), e2, h1]
    exact ⟨_, fs, rfl, by simp [h6], h7, h8, by simp [h4]⟩

theorem downstream_abort_propagation_witness :
    (S2_in_flight.pending_requests 1).state = LIP_MESSAGE_SENT
      ∧ S2_in_flight.cec_bus.logical_address = 5
      ∧ S2_in_flight.opcode_of_last_cmd_sent 0 = LIP_OPCODE_REQUEST_VIDEO_LATENCY
      ∧ ∃ s', lip_cec_cmd_received 2 50 S2_in_flight downstream_abort = some (s', 1)
          ∧ s'.tx = S2_in_flight.tx
              ++ [lip_build_abort_cec_command empty_msg 5 1
                    DLB_CEC_OPCODE_VENDOR_COMMAND_WITH_ID DLB_CEC_ABORT_REASON_REFUSED]
          ∧ (s'.pending_requests 1).state = LIP_MESSAGE_HANDLED := by
  refine ⟨by decide, by decide, by decide, ?_⟩
  obtain ⟨s', fs, h1, h2, -, h4, h5⟩ :=
    (downstream_abort_propagation 0 50 S2_in_flight downstream_abort
      (reachable_wf _ S2_in_flight_reachable) (by decide) (by decide) (by decide)
      (Or.inr (Or.inr (by decide)))).1 1 (by decide) (by decide) (by decide)
  have hfs := h4 (by decide)
  subst hfs
  exact ⟨s', h1, by simpa using h2, h5⟩

/-! ## C12 -/

/-- C12, the behaviour of the code: a rejected `dlb_lip_set_config` is not atomic.  For
every core, every render mode `r` and every `remove_upstream_device`, the call with the
current configuration in which only `render_mode` is replaced by `r` stores the new
configuration and clears the upstream entry, whether it returns 0 (`r` is the current
mode) or 1 (rejected).  In the reachable core `S2_supported` (render mode AUDIO)
changing the render mode alone to VIDEO returns 1 and leaves `render_mode` at VIDEO; in
`S2_two_peers` the same call with `remove_upstream_device` = 4 returns 1 and peer 4 is no
longer an upstream device. -/
theorem set_config_rejection_overwrites_config :
    (∀ (s : dlb_lip) (r : Nat) (rm : Int),
        dlb_lip_set_config s (some { s.config_params with render_mode := r }) false rm
          = ({ lip_remove_upstream_device s rm with
                config_params := { s.config_params with render_mode := r } },
              if s.config_params.render_mode = r then 0 else 1))
      ∧ Reachable S2_supported
      ∧ S2_supported.config_params.render_mode = LIP_AUDIO_RENDERER
      ∧ (dlb_lip_set_config S2_supported
            (some { S2_supported.config_params with render_mode := LIP_VIDEO_RENDERER }) false
            DLB_LOGICAL_ADDR_UNKNOWN).2 = 1
      ∧ (dlb_lip_set_config S2_supported
            (some { S2_supported.config_params with render_mode := LIP_VIDEO_RENDERER }) false
            DLB_LOGICAL_ADDR_UNKNOWN).1.config_params.render_mode = LIP_VIDEO_RENDERER
      ∧ S2_two_peers.upstream_devices_addresses
          = [4, 1, -1, -1, -1, -1, -1, -1, -1, -1, -1, -1, -1, -1, -1, -1]
      ∧ (dlb_lip_set_config S2_two_peers
            (some { S2_two_peers.config_params with render_mode := LIP_VIDEO_RENDERER }) false
            4).2 = 1
      ∧ (dlb_lip_set_config S2_two_peers
            (some { S2_two_peers.config_params with render_mode := LIP_VIDEO_RENDERER }) false
            4).1.upstream_devices_addresses
          = [-1, 1, -1, -1, -1, -1, -1, -1, -1, -1, -1, -1, -1, -1, -1, -1] := by
  have key : ∀ (s : dlb_lip) (r : Nat) (rm : Int),
      dlb_lip_set_config s (some { s.config_params with render_mode := r }) false rm
        = ({ lip_remove_upstream_device s rm with
              config_params := { s.config_params with render_mode := r } },
            if s.config_params.render_mode = r then 0 else 1) :=
    fun s r rm => set_config_only_render s _ rm rfl rfl rfl rfl rfl rfl
  refine ⟨key, S2_supported_reachable, by decide, ?_, ?_, by decide, ?_, ?_⟩
  · rw [key]
    decide
  · rw [key]
  · rw [key]
    decide
  · rw [key]
    decide

/-! ## C13 -/

/-- C13, the behaviour of the code: upstream removal through `dlb_lip_set_config`.
With DLB_LOGICAL_ADDR_UNKNOWN and nothing else requested the call changes nothing (it
returns 1).  With DLB_LOGICAL_ADDR_BROADCAST the loop of `lip_remove_upstream_device`
stops after the first array entry, so every entry after the first is kept: in the
reachable core `S2_two_peers` (peers 4 and 1 registered) the call returns 0 and peer 1 is
still an upstream device.  With a peer address the first entry that holds it is cleared:
in the reachable core `S2_peer_twice`, where peer 1 has registered again after the
removal of peer 4 and is held in two entries, removing peer 1 leaves peer 1 in the
array. -/
theorem broadcast_removes_first_entry_only :
    (∀ s : dlb_lip,
        dlb_lip_set_config s none false DLB_LOGICAL_ADDR_UNKNOWN = (s, 1))
      ∧ (∀ s : dlb_lip,
          (dlb_lip_set_config s none false
              DLB_LOGICAL_ADDR_BROADCAST).1.upstream_devices_addresses.drop 1
            = s.upstream_devices_addresses.drop 1)
      ∧ Reachable S2_two_peers
      ∧ S2_two_peers.upstream_devices_addresses
          = [4, 1, -1, -1, -1, -1, -1, -1, -1, -1, -1, -1, -1, -1, -1, -1]
      ∧ (dlb_lip_set_config S2_two_peers none false DLB_LOGICAL_ADDR_BROADCAST).2 = 0
      ∧ (dlb_lip_set_config S2_two_peers none false
            DLB_LOGICAL_ADDR_BROADCAST).1.upstream_devices_addresses
          = [-1, 1, -1, -1, -1, -1, -1, -1, -1, -1, -1, -1, -1, -1, -1, -1]
      ∧ lip_is_upstream_device_present
          (dlb_lip_set_config S2_two_peers none false DLB_LOGICAL_ADDR_BROADCAST).1 = true
      ∧ Reachable S2_peer_twice
      ∧ S2_peer_twice.upstream_devices_addresses
          = [1, 1, -1, -1, -1, -1, -1, -1, -1, -1, -1, -1, -1, -1, -1, -1]
      ∧ (dlb_lip_set_config S2_peer_twice none false 1).1.upstream_devices_addresses
          = [-1, 1, -1, -1, -1, -1, -1, -1, -1, -1, -1, -1, -1, -1, -1, -1] := by
  refine ⟨fun s => ?_, fun s => ?_, S2_two_peers_reachable, by decide, by decide, by decide,
    by decide, S2_peer_twice_reachable, by decide, by decide⟩
  · unfold dlb_lip_set_config
    rw [if_neg (by simp)]
  · rw [set_config_none_core s false _ (Or.inr (by decide))]
    unfold set_config_apply
    simp only [Bool.false_eq_true, if_false, and_false]
    exact upstream_remove_broadcast_drop _

/-! ## C14 -/

/-- C14, failing input: in the reachable core `S2_two_peers` the peers 4 and 1 are upstream
devices.  The call `dlb_lip_set_config(NULL, force_discovery = true,
DLB_LOGICAL_ADDR_BROADCAST)` is accepted and returns 0, the state is INIT afterwards, but
peer 1 is still in the upstream array: only the first entry was cleared.  In the
reachable core `S2_peer_twice` peer 1 is held in two entries; the accepted call with
`remove_upstream_device` = 1 leaves peer 1 in the upstream array. -/
theorem rediscovery_keeps_removed_peer :
    Reachable S2_two_peers
      ∧ S2_two_peers.upstream_devices_addresses
          = [4, 1, -1, -1, -1, -1, -1, -1, -1, -1, -1, -1, -1, -1, -1, -1]
      ∧ (dlb_lip_set_config S2_two_peers none true DLB_LOGICAL_ADDR_BROADCAST).2 = 0
      ∧ (dlb_lip_set_config S2_two_peers none true DLB_LOGICAL_ADDR_BROADCAST).1.state
          = LIP_INIT
      ∧ (dlb_lip_set_config S2_two_peers none true
            DLB_LOGICAL_ADDR_BROADCAST).1.upstream_devices_addresses
          = [-1, 1, -1, -1, -1, -1, -1, -1, -1, -1, -1, -1, -1, -1, -1, -1]
      ∧ Reachable S2_peer_twice
      ∧ S2_peer_twice.upstream_devices_addresses
          = [1, 1, -1, -1, -1, -1, -1, -1, -1, -1, -1, -1, -1, -1, -1, -1]
      ∧ (dlb_lip_set_config S2_peer_twice none true 1).2 = 0
      ∧ (dlb_lip_set_config S2_peer_twice none true 1).1.upstream_devices_addresses
          = [-1, 1, -1, -1, -1, -1, -1, -1, -1, -1, -1, -1, -1, -1, -1, -1] :=
  ⟨S2_two_peers_reachable, by decide, by decide, by decide, by decide,
    S2_peer_twice_reachable, by decide, by decide, by decide⟩

/-- C14: rediscovery through `dlb_lip_set_config`.  Let a call be accepted (the local
`parameters_valid` stays true, which is so whenever the call returns 0) with
`force_discovery` set or with a `downstream_device_addr` other than the current one.
Afterwards the discovery state is INIT, the downstream address is UNKNOWN and the
downstream uuid 0xFFFFFFFF, every cache lookup misses (a video lookup with
`color_format` = LIP_COLOR_FORMAT_COUNT misses in the build with `NDEBUG`, in a build with
assertions it is the one lookup that can stop at the assertion), the worker is signalled,
and the upstream array is the array that `lip_remove_upstream_device` leaves: unchanged for
DLB_LOGICAL_ADDR_UNKNOWN, and for a peer address every other peer is kept and the named
peer is gone when the array held it once. -/
theorem rediscovery_through_set_config (s : dlb_lip) (p : Option dlb_lip_config_params)
    (f : Bool) (rm : Int)
    (hacc : (set_config_flags s p f rm).2.2.2 = true)
    (hd : f = true ∨ ∃ q, p = some q
      ∧ q.downstream_device_addr ≠ s.config_params.downstream_device_addr) :
    (dlb_lip_set_config s p f rm).1.state = LIP_INIT
      ∧ (dlb_lip_set_config s p f rm).1.downstream_device_cfg.logical_addr
          = DLB_LOGICAL_ADDR_UNKNOWN
      ∧ (dlb_lip_set_config s p f rm).1.downstream_device_cfg.uuid = 0xFFFFFFFF
      ∧ (∀ af l, dlb_cache_get_audio_latency
          (dlb_lip_set_config s p f rm).1.downstream_device_cfg.latency_cache af l = (false, l))
      ∧ (∀ vf l, dlb_cache_get_video_latency_ndebug
          (dlb_lip_set_config s p f rm).1.downstream_device_cfg.latency_cache vf l = (false, l))
      ∧ (∀ vf l, vf.color_format ≠ LIP_COLOR_FORMAT_COUNT →
          dlb_cache_get_video_latency
            (dlb_lip_set_config s p f rm).1.downstream_device_cfg.latency_cache vf l
          = some (false, l))
      ∧ (dlb_lip_set_config s p f rm).1.thread_signaled = true
      ∧ (dlb_lip_set_config s p f rm).1.condition_var_signals = s.condition_var_signals + 1
      ∧ (dlb_lip_set_config s p f rm).1.upstream_devices_addresses
          = (lip_remove_upstream_device s rm).upstream_devices_addresses
      ∧ (rm = DLB_LOGICAL_ADDR_UNKNOWN →
          (dlb_lip_set_config s p f rm).1.upstream_devices_addresses
            = s.upstream_devices_addresses)
      ∧ (rm ≠ DLB_LOGICAL_ADDR_BROADCAST →
          ∀ a, a ≠ DLB_LOGICAL_ADDR_UNKNOWN → a ≠ rm →
            (a ∈ (dlb_lip_set_config s p f rm).1.upstream_devices_addresses
              ↔ a ∈ s.upstream_devices_addresses))
      ∧ (rm ≠ DLB_LOGICAL_ADDR_BROADCAST → rm ≠ DLB_LOGICAL_ADDR_UNKNOWN →
          s.upstream_devices_addresses.count rm ≤ 1 →
            rm ∉ (dlb_lip_set_config s p f rm).1.upstream_devices_addresses) := by
  have h0 : p.isSome ∨ f = true ∨ rm ≠ DLB_LOGICAL_ADDR_UNKNOWN := by
    rcases hd with hd | ⟨q, hq, -⟩
    · exact Or.inr (Or.inl hd)
    · exact Or.inl (by rw [hq]; rfl)
  have hdisc : (set_config_flags s p f rm).2.1 = true := by
    rw [set_config_flags_discovery]
    rcases hd with hd | ⟨q, hq, hne⟩
    · rw [hd]; rfl
    · rw [hq]
      simp only [Bool.or_eq_true, decide_eq_true_eq]
      exact Or.inr (fun c => hne c.symm)
  rw [set_config_eq_flags s p f rm h0, if_pos hacc, hdisc]
  obtain ⟨a1, a2, a3, a4, a5⟩ :=
    set_config_apply_rediscover (set_config_flags s p f rm).1
      (upstream_remove s.upstream_devices_addresses rm) (set_config_flags s p f rm).2.2.1
  rw [a1, a2, a3, a4, a5, (set_config_flags_core s p f rm).1]
  refine ⟨rfl, rfl, rfl, fun af l => cache_clear_audio_miss _ _ af l,
    fun vf l => cache_clear_video_miss _ _ vf l,
    fun vf l hcf => (cache_get_video_some _ vf l (fun k => hcf k.2.2)).trans
      (congrArg some (cache_clear_video_miss _ _ vf l)), rfl, rfl, rfl, ?_, ?_, ?_⟩
  · intro e
    rw [e, upstream_remove_unknown]
  · intro hb a ha hne
    exact upstream_remove_other _ _ _ hb ha hne
  · intro hb hu hc
    exact upstream_remove_gone _ _ hu hb hc

theorem rediscovery_through_set_config_witness :
    S2_two_peers.state = LIP_SUPPORTED
      ∧ S2_two_peers.upstream_devices_addresses
          = [4, 1, -1, -1, -1, -1, -1, -1, -1, -1, -1, -1, -1, -1, -1, -1]
      ∧ (dlb_lip_set_config S2_two_peers none true 4).1.state = LIP_INIT
      ∧ (dlb_lip_set_config S2_two_peers none true 4).1.downstream_device_cfg.uuid
          = 0xFFFFFFFF
      ∧ (dlb_lip_set_config S2_two_peers none true 4).1.thread_signaled = true
      ∧ (1 : Int) ∈ (dlb_lip_set_config S2_two_peers none true 4).1.upstream_devices_addresses
      ∧ (4 : Int) ∉ (dlb_lip_set_config S2_two_peers none true 4).1.upstream_devices_addresses := by
  obtain ⟨h1, -, h3, -, -, -, h6, -, -, -, h10, h11⟩ :=
    rediscovery_through_set_config S2_two_peers none true 4 rfl (Or.inl rfl)
  exact ⟨by decide, by decide, h1, h3, h6,
    (h10 (by decide) 1 (by decide) (by decide)).2 (by decide),
    h11 (by decide) (by decide) (by decide)⟩

/-! ## C15 -/

theorem received_identity_cache (fuel now : Nat) (s : dlb_lip) (m : dlb_cec_message)
    (upd : Bool) (h : addressed_to s m (identity_opcode upd))
    (hg : lip_can_handle_opcode_in_current_state s (identity_opcode upd) = true)
    (ha : spec_identity_accepted s m upd) :
    ∃ s', lip_cec_cmd_received (fuel + 1) now s m = some (s', 1)
      ∧ s'.downstream_device_cfg.uuid = report_uuid m
      ∧ s'.downstream_device_cfg.latency_cache = cache_after_identity s (report_uuid m) := by
  obtain ⟨s', h1, -, h3, -⟩ := received_identity_taken fuel now s m upd h hg ha
  exact ⟨s', h1, by rw [h3], by rw [h3]⟩

theorem S2_supported_audio_empty (af : dlb_lip_audio_format) (l : Nat) :
    dlb_cache_get_audio_latency S2_supported.downstream_device_cfg.latency_cache af l
      = (false, l) := by
  obtain ⟨s', h1, -, h3⟩ :=
    received_identity_cache 1 10 S2_discovering
      (frame 0 5 [0, 0xD0, 0x46, 0x11, 0, 0xAB, 0xCD, 0, 1]) false (by decide) (by decide)
      (by decide)
  have e : S2_supported = s' := by
    unfold S2_supported
    rw [h1]
    rfl
  rw [e, h3, cache_after_identity_cleared _ _ (by decide)
    (by rw [read_blob_none _ _ (by decide)]; decide)
    (by rw [read_blob_none _ _ (by decide)]),
    (clear_audio_flag_iff _ _).2 (Or.inl (by decide))]
  exact cache_clear_audio_miss _ _ af l

/-- C15, counterexample: the reachable core `S2_supported` has downstream uuid 0xABCD0001,
no read callback and an empty cache.  The UPDATE_UUID with uuid 0xABCD0101 from the
downstream device is accepted; the two uuids agree in the top 16 bits and in the low
octet, and yet every audio lookup misses afterwards (no audio latency was cached). -/
theorem audio_miss_without_clear_counterexample :
    Reachable S2_supported
      ∧ S2_supported.state = LIP_SUPPORTED
      ∧ S2_supported.downstream_device_cfg.uuid = 0xABCD0001
      ∧ report_uuid video_mode_update = 0xABCD0101
      ∧ (0xABCD0101 &&& LIP_UUID_MASK = 0xABCD0001 &&& LIP_UUID_MASK)
      ∧ (0xABCD0101 &&& LIP_UUID_AUDIO_MASK = 0xABCD0001 &&& LIP_UUID_AUDIO_MASK)
      ∧ S2_supported.callbacks.read_cache_callback.isNone = true
      ∧ ∃ s', lip_cec_cmd_received 1 50 S2_supported video_mode_update = some (s', 1)
          ∧ s'.downstream_device_cfg.uuid = 0xABCD0101
          ∧ ∀ af l, dlb_cache_get_audio_latency s'.downstream_device_cfg.latency_cache af l
              = (false, l) := by
  refine ⟨S2_supported_reachable, by decide, by decide, by decide, by decide, by decide,
    by decide, ?_⟩
  obtain ⟨s', h1, h2, h3⟩ :=
    received_identity_cache 0 50 S2_supported video_mode_update true (by decide) (by decide)
      (by decide)
  refine ⟨s', h1, by rw [h2]; decide, fun af l => ?_⟩
  rw [h3, cache_after_identity_cleared _ _ (by decide)
    (by rw [read_blob_none _ _ (by decide)]; decide)
    (by rw [read_blob_none _ _ (by decide)])]
  have hf : clear_audio_flag (report_uuid video_mode_update)
      S2_supported.downstream_device_cfg.uuid = false := by decide
  rw [hf]
  have hk := cache_clear_keep_audio S2_supported.downstream_device_cfg.latency_cache
    (clear_video_flag (report_uuid video_mode_update) S2_supported.downstream_device_cfg.uuid)
  rw [cache_get_audio_congr _ _ (cache_clear_enabled _ _ _) hk.1 hk.2]
  exact S2_supported_audio_empty af l

/-- C15, amended: cache invalidation by uuid bits.  Let an accepted REPORT_LIP_SUPPORT or
UPDATE_UUID carry the uuid `new`, and let `old` be the stored downstream uuid.  If
`new ≠ old` and the persistence collaborator does not deliver a full blob (no read
callback, or a byte count other than the cache size with the buffer untouched), the
cache afterwards is `dlb_cache_clear` of the cache before with the audio part cleared
exactly when the uuids differ in the top 16 bits or in the low octet, and the video part
exactly when they differ in the top 16 bits or in bits 8..15: every lookup in a cleared
part misses, and a part that is not cleared is unchanged, so its lookups give what they
gave before.  The video lookups are stated for the build with `NDEBUG` and for the build
with assertions, in which the lookup of a format with `color_format` =
LIP_COLOR_FORMAT_COUNT is the one that can stop at the assertion.  If the full blob is read the cache is the blob that was read, and if
`new = old` the cache is unchanged. -/
theorem cache_invalidation_by_uuid_bits (fuel now : Nat) (s : dlb_lip) (m : dlb_cec_message)
    (upd : Bool) (h : addressed_to s m (identity_opcode upd))
    (hg : lip_can_handle_opcode_in_current_state s (identity_opcode upd) = true)
    (hi : m.initiator = s.config_params.downstream_device_addr)
    (hs : if upd then s.state = LIP_SUPPORTED else s.state ≠ LIP_SUPPORTED) :
    ∃ s', lip_cec_cmd_received (fuel + 1) now s m = some (s', 1)
      ∧ s'.downstream_device_cfg.uuid = report_uuid m
      ∧ (report_uuid m ≠ s.downstream_device_cfg.uuid →
          (read_blob s (report_uuid m)).1 % 2 ^ 32 ≠ sizeof_latency_cache →
          (read_blob s (report_uuid m)).2 = s.downstream_device_cfg.latency_cache →
          s'.downstream_device_cfg.latency_cache
              = dlb_cache_clear s.downstream_device_cfg.latency_cache
                  (clear_audio_flag (report_uuid m) s.downstream_device_cfg.uuid)
                  (clear_video_flag (report_uuid m) s.downstream_device_cfg.uuid)
            ∧ (((report_uuid m &&& LIP_UUID_MASK)
                    ≠ (s.downstream_device_cfg.uuid &&& LIP_UUID_MASK)
                  ∨ (report_uuid m &&& LIP_UUID_AUDIO_MASK)
                    ≠ (s.downstream_device_cfg.uuid &&& LIP_UUID_AUDIO_MASK)) →
                ∀ af l, dlb_cache_get_audio_latency
                  s'.downstream_device_cfg.latency_cache af l = (false, l))
            ∧ (¬ ((report_uuid m &&& LIP_UUID_MASK)
                    ≠ (s.downstream_device_cfg.uuid &&& LIP_UUID_MASK)
                  ∨ (report_uuid m &&& LIP_UUID_AUDIO_MASK)
                    ≠ (s.downstream_device_cfg.uuid &&& LIP_UUID_AUDIO_MASK)) →
                s'.downstream_device_cfg.latency_cache.audio_latencies
                    = s.downstream_device_cfg.latency_cache.audio_latencies
                  ∧ s'.downstream_device_cfg.latency_cache.audio_latencies_valid
                    = s.downstream_device_cfg.latency_cache.audio_latencies_valid
                  ∧ ∀ af l, dlb_cache_get_audio_latency
                      s'.downstream_device_cfg.latency_cache af l
                    = dlb_cache_get_audio_latency s.downstream_device_cfg.latency_cache af l)
            ∧ (((report_uuid m &&& LIP_UUID_MASK)
                    ≠ (s.downstream_device_cfg.uuid &&& LIP_UUID_MASK)
                  ∨ (report_uuid m &&& LIP_UUID_VIDEO_MASK)
                    ≠ (s.downstream_device_cfg.uuid &&& LIP_UUID_VIDEO_MASK)) →
                (∀ vf l, dlb_cache_get_video_latency_ndebug
                    s'.downstream_device_cfg.latency_cache vf l = (false, l))
                  ∧ ∀ vf l, vf.color_format ≠ LIP_COLOR_FORMAT_COUNT →
                    dlb_cache_get_video_latency
                      s'.downstream_device_cfg.latency_cache vf l = some (false, l))
            ∧ (¬ ((report_uuid m &&& LIP_UUID_MASK)
                    ≠ (s.downstream_device_cfg.uuid &&& LIP_UUID_MASK)
                  ∨ (report_uuid m &&& LIP_UUID_VIDEO_MASK)
                    ≠ (s.downstream_device_cfg.uuid &&& LIP_UUID_VIDEO_MASK)) →
                s'.downstream_device_cfg.latency_cache.video_latencies
                    = s.downstream_device_cfg.latency_cache.video_latencies
                  ∧ s'.downstream_device_cfg.latency_cache.video_latencies_valid
                    = s.downstream_device_cfg.latency_cache.video_latencies_valid
                  ∧ (∀ vf l, dlb_cache_get_video_latency_ndebug
                      s'.downstream_device_cfg.latency_cache vf l
                    = dlb_cache_get_video_latency_ndebug s.downstream_device_cfg.latency_cache vf l)
                  ∧ ∀ vf l, dlb_cache_get_video_latency
                      s'.downstream_device_cfg.latency_cache vf l
                    = dlb_cache_get_video_latency s.downstream_device_cfg.latency_cache vf l))
      ∧ (report_uuid m ≠ s.downstream_device_cfg.uuid →
          (read_blob s (report_uuid m)).1 % 2 ^ 32 = sizeof_latency_cache →
          s'.downstream_device_cfg.latency_cache = (read_blob s (report_uuid m)).2)
      ∧ (report_uuid m = s.downstream_device_cfg.uuid →
          s'.downstream_device_cfg.latency_cache = s.downstream_device_cfg.latency_cache) := by
  obtain ⟨s', h1, h2, h3⟩ := received_identity_cache fuel now s m upd h hg ⟨hi, hs⟩
  refine ⟨s', h1, h2, fun hne hr hb => ?_, fun hne hr => ?_, fun he => ?_⟩
  · have hc := cache_after_identity_cleared s _ hne hr hb
    rw [← h3] at hc
    refine ⟨hc, fun ha af l => ?_, fun ha => ?_, fun hv => ?_, fun hv => ?_⟩
    · rw [hc, (clear_audio_flag_iff _ _).2 ha]
      exact cache_clear_audio_miss _ _ af l
    · have hf : clear_audio_flag (report_uuid m) s.downstream_device_cfg.uuid = false := by
        rw [← Bool.not_eq_true, clear_audio_flag_iff]
        exact ha
      rw [hc, hf]
      have hk := cache_clear_keep_audio s.downstream_device_cfg.latency_cache
        (clear_video_flag (report_uuid m) s.downstream_device_cfg.uuid)
      exact ⟨hk.1, hk.2, fun af l =>
        cache_get_audio_congr _ _ (cache_clear_enabled _ _ _) hk.1 hk.2 af l⟩
    · rw [hc, (clear_video_flag_iff _ _).2 hv]
      exact ⟨fun vf l => cache_clear_video_miss _ _ vf l,
        fun vf l hcf => (cache_get_video_some _ vf l (fun k => hcf k.2.2)).trans
          (congrArg some (cache_clear_video_miss _ _ vf l))⟩
    · have hf : clear_video_flag (report_uuid m) s.downstream_device_cfg.uuid = false := by
        rw [← Bool.not_eq_true, clear_video_flag_iff]
        exact hv
      rw [hc, hf]
      have hk := cache_clear_keep_video s.downstream_device_cfg.latency_cache
        (clear_audio_flag (report_uuid m) s.downstream_device_cfg.uuid)
      exact ⟨hk.1, hk.2, fun vf l =>
        cache_get_video_congr _ _ (cache_clear_enabled _ _ _) hk.1 hk.2 vf l,
        fun vf l => cache_get_video_congr_ndebug _ _ vf l (cache_clear_enabled _ _ _)
          (cache_get_video_congr _ _ (cache_clear_enabled _ _ _) hk.1 hk.2 vf l)⟩
  · rw [h3]
    exact cache_after_identity_full s _ hne hr
  · rw [h3]
    exact cache_after_identity_same s _ he

theorem cache_invalidation_by_uuid_bits_witness :
    S2_answered.downstream_device_cfg.uuid = 0xABCD0001
      ∧ report_uuid video_mode_update = 0xABCD0101
      ∧ dlb_cache_get_video_latency S2_answered.downstream_device_cfg.latency_cache
          ⟨4, 0, 0⟩ 255 = some (true, 30)
      ∧ ∃ s', lip_cec_cmd_received 1 50 S2_answered video_mode_update = some (s', 1)
          ∧ dlb_cache_get_video_latency s'.downstream_device_cfg.latency_cache
              ⟨4, 0, 0⟩ 255 = some (false, 255)
          ∧ dlb_cache_get_audio_latency s'.downstream_device_cfg.latency_cache
              ⟨IEC61937_AC3, 0, 0⟩ 255 = (true, 5) := by
  refine ⟨by decide, by decide, by decide, ?_⟩
  obtain ⟨s', h1, -, h3, -, -⟩ :=
    cache_invalidation_by_uuid_bits 0 50 S2_answered video_mode_update true (by decide)
      (by decide) (by decide) (by decide)
  obtain ⟨-, -, ha, hv, -⟩ := h3 (by decide)
    (by rw [read_blob_none _ _ (by decide)]; decide)
    (by rw [read_blob_none _ _ (by decide)])
  refine ⟨s', h1, (hv (Or.inr (by decide))).2 _ _ (by decide), ?_⟩
  rw [(ha (by decide)).2.2]
  decide

/-! ## C16 -/

theorem S2_answered_reachable : Reachable S2_answered :=
  reachable_core_of 0 30 _ _ S2_in_flight_reachable

/-- C16, counterexample: the reachable core `S2_answered` is in state SUPPORTED with
downstream address 0 and downstream uuid 0xABCD0001, it has no read callback, and its
cache holds the audio latency 5 for AC3 and the video latency 30 for vic 4.  The frame
REPORT_LIP_SUPPORT with uuid 0xABCD0002 from address 0 is ignored because the state is
SUPPORTED: the core is unchanged, the downstream uuid is still 0xABCD0001 and the audio
lookup for AC3 still hits with 5. -/
theorem S4_report_ignored_counterexample :
    Reachable S2_answered
      ∧ S2_answered.state = LIP_SUPPORTED
      ∧ S2_answered.config_params.downstream_device_addr = 0
      ∧ S2_answered.downstream_device_cfg.uuid = 0xABCD0001
      ∧ report_uuid S4_report = 0xABCD0002
      ∧ S2_answered.callbacks.read_cache_callback.isNone = true
      ∧ dlb_cache_get_audio_latency S2_answered.downstream_device_cfg.latency_cache
          ⟨IEC61937_AC3, 0, 0⟩ 255 = (true, 5)
      ∧ dlb_cache_get_video_latency S2_answered.downstream_device_cfg.latency_cache
          ⟨4, 0, 0⟩ 255 = some (true, 30)
      ∧ lip_cec_cmd_received 2 50 S2_answered S4_report = some (S2_answered, 1)
      ∧ (core_of (lip_cec_cmd_received 2 50 S2_answered S4_report)
            S2_answered).downstream_device_cfg.uuid = 0xABCD0001
      ∧ dlb_cache_get_audio_latency
          (core_of (lip_cec_cmd_received 2 50 S2_answered S4_report)
            S2_answered).downstream_device_cfg.latency_cache ⟨IEC61937_AC3, 0, 0⟩ 255
          = (true, 5) :=
  ⟨S2_answered_reachable, by decide, by decide, by decide, by decide, by decide, by decide,
    by decide,
    received_identity_ignored 1 50 S2_answered S4_report false (by decide) (by decide)
      (by decide),
    by decide, by decide⟩

/-- C16, amended: scenario S4 with UPDATE_UUID.  For a node in state SUPPORTED, an
UPDATE_UUID from the configured downstream device whose uuid agrees with the stored
downstream uuid in the top 16 bits and in bits 8..15 and differs from it in the low
octet, when the persistence read delivers 0 bytes and leaves the buffer alone (or there
is no read callback), is handled with return value 1, and afterwards every audio cache
lookup misses and the video part of the cache is unchanged: every video lookup gives
what it gave before. -/
theorem S4_identity_change (fuel now : Nat) (s : dlb_lip) (m : dlb_cec_message)
    (hst : s.state = LIP_SUPPORTED) (h : addressed_to s m LIP_OPCODE_UPDATE_UUID)
    (hi : m.initiator = s.config_params.downstream_device_addr)
    (htop : report_uuid m &&& LIP_UUID_MASK = s.downstream_device_cfg.uuid &&& LIP_UUID_MASK)
    (hvid : report_uuid m &&& LIP_UUID_VIDEO_MASK
      = s.downstream_device_cfg.uuid &&& LIP_UUID_VIDEO_MASK)
    (haud : report_uuid m &&& LIP_UUID_AUDIO_MASK
      ≠ s.downstream_device_cfg.uuid &&& LIP_UUID_AUDIO_MASK)
    (hread : read_blob s (report_uuid m) = (0, s.downstream_device_cfg.latency_cache)) :
    ∃ s', lip_cec_cmd_received (fuel + 1) now s m = some (s', 1)
      ∧ s'.downstream_device_cfg.uuid = report_uuid m
      ∧ (∀ af l, dlb_cache_get_audio_latency s'.downstream_device_cfg.latency_cache af l
          = (false, l))
      ∧ s'.downstream_device_cfg.latency_cache.video_latencies
          = s.downstream_device_cfg.latency_cache.video_latencies
      ∧ s'.downstream_device_cfg.latency_cache.video_latencies_valid
          = s.downstream_device_cfg.latency_cache.video_latencies_valid
      ∧ (∀ vf l, dlb_cache_get_video_latency_ndebug s'.downstream_device_cfg.latency_cache vf l
          = dlb_cache_get_video_latency_ndebug s.downstream_device_cfg.latency_cache vf l)
      ∧ (∀ vf l, dlb_cache_get_video_latency s'.downstream_device_cfg.latency_cache vf l
          = dlb_cache_get_video_latency s.downstream_device_cfg.latency_cache vf l) := by
  have hne : report_uuid m ≠ s.downstream_device_cfg.uuid := fun c => haud (by rw [c])
  obtain ⟨s', h1, -, h3, -⟩ :=
    received_identity_taken fuel now s m true h
      (can_handle_supported s _ hst (by decide)) ⟨hi, hst⟩
  have hc : s'.downstream_device_cfg.latency_cache
      = dlb_cache_clear s.downstream_device_cfg.latency_cache true false := by
    rw [h3]
    show cache_after_identity s (report_uuid m) = _
    rw [cache_after_identity_cleared s _ hne
        (by rw [hread]; show 0 % 2 ^ 32 ≠ sizeof_latency_cache; decide) (by rw [hread]),
      (clear_audio_flag_iff _ _).2 (Or.inr haud)]
    have hv : clear_video_flag (report_uuid m) s.downstream_device_cfg.uuid = false := by
      rw [← Bool.not_eq_true, clear_video_flag_iff]
      intro c
      rcases c with c | c
      · exact c htop
      · exact c hvid
    rw [hv]
  have hk := cache_clear_keep_video s.downstream_device_cfg.latency_cache true
  refine ⟨s', h1, by rw [h3], ?_, ?_, ?_, ?_, ?_⟩
  · intro af l
    rw [hc]
    exact cache_clear_audio_miss _ _ af l
  · rw [hc]; exact hk.1
  · rw [hc]; exact hk.2
  · intro vf l
    rw [hc]
    exact cache_get_video_congr _ _ (cache_clear_enabled _ _ _) hk.1 hk.2 vf l
  · intro vf l
    rw [hc]
    exact cache_get_video_congr_ndebug _ _ vf l (cache_clear_enabled _ _ _)
      (cache_get_video_congr _ _ (cache_clear_enabled _ _ _) hk.1 hk.2 vf l)

theorem S4_identity_change_witness :
    S2_answered.state = LIP_SUPPORTED
      ∧ S2_answered.downstream_device_cfg.uuid = 0xABCD0001
      ∧ report_uuid S4_update = 0xABCD0002
      ∧ dlb_cache_get_audio_latency S2_answered.downstream_device_cfg.latency_cache
          ⟨IEC61937_AC3, 0, 0⟩ 255 = (true, 5)
      ∧ ∃ s', lip_cec_cmd_received 1 50 S2_answered S4_update = some (s', 1)
          ∧ dlb_cache_get_audio_latency s'.downstream_device_cfg.latency_cache
              ⟨IEC61937_AC3, 0, 0⟩ 255 = (false, 255)
          ∧ dlb_cache_get_video_latency s'.downstream_device_cfg.latency_cache
              ⟨4, 0, 0⟩ 255 = some (true, 30) := by
  refine ⟨by decide, by decide, by decide, by decide, ?_⟩
  obtain ⟨s', h1, -, h3, -, -, -, h6⟩ :=
    S4_identity_change 0 50 S2_answered S4_update (by decide) (by decide) (by decide)
      (by decide) (by decide) (by decide) (read_blob_none _ _ (by decide))
  refine ⟨s', h1, h3 _ _, ?_⟩
  rw [h6]
  decide

/-! ## C17 -/

theorem identity_ignored_iff (s : dlb_lip) (m : dlb_cec_message) (upd : Bool) :
    identity_ignored s m upd = false ↔ spec_identity_accepted s m upd := by
  unfold identity_ignored spec_identity_accepted
  cases upd
  · simp only [Bool.not_false, Bool.true_and, Bool.false_and, Bool.or_false,
      Bool.or_eq_false_iff, decide_eq_false_iff_not, not_not, Bool.false_eq_true, if_false,
      ne_eq]
    exact ⟨fun ⟨a, b⟩ => ⟨a.symm, b⟩, fun ⟨a, b⟩ => ⟨a.symm, b⟩⟩
  · simp only [Bool.not_true, Bool.true_and, Bool.false_and, Bool.or_false,
      Bool.or_eq_false_iff, decide_eq_false_iff_not, not_not, if_true, ne_eq]
    exact ⟨fun ⟨a, b⟩ => ⟨a.symm, b⟩, fun ⟨a, b⟩ => ⟨a.symm, b⟩⟩

/-- C17: acceptance of the downstream identity messages.  Let `m` be a REPORT_LIP_SUPPORT
or an UPDATE_UUID (`upd`) addressed to the node that passes the state gating of the
dispatcher.  The tests at the head of `lip_handle_report_lip_support` let it through iff
its initiator is `config.downstream_device_addr` and the state is not SUPPORTED
(REPORT_LIP_SUPPORT) respectively is SUPPORTED (UPDATE_UUID).  When they let it through,
`lip_cec_cmd_received` returns 1 with the state SUPPORTED, the downstream address the
initiator and the downstream uuid the big-endian value of the operand bytes 5..8.
Otherwise it returns 1 with the core unchanged: same discovery state, downstream
identity, cache, upstream array, pending table and transmit log. -/
theorem identity_message_acceptance (fuel now : Nat) (s : dlb_lip) (m : dlb_cec_message)
    (upd : Bool) (h : addressed_to s m (identity_opcode upd))
    (hg : lip_can_handle_opcode_in_current_state s (identity_opcode upd) = true)
    (hb : bytes_ok m) :
    (identity_ignored s m upd = false ↔
        m.initiator = s.config_params.downstream_device_addr
          ∧ (if upd then s.state = LIP_SUPPORTED else s.state ≠ LIP_SUPPORTED))
      ∧ (identity_ignored s m upd = false →
          ∃ s', lip_cec_cmd_received (fuel + 1) now s m = some (s', 1)
            ∧ s'.state = LIP_SUPPORTED
            ∧ s'.downstream_device_cfg.logical_addr = m.initiator
            ∧ s'.downstream_device_cfg.uuid
                = m.byte 5 * 2 ^ 24 + m.byte 6 * 2 ^ 16 + m.byte 7 * 2 ^ 8 + m.byte 8)
      ∧ (identity_ignored s m upd = true →
          lip_handle_report_lip_support now s m [] upd = (s, [], false)
            ∧ lip_cec_cmd_received (fuel + 1) now s m = some (s, 1)) := by
  refine ⟨identity_ignored_iff s m upd, fun hi => ?_, fun hi => ?_⟩
  · obtain ⟨s', h1, h2, h3, -⟩ :=
      received_identity_taken fuel now s m upd h hg ((identity_ignored_iff s m upd).1 hi)
    refine ⟨s', h1, h2, by rw [h3], ?_⟩
    rw [h3]
    exact report_uuid_eq m hb
  · have hn : ¬ spec_identity_accepted s m upd := fun c => by
      rw [(identity_ignored_iff s m upd).2 c] at hi
      exact absurd hi (by decide)
    exact ⟨report_lip_support_ignored now s m [] upd hn,
      received_identity_ignored fuel now s m upd h hg hn⟩

theorem identity_message_acceptance_witness :
    S2_discovering.state = LIP_WAIT_FOR_REPLY
      ∧ S2_discovering.config_params.downstream_device_addr = 0
      ∧ ∃ s', lip_cec_cmd_received 1 10 S2_discovering
            (frame 0 5 [0, 0xD0, 0x46, 0x11, 0, 0xAB, 0xCD, 0, 1]) = some (s', 1)
          ∧ s'.state = LIP_SUPPORTED ∧ s'.downstream_device_cfg.logical_addr = 0
          ∧ s'.downstream_device_cfg.uuid = 0xABCD0001 := by
  refine ⟨by decide, by decide, ?_⟩
  obtain ⟨s', h1, h2, h3, h4⟩ :=
    (identity_message_acceptance 0 10 S2_discovering
      (frame 0 5 [0, 0xD0, 0x46, 0x11, 0, 0xAB, 0xCD, 0, 1]) false (by decide) (by decide)
      (by decide)).2.1 (by decide)
  exact ⟨s', h1, h2, h3, h4⟩

/-! ## C18 -/

/-- C18, failing inputs, in three reachable cores in state SUPPORTED.
(1) `TV_rediscovered`: the upstream peers are 2 and 4 (array positions 0 and 1) and slot
1 buffers a REQUEST_LIP_SUPPORT of peer 1; an UPDATE_UUID from the downstream device
makes the node send REPORT_LIP_SUPPORT (opcode 0x11), not UPDATE_UUID, to peer 4, and
UPDATE_UUID to peer 1: the flag `send_update_uuid[i]` is cleared at the index of the
pending slot and read at the position in the upstream array.
(2) `S2_peer_twice`: the upstream array holds peer 1 in two entries; an UPDATE_UUID from
the downstream device makes the node send two UPDATE_UUID frames to peer 1.
(3) `S7_hub`: own uuid 0x12340000, upstream peer 1, and a merge callback with
merge(0x12340000, 0xFFFFFFFF) = 0x1234FFFF; the UPDATE_UUID that carries 0xFFFFFFFF from
the downstream device makes the node send UPDATE_UUID with the own uuid 0x12340000 to
peer 1, not the merged uuid (`lip_get_uuid` takes 0xFFFFFFFF as no downstream uuid). -/
theorem uuid_propagation_counterexample :
    (Reachable TV_rediscovered ∧ TV_rediscovered.state = LIP_SUPPORTED
      ∧ TV_rediscovered.config_params.downstream_device_addr = 5
      ∧ TV_rediscovered.upstream_devices_addresses
          = [2, 4, -1, -1, -1, -1, -1, -1, -1, -1, -1, -1, -1, -1, -1, -1]
      ∧ (TV_rediscovered.pending_requests 1).state = LIP_MESSAGE_PENDING
      ∧ lip_get_command_opcode (TV_rediscovered.pending_requests 1).msg
          = LIP_OPCODE_REQUEST_LIP_SUPPORT
      ∧ sent_by TV_rediscovered (lip_cec_cmd_received 1 1200 TV_rediscovered TV_update)
          = some [(0, 2, 0xA0, [0, 0xD0, 0x46, 0x18, 0, 0x12, 0x34, 0, 2]),
              (0, 4, 0xA0, [0, 0xD0, 0x46, 0x11, 0, 0x12, 0x34, 0, 2]),
              (0, 1, 0xA0, [0, 0xD0, 0x46, 0x18, 0, 0x12, 0x34, 0, 2])])
      ∧ (Reachable S2_peer_twice ∧ S2_peer_twice.state = LIP_SUPPORTED
        ∧ S2_peer_twice.config_params.downstream_device_addr = 0
        ∧ S2_peer_twice.upstream_devices_addresses
            = [1, 1, -1, -1, -1, -1, -1, -1, -1, -1, -1, -1, -1, -1, -1, -1]
        ∧ sent_by S2_peer_twice (lip_cec_cmd_received 1 50 S2_peer_twice S4_update)
            = some [(5, 1, 0xA0, [0, 0xD0, 0x46, 0x18, 0, 0x12, 0x34, 0, 0]),
                (5, 1, 0xA0, [0, 0xD0, 0x46, 0x18, 0, 0x12, 0x34, 0, 0])])
      ∧ (Reachable S7_hub ∧ S7_hub.state = LIP_SUPPORTED
        ∧ S7_hub.config_params.downstream_device_addr = 0
        ∧ S7_hub.config_params.uuid = 0x12340000
        ∧ S7_hub.upstream_devices_addresses
            = [1, -1, -1, -1, -1, -1, -1, -1, -1, -1, -1, -1, -1, -1, -1, -1]
        ∧ S7_hub.callbacks.merge_uuid_callback.map (fun f => f 0x12340000 0xFFFFFFFF)
            = some 0x1234FFFF
        ∧ report_uuid invalid_uuid_update = 0xFFFFFFFF
        ∧ sent_by S7_hub (lip_cec_cmd_received 1 50 S7_hub invalid_uuid_update)
            = some [(5, 1, 0xA0, [0, 0xD0, 0x46, 0x18, 0, 0x12, 0x34, 0, 0])]) :=
  ⟨⟨TV_rediscovered_reachable, by decide, by decide, by decide, by decide, by decide,
      by decide⟩,
    ⟨S2_peer_twice_reachable, by decide, by decide, by decide, by decide⟩,
    ⟨S7_hub_reachable, by decide, by decide, by decide, by decide, by decide, by decide,
      by decide⟩⟩

/-- C18, what holds: UUID propagation.  Let the merge callback be `merge` and let an
identity message from the configured downstream device carry the uuid `N`: an
UPDATE_UUID (`upd`) received in state SUPPORTED while no REQUEST_LIP_SUPPORT is buffered
in the pending table, or a REPORT_LIP_SUPPORT received in another state.  The node
consumes it and transmits one frame for every entry of the upstream array that holds a
peer, in the order of the array: an UPDATE_UUID (LIP opcode 0x18) respectively a
REPORT_LIP_SUPPORT (0x11) with version 0 whose uuid is `merge own_uuid N` when `N` is
not 0xFFFFFFFF, and the own uuid when it is.  A peer that the array holds once gets
exactly one frame.  An UPDATE_UUID leaves the upstream array unchanged; a
REPORT_LIP_SUPPORT keeps every peer (it adds the peers whose REQUEST_LIP_SUPPORT was
buffered).  The two conditions, no buffered REQUEST_LIP_SUPPORT and a peer held once,
are the ones that the failing inputs break. -/
theorem uuid_propagation (fuel now : Nat) (s : dlb_lip) (m : dlb_cec_message) (upd : Bool)
    (merge : Nat → Nat → Nat)
    (h : addressed_to s m (identity_opcode upd))
    (hg : lip_can_handle_opcode_in_current_state s (identity_opcode upd) = true)
    (hi : m.initiator = s.config_params.downstream_device_addr)
    (hs : if upd then s.state = LIP_SUPPORTED else s.state ≠ LIP_SUPPORTED)
    (hm : s.callbacks.merge_uuid_callback = some merge)
    (hnb : upd = true → ∀ i ∈ slot_indices,
      ¬ ((s.pending_requests i).state ≠ LIP_MESSAGE_HANDLED
        ∧ lip_get_command_opcode (s.pending_requests i).msg = LIP_OPCODE_REQUEST_LIP_SUPPORT)) :
    ∃ s' uuid, lip_cec_cmd_received (fuel + 1) now s m = some (s', 1)
      ∧ uuid = (if report_uuid m ≠ 0xFFFFFFFF then
            merge s.config_params.uuid (report_uuid m) % 2 ^ 32
          else s.config_params.uuid)
      ∧ s'.tx = s.tx ++
          (s'.upstream_devices_addresses.filter
            (fun a => decide (a ≠ DLB_LOGICAL_ADDR_UNKNOWN))).map
            (fun a => dlb_lip_build_report_lip_support_cmd empty_msg s.cec_bus.logical_address
              a 0 uuid upd)
      ∧ (∀ a, wire (dlb_lip_build_report_lip_support_cmd empty_msg s.cec_bus.logical_address
              a 0 uuid upd)
          = (s.cec_bus.logical_address, a, DLB_CEC_OPCODE_VENDOR_COMMAND_WITH_ID,
              [0x00, 0xD0, 0x46, if upd then 0x18 else 0x11, 0,
                (uuid / 2 ^ 24) % 256, (uuid / 2 ^ 16) % 256, (uuid / 2 ^ 8) % 256,
                uuid % 256]))
      ∧ (∀ U, U ≠ DLB_LOGICAL_ADDR_UNKNOWN → s'.upstream_devices_addresses.count U = 1 →
          (s'.tx.drop s.tx.length).filter (fun f => decide (f.destination = U))
            = [dlb_lip_build_report_lip_support_cmd empty_msg s.cec_bus.logical_address
                U 0 uuid upd])
      ∧ (upd = true → s'.upstream_devices_addresses = s.upstream_devices_addresses)
      ∧ (∀ a ∈ s.upstream_devices_addresses, a ≠ DLB_LOGICAL_ADDR_UNKNOWN →
          a ∈ s'.upstream_devices_addresses) := by
  obtain ⟨s', h1, h2, h3, h4⟩ :=
    received_identity_frames fuel now s m upd merge h hg ⟨hi, hs⟩ hm hnb
  refine ⟨s', _, h1, rfl, h2, fun a => ?_, fun U hU hc => ?_, h3, h4⟩
  · rw [wire_report_lip_support]
    cases upd <;> simp only [Bool.false_eq_true, if_false, if_true, Nat.mod_mod, Nat.zero_mod]
  · rw [h2, List.drop_left,
      frames_to_peer _ (fun a => dlb_lip_build_report_lip_support_cmd_destination _ _ _ _ _ _)
        _ U hU, hc]
    rfl

theorem uuid_propagation_witness :
    S7_hub.state = LIP_SUPPORTED
      ∧ S7_hub.upstream_devices_addresses
          = [1, -1, -1, -1, -1, -1, -1, -1, -1, -1, -1, -1, -1, -1, -1, -1]
      ∧ S7_hub.config_params.uuid = 0x12340000
      ∧ report_uuid S4_update = 0xABCD0002
      ∧ ∃ s', lip_cec_cmd_received 1 50 S7_hub S4_update = some (s', 1)
          ∧ (s'.tx.drop S7_hub.tx.length).map wire
              = [(5, 1, 0xA0, [0, 0xD0, 0x46, 0x18, 0, 0x12, 0x34, 0, 2])] := by
  refine ⟨by decide, by decide, by decide, by decide, ?_⟩
  obtain ⟨s', uuid, h1, h2, h3, h4, -, h6, -⟩ :=
    uuid_propagation 0 50 S7_hub S4_update true
      (fun a b => (a &&& 0xFFFF0000) ||| (b &&& 0xFFFF)) (by decide) (by decide) (by decide)
      (by decide) rfl (fun _ => by decide)
  have hu : uuid = 0x12340002 := by rw [h2]; decide
  subst hu
  refine ⟨s', h1, ?_⟩
  rw [h3, List.drop_left, h6 rfl, List.map_map]
  decide

/-! ## C19 -/

set_option maxRecDepth 1000000 in
/-- C19, failing input: the reachable core `S1_full` is in state SUPPORTED with own
address 5; its upstream array has no free entry and does not hold address 0.
REQUEST_LIP_SUPPORT from address 0 is answered with one REPORT_LIP_SUPPORT frame to
address 0 (version 0, the own uuid 0x12340000), but the upstream array is unchanged:
address 0 is not an upstream device afterwards. -/
theorem S1_full_array_drops_peer :
    Reachable S1_full
      ∧ S1_full.state = LIP_SUPPORTED
      ∧ S1_full.cec_bus.logical_address = 5
      ∧ S1_full.upstream_devices_addresses
          = [1, 1, 1, 1, 2, 3, 4, 6, 7, 8, 9, 10, 11, 12, 13, 14]
      ∧ (lip_cec_cmd_received 1 60 S1_full (request_lip_support_frame 0 5)).map (fun r => r.2)
          = some 1
      ∧ sent_by S1_full (lip_cec_cmd_received 1 60 S1_full (request_lip_support_frame 0 5))
          = some [(5, 0, 0xA0, [0, 0xD0, 0x46, 0x11, 0, 0x12, 0x34, 0, 0])]
      ∧ (core_of (lip_cec_cmd_received 1 60 S1_full (request_lip_support_frame 0 5))
            S1_full).upstream_devices_addresses
          = [1, 1, 1, 1, 2, 3, 4, 6, 7, 8, 9, 10, 11, 12, 13, 14]
      ∧ (0 : Int) ∉ (core_of (lip_cec_cmd_received 1 60 S1_full (request_lip_support_frame 0 5))
            S1_full).upstream_devices_addresses :=
  ⟨S1_full_reachable, by decide, by decide, by decide, by decide, by decide, by decide,
    by decide⟩

/-- C19: REQUEST_LIP_SUPPORT in state SUPPORTED.  For a node in state SUPPORTED whose
merge callback is `merge`, a REQUEST_LIP_SUPPORT addressed to it from a peer `u` is
consumed (return value 1) and exactly one frame is transmitted: REPORT_LIP_SUPPORT from
the node to `u` with version 0 whose uuid is `merge own_uuid downstream_uuid` when a
downstream uuid is known (it is not 0xFFFFFFFF) and the own uuid otherwise.  No
pending slot changes, the upstream array is the one `lip_add_upstream_device` leaves, it
keeps every peer it held, and it holds `u` provided an entry was free or held `u`
already. -/
theorem request_lip_support_in_supported (fuel now : Nat) (s : dlb_lip) (m : dlb_cec_message)
    (merge : Nat → Nat → Nat)
    (h : addressed_to s m LIP_OPCODE_REQUEST_LIP_SUPPORT) (hst : s.state = LIP_SUPPORTED)
    (hm : s.callbacks.merge_uuid_callback = some merge) :
    ∃ s', lip_cec_cmd_received (fuel + 1) now s m = some (s', 1)
      ∧ s'.tx = s.tx ++ [dlb_lip_build_report_lip_support_cmd empty_msg
            s.cec_bus.logical_address m.initiator 0 (lip_get_uuid s) false]
      ∧ lip_get_uuid s
          = (if s.downstream_device_cfg.uuid ≠ 0xFFFFFFFF then
              merge s.config_params.uuid s.downstream_device_cfg.uuid % 2 ^ 32
            else s.config_params.uuid)
      ∧ wire (dlb_lip_build_report_lip_support_cmd empty_msg s.cec_bus.logical_address
            m.initiator 0 (lip_get_uuid s) false)
          = (s.cec_bus.logical_address, m.initiator, DLB_CEC_OPCODE_VENDOR_COMMAND_WITH_ID,
              [0x00, 0xD0, 0x46, LIP_OPCODE_REPORT_LIP_SUPPORT, 0,
                (lip_get_uuid s / 2 ^ 24) % 256, (lip_get_uuid s / 2 ^ 16) % 256,
                (lip_get_uuid s / 2 ^ 8) % 256, lip_get_uuid s % 256])
      ∧ s'.pending_requests = s.pending_requests
      ∧ s'.state = LIP_SUPPORTED
      ∧ s'.upstream_devices_addresses
          = upstream_add s.upstream_devices_addresses m.initiator
      ∧ (∀ a ∈ s.upstream_devices_addresses, a ≠ DLB_LOGICAL_ADDR_UNKNOWN →
          a ∈ s'.upstream_devices_addresses)
      ∧ ((∃ x ∈ s.upstream_devices_addresses, x = DLB_LOGICAL_ADDR_UNKNOWN ∨ x = m.initiator) →
          m.initiator ∈ s'.upstream_devices_addresses) := by
  refine ⟨_, received_request_lip_support_supported fuel now s m h hst, ?_, ?_, ?_, ?_, ?_,
    ?_, ?_, ?_⟩
  · simp only [transmit_responses_tx, lip_status_change_callback_tx, lip_add_upstream_device_tx]
  · exact lip_get_uuid_eq s merge hm
  · rw [wire_report_lip_support]
    simp only [Bool.false_eq_true, if_false, Nat.mod_mod, Nat.zero_mod]
  · simp only [transmit_responses_pending_requests, lip_status_change_callback_pending_requests,
      lip_add_upstream_device_pending_requests]
  · simp only [transmit_responses_state, lip_status_change_callback_state,
      lip_add_upstream_device_state, hst]
  · simp only [transmit_responses_upstream_devices_addresses,
      lip_status_change_callback_upstream_devices_addresses]
    rfl
  · intro a ha hne
    simp only [transmit_responses_upstream_devices_addresses,
      lip_status_change_callback_upstream_devices_addresses]
    exact upstream_add_keeps _ _ a hne ha
  · intro hroom
    simp only [transmit_responses_upstream_devices_addresses,
      lip_status_change_callback_upstream_devices_addresses]
    exact upstream_add_mem _ _ hroom

theorem request_lip_support_in_supported_witness :
    S1_supported.state = LIP_SUPPORTED
      ∧ S1_supported.downstream_device_cfg.uuid = 0xFFFFFFFF
      ∧ S1_supported.config_params.uuid = 0x12340000
      ∧ ∃ s', lip_cec_cmd_received 1 40 S1_supported (request_lip_support_frame 4 5)
            = some (s', 1)
          ∧ s'.tx.map wire = S1_supported.tx.map wire
              ++ [(5, 4, 0xA0, [0, 0xD0, 0x46, 0x11, 0, 0x12, 0x34, 0, 0])]
          ∧ (4 : Int) ∈ s'.upstream_devices_addresses := by
  refine ⟨by decide, by decide, by decide, ?_⟩
  obtain ⟨s', h1, h2, h3, h4, -, -, -, -, h9⟩ :=
    request_lip_support_in_supported 0 40 S1_supported (request_lip_support_frame 4 5)
      (fun a _ => a) (by decide) (by decide) rfl
  refine ⟨s', h1, ?_, h9 (by decide)⟩
  rw [h2, List.map_append, List.map_cons, List.map_nil, h4, h3]
  decide

/-! ## C20 -/

/-- C20: minimum length enforcement.  `lip_get_command_min_length` returns 4, 9, 7, 6,
5, 5, 6, 5, 9 for the LIP opcodes 0x10..0x18.  For every vendor command with a known
LIP opcode `op` that is addressed to this node (destination the own address, neither end
the broadcast address) and is shorter than the minimum of `op`, in every discovery
state, `lip_cec_cmd_received` hands exactly one frame to the bus, Feature
Abort(VENDOR_COMMAND_WITH_ID, INVALID_OPERAND) to the initiator, and returns 1; the core
afterwards is the core before with that one transmit recorded, so no opcode handler has
run and the discovery state, the downstream identity and cache, the pending table and
the upstream array are unchanged. -/
theorem min_length_enforced (fuel now : Nat) (s : dlb_lip) (m : dlb_cec_message) (op : Nat)
    (hop : m.opcode = DLB_CEC_OPCODE_VENDOR_COMMAND_WITH_ID)
    (hl : lip_get_command_opcode m = op) (hk : op ≠ LIP_OPCODES)
    (hd : m.destination = s.cec_bus.logical_address)
    (hb : m.destination ≠ DLB_LOGICAL_ADDR_BROADCAST)
    (hi : m.initiator ≠ DLB_LOGICAL_ADDR_BROADCAST)
    (hlen : m.msg_length < lip_get_command_min_length op) :
    (List.map lip_get_command_min_length [0x10, 0x11, 0x12, 0x13, 0x14, 0x15, 0x16, 0x17, 0x18]
        = [4, 9, 7, 6, 5, 5, 6, 5, 9])
      ∧ ∃ s', lip_cec_cmd_received (fuel + 1) now s m = some (s', 1)
        ∧ s' = (lip_transmit_wrapper s
            (abort_frame s m DLB_CEC_ABORT_REASON_INVALID_OPERAND)).1
        ∧ s'.tx = s.tx ++ [lip_build_abort_cec_command empty_msg s.cec_bus.logical_address
              m.initiator DLB_CEC_OPCODE_VENDOR_COMMAND_WITH_ID
              DLB_CEC_ABORT_REASON_INVALID_OPERAND]
        ∧ s'.state = s.state ∧ s'.downstream_device_cfg = s.downstream_device_cfg
        ∧ s'.pending_requests = s.pending_requests
        ∧ s'.upstream_devices_addresses = s.upstream_devices_addresses
        ∧ s'.config_params = s.config_params := by
  refine ⟨by decide, _, ?_, rfl, rfl, rfl, rfl, rfl, rfl, rfl⟩
  have hv := vendor_id_of_known_opcode m (by rw [hl]; exact hk)
  show lip_cec_cmd_received_body (lip_cec_cmd_received fuel now) now s m = _
  unfold lip_cec_cmd_received_body lip_cec_cmd_dispatch
  lift_lets
  intro own lip_opcode
  have hl' : lip_opcode = op := hl
  clear_value lip_opcode
  subst hl'
  rw [if_neg (by rw [hop]; decide), if_pos hop, if_pos hv, if_neg hk,
    if_neg (by intro h; rcases h with h | h; exact hb h; exact hi h),
    if_neg (by intro h; exact h hd), if_pos hlen]
  rfl

theorem min_length_enforced_witness :
    (frame 1 5 [0, 0xD0, 0x46, 0x12, 4]).msg_length = 5
      ∧ lip_get_command_min_length 0x12 = 7
      ∧ ∃ s', lip_cec_cmd_received 1 20 S2_supported (frame 1 5 [0, 0xD0, 0x46, 0x12, 4])
            = some (s', 1)
        ∧ s'.tx = S2_supported.tx ++ [lip_build_abort_cec_command empty_msg 5 1
              DLB_CEC_OPCODE_VENDOR_COMMAND_WITH_ID DLB_CEC_ABORT_REASON_INVALID_OPERAND]
        ∧ s'.state = S2_supported.state := by
  refine ⟨by decide, by decide, ?_⟩
  obtain ⟨-, s', h1, -, h3, h4, -⟩ :=
    min_length_enforced 0 20 S2_supported (frame 1 5 [0, 0xD0, 0x46, 0x12, 4]) 0x12
      (by decide) (by decide) (by decide) (by decide) (by decide) (by decide) (by decide)
  exact ⟨s', h1, h3, h4⟩

/-! ## C21 -/

/-- C21: unknown LIP opcode.  For every VENDOR_COMMAND_WITH_ID frame that carries the
vendor tag 00 D0 46 (so it is at least 3 bytes long) and whose opcode byte, payload byte
3, is not one of 0x10..0x18 (or is missing because the frame is 3 bytes long), whatever
its destination, in every discovery state, `lip_cec_cmd_received` hands exactly one frame
to the bus, Feature Abort(VENDOR_COMMAND_WITH_ID, UNRECOGNIZED_OPCODE) from the own
address to the initiator of the frame, and returns 1 (consumed); the core afterwards is
the core before with that one transmit recorded. -/
theorem unknown_lip_opcode (fuel now : Nat) (s : dlb_lip) (m : dlb_cec_message)
    (hop : m.opcode = DLB_CEC_OPCODE_VENDOR_COMMAND_WITH_ID)
    (hlen : 3 ≤ m.msg_length)
    (htag : m.byte 0 = 0x00 ∧ m.byte 1 = 0xD0 ∧ m.byte 2 = 0x46)
    (hb : m.msg_length < 4 ∨ ¬ (0x10 ≤ m.byte 3 ∧ m.byte 3 ≤ 0x18)) :
    ∃ s', lip_cec_cmd_received (fuel + 1) now s m = some (s', 1)
      ∧ s' = (lip_transmit_wrapper s
          (abort_frame s m DLB_CEC_ABORT_REASON_UNRECOGNIZED_OPCODE)).1
      ∧ s'.tx = s.tx ++ [abort_frame s m DLB_CEC_ABORT_REASON_UNRECOGNIZED_OPCODE]
      ∧ wire (abort_frame s m DLB_CEC_ABORT_REASON_UNRECOGNIZED_OPCODE)
          = (s.cec_bus.logical_address, m.initiator, DLB_CEC_OPCODE_FEATURE_ABORT,
              [DLB_CEC_OPCODE_VENDOR_COMMAND_WITH_ID, DLB_CEC_ABORT_REASON_UNRECOGNIZED_OPCODE])
      ∧ s'.state = s.state ∧ s'.downstream_device_cfg = s.downstream_device_cfg
      ∧ s'.pending_requests = s.pending_requests
      ∧ s'.upstream_devices_addresses = s.upstream_devices_addresses :=
  ⟨_, received_unknown_opcode fuel now s m hop
      ((vendor_id_iff m).2 ⟨hlen, htag.1, htag.2.1, htag.2.2⟩) (opcode_unknown_of_byte m hb),
    rfl, rfl, rfl, rfl, rfl, rfl, rfl⟩

theorem unknown_lip_opcode_witness :
    ∃ s', lip_cec_cmd_received 1 20 S2_supported (frame 1 15 [0, 0xD0, 0x46, 0x19, 4]) = some (s', 1)
      ∧ s'.tx = S2_supported.tx
          ++ [abort_frame S2_supported (frame 1 15 [0, 0xD0, 0x46, 0x19, 4])
                DLB_CEC_ABORT_REASON_UNRECOGNIZED_OPCODE] := by
  obtain ⟨s', h1, -, h3, -⟩ :=
    unknown_lip_opcode 0 20 S2_supported (frame 1 15 [0, 0xD0, 0x46, 0x19, 4])
      (by decide) (by decide) (by decide) (Or.inr (by decide))
  exact ⟨s', h1, h3⟩

/-! ## C22 -/

/-- C22, counterexample: the reachable core `S2_supported` has the own address 5.  The
frame REQUEST_LIP_SUPPORT from address 1 to the broadcast address 15, the same frame from
address 15 to address 5, and the same frame from address 1 to address 4 are consumed
(the call returns 1) and the core is unchanged, but no frame is transmitted: there is no
Feature Abort in reply. -/
theorem no_abort_for_misaddressed_counterexample :
    Reachable S2_supported
      ∧ S2_supported.cec_bus.logical_address = 5
      ∧ lip_get_command_opcode (frame 1 15 [0, 0xD0, 0x46, 0x10]) = LIP_OPCODE_REQUEST_LIP_SUPPORT
      ∧ (lip_cec_cmd_received 2 20 S2_supported (frame 1 15 [0, 0xD0, 0x46, 0x10])).map
          (fun r => r.2) = some 1
      ∧ sent_by S2_supported
          (lip_cec_cmd_received 2 20 S2_supported (frame 1 15 [0, 0xD0, 0x46, 0x10])) = some []
      ∧ (lip_cec_cmd_received 2 20 S2_supported (frame 15 5 [0, 0xD0, 0x46, 0x10])).map
          (fun r => r.2) = some 1
      ∧ sent_by S2_supported
          (lip_cec_cmd_received 2 20 S2_supported (frame 15 5 [0, 0xD0, 0x46, 0x10])) = some []
      ∧ (lip_cec_cmd_received 2 20 S2_supported (frame 1 4 [0, 0xD0, 0x46, 0x10])).map
          (fun r => r.2) = some 1
      ∧ sent_by S2_supported
          (lip_cec_cmd_received 2 20 S2_supported (frame 1 4 [0, 0xD0, 0x46, 0x10])) = some [] :=
  ⟨S2_supported_reachable, by decide, by decide, by decide, by decide, by decide, by decide,
    by decide, by decide⟩

/-- C22, amended: wrong destination and broadcast misuse.  For every LIP frame with a
known opcode whose destination is BROADCAST, whose initiator is BROADCAST, or whose
destination differs from the own logical address of the node, in every discovery state,
`lip_cec_cmd_received` returns 1 (the message is consumed) with the core unchanged: no
handler runs and nothing is transmitted, so the transmit log is the one before. -/
theorem misaddressed_frame_dropped (fuel now : Nat) (s : dlb_lip) (m : dlb_cec_message)
    (hop : m.opcode = DLB_CEC_OPCODE_VENDOR_COMMAND_WITH_ID)
    (hk : lip_get_command_opcode m ≠ LIP_OPCODES)
    (hd : m.destination = DLB_LOGICAL_ADDR_BROADCAST ∨ m.initiator = DLB_LOGICAL_ADDR_BROADCAST
      ∨ m.destination ≠ s.cec_bus.logical_address) :
    lip_cec_cmd_received (fuel + 1) now s m = some (s, 1)
      ∧ sent_by s (lip_cec_cmd_received (fuel + 1) now s m) = some [] := by
  have h := received_dropped fuel now s m hop hk hd
  refine ⟨h, ?_⟩
  rw [h]
  simp [sent_by]

theorem misaddressed_frame_dropped_witness :
    lip_cec_cmd_received 1 20 S2_supported (frame 1 15 [0, 0xD0, 0x46, 0x12, 4, 0, 1])
      = some (S2_supported, 1) :=
  (misaddressed_frame_dropped 0 20 S2_supported (frame 1 15 [0, 0xD0, 0x46, 0x12, 4, 0, 1])
    (by decide) (by decide) (Or.inl (by decide))).1

/-! ## C23 -/

/-- C23: format validation.  Let the node be in state SUPPORTED and let `m` be a
REQUEST_AV_LATENCY, REQUEST_AUDIO_LATENCY or REQUEST_VIDEO_LATENCY of sufficient length
that is addressed to it.  If a format that `m` carries is invalid in the words of the
specification (a video format with `vic >= 219` or an hdr byte outside 0..3, 64..67,
128..129; an audio format whose decoded codec or ext is `>= 32`), the call returns 1 and
hands exactly one frame to the bus, Feature Abort(VENDOR_COMMAND_WITH_ID,
INVALID_OPERAND) from the own address to the initiator; the core afterwards is the core
before with that one transmit recorded, so the pending table, the remembered requested
formats and the downstream configuration with the cache are unchanged.  If no format
that `m` carries is invalid, the call returns 1 and no frame that it hands to the bus is
a Feature Abort. -/
theorem format_validation (fuel now : Nat) (s : dlb_lip) (m : dlb_cec_message) (op : Nat)
    (hst : s.state = LIP_SUPPORTED) (h : addressed_to s m op)
    (hop : is_latency_request_opcode op) :
    (spec_request_format_invalid op m →
      ∃ s', lip_cec_cmd_received (fuel + 1) now s m = some (s', 1)
        ∧ s' = (lip_transmit_wrapper s
            (abort_frame s m DLB_CEC_ABORT_REASON_INVALID_OPERAND)).1
        ∧ s'.tx = s.tx ++ [abort_frame s m DLB_CEC_ABORT_REASON_INVALID_OPERAND]
        ∧ wire (abort_frame s m DLB_CEC_ABORT_REASON_INVALID_OPERAND)
            = (s.cec_bus.logical_address, m.initiator, DLB_CEC_OPCODE_FEATURE_ABORT,
                [DLB_CEC_OPCODE_VENDOR_COMMAND_WITH_ID, DLB_CEC_ABORT_REASON_INVALID_OPERAND])
        ∧ s'.pending_requests = s.pending_requests
        ∧ s'.req_video_format = s.req_video_format
        ∧ s'.req_audio_format = s.req_audio_format
        ∧ s'.downstream_device_cfg = s.downstream_device_cfg)
    ∧ (¬ spec_request_format_invalid op m →
      ∃ s' fs, lip_cec_cmd_received (fuel + 1) now s m = some (s', 1)
        ∧ s'.tx = s.tx ++ fs
        ∧ ∀ f ∈ fs, f.opcode ≠ DLB_CEC_OPCODE_FEATURE_ABORT) := by
  have hnv : ∀ k, lip_is_audio_format_valid (decode_audio_format m k) = false ↔
      ((decode_audio_format m k).codec ≥ 32 ∨ (decode_audio_format m k).ext ≥ 32) := by
    intro k
    rw [← Bool.not_eq_true, decode_audio_valid_iff]
    omega
  have hnw : lip_is_video_format_valid (decode_video_format m) = false ↔
      (m.byte 4 ≥ 219 ∨ m.byte 5 ∉ [0, 1, 2, 3, 64, 65, 66, 67, 128, 129]) := by
    rw [← Bool.not_eq_true, decode_video_valid_iff, not_and_or]
    constructor
    · rintro (h1 | h1)
      · exact Or.inl (by omega)
      · exact Or.inr h1
    · rintro (h1 | h1)
      · exact Or.inl (by omega)
      · exact Or.inr h1
  rcases hop with e | e | e <;> subst e
  · -- REQUEST_AV_LATENCY
    have hr := received_request_av fuel now s m h hst
    have hiff : spec_request_format_invalid LIP_OPCODE_REQUEST_AV_LATENCY m ↔
        (lip_is_audio_format_valid (decode_audio_format m 6) = false
          ∨ lip_is_video_format_valid (decode_video_format m) = false) := by
      unfold spec_request_format_invalid
      rw [hnv 6, hnw]
      constructor
      · rintro (⟨-, h1⟩ | ⟨-, h1⟩ | ⟨h0, -⟩)
        · exact Or.inr h1
        · exact Or.inl h1
        · exact absurd h0 (by decide)
      · rintro (h1 | h1)
        · exact Or.inr (Or.inl ⟨rfl, h1⟩)
        · exact Or.inl ⟨Or.inl rfl, h1⟩
    constructor
    · intro hi
      rw [request_av_invalid now s m [] false (hiff.1 hi)] at hr
      exact ⟨_, hr, rfl, rfl, rfl, rfl, rfl, rfl, rfl⟩
    · intro hi
      rw [hiff, not_or, Bool.not_eq_false, Bool.not_eq_false] at hi
      obtain ⟨fs, h1, h2⟩ := finish_received_frames s
        (lip_handle_request_av_latency now s m [] false)
        (request_av_effect now s m [] false).2.2.1
        (request_av_valid_frames now s m false hi.1 hi.2)
      exact ⟨_, fs, hr, h1, h2⟩
  · -- REQUEST_AUDIO_LATENCY
    have hr := received_request_audio fuel now s m h hst
    have hiff : spec_request_format_invalid LIP_OPCODE_REQUEST_AUDIO_LATENCY m ↔
        lip_is_audio_format_valid (decode_audio_format m 4) = false := by
      unfold spec_request_format_invalid
      rw [hnv 4]
      constructor
      · rintro (⟨h0, -⟩ | ⟨h0, -⟩ | ⟨-, h1⟩)
        · rcases h0 with h0 | h0 <;> exact absurd h0 (by decide)
        · exact absurd h0 (by decide)
        · exact h1
      · intro h1
        exact Or.inr (Or.inr ⟨rfl, h1⟩)
    constructor
    · intro hi
      rw [request_audio_invalid now s m [] false (hiff.1 hi)] at hr
      exact ⟨_, hr, rfl, rfl, rfl, rfl, rfl, rfl, rfl⟩
    · intro hi
      rw [hiff, Bool.not_eq_false] at hi
      obtain ⟨fs, h1, h2⟩ := finish_received_frames s
        (lip_handle_request_audio_latency now s m [] false)
        (request_audio_effect now s m [] false).2.2.1
        (request_audio_valid_frames now s m false hi)
      exact ⟨_, fs, hr, h1, h2⟩
  · -- REQUEST_VIDEO_LATENCY
    have hr := received_request_video fuel now s m h hst
    have hiff : spec_request_format_invalid LIP_OPCODE_REQUEST_VIDEO_LATENCY m ↔
        lip_is_video_format_valid (decode_video_format m) = false := by
      unfold spec_request_format_invalid
      rw [hnw]
      constructor
      · rintro (⟨-, h1⟩ | ⟨h0, -⟩ | ⟨h0, -⟩)
        · exact h1
        · exact absurd h0 (by decide)
        · exact absurd h0 (by decide)
      · intro h1
        exact Or.inl ⟨Or.inr rfl, h1⟩
    constructor
    · intro hi
      rw [request_video_invalid now s m [] false (hiff.1 hi)] at hr
      exact ⟨_, hr, rfl, rfl, rfl, rfl, rfl, rfl, rfl⟩
    · intro hi
      rw [hiff, Bool.not_eq_false] at hi
      obtain ⟨fs, h1, h2⟩ := finish_received_frames s
        (lip_handle_request_video_latency now s m [] false)
        (request_video_effect now s m [] false).2.2.1
        (request_video_valid_frames now s m false hi)
      exact ⟨_, fs, hr, h1, h2⟩

theorem format_validation_witness :
    ∃ s', lip_cec_cmd_received 1 20 S2_supported (frame 1 5 [0, 0xD0, 0x46, 0x12, 4, 4, 1])
        = some (s', 1)
      ∧ s'.tx = S2_supported.tx
          ++ [abort_frame S2_supported (frame 1 5 [0, 0xD0, 0x46, 0x12, 4, 4, 1])
                DLB_CEC_ABORT_REASON_INVALID_OPERAND]
      ∧ s'.pending_requests = S2_supported.pending_requests := by
  obtain ⟨s', h1, -, h3, -, h5, -⟩ :=
    (format_validation 0 20 S2_supported (frame 1 5 [0, 0xD0, 0x46, 0x12, 4, 4, 1])
      LIP_OPCODE_REQUEST_AV_LATENCY (by decide) (by decide) (Or.inl rfl)).1 (by decide)
  exact ⟨s', h1, h3, h5⟩

/-! ## C24 -/

/-- C24: non-LIP frames are not consumed.  For every frame whose CEC opcode is neither
FEATURE_ABORT nor VENDOR_COMMAND_WITH_ID, and for every VENDOR_COMMAND_WITH_ID frame that
is shorter than 3 bytes or whose first three payload bytes are not 00 D0 46, in every
core, the receive callback `dlb_lip_cec_cmd_received` returns 0 and the core afterwards
is the core before: nothing is transmitted and no field has changed. -/
theorem non_lip_frame_not_consumed (fuel now : Nat) (s : dlb_lip) (m : dlb_cec_message)
    (h : (m.opcode ≠ DLB_CEC_OPCODE_FEATURE_ABORT
        ∧ m.opcode ≠ DLB_CEC_OPCODE_VENDOR_COMMAND_WITH_ID)
      ∨ (m.opcode = DLB_CEC_OPCODE_VENDOR_COMMAND_WITH_ID
        ∧ (m.msg_length < 3 ∨ ¬ (m.byte 0 = 0x00 ∧ m.byte 1 = 0xD0 ∧ m.byte 2 = 0x46)))) :
    dlb_lip_cec_cmd_received (fuel + 1) now s m = some (s, 0)
      ∧ sent_by s (dlb_lip_cec_cmd_received (fuel + 1) now s m) = some [] := by
  have h2 : dlb_lip_cec_cmd_received (fuel + 1) now s m = some (s, 0) := by
    refine received_not_lip fuel now s m ?_
    rcases h with h | ⟨h1, h3⟩
    · exact Or.inl h
    · refine Or.inr ⟨h1, ?_⟩
      rw [← Bool.not_eq_true, vendor_id_iff]
      rintro ⟨a, b, c, d⟩
      rcases h3 with h3 | h3
      · omega
      · exact h3 ⟨b, c, d⟩
  refine ⟨h2, ?_⟩
  rw [h2]
  simp [sent_by]

theorem non_lip_frame_not_consumed_witness :
    dlb_lip_cec_cmd_received 1 20 S2_supported
        { frame 1 5 [0, 0xD0, 0x47, 0x10] with opcode := DLB_CEC_OPCODE_VENDOR_COMMAND_WITH_ID }
      = some (S2_supported, 0) :=
  (non_lip_frame_not_consumed 0 20 S2_supported
    { frame 1 5 [0, 0xD0, 0x47, 0x10] with opcode := DLB_CEC_OPCODE_VENDOR_COMMAND_WITH_ID }
    (Or.inr ⟨by decide, Or.inr (by decide)⟩)).1

/-! ## C25 -/

/-- C26, counterexample: the reachable core `S2_answered` is in state SUPPORTED with the
downstream device 0, and its cache holds the video latency 30 for vic 4 / SDR and no
audio latency for EAC3.  `dlb_lip_get_av_latency` for (vic 4 / SDR, EAC3) finds the video
latency and misses the audio latency, sends REQUEST_AUDIO_LATENCY(EAC3) to address 0 and
waits; the downstream device answers with Feature Abort, or does not answer at all.  In
both runs the call returns 1 and the cells hold the video latency 30 and the audio
latency 255: a latency value returned with a non-zero result is not the invalid
marker. -/
theorem av_query_failure_counterexample :
    Reachable S2_answered
      ∧ S2_answered.state = LIP_SUPPORTED
      ∧ S2_answered.downstream_device_cfg.logical_addr = 0
      ∧ lip_is_video_format_valid ⟨4, 0, 0⟩ = true
      ∧ lip_is_audio_format_valid ⟨IEC61937_EAC3, 0, 0⟩ = true
      ∧ wire downstream_abort = (0, 5, DLB_CEC_OPCODE_FEATURE_ABORT, [0xA0, 4])
      ∧ (dlb_lip_get_av_latency 3 (fun _ => 40) abort_while_waiting S2_answered ⟨4, 0, 0⟩
            ⟨IEC61937_EAC3, 0, 0⟩ 0 0).map (fun r => r.2) = some (1, 30, 255)
      ∧ (dlb_lip_get_av_latency 3 (fun _ => 40) abort_while_waiting S2_answered ⟨4, 0, 0⟩
            ⟨IEC61937_EAC3, 0, 0⟩ 0 0).map (fun r => (r.1.tx.drop S2_answered.tx.length).map wire)
          = some [(5, 0, 0xA0, [0, 0xD0, 0x46, LIP_OPCODE_REQUEST_AUDIO_LATENCY, IEC61937_EAC3])]
      ∧ (dlb_lip_get_av_latency 3 (fun _ => 40) (fun _ c => c) S2_answered ⟨4, 0, 0⟩
            ⟨IEC61937_EAC3, 0, 0⟩ 0 0).map (fun r => r.2) = some (1, 30, 255) :=
  ⟨S2_answered_reachable, by decide, by decide, by decide, by decide, by decide, by decide,
    by decide, by decide⟩

/-- C26, what holds of the failure result of the public latency queries.  For valid
formats and non-null output pointers, for every behaviour `env` of the other threads
while the caller waits: whenever `dlb_lip_get_video_latency` or
`dlb_lip_get_audio_latency` returns non-zero, the latency it returned is the invalid
marker 255; whenever `dlb_lip_get_av_latency` returns non-zero, at least one of the two
latencies it returned is 255 (the other one may be the cached latency of the dimension
that was found).  With the downstream address unknown each of the three calls returns 1
with 255 in every output cell and with the core unchanged, so without transmitting and
without changing the pending table. -/
theorem public_query_failure_result (fuel : Nat) (clock : Nat → Nat)
    (env : Nat → dlb_lip → dlb_lip) (s : dlb_lip) (vf : dlb_lip_video_format)
    (af : dlb_lip_audio_format) (x y : Nat)
    (hv : lip_is_video_format_valid vf = true) (ha : lip_is_audio_format_valid af = true) :
    (∀ r, dlb_lip_get_video_latency fuel clock env s vf x = some r → r.2.1 ≠ 0 →
        r.2.2 = LIP_INVALID_LATENCY)
    ∧ (∀ r, dlb_lip_get_audio_latency fuel clock env s af y = some r → r.2.1 ≠ 0 →
        r.2.2 = LIP_INVALID_LATENCY)
    ∧ (∀ r, dlb_lip_get_av_latency fuel clock env s vf af x y = some r → r.2.1 ≠ 0 →
        r.2.2.1 = LIP_INVALID_LATENCY ∨ r.2.2.2 = LIP_INVALID_LATENCY)
    ∧ (s.downstream_device_cfg.logical_addr = DLB_LOGICAL_ADDR_UNKNOWN →
        dlb_lip_get_video_latency fuel clock env s vf x = some (s, 1, LIP_INVALID_LATENCY)
        ∧ dlb_lip_get_audio_latency fuel clock env s af y = some (s, 1, LIP_INVALID_LATENCY)
        ∧ dlb_lip_get_av_latency fuel clock env s vf af x y
            = some (s, 1, LIP_INVALID_LATENCY, LIP_INVALID_LATENCY)) := by
  refine ⟨?_, ?_, ?_, ?_⟩
  · intro r h hr
    unfold dlb_lip_get_video_latency dlb_lip_get_video_latency_entry at h
    simp only [if_pos hv] at h
    split_ifs at h with hd
    · obtain ⟨q, hq, rfl⟩ := Option.map_eq_some'.1 h
      exact query_loop_last _ env
        (fun q => q.ret ≠ 0 → q.video_latency = LIP_INVALID_LATENCY)
        (fun k c => get_video_latency_round_fail (clock k) c vf) fuel 0 s q hq hr
    · simp only [Option.some.injEq] at h
      rw [← h]
  · intro r h hr
    unfold dlb_lip_get_audio_latency dlb_lip_get_audio_latency_entry at h
    simp only [if_pos ha] at h
    split_ifs at h with hd
    · obtain ⟨q, hq, rfl⟩ := Option.map_eq_some'.1 h
      exact query_loop_last _ env
        (fun q => q.ret ≠ 0 → q.audio_latency = LIP_INVALID_LATENCY)
        (fun k c => get_audio_latency_round_fail (clock k) c af) fuel 0 s q hq hr
    · simp only [Option.some.injEq] at h
      rw [← h]
  · intro r h hr
    unfold dlb_lip_get_av_latency dlb_lip_get_av_latency_entry at h
    simp only [if_pos (show lip_is_audio_format_valid af = true
      ∧ lip_is_video_format_valid vf = true from ⟨ha, hv⟩)] at h
    split_ifs at h with hd
    · obtain ⟨q, hq, rfl⟩ := Option.map_eq_some'.1 h
      exact query_loop_last _ env
        (fun q => q.ret ≠ 0 → q.video_latency = LIP_INVALID_LATENCY
          ∨ q.audio_latency = LIP_INVALID_LATENCY)
        (fun k c => get_av_latency_round_fail (clock k) c vf af) fuel 0 s q hq hr
    · simp only [Option.some.injEq] at h
      rw [← h]
      exact Or.inl rfl
  · intro hd
    refine ⟨?_, ?_, ?_⟩
    · unfold dlb_lip_get_video_latency dlb_lip_get_video_latency_entry
      simp [hv, hd]
    · unfold dlb_lip_get_audio_latency dlb_lip_get_audio_latency_entry
      simp [ha, hd]
    · unfold dlb_lip_get_av_latency dlb_lip_get_av_latency_entry
      simp [hv, ha, hd]

theorem public_query_failure_result_witness :
    (dlb_lip_get_video_latency 3 (fun _ => 40) abort_while_waiting S2_answered ⟨5, 0, 0⟩ 0).map
        (fun r => r.2) = some (1, 255)
      ∧ dlb_lip_get_av_latency 3 (fun _ => 40) abort_while_waiting S1_supported ⟨4, 0, 0⟩
          ⟨1, 0, 0⟩ 7 9 = some (S1_supported, 1, 255, 255) := by
  have h := public_query_failure_result 3 (fun _ => 40) abort_while_waiting S1_supported
    ⟨4, 0, 0⟩ ⟨1, 0, 0⟩ 7 9 (by decide) (by decide)
  exact ⟨by decide, (h.2.2.2 (by decide)).2.2⟩

/-! ## C27 -/

/-- C27: the latency cache is a map.  For an enabled cache `c`, a valid video format `f`
and a latency `l` in 0..255, `dlb_cache_set_video_latency c f l` returns a cache on which
the lookup of `f` returns found with latency `l`; the lookup of every video format `g`
different from `f` gives exactly what it gave on `c`; every audio lookup is unchanged.
The same holds for `dlb_cache_set_audio_latency` and `dlb_cache_get_audio_latency` with
a valid audio format `a`.  After `dlb_cache_init` every audio lookup, and every video
lookup that returns, reports not found and leaves the output cell as it was; a video
lookup does not return only on an enabled cache for a format with `vic < 219` and
`color_format = LIP_COLOR_FORMAT_COUNT`, where it stops at the assertion of
`dlb_lip_get_hdr_mode_from_video_format` (no valid format is of this kind). -/
theorem latency_cache_is_map (c c0 : dlb_latency_cache) (enabled : Bool)
    (f g x : dlb_lip_video_format) (a b y : dlb_lip_audio_format) (l d : Nat)
    (he : c.cache_enabled = true) (hf : lip_is_video_format_valid f = true)
    (ha : lip_is_audio_format_valid a = true) (hl : l < 256) :
    (∃ c1, dlb_cache_set_video_latency c f l = some c1
      ∧ dlb_cache_get_video_latency c1 f d = some (true, l)
      ∧ (g ≠ f → dlb_cache_get_video_latency c1 g d = dlb_cache_get_video_latency c g d)
      ∧ dlb_cache_get_audio_latency c1 y d = dlb_cache_get_audio_latency c y d)
    ∧ dlb_cache_get_audio_latency (dlb_cache_set_audio_latency c a l) a d = (true, l)
    ∧ (b ≠ a → dlb_cache_get_audio_latency (dlb_cache_set_audio_latency c a l) b d
        = dlb_cache_get_audio_latency c b d)
    ∧ dlb_cache_get_video_latency (dlb_cache_set_audio_latency c a l) x d
        = dlb_cache_get_video_latency c x d
    ∧ dlb_cache_get_video_latency (dlb_cache_init c0 enabled) x d
        = (if enabled = true ∧ x.vic < MAX_VICS ∧ x.color_format = LIP_COLOR_FORMAT_COUNT
            then none else some (false, d))
    ∧ (lip_is_video_format_valid x = true →
        dlb_cache_get_video_latency (dlb_cache_init c0 enabled) x d = some (false, d))
    ∧ dlb_cache_get_audio_latency (dlb_cache_init c0 enabled) y d = (false, d) := by
  have hlm : l % 256 = l := Nat.mod_eq_of_lt hl
  have hen : (dlb_cache_init c0 enabled).cache_enabled = enabled := by
    unfold dlb_cache_init
    rw [cache_clear_enabled]
  refine ⟨⟨_, cache_set_video_valid c f l hf, ?_, ?_, cache_get_audio_set_video c f y l d⟩,
    ?_, cache_get_set_audio_other c a b l d, ?_, ?_, ?_, cache_clear_audio_miss _ true y d⟩
  · rw [cache_get_video_valid _ f d hf,
      cache_get_set_video c f l d he (valid_video_cache_params f hf), hlm]
  · intro hne
    exact cache_get_video_congr_ndebug c _ g d (cache_enabled_set_video c f l)
      (cache_get_set_video_other c f g l d hne)
  · rw [cache_get_set_audio c a l d he (valid_audio_cache_params a ha), hlm]
  · exact cache_get_video_congr_ndebug c _ x d (cache_enabled_set_audio c a l)
      (cache_get_video_set_audio c x a l d)
  · by_cases hx : enabled = true ∧ x.vic < MAX_VICS
        ∧ x.color_format = LIP_COLOR_FORMAT_COUNT
    · rw [if_pos hx]
      exact (cache_get_video_none_iff _ x d).2 ⟨hen.trans hx.1, hx.2⟩
    · rw [if_neg hx, cache_get_video_some _ x d (fun k => hx ⟨hen.symm.trans k.1, k.2⟩)]
      exact congrArg some (cache_clear_video_miss _ true x d)
  · intro hx
    rw [cache_get_video_valid _ x d hx]
    exact congrArg some (cache_clear_video_miss _ true x d)

theorem latency_cache_is_map_witness :
    ∃ c1, dlb_cache_set_video_latency fresh_cache ⟨16, 2, 1⟩ 30 = some c1
      ∧ dlb_cache_get_video_latency c1 ⟨16, 2, 1⟩ 255 = some (true, 30) := by
  obtain ⟨c1, h1, h2, -⟩ := (latency_cache_is_map fresh_cache
    ⟨false, fun _ _ _ => 0, fun _ _ _ => false, fun _ _ _ => 0, fun _ _ _ => false⟩ true
    ⟨16, 2, 1⟩ ⟨4, 0, 0⟩ ⟨4, 0, 0⟩ ⟨1, 0, 0⟩ ⟨21, 0, 0⟩ ⟨21, 0, 0⟩ 30 255
    rfl (by decide) (by decide) (by decide)).1
  exact ⟨c1, h1, h2⟩

/-! ## C28 -/

/-- C28: out-of-range cache accesses.  For every video format with `vic >= 219`, with
`color_format > LIP_COLOR_FORMAT_COUNT`, or with an hdr mode outside the range of its
colour format, `dlb_cache_set_video_latency` returns with the cache unchanged and
`dlb_cache_get_video_latency` returns false and leaves the output cell as it was; the
same holds for `dlb_cache_set_audio_latency` and `dlb_cache_get_audio_latency` on every
audio format with `codec >= 32`, `subtype >= 4` or `ext >= 32`; none of these calls
indexes an array.  Every array access that the getters and setters make for any format
is inside the bounds `[219][3][4]` of the video arrays and `[32][4][32]` of the audio
arrays.  The colour format `LIP_COLOR_FORMAT_COUNT` is different: it passes the test
`color_format <= LIP_COLOR_FORMAT_COUNT` of `dlb_cache_validate_video_params`, so the
setter stops at the assertion of `dlb_lip_get_hdr_mode_from_video_format` exactly when
`vic < 219` and `color_format = LIP_COLOR_FORMAT_COUNT`, and the getter exactly when in
addition the cache is enabled; only in a build with `NDEBUG` are the two calls the
no-ops of the claim. -/
theorem out_of_range_cache_access (c : dlb_latency_cache) (vf wf : dlb_lip_video_format)
    (af bf : dlb_lip_audio_format) (l d : Nat)
    (hv : vf.vic ≥ MAX_VICS ∨ vf.color_format > LIP_COLOR_FORMAT_COUNT
      ∨ (vf.color_format = LIP_COLOR_FORMAT_HDR_STATIC ∧ vf.hdr_mode ≥ LIP_HDR_STATIC_COUNT)
      ∨ (vf.color_format = LIP_COLOR_FORMAT_HDR_DYNAMIC ∧ vf.hdr_mode ≥ LIP_HDR_DYNAMIC_COUNT)
      ∨ (vf.color_format = LIP_COLOR_FORMAT_DOLBY_VISION
          ∧ vf.hdr_mode ≥ LIP_HDR_DOLBY_VISION_COUNT))
    (ha : af.codec ≥ IEC61937_AUDIO_CODECS ∨ af.subtype ≥ IEC61937_SUBTYPES
      ∨ af.ext ≥ MAX_AUDIO_FORMAT_EXTENSIONS) :
    (dlb_cache_set_video_latency c vf l = some c
      ∧ dlb_cache_get_video_latency c vf d = some (false, d)
      ∧ dlb_cache_video_access vf = some none)
    ∧ (dlb_cache_set_audio_latency c af l = c
      ∧ dlb_cache_get_audio_latency c af d = (false, d)
      ∧ dlb_cache_audio_access af = none)
    ∧ (∀ i j k, dlb_cache_video_access wf = some (some (i, j, k)) →
        i < MAX_VICS ∧ j < LIP_COLOR_FORMAT_COUNT ∧ k < HDR_MODES_COUNT)
    ∧ (∀ i j k, dlb_cache_audio_access bf = some (i, j, k) →
        i < IEC61937_AUDIO_CODECS ∧ j < IEC61937_SUBTYPES ∧ k < MAX_AUDIO_FORMAT_EXTENSIONS)
    ∧ (dlb_cache_set_video_latency c wf l = none
        ↔ wf.vic < MAX_VICS ∧ wf.color_format = LIP_COLOR_FORMAT_COUNT)
    ∧ (dlb_cache_get_video_latency c wf d = none
        ↔ c.cache_enabled = true ∧ wf.vic < MAX_VICS
          ∧ wf.color_format = LIP_COLOR_FORMAT_COUNT)
    ∧ (wf.color_format = LIP_COLOR_FORMAT_COUNT →
        dlb_cache_set_video_latency_ndebug c wf l = c
        ∧ dlb_cache_get_video_latency_ndebug c wf d = (false, d)) := by
  have hvf : dlb_cache_validate_video_params_ndebug vf = false := by
    rw [← Bool.not_eq_true]
    intro h
    have h2 := (cache_validate_video_iff vf).1 h
    simp only [MAX_VICS, LIP_COLOR_FORMAT_COUNT, LIP_COLOR_FORMAT_HDR_STATIC,
      LIP_COLOR_FORMAT_HDR_DYNAMIC, LIP_COLOR_FORMAT_DOLBY_VISION, LIP_HDR_STATIC_COUNT,
      LIP_HDR_DYNAMIC_COUNT, LIP_HDR_DOLBY_VISION_COUNT] at hv
    omega
  have hna : ¬ (vf.vic < MAX_VICS ∧ vf.color_format = LIP_COLOR_FORMAT_COUNT) := by
    simp only [MAX_VICS, LIP_COLOR_FORMAT_COUNT, LIP_COLOR_FORMAT_HDR_STATIC,
      LIP_COLOR_FORMAT_HDR_DYNAMIC, LIP_COLOR_FORMAT_DOLBY_VISION, LIP_HDR_STATIC_COUNT,
      LIP_HDR_DYNAMIC_COUNT, LIP_HDR_DOLBY_VISION_COUNT] at hv ⊢
    omega
  have haf : dlb_cache_validate_audio_params af.codec af.subtype af.ext = false := by
    rw [← Bool.not_eq_true]
    intro h
    have h2 := (cache_validate_audio_iff af).1 h
    simp only [IEC61937_AUDIO_CODECS, IEC61937_SUBTYPES, MAX_AUDIO_FORMAT_EXTENSIONS] at ha
    omega
  refine ⟨⟨?_, ?_, ?_⟩,
    ⟨(cache_audio_noop c af l d haf).1, (cache_audio_noop c af l d haf).2, ?_⟩, ?_, ?_,
    cache_set_video_none_iff c wf l, cache_get_video_none_iff c wf d, ?_⟩
  · rw [cache_set_video_some c vf l hna, (cache_video_noop c vf l d hvf).1]
  · rw [cache_get_video_some c vf d (fun k => hna k.2), (cache_video_noop c vf l d hvf).2]
  · rcases cache_video_access_cases vf with h | h | h
    · exact absurd h.2 hna
    · exact h.1
    · rw [hvf] at h
      exact absurd h.2 (by decide)
  · unfold dlb_cache_audio_access
    simp [haf]
  · intro i j k h
    rcases cache_video_access_cases wf with g | g | g
    · rw [g.1] at h
      exact absurd h (by simp)
    · rw [g.1] at h
      exact absurd h (by simp)
    · rw [g.1] at h
      simp only [Option.some.injEq, Prod.mk.injEq] at h
      obtain ⟨h1, h2, h3⟩ := h
      have h4 := (cache_validate_video_iff wf).1 g.2
      simp only [MAX_VICS, LIP_COLOR_FORMAT_COUNT, show HDR_MODES_COUNT = 4 from rfl]
      omega
  · intro i j k h
    unfold dlb_cache_audio_access at h
    by_cases hw : dlb_cache_validate_audio_params bf.codec bf.subtype bf.ext = true
    · rw [if_pos hw] at h
      simp only [Option.some.injEq, Prod.mk.injEq] at h
      obtain ⟨h1, h2, h3⟩ := h
      have h4 := (cache_validate_audio_iff bf).1 hw
      simp only [IEC61937_AUDIO_CODECS, IEC61937_SUBTYPES, MAX_AUDIO_FORMAT_EXTENSIONS]
      omega
    · rw [if_neg hw] at h
      exact absurd h (by simp)
  · intro hc
    have hwf : dlb_cache_validate_video_params_ndebug wf = false := by
      rw [← Bool.not_eq_true]
      intro h
      have h2 := (cache_validate_video_iff wf).1 h
      simp only [LIP_COLOR_FORMAT_COUNT] at hc
      omega
    exact cache_video_noop c wf l d hwf

theorem out_of_range_cache_access_witness :
    dlb_cache_video_access ⟨0, 7, 0⟩ = some none
      ∧ dlb_cache_audio_access ⟨1, 4, 0⟩ = none
      ∧ dlb_cache_get_video_latency fresh_cache ⟨219, LIP_COLOR_FORMAT_COUNT, 0⟩ 9
        = some (false, 9) :=
  ⟨(out_of_range_cache_access fresh_cache ⟨0, 7, 0⟩ ⟨0, 0, 0⟩ ⟨1, 4, 0⟩ ⟨0, 0, 0⟩ 7 9
      (Or.inr (Or.inl (by decide))) (Or.inr (Or.inl (by decide)))).1.2.2,
   (out_of_range_cache_access fresh_cache ⟨0, 7, 0⟩ ⟨0, 0, 0⟩ ⟨1, 4, 0⟩ ⟨0, 0, 0⟩ 7 9
      (Or.inr (Or.inl (by decide))) (Or.inr (Or.inl (by decide)))).2.1.2.2,
   (out_of_range_cache_access fresh_cache ⟨219, LIP_COLOR_FORMAT_COUNT, 0⟩ ⟨0, 0, 0⟩
      ⟨1, 4, 0⟩ ⟨0, 0, 0⟩ 7 9 (Or.inl (by decide)) (Or.inr (Or.inl (by decide)))).1.2.1⟩

/-- C28, failing input: on the enabled cache after `dlb_cache_init`, the setter and the
getter called with `vic = 0` and `color_format = LIP_COLOR_FORMAT_COUNT` pass the test
`color_format <= LIP_COLOR_FORMAT_COUNT` of the validation, call
`dlb_lip_get_hdr_mode_from_video_format` and stop at its assertion: neither call returns.
In a build with `NDEBUG` both are no-ops. -/
theorem color_format_count_assertion_counterexample :
    fresh_cache.cache_enabled = true
      ∧ dlb_cache_validate_video_params ⟨0, LIP_COLOR_FORMAT_COUNT, 0⟩ = none
      ∧ dlb_cache_set_video_latency fresh_cache ⟨0, LIP_COLOR_FORMAT_COUNT, 0⟩ 7 = none
      ∧ dlb_cache_get_video_latency fresh_cache ⟨0, LIP_COLOR_FORMAT_COUNT, 0⟩ 9 = none
      ∧ dlb_cache_get_video_latency_ndebug fresh_cache ⟨0, LIP_COLOR_FORMAT_COUNT, 0⟩ 9
        = (false, 9) :=
  ⟨rfl, rfl, rfl, rfl, rfl⟩

/-! ## C29 -/

/-- C29: the audio format wire round-trip.  For every valid audio format (codec < 32,
subtype < 4, ext < 32) the frame that `dlb_lip_build_request_audio_latency` builds in any
64-byte frame buffer carries the codec in byte 4; it is 6 bytes long with byte 5 equal
to `(ext << 2) | subtype` if and only if `subtype != 0` or `ext != 0`, and is 5 bytes long otherwise; and the decoding
at the head of `lip_handle_request_audio_latency` yields the original format.  The same
holds for the audio part of the frame built by `dlb_lip_build_request_av_latency`, with
the codec in byte 6, the optional byte 7 and the lengths 8 and 7: that builder returns a
frame for every video format with `color_format < LIP_COLOR_FORMAT_COUNT`, and stops at
the assertion of `get_value_from_hdr_mode` for every other colour format. -/
theorem audio_format_wire_round_trip (c : dlb_cec_message) (i d : Int)
    (vf : dlb_lip_video_format) (af : dlb_lip_audio_format)
    (hl : c.data.length = CEC_BUS_MAX_MSG_LENGTH) (hv : lip_is_audio_format_valid af = true) :
    ((dlb_lip_build_request_audio_latency c i d af).byte 4 = af.codec
      ∧ ((dlb_lip_build_request_audio_latency c i d af).msg_length = 6
          ∧ (dlb_lip_build_request_audio_latency c i d af).byte 5
            = (af.ext <<< 2 ||| af.subtype)
        ↔ af.subtype ≠ 0 ∨ af.ext ≠ 0)
      ∧ (¬ (af.subtype ≠ 0 ∨ af.ext ≠ 0) →
          (dlb_lip_build_request_audio_latency c i d af).msg_length = 5)
      ∧ decode_audio_format (dlb_lip_build_request_audio_latency c i d af) 4 = af)
    ∧ (∀ f, dlb_lip_build_request_av_latency c i d vf af = some f →
        f.byte 6 = af.codec
        ∧ (f.msg_length = 8 ∧ f.byte 7 = (af.ext <<< 2 ||| af.subtype)
          ↔ af.subtype ≠ 0 ∨ af.ext ≠ 0)
        ∧ (¬ (af.subtype ≠ 0 ∨ af.ext ≠ 0) → f.msg_length = 7)
        ∧ decode_audio_format f 6 = af)
    ∧ (vf.color_format < LIP_COLOR_FORMAT_COUNT →
        ∃ f, dlb_lip_build_request_av_latency c i d vf af = some f)
    ∧ (dlb_lip_build_request_av_latency c i d vf af = none
        ↔ vf.color_format ≥ LIP_COLOR_FORMAT_COUNT) := by
  have key : ((dlb_lip_build_request_audio_latency c i d af).byte 4 = af.codec
      ∧ ((dlb_lip_build_request_audio_latency c i d af).msg_length = 6
          ∧ (dlb_lip_build_request_audio_latency c i d af).byte 5
            = (af.ext <<< 2 ||| af.subtype)
        ↔ af.subtype ≠ 0 ∨ af.ext ≠ 0)
      ∧ (¬ (af.subtype ≠ 0 ∨ af.ext ≠ 0) →
          (dlb_lip_build_request_audio_latency c i d af).msg_length = 5)
      ∧ decode_audio_format (dlb_lip_build_request_audio_latency c i d af) 4 = af)
    ∧ ((dlb_lip_build_request_av_latency_ndebug c i d vf af).byte 6 = af.codec
      ∧ ((dlb_lip_build_request_av_latency_ndebug c i d vf af).msg_length = 8
          ∧ (dlb_lip_build_request_av_latency_ndebug c i d vf af).byte 7
            = (af.ext <<< 2 ||| af.subtype)
        ↔ af.subtype ≠ 0 ∨ af.ext ≠ 0)
      ∧ (¬ (af.subtype ≠ 0 ∨ af.ext ≠ 0) →
          (dlb_lip_build_request_av_latency_ndebug c i d vf af).msg_length = 7)
      ∧ decode_audio_format (dlb_lip_build_request_av_latency_ndebug c i d vf af) 6 = af) := by
    obtain ⟨hc, hs, he⟩ := (audio_format_valid_iff af).1 hv
    obtain ⟨e1, e2, e3, -⟩ := ext_byte_arith af.ext he af.subtype hs
    have hx : audio_ext_byte af % 256 = (af.ext <<< 2 ||| af.subtype) := by
      rw [audio_ext_byte_eq af hs he, ← e1, Nat.mod_mod]
    have hcm : af.codec % 256 = af.codec := Nat.mod_eq_of_lt (by omega)
    obtain ⟨a4, a5⟩ := build_request_audio_latency_bytes c i d af hl
    obtain ⟨-, -, b6, b7⟩ := build_request_av_latency_bytes c i d vf af hl
    rw [hcm] at a4 b6
    by_cases hcond : af.ext ≠ 0 ∨ af.subtype ≠ IEC61937_SUBTYPE_0
    · rw [if_pos hcond] at a5 b7
      rw [hx] at a5 b7
      have hc2 : af.subtype ≠ 0 ∨ af.ext ≠ 0 := hcond.symm
      refine ⟨⟨a4, ⟨fun _ => hc2, fun _ => a5⟩, fun h => absurd hc2 h, ?_⟩,
        ⟨b6, ⟨fun _ => hc2, fun _ => b7⟩, fun h => absurd hc2 h, ?_⟩⟩
      · unfold decode_audio_format
        rw [if_pos (by rw [a5.1]), a4, a5.2, e2, e3]
      · unfold decode_audio_format
        rw [if_pos (by rw [b7.1]), b6, b7.2, e2, e3]
    · rw [if_neg hcond] at a5 b7
      have hc2 : ¬ (af.subtype ≠ 0 ∨ af.ext ≠ 0) := fun h => hcond h.symm
      have hz : af.subtype = 0 ∧ af.ext = 0 := by
        constructor
        · by_contra h
          exact hc2 (Or.inl h)
        · by_contra h
          exact hc2 (Or.inr h)
      refine ⟨⟨a4, ⟨fun h => ?_, fun h => absurd h hc2⟩, fun _ => a5, ?_⟩,
        ⟨b6, ⟨fun h => ?_, fun h => absurd h hc2⟩, fun _ => b7, ?_⟩⟩
      · rw [a5] at h
        exact absurd h.1 (by decide)
      · unfold decode_audio_format
        rw [if_neg (by rw [a5]; decide), a4]
        rcases af with ⟨cd, st, e⟩
        simp only at hz
        rw [hz.1, hz.2]
      · rw [b7] at h
        exact absurd h.1 (by decide)
      · unfold decode_audio_format
        rw [if_neg (by rw [b7]; decide), b6]
        rcases af with ⟨cd, st, e⟩
        simp only at hz
        rw [hz.1, hz.2]
  refine ⟨key.1, ?_,
    fun h => ⟨_, build_request_av_latency_some c i d vf af h⟩,
    build_request_av_latency_none_iff c i d vf af⟩
  intro f hf
  have hcf : vf.color_format < LIP_COLOR_FORMAT_COUNT := by
    by_contra hn
    rw [(build_request_av_latency_none_iff c i d vf af).2 (Nat.le_of_not_lt hn)] at hf
    exact absurd hf (by simp)
  rw [build_request_av_latency_some c i d vf af hcf] at hf
  have e : f = dlb_lip_build_request_av_latency_ndebug c i d vf af := (Option.some.inj hf).symm
  rw [e]
  exact key.2

theorem audio_format_wire_round_trip_witness :
    decode_audio_format (dlb_lip_build_request_audio_latency empty_msg 5 0 ⟨21, 1, 3⟩) 4
        = ⟨21, 1, 3⟩
      ∧ (dlb_lip_build_request_audio_latency empty_msg 5 0 ⟨21, 1, 3⟩).byte 5 = 13
      ∧ ∃ f, dlb_lip_build_request_av_latency empty_msg 5 0 ⟨4, 0, 0⟩ ⟨1, 0, 0⟩ = some f
        ∧ decode_audio_format f 6 = ⟨1, 0, 0⟩ := by
  have h := audio_format_wire_round_trip empty_msg 5 0 ⟨4, 0, 0⟩ ⟨21, 1, 3⟩ (by decide) (by decide)
  have g := audio_format_wire_round_trip empty_msg 5 0 ⟨4, 0, 0⟩ ⟨1, 0, 0⟩ (by decide) (by decide)
  obtain ⟨f, hf⟩ := g.2.2.1 (by decide)
  exact ⟨h.1.2.2.2, (h.1.2.1.2 (Or.inl (by decide))).2, f, hf, (g.2.1 f hf).2.2.2⟩

/-! ## C30 -/

/-- C30: the HDR byte round-trip.  For every valid video format (colour format
HDR_STATIC with mode 0..3, HDR_DYNAMIC with mode 0..3, DOLBY_VISION with mode 0..1)
`get_value_from_hdr_mode` returns the mode plus the offset 0, 64 or 128 of the colour
format, and `get_hdr_mode_from_value_value` applied to that byte returns 0 and writes the
same colour format and mode (the `vic` of the target is kept).  Conversely, for every
byte `value`, `get_hdr_mode_from_value_value` returns 0 exactly when `value` is one of
0..3, 64..67, 128..129; for these bytes re-encoding the decoded format gives back the
byte; for every other byte it returns 1 and leaves the invalid colour format
`LIP_COLOR_FORMAT_COUNT`, which `lip_is_video_format_valid` rejects and on which
`get_value_from_hdr_mode` stops at its assertion. -/
theorem hdr_byte_round_trip (vf base : dlb_lip_video_format) (value : Nat)
    (hv : (vf.color_format = LIP_COLOR_FORMAT_HDR_STATIC ∧ vf.hdr_mode < 4)
      ∨ (vf.color_format = LIP_COLOR_FORMAT_HDR_DYNAMIC ∧ vf.hdr_mode < 4)
      ∨ (vf.color_format = LIP_COLOR_FORMAT_DOLBY_VISION ∧ vf.hdr_mode < 2)) :
    (get_value_from_hdr_mode vf = some (vf.hdr_mode + 64 * vf.color_format)
      ∧ get_hdr_mode_from_value_value (vf.hdr_mode + 64 * vf.color_format) base
        = (0, { base with color_format := vf.color_format, hdr_mode := vf.hdr_mode }))
    ∧ ((get_hdr_mode_from_value_value value base).1 = 0
        ↔ value ∈ [0, 1, 2, 3, 64, 65, 66, 67, 128, 129])
    ∧ (value ∈ [0, 1, 2, 3, 64, 65, 66, 67, 128, 129] →
        get_value_from_hdr_mode (get_hdr_mode_from_value_value value base).2 = some value)
    ∧ (value ∉ [0, 1, 2, 3, 64, 65, 66, 67, 128, 129] →
        (get_hdr_mode_from_value_value value base).1 = 1
        ∧ (get_hdr_mode_from_value_value value base).2.color_format = LIP_COLOR_FORMAT_COUNT
        ∧ lip_is_video_format_valid (get_hdr_mode_from_value_value value base).2 = false
        ∧ get_value_from_hdr_mode (get_hdr_mode_from_value_value value base).2 = none) := by
  have hcf : vf.color_format < LIP_COLOR_FORMAT_COUNT := by
    simp only [LIP_COLOR_FORMAT_HDR_STATIC, LIP_COLOR_FORMAT_HDR_DYNAMIC,
      LIP_COLOR_FORMAT_DOLBY_VISION, LIP_COLOR_FORMAT_COUNT] at hv ⊢
    omega
  have he := (hdr_encode vf.vic vf.color_format vf.hdr_mode hv).1
  have hd := hdr_decode_encode vf.vic vf.color_format vf.hdr_mode base hv
  rw [he] at hd
  refine ⟨⟨?_, hd⟩, ?_, ?_, ?_⟩
  · rw [hdr_value_some vf hcf]
    exact congrArg some he
  · constructor
    · intro h
      by_contra hm
      rw [hdr_decode_unknown value base hm] at h
      exact absurd (show (1 : Nat) = 0 from h) (by decide)
    · intro hm
      exact (hdr_decode_known value base hm).1
  · intro hm
    obtain ⟨-, k2, -, k4, -⟩ := hdr_decode_known value base hm
    have hc : (get_hdr_mode_from_value_value value base).2.color_format
        < LIP_COLOR_FORMAT_COUNT := by
      rw [k4]
      simp only [List.mem_cons, List.mem_singleton, List.not_mem_nil, or_false] at hm
      simp only [LIP_COLOR_FORMAT_COUNT]
      omega
    rw [hdr_value_some _ hc]
    exact congrArg some k2
  · intro hm
    rw [hdr_decode_unknown value base hm]
    refine ⟨rfl, rfl, ?_, rfl⟩
    unfold lip_is_video_format_valid
    simp

theorem hdr_byte_round_trip_witness :
    (get_value_from_hdr_mode ⟨16, 2, 1⟩ = some 129
      ∧ get_hdr_mode_from_value_value 129 ⟨7, 0, 0⟩ = (0, ⟨7, 2, 1⟩))
    ∧ (get_hdr_mode_from_value_value 4 ⟨7, 0, 0⟩).1 = 1 := by
  have h := hdr_byte_round_trip ⟨16, 2, 1⟩ ⟨7, 0, 0⟩ 4 (Or.inr (Or.inr ⟨rfl, by decide⟩))
  exact ⟨h.1, (h.2.2.2 (by decide)).1⟩

/-! ## C31 -/

/-- C31: the timer deadline invariant where the code establishes it.  On a running timer,
and when the remaining time of every SENT slot is below the infinite timeout,
`lip_reschedule_timer` at time `now` leaves the pending table alone and afterwards the
timer is armed if and only if some slot is SENT, its timeout is at most
`max(expire_time_ms - now, 0)` of every SENT slot and equal to that of one of them, and
the core holds the callback id of the armed timer; with no SENT slot the timer is
cancelled.  Every run of `lip_reply_for_pending_cmd_received` (the completion of a SENT
slot by a report, a Feature Abort or the timeout) ends with this call, so its result
satisfies the invariant.  The invariant does not hold after every step: the steps that
change a SENT slot without this call break it. -/
theorem timer_deadline_after_reschedule (fuel now : Nat) (s : dlb_lip) (source : Int)
    (new_state : dlb_lip_pending_message_state)
    (hrun : s.timer.is_running = true)
    (hexp : ∀ i ∈ slot_indices, (s.pending_requests i).state = LIP_MESSAGE_SENT →
      (s.pending_requests i).expire_time_ms < now + LIP_OSA_INFINITE_TIMEOUT) :
    spec_timer_invariant (lip_reschedule_timer s now) now
      ∧ (lip_reschedule_timer s now).pending_requests = s.pending_requests
      ∧ ((∃ i ∈ slot_indices, (s.pending_requests i).state = LIP_MESSAGE_SENT) →
          (lip_reschedule_timer s now).callback_id
            = (lip_reschedule_timer s now).timer.callback_id)
      ∧ ((∀ i ∈ slot_indices, (s.pending_requests i).state ≠ LIP_MESSAGE_SENT) →
          (lip_reschedule_timer s now).timer.timeout_ms = LIP_OSA_INFINITE_TIMEOUT)
      ∧ ∀ s', lip_reply_for_pending_cmd_received (lip_cec_cmd_received (fuel + 1) now) now s
            source new_state = some s' →
          s'.timer.is_running = true →
          (∀ i ∈ slot_indices, (s'.pending_requests i).state = LIP_MESSAGE_SENT →
            (s'.pending_requests i).expire_time_ms < now + LIP_OSA_INFINITE_TIMEOUT) →
          spec_timer_invariant s' now := by
  obtain ⟨a1, a2, a3⟩ := lip_reschedule_timer_spec s now hrun hexp
  refine ⟨a1, a2, a3, fun hno => ?_, fun s' hs' hrun' hexp' => ?_⟩
  · by_contra hc
    obtain ⟨i, hi, hs⟩ := a1.1.1 hc
    rw [a2] at hs
    exact hno i hi hs
  · unfold lip_reply_for_pending_cmd_received at hs'
    cases hq : lip_handle_pending_requests (lip_cec_cmd_received (fuel + 1) now)
        (set_slot_state s source new_state) with
    | none => rw [hq] at hs'; cases hs'
    | some s2 =>
      rw [hq] at hs'
      simp only [Option.some.injEq] at hs'
      subst hs'
      have hr2 : s2.timer.is_running = true := by
        have : (lip_reschedule_timer s2 now).timer.is_running = s2.timer.is_running := by
          unfold lip_reschedule_timer dlb_lip_osa_set_timer dlb_lip_osa_cancel_timer
          simp only []
          split_ifs <;> rfl
        rw [← this]
        exact hrun'
      have he2 : ∀ i ∈ slot_indices, (s2.pending_requests i).state = LIP_MESSAGE_SENT →
          (s2.pending_requests i).expire_time_ms < now + LIP_OSA_INFINITE_TIMEOUT := by
        intro i hi hs
        have h := hexp' i hi
        simp only [lip_reschedule_timer_pending_requests] at h
        exact h hs
      exact (lip_reschedule_timer_spec s2 now hr2 he2).1

theorem timer_deadline_after_reschedule_witness :
    S2_in_flight.timer.is_running = true
      ∧ (S2_in_flight.pending_requests 1).state = LIP_MESSAGE_SENT
      ∧ spec_timer_invariant (lip_reschedule_timer S2_in_flight 25) 25
      ∧ (lip_reschedule_timer S2_in_flight 25).timer.timeout_ms = 1995 :=
  ⟨by decide, by decide,
    (timer_deadline_after_reschedule 0 25 S2_in_flight 1 LIP_MESSAGE_HANDLED (by decide)
      (by decide)).1, by decide⟩

/-- C31, failing input: the completion step of a public query.  In the reachable core
`S2_own_query` the own request (slot 5) is SENT and the timer is armed with 2000 ms.
When the wait of the query ends, `dlb_lip_get_video_latency` sets its own slot to HANDLED
without calling `lip_reschedule_timer`: in the core after that step no slot is SENT but
the timer is still armed, so the invariant fails at every clock value. -/
theorem timer_armed_without_sent_counterexample :
    Reachable S2_own_query
      ∧ (S2_own_query.pending_requests 5).state = LIP_MESSAGE_SENT
      ∧ S2_own_query.timer.timeout_ms = 2000
      ∧ Reachable (dlb_lip_query_wait_done S2_own_query).1
      ∧ (dlb_lip_query_wait_done S2_own_query).1.timer.timeout_ms = 2000
      ∧ (∀ i ∈ slot_indices,
          ((dlb_lip_query_wait_done S2_own_query).1.pending_requests i).state
            ≠ LIP_MESSAGE_SENT)
      ∧ ∀ now, ¬ spec_timer_invariant (dlb_lip_query_wait_done S2_own_query).1 now := by
  have hr : Reachable S2_own_query :=
    Reachable.step _ _ S2_supported_reachable (Step.get_video_latency 15 S2_supported ⟨4, 0, 0⟩)
  refine ⟨hr, by decide, by decide,
    Reachable.step _ _ hr (Step.query_wait_done S2_own_query), by decide, by decide,
    fun now h => ?_⟩
  have h1 : ∃ i ∈ slot_indices,
      ((dlb_lip_query_wait_done S2_own_query).1.pending_requests i).state
        = LIP_MESSAGE_SENT := h.1.1 (by decide)
  exact absurd h1 (by decide)

/-! ## C32 -/

/-- C32: the discovery worker transitions.  One round of `dlb_lip_request_thread` on a
running core: in state INIT with a configured downstream address it moves to
WAIT_FOR_REPLY, transmits exactly one frame, the `REQUEST_LIP_SUPPORT` built for
`config.downstream_device_addr`, and remembers whether the bus accepted it; in state INIT
with downstream address UNKNOWN it moves to SUPPORTED and transmits nothing; in state
WAIT_FOR_REPLY it transmits nothing and moves to SUPPORTED with the IEC decoding-delay
offset enabled if the remembered transmit succeeded, the own address is TV and the
configured downstream is the audio system, and to UNSUPPORTED, leaving the offset flag
alone, in every other case. -/
theorem worker_discovery_transitions (now : Nat) (s : dlb_lip) (l : request_thread_locals)
    (hrun : s.is_running = true) :
    (s.state = LIP_INIT →
      s.config_params.downstream_device_addr ≠ DLB_LOGICAL_ADDR_UNKNOWN →
        (dlb_lip_request_thread_step now s l).1.state = LIP_WAIT_FOR_REPLY
        ∧ (dlb_lip_request_thread_step now s l).1.tx = s.tx ++
            [dlb_lip_build_request_lip_support empty_msg s.cec_bus.logical_address
              s.config_params.downstream_device_addr]
        ∧ lip_get_command_opcode
            (dlb_lip_build_request_lip_support empty_msg s.cec_bus.logical_address
              s.config_params.downstream_device_addr) = LIP_OPCODE_REQUEST_LIP_SUPPORT
        ∧ (dlb_lip_build_request_lip_support empty_msg s.cec_bus.logical_address
              s.config_params.downstream_device_addr).destination
            = s.config_params.downstream_device_addr
        ∧ (dlb_lip_request_thread_step now s l).2.transmit_success
            = decide (s.cec_bus.transmit_callback
                (dlb_lip_build_request_lip_support empty_msg s.cec_bus.logical_address
                  s.config_params.downstream_device_addr) = 0))
    ∧ (s.state = LIP_INIT →
      s.config_params.downstream_device_addr = DLB_LOGICAL_ADDR_UNKNOWN →
        (dlb_lip_request_thread_step now s l).1.state = LIP_SUPPORTED
        ∧ (dlb_lip_request_thread_step now s l).1.tx = s.tx)
    ∧ (s.state = LIP_WAIT_FOR_REPLY →
      (l.transmit_success = true ∧ s.cec_bus.logical_address = DLB_LOGICAL_ADDR_TV
        ∧ s.config_params.downstream_device_addr = DLB_LOGICAL_ADDR_AUDIOSYSTEM) →
        (dlb_lip_request_thread_step now s l).1.state = LIP_SUPPORTED
        ∧ (dlb_lip_request_thread_step now s l).1.add_iec_decoding_latency = true
        ∧ (dlb_lip_request_thread_step now s l).1.tx = s.tx)
    ∧ (s.state = LIP_WAIT_FOR_REPLY →
      ¬ (l.transmit_success = true ∧ s.cec_bus.logical_address = DLB_LOGICAL_ADDR_TV
        ∧ s.config_params.downstream_device_addr = DLB_LOGICAL_ADDR_AUDIOSYSTEM) →
        (dlb_lip_request_thread_step now s l).1.state = LIP_UNSUPPORTED
        ∧ (dlb_lip_request_thread_step now s l).1.add_iec_decoding_latency
            = s.add_iec_decoding_latency
        ∧ (dlb_lip_request_thread_step now s l).1.tx = s.tx) := by
  refine ⟨fun hst ha => ?_, fun hst ha => ?_, fun hst hc => ?_, fun hst hc => ?_⟩
  · have hop := (build_request_lip_support_checks empty_msg s.cec_bus.logical_address
      s.config_params.downstream_device_addr rfl).1.2.2.1
    refine ⟨?_, ?_, hop, ?_, ?_⟩ <;>
      simp [dlb_lip_request_thread_step, request_thread_switch, hrun, hst, ha,
        lip_transmit_request_lip_support, lip_transmit_wrapper,
        dlb_lip_build_request_lip_support, put_byte_destination, lip_init_cec_command,
        dlb_lip_set_dolby_vendor_id]
  · refine ⟨?_, ?_⟩ <;>
      simp [dlb_lip_request_thread_step, request_thread_switch, hrun, hst, ha]
  · refine ⟨?_, ?_, ?_⟩ <;>
      simp [dlb_lip_request_thread_step, request_thread_switch, hrun, hst, hc.1, hc.2.1,
        hc.2.2]
  · have hc2 : ¬ (l.transmit_success = true ∧ s.cec_bus.logical_address = 0
        ∧ s.config_params.downstream_device_addr = 5) := hc
    refine ⟨?_, ?_, ?_⟩ <;>
      simp [dlb_lip_request_thread_step, request_thread_switch, hrun, hst, hc2]

theorem worker_discovery_transitions_witness :
    S2_opened.is_running = true
      ∧ (dlb_lip_request_thread_step 0 S2_opened ⟨0, false⟩).1.state = LIP_WAIT_FOR_REPLY
      ∧ (dlb_lip_request_thread_step 2000 S2_discovering ⟨0, true⟩).1.state = LIP_UNSUPPORTED
      ∧ (dlb_lip_request_thread_step 2000
          (dlb_lip_request_thread_step 0 TV_opened ⟨0, false⟩).1
          (dlb_lip_request_thread_step 0 TV_opened ⟨0, false⟩).2).1.state = LIP_SUPPORTED := by
  have h1 := worker_discovery_transitions 0 S2_opened ⟨0, false⟩ (by decide)
  have h2 := worker_discovery_transitions 2000 S2_discovering ⟨0, true⟩ (by decide)
  have h3 := worker_discovery_transitions 2000
    (dlb_lip_request_thread_step 0 TV_opened ⟨0, false⟩).1
    (dlb_lip_request_thread_step 0 TV_opened ⟨0, false⟩).2 (by decide)
  exact ⟨by decide, (h1.1 (by decide) (by decide)).1,
    (h2.2.2.2 (by decide) (by decide)).1, (h3.2.2.1 (by decide) (by decide)).1⟩

/-! ## C33 -/

/-- C33: the remembered formats while a request is in flight, as the code keeps them.
In state SUPPORTED, while slot `j` of another peer is SENT, a request frame addressed to
the node is handled (answered from the cache, refused, or queued as PENDING) without
touching slot `j`, and: a REQUEST_AV_LATENCY leaves both remembered formats as they are;
a REQUEST_AUDIO_LATENCY leaves the remembered video format, and leaves the remembered
audio format only when it is answered from the cache or refused, overwriting it with the
format of the new request when that request is queued; a REQUEST_VIDEO_LATENCY leaves the
remembered audio format and overwrites the remembered video format with the format of the
new request whenever that format is valid, whether the request is answered from the cache
or queued.  So the remembered formats belong to the request that is SENT only as long as
no other audio or video request arrives. -/
theorem remembered_formats_while_sent (fuel now : Nat) (s : dlb_lip) (m : dlb_cec_message)
    (j : Int) (hst : s.state = LIP_SUPPORTED) (hj : j ∈ slot_indices) (hju : j ≠ m.initiator)
    (hsent : (s.pending_requests j).state = LIP_MESSAGE_SENT) :
    (addressed_to s m LIP_OPCODE_REQUEST_AV_LATENCY →
      ∃ s', lip_cec_cmd_received (fuel + 1) now s m = some (s', 1)
        ∧ s'.req_video_format = s.req_video_format
        ∧ s'.req_audio_format = s.req_audio_format
        ∧ s'.pending_requests j = s.pending_requests j)
    ∧ (addressed_to s m LIP_OPCODE_REQUEST_AUDIO_LATENCY →
      ∃ s', lip_cec_cmd_received (fuel + 1) now s m = some (s', 1)
        ∧ s'.req_video_format = s.req_video_format
        ∧ s'.req_audio_format
            = (if lip_is_audio_format_valid (decode_audio_format m 4) = true
                  ∧ (request_audio_lookup s m false).1 = false
               then decode_audio_format m 4 else s.req_audio_format)
        ∧ s'.pending_requests j = s.pending_requests j)
    ∧ (addressed_to s m LIP_OPCODE_REQUEST_VIDEO_LATENCY →
      ∃ s', lip_cec_cmd_received (fuel + 1) now s m = some (s', 1)
        ∧ s'.req_audio_format = s.req_audio_format
        ∧ s'.req_video_format
            = (if lip_is_video_format_valid (decode_video_format m) = true
               then decode_video_format m else s.req_video_format)
        ∧ s'.pending_requests j = s.pending_requests j) := by
  refine ⟨fun h => ?_, fun h => ?_, fun h => ?_⟩
  · obtain ⟨a, b, c⟩ := request_av_formats_kept now s m [] false j hj hju hsent
    obtain ⟨f1, f2, f3⟩ := finish_received_formats (lip_handle_request_av_latency now s m [] false)
    refine ⟨_, received_request_av fuel now s m h hst, ?_, ?_, ?_⟩
    · exact f1.trans a
    · exact f2.trans b
    · exact (congrFun f3 j).trans c
  · obtain ⟨a, b, c⟩ := request_audio_formats_kept now s m [] false j hj hju hsent
    obtain ⟨f1, f2, f3⟩ :=
      finish_received_formats (lip_handle_request_audio_latency now s m [] false)
    refine ⟨_, received_request_audio fuel now s m h hst, ?_, ?_, ?_⟩
    · exact f1.trans a
    · exact f2.trans b
    · exact (congrFun f3 j).trans c
  · obtain ⟨a, b, c⟩ := request_video_formats_kept now s m [] false j hj hju hsent
    obtain ⟨f1, f2, f3⟩ :=
      finish_received_formats (lip_handle_request_video_latency now s m [] false)
    refine ⟨_, received_request_video fuel now s m h hst, ?_, ?_, ?_⟩
    · exact f2.trans a
    · exact f1.trans b
    · exact (congrFun f3 j).trans c

theorem remembered_formats_while_sent_witness :
    S2_in_flight.state = LIP_SUPPORTED
      ∧ (S2_in_flight.pending_requests 1).state = LIP_MESSAGE_SENT
      ∧ addressed_to S2_in_flight (frame 2 5 [0, 0xD0, 0x46, 0x12, 16, 0, 1])
          LIP_OPCODE_REQUEST_AV_LATENCY
      ∧ ∃ s', lip_cec_cmd_received 2 25 S2_in_flight (frame 2 5 [0, 0xD0, 0x46, 0x12, 16, 0, 1])
            = some (s', 1)
          ∧ s'.req_video_format = S2_in_flight.req_video_format
          ∧ s'.req_audio_format = S2_in_flight.req_audio_format
          ∧ s'.pending_requests 1 = S2_in_flight.pending_requests 1 :=
  ⟨by decide, by decide, by decide,
    (remembered_formats_while_sent 1 25 S2_in_flight (frame 2 5 [0, 0xD0, 0x46, 0x12, 16, 0, 1])
      1 (by decide) (by decide) (by decide) (by decide)).1 (by decide)⟩

/-- C33, failing input: peer 1 sends REQUEST_VIDEO_LATENCY(vic 4), which is put in flight
(slot 1 SENT, remembered video format vic 4); peer 2 then sends
REQUEST_VIDEO_LATENCY(vic 16), which is queued (slot 2 PENDING, nothing transmitted), and
the remembered video format becomes vic 16 although the request that is SENT asks for
vic 4.  The REPORT_VIDEO_LATENCY(30) of the downstream device, which answers the request
for vic 4, is then stored in the cache under vic 16: the cache has no entry for vic 4, and
peer 2 is answered with the latency 30 that was measured for vic 4. -/
theorem remembered_video_format_counterexample :
    Reachable S2_video_in_flight
      ∧ (S2_video_in_flight.pending_requests 1).state = LIP_MESSAGE_SENT
      ∧ (S2_video_in_flight.tx.drop S2_supported.tx.length).map wire
          = [(5, 0, 0xA0, [0, 0xD0, 0x46, 0x16, 4, 0])]
      ∧ S2_video_in_flight.req_video_format = ⟨4, 0, 0⟩
      ∧ addressed_to S2_video_in_flight (request_video_frame 2 16)
          LIP_OPCODE_REQUEST_VIDEO_LATENCY
      ∧ (S2_video_queued.pending_requests 1).state = LIP_MESSAGE_SENT
      ∧ (S2_video_queued.pending_requests 2).state = LIP_MESSAGE_PENDING
      ∧ S2_video_queued.tx = S2_video_in_flight.tx
      ∧ S2_video_queued.req_video_format = ⟨16, 0, 0⟩
      ∧ dlb_cache_get_video_latency S2_video_answered.downstream_device_cfg.latency_cache
          ⟨4, 0, 0⟩ 255 = some (false, 255)
      ∧ dlb_cache_get_video_latency S2_video_answered.downstream_device_cfg.latency_cache
          ⟨16, 0, 0⟩ 255 = some (true, 30)
      ∧ (S2_video_answered.tx.drop S2_video_queued.tx.length).map wire
          = [(5, 2, 0xA0, [0, 0xD0, 0x46, 0x17, 30]), (5, 1, 0xA0, [0, 0xD0, 0x46, 0x17, 30])] :=
  ⟨reachable_core_of 0 20 _ _ S2_supported_reachable, by decide, by decide, by decide,
    by decide, by decide, by decide, by decide, by decide, by decide, by decide, by decide⟩

/-! ## C34 -/

/-- C34: what the worker answers in the states SUPPORTED and UNSUPPORTED.  One round of
`dlb_lip_request_thread` on a running core does nothing to the table and transmits nothing
when every slot is HANDLED; otherwise it goes through the slots 0..15 in order and, for
every slot whose stored frame is a REQUEST_LIP_SUPPORT, whatever the state of the slot,
sets the slot to HANDLED and transmits one frame to the initiator of the stored frame: in
state SUPPORTED a REPORT_LIP_SUPPORT with the merged UUID, in state UNSUPPORTED a Feature
Abort(VENDOR_COMMAND_WITH_ID, REFUSED).  All other slots are left alone.  When every slot
that holds a REQUEST_LIP_SUPPORT is PENDING, the frames go to exactly the initiators of the
PENDING slots that hold a REQUEST_LIP_SUPPORT, as claimed. -/
theorem worker_answers_stored_discovery_requests (now : Nat) (s : dlb_lip)
    (l : request_thread_locals) (hrun : s.is_running = true) :
    (s.state = LIP_SUPPORTED →
      (dlb_lip_request_thread_step now s l).1.tx
          = s.tx ++ (if lip_is_any_request_pending s = true then
              (slot_indices.filter (holds_request_lip_support s)).map (worker_report_frame s)
            else [])
        ∧ ((∀ i ∈ slot_indices, holds_request_lip_support s i = true →
              (s.pending_requests i).state = LIP_MESSAGE_PENDING) →
            (dlb_lip_request_thread_step now s l).1.tx
              = s.tx ++ (slot_indices.filter (fun i =>
                  decide ((s.pending_requests i).state = LIP_MESSAGE_PENDING)
                    && holds_request_lip_support s i)).map (worker_report_frame s)))
    ∧ (s.state = LIP_UNSUPPORTED →
      (dlb_lip_request_thread_step now s l).1.tx
          = s.tx ++ (if lip_is_any_request_pending s = true then
              (slot_indices.filter (holds_request_lip_support s)).map (worker_abort_frame s)
            else [])
        ∧ ((∀ i ∈ slot_indices, holds_request_lip_support s i = true →
              (s.pending_requests i).state = LIP_MESSAGE_PENDING) →
            (dlb_lip_request_thread_step now s l).1.tx
              = s.tx ++ (slot_indices.filter (fun i =>
                  decide ((s.pending_requests i).state = LIP_MESSAGE_PENDING)
                    && holds_request_lip_support s i)).map (worker_abort_frame s)))
    ∧ (s.state = LIP_SUPPORTED ∨ s.state = LIP_UNSUPPORTED →
      ∀ k, (dlb_lip_request_thread_step now s l).1.pending_requests k
        = if lip_is_any_request_pending s = true
              ∧ k ∈ slot_indices ∧ holds_request_lip_support s k = true
          then { (s.pending_requests k) with state := LIP_MESSAGE_HANDLED }
          else s.pending_requests k)
    ∧ (∀ i, passes_decoder_checks (worker_report_frame s i) LIP_OPCODE_REPORT_LIP_SUPPORT
        ∧ (worker_report_frame s i).destination = (s.pending_requests i).msg.initiator
        ∧ (worker_abort_frame s i).opcode = DLB_CEC_OPCODE_FEATURE_ABORT
        ∧ (worker_abort_frame s i).destination = (s.pending_requests i).msg.initiator
        ∧ (worker_abort_frame s i).byte 0 = DLB_CEC_OPCODE_VENDOR_COMMAND_WITH_ID
        ∧ (worker_abort_frame s i).byte 1 = DLB_CEC_ABORT_REASON_REFUSED) := by
  refine ⟨fun hst => ?_, fun hst => ?_, fun hst k => ?_, fun i => ?_⟩
  · obtain ⟨a, -⟩ := request_thread_step_supported now s l hrun hst
    refine ⟨a, fun h => ?_⟩
    rw [a, ← worker_filter_pending s h]
    split_ifs <;> rfl
  · obtain ⟨a, -⟩ := request_thread_step_unsupported now s l hrun hst
    refine ⟨a, fun h => ?_⟩
    rw [a, ← worker_filter_pending s h]
    split_ifs <;> rfl
  · rcases hst with hst | hst
    · exact (request_thread_step_supported now s l hrun hst).2 k
    · exact (request_thread_step_unsupported now s l hrun hst).2 k
  · obtain ⟨k1, -, k3, k4, -, k6⟩ := build_abort_frame empty_msg s.cec_bus.logical_address
      (s.pending_requests i).msg.initiator DLB_CEC_OPCODE_VENDOR_COMMAND_WITH_ID
      DLB_CEC_ABORT_REASON_REFUSED rfl
    exact ⟨(build_report_lip_support_checks empty_msg s.cec_bus.logical_address
        (s.pending_requests i).msg.initiator LIP_PROTOCOL_VERSION (lip_get_uuid s) false rfl).1,
      by simp [worker_report_frame], k1, k6, k3, k4⟩

theorem worker_answers_stored_discovery_requests_witness :
    TV_rediscovered.is_running = true
      ∧ TV_rediscovered.state = LIP_SUPPORTED
      ∧ (TV_rediscovered.pending_requests 1).state = LIP_MESSAGE_PENDING
      ∧ (dlb_lip_request_thread_step 1100 TV_rediscovered ⟨0, true⟩).1.tx
          = TV_rediscovered.tx ++ [worker_report_frame TV_rediscovered 1]
      ∧ (worker_report_frame TV_rediscovered 1).destination = 1
      ∧ S2_unsupported_buffered.state = LIP_UNSUPPORTED
      ∧ (dlb_lip_request_thread_step 2001 S2_unsupported_buffered ⟨0, true⟩).1.tx
          = S2_unsupported_buffered.tx ++ [worker_abort_frame S2_unsupported_buffered 1] := by
  have h := worker_answers_stored_discovery_requests 1100 TV_rediscovered ⟨0, true⟩ (by decide)
  have g := worker_answers_stored_discovery_requests 2001 S2_unsupported_buffered ⟨0, true⟩
    (by decide)
  refine ⟨by decide, by decide, by decide, ?_, by decide, by decide, ?_⟩
  · rw [(h.1 (by decide)).2 (by decide)]
    decide
  · rw [(g.2.1 (by decide)).2 (by decide)]
    decide

/-- C34, failing input: peer 1 sends REQUEST_LIP_SUPPORT while the node waits for the
downstream reply (slot 1 PENDING); the REPORT_LIP_SUPPORT of the downstream device moves
the node to SUPPORTED, answers peer 1 (slot 1 HANDLED, the stored frame stays in the slot)
and signals the worker; before the worker runs, peer 2 sends REQUEST_VIDEO_LATENCY, which
is put in flight (slot 2 SENT).  The worker round then finds a slot that is not HANDLED,
sees the REQUEST_LIP_SUPPORT stored in the HANDLED slot 1 and transmits a second
REPORT_LIP_SUPPORT to peer 1, although no slot is PENDING. -/
theorem worker_answers_handled_slot_counterexample :
    Reachable S2_support_stale
      ∧ S2_support_stale.is_running = true
      ∧ S2_support_stale.state = LIP_SUPPORTED
      ∧ S2_support_stale.thread_signaled = true
      ∧ (S2_support_answered.tx.drop S2_support_buffered.tx.length).map wire
          = [(5, 1, 0xA0, [0, 0xD0, 0x46, 0x11, 0, 0x12, 0x34, 0, 0])]
      ∧ (S2_support_stale.pending_requests 1).state = LIP_MESSAGE_HANDLED
      ∧ holds_request_lip_support S2_support_stale 1 = true
      ∧ (∀ i ∈ slot_indices,
          (S2_support_stale.pending_requests i).state ≠ LIP_MESSAGE_PENDING)
      ∧ ((dlb_lip_request_thread_step 61 S2_support_stale ⟨2000, true⟩).1.tx.drop
            S2_support_stale.tx.length).map wire
          = [(5, 1, 0xA0, [0, 0xD0, 0x46, 0x11, 0, 0x12, 0x34, 0, 0])] :=
  ⟨reachable_core_of 0 60 _ _ (reachable_core_of 0 50 _ _
      (after_request_lip_support_reachable 1 _
        (Reachable.step _ _ S2_opened_reachable (Step.worker 0 S2_opened ⟨0, false⟩)))),
    by decide, by decide, by decide, by decide, by decide, by decide, by decide, by decide⟩

/-! ## C35 -/

/-- C35: a report that does not match the request in flight.  In state SUPPORTED on a
well-formed table, when a REPORT_AUDIO_LATENCY arrives while the SENT slot `u` holds a
REQUEST_VIDEO_LATENCY, or a REPORT_VIDEO_LATENCY arrives while it holds a
REQUEST_AUDIO_LATENCY, the frame is consumed, the handler builds no response, slot `u`
becomes HANDLED, and the frames transmitted are those of the drain of the queued
requests: each goes to a peer other than `u` whose slot was PENDING, or to the downstream
device, so none goes to `u` (when `u` is not the downstream address) and none is
transmitted when no other slot is PENDING.  Afterwards every slot that is still PENDING
waits behind a slot that is SENT. -/
theorem mismatched_report_completes_silently (fuel now : Nat) (s : dlb_lip)
    (R : dlb_cec_message) (u : Int)
    (hst : s.state = LIP_SUPPORTED) (hwf : pending_table_wf s.pending_requests)
    (hu : u ∈ slot_indices) (hs : (s.pending_requests u).state = LIP_MESSAGE_SENT) :
    (addressed_to s R LIP_OPCODE_REPORT_AUDIO_LATENCY →
      lip_get_command_opcode (s.pending_requests u).msg = LIP_OPCODE_REQUEST_VIDEO_LATENCY →
      (lip_handle_report_audio_latency (lip_cec_cmd_received (fuel + 1) now) now s R []).map
          (fun r => r.2) = some ([], false)
      ∧ ∃ s2 fs, lip_cec_cmd_received (fuel + 2) now s R = some (s2, 1)
        ∧ s2.tx = s.tx ++ fs
        ∧ s2.pending_requests u = { (s.pending_requests u) with state := LIP_MESSAGE_HANDLED }
        ∧ (∀ f ∈ fs,
            (f.destination ∈ slot_indices ∧ f.destination ≠ u
              ∧ (s.pending_requests f.destination).state = LIP_MESSAGE_PENDING)
            ∨ f.destination = s.downstream_device_cfg.logical_addr)
        ∧ (u ≠ s.downstream_device_cfg.logical_addr → ∀ f ∈ fs, f.destination ≠ u)
        ∧ ((∀ i ∈ slot_indices, i ≠ u →
              (s.pending_requests i).state ≠ LIP_MESSAGE_PENDING) → fs = [])
        ∧ (∀ i ∈ slot_indices, (s2.pending_requests i).state = LIP_MESSAGE_PENDING →
            ∃ j ∈ slot_indices, (s2.pending_requests j).state = LIP_MESSAGE_SENT))
    ∧ (addressed_to s R LIP_OPCODE_REPORT_VIDEO_LATENCY →
      lip_get_command_opcode (s.pending_requests u).msg = LIP_OPCODE_REQUEST_AUDIO_LATENCY →
      (lip_handle_report_video_latency (lip_cec_cmd_received (fuel + 1) now) now s R []).map
          (fun r => r.2) = some ([], false)
      ∧ ∃ s2 fs, lip_cec_cmd_received (fuel + 2) now s R = some (s2, 1)
        ∧ s2.tx = s.tx ++ fs
        ∧ s2.pending_requests u = { (s.pending_requests u) with state := LIP_MESSAGE_HANDLED }
        ∧ (∀ f ∈ fs,
            (f.destination ∈ slot_indices ∧ f.destination ≠ u
              ∧ (s.pending_requests f.destination).state = LIP_MESSAGE_PENDING)
            ∨ f.destination = s.downstream_device_cfg.logical_addr)
        ∧ (u ≠ s.downstream_device_cfg.logical_addr → ∀ f ∈ fs, f.destination ≠ u)
        ∧ ((∀ i ∈ slot_indices, i ≠ u →
              (s.pending_requests i).state ≠ LIP_MESSAGE_PENDING) → fs = [])
        ∧ (∀ i ∈ slot_indices, (s2.pending_requests i).state = LIP_MESSAGE_PENDING →
            ∃ j ∈ slot_indices, (s2.pending_requests j).state = LIP_MESSAGE_SENT)) := by
  refine ⟨fun hR hop => ?_, fun hR hop => ?_⟩
  · obtain ⟨s2, fs, e1, e2, e3, e4, e5, e6⟩ :=
      finish_completed_silently fuel now (cache_store_audio s (R.byte 4)) u hwf hst
    obtain ⟨s', g1, -⟩ := lip_reply_for_pending_cmd_received_spec fuel now
      (cache_store_audio s (R.byte 4)) u LIP_MESSAGE_HANDLED hwf (by decide) (by decide)
    refine ⟨?_, s2, fs, ?_, e2, e3, e5, fun hud f hf => ?_, e6, e4⟩
    · rw [report_audio_mismatch _ now s R [] u hwf hu hs hop, g1]
      rfl
    · rw [received_report_audio (fuel + 1) now s R hR hst,
        report_audio_mismatch _ now s R [] u hwf hu hs hop, Option.map_map]
      exact e1
    · rcases e5 f hf with ⟨-, a, -⟩ | b
      · exact a
      · intro c
        exact hud (c.symm.trans b)
  · obtain ⟨s2, fs, e1, e2, e3, e4, e5, e6⟩ :=
      finish_completed_silently fuel now (cache_store_video s (R.byte 4)) u hwf hst
    obtain ⟨s', g1, -⟩ := lip_reply_for_pending_cmd_received_spec fuel now
      (cache_store_video s (R.byte 4)) u LIP_MESSAGE_HANDLED hwf (by decide) (by decide)
    refine ⟨?_, s2, fs, ?_, e2, e3, e5, fun hud f hf => ?_, e6, e4⟩
    · rw [report_video_mismatch _ now s R [] u hwf hu hs hop, g1]
      rfl
    · rw [received_report_video (fuel + 1) now s R hR hst,
        report_video_mismatch _ now s R [] u hwf hu hs hop, Option.map_map]
      exact e1
    · rcases e5 f hf with ⟨-, a, -⟩ | b
      · exact a
      · intro c
        exact hud (c.symm.trans b)

theorem mismatched_report_completes_silently_witness :
    S2_video_queued.state = LIP_SUPPORTED
      ∧ (S2_video_queued.pending_requests 1).state = LIP_MESSAGE_SENT
      ∧ lip_get_command_opcode (S2_video_queued.pending_requests 1).msg
          = LIP_OPCODE_REQUEST_VIDEO_LATENCY
      ∧ addressed_to S2_video_queued (report_audio_frame 9) LIP_OPCODE_REPORT_AUDIO_LATENCY
      ∧ ∃ s2 fs, lip_cec_cmd_received 2 30 S2_video_queued (report_audio_frame 9)
            = some (s2, 1)
          ∧ s2.tx = S2_video_queued.tx ++ fs
          ∧ s2.pending_requests 1
              = { (S2_video_queued.pending_requests 1) with state := LIP_MESSAGE_HANDLED }
          ∧ (1 ≠ S2_video_queued.downstream_device_cfg.logical_addr →
              ∀ f ∈ fs, f.destination ≠ 1) := by
  obtain ⟨-, s2, fs, e1, e2, e3, -, e5, -⟩ :=
    (mismatched_report_completes_silently 0 30 S2_video_queued (report_audio_frame 9) 1
      (by decide)
      (reachable_wf _ (reachable_core_of 0 25 _ _
        (reachable_core_of 0 20 _ _ S2_supported_reachable)))
      (by decide) (by decide)).1 (by decide) (by decide)
  exact ⟨by decide, by decide, by decide, by decide, s2, fs, e1, e2, e3, e5⟩

/-- C35, failing input: peer 6 sends REQUEST_VIDEO_LATENCY(vic 4), which is put in flight
(slot 6 SENT); a public `dlb_lip_get_video_latency(vic 7)` queues the own request (slot 5
PENDING); peer 7 sends REQUEST_VIDEO_LATENCY(vic 9), which is queued (slot 7 PENDING); the
downstream device sends REPORT_AUDIO_LATENCY(9).  Slot 6 becomes HANDLED and nothing is
transmitted to peer 6, as claimed; but the PENDING slot with the lowest index, slot 5, is
neither promoted nor answered from the cache: its stored frame is addressed to the
downstream device, the re-dispatch drops it, and the slot ends HANDLED with nothing
transmitted for it (the cache has no entry for vic 7).  The slot that is promoted is
slot 7. -/
theorem lowest_pending_slot_dropped_counterexample :
    Reachable S2_mismatch_queued
      ∧ S2_mismatch_queued.state = LIP_SUPPORTED
      ∧ (S2_mismatch_queued.pending_requests 6).state = LIP_MESSAGE_SENT
      ∧ lip_get_command_opcode (S2_mismatch_queued.pending_requests 6).msg
          = LIP_OPCODE_REQUEST_VIDEO_LATENCY
      ∧ (S2_mismatch_queued.pending_requests 5).state = LIP_MESSAGE_PENDING
      ∧ (S2_mismatch_queued.pending_requests 7).state = LIP_MESSAGE_PENDING
      ∧ (∀ i ∈ slot_indices, i < 5 →
          (S2_mismatch_queued.pending_requests i).state ≠ LIP_MESSAGE_PENDING)
      ∧ addressed_to S2_mismatch_queued (report_audio_frame 9) LIP_OPCODE_REPORT_AUDIO_LATENCY
      ∧ (S2_mismatch_answered.pending_requests 6).state = LIP_MESSAGE_HANDLED
      ∧ (S2_mismatch_answered.pending_requests 5).state = LIP_MESSAGE_HANDLED
      ∧ (S2_mismatch_answered.pending_requests 7).state = LIP_MESSAGE_SENT
      ∧ (S2_mismatch_answered.tx.drop S2_mismatch_queued.tx.length).map wire
          = [(5, 0, 0xA0, [0, 0xD0, 0x46, 0x16, 9, 0])]
      ∧ dlb_cache_get_video_latency S2_mismatch_answered.downstream_device_cfg.latency_cache
          ⟨7, 0, 0⟩ 255 = some (false, 255) :=
  ⟨reachable_core_of 0 24 _ _
      (Reachable.step _ _ (reachable_core_of 0 20 _ _ S2_supported_reachable)
        (Step.get_video_latency 22 S2_mismatch_in_flight ⟨7, 0, 0⟩)),
    by decide, by decide, by decide, by decide, by decide, by decide, by decide, by decide,
    by decide, by decide, by decide, by decide⟩

/-! ## C36 -/

/-- C36: no queued request is stranded by the completion of a request in flight.  On a
well-formed table in state SUPPORTED, every run of `lip_reply_for_pending_cmd_received`
(the completion of slot `source` by a report, a Feature Abort or the timeout, with a new
state other than PENDING and SENT) returns, and afterwards every slot that is PENDING
waits behind a slot that is SENT: the drain re-dispatches the queued requests in index
order until one of them is put in flight.  The completion step of a public query
(`dlb_lip_query_wait_done`) keeps the property when the own slot is not SENT; when the
own slot is SENT (the wait of the query timed out before the timer fired) it does not. -/
theorem queued_request_behind_sent_after_completion (fuel now : Nat) (s : dlb_lip)
    (source : Int) (new_state : dlb_lip_pending_message_state)
    (hwf : pending_table_wf s.pending_requests) (hst : s.state = LIP_SUPPORTED)
    (h1 : new_state ≠ LIP_MESSAGE_SENT) (h2 : new_state ≠ LIP_MESSAGE_PENDING) :
    (∃ s', lip_reply_for_pending_cmd_received (lip_cec_cmd_received (fuel + 1) now) now s
          source new_state = some s'
      ∧ s'.state = LIP_SUPPORTED
      ∧ (∀ i ∈ slot_indices, (s'.pending_requests i).state = LIP_MESSAGE_PENDING →
          ∃ j ∈ slot_indices, (s'.pending_requests j).state = LIP_MESSAGE_SENT)
      ∧ no_request_stranded s')
    ∧ ((s.pending_requests s.cec_bus.logical_address).state ≠ LIP_MESSAGE_SENT →
        no_request_stranded s → no_request_stranded (dlb_lip_query_wait_done s).1) := by
  constructor
  · obtain ⟨s', e1, -, e3, -⟩ :=
      lip_reply_for_pending_cmd_received_more fuel now s source new_state hwf hst h1 h2
    obtain ⟨s0, g1, -, g3, -⟩ :=
      lip_reply_for_pending_cmd_received_spec fuel now s source new_state hwf h1 h2
    have hs : s0 = s' := Option.some.inj (g1.symm.trans e1)
    subst hs
    refine ⟨s0, e1, by rw [g3.2.2.2.1]; exact hst, e3, ?_⟩
    rintro ⟨i, hi, hp, -⟩
    exact e3 i hi hp
  · intro hown hns
    rintro ⟨i, hi, hp, hop⟩
    have hio : i ≠ s.cec_bus.logical_address := by
      intro e
      rw [e] at hp
      simp [dlb_lip_query_wait_done] at hp
    have hp' : (s.pending_requests i).state = LIP_MESSAGE_PENDING := by
      simpa [dlb_lip_query_wait_done, Function.update_noteq hio] using hp
    have hop' : lip_get_command_opcode (s.pending_requests i).msg
          = LIP_OPCODE_REQUEST_AV_LATENCY
        ∨ lip_get_command_opcode (s.pending_requests i).msg = LIP_OPCODE_REQUEST_AUDIO_LATENCY
        ∨ lip_get_command_opcode (s.pending_requests i).msg
          = LIP_OPCODE_REQUEST_VIDEO_LATENCY := by
      simpa [dlb_lip_query_wait_done, Function.update_noteq hio] using hop
    obtain ⟨j, hj, hjs⟩ := hns ⟨i, hi, hp', hop'⟩
    have hjo : j ≠ s.cec_bus.logical_address := by
      intro e
      rw [e] at hjs
      exact hown hjs
    exact ⟨j, hj, by simpa [dlb_lip_query_wait_done, Function.update_noteq hjo] using hjs⟩

theorem queued_request_behind_sent_after_completion_witness :
    S2_video_queued.state = LIP_SUPPORTED
      ∧ (S2_video_queued.pending_requests 1).state = LIP_MESSAGE_SENT
      ∧ (S2_video_queued.pending_requests 2).state = LIP_MESSAGE_PENDING
      ∧ ∃ s', lip_reply_for_pending_cmd_received (lip_cec_cmd_received 1 30) 30
            S2_video_queued 1 LIP_MESSAGE_HANDLED = some s'
          ∧ s'.state = LIP_SUPPORTED
          ∧ (∀ i ∈ slot_indices, (s'.pending_requests i).state = LIP_MESSAGE_PENDING →
              ∃ j ∈ slot_indices, (s'.pending_requests j).state = LIP_MESSAGE_SENT)
          ∧ no_request_stranded s' :=
  ⟨by decide, by decide, by decide,
    (queued_request_behind_sent_after_completion 0 30 S2_video_queued 1 LIP_MESSAGE_HANDLED
      (reachable_wf _ (reachable_core_of 0 25 _ _
        (reachable_core_of 0 20 _ _ S2_supported_reachable)))
      (by decide) (by decide) (by decide)).1⟩

/-- C36, failing input: in the reachable core `S2_queued` (state SUPPORTED) the own
request of a public query is SENT in slot 5 and the REQUEST_AV_LATENCY of peer 1 waits
PENDING in slot 1.  When the wait of the query ends without an answer, the query sets its
own slot to HANDLED and returns: in the core after that step slot 1 is still PENDING with
its latency request, no slot is SENT, and the timer callback that fires next finds no
SENT slot and leaves the table as it is, so the queued request is neither promoted nor
aborted. -/
theorem queued_request_stranded_counterexample :
    Reachable S2_queued
      ∧ S2_queued.state = LIP_SUPPORTED
      ∧ no_request_stranded S2_queued
      ∧ Reachable (dlb_lip_query_wait_done S2_queued).1
      ∧ (dlb_lip_query_wait_done S2_queued).1.state = LIP_SUPPORTED
      ∧ ((dlb_lip_query_wait_done S2_queued).1.pending_requests 1).state
          = LIP_MESSAGE_PENDING
      ∧ lip_get_command_opcode ((dlb_lip_query_wait_done S2_queued).1.pending_requests 1).msg
          = LIP_OPCODE_REQUEST_AV_LATENCY
      ∧ (∀ j ∈ slot_indices,
          ((dlb_lip_query_wait_done S2_queued).1.pending_requests j).state
            ≠ LIP_MESSAGE_SENT)
      ∧ ¬ no_request_stranded (dlb_lip_query_wait_done S2_queued).1
      ∧ ((core_of (dlb_lip_timer_callback (lip_cec_cmd_received 1 2015) 2015
            (dlb_lip_query_wait_done S2_queued).1
            (dlb_lip_query_wait_done S2_queued).1.callback_id true)
          (dlb_lip_query_wait_done S2_queued).1).pending_requests 1).state
          = LIP_MESSAGE_PENDING
      ∧ (core_of (dlb_lip_timer_callback (lip_cec_cmd_received 1 2015) 2015
            (dlb_lip_query_wait_done S2_queued).1
            (dlb_lip_query_wait_done S2_queued).1.callback_id true)
          (dlb_lip_query_wait_done S2_queued).1).tx = S2_queued.tx :=
  ⟨S2_queued_reachable, by decide, by decide,
    Reachable.step _ _ S2_queued_reachable (Step.query_wait_done S2_queued), by decide,
    by decide, by decide, by decide, by decide, by decide, by decide⟩

/-! ## C37 -/

/-- C37: a public query and its own slot.  Let the own slot be HANDLED when
`dlb_lip_get_av_latency`, `dlb_lip_get_audio_latency` or `dlb_lip_get_video_latency` is
called, and let the other threads leave the bus of the core alone while the caller waits.
If the call returns, then the own slot is HANDLED again, unless the call returned 1
because the bus refused the request frame of its last round (`last_transmit_refused`):
the outcomes cache hit, answer received, abort and timeout release the slot, and so does
a call that does not enter its loop (invalid format, downstream address unknown).  The
failure of the bus transmit is the one outcome that does not. -/
theorem public_query_releases_own_slot (fuel : Nat) (now : Nat → Nat)
    (env : Nat → dlb_lip → dlb_lip) (s : dlb_lip)
    (vf : dlb_lip_video_format) (af : dlb_lip_audio_format) (v a : Nat)
    (henv : ∀ k c, (env k c).cec_bus = c.cec_bus)
    (hown : (s.pending_requests s.cec_bus.logical_address).state = LIP_MESSAGE_HANDLED) :
    (∀ r, dlb_lip_get_av_latency fuel now env s vf af v a = some r →
      (r.1.pending_requests s.cec_bus.logical_address).state = LIP_MESSAGE_HANDLED
        ∨ (r.2.1 = 1 ∧ last_transmit_refused r.1))
    ∧ (∀ r, dlb_lip_get_audio_latency fuel now env s af a = some r →
      (r.1.pending_requests s.cec_bus.logical_address).state = LIP_MESSAGE_HANDLED
        ∨ (r.2.1 = 1 ∧ last_transmit_refused r.1))
    ∧ (∀ r, dlb_lip_get_video_latency fuel now env s vf v = some r →
      (r.1.pending_requests s.cec_bus.logical_address).state = LIP_MESSAGE_HANDLED
        ∨ (r.2.1 = 1 ∧ last_transmit_refused r.1)) := by
  refine ⟨fun r h => ?_, fun r h => ?_, fun r h => ?_⟩
  · unfold dlb_lip_get_av_latency at h
    simp only at h
    split_ifs at h with he
    · obtain ⟨q, hq, rfl⟩ := Option.map_eq_some'.1 h
      exact (query_loop_released _ env s.cec_bus
        (fun k c hb ho => by
          have := get_av_latency_round_released (now k) c vf af (by rw [hb]; exact ho)
          rw [hb] at this
          exact this) henv fuel 0 s q rfl hown hq).2
    · simp only [Option.some.injEq] at h
      rw [← h]
      exact Or.inl hown
  · unfold dlb_lip_get_audio_latency at h
    simp only at h
    split_ifs at h with he
    · obtain ⟨q, hq, rfl⟩ := Option.map_eq_some'.1 h
      exact (query_loop_released _ env s.cec_bus
        (fun k c hb ho => by
          have := get_audio_latency_round_released (now k) c af (by rw [hb]; exact ho)
          rw [hb] at this
          exact this) henv fuel 0 s q rfl hown hq).2
    · simp only [Option.some.injEq] at h
      rw [← h]
      exact Or.inl hown
  · unfold dlb_lip_get_video_latency at h
    simp only at h
    split_ifs at h with he
    · obtain ⟨q, hq, rfl⟩ := Option.map_eq_some'.1 h
      exact (query_loop_released _ env s.cec_bus
        (fun k c hb ho => by
          have := get_video_latency_round_released (now k) c vf (by rw [hb]; exact ho)
          rw [hb] at this
          exact this) henv fuel 0 s q rfl hown hq).2
    · simp only [Option.some.injEq] at h
      rw [← h]
      exact Or.inl hown

theorem public_query_releases_own_slot_witness :
    (S2_supported.pending_requests S2_supported.cec_bus.logical_address).state
        = LIP_MESSAGE_HANDLED
      ∧ (dlb_lip_get_video_latency 3 (fun _ => 40) (fun _ c => c) S2_supported ⟨4, 0, 0⟩
          0).isSome = true
      ∧ ∀ r, dlb_lip_get_video_latency 3 (fun _ => 40) (fun _ c => c) S2_supported ⟨4, 0, 0⟩
            0 = some r →
          (r.1.pending_requests S2_supported.cec_bus.logical_address).state
              = LIP_MESSAGE_HANDLED
            ∨ (r.2.1 = 1 ∧ last_transmit_refused r.1) :=
  ⟨by decide, by decide,
    (public_query_releases_own_slot 3 (fun _ => 40) (fun _ c => c) S2_supported ⟨4, 0, 0⟩
      ⟨1, 0, 0⟩ 0 0 (fun _ _ => rfl) (by decide)).2.2⟩

/-- C37, failing input: on a bus that refuses the REQUEST_VIDEO_LATENCY frame, the call
`dlb_lip_get_video_latency(vic 4)` on the reachable core `S2_refused_supported` (own slot
HANDLED) puts the own request in flight, fails to transmit it and returns 1 after that one round
with the own slot still SENT and the timer armed.  When the timer fires the slot becomes
ABORT_RECEIVED, and nothing resets it: a later `dlb_lip_get_audio_latency`, whose frame
the bus would accept, finds the own slot busy in every round and never returns. -/
theorem own_slot_left_sent_counterexample :
    Reachable S2_refused_supported
      ∧ (S2_refused_supported.pending_requests 5).state = LIP_MESSAGE_HANDLED
      ∧ S2_refused_supported.cec_bus.logical_address = 5
      ∧ (dlb_lip_get_video_latency 3 (fun _ => 40) (fun _ c => c) S2_refused_supported
            ⟨4, 0, 0⟩ 0).map (fun r => ((r.1.pending_requests 5).state, r.2))
          = some (LIP_MESSAGE_SENT, 1, 255)
      ∧ (S2_refused_after_query.tx.drop S2_refused_supported.tx.length).map wire
          = [(5, 0, 0xA0, [0, 0xD0, 0x46, 0x16, 4, 0])]
      ∧ (S2_refused_after_query.pending_requests 5).state = LIP_MESSAGE_SENT
      ∧ S2_refused_after_query.timer.timeout_ms = 2000
      ∧ Reachable S2_refused_timed_out
      ∧ (S2_refused_timed_out.pending_requests 5).state = LIP_MESSAGE_ABORT_RECEIVED
      ∧ ∀ (fuel : Nat) (now : Nat → Nat),
          dlb_lip_get_audio_latency fuel now (fun _ c => c) S2_refused_timed_out ⟨1, 0, 0⟩ 0
            = none := by
  have hr : Reachable S2_refused_supported :=
    reachable_core_of 0 10 _ _
      (Reachable.step _ _
        (Reachable.opened S2_config scenario_callbacks refusing_bus 0 S2_refused_opened rfl)
        (Step.worker 0 S2_refused_opened ⟨0, false⟩))
  refine ⟨hr, by decide, by decide, by decide, by decide, by decide, by decide,
    reachable_timer_fired 2040 _ _
      (Reachable.step _ _ hr (Step.get_video_latency 40 S2_refused_supported ⟨4, 0, 0⟩)),
    by decide, fun fuel now => ?_⟩
  unfold dlb_lip_get_audio_latency
  simp only
  rw [if_pos (by decide)]
  rw [query_loop_blocked _ _ S2_refused_timed_out
    (fun k => get_audio_latency_round_blocked (now k) S2_refused_timed_out ⟨1, 0, 0⟩
      (by decide) (by decide))
    (fun _ => rfl)]
  rfl

/-! ## C38 -/

/-- C38: no duplicates in the upstream array, as far as it holds.  Starting from the
array that `dlb_lip_open` leaves (sixteen entries UNKNOWN), after any sequence of
`lip_add_upstream_device` calls with addresses other than UNKNOWN followed by any sequence
of `lip_remove_upstream_device` calls (with any address, BROADCAST and UNKNOWN included),
no logical address other than UNKNOWN occurs in more than one entry.  The adds keep the
array packed (distinct addresses in front of the free entries), and a removal never
increases the number of entries that hold an address; the claim fails as soon as an add
follows a removal that freed an entry in front of the added address. -/
theorem upstream_no_duplicates_adds_then_removes (adds removes : List Int)
    (h : ∀ a ∈ adds, a ≠ DLB_LOGICAL_ADDR_UNKNOWN) :
    upstream_no_duplicates
        (removes.foldl upstream_remove (adds.foldl upstream_add upstream_empty))
      ∧ upstream_packed (adds.foldl upstream_add upstream_empty)
      ∧ ∀ (up : List Int) (rm a : Int), a ≠ DLB_LOGICAL_ADDR_UNKNOWN →
          (upstream_remove up rm).count a ≤ up.count a :=
  ⟨upstream_removes_no_duplicates removes _
      (upstream_packed_no_duplicates _
        (upstream_adds_packed adds h _ (upstream_packed_of_unknown _ (by decide)))),
    upstream_adds_packed adds h _ (upstream_packed_of_unknown _ (by decide)),
    fun up rm a ha => upstream_remove_count_le up rm a ha⟩

theorem upstream_no_duplicates_adds_then_removes_witness :
    S2_opened.upstream_devices_addresses = upstream_empty
      ∧ [4, 1, 4, 2].foldl upstream_add upstream_empty
          = [4, 1, 2] ++ List.replicate 13 DLB_LOGICAL_ADDR_UNKNOWN
      ∧ upstream_no_duplicates
          ([1, DLB_LOGICAL_ADDR_BROADCAST].foldl upstream_remove
            ([4, 1, 4, 2].foldl upstream_add upstream_empty)) :=
  ⟨by decide, by decide,
    (upstream_no_duplicates_adds_then_removes [4, 1, 4, 2] [1, DLB_LOGICAL_ADDR_BROADCAST]
      (by decide)).1⟩

/-- C38, failing input: add 4, add 1, remove 4, add 1.  The removal frees entry 0, and
`lip_add_upstream_device` writes peer 1 into that first free entry although entry 1 holds
it already, so peer 1 occurs in two entries.  The same array arises in the reachable core
`S2_peer_twice` (peers 4 and 1 register, `dlb_lip_set_config` removes peer 4, peer 1 sends
REQUEST_LIP_SUPPORT again), and the next UPDATE_UUID of the downstream device is then
forwarded to peer 1 twice. -/
theorem upstream_duplicate_counterexample :
    upstream_add (upstream_remove (upstream_add (upstream_add upstream_empty 4) 1) 4) 1
        = [1, 1] ++ List.replicate 14 DLB_LOGICAL_ADDR_UNKNOWN
      ∧ ¬ upstream_no_duplicates
          (upstream_add (upstream_remove (upstream_add (upstream_add upstream_empty 4) 1) 4) 1)
      ∧ Reachable S2_peer_twice
      ∧ S2_peer_twice.upstream_devices_addresses
          = [1, 1] ++ List.replicate 14 DLB_LOGICAL_ADDR_UNKNOWN
      ∧ ((core_of (lip_cec_cmd_received 2 50 S2_peer_twice S4_update)
            S2_peer_twice).tx.drop S2_peer_twice.tx.length).map wire
          = [(5, 1, 0xA0, [0, 0xD0, 0x46, 0x18, 0, 0x12, 0x34, 0, 0]),
             (5, 1, 0xA0, [0, 0xD0, 0x46, 0x18, 0, 0x12, 0x34, 0, 0])] := by
  refine ⟨by decide, fun h => ?_, S2_peer_twice_reachable, by decide, by decide⟩
  exact absurd (h 1 (by decide)) (by decide)

/-! ## C39 -/

/-- C39: the opcode of the reply to the upstream peer.  In state SUPPORTED on a
well-formed table, let the SENT slot `u` belong to an upstream peer.  A REPORT_AV_LATENCY
from downstream completes the slot with a reply to `u` that is a REPORT_AV_LATENCY
whatever the stored request is.  A REPORT_AUDIO_LATENCY completes a slot that does not
hold a REQUEST_VIDEO_LATENCY with a reply to `u` that is a REPORT_AUDIO_LATENCY if the
stored request is REQUEST_AUDIO_LATENCY and a REPORT_AV_LATENCY if it is
REQUEST_AV_LATENCY; a REPORT_VIDEO_LATENCY completes a slot that does not hold a
REQUEST_AUDIO_LATENCY with a reply to `u` that is a REPORT_VIDEO_LATENCY if the stored
request is REQUEST_VIDEO_LATENCY and a REPORT_AV_LATENCY if it is REQUEST_AV_LATENCY.  The
reply is the last frame transmitted; the frames before it belong to the requests that
waited PENDING. -/
theorem reply_opcode_of_report (fuel now : Nat) (s : dlb_lip) (R : dlb_cec_message) (u : Int)
    (hst : s.state = LIP_SUPPORTED) (hwf : pending_table_wf s.pending_requests)
    (hu : u ∈ slot_indices) (hs : (s.pending_requests u).state = LIP_MESSAGE_SENT)
    (hown : u ≠ s.cec_bus.logical_address) :
    (addressed_to s R LIP_OPCODE_REPORT_AV_LATENCY →
      ∃ s2 fs reply, lip_cec_cmd_received (fuel + 2) now s R = some (s2, 1)
        ∧ s2.tx = s.tx ++ fs ++ [reply] ∧ reply.destination = u
        ∧ lip_get_command_opcode reply = LIP_OPCODE_REPORT_AV_LATENCY)
    ∧ (addressed_to s R LIP_OPCODE_REPORT_AUDIO_LATENCY →
      lip_get_command_opcode (s.pending_requests u).msg ≠ LIP_OPCODE_REQUEST_VIDEO_LATENCY →
      ∃ s2 fs reply, lip_cec_cmd_received (fuel + 2) now s R = some (s2, 1)
        ∧ s2.tx = s.tx ++ fs ++ [reply] ∧ reply.destination = u
        ∧ lip_get_command_opcode reply
            = (if lip_get_command_opcode (s.pending_requests u).msg
                  = LIP_OPCODE_REQUEST_AUDIO_LATENCY
               then LIP_OPCODE_REPORT_AUDIO_LATENCY else LIP_OPCODE_REPORT_AV_LATENCY))
    ∧ (addressed_to s R LIP_OPCODE_REPORT_VIDEO_LATENCY →
      lip_get_command_opcode (s.pending_requests u).msg ≠ LIP_OPCODE_REQUEST_AUDIO_LATENCY →
      ∃ s2 fs reply, lip_cec_cmd_received (fuel + 2) now s R = some (s2, 1)
        ∧ s2.tx = s.tx ++ fs ++ [reply] ∧ reply.destination = u
        ∧ lip_get_command_opcode reply
            = (if lip_get_command_opcode (s.pending_requests u).msg
                  = LIP_OPCODE_REQUEST_VIDEO_LATENCY
               then LIP_OPCODE_REPORT_VIDEO_LATENCY else LIP_OPCODE_REPORT_AV_LATENCY))
    ∧ (lip_get_command_opcode (s.pending_requests u).msg = LIP_OPCODE_REQUEST_AV_LATENCY
        ∨ lip_get_command_opcode (s.pending_requests u).msg = LIP_OPCODE_REQUEST_AUDIO_LATENCY
        ∨ lip_get_command_opcode (s.pending_requests u).msg
            = LIP_OPCODE_REQUEST_VIDEO_LATENCY) := by
  have hini := sent_slot_initiator s hwf u hu hs
  refine ⟨fun hR => ?_, fun hR hop => ?_, fun hR hop => ?_, ((hwf.2 u hu).2 hs).2.2⟩
  · obtain ⟨s2, fs, e1, e2, -⟩ := received_report_av_in_flight fuel now s R u hR hst hwf hu hs hown
    refine ⟨s2, fs, _, e1, e2, ?_, (build_av_reply_frame _ u).1⟩
    rw [(build_av_reply_frame _ u).2]
    exact hini
  · obtain ⟨s2, fs, e1, e2, -⟩ :=
      received_report_audio_in_flight fuel now s R u hR hst hwf hu hs hown hop
    refine ⟨s2, fs, _, e1, e2, ?_, ?_⟩
    · split_ifs
      · rw [(build_audio_reply_frame _ u).2]; exact hini
      · rw [(build_av_reply_frame _ u).2]; exact hini
    · split_ifs
      · exact (build_audio_reply_frame _ u).1
      · exact (build_av_reply_frame _ u).1
  · obtain ⟨s2, fs, e1, e2, -⟩ :=
      received_report_video_in_flight fuel now s R u hR hst hwf hu hs hown hop
    refine ⟨s2, fs, _, e1, e2, ?_, ?_⟩
    · split_ifs
      · rw [(build_video_reply_frame _ u).2]; exact hini
      · rw [(build_av_reply_frame _ u).2]; exact hini
    · split_ifs
      · exact (build_video_reply_frame _ u).1
      · exact (build_av_reply_frame _ u).1

theorem reply_opcode_of_report_witness :
    S2_in_flight.state = LIP_SUPPORTED
      ∧ (S2_in_flight.pending_requests 1).state = LIP_MESSAGE_SENT
      ∧ addressed_to S2_in_flight S2_report LIP_OPCODE_REPORT_AV_LATENCY
      ∧ ∃ s2 fs reply, lip_cec_cmd_received 2 30 S2_in_flight S2_report = some (s2, 1)
          ∧ s2.tx = S2_in_flight.tx ++ fs ++ [reply] ∧ reply.destination = 1
          ∧ lip_get_command_opcode reply = LIP_OPCODE_REPORT_AV_LATENCY :=
  ⟨by decide, by decide, by decide,
    (reply_opcode_of_report 0 30 S2_in_flight S2_report 1 (by decide)
      (reachable_wf _ S2_in_flight_reachable) (by decide) (by decide) (by decide)).1
      (by decide)⟩

/-- C39, counterexample: peer 1 sends REQUEST_VIDEO_LATENCY(vic 4), which is put in flight
(slot 1 SENT holding a REQUEST_VIDEO_LATENCY); the downstream device answers with
REPORT_AV_LATENCY(video 30, audio 5).  The slot is completed with a reply, and the frame
transmitted to peer 1 is a REPORT_AV_LATENCY (opcode 0x13), not a REPORT_VIDEO_LATENCY. -/
theorem reply_opcode_counterexample :
    Reachable S2_video_in_flight
      ∧ (S2_video_in_flight.pending_requests 1).state = LIP_MESSAGE_SENT
      ∧ lip_get_command_opcode (S2_video_in_flight.pending_requests 1).msg
          = LIP_OPCODE_REQUEST_VIDEO_LATENCY
      ∧ addressed_to S2_video_in_flight S2_report LIP_OPCODE_REPORT_AV_LATENCY
      ∧ (S2_video_answered_av.pending_requests 1).state = LIP_MESSAGE_HANDLED
      ∧ (S2_video_answered_av.tx.drop S2_video_in_flight.tx.length).map wire
          = [(5, 1, 0xA0, [0, 0xD0, 0x46, 0x13, 30, 0])]
      ∧ (S2_video_answered_av.tx.drop S2_video_in_flight.tx.length).map lip_get_command_opcode
          = [LIP_OPCODE_REPORT_AV_LATENCY] :=
  ⟨reachable_core_of 0 20 _ _ S2_supported_reachable, by decide, by decide, by decide,
    by decide, by decide, by decide⟩

/-! ## C40 -/

/-- C40: every frame the encoders build passes the node's own decoder checks.  For all
arguments whose video format has `color_format < LIP_COLOR_FORMAT_COUNT` and any 64-byte
frame buffer, each of the eight `dlb_lip_build_*` builders returns a frame with CEC
opcode `VENDOR_COMMAND_WITH_ID` that `lip_validate_cmd_vendor_id` accepts, on which
`lip_get_command_opcode` reads the intended LIP opcode, and whose `msg_length` is at
least `lip_get_command_min_length` of that opcode and at most 9 (the lengths are 4, 7 or
8, 5 or 6, 6, 9, 6, 5 and 5); `lip_build_abort_cec_command` produces a `FEATURE_ABORT`
frame of length 2 whose two bytes are the aborted opcode and the reason (as `uint8_t`
cells).  The two builders that take a video format, `dlb_lip_build_request_av_latency`
and `dlb_lip_build_request_video_latency`, stop at the assertion of
`get_value_from_hdr_mode` and build no frame exactly when
`color_format >= LIP_COLOR_FORMAT_COUNT`. -/
theorem builders_pass_decoder_checks (c : dlb_cec_message) (i d : Int)
    (vf wf : dlb_lip_video_format) (af : dlb_lip_audio_format)
    (version uuid v a opcode reason : Nat) (update_uuid : Bool)
    (hl : c.data.length = CEC_BUS_MAX_MSG_LENGTH)
    (hcf : vf.color_format < LIP_COLOR_FORMAT_COUNT) :
    (passes_decoder_checks (dlb_lip_build_request_lip_support c i d)
        LIP_OPCODE_REQUEST_LIP_SUPPORT
      ∧ (dlb_lip_build_request_lip_support c i d).msg_length = 4)
    ∧ (∃ f, dlb_lip_build_request_av_latency c i d vf af = some f
      ∧ passes_decoder_checks f LIP_OPCODE_REQUEST_AV_LATENCY
      ∧ f.msg_length = if af.ext ≠ 0 ∨ af.subtype ≠ IEC61937_SUBTYPE_0 then 8 else 7)
    ∧ (passes_decoder_checks (dlb_lip_build_request_audio_latency c i d af)
        LIP_OPCODE_REQUEST_AUDIO_LATENCY
      ∧ (dlb_lip_build_request_audio_latency c i d af).msg_length
          = if af.ext ≠ 0 ∨ af.subtype ≠ IEC61937_SUBTYPE_0 then 6 else 5)
    ∧ (∃ f, dlb_lip_build_request_video_latency c i d vf = some f
      ∧ passes_decoder_checks f LIP_OPCODE_REQUEST_VIDEO_LATENCY
      ∧ f.msg_length = 6)
    ∧ (passes_decoder_checks
        (dlb_lip_build_report_lip_support_cmd c i d version uuid update_uuid)
        (if update_uuid then LIP_OPCODE_UPDATE_UUID else LIP_OPCODE_REPORT_LIP_SUPPORT)
      ∧ (dlb_lip_build_report_lip_support_cmd c i d version uuid update_uuid).msg_length
          = 9)
    ∧ (passes_decoder_checks (dlb_lip_build_report_av_latency_cmd c i d v a)
        LIP_OPCODE_REPORT_AV_LATENCY
      ∧ (dlb_lip_build_report_av_latency_cmd c i d v a).msg_length = 6)
    ∧ (passes_decoder_checks (dlb_lip_build_report_audio_latency_cmd c i d a)
        LIP_OPCODE_REPORT_AUDIO_LATENCY
      ∧ (dlb_lip_build_report_audio_latency_cmd c i d a).msg_length = 5)
    ∧ (passes_decoder_checks (dlb_lip_build_report_video_latency_cmd c i d v)
        LIP_OPCODE_REPORT_VIDEO_LATENCY
      ∧ (dlb_lip_build_report_video_latency_cmd c i d v).msg_length = 5)
    ∧ ((lip_build_abort_cec_command c i d opcode reason).opcode
        = DLB_CEC_OPCODE_FEATURE_ABORT
      ∧ (lip_build_abort_cec_command c i d opcode reason).msg_length = 2
      ∧ (lip_build_abort_cec_command c i d opcode reason).byte 0 = opcode % 256
      ∧ (lip_build_abort_cec_command c i d opcode reason).byte 1 = reason % 256)
    ∧ (dlb_lip_build_request_av_latency c i d wf af = none
        ↔ wf.color_format ≥ LIP_COLOR_FORMAT_COUNT)
    ∧ (dlb_lip_build_request_video_latency c i d wf = none
        ↔ wf.color_format ≥ LIP_COLOR_FORMAT_COUNT) := by
  obtain ⟨k1, k2, k3, k4, -, -⟩ := build_abort_frame c i d opcode reason hl
  exact ⟨build_request_lip_support_checks c i d hl,
    ⟨_, build_request_av_latency_some c i d vf af hcf,
      build_request_av_latency_checks c i d vf af hl⟩,
    build_request_audio_latency_checks c i d af hl,
    ⟨_, build_request_video_latency_some c i d vf hcf,
      build_request_video_latency_checks c i d vf hl⟩,
    build_report_lip_support_checks c i d version uuid update_uuid hl,
    build_report_av_latency_checks c i d v a hl,
    build_report_audio_latency_checks c i d a hl,
    build_report_video_latency_checks c i d v hl, ⟨k1, k2, k3, k4⟩,
    build_request_av_latency_none_iff c i d wf af,
    build_request_video_latency_none_iff c i d wf⟩

theorem builders_pass_decoder_checks_witness :
    empty_msg.data.length = CEC_BUS_MAX_MSG_LENGTH
      ∧ (∃ f, dlb_lip_build_request_av_latency empty_msg 5 0 ⟨4, 0, 0⟩ ⟨21, 1, 3⟩ = some f
        ∧ passes_decoder_checks f LIP_OPCODE_REQUEST_AV_LATENCY
        ∧ f.msg_length = 8)
      ∧ passes_decoder_checks
          (dlb_lip_build_report_lip_support_cmd empty_msg 5 1 0 0x12345678 true)
          LIP_OPCODE_UPDATE_UUID
      ∧ (lip_build_abort_cec_command empty_msg 5 1 0xA0 4).byte 1 = 4 := by
  have h := builders_pass_decoder_checks empty_msg 5 1 ⟨4, 0, 0⟩ ⟨4, 3, 0⟩ ⟨21, 1, 3⟩ 0
    0x12345678 30 5 0xA0 4 true (by decide) (by decide)
  have g := builders_pass_decoder_checks empty_msg 5 0 ⟨4, 0, 0⟩ ⟨4, 3, 0⟩ ⟨21, 1, 3⟩ 0
    0x12345678 30 5 0xA0 4 true (by decide) (by decide)
  exact ⟨by decide, g.2.1, h.2.2.2.2.1.1, h.2.2.2.2.2.2.2.2.1.2.2.2⟩

/-- C40, counterexample: for the video format with `vic = 4` and
`color_format = LIP_COLOR_FORMAT_COUNT` the two request builders that take a video
format stop at the assertion of `get_value_from_hdr_mode` and build no frame. -/
theorem request_builder_assertion_counterexample :
    get_value_from_hdr_mode ⟨4, LIP_COLOR_FORMAT_COUNT, 0⟩ = none
      ∧ dlb_lip_build_request_video_latency empty_msg 5 0 ⟨4, LIP_COLOR_FORMAT_COUNT, 0⟩
        = none
      ∧ dlb_lip_build_request_av_latency empty_msg 5 0 ⟨4, LIP_COLOR_FORMAT_COUNT, 0⟩
        ⟨1, 0, 0⟩ = none :=
  ⟨rfl, rfl, rfl⟩

end Lip
